import Mathlib

/-!
# nah2nah3: state machine, input dispatcher and renderer

A shallow embedding of `src/WIP/nah2nah3.c` (a six-game suite for a small
monochrome display) and theorems about its top-level state machine.

Conventions of the embedding

* `uint32_t` values are natural numbers; every subtraction and addition the
  source performs on them is taken modulo `2^32` (`sub32`, `add32`).
  `uint8_t` counters are natural numbers incremented modulo `256`.
* `int` values are integers (signed overflow is undefined in C and is not
  modelled).
* A fixed-size C array `T a[n]` is a function `Fin n → T`; `set1`, `set2`
  write one slot, `get1`, `get2` read one.  An access outside the bounds is
  undefined in C; here such a write changes nothing and such a read gives 0.
* `tick k` is the value returned by the `k`-th call of `furi_get_tick()`
  during one callback invocation (counted from 0), `rnd k` the value returned
  by the `k`-th call of `rand()` during that invocation.
* Drawing primitives, the vibration motor and the view port orientation are
  external collaborators; only the effect of a callback on the context is
  modelled.
-/

namespace Nah2Nah3

/-! ## Constants (lines 12-34) -/

def SCREEN_WIDTH : Int := 128
def SCREEN_HEIGHT : Int := 64
def PORTRAIT_WIDTH : Int := 64
def PORTRAIT_HEIGHT : Int := 128
def FPS_BASE : Int := 22
def MAX_STREAK_INT : Int := 9999
def COOLDOWN_MS : Nat := 180000
def NOTIFICATION_MS : Nat := 1500
def FIXED_POINT_SCALE : Int := 1000
def BACK_BUTTON_COOLDOWN : Nat := 500
def ORIENTATION_HOLD_MS : Nat := 1500
def LOADING_MS : Nat := 1500
def TAP_DRM_MS : Nat := 300
def MIN_SPEED_BPM : Int := 65
def WORLD_OBJ_LIMIT : Nat := 8

/-- The enum `GameState` (lines 37-49), in declaration order. -/
inductive GameState where
  | LOADING
  | TITLE
  | ROTATE
  | ZERO_HERO
  | FLIP_ZIP
  | LINE_CAR
  | FLIP_IQ
  | TECTONE_SIM
  | SPACE_FLIGHT
  | CREDITS
  | PAUSE
  deriving DecidableEq, Repr

/-! The enum `GameMode` (lines 52-59).  The field `selected_game` is assigned
the integer `selected_row * 2 + selected_side`, so modes are integers. -/

def GAME_MODE_ZERO_HERO : Int := 0
def GAME_MODE_FLIP_ZIP : Int := 1
def GAME_MODE_LINE_CAR : Int := 2
def GAME_MODE_FLIP_IQ : Int := 3
def GAME_MODE_TECTONE_SIM : Int := 4
def GAME_MODE_SPACE_FLIGHT : Int := 5

/-! The enum `Difficulty` (lines 62-66); the source does arithmetic on it. -/

def DIFFICULTY_EASY : Int := 0
def DIFFICULTY_MEDIUM : Int := 1
def DIFFICULTY_HARD : Int := 2

/-- The keys of the host's `InputKey` enum (its sentinel `InputKeyMAX` is not
a key and is never delivered). -/
inductive InputKey where
  | Up
  | Down
  | Right
  | Left
  | Ok
  | Back
  deriving DecidableEq, Repr

/-- The event kinds of the host's `InputType` enum (without its sentinel
`InputTypeMAX`). -/
inductive InputType where
  | Press
  | Release
  | Short
  | Long
  | Repeat
  deriving DecidableEq, Repr

/-- The host's `InputEvent`: which key, which kind. -/
structure InputEvent where
  key : InputKey
  type : InputType
  deriving DecidableEq, Repr

/-! ## Machine arithmetic -/

/-- Subtraction of two `uint32_t` values. -/
def sub32 (a b : Nat) : Nat := (a % 4294967296 + (4294967296 - b % 4294967296)) % 4294967296

/-- Addition of two `uint32_t` values. -/
def add32 (a b : Nat) : Nat := (a + b) % 4294967296

/-- Conversion of a `uint32_t` value to `int` (two's complement). -/
def toInt32 (n : Nat) : Int :=
  if n % 4294967296 < 2147483648 then (n % 4294967296 : Nat) else ((n % 4294967296 : Nat) : Int) - 4294967296

/-- Increment of a `uint8_t` counter. -/
def inc8 (n : Nat) : Nat := (n + 1) % 256

/-! ## Arrays -/

/-- Write of slot `i` of a one-dimensional array. -/
def set1 {α : Type} {n : Nat} (a : Fin n → α) (i : Int) (v : α) : Fin n → α :=
  fun k => if (k.val : Int) = i then v else a k

/-- Write of slot `[i][j]` of a two-dimensional array. -/
def set2 {α : Type} {m n : Nat} (a : Fin m → Fin n → α) (i j : Int) (v : α) : Fin m → Fin n → α :=
  fun k l => if (k.val : Int) = i ∧ (l.val : Int) = j then v else a k l

/-- Read of slot `i` of a one-dimensional array. -/
def get1 {α : Type} [Inhabited α] {n : Nat} (a : Fin n → α) (i : Int) : α :=
  if h : 0 ≤ i ∧ i.toNat < n then a ⟨i.toNat, h.2⟩ else default

/-- Read of slot `[i][j]` of a two-dimensional array. -/
def get2 {α : Type} [Inhabited α] {m n : Nat} (a : Fin m → Fin n → α) (i j : Int) : α :=
  if h : (0 ≤ i ∧ i.toNat < m) ∧ (0 ≤ j ∧ j.toNat < n) then a ⟨i.toNat, h.1.2⟩ ⟨j.toNat, h.2.2⟩
  else default

/-- The loop `for(k = i; k < i + n; k++) body`, as state passing. -/
def loop_from {σ : Type} (i : Nat) : Nat → (Nat → σ → σ) → σ → σ
  | 0, _, s => s
  | n + 1, body, s => loop_from (i + 1) n body (body i s)

/-- The loop `for(k = 0; k < n; k++) body`. -/
def for_loop {σ : Type} (n : Nat) (body : Nat → σ → σ) (s : σ) : σ := loop_from 0 n body s

/-! ## The context (lines 69-175) -/

/-- The struct `GameContext`, field for field. `notification_text` is the
C string held in the 32-byte buffer; `view_port` is the pointer (0 is NULL). -/
structure GameContext where
  state : GameState
  selected_game : Int
  is_left_handed : Bool
  last_input_time : Nat
  rapid_click_count : Nat
  game_start_time : Nat
  is_day : Bool
  day_night_toggle_time : Nat
  selected_side : Int
  selected_row : Int
  title_scroll_offset : Int
  back_hold_start : Nat
  rotate_start_time : Nat
  rotate_angle : Int
  zoom_factor : Int
  rotate_skip : Bool
  streak : Int
  prev_streak : Int
  highest_streak : Int
  streak_sum : Int
  streak_count : Int
  oflow : Int
  difficulty : Int
  last_difficulty_check : Nat
  key_columns : Fin 5 → Fin 8 → Int
  key_positions : Fin 5 → Fin 10 → Int
  is_holding : Fin 5 → Bool
  strum_hit : Fin 5 → Bool
  score : Int
  score_oflow : Int
  last_notification_time : Nat
  notification_text : String
  note_q_a : Nat
  notification_x : Int
  mascot_lane : Int
  mascot_y : Int
  speed_bpm : Int
  last_back_press : Nat
  is_jumping : Bool
  jump_progress : Int
  jump_scale : Int
  jump_hold_time : Nat
  successful_jumps : Int
  obstacles : Fin 5 → Fin 10 → Int
  obstacle_positions : Fin 5 → Fin 10 → Int
  last_tap_time : Nat
  tap_count : Int
  tap_window_start : Nat
  jump_y_accumulated : Int
  car_lane : Int
  car_y : Int
  car_angle : Int
  prev_car_lane : Int
  track_pieces : Fin 5 → Fin 8 → Int
  track_positions : Fin 5 → Fin 8 → Int
  uber_points : Int
  drift_multiplier : Int
  last_drift_time : Nat
  is_drifting : Bool
  fast_line : Int
  slow_line : Int
  ball_width : Int
  round_start_time : Nat
  floor_check_flag : Bool
  active_lanes : Int
  ball_count : Int
  balls_on_screen : Fin 8 → Int
  ball_sizes : Fin 8 → Int
  ball_broken : Fin 8 → Bool
  anger : Int
  based : Int
  cuteness : Int
  sad : Int
  emotion_cooldown : Nat
  tectone_x : Int
  move_cooldown : Nat
  last_move_time : Nat
  comment_heights : Fin 8 → Int
  comment_positions : Fin 8 → Int
  hype_train : Fin 8 → Bool
  hype_cooldown : Nat
  ship_health : Int
  ship_armor : Int
  screen_type : Int
  objects : Fin 8 → Fin 3 → Int
  last_sequence_time : Nat
  recent_inputs : Fin 5 → Int
  view_port : Nat
  should_exit : Bool
  last_back_press_time : Nat
  last_ai_update : Nat
  frame_counter : Nat
  start_back_count : Nat
  pause_back_count : Nat
  credits_y : Int
  ai_beat_counter : Nat

/-- The context right after `memset(ctx, 0, sizeof(GameContext))` (line 1951). -/
def zero_context : GameContext where
  state := GameState.LOADING
  selected_game := 0
  is_left_handed := false
  last_input_time := 0
  rapid_click_count := 0
  game_start_time := 0
  is_day := false
  day_night_toggle_time := 0
  selected_side := 0
  selected_row := 0
  title_scroll_offset := 0
  back_hold_start := 0
  rotate_start_time := 0
  rotate_angle := 0
  zoom_factor := 0
  rotate_skip := false
  streak := 0
  prev_streak := 0
  highest_streak := 0
  streak_sum := 0
  streak_count := 0
  oflow := 0
  difficulty := 0
  last_difficulty_check := 0
  key_columns := fun _ _ => 0
  key_positions := fun _ _ => 0
  is_holding := fun _ => false
  strum_hit := fun _ => false
  score := 0
  score_oflow := 0
  last_notification_time := 0
  notification_text := ""
  note_q_a := 0
  notification_x := 0
  mascot_lane := 0
  mascot_y := 0
  speed_bpm := 0
  last_back_press := 0
  is_jumping := false
  jump_progress := 0
  jump_scale := 0
  jump_hold_time := 0
  successful_jumps := 0
  obstacles := fun _ _ => 0
  obstacle_positions := fun _ _ => 0
  last_tap_time := 0
  tap_count := 0
  tap_window_start := 0
  jump_y_accumulated := 0
  car_lane := 0
  car_y := 0
  car_angle := 0
  prev_car_lane := 0
  track_pieces := fun _ _ => 0
  track_positions := fun _ _ => 0
  uber_points := 0
  drift_multiplier := 0
  last_drift_time := 0
  is_drifting := false
  fast_line := 0
  slow_line := 0
  ball_width := 0
  round_start_time := 0
  floor_check_flag := false
  active_lanes := 0
  ball_count := 0
  balls_on_screen := fun _ => 0
  ball_sizes := fun _ => 0
  ball_broken := fun _ => false
  anger := 0
  based := 0
  cuteness := 0
  sad := 0
  emotion_cooldown := 0
  tectone_x := 0
  move_cooldown := 0
  last_move_time := 0
  comment_heights := fun _ => 0
  comment_positions := fun _ => 0
  hype_train := fun _ => false
  hype_cooldown := 0
  ship_health := 0
  ship_armor := 0
  screen_type := 0
  objects := fun _ _ => 0
  last_sequence_time := 0
  recent_inputs := fun _ => 0
  view_port := 0
  should_exit := false
  last_back_press_time := 0
  last_ai_update := 0
  frame_counter := 0
  start_back_count := 0
  pause_back_count := 0
  credits_y := 0
  ai_beat_counter := 0

/-- The context of `nah2nah3_app` once its fields are set (lines 1951-1957)
and the view port is stored (line 1972): `t0` and `t1` are the two readings
of the tick counter, `vp` the view port. -/
def initial_context (t0 t1 vp : Nat) : GameContext :=
  { zero_context with
    state := GameState.LOADING
    game_start_time := t0 % 4294967296
    is_day := true
    day_night_toggle_time := add32 t1 300000
    mascot_lane := 2
    streak := 0
    view_port := vp }

/-- One pass of the body of the main loop (lines 2003-2009), `now` being the
reading of the tick counter. -/
def main_loop_step (ctx : GameContext) (now : Nat) : GameContext :=
  if ctx.state = GameState.LOADING ∧ sub32 now ctx.game_start_time ≥ LOADING_MS then
    { ctx with
      state := GameState.TITLE
      selected_side := 0
      selected_row := 0
      title_scroll_offset := 0 }
  else ctx

/-! ## Static data (lines 183-185) -/

/-- The table `credits_lines`. -/
def credits_lines : List String :=
  ["", "Nah2-Nah3", "    ", "    ", "Nah Nah Nah", "    ", "   ", "to the", "    ", "    ", "Nah", ""]

/-- The table `line_car_notifications`. -/
def line_car_notifications : List String :=
  ["+1 Uber Point Awarded!!!", "%d UP so far!", "OOF, Off Track", "Just lost %d UP!!!"]

/-! ## The input dispatcher (lines 1261-1656) -/

/-- The reading of the tick counter at the `k`-th call of `furi_get_tick()`. -/
def furi_get_tick (tick : Nat → Nat) (k : Nat) : Nat := tick k % 4294967296

/-- The local `is_press` (line 1272). -/
def is_press (input : InputEvent) : Bool := input.type == InputType.Press

/-- The local `is_release` (line 1273). -/
def is_release (input : InputEvent) : Bool := input.type == InputType.Release

/-- The local `is_short` (line 1274). -/
def is_short (input : InputEvent) : Bool := input.type == InputType.Short

/-- The state a mode maps to: the conditional chain of lines 1319-1324 and
1630-1635. -/
def game_state_of (selected_game : Int) : GameState :=
  if selected_game = GAME_MODE_ZERO_HERO then GameState.ZERO_HERO
  else if selected_game = GAME_MODE_FLIP_ZIP then GameState.FLIP_ZIP
  else if selected_game = GAME_MODE_LINE_CAR then GameState.LINE_CAR
  else if selected_game = GAME_MODE_FLIP_IQ then GameState.FLIP_IQ
  else if selected_game = GAME_MODE_TECTONE_SIM then GameState.TECTONE_SIM
  else if selected_game = GAME_MODE_SPACE_FLIGHT then GameState.SPACE_FLIGHT
  else GameState.ZERO_HERO

/-- Lines 1265-1271: rapid-click counter and tap-cadence window. -/
def input_bookkeeping (ctx : GameContext) (now : Nat) : GameContext :=
  let ctx :=
    if sub32 now ctx.last_input_time < TAP_DRM_MS then
      { ctx with rapid_click_count := inc8 ctx.rapid_click_count }
    else
      { ctx with rapid_click_count := 1, tap_count := 0, tap_window_start := now }
  { ctx with last_input_time := now }

/-- Number of binary digits of `n`, by halving; the first argument bounds the number of
halvings. -/
def bit_length_from : Nat → Nat → Nat
  | 0, _ => 0
  | f + 1, n => if n = 0 then 0 else bit_length_from f (n / 2) + 1

/-- Number of binary digits of `n` (0 for 0). -/
def bit_length (n : Nat) : Nat := bit_length_from n n

/-- A value of C type `float` (IEEE 754 single precision, finite): the fraction
`num / den`, where `den` is a power of two. The exponent range is not bounded here; the
values the tap cadence computes from 32-bit integers, between 60000 / 2 ^ 32 and
2 ^ 31 * 60000 in size, stay far inside the range of the format. -/
structure Single where
  num : Int
  den : Nat

/-- The fraction `p / q` (both positive) rounded to a significand of 24 binary digits, to
nearest, ties to the even significand, as numerator and denominator. With
`n / d = (p / q) / 2 ^ (a + c - b - 24)` the significand `m` is `n / d` rounded to an
integer, `2 ^ 23 ≤ n / d < 2 ^ 24`. -/
def round_ratio (p q : Nat) : Nat × Nat :=
  let a := bit_length p
  let b := bit_length q
  let n := p * 2 ^ (b + 24)
  let c := if n < 2 ^ 24 * (q * 2 ^ a) then 0 else 1
  let d := q * 2 ^ (a + c)
  let m := if 2 * (n % d) > d ∨ (2 * (n % d) = d ∧ n / d % 2 = 1) then n / d + 1 else n / d
  (m * 2 ^ (a + c), 2 ^ (b + 24))

/-- The exact fraction `num / den` rounded to single precision. -/
def f32_round (num : Int) (den : Nat) : Single :=
  if num = 0 then { num := 0, den := 1 }
  else if 0 < num then
    { num := ((round_ratio num.natAbs den).1 : Int), den := (round_ratio num.natAbs den).2 }
  else
    { num := -((round_ratio num.natAbs den).1 : Int), den := (round_ratio num.natAbs den).2 }

/-- Conversion `(float)k` of an integer, and the constants `60000.0f` and `5.0f`. -/
def f32_of_int (k : Int) : Single := f32_round k 1

/-- Single-precision product `a * b`. -/
def f32_mul (a b : Single) : Single := f32_round (a.num * b.num) (a.den * b.den)

/-- Single-precision quotient `a / b` for `b` other than zero. -/
def f32_div (a b : Single) : Single :=
  f32_round (a.num * (b.den : Int) * Int.sign b.num) (a.den * b.num.natAbs)

/-- Single-precision difference `a - b`. -/
def f32_sub (a b : Single) : Single :=
  f32_round (a.num * (b.den : Int) - b.num * (a.den : Int)) (a.den * b.den)

/-- The function `fabsf`. -/
def fabsf (a : Single) : Single := { num := (a.num.natAbs : Int), den := a.den }

/-- Comparison `a < b` of two single-precision values. -/
def f32_lt (a b : Single) : Bool := decide (a.num * (b.den : Int) < b.num * (a.den : Int))

/-- The rational number a single-precision value stands for. -/
def f32_val (a : Single) : ℚ := (a.num : ℚ) / (a.den : ℚ)

/-- The test `fabsf(tap_bpm - (float)speed_bpm) < 5.0f` of lines 1414-1415 (and its five
copies) with `float tap_bpm = (tap_count * 60000.0f) / (float)d`: `tap_count`, `d` and
`speed_bpm` are converted to single precision, and the product, the quotient and the
difference are each rounded to single precision (round to nearest, ties to even), as the
single-precision unit of the device does. For `d = 0` the quotient is infinite or not a
number and the test fails. -/
def tap_bpm_close (tap_count : Int) (d : Nat) (speed_bpm : Int) : Bool :=
  decide (0 < d) &&
    f32_lt
      (fabsf (f32_sub (f32_div (f32_mul (f32_of_int tap_count) (f32_of_int 60000))
        (f32_of_int (d : Int))) (f32_of_int speed_bpm)))
      (f32_of_int 5)

/-- The tap-cadence block repeated at lines 1409-1418, 1422-1431, 1467-1476,
1495-1504, 1548-1557 and 1561-1570. -/
def tap_cadence (ctx : GameContext) (now : Nat) : GameContext :=
  let ctx := { ctx with tap_count := ctx.tap_count + 1 }
  let ctx :=
    if sub32 now ctx.tap_window_start ≥ 60000 then
      { ctx with tap_count := 1, tap_window_start := now }
    else ctx
  if tap_bpm_close ctx.tap_count (add32 (sub32 now ctx.tap_window_start) 1) ctx.speed_bpm then
    let ctx := { ctx with speed_bpm := ctx.speed_bpm + 10 }
    if ctx.speed_bpm > 120 then { ctx with speed_bpm := 120 } else ctx
  else ctx

/-- Title, short Ok (lines 1295-1300). -/
def title_confirm (ctx : GameContext) (now : Nat) : GameContext :=
  { ctx with
    selected_game := ctx.selected_row * 2 + ctx.selected_side
    state := GameState.ROTATE
    rotate_start_time := now
    rotate_angle := 0
    zoom_factor := FIXED_POINT_SCALE
    rotate_skip := false }

/-- Title, the move to Credits (lines 1304-1306). -/
def open_credits (ctx : GameContext) : GameContext :=
  { ctx with
    state := GameState.CREDITS
    credits_y := SCREEN_HEIGHT + 10 * ((credits_lines.length : Int) - 1)
    start_back_count := 0 }

/-- Title, short Back (lines 1302-1307). -/
def title_back (ctx : GameContext) : GameContext :=
  if inc8 ctx.start_back_count ≥ 3 then
    open_credits { ctx with start_back_count := inc8 ctx.start_back_count }
  else { ctx with start_back_count := inc8 ctx.start_back_count }

/-- The mirroring toggle of a long hold (lines 1311-1313 and 1646-1648). -/
def toggle_if_held (ctx : GameContext) (now : Nat) : GameContext :=
  if sub32 now ctx.back_hold_start ≥ ORIENTATION_HOLD_MS then
    { ctx with is_left_handed := !ctx.is_left_handed }
  else ctx

/-- Title and Pause, Back released after a recorded press (lines 1311-1314
and 1646-1649). -/
def back_hold_release (ctx : GameContext) (now : Nat) : GameContext :=
  { toggle_if_held ctx now with back_hold_start := 0 }

/-- The branch `GAME_STATE_TITLE` (lines 1286-1315). -/
def input_title (ctx : GameContext) (input : InputEvent) (now : Nat) : GameContext :=
  if is_short input ∧ input.key = InputKey.Left then
    { ctx with selected_side := 0 }
  else if is_short input ∧ input.key = InputKey.Right then
    { ctx with selected_side := 1 }
  else if is_short input ∧ input.key = InputKey.Up ∧ ctx.selected_row > 0 then
    { ctx with selected_row := ctx.selected_row - 1 }
  else if is_short input ∧ input.key = InputKey.Down ∧ ctx.selected_row < 2 then
    { ctx with selected_row := ctx.selected_row + 1 }
  else if is_short input ∧ input.key = InputKey.Ok then
    title_confirm ctx now
  else if is_short input ∧ input.key = InputKey.Back ∧ ctx.note_q_a = 0 then
    title_back ctx
  else if is_press input ∧ input.key = InputKey.Back then
    { ctx with back_hold_start := now }
  else if is_release input ∧ input.key = InputKey.Back ∧ ctx.back_hold_start > 0 then
    back_hold_release ctx now
  else ctx

/-- One pass of the inner loop body of the Line Car set-up (lines 1342-1347);
the second component counts the calls of `rand()` made so far. -/
def line_car_init_slot (rnd : Nat → Nat) (i j : Nat) (s : GameContext × Nat) : GameContext × Nat :=
  let ctx := { s.1 with track_positions := set2 s.1.track_positions i j 0 }
  let length : Int := (rnd s.2 : Int) % 37 + 9
  if (j : Int) < (rnd (s.2 + 1) : Int) % 6 + 3 then
    ({ ctx with
       track_pieces := set2 ctx.track_pieces i j length
       track_positions := set2 ctx.track_positions i j
         (PORTRAIT_HEIGHT - length + (rnd (s.2 + 2) : Int) % (PORTRAIT_HEIGHT - length)) },
     s.2 + 3)
  else (ctx, s.2 + 2)

/-- The Line Car set-up (lines 1331-1349). -/
def init_line_car (ctx : GameContext) (rnd : Nat → Nat) : GameContext :=
  let ctx := { ctx with
    car_lane := 2
    car_y := PORTRAIT_HEIGHT - 7
    car_angle := 0
    uber_points := 0
    drift_multiplier := 1
    fast_line := 46
    slow_line := 101 }
  let ctx := { ctx with prev_car_lane := ctx.car_lane }
  (for_loop 5 (fun i s => for_loop WORLD_OBJ_LIMIT (fun j s => line_car_init_slot rnd i j s) s)
    (ctx, 0)).1

/-- The Flip IQ set-up (lines 1351-1358). -/
def init_flip_iq (ctx : GameContext) : GameContext :=
  let ctx := { ctx with car_lane := 2, car_y := PORTRAIT_HEIGHT - 10 }
  for_loop 5 (fun i ctx => for_loop WORLD_OBJ_LIMIT (fun j ctx =>
    { ctx with
      key_columns := set2 ctx.key_columns i j 0
      key_positions := set2 ctx.key_positions i j 0 }) ctx) ctx

/-- The Tectone Sim set-up (lines 1360-1371). -/
def init_tectone_sim (ctx : GameContext) (now : Nat) : GameContext :=
  let ctx := { ctx with
    anger := 5
    based := 7
    cuteness := 3
    sad := 4
    tectone_x := PORTRAIT_WIDTH / 2 - 3
    move_cooldown := 500
    last_move_time := now }
  for_loop WORLD_OBJ_LIMIT (fun i ctx =>
    { ctx with
      comment_positions := set1 ctx.comment_positions i 0
      comment_heights := set1 ctx.comment_heights i 0
      hype_train := set1 ctx.hype_train i false }) ctx

/-- The Space Flight set-up (lines 1373-1381). -/
def init_space_flight (ctx : GameContext) (rnd : Nat → Nat) : GameContext :=
  let ctx := { ctx with
    ship_health := (rnd 0 : Int) % 191 + 9
    ship_armor := (rnd 1 : Int) % 81 + 19
    screen_type := 0 }
  let ctx := for_loop WORLD_OBJ_LIMIT (fun i ctx =>
    { ctx with
      objects := set2 (set2 (set2 ctx.objects i 0 0) i 1 0) i 2 0 }) ctx
  for_loop 5 (fun i ctx => { ctx with recent_inputs := set1 ctx.recent_inputs i (-1) }) ctx

/-- Rotate, the writes common to all games (lines 1318-1328). -/
def rotate_enter (ctx : GameContext) (now : Nat) : GameContext :=
  { ctx with
    rotate_skip := true
    state := game_state_of ctx.selected_game
    streak := 0
    game_start_time := now
    day_night_toggle_time := add32 now 300000
    is_day := true }

/-- Rotate, the game-specific set-up (lines 1330-1382). -/
def rotate_init_game (ctx : GameContext) (now : Nat) (rnd : Nat → Nat) : GameContext :=
  if ctx.state = GameState.LINE_CAR then init_line_car ctx rnd
  else if ctx.state = GameState.FLIP_IQ then init_flip_iq ctx
  else if ctx.state = GameState.TECTONE_SIM then init_tectone_sim ctx now
  else if ctx.state = GameState.SPACE_FLIGHT then init_space_flight ctx rnd
  else ctx

/-- The branch `GAME_STATE_ROTATE` (lines 1317-1383). -/
def input_rotate (ctx : GameContext) (input : InputEvent) (now : Nat) (rnd : Nat → Nat) :
    GameContext :=
  if is_press input then rotate_init_game (rotate_enter ctx now) now rnd else ctx

/-- The Back handling that opens every game-state branch (lines 1385-1393,
1398-1406, 1453-1461, 1535-1543, 1582-1590, 1606-1614, textually the same);
`otherwise` is the outcome of the final `else` block. -/
def game_state_back (ctx : GameContext) (input : InputEvent) (now : Nat)
    (otherwise : GameContext) : GameContext :=
  if is_short input ∧ input.key = InputKey.Back then
    { ctx with state := GameState.PAUSE, pause_back_count := 0, back_hold_start := 0 }
  else if is_press input ∧ input.key = InputKey.Back then
    { ctx with back_hold_start := now }
  else if input.key = InputKey.Back ∧ sub32 now ctx.back_hold_start ≥ ORIENTATION_HOLD_MS then
    { ctx with is_left_handed := !ctx.is_left_handed }
  else otherwise

/-- The slot of `is_holding` a key drives in Zero Hero (line 1394), -1 for
Back. -/
def zero_hero_key_idx (key : InputKey) : Int :=
  if key = InputKey.Up then 0 else if key = InputKey.Left then 1
  else if key = InputKey.Ok then 2 else if key = InputKey.Right then 3
  else if key = InputKey.Down then 4 else -1

/-- The final `else` block of the branch `GAME_STATE_ZERO_HERO` (lines
1394-1395). -/
def zero_hero_keys (ctx : GameContext) (input : InputEvent) : GameContext :=
  let key_idx := zero_hero_key_idx input.key
  if key_idx ≥ 0 then { ctx with is_holding := set1 ctx.is_holding key_idx (is_press input) }
  else ctx

/-- The branch `GAME_STATE_ZERO_HERO` (lines 1385-1396). -/
def input_zero_hero (ctx : GameContext) (input : InputEvent) (now : Nat) : GameContext :=
  game_state_back ctx input now (zero_hero_keys ctx input)

/-- Flip Zip, short Left (lines 1407-1419). -/
def flip_zip_left (input : InputEvent) (now : Nat) (ctx : GameContext) : GameContext :=
  if is_short input ∧ input.key = InputKey.Left ∧ ctx.mascot_lane > 0 then
    tap_cadence { ctx with mascot_lane := ctx.mascot_lane - 1 } now
  else ctx

/-- Flip Zip, short Right (lines 1420-1432). -/
def flip_zip_right (input : InputEvent) (now : Nat) (ctx : GameContext) : GameContext :=
  if is_short input ∧ input.key = InputKey.Right ∧ ctx.mascot_lane < 4 then
    tap_cadence { ctx with mascot_lane := ctx.mascot_lane + 1 } now
  else ctx

/-- Flip Zip, short Up (lines 1433-1438). -/
def flip_zip_up (input : InputEvent) (ctx : GameContext) : GameContext :=
  if is_short input ∧ input.key = InputKey.Up ∧ ctx.mascot_y < 20 then
    let ctx := { ctx with mascot_y := ctx.mascot_y + 1 }
    if ctx.is_jumping then { ctx with jump_y_accumulated := ctx.jump_y_accumulated + 1 } else ctx
  else ctx

/-- Flip Zip, short Down (lines 1439-1441). -/
def flip_zip_down (input : InputEvent) (ctx : GameContext) : GameContext :=
  if is_short input ∧ input.key = InputKey.Down ∧ ctx.mascot_y > 0 then
    { ctx with mascot_y := ctx.mascot_y - 1 }
  else ctx

/-- Flip Zip, Ok pressed or released (lines 1442-1450). -/
def flip_zip_ok (input : InputEvent) (now : Nat) (ctx : GameContext) : GameContext :=
  if is_press input ∧ input.key = InputKey.Ok ∧ ctx.is_jumping = false then
    { ctx with
      is_jumping := true
      jump_progress := 0
      jump_scale := 0
      jump_hold_time := now
      jump_y_accumulated := 0 }
  else if is_release input ∧ input.key = InputKey.Ok then
    { ctx with jump_hold_time := 0 }
  else ctx

/-- The final `else` block of the branch `GAME_STATE_FLIP_ZIP` (lines
1407-1450): its five statements in order. -/
def flip_zip_keys (ctx : GameContext) (input : InputEvent) (now : Nat) : GameContext :=
  flip_zip_ok input now (flip_zip_down input (flip_zip_up input
    (flip_zip_right input now (flip_zip_left input now ctx))))

/-- The branch `GAME_STATE_FLIP_ZIP` (lines 1398-1451). -/
def input_flip_zip (ctx : GameContext) (input : InputEvent) (now : Nat) : GameContext :=
  game_state_back ctx input now (flip_zip_keys ctx input now)

/-- The notification raised by an off-hold lane change over live track
(lines 1486-1488 and 1514-1516): the format has no conversion, so the text is
the format itself; `PORTRAIT_WIDTH - strlen(...) * 6` is unsigned arithmetic. -/
def line_car_point_notification (ctx : GameContext) (now2 : Nat) : GameContext :=
  let ctx := { ctx with notification_text := line_car_notifications.getD 0 "" }
  let ctx := { ctx with last_notification_time := now2 }
  { ctx with notification_x := toInt32 (sub32 64 (ctx.notification_text.length * 6) / 2) }

/-- The part of a Line Car lane change after the cadence block (lines
1477-1490 and 1505-1518); `drift_angle` is -8 or 8, `turn_angle` -15 or 15. -/
def line_car_after_lane_change (ctx : GameContext) (now now2 : Nat) (drift_angle turn_angle : Int) :
    GameContext :=
  if get1 ctx.is_holding 4 then
    { ctx with
      is_drifting := true
      car_angle := drift_angle
      last_drift_time := now
      drift_multiplier := ctx.drift_multiplier + 1 }
  else
    let ctx := { ctx with car_angle := turn_angle }
    if get2 ctx.track_positions ctx.car_lane 0 > 0 ∧
        ctx.car_y ≥ get2 ctx.track_positions ctx.car_lane 0 - get2 ctx.track_pieces ctx.car_lane 0 then
      line_car_point_notification { ctx with uber_points := ctx.uber_points + 1 } now2
    else ctx

/-- The slot of `is_holding` a key drives in Line Car and Flip IQ (lines 1462
and 1544), -1 for Ok and Back. -/
def lane_key_idx (key : InputKey) : Int :=
  if key = InputKey.Up then 0 else if key = InputKey.Left then 1
  else if key = InputKey.Right then 3 else if key = InputKey.Down then 4 else -1

/-- Lines 1462-1463 and 1544-1545: the hold flag of the key follows the
event kind. -/
def lane_key_hold (input : InputEvent) (ctx : GameContext) : GameContext :=
  let key_idx := lane_key_idx input.key
  if key_idx ≥ 0 then { ctx with is_holding := set1 ctx.is_holding key_idx (is_press input) }
  else ctx

/-- Line Car, short Left (lines 1464-1491). -/
def line_car_left (input : InputEvent) (now now2 : Nat) (ctx : GameContext) : GameContext :=
  if is_short input ∧ input.key = InputKey.Left ∧ ctx.car_lane > 0 then
    let ctx := { ctx with prev_car_lane := ctx.car_lane }
    let ctx := tap_cadence { ctx with car_lane := ctx.car_lane - 1 } now
    line_car_after_lane_change ctx now now2 (-8) (-15)
  else ctx

/-- Line Car, short Right (lines 1492-1519). -/
def line_car_right (input : InputEvent) (now now2 : Nat) (ctx : GameContext) : GameContext :=
  if is_short input ∧ input.key = InputKey.Right ∧ ctx.car_lane < 4 then
    let ctx := { ctx with prev_car_lane := ctx.car_lane }
    let ctx := tap_cadence { ctx with car_lane := ctx.car_lane + 1 } now
    line_car_after_lane_change ctx now now2 8 15
  else ctx

/-- Line Car, Up pressed or released (lines 1520-1524). -/
def line_car_up (input : InputEvent) (ctx : GameContext) : GameContext :=
  if is_press input ∧ input.key = InputKey.Up then
    { ctx with is_holding := set1 ctx.is_holding 0 true }
  else if is_release input ∧ input.key = InputKey.Up then
    { ctx with is_holding := set1 ctx.is_holding 0 false }
  else ctx

/-- Line Car, the brake (lines 1530-1532); the short Down block before it
(lines 1525-1529) is empty. -/
def line_car_brake (input : InputEvent) (ctx : GameContext) : GameContext :=
  if is_short input ∧ input.key = InputKey.Back then
    { ctx with speed_bpm := ctx.speed_bpm - (if ctx.speed_bpm > MIN_SPEED_BPM then 1 else 0) }
  else ctx

/-- The final `else` block of the branch `GAME_STATE_LINE_CAR` (lines
1462-1532): its statements in order; `now2` is the second reading of the tick
counter (lines 1487, 1515). -/
def line_car_keys (ctx : GameContext) (input : InputEvent) (now now2 : Nat) : GameContext :=
  line_car_brake input (line_car_up input (line_car_right input now now2
    (line_car_left input now now2 (lane_key_hold input ctx))))

/-- The branch `GAME_STATE_LINE_CAR` (lines 1453-1533). -/
def input_line_car (ctx : GameContext) (input : InputEvent) (now now2 : Nat) : GameContext :=
  game_state_back ctx input now (line_car_keys ctx input now now2)

/-- Flip IQ, short Left (lines 1546-1558). -/
def flip_iq_left (input : InputEvent) (now : Nat) (ctx : GameContext) : GameContext :=
  if is_short input ∧ input.key = InputKey.Left ∧ ctx.car_lane > 0 ∧
      ctx.car_lane - 1 < ctx.active_lanes then
    tap_cadence { ctx with car_lane := ctx.car_lane - 1 } now
  else ctx

/-- Flip IQ, short Right (lines 1559-1571). -/
def flip_iq_right (input : InputEvent) (now : Nat) (ctx : GameContext) : GameContext :=
  if is_short input ∧ input.key = InputKey.Right ∧ ctx.car_lane < 4 ∧
      ctx.car_lane + 1 < ctx.active_lanes then
    tap_cadence { ctx with car_lane := ctx.car_lane + 1 } now
  else ctx

/-- Flip IQ, Up pressed or released (lines 1572-1576). -/
def flip_iq_up (input : InputEvent) (ctx : GameContext) : GameContext :=
  if is_press input ∧ input.key = InputKey.Up ∧ ctx.car_y > 46 + (5 - ctx.active_lanes) * 6 then
    { ctx with is_holding := set1 ctx.is_holding 0 true }
  else if is_release input ∧ input.key = InputKey.Up then
    { ctx with is_holding := set1 ctx.is_holding 0 false }
  else ctx

/-- Flip IQ, short Down (lines 1577-1579). -/
def flip_iq_down (input : InputEvent) (ctx : GameContext) : GameContext :=
  if is_short input ∧ input.key = InputKey.Down ∧ ctx.car_y < PORTRAIT_HEIGHT - 7 then
    { ctx with car_y := ctx.car_y + 1 }
  else ctx

/-- The final `else` block of the branch `GAME_STATE_FLIP_IQ` (lines
1544-1579): its statements in order. -/
def flip_iq_keys (ctx : GameContext) (input : InputEvent) (now : Nat) : GameContext :=
  flip_iq_down input (flip_iq_up input (flip_iq_right input now
    (flip_iq_left input now (lane_key_hold input ctx))))

/-- The branch `GAME_STATE_FLIP_IQ` (lines 1535-1580). -/
def input_flip_iq (ctx : GameContext) (input : InputEvent) (now : Nat) : GameContext :=
  game_state_back ctx input now (flip_iq_keys ctx input now)

/-- The slot of `is_holding` a key drives in Tectone Sim (lines 1592-1596 and
1598-1602), -1 for Back. -/
def tectone_key_idx (key : InputKey) : Int :=
  if key = InputKey.Left then 1 else if key = InputKey.Down then 4
  else if key = InputKey.Up then 0 else if key = InputKey.Right then 3
  else if key = InputKey.Ok then 2 else -1

/-- The final `else` block of the branch `GAME_STATE_TECTONE_SIM` (lines
1591-1603). -/
def tectone_sim_keys (ctx : GameContext) (input : InputEvent) : GameContext :=
  if is_press input then
    { ctx with is_holding := set1 ctx.is_holding (tectone_key_idx input.key) true }
  else if is_release input then
    { ctx with is_holding := set1 ctx.is_holding (tectone_key_idx input.key) false }
  else ctx

/-- The branch `GAME_STATE_TECTONE_SIM` (lines 1582-1604). -/
def input_tectone_sim (ctx : GameContext) (input : InputEvent) (now : Nat) : GameContext :=
  game_state_back ctx input now (tectone_sim_keys ctx input)

/-- The final `else` block of the branch `GAME_STATE_SPACE_FLIGHT` (lines
1615-1626). -/
def space_flight_keys (ctx : GameContext) (input : InputEvent) : GameContext :=
  if is_press input then
    if input.key = InputKey.Up then { ctx with screen_type := 1 }
    else if input.key = InputKey.Down then { ctx with screen_type := 2 }
    else if input.key = InputKey.Left then { ctx with screen_type := 3 }
    else if input.key = InputKey.Right then { ctx with screen_type := 4 }
    else if input.key = InputKey.Ok then { ctx with screen_type := 0 }
    else ctx
  else if is_release input then
    if input.key = InputKey.Up ∨ input.key = InputKey.Down ∨ input.key = InputKey.Left ∨
        input.key = InputKey.Right ∨ input.key = InputKey.Ok then
      { ctx with screen_type := 0 }
    else ctx
  else ctx

/-- The branch `GAME_STATE_SPACE_FLIGHT` (lines 1606-1627). -/
def input_space_flight (ctx : GameContext) (input : InputEvent) (now : Nat) : GameContext :=
  game_state_back ctx input now (space_flight_keys ctx input)

/-- Pause, short Ok (lines 1630-1636). -/
def pause_resume (ctx : GameContext) : GameContext :=
  { ctx with state := game_state_of ctx.selected_game, pause_back_count := 0 }

/-- Pause, short Back (lines 1638-1642). -/
def pause_back (ctx : GameContext) : GameContext :=
  if inc8 ctx.pause_back_count ≥ 2 then
    { ctx with state := GameState.TITLE, pause_back_count := 0 }
  else { ctx with pause_back_count := inc8 ctx.pause_back_count }

/-- The branch `GAME_STATE_PAUSE` (lines 1629-1650). -/
def input_pause (ctx : GameContext) (input : InputEvent) (now : Nat) : GameContext :=
  if is_short input ∧ input.key = InputKey.Ok then
    pause_resume ctx
  else if is_short input ∧ input.key = InputKey.Back then
    pause_back ctx
  else if is_press input ∧ input.key = InputKey.Back then
    { ctx with back_hold_start := now }
  else if is_release input ∧ input.key = InputKey.Back ∧ ctx.back_hold_start > 0 then
    back_hold_release ctx now
  else ctx

/-- The branch `GAME_STATE_CREDITS` (lines 1652-1654). -/
def input_credits (ctx : GameContext) (input : InputEvent) : GameContext :=
  if is_short input ∧ input.key = InputKey.Back then { ctx with should_exit := true } else ctx

/-- The dispatch on `ctx->state` (lines 1283-1655). -/
def input_dispatch (ctx : GameContext) (input : InputEvent) (now now2 : Nat) (rnd : Nat → Nat) :
    GameContext :=
  match ctx.state with
  | GameState.LOADING => ctx
  | GameState.TITLE => input_title ctx input now
  | GameState.ROTATE => input_rotate ctx input now rnd
  | GameState.ZERO_HERO => input_zero_hero ctx input now
  | GameState.FLIP_ZIP => input_flip_zip ctx input now
  | GameState.LINE_CAR => input_line_car ctx input now now2
  | GameState.FLIP_IQ => input_flip_iq ctx input now
  | GameState.TECTONE_SIM => input_tectone_sim ctx input now
  | GameState.SPACE_FLIGHT => input_space_flight ctx input now
  | GameState.PAUSE => input_pause ctx input now
  | GameState.CREDITS => input_credits ctx input

/-- Lines 1279-1281: a short Back that passed the debounce is recorded. -/
def record_short_back (ctx : GameContext) (input : InputEvent) (now : Nat) : GameContext :=
  if input.key = InputKey.Back ∧ is_short input then { ctx with last_back_press_time := now }
  else ctx

/-- The function `input_callback` (lines 1261-1656) on a non-null context:
bookkeeping, Back debounce, then the dispatch on the state. -/
def input_callback (ctx : GameContext) (input : InputEvent) (tick : Nat → Nat) (rnd : Nat → Nat) :
    GameContext :=
  let now := furi_get_tick tick 0
  let ctx := input_bookkeeping ctx now
  if input.key = InputKey.Back ∧ sub32 now ctx.last_back_press_time < BACK_BUTTON_COOLDOWN then
    ctx
  else
    input_dispatch (record_short_back ctx input now) input now (furi_get_tick tick 1) rnd

/-! ## The renderer (lines 256-270, 369-407, 1659-1886)

Only the writes to the context are kept; `now` is the reading of the tick
counter the function makes. -/

/-- The function `draw_notification` (lines 256-270). -/
def draw_notification (ctx : GameContext) (now : Nat) : GameContext :=
  if ctx.notification_text = "" then ctx
  else
    let elapsed := sub32 now ctx.last_notification_time
    if elapsed > NOTIFICATION_MS ∧ ctx.note_q_a = 0 then
      { ctx with notification_text := "", notification_x := 0 }
    else ctx

/-- The function `draw_rotate_screen` (lines 369-407); `t` is computed in
unsigned arithmetic and stored in an `int32_t`. -/
def draw_rotate_screen (ctx : GameContext) (now : Nat) : GameContext :=
  let elapsed := sub32 now ctx.rotate_start_time
  if elapsed < 1000 then ctx
  else if elapsed < 6000 ∧ ctx.rotate_skip = false then
    let t : Int := toInt32 (((elapsed - 1000) * 1000 % 4294967296) / 5000)
    let ctx := { ctx with rotate_angle := Int.tdiv (t * 90) FIXED_POINT_SCALE }
    { ctx with zoom_factor := FIXED_POINT_SCALE + t * 2 }
  else ctx

/-- The lazy set-up of `game_start_time` (lines 1694-1696, 1704-1706,
1840-1842): the context after it and the number of readings of the tick
counter it made. -/
def lazy_start_time (ctx : GameContext) (tick : Nat → Nat) : GameContext × Nat :=
  if ctx.game_start_time = 0 then ({ ctx with game_start_time := furi_get_tick tick 0 }, 1)
  else (ctx, 0)

/-- The Line Car branch of `render_callback` (lines 1694-1702); `draw_line_car`
(lines 516-565) writes only through `draw_notification`. -/
def render_line_car (ctx : GameContext) (tick : Nat → Nat) : GameContext :=
  let s := lazy_start_time ctx tick
  let elapsed := sub32 (furi_get_tick tick s.2) s.1.game_start_time
  if elapsed < 1300 then s.1 else draw_notification s.1 (furi_get_tick tick (s.2 + 1))

/-- The Flip IQ branch of `render_callback` (lines 1704-1769): the only
writes after the lazy set-up are those of the death screen (lines 1750-1767).
The marquee timer (line 1742) reads the tick counter once when it is drawn. -/
def render_flip_iq (ctx : GameContext) (tick : Nat → Nat) : GameContext :=
  let s := lazy_start_time ctx tick
  let ctx := s.1
  let elapsed := sub32 (furi_get_tick tick s.2) ctx.game_start_time
  if elapsed < 1300 then ctx
  else
    let k := if ctx.notification_text = "" ∧ ctx.game_start_time > 0 then s.2 + 2 else s.2 + 1
    if ctx.car_y > 46 + (5 - ctx.active_lanes) * 6 ∧ ctx.state ≠ GameState.TITLE then
      if sub32 (furi_get_tick tick k) ctx.last_notification_time > 1500 then
        let ctx := { ctx with score := ctx.score + ctx.score }
        { ctx with state := GameState.TITLE }
      else ctx
    else ctx

/-- The Space Flight branch of `render_callback` (lines 1840-1883). -/
def render_space_flight (ctx : GameContext) (tick : Nat → Nat) : GameContext :=
  let s := lazy_start_time ctx tick
  let elapsed := sub32 (furi_get_tick tick s.2) s.1.game_start_time
  if elapsed < 1300 then s.1 else draw_notification s.1 (furi_get_tick tick (s.2 + 1))

/-- The function `render_callback` (lines 1659-1886) on a non-null context
and canvas.  `draw_title_menu`, `draw_loading_screen`, `draw_pause_screen`
and the credits loop write nothing; `draw_zero_hero` and `draw_flip_zip` end
in `draw_notification` without reading the tick counter before; the Tectone
Sim branch reads it twice (lines 1790, 1796) before `draw_notification`.
The integer division of the speed bar (line 510) is taken not to trap. -/
def render_callback (ctx : GameContext) (tick : Nat → Nat) : GameContext :=
  if ctx.view_port = 0 then ctx
  else
    match ctx.state with
    | GameState.LOADING => ctx
    | GameState.TITLE => ctx
    | GameState.ROTATE => draw_rotate_screen ctx (furi_get_tick tick 0)
    | GameState.CREDITS => ctx
    | GameState.PAUSE => ctx
    | GameState.ZERO_HERO => draw_notification ctx (furi_get_tick tick 0)
    | GameState.FLIP_ZIP => draw_notification ctx (furi_get_tick tick 0)
    | GameState.LINE_CAR => render_line_car ctx tick
    | GameState.FLIP_IQ => render_flip_iq ctx tick
    | GameState.TECTONE_SIM => draw_notification ctx (furi_get_tick tick 2)
    | GameState.SPACE_FLIGHT => render_space_flight ctx tick

/-! ## Vocabulary of the statements -/

/-- The six game states. -/
def is_game_state (s : GameState) : Prop :=
  s = GameState.ZERO_HERO ∨ s = GameState.FLIP_ZIP ∨ s = GameState.LINE_CAR ∨
  s = GameState.FLIP_IQ ∨ s = GameState.TECTONE_SIM ∨ s = GameState.SPACE_FLIGHT

/-- The six state changes the transition table lists for input events, from
the context `ctx` to the state `s`. -/
def listed_transition (ctx : GameContext) (s : GameState) : Prop :=
  (ctx.state = GameState.TITLE ∧ s = GameState.ROTATE) ∨
  (ctx.state = GameState.TITLE ∧ s = GameState.CREDITS) ∨
  (ctx.state = GameState.ROTATE ∧ s = game_state_of ctx.selected_game) ∨
  (is_game_state ctx.state ∧ s = GameState.PAUSE) ∨
  (ctx.state = GameState.PAUSE ∧ s = game_state_of ctx.selected_game) ∨
  (ctx.state = GameState.PAUSE ∧ s = GameState.TITLE)

/-- A context in Title whose last accepted short Back was at tick 1000. -/
def debounce_example : GameContext :=
  { zero_context with state := GameState.TITLE, last_back_press_time := 1000, start_back_count := 2 }

/-- A context in Title with no Back press counted. -/
def title_example : GameContext :=
  { zero_context with state := GameState.TITLE }

/-- A paused Zero Hero session with no Back press counted. -/
def pause_example : GameContext :=
  { zero_context with state := GameState.PAUSE }

/-- A short press of Back. -/
def short_back : InputEvent := ⟨InputKey.Back, InputType.Short⟩

/-- A short press of Ok. -/
def short_ok : InputEvent := ⟨InputKey.Ok, InputType.Short⟩

/-- The context with the input bookkeeping fields blanked: two contexts with
the same image agree on every other field. -/
def erase_input_bookkeeping (ctx : GameContext) : GameContext :=
  { ctx with
    last_input_time := 0
    rapid_click_count := 0
    tap_count := 0
    tap_window_start := 0
    last_back_press_time := 0
    pause_back_count := 0
    back_hold_start := 0 }

/-- A running Zero Hero session with a score, a streak and a held lane. -/
def zero_hero_example : GameContext :=
  { zero_context with
    state := GameState.ZERO_HERO
    selected_game := GAME_MODE_ZERO_HERO
    score := 42
    streak := 7
    is_holding := fun i => decide (i.val = 2) }

/-- A short press of Down. -/
def short_down : InputEvent := ⟨InputKey.Down, InputType.Short⟩

/-- A short press of Right. -/
def short_right : InputEvent := ⟨InputKey.Right, InputType.Short⟩

/-- A press of Ok. -/
def press_ok : InputEvent := ⟨InputKey.Ok, InputType.Press⟩

/-- A short press of Left. -/
def short_left : InputEvent := ⟨InputKey.Left, InputType.Short⟩

/-- A release of Back. -/
def release_back : InputEvent := ⟨InputKey.Back, InputType.Release⟩

/-- A context in Rotate about to enter Zero Hero, left over from an earlier
session with score 7, a held lane and a falling symbol. -/
def stale_rotate_example : GameContext :=
  { zero_context with
    state := GameState.ROTATE
    selected_game := GAME_MODE_ZERO_HERO
    score := 7
    score_oflow := 1
    oflow := 2
    difficulty := DIFFICULTY_HARD
    speed_bpm := 120
    is_holding := fun _ => true
    key_positions := fun _ _ => 50 }

/-- The same moment in a run that has not played before. -/
def fresh_rotate_example : GameContext :=
  { zero_context with state := GameState.ROTATE, selected_game := GAME_MODE_ZERO_HERO }

/-- A Zero Hero frame whose notification was raised at tick 0. -/
def render_note_example : GameContext :=
  { zero_context with
    view_port := 1
    state := GameState.ZERO_HERO
    notification_text := "Whoa!"
    notification_x := 17 }

/-- The Rotate animation started at tick 0 and not skipped. -/
def render_rotate_example : GameContext :=
  { zero_context with view_port := 1, state := GameState.ROTATE }

/-- A Flip IQ session entered at tick 1000 with score 21: the player stands
at `car_y = 118` and no lane is active. -/
def render_death_example : GameContext :=
  { zero_context with
    view_port := 1
    state := GameState.FLIP_IQ
    selected_game := GAME_MODE_FLIP_IQ
    game_start_time := 1000
    car_lane := 2
    car_y := 118
    score := 21 }

/-- What one call of `render_callback` may do to the context `ctx`, `r` being
the context after the call: every field outside the seven named ones is
kept; `game_start_time` is kept or was 0 in Line Car, Flip IQ or Space
Flight; `rotate_angle` and `zoom_factor` are kept outside Rotate; the
notification is kept or cleared (text empty, `notification_x = 0`, only with
`note_q_a = 0`); `state` and `score` are kept or the state was Flip IQ and is
now Title with the score doubled. -/
def render_effect (ctx r : GameContext) : Prop :=
  r = { ctx with
        game_start_time := r.game_start_time
        rotate_angle := r.rotate_angle
        zoom_factor := r.zoom_factor
        notification_text := r.notification_text
        notification_x := r.notification_x
        score := r.score
        state := r.state } ∧
  (r.game_start_time = ctx.game_start_time ∨
    (ctx.game_start_time = 0 ∧
      (ctx.state = GameState.LINE_CAR ∨ ctx.state = GameState.FLIP_IQ ∨
        ctx.state = GameState.SPACE_FLIGHT))) ∧
  ((r.rotate_angle = ctx.rotate_angle ∧ r.zoom_factor = ctx.zoom_factor) ∨
    ctx.state = GameState.ROTATE) ∧
  ((r.notification_text = ctx.notification_text ∧ r.notification_x = ctx.notification_x) ∨
    (r.notification_text = "" ∧ r.notification_x = 0 ∧ ctx.note_q_a = 0)) ∧
  ((r.state = ctx.state ∧ r.score = ctx.score) ∨
    (ctx.state = GameState.FLIP_IQ ∧ r.state = GameState.TITLE ∧
      r.score = ctx.score + ctx.score))

/-! ## The simulation updates (lines 616-1258)

Each update function reads the clock and `rand()` a number of times that
depends on the path taken, so its body is written as state passing over
`Run`. -/

/-- The table `notification_messages` (lines 186-189). -/
def notification_messages : List String :=
  ["Whoa!", "Is it hot or just you?", "Your fingers are lit", "GO GO GO", "You Got This!",
   "Positive Statement!", "Keep Rocking!", "You're on Fire!", "Smash It!", "Unstoppable!",
   "Epic Moves!"]

/-- The table `flip_iq_notifications_positive` (lines 195-197). -/
def flip_iq_notifications_positive : List String :=
  ["Great Dodge!", "Nice Climb!", "IQ Rising!", "Sharp Move!", "Genius Play!"]

/-- The table `flip_iq_notifications_negative` (lines 198-200). -/
def flip_iq_notifications_negative : List String :=
  ["Ouch, Stumble!", "Missed That!", "IQ Drop!", "Careful Now!", "Fell Behind!"]

/-- Conversion of an `int` value to `uint32_t`. -/
def toU32 (z : Int) : Nat := (z % 4294967296).toNat

/-- The loop `for(k = i; k < i + n; k++) body` whose body may `break`: the
body returns the new state and whether it broke out. -/
def break_loop_from {σ : Type} (i : Nat) : Nat → (Nat → σ → σ × Bool) → σ → σ
  | 0, _, s => s
  | n + 1, body, s =>
    if (body i s).2 then (body i s).1 else break_loop_from (i + 1) n body (body i s).1

/-- The loop `for(k = 0; k < n; k++) body` whose body may `break`. -/
def for_loop_break {σ : Type} (n : Nat) (body : Nat → σ → σ × Bool) (s : σ) : σ :=
  break_loop_from 0 n body s

/-- The state of one callback invocation: the context, the number of calls of
`furi_get_tick()` made so far and the number of calls of `rand()` made so
far. -/
structure Run where
  ctx : GameContext
  ticks : Nat
  rands : Nat

/-- A write to the context that calls neither `furi_get_tick()` nor `rand()`. -/
def Run.map (f : GameContext → GameContext) (s : Run) : Run :=
  { s with ctx := f s.ctx }

/-- The value the next call of `furi_get_tick()` returns. -/
def Run.now (tick : Nat → Nat) (s : Run) : Nat := furi_get_tick tick s.ticks

/-- The run after one call of `furi_get_tick()`. -/
def Run.read (s : Run) : Run := { s with ticks := s.ticks + 1 }

/-- The value the next call of `rand()` returns. -/
def Run.rand (rnd : Nat → Nat) (s : Run) : Int := (rnd s.rands : Int)

/-- The run after one call of `rand()`. -/
def Run.drawn (s : Run) : Run := { s with rands := s.rands + 1 }

/-- The value of `(PORTRAIT_WIDTH - strlen(text) * 6) / 2` stored in
`notification_x`: `strlen` is unsigned, so are the subtraction and the
division. -/
def notification_center (text : String) : Int :=
  toInt32 (sub32 64 (text.length * 6) / 2)

/-- The three statements that raise a notification (lines 637-639 and their
copies): the text, `last_notification_time = furi_get_tick()`, the position. -/
def Run.notify (tick : Nat → Nat) (text : String) (s : Run) : Run :=
  { ctx := { s.ctx with
      notification_text := text
      last_notification_time := furi_get_tick tick s.ticks
      notification_x := notification_center text }
    ticks := s.ticks + 1
    rands := s.rands }

/-- The local `fps` of `update_zero_hero` (line 618). -/
def zero_hero_fps (ctx : GameContext) : Int := FPS_BASE + ctx.difficulty * 5

/-- The local `fps` of the other five update functions (lines 684, 754, 865,
957, 1168). -/
def speed_fps (ctx : GameContext) : Int :=
  FPS_BASE + (if ctx.speed_bpm > 0 then Int.tdiv ctx.speed_bpm 10 else 0)

/-- The test `furi_get_tick() - ctx->last_ai_update < (uint32_t)(1000 / fps)`
that opens every update function (lines 619, 685, 755, 866, 958, 1169). -/
def rate_limited (ctx : GameContext) (fps : Int) (tick : Nat → Nat) : Prop :=
  sub32 (furi_get_tick tick 0) ctx.last_ai_update < toU32 (Int.tdiv 1000 fps)

instance (ctx : GameContext) (fps : Int) (tick : Nat → Nat) :
    Decidable (rate_limited ctx fps tick) :=
  inferInstanceAs (Decidable (_ < _))

/-- The run after the gate and `ctx->last_ai_update = furi_get_tick()` (lines
620, 686, 756, 867, 959, 1170): two readings of the clock were made. -/
def stamped (ctx : GameContext) (tick : Nat → Nat) : Run :=
  { ctx := { ctx with last_ai_update := furi_get_tick tick 1 }, ticks := 2, rands := 0 }

/-! ### Zero Hero (lines 616-679) -/

/-- Lines 628-631: the counters of a hit, the symbol removed, the highlight. -/
def zero_hero_count_hit (i j : Int) (ctx : GameContext) : GameContext :=
  { ctx with
    streak := ctx.streak + 1
    score := ctx.score + 1
    key_positions := set2 ctx.key_positions i j 0
    strum_hit := set1 ctx.strum_hit i true }

/-- Lines 632-635: the streak wraps into `oflow`. -/
def zero_hero_wrap (ctx : GameContext) : GameContext :=
  if ctx.streak ≥ MAX_STREAK_INT then { ctx with streak := 0, oflow := ctx.oflow + 1 } else ctx

/-- Lines 636-644: the notifications at streak 5 and 6. -/
def zero_hero_milestone (tick : Nat → Nat) (s : Run) : Run :=
  if s.ctx.streak = 5 then s.notify tick "! Perfect !"
  else if s.ctx.streak = 6 then s.notify tick "! STREAK STARTED !"
  else s

/-- Lines 645-646: the running sum and count of streaks. -/
def zero_hero_stats (ctx : GameContext) : GameContext :=
  { ctx with streak_sum := ctx.streak_sum + ctx.streak, streak_count := ctx.streak_count + 1 }

/-- Line 647: the highest streak. -/
def zero_hero_highest (ctx : GameContext) : GameContext :=
  if ctx.streak > ctx.highest_streak then { ctx with highest_streak := ctx.streak } else ctx

/-- The hit block (lines 628-647). -/
def zero_hero_hit (tick : Nat → Nat) (i j : Int) (s : Run) : Run :=
  Run.map zero_hero_highest
    (Run.map zero_hero_stats
      (zero_hero_milestone tick (Run.map zero_hero_wrap (Run.map (zero_hero_count_hit i j) s))))

/-- The miss block (lines 650-654). -/
def zero_hero_miss (tick : Nat → Nat) (i j : Int) (s : Run) : Run :=
  Run.notify tick "! Miss !"
    (Run.map (fun ctx =>
      { ctx with key_positions := set2 ctx.key_positions i j 0, streak := 0 }) s)

/-- Line 625: the symbol moves one pixel. -/
def zero_hero_advance (i j : Int) (ctx : GameContext) : GameContext :=
  { ctx with key_positions := set2 ctx.key_positions i j (get2 ctx.key_positions i j + 1) }

/-- Lines 626-655: the moved symbol is judged against the hit band. -/
def zero_hero_judge (tick : Nat → Nat) (i j : Int) (s : Run) : Run :=
  if get2 s.ctx.key_positions i j ≥ PORTRAIT_HEIGHT - 6 ∧
      get2 s.ctx.key_positions i j ≤ PORTRAIT_HEIGHT - 4 then
    if get1 s.ctx.is_holding i then zero_hero_hit tick i j s else s
  else if get2 s.ctx.key_positions i j > PORTRAIT_HEIGHT - 5 then zero_hero_miss tick i j s
  else s

/-- One pass of the inner loop body (lines 624-656). -/
def zero_hero_slot (tick : Nat → Nat) (i j : Nat) (s : Run) : Run :=
  if get2 s.ctx.key_positions i j > 0 then
    zero_hero_judge tick i j (Run.map (zero_hero_advance i j) s)
  else s

/-- One pass of the outer loop body (lines 622-657). -/
def zero_hero_lane (tick : Nat → Nat) (i : Nat) (s : Run) : Run :=
  for_loop 10 (fun j s => zero_hero_slot tick i j s)
    (Run.map (fun ctx => { ctx with strum_hit := set1 ctx.strum_hit i false }) s)

/-- The loop over the lanes (lines 621-658). -/
def zero_hero_lanes (tick : Nat → Nat) (s : Run) : Run :=
  for_loop 5 (fun i s => zero_hero_lane tick i s) s

/-- The post-increment of `ai_beat_counter` (lines 659, 707, 941). -/
def beat (ctx : GameContext) : GameContext :=
  { ctx with ai_beat_counter := inc8 ctx.ai_beat_counter }

/-- One pass of the spawn loop body (lines 662-665). -/
def zero_hero_spawn_slot (lane : Int) (j : Nat) (s : Run) : Run × Bool :=
  if get2 s.ctx.key_positions lane j = 0 then
    (Run.map (fun ctx => { ctx with key_positions := set2 ctx.key_positions lane j 7 }) s, true)
  else (s, false)

/-- Lines 660-666: a symbol enters the random lane at the first free slot. -/
def zero_hero_spawn_lane (rnd : Nat → Nat) (s : Run) : Run :=
  for_loop_break 10 (fun j t => zero_hero_spawn_slot (Int.tmod (s.rand rnd) 5) j t) s.drawn

/-- The spawn step (lines 659-667). -/
def zero_hero_spawn (rnd : Nat → Nat) (s : Run) : Run :=
  if s.ctx.ai_beat_counter % 10 = 0 then zero_hero_spawn_lane rnd (Run.map beat s)
  else Run.map beat s

/-- Line 671: one tier up, never above HARD. -/
def zero_hero_tier_up (ctx : GameContext) : GameContext :=
  if ctx.difficulty < DIFFICULTY_HARD then { ctx with difficulty := ctx.difficulty + 1 } else ctx

/-- Line 672: `ctx->last_difficulty_check = furi_get_tick()`. -/
def zero_hero_check_stamp (tick : Nat → Nat) (s : Run) : Run :=
  { ctx := { s.ctx with last_difficulty_check := furi_get_tick tick s.ticks }
    ticks := s.ticks + 1
    rands := s.rands }

/-- Lines 671-676: the escalation and its notification. -/
def zero_hero_raise (tick rnd : Nat → Nat) (s : Run) : Run :=
  Run.notify tick
    (notification_messages.getD (Int.tmod (s.rand rnd) 11).toNat "")
    (zero_hero_check_stamp tick (Run.map zero_hero_tier_up s)).drawn

/-- The local `avg_streak` (line 669). -/
def avg_streak (ctx : GameContext) : Int :=
  if ctx.streak_count > 0 then Int.tdiv ctx.streak_sum ctx.streak_count else 0

/-- Lines 669-677, entered after the cooldown test. -/
def zero_hero_escalate (tick rnd : Nat → Nat) (s : Run) : Run :=
  if s.ctx.streak ≥ avg_streak s.ctx * 3 then zero_hero_raise tick rnd s else s

/-- The difficulty check (lines 668-678); the clock is read once by the test. -/
def zero_hero_difficulty (tick rnd : Nat → Nat) (s : Run) : Run :=
  if sub32 (s.now tick) s.ctx.last_difficulty_check > COOLDOWN_MS ∧ s.ctx.streak > 5 then
    zero_hero_escalate tick rnd s.read
  else s.read

/-- The function `update_zero_hero` (lines 616-679) on a non-null context. -/
def update_zero_hero (ctx : GameContext) (tick rnd : Nat → Nat) : GameContext :=
  if rate_limited ctx (zero_hero_fps ctx) tick then ctx
  else
    (zero_hero_difficulty tick rnd
      (zero_hero_spawn rnd (zero_hero_lanes tick (stamped ctx tick)))).ctx

/-! ### Flip Zip (lines 682-749) -/

/-- The speed step `speed_bpm += 10`, capped at 120 (lines 699-700, 737-738). -/
def speed_step (ctx : GameContext) : GameContext :=
  if ctx.speed_bpm + 10 > 120 then { ctx with speed_bpm := 120 }
  else { ctx with speed_bpm := ctx.speed_bpm + 10 }

/-- Lines 698-701 and 736-739: every fifth successful jump speeds the game up. -/
def flip_zip_every_fifth (ctx : GameContext) : GameContext :=
  if Int.tmod ctx.successful_jumps 5 = 0 then speed_step ctx else ctx

/-- Lines 696-702: an obstacle leaving in a lane next to the mascot counts as
a successful jump. -/
def flip_zip_dodge (i : Int) (ctx : GameContext) : GameContext :=
  if i = ctx.mascot_lane - 1 ∨ i = ctx.mascot_lane + 1 then
    flip_zip_every_fifth { ctx with successful_jumps := ctx.successful_jumps + 1 }
  else ctx

/-- Lines 693-702: the obstacle leaves the bottom. -/
def flip_zip_leave (i j : Int) (ctx : GameContext) : GameContext :=
  flip_zip_dodge i
    { ctx with
      obstacle_positions := set2 ctx.obstacle_positions i j 0
      obstacles := set2 ctx.obstacles i j 0
      score := ctx.score + 1 }

/-- Line 691: the obstacle moves by `speed_modifier`. -/
def flip_zip_advance (speed_modifier : Int) (i j : Int) (ctx : GameContext) : GameContext :=
  { ctx with
    obstacle_positions :=
      set2 ctx.obstacle_positions i j (get2 ctx.obstacle_positions i j + speed_modifier) }

/-- Lines 692-703, after the move. -/
def flip_zip_moved (i j : Int) (ctx : GameContext) : GameContext :=
  if get2 ctx.obstacle_positions i j > PORTRAIT_HEIGHT - 7 then flip_zip_leave i j ctx else ctx

/-- One pass of the inner loop body (lines 690-704). -/
def flip_zip_slot (speed_modifier : Int) (i j : Nat) (ctx : GameContext) : GameContext :=
  if get2 ctx.obstacle_positions i j > 0 then
    flip_zip_moved i j (flip_zip_advance speed_modifier i j ctx)
  else ctx

/-- The loops over the obstacles (lines 688-706). -/
def flip_zip_obstacles (speed_modifier : Int) (ctx : GameContext) : GameContext :=
  for_loop 5 (fun i ctx => for_loop 10 (fun j ctx => flip_zip_slot speed_modifier i j ctx) ctx) ctx

/-- One pass of the spawn loop body (lines 711-715). -/
def flip_zip_spawn_slot (lane type : Int) (j : Nat) (s : Run) : Run × Bool :=
  if get2 s.ctx.obstacle_positions lane j = 0 then
    (Run.map (fun ctx =>
      { ctx with
        obstacle_positions := set2 ctx.obstacle_positions lane j 7
        obstacles := set2 ctx.obstacles lane j type }) s, true)
  else (s, false)

/-- Lines 708-716: an obstacle of a random type enters the random lane. -/
def flip_zip_spawn_lane (rnd : Nat → Nat) (s : Run) : Run :=
  for_loop_break 10
    (fun j t =>
      flip_zip_spawn_slot (Int.tmod (s.rand rnd) 5) (Int.tmod (s.drawn.rand rnd) 3 + 1) j t)
    s.drawn.drawn

/-- The spawn step (lines 707-717). -/
def flip_zip_spawn (rnd : Nat → Nat) (s : Run) : Run :=
  if s.ctx.ai_beat_counter % 15 = 0 then flip_zip_spawn_lane rnd (Run.map beat s)
  else Run.map beat s

/-- Lines 726-727: the jump is held at its top. -/
def flip_zip_hold_top (ctx : GameContext) : GameContext :=
  { ctx with jump_progress := FIXED_POINT_SCALE / 2, jump_scale := 1 }

/-- The cap `if(ctx->mascot_y > 20) ctx->mascot_y = 20` (lines 734, 746). -/
def cap_mascot_y (ctx : GameContext) : GameContext :=
  if ctx.mascot_y > 20 then { ctx with mascot_y := 20 } else ctx

/-- Lines 729-735, the landing up to the reset of `jump_y_accumulated`. -/
def flip_zip_touch_down (ctx : GameContext) : GameContext :=
  { cap_mascot_y
      { ctx with
        is_jumping := false
        jump_progress := 0
        jump_scale := 0
        successful_jumps := ctx.successful_jumps + 1
        mascot_y := ctx.mascot_y + ctx.jump_y_accumulated } with
    jump_y_accumulated := 0 }

/-- The landing (lines 729-739). -/
def flip_zip_land (ctx : GameContext) : GameContext :=
  flip_zip_every_fifth (flip_zip_touch_down ctx)

/-- Lines 725-740: at the end of the arc the jump is held or lands; the clock
is read only when `jump_hold_time > 0`. -/
def flip_zip_arc_end (tick : Nat → Nat) (s : Run) : Run :=
  if s.ctx.jump_hold_time > 0 then
    if sub32 (s.now tick) s.ctx.jump_hold_time < toU32 (s.ctx.speed_bpm * 250) then
      Run.map flip_zip_hold_top s.read
    else Run.map flip_zip_land s.read
  else Run.map flip_zip_land s

/-- Lines 720-741: the arc, after `jump_progress += 100`. -/
def flip_zip_arc (tick : Nat → Nat) (s : Run) : Run :=
  if s.ctx.jump_progress < FIXED_POINT_SCALE / 2 then
    Run.map (fun ctx =>
      { ctx with jump_scale := Int.tdiv ctx.jump_progress (FIXED_POINT_SCALE / 4) }) s
  else if s.ctx.jump_progress < FIXED_POINT_SCALE then
    Run.map (fun ctx =>
      { ctx with
        jump_scale := Int.tdiv (FIXED_POINT_SCALE - ctx.jump_progress) (FIXED_POINT_SCALE / 4) }) s
  else flip_zip_arc_end tick s

/-- Lines 744-746: `mascot_y += airborne_time / 10` is unsigned arithmetic
stored back into an `int`. -/
def flip_zip_drift_up (now : Nat) (ctx : GameContext) : GameContext :=
  cap_mascot_y
    { ctx with
      mascot_y := toInt32 (add32 (toU32 ctx.mascot_y) (sub32 now ctx.jump_hold_time / 10)) }

/-- Lines 743-747. -/
def flip_zip_airborne (tick : Nat → Nat) (s : Run) : Run :=
  if s.ctx.jump_scale > 0 then Run.map (flip_zip_drift_up (s.now tick)) s.read else s

/-- The jump step (lines 718-748). -/
def flip_zip_jump (tick : Nat → Nat) (s : Run) : Run :=
  if s.ctx.is_jumping then
    flip_zip_airborne tick
      (flip_zip_arc tick
        (Run.map (fun ctx => { ctx with jump_progress := ctx.jump_progress + 100 }) s))
  else s

/-- The function `update_flip_zip` (lines 682-749) on a non-null context. -/
def update_flip_zip (ctx : GameContext) (tick rnd : Nat → Nat) : GameContext :=
  if rate_limited ctx (speed_fps ctx) tick then ctx
  else
    (flip_zip_jump tick
      (flip_zip_spawn rnd
        (Run.map (flip_zip_obstacles (1 + Int.tdiv ctx.speed_bpm 60)) (stamped ctx tick)))).ctx

/-! ### Line Car (lines 752-840) -/

/-- The nudge `speed_bpm += (speed_bpm * 0.01 < 700) ? 1 : 0` (lines 761, 871):
for an `int` the test in double precision holds exactly when
`speed_bpm < 70000`. -/
def speed_nudge_up (ctx : GameContext) : GameContext :=
  { ctx with speed_bpm := ctx.speed_bpm + (if ctx.speed_bpm < 70000 then 1 else 0) }

/-- The nudge `speed_bpm -= (speed_bpm * 0.01 > 66) ? 1 : 0` (lines 766, 838,
873): for an `int` the test in double precision holds exactly when
`speed_bpm > 6600`. -/
def speed_nudge_down (ctx : GameContext) : GameContext :=
  { ctx with speed_bpm := ctx.speed_bpm - (if ctx.speed_bpm > 6600 then 1 else 0) }

/-- The statement `ctx->last_ai_update = furi_get_tick()` (lines 762, 767). -/
def stamp_again (tick : Nat → Nat) (s : Run) : Run :=
  { ctx := { s.ctx with last_ai_update := furi_get_tick tick s.ticks }
    ticks := s.ticks + 1
    rands := s.rands }

/-- Lines 759-769: the speed follows the position of the car against the
fast and the slow line. -/
def line_car_speed_adjust (tick : Nat → Nat) (s : Run) : Run :=
  if s.ctx.car_y < s.ctx.fast_line then
    if sub32 (s.now tick) s.ctx.last_ai_update > 150 then
      stamp_again tick (Run.map speed_nudge_up s.read)
    else s.read
  else if s.ctx.car_y > s.ctx.slow_line then
    if sub32 (s.now tick) s.ctx.last_ai_update > 199 then
      stamp_again tick (Run.map speed_nudge_down s.read)
    else s.read
  else s

/-- The local `next_lane` (lines 781-784): `turn` and `straight` are the two
outcomes of `rand() % 2`, the second drawn only in lane 4. -/
def next_lane (i : Int) (turn straight : Int) : Int :=
  let n := i + (if turn ≠ 0 then 1 else -1)
  let n := if n < 0 then 1 else n
  let n := if n > 4 then 3 else n
  if i = 4 ∧ straight ≠ 0 then 4 else n

/-- Lines 776-779 and 785-786: the segment restarts above the screen with a
new length and its continuation is laid in lane `next`. -/
def line_car_lay (i j next length : Int) (ctx : GameContext) : GameContext :=
  let ctx := { ctx with track_positions := set2 ctx.track_positions i j 0 }
  let ctx := { ctx with track_pieces := set2 ctx.track_pieces i j length }
  let ctx := { ctx with track_positions := set2 ctx.track_positions i j (-length) }
  let ctx := { ctx with
    track_positions := set2 ctx.track_positions next j (get2 ctx.track_positions i j - length) }
  { ctx with track_pieces := set2 ctx.track_pieces next j length }

/-- Lines 776-786: `rand()` is called for the length, for the turn and, in
lane 4 only, for the straight continuation. -/
def line_car_regenerate (rnd : Nat → Nat) (i j : Nat) (s : Run) : Run :=
  { ctx := line_car_lay i j
      (next_lane i (Int.tmod (rnd (s.rands + 1)) 2) (Int.tmod (rnd (s.rands + 2)) 2))
      (Int.tmod (rnd s.rands) 37 + 9) s.ctx
    ticks := s.ticks
    rands := if i = 4 then s.rands + 3 else s.rands + 2 }

/-- Line 774: the segment scrolls by `speed_modifier`. -/
def line_car_advance (speed_modifier : Int) (i j : Int) (ctx : GameContext) : GameContext :=
  { ctx with
    track_positions :=
      set2 ctx.track_positions i j (get2 ctx.track_positions i j + speed_modifier) }

/-- Lines 775-787, after the move. -/
def line_car_scrolled (rnd : Nat → Nat) (i j : Nat) (s : Run) : Run :=
  if get2 s.ctx.track_positions i j > PORTRAIT_HEIGHT then line_car_regenerate rnd i j s else s

/-- One pass of the inner loop body (lines 773-788). -/
def line_car_slot (rnd : Nat → Nat) (speed_modifier : Int) (i j : Nat) (s : Run) : Run :=
  if get2 s.ctx.track_positions i j > 0 then
    line_car_scrolled rnd i j (Run.map (line_car_advance speed_modifier i j) s)
  else s

/-- The loops over the track (lines 771-790). -/
def line_car_scroll (rnd : Nat → Nat) (speed_modifier : Int) (s : Run) : Run :=
  for_loop 5 (fun i s =>
    for_loop WORLD_OBJ_LIMIT (fun j s => line_car_slot rnd speed_modifier i j s) s) s

/-- The test of lines 795, 812 and 1484: lane `i` carries a live first
segment that reaches up to the car. -/
def over_track (ctx : GameContext) (i : Int) : Prop :=
  get2 ctx.track_positions i 0 > 0 ∧
  ctx.car_y ≥ get2 ctx.track_positions i 0 - get2 ctx.track_pieces i 0

instance (ctx : GameContext) (i : Int) : Decidable (over_track ctx i) :=
  inferInstanceAs (Decidable (_ ∧ _))

/-- The text `snprintf` leaves in the 32-byte buffer: at most 31 characters. -/
def snprintf32 (text : String) : String := String.mk (text.data.take 31)

/-- The text of the drift notification (lines 797 and 799): format 0 has no
conversion, format 3 prints the points lost. -/
def line_car_drift_text (ctx : GameContext) : String :=
  if over_track ctx ctx.car_lane then snprintf32 (line_car_notifications.getD 0 "")
  else snprintf32 ("Just lost " ++ toString (ctx.uber_points * ctx.drift_multiplier) ++ " UP!!!")

/-- Lines 793-796: the drift ends and its points are banked when the car is
over track. -/
def line_car_bank (ctx : GameContext) : GameContext :=
  if over_track ctx ctx.car_lane then
    { ctx with
      is_drifting := false
      car_angle := 0
      score := ctx.score + ctx.uber_points * ctx.drift_multiplier }
  else { ctx with is_drifting := false, car_angle := 0 }

/-- Lines 803-804. -/
def line_car_reset_points (ctx : GameContext) : GameContext :=
  { ctx with uber_points := 0, drift_multiplier := 1 }

/-- The body of the drift check (lines 793-804). -/
def line_car_drift_end (tick : Nat → Nat) (s : Run) : Run :=
  Run.map line_car_reset_points
    (Run.notify tick (line_car_drift_text s.ctx) (Run.map line_car_bank s))

/-- The drift check (lines 792-805); the clock is read by the test only while
drifting. -/
def line_car_drift_check (tick : Nat → Nat) (s : Run) : Run :=
  if s.ctx.is_drifting then
    if sub32 (s.now tick) s.ctx.last_drift_time > 693 then line_car_drift_end tick s.read
    else s.read
  else s

/-- One pass of the loop of lines 811-816. -/
def line_car_find_lane_step (i : Nat) (ctx : GameContext) : GameContext × Bool :=
  if over_track ctx i then ({ ctx with car_lane := i }, true) else (ctx, false)

/-- One pass of the inner loop of the repositioning (lines 825-829). -/
def line_car_reposition_slot (rnd : Nat → Nat) (i j : Nat) (s : Run) : Run × Bool :=
  if get2 s.ctx.track_positions i j > 0 then
    ({ ctx := { s.ctx with
          car_y := get2 s.ctx.track_positions i j - get2 s.ctx.track_pieces i j +
            Int.tmod (s.rand rnd) 10
          car_lane := i }
       ticks := s.ticks
       rands := s.rands + 1 }, true)
  else (s, false)

/-- One pass of the outer loop of the repositioning (lines 824-831). -/
def line_car_reposition_lane (rnd : Nat → Nat) (i : Nat) (s : Run) : Run × Bool :=
  ((for_loop_break WORLD_OBJ_LIMIT (fun j t => line_car_reposition_slot rnd i j t) s),
   decide ((for_loop_break WORLD_OBJ_LIMIT
     (fun j t => line_car_reposition_slot rnd i j t) s).ctx.car_y < PORTRAIT_HEIGHT - 7))

/-- Lines 818-833: off track, the car is put on the first live segment. -/
def line_car_off_track (tick rnd : Nat → Nat) (s : Run) : Run :=
  if get2 s.ctx.track_positions s.ctx.car_lane 0 = 0 then
    for_loop_break 5 (fun i t => line_car_reposition_lane rnd i t)
      (Run.notify tick (line_car_notifications.getD 2 "") s)
  else s

/-- Lines 810-816: the car stops at the bottom and takes the first lane whose
first segment reaches it. -/
def line_car_bottom (ctx : GameContext) : GameContext :=
  for_loop_break 5 line_car_find_lane_step { ctx with car_y := PORTRAIT_HEIGHT - 7 }

/-- Lines 809-834, after the fall. -/
def line_car_fallen (tick rnd : Nat → Nat) (s : Run) : Run :=
  if s.ctx.car_y > PORTRAIT_HEIGHT - 7 then
    line_car_off_track tick rnd (Run.map line_car_bottom s)
  else s

/-- The gravity step (lines 807-835). -/
def line_car_gravity (tick rnd : Nat → Nat) (speed_modifier : Int) (s : Run) : Run :=
  if get1 s.ctx.is_holding 0 then s
  else
    line_car_fallen tick rnd
      (Run.map (fun ctx => { ctx with car_y := ctx.car_y + speed_modifier }) s)

/-- The drift slowdown (lines 837-839). -/
def line_car_drift_slowdown (ctx : GameContext) : GameContext :=
  if ctx.is_drifting ∧ (ctx.car_y < ctx.fast_line ∨ ctx.car_y > ctx.slow_line) then
    speed_nudge_down ctx
  else ctx

/-- The run of `update_line_car` up to the drift check (lines 756-790):
stamp, speed adjustment, scrolling. -/
def line_car_before_drift (ctx : GameContext) (tick rnd : Nat → Nat) : Run :=
  line_car_scroll rnd (Int.tdiv ctx.speed_bpm 78) (line_car_speed_adjust tick (stamped ctx tick))

/-- The function `update_line_car` (lines 752-840) on a non-null context. -/
def update_line_car (ctx : GameContext) (tick rnd : Nat → Nat) : GameContext :=
  if rate_limited ctx (speed_fps ctx) tick then ctx
  else
    line_car_drift_slowdown
      (line_car_gravity tick rnd (Int.tdiv ctx.speed_bpm 78)
        (line_car_drift_check tick (line_car_before_drift ctx tick rnd))).ctx

/-! ### Flip IQ (lines 863-952) -/

/-- Lines 870-874: the speed follows the streak; the clock is read by the
first test when `streak > 0`, by the second when `streak == 0`. -/
def flip_iq_speed_adjust (tick : Nat → Nat) (s : Run) : Run :=
  if s.ctx.streak > 0 then
    if sub32 (s.now tick) s.ctx.last_ai_update > 150 then Run.map speed_nudge_up s.read
    else s.read
  else if s.ctx.streak = 0 then
    if sub32 (s.now tick) s.ctx.last_ai_update > 199 then Run.map speed_nudge_down s.read
    else s.read
  else s

/-- The expression `rand() % (streak > 10 ? 10 : streak) + 10` (lines 880,
901), `r` being the outcome of `rand()`.  For `streak = 0` the remainder is
by zero, undefined in C; here `Int.tmod r 0 = r`. -/
def draw_ball_width (r streak : Int) : Int :=
  Int.tmod r (if streak > 10 then 10 else streak) + 10

/-- The cap `ball_count > WORLD_OBJ_LIMIT ? WORLD_OBJ_LIMIT : ball_count`
(lines 887, 905). -/
def cap_ball_count (n : Int) : Int := if n > WORLD_OBJ_LIMIT then WORLD_OBJ_LIMIT else n

/-- Lines 880-887: the ball of the round and the number of balls, `r0` and
`r1` being the two outcomes of `rand()`. -/
def flip_iq_first_ball (r0 r1 : Int) (ctx : GameContext) : GameContext :=
  let ctx := { ctx with ball_width := draw_ball_width r0 ctx.streak }
  let ctx := { ctx with
    key_columns := set2 ctx.key_columns 2 0 ctx.ball_width
    key_positions := set2 ctx.key_positions 2 0 26
    active_lanes := 5
    ball_count := ctx.ball_width * 6 }
  let ctx := { ctx with
    ball_count := ctx.ball_count - Int.tdiv (ctx.ball_count * Int.tmod r1 21) 100 }
  { ctx with ball_count := cap_ball_count ctx.ball_count }

/-- The initial drop (lines 877-889): two readings of the clock, two calls
of `rand()`. -/
def flip_iq_first_drop (tick rnd : Nat → Nat) (s : Run) : Run :=
  if s.ctx.game_start_time = 0 then
    { ctx := flip_iq_first_ball (rnd s.rands) (rnd (s.rands + 1))
        { s.ctx with
          game_start_time := furi_get_tick tick s.ticks
          round_start_time := furi_get_tick tick (s.ticks + 1) }
      ticks := s.ticks + 2
      rands := s.rands + 2 }
  else s

/-- Lines 898-899: the round number goes up and loops back to 1 after 99. -/
def flip_iq_next_round (ctx : GameContext) : GameContext :=
  if ctx.streak + 1 > 99 then { ctx with streak := 1 } else { ctx with streak := ctx.streak + 1 }

/-- Lines 901-905: the ball and the number of balls of the next round. -/
def flip_iq_next_ball (r0 r1 : Int) (ctx : GameContext) : GameContext :=
  let ctx := { ctx with ball_width := draw_ball_width r0 ctx.streak }
  let ctx := { ctx with
    key_columns := set2 ctx.key_columns 2 0 ctx.ball_width
    key_positions := set2 ctx.key_positions 2 0 26
    ball_count := Int.tdiv (ctx.ball_width * 6 * (100 - Int.tmod r1 21)) 100 }
  { ctx with ball_count := cap_ball_count ctx.ball_count }

/-- The round-end block (lines 894-905): the bonus and its notification, the
next round, `round_start_time = furi_get_tick()`, the next ball. -/
def flip_iq_round_end (tick rnd : Nat → Nat) (s : Run) : Run :=
  { ctx := flip_iq_next_ball (rnd s.rands) (rnd (s.rands + 1))
      { flip_iq_next_round
          (Run.notify tick (snprintf32 "Round End. +10 PP")
            (Run.map (fun ctx => { ctx with score := ctx.score + 10 }) s)).ctx with
        round_start_time := furi_get_tick tick (s.ticks + 1) }
    ticks := s.ticks + 2
    rands := s.rands + 2 }

/-- The test of line 893, `now` being the reading of line 891: `elapsed` and
`round_time` are `uint32_t`. -/
def flip_iq_round_over (now : Nat) (ctx : GameContext) : Prop :=
  sub32 now ctx.round_start_time / 1000 > sub32 (toU32 (30 + (ctx.streak - 1) * 30)) 9 ∧
  get2 ctx.key_positions 2 0 = 0

instance (now : Nat) (ctx : GameContext) : Decidable (flip_iq_round_over now ctx) :=
  inferInstanceAs (Decidable (_ ∧ _))

/-- Lines 891-907: the clock is read once for `elapsed`. -/
def flip_iq_round (tick rnd : Nat → Nat) (s : Run) : Run :=
  if flip_iq_round_over (s.now tick) s.ctx then flip_iq_round_end tick rnd s.read else s.read

/-- Lines 922-927: the player climbs over a broken ball. -/
def flip_iq_climb (tick rnd : Nat → Nat) (i j : Int) (s : Run) : Run :=
  Run.notify tick (flip_iq_notifications_positive.getD (Int.tmod (s.rand rnd) 5).toNat "")
    (Run.map (fun ctx =>
      { ctx with car_y := ctx.car_y - get2 ctx.key_columns i j, score := ctx.score + 1 }) s).drawn

/-- Lines 929-933: the player stumbles. -/
def flip_iq_stumble (tick rnd : Nat → Nat) (s : Run) : Run :=
  Run.notify tick (flip_iq_notifications_negative.getD (Int.tmod (s.rand rnd) 5).toNat "")
    (Run.map (fun ctx => { ctx with streak := 0 }) s).drawn

/-- Lines 920-935: the ball that left the board meets the player. -/
def flip_iq_meet (tick rnd : Nat → Nat) (i j : Nat) (s : Run) : Run :=
  if (i : Int) = s.ctx.car_lane ∧
      s.ctx.car_y + 3 ≥ get2 s.ctx.key_positions i j - get2 s.ctx.key_columns i j then
    if get1 s.ctx.ball_broken j ∧ get1 s.ctx.is_holding 0 then flip_iq_climb tick rnd i j s
    else flip_iq_stumble tick rnd s
  else s

/-- Lines 917-936: the ball leaves the board. -/
def flip_iq_leave (tick rnd : Nat → Nat) (i j : Nat) (s : Run) : Run :=
  if get2 s.ctx.key_positions i j > PORTRAIT_HEIGHT - 7 then
    flip_iq_meet tick rnd i j
      (Run.map (fun ctx =>
        { ctx with
          key_positions := set2 ctx.key_positions i j 0
          key_columns := set2 ctx.key_columns i j 0 }) s)
  else s

/-- Lines 914-916: in the breakable zone the ball breaks with one chance in
four; `rand()` is called only inside the zone. -/
def flip_iq_break (rnd : Nat → Nat) (i j : Nat) (s : Run) : Run :=
  if get2 s.ctx.key_positions i j > 46 ∧ get2 s.ctx.key_positions i j < 46 + 20 then
    if Int.tmod (s.rand rnd) 4 = 0 then
      (Run.map (fun ctx => { ctx with ball_broken := set1 ctx.ball_broken j true }) s).drawn
    else s.drawn
  else s

/-- One pass of the inner loop body (lines 912-937). -/
def flip_iq_slot (tick rnd : Nat → Nat) (speed_modifier : Int) (i j : Nat) (s : Run) : Run :=
  if get2 s.ctx.key_positions i j > 0 then
    flip_iq_leave tick rnd i j
      (flip_iq_break rnd i j
        (Run.map (fun ctx =>
          { ctx with
            key_positions :=
              set2 ctx.key_positions i j (get2 ctx.key_positions i j + speed_modifier) }) s))
  else s

/-- The loops over the balls (lines 910-939). -/
def flip_iq_balls (tick rnd : Nat → Nat) (speed_modifier : Int) (s : Run) : Run :=
  for_loop 5 (fun i s =>
    for_loop WORLD_OBJ_LIMIT (fun j s => flip_iq_slot tick rnd speed_modifier i j s) s) s

/-- One pass of the spawn loop body (lines 944-949). -/
def flip_iq_spawn_slot (lane : Int) (j : Nat) (s : Run) : Run × Bool :=
  if get2 s.ctx.key_positions lane j = 0 then
    (Run.map (fun ctx =>
      { ctx with
        key_positions := set2 ctx.key_positions lane j 46
        key_columns := set2 ctx.key_columns lane j ctx.ball_width
        ball_count := ctx.ball_count - 1 }) s, true)
  else (s, false)

/-- Lines 942-950: a ball enters the random lane `rand() % active_lanes` (a
remainder by zero when `active_lanes = 0`, undefined in C; here
`Int.tmod r 0 = r`). -/
def flip_iq_spawn_lane (rnd : Nat → Nat) (s : Run) : Run :=
  for_loop_break WORLD_OBJ_LIMIT
    (fun j t => flip_iq_spawn_slot (Int.tmod (s.rand rnd) s.ctx.active_lanes) j t) s.drawn

/-- The spawn step (lines 941-951): the counter is incremented by the test. -/
def flip_iq_spawn (rnd : Nat → Nat) (s : Run) : Run :=
  if s.ctx.ai_beat_counter % 15 = 0 ∧ s.ctx.ball_count > 0 then
    flip_iq_spawn_lane rnd (Run.map beat s)
  else Run.map beat s

/-- The function `update_flip_iq` (lines 863-952) on a non-null context. -/
def update_flip_iq (ctx : GameContext) (tick rnd : Nat → Nat) : GameContext :=
  if rate_limited ctx (speed_fps ctx) tick then ctx
  else
    (flip_iq_spawn rnd
      (flip_iq_balls tick rnd (Int.tdiv ctx.speed_bpm 78)
        (flip_iq_round tick rnd
          (flip_iq_first_drop tick rnd (flip_iq_speed_adjust tick (stamped ctx tick)))))).ctx

/-! ### Tectone Sim (lines 955-1164) -/

/-- The function-local `static` variables: `last_comment_side` and
`same_side_count` of `update_tectone_sim` (lines 1132-1133),
`last_credits_update` of `timer_callback` (line 1934). -/
structure Statics where
  last_comment_side : Int
  same_side_count : Int
  last_credits_update : Nat

/-- The statics at program start. -/
def initial_statics : Statics :=
  { last_comment_side := -1, same_side_count := 0, last_credits_update := 0 }

/-- The statement `ctx->emotion_cooldown = furi_get_tick()`. -/
def emotion_stamp (tick : Nat → Nat) (s : Run) : Run :=
  { ctx := { s.ctx with emotion_cooldown := furi_get_tick tick s.ticks }
    ticks := s.ticks + 1
    rands := s.rands }

/-- The two clamps `if(x < 0) x = 0; if(x > 9) x = 9` (lines 979-980 and
copies). -/
def clamp_emotion (x : Int) : Int :=
  if (if x < 0 then 0 else x) > 9 then 9 else (if x < 0 then 0 else x)

/-- The step `rand() % 2 ? 1 : -1`, `r` being the outcome of `rand()`. -/
def coin_step (r : Int) : Int := if Int.tmod r 2 ≠ 0 then 1 else -1

/-- Lines 976-992: the prop moves one of three meters by one, clamped; `r0`
picks the prop, `r1` the direction. -/
def tectone_prop_effect (r0 r1 : Int) (ctx : GameContext) : GameContext :=
  if Int.tmod r0 3 = 0 then { ctx with anger := clamp_emotion (ctx.anger + coin_step r1) }
  else if Int.tmod r0 3 = 1 then { ctx with based := clamp_emotion (ctx.based + coin_step r1) }
  else { ctx with cuteness := clamp_emotion (ctx.cuteness + coin_step r1) }

/-- The Down branch (lines 975-992). -/
def tectone_prop (tick rnd : Nat → Nat) (s : Run) : Run :=
  { ctx := tectone_prop_effect (rnd s.rands) (rnd (s.rands + 1)) (emotion_stamp tick s).ctx
    ticks := s.ticks + 1
    rands := s.rands + 2 }

/-- Lines 994-998: Ok raises a random meter that is below 9. -/
def tectone_random_effect (r : Int) (ctx : GameContext) : GameContext :=
  if Int.tmod r 4 = 0 then { ctx with anger := ctx.anger + (if ctx.anger < 9 then 1 else 0) }
  else if Int.tmod r 4 = 1 then
    { ctx with based := ctx.based + (if ctx.based < 9 then 1 else 0) }
  else if Int.tmod r 4 = 2 then
    { ctx with cuteness := ctx.cuteness + (if ctx.cuteness < 9 then 1 else 0) }
  else { ctx with sad := ctx.sad + (if ctx.sad < 9 then 1 else 0) }

/-- The Ok branch (lines 994-999). -/
def tectone_random (tick rnd : Nat → Nat) (s : Run) : Run :=
  emotion_stamp tick (Run.map (tectone_random_effect (s.rand rnd)) s).drawn

/-- Lines 965-1000, entered after the cooldown test. -/
def tectone_emotion_keys (tick rnd : Nat → Nat) (s : Run) : Run :=
  if get1 s.ctx.is_holding 1 ∧ s.ctx.anger < 9 then
    emotion_stamp tick (Run.map (fun ctx => { ctx with anger := ctx.anger + 1 }) s)
  else if get1 s.ctx.is_holding 0 ∧ s.ctx.based < 9 then
    emotion_stamp tick (Run.map (fun ctx => { ctx with based := ctx.based + 1 }) s)
  else if get1 s.ctx.is_holding 3 ∧ s.ctx.cuteness < 9 then
    emotion_stamp tick (Run.map (fun ctx => { ctx with cuteness := ctx.cuteness + 1 }) s)
  else if get1 s.ctx.is_holding 4 then tectone_prop tick rnd s
  else if get1 s.ctx.is_holding 2 then tectone_random tick rnd s
  else s

/-- The emotion updates (lines 964-1001); the clock is read once by the test. -/
def tectone_emotions (tick rnd : Nat → Nat) (s : Run) : Run :=
  if sub32 (s.now tick) s.ctx.emotion_cooldown > 1000 then tectone_emotion_keys tick rnd s.read
  else s.read

/-- Lines 1005-1032: anger at a bound resets anger and cuteness; `rand()` is
called for the phrase and, at 9 with phrase 0, for the number of slams. -/
def tectone_anger_bound (rnd : Nat → Nat) (s : Run) : Run :=
  if s.ctx.anger = 0 then
    (Run.map (fun ctx => { ctx with cuteness := 3, anger := 5 }) s).drawn
  else if s.ctx.anger = 9 then
    if Int.tmod (s.rand rnd) 4 = 0 then
      (Run.map (fun ctx => { ctx with cuteness := 3, anger := 5 }) s).drawn.drawn
    else (Run.map (fun ctx => { ctx with cuteness := 3, anger := 5 }) s).drawn
  else s

/-- Lines 1033-1056: based at a bound resets based and sad. -/
def tectone_based_bound (s : Run) : Run :=
  if s.ctx.based = 0 then (Run.map (fun ctx => { ctx with sad := 4, based := 7 }) s).drawn
  else if s.ctx.based = 9 then (Run.map (fun ctx => { ctx with sad := 4, based := 7 }) s).drawn
  else s

/-- Lines 1057-1075: cuteness at a bound raises based and resets cuteness;
at 0 `rand()` is called twice, at 9 once or twice. -/
def tectone_cuteness_bound (rnd : Nat → Nat) (s : Run) : Run :=
  if s.ctx.cuteness = 0 then
    (Run.map (fun ctx => { ctx with based := ctx.based + 1, cuteness := 3 }) s).drawn.drawn
  else if s.ctx.cuteness = 9 then
    if Int.tmod (s.rand rnd) 2 ≠ 0 then
      (Run.map (fun ctx => { ctx with based := ctx.based + 1, cuteness := 3 }) s).drawn
    else (Run.map (fun ctx => { ctx with based := ctx.based + 1, cuteness := 3 }) s).drawn.drawn
  else s

/-- Lines 1112-1115: the chat is hidden. -/
def tectone_hide_chat (ctx : GameContext) : GameContext :=
  for_loop WORLD_OBJ_LIMIT (fun i ctx =>
    { ctx with
      comment_positions := set1 ctx.comment_positions i 0
      comment_heights := set1 ctx.comment_heights i 0 }) ctx

/-- Lines 1088-1117: the scripted sequence picked by `idx = rand() % 5`, as
the context is left when the sequence and its delays are over. -/
def tectone_sad_sequence (idx : Int) (ctx : GameContext) : GameContext :=
  if idx = 3 then ctx
  else if idx = 0 then
    { ctx with is_day := true, tectone_x := PORTRAIT_WIDTH / 2 - 3 }
  else if idx = 1 then { ctx with tectone_x := PORTRAIT_WIDTH / 2 - 3 }
  else if idx = 2 then { ctx with is_day := true }
  else tectone_hide_chat ctx

/-- Lines 1076-1118: sad at a bound raises anger and resets sad; at 9 a
scripted sequence follows. -/
def tectone_sad_bound (rnd : Nat → Nat) (s : Run) : Run :=
  if s.ctx.sad = 0 then
    (Run.map (fun ctx => { ctx with anger := ctx.anger + 1, sad := 4 }) s).drawn
  else if s.ctx.sad = 9 then
    (Run.map (fun ctx =>
      tectone_sad_sequence (Int.tmod (s.rand rnd) 5)
        { ctx with anger := ctx.anger + 1, sad := 4 }) s).drawn
  else s

/-- The emotion thresholds (lines 1005-1118). -/
def tectone_bounds (rnd : Nat → Nat) (s : Run) : Run :=
  tectone_sad_bound rnd (tectone_cuteness_bound rnd (tectone_based_bound (tectone_anger_bound rnd s)))

/-- The local `base_move_cooldown` (lines 1121-1122). -/
def base_move_cooldown (ctx : GameContext) : Nat :=
  if ctx.based > 7 ∨ ctx.sad > 7 then 490 else 500

/-- Lines 1124-1126: three pixels left or right, kept on the screen. -/
def tectone_walk (r : Int) (ctx : GameContext) : GameContext :=
  let ctx := { ctx with tectone_x := ctx.tectone_x + (if Int.tmod r 2 ≠ 0 then 3 else -3) }
  let ctx := if ctx.tectone_x < 0 then { ctx with tectone_x := 0 } else ctx
  if ctx.tectone_x > PORTRAIT_WIDTH - 10 then { ctx with tectone_x := PORTRAIT_WIDTH - 10 }
  else ctx

/-- Lines 1124-1127, entered after the cooldown test. -/
def tectone_step (tick rnd : Nat → Nat) (s : Run) : Run :=
  { ctx := { tectone_walk (s.rand rnd) s.ctx with last_move_time := furi_get_tick tick s.ticks }
    ticks := s.ticks + 1
    rands := s.rands + 1 }

/-- The move (lines 1121-1129); the clock is read once by the test. -/
def tectone_move (tick rnd : Nat → Nat) (s : Run) : Run :=
  if sub32 (s.now tick) s.ctx.last_move_time > base_move_cooldown s.ctx then
    tectone_step tick rnd s.read
  else s.read

/-- Lines 1136-1138: the run of comments from the same side. -/
def count_side (side : Int) (st : Statics) : Statics :=
  { st with
    same_side_count := if st.last_comment_side = side then st.same_side_count + 1 else 0
    last_comment_side := side }

/-- Lines 1140-1141: the hype event. -/
def tectone_hype (tick : Nat → Nat) (s : Run) : Run :=
  { ctx := { s.ctx with
      hype_train := set1 s.ctx.hype_train 0 true
      hype_cooldown := add32 (furi_get_tick tick s.ticks) 15000 }
    ticks := s.ticks + 1
    rands := s.rands }

/-- Lines 1139-1148: the hype event fires after three comments in a row from
one side or with one chance in four; `rand()` is called only when the run is
shorter than three. -/
def tectone_hype_check (tick rnd : Nat → Nat) (st : Statics) (s : Run) : Run :=
  if st.same_side_count ≥ 3 then tectone_hype tick s
  else if Int.tmod (s.rand rnd) 4 = 3 then tectone_hype tick s.drawn
  else s.drawn

/-- One pass of the comment loop body (lines 1150-1161). -/
def tectone_comment_slot (rnd : Nat → Nat) (speed_modifier : Int) (i : Nat) (s : Run) :
    Run × Bool :=
  if get1 s.ctx.comment_positions i > 0 then
    if get1 s.ctx.comment_positions i - speed_modifier < 0 then
      (Run.map (fun ctx =>
        { ctx with
          comment_positions := set1 ctx.comment_positions i 0
          comment_heights := set1 ctx.comment_heights i 0 }) s, false)
    else
      (Run.map (fun ctx =>
        { ctx with
          comment_positions :=
            set1 ctx.comment_positions i (get1 ctx.comment_positions i - speed_modifier) }) s,
       false)
  else if Int.tmod (s.rand rnd) 100 < 10 then
    ((Run.map (fun ctx =>
      { ctx with
        comment_heights := set1 ctx.comment_heights i 10
        comment_positions := set1 ctx.comment_positions i 47 }) s).drawn, true)
  else (s.drawn, false)

/-- The comment loop (lines 1149-1162). -/
def tectone_comment_loop (rnd : Nat → Nat) (speed_modifier : Int) (s : Run) : Run :=
  for_loop_break WORLD_OBJ_LIMIT (fun i t => tectone_comment_slot rnd speed_modifier i t) s

/-- Lines 1135-1162, entered after the test of line 1134. -/
def tectone_comment_stream (tick rnd : Nat → Nat) (speed_modifier : Int) (st : Statics)
    (s : Run) : Run × Statics :=
  (tectone_comment_loop rnd speed_modifier
     (tectone_hype_check tick rnd (count_side (Int.tmod (s.rand rnd) 2) st) s.drawn),
   count_side (Int.tmod (s.rand rnd) 2) st)

/-- The comments (lines 1134-1163); the clock is read once by the test. -/
def tectone_comments (tick rnd : Nat → Nat) (speed_modifier : Int) (st : Statics) (s : Run) :
    Run × Statics :=
  if sub32 (s.now tick) s.ctx.last_move_time > 1000 ∧ s.ctx.hype_cooldown = 0 then
    tectone_comment_stream tick rnd speed_modifier st s.read
  else (s.read, st)

/-- The run of `update_tectone_sim` up to the move (lines 959-1118). -/
def tectone_after_bounds (ctx : GameContext) (tick rnd : Nat → Nat) : Run :=
  tectone_bounds rnd (tectone_emotions tick rnd (stamped ctx tick))

/-- The function `update_tectone_sim` (lines 955-1164) on a non-null context,
with its statics. -/
def update_tectone_sim (ctx : GameContext) (st : Statics) (tick rnd : Nat → Nat) :
    GameContext × Statics :=
  if rate_limited ctx (speed_fps ctx) tick then (ctx, st)
  else
    ((tectone_comments tick rnd (Int.tdiv ctx.speed_bpm 58) st
        (tectone_move tick rnd (tectone_after_bounds ctx tick rnd))).1.ctx,
     (tectone_comments tick rnd (Int.tdiv ctx.speed_bpm 58) st
        (tectone_move tick rnd (tectone_after_bounds ctx tick rnd))).2)

/-! ### Space Flight (lines 1166-1258) -/

/-- Lines 1177-1182: the object moves with the view. -/
def space_flight_move (speed_modifier : Int) (i : Int) (ctx : GameContext) : GameContext :=
  let ctx := { ctx with objects := set2 ctx.objects i 1 (get2 ctx.objects i 1 + speed_modifier) }
  if ctx.screen_type = 1 then
    { ctx with objects := set2 ctx.objects i 1 (get2 ctx.objects i 1 - speed_modifier * 2) }
  else if ctx.screen_type = 2 then
    { ctx with objects := set2 ctx.objects i 1 (get2 ctx.objects i 1 + speed_modifier * 2) }
  else if ctx.screen_type = 3 then
    { ctx with objects := set2 ctx.objects i 0 (get2 ctx.objects i 0 - speed_modifier) }
  else if ctx.screen_type = 4 then
    { ctx with objects := set2 ctx.objects i 0 (get2 ctx.objects i 0 + speed_modifier) }
  else if ctx.screen_type = 5 ∨ ctx.screen_type = 6 then
    { ctx with objects := set2 ctx.objects i 1 (get2 ctx.objects i 1 + speed_modifier * 2) }
  else ctx

/-- Line 1184: the object grows by `speed_modifier / 2`. -/
def space_flight_grow (speed_modifier : Int) (i : Int) (ctx : GameContext) : GameContext :=
  { ctx with objects := set2 ctx.objects i 2 (get2 ctx.objects i 2 + Int.tdiv speed_modifier 2) }

/-- The test of lines 1187-1188 and 1213-1214: the object is in front of the
ship. -/
def in_hit_box (ctx : GameContext) (i : Int) : Prop :=
  get2 ctx.objects i 0 > 5 ∧ get2 ctx.objects i 0 < PORTRAIT_WIDTH - 5 ∧
  get2 ctx.objects i 1 > 36 + 13 ∧ get2 ctx.objects i 1 < 101 - 13

instance (ctx : GameContext) (i : Int) : Decidable (in_hit_box ctx i) :=
  inferInstanceAs (Decidable (_ ∧ _))

/-- The local `damage` (lines 1186, 1189-1190): the size, halved when
`screen_type != 0`, then doubled when the object is centred. -/
def space_flight_damage (ctx : GameContext) (i : Int) : Int :=
  (if ctx.screen_type ≠ 0 then Int.tdiv (get2 ctx.objects i 2) 2 else get2 ctx.objects i 2) *
    (if (get2 ctx.objects i 0 - PORTRAIT_WIDTH / 2).natAbs < 5 then 2 else 1)

/-- Lines 1191-1192: the damage goes to the armor while there is some,
otherwise to the health. -/
def space_flight_take (damage : Int) (ctx : GameContext) : GameContext :=
  if ctx.ship_armor > 0 then { ctx with ship_armor := ctx.ship_armor - damage }
  else { ctx with ship_health := ctx.ship_health - damage }

/-- Lines 1193-1198: the redock after the health is used up. -/
def space_flight_redock (tick rnd : Nat → Nat) (s : Run) : Run :=
  if s.ctx.ship_health ≤ 0 then
    { ctx := { s.ctx with
        ship_health := Int.tmod (rnd s.rands) 191 + 9
        ship_armor := Int.tmod (rnd (s.rands + 1)) 81 + 19
        screen_type := 8
        last_sequence_time := furi_get_tick tick s.ticks }
      ticks := s.ticks + 1
      rands := s.rands + 2 }
  else s

/-- Lines 1185-1200: the damage band. -/
def space_flight_hit (tick rnd : Nat → Nat) (i : Int) (s : Run) : Run :=
  if get2 s.ctx.objects i 2 > PORTRAIT_WIDTH / 3 ∧ get2 s.ctx.objects i 2 < PORTRAIT_WIDTH / 2 then
    if in_hit_box s.ctx i then
      space_flight_redock tick rnd (Run.map (space_flight_take (space_flight_damage s.ctx i)) s)
    else s
  else s

/-- Line 1201: an object that left the view is removed. -/
def space_flight_cull (i : Int) (ctx : GameContext) : GameContext :=
  if get2 ctx.objects i 1 > 101 ∨ get2 ctx.objects i 1 < 36 then
    { ctx with objects := set2 ctx.objects i 2 0 }
  else ctx

/-- Lines 1177-1201: a live object. -/
def space_flight_object (tick rnd : Nat → Nat) (speed_modifier : Int) (i : Int) (s : Run) : Run :=
  Run.map (space_flight_cull i)
    (space_flight_hit tick rnd i
      (Run.map (space_flight_grow speed_modifier i) (Run.map (space_flight_move speed_modifier i) s)))

/-- Lines 1203-1205: the new object, `r0` and `r1` being outcomes of `rand()`. -/
def space_flight_place (r0 r1 : Int) (i : Int) (ctx : GameContext) : GameContext :=
  let ctx := { ctx with objects := set2 ctx.objects i 0 (Int.tmod r0 64) }
  let ctx := { ctx with objects := set2 ctx.objects i 1 36 }
  { ctx with objects := set2 ctx.objects i 2 (Int.tmod r1 10 + 5) }

/-- Lines 1207-1211: the new object may be a pickup; `rand()` is called for
the health pickup only when `ship_armor == 0`, and for the armor pickup
unless the health pickup was chosen. -/
def space_flight_pickup_draw (rnd : Nat → Nat) (i : Int) (s : Run) : Run :=
  if s.ctx.ship_armor = 0 then
    if Int.tmod (s.rand rnd) 100 < 3 then
      (Run.map (fun ctx => { ctx with objects := set2 ctx.objects i 2 (-10) }) s).drawn
    else if Int.tmod (s.drawn.rand rnd) 100 < 25 then
      (Run.map (fun ctx => { ctx with objects := set2 ctx.objects i 2 (-5) }) s).drawn.drawn
    else s.drawn.drawn
  else if Int.tmod (s.rand rnd) 100 < 25 then
    (Run.map (fun ctx => { ctx with objects := set2 ctx.objects i 2 (-5) }) s).drawn
  else s.drawn

/-- Lines 1203-1211: the spawn into slot `i`. -/
def space_flight_spawn (rnd : Nat → Nat) (i : Int) (s : Run) : Run :=
  space_flight_pickup_draw rnd i
    (Run.map (space_flight_place (s.rand rnd) (s.drawn.rand rnd) i) s).drawn.drawn

/-- Lines 1215-1217: the pickup is collected. -/
def space_flight_collect (i : Int) (ctx : GameContext) : GameContext :=
  let ctx :=
    if get2 ctx.objects i 2 = -10 then { ctx with ship_health := ctx.ship_health + 10 }
    else if get2 ctx.objects i 2 = -5 then { ctx with ship_armor := ctx.ship_armor + 5 }
    else ctx
  { ctx with objects := set2 ctx.objects i 2 0 }

/-- Lines 1212-1219: a pickup in front of the ship is collected. -/
def space_flight_pickup (i : Int) (ctx : GameContext) : GameContext :=
  if get2 ctx.objects i 2 < 0 then
    if in_hit_box ctx i then space_flight_collect i ctx else ctx
  else ctx

/-- One pass of the loop body (lines 1176-1219); for a slot without a live
object `rand()` is called once by the spawn test. -/
def space_flight_slot (tick rnd : Nat → Nat) (speed_modifier : Int) (i : Nat) (s : Run) : Run :=
  if get2 s.ctx.objects i 2 > 0 then space_flight_object tick rnd speed_modifier i s
  else if Int.tmod (s.rand rnd) 100 < 10 then space_flight_spawn rnd i s.drawn
  else Run.map (space_flight_pickup i) s.drawn

/-- The loop over the objects (lines 1175-1220). -/
def space_flight_objects (tick rnd : Nat → Nat) (speed_modifier : Int) (s : Run) : Run :=
  for_loop WORLD_OBJ_LIMIT (fun i s => space_flight_slot tick rnd speed_modifier i s) s

/-- The direction appended to the history (lines 1225-1230). -/
def held_direction (ctx : GameContext) : Int :=
  if get1 ctx.is_holding 0 then 0
  else if get1 ctx.is_holding 4 then 4
  else if get1 ctx.is_holding 1 then 1
  else if get1 ctx.is_holding 3 then 3
  else if get1 ctx.is_holding 2 then 2
  else -1

/-- Lines 1224-1230: the history shifts left and the held direction is
appended. -/
def space_flight_record (ctx : GameContext) : GameContext :=
  let ctx := for_loop 4 (fun i ctx =>
    { ctx with recent_inputs := set1 ctx.recent_inputs i (get1 ctx.recent_inputs (i + 1)) }) ctx
  let ctx := { ctx with recent_inputs := set1 ctx.recent_inputs 4 (-1) }
  if held_direction ctx = -1 then ctx
  else { ctx with recent_inputs := set1 ctx.recent_inputs 4 (held_direction ctx) }

/-- The test `recent_inputs == {a, b, c, d, e}` of lines 1232, 1238, 1244, 1250. -/
def history_is (ctx : GameContext) (a b c d e : Int) : Prop :=
  get1 ctx.recent_inputs 0 = a ∧ get1 ctx.recent_inputs 1 = b ∧ get1 ctx.recent_inputs 2 = c ∧
  get1 ctx.recent_inputs 3 = d ∧ get1 ctx.recent_inputs 4 = e

instance (ctx : GameContext) (a b c d e : Int) : Decidable (history_is ctx a b c d e) :=
  inferInstanceAs (Decidable (_ ∧ _))

/-- Lines 1233-1234 and copies: the manoeuvre and its time stamp. -/
def space_flight_manoeuvre (tick : Nat → Nat) (screen_type : Int) (s : Run) : Run :=
  { ctx := { s.ctx with
      screen_type := screen_type
      last_sequence_time := furi_get_tick tick s.ticks }
    ticks := s.ticks + 1
    rands := s.rands }

/-- Lines 1232-1256: the four sequences. -/
def space_flight_match (tick : Nat → Nat) (s : Run) : Run :=
  if history_is s.ctx 0 0 0 0 2 then space_flight_manoeuvre tick 5 s
  else if history_is s.ctx 0 4 4 4 2 then space_flight_manoeuvre tick 5 s
  else if history_is s.ctx 1 1 1 1 1 then space_flight_manoeuvre tick 6 s
  else if history_is s.ctx 3 3 3 3 3 then space_flight_manoeuvre tick 6 s
  else s

/-- The input sequences (lines 1223-1257); the clock is read once by the test. -/
def space_flight_sequences (tick : Nat → Nat) (s : Run) : Run :=
  if sub32 (s.now tick) s.ctx.last_sequence_time > 1963 then
    space_flight_match tick (Run.map space_flight_record s.read)
  else s.read

/-- The function `update_space_flight` (lines 1166-1258) on a non-null
context. -/
def update_space_flight (ctx : GameContext) (tick rnd : Nat → Nat) : GameContext :=
  if rate_limited ctx (speed_fps ctx) tick then ctx
  else
    (space_flight_sequences tick
      (space_flight_objects tick rnd (Int.tdiv ctx.speed_bpm 78) (stamped ctx tick))).ctx

/-! ## The timer (lines 1889-1943) -/

/-- The local `text_width` of line 1903: `strlen(...) * 6` stored in an `int`. -/
def text_width (ctx : GameContext) : Int := toInt32 (ctx.notification_text.length * 6)

/-- The value line 1904 stores in `notification_x`: the quotient is unsigned
and so is the subtraction, whose result is stored in an `int`. -/
def scroll_start (ctx : GameContext) (elapsed : Nat) : Int :=
  toInt32 (sub32 (toU32 (Int.tdiv (PORTRAIT_WIDTH - text_width ctx) 2))
    (elapsed * toU32 (text_width ctx) % 4294967296 / NOTIFICATION_MS))

/-- Lines 1903-1905: the scroll position of a notification still on show. -/
def notification_scroll (ctx : GameContext) (elapsed : Nat) : GameContext :=
  if scroll_start ctx elapsed < -text_width ctx then
    { ctx with notification_x := scroll_start ctx elapsed + text_width ctx }
  else { ctx with notification_x := scroll_start ctx elapsed }

/-- Phase 1 of the timer (lines 1900-1910), `now` being the reading of line
1892. -/
def notification_decay (now : Nat) (ctx : GameContext) : GameContext :=
  if ctx.notification_text ≠ "" ∧ ctx.note_q_a = 0 then
    if sub32 now ctx.last_notification_time < NOTIFICATION_MS then
      notification_scroll ctx (sub32 now ctx.last_notification_time)
    else { ctx with notification_text := "", notification_x := 0 }
  else ctx

/-- Phase 2 of the timer (lines 1913-1925): the update function of the
current game state. -/
def timer_update (ctx : GameContext) (st : Statics) (tick rnd : Nat → Nat) : GameContext × Statics :=
  match ctx.state with
  | GameState.ZERO_HERO => (update_zero_hero ctx tick rnd, st)
  | GameState.FLIP_ZIP => (update_flip_zip ctx tick rnd, st)
  | GameState.LINE_CAR => (update_line_car ctx tick rnd, st)
  | GameState.FLIP_IQ => (update_flip_iq ctx tick rnd, st)
  | GameState.TECTONE_SIM => update_tectone_sim ctx st tick rnd
  | GameState.SPACE_FLIGHT => (update_space_flight ctx tick rnd, st)
  | GameState.LOADING => (ctx, st)
  | GameState.TITLE => (ctx, st)
  | GameState.ROTATE => (ctx, st)
  | GameState.CREDITS => (ctx, st)
  | GameState.PAUSE => (ctx, st)

/-- The three-frame cycle (lines 1896-1926) on the context whose
`frame_counter` was just advanced; an update function goes on reading the
clock after the reading of line 1892. -/
def timer_phase (ctx : GameContext) (st : Statics) (tick rnd : Nat → Nat) : GameContext × Statics :=
  if ctx.frame_counter = 0 then (ctx, st)
  else if ctx.frame_counter = 1 then (notification_decay (furi_get_tick tick 0) ctx, st)
  else if ctx.frame_counter = 2 then timer_update ctx st (fun k => tick (k + 1)) rnd
  else (ctx, st)

/-- Lines 1929-1932: day and night. -/
def timer_day_night (now : Nat) (ctx : GameContext) : GameContext :=
  if now > ctx.day_night_toggle_time then
    { ctx with is_day := !ctx.is_day, day_night_toggle_time := add32 now 300000 }
  else ctx

/-- Lines 1935-1938: the credits scroll one pixel every 85 ms. -/
def credits_scroll (now : Nat) (p : GameContext × Statics) : GameContext × Statics :=
  if sub32 now p.2.last_credits_update ≥ 85 then
    ({ p.1 with credits_y := p.1.credits_y - 1 }, { p.2 with last_credits_update := now })
  else p

/-- Lines 1939-1941: the credits are over. -/
def credits_over (ctx : GameContext) : GameContext :=
  if ctx.credits_y < -10 then { ctx with should_exit := true } else ctx

/-- Lines 1933-1942. -/
def timer_credits (now : Nat) (p : GameContext × Statics) : GameContext × Statics :=
  if p.1.state = GameState.CREDITS then
    (credits_over (credits_scroll now p).1, (credits_scroll now p).2)
  else p

/-- Line 1893: `ctx->frame_counter = (ctx->frame_counter + 1) % 3`. -/
def advance_frame (ctx : GameContext) : GameContext :=
  { ctx with frame_counter := (ctx.frame_counter + 1) % 3 }

/-- The function `timer_callback` (lines 1889-1943) on a non-null context,
with the statics. -/
def timer_callback (ctx : GameContext) (st : Statics) (tick rnd : Nat → Nat) :
    GameContext × Statics :=
  timer_credits (furi_get_tick tick 0)
    (timer_day_night (furi_get_tick tick 0) (timer_phase (advance_frame ctx) st tick rnd).1,
     (timer_phase (advance_frame ctx) st tick rnd).2)

/-! ## Fields outside the simulation -/

/-- The fields of the context that no update function writes. -/
structure Steady where
  state : GameState
  selected_game : Int
  is_left_handed : Bool
  last_input_time : Nat
  rapid_click_count : Nat
  day_night_toggle_time : Nat
  selected_side : Int
  selected_row : Int
  title_scroll_offset : Int
  back_hold_start : Nat
  rotate_start_time : Nat
  rotate_angle : Int
  zoom_factor : Int
  rotate_skip : Bool
  prev_streak : Int
  is_holding : Fin 5 → Bool
  note_q_a : Nat
  mascot_lane : Int
  last_back_press : Nat
  jump_hold_time : Nat
  last_tap_time : Nat
  tap_count : Int
  tap_window_start : Nat
  prev_car_lane : Int
  last_drift_time : Nat
  fast_line : Int
  slow_line : Int
  floor_check_flag : Bool
  balls_on_screen : Fin 8 → Int
  ball_sizes : Fin 8 → Int
  move_cooldown : Nat
  view_port : Nat
  should_exit : Bool
  last_back_press_time : Nat
  frame_counter : Nat
  start_back_count : Nat
  pause_back_count : Nat
  credits_y : Int

/-- The part of a context that no update function writes. -/
def steady (ctx : GameContext) : Steady where
  state := ctx.state
  selected_game := ctx.selected_game
  is_left_handed := ctx.is_left_handed
  last_input_time := ctx.last_input_time
  rapid_click_count := ctx.rapid_click_count
  day_night_toggle_time := ctx.day_night_toggle_time
  selected_side := ctx.selected_side
  selected_row := ctx.selected_row
  title_scroll_offset := ctx.title_scroll_offset
  back_hold_start := ctx.back_hold_start
  rotate_start_time := ctx.rotate_start_time
  rotate_angle := ctx.rotate_angle
  zoom_factor := ctx.zoom_factor
  rotate_skip := ctx.rotate_skip
  prev_streak := ctx.prev_streak
  is_holding := ctx.is_holding
  note_q_a := ctx.note_q_a
  mascot_lane := ctx.mascot_lane
  last_back_press := ctx.last_back_press
  jump_hold_time := ctx.jump_hold_time
  last_tap_time := ctx.last_tap_time
  tap_count := ctx.tap_count
  tap_window_start := ctx.tap_window_start
  prev_car_lane := ctx.prev_car_lane
  last_drift_time := ctx.last_drift_time
  fast_line := ctx.fast_line
  slow_line := ctx.slow_line
  floor_check_flag := ctx.floor_check_flag
  balls_on_screen := ctx.balls_on_screen
  ball_sizes := ctx.ball_sizes
  move_cooldown := ctx.move_cooldown
  view_port := ctx.view_port
  should_exit := ctx.should_exit
  last_back_press_time := ctx.last_back_press_time
  frame_counter := ctx.frame_counter
  start_back_count := ctx.start_back_count
  pause_back_count := ctx.pause_back_count
  credits_y := ctx.credits_y

/-! ## Vocabulary of the statements on the updates and the timer -/

/-- A context whose last update was 20 ms before the clock reading 1020. -/
def gate_example : GameContext :=
  { zero_context with speed_bpm := 60, last_ai_update := 1000 }

/-- A clock that reads 1020 at every call. -/
def clock_1020 : Nat → Nat := fun _ => 1020

/-- A `rand()` that returns 0 at every call. -/
def rand_zero : Nat → Nat := fun _ => 0

/-- A context in Pause on which the next tick of the timer is a phase-1 tick,
with the notification "Hi!" raised at time 1000. -/
def decay_example : GameContext :=
  { zero_context with
    state := GameState.PAUSE
    notification_text := "Hi!"
    last_notification_time := 1000
    notification_x := 23 }

/-- A Zero Hero context one hit below the threshold of both counters: lane 2
is held and its symbol is one pixel above the hit band. -/
def score_example : GameContext :=
  { zero_context with
    state := GameState.ZERO_HERO
    score := 9998
    streak := 9998
    key_positions := set2 zero_context.key_positions 2 0 121
    is_holding := set1 zero_context.is_holding 2 true
    ai_beat_counter := 1 }

/-- A press of Back. -/
def press_back : InputEvent := ⟨InputKey.Back, InputType.Press⟩

/-- A context in Rotate about to enter Line Car, 20 ms before the clock
reading 1020 a short Back was accepted. -/
def debounced_rotate_example : GameContext :=
  { zero_context with
    state := GameState.ROTATE
    selected_game := GAME_MODE_LINE_CAR
    last_back_press_time := 1000 }

/-- A context in Rotate about to enter Line Car, with points left over from
an earlier session. -/
def line_car_rotate_example : GameContext :=
  { zero_context with
    state := GameState.ROTATE
    selected_game := GAME_MODE_LINE_CAR
    score := 12
    uber_points := 5
    drift_multiplier := 3
    track_positions := fun _ _ => 60 }

/-- The event is a short Left or Right that the current game accepts as a
lane change: the tests of lines 1407, 1420, 1464, 1492, 1546 and 1559. -/
def lane_change_tap (ctx : GameContext) (input : InputEvent) : Prop :=
  input.type = InputType.Short ∧
  ((ctx.state = GameState.FLIP_ZIP ∧
      ((input.key = InputKey.Left ∧ ctx.mascot_lane > 0) ∨
       (input.key = InputKey.Right ∧ ctx.mascot_lane < 4))) ∨
   (ctx.state = GameState.LINE_CAR ∧
      ((input.key = InputKey.Left ∧ ctx.car_lane > 0) ∨
       (input.key = InputKey.Right ∧ ctx.car_lane < 4))) ∨
   (ctx.state = GameState.FLIP_IQ ∧
      ((input.key = InputKey.Left ∧ ctx.car_lane > 0 ∧ ctx.car_lane - 1 < ctx.active_lanes) ∨
       (input.key = InputKey.Right ∧ ctx.car_lane < 4 ∧
         ctx.car_lane + 1 < ctx.active_lanes))))

instance (ctx : GameContext) (input : InputEvent) : Decidable (lane_change_tap ctx input) :=
  inferInstanceAs (Decidable (_ ∧ _))

/-- A clock that reads 479 at every call. -/
def clock_479 : Nat → Nat := fun _ => 479

/-- A Line Car context whose speed was nudged up to 125; the cadence window
opened at time 0 and the last input came at time 250. -/
def fast_line_car_example : GameContext :=
  { zero_context with
    state := GameState.LINE_CAR
    car_lane := 2
    speed_bpm := 125
    last_input_time := 250 }

/-- The same context at speed 60: one tap in 480 ms is a cadence of 125, far
from 60. -/
def slow_line_car_example : GameContext :=
  { zero_context with
    state := GameState.LINE_CAR
    car_lane := 2
    speed_bpm := 60
    last_input_time := 250 }

/-- The fields the drift check of Line Car works on. -/
def drift_state (ctx : GameContext) : Int × Int × Int × Bool × Int :=
  (ctx.score, ctx.uber_points, ctx.drift_multiplier, ctx.is_drifting, ctx.car_angle)

/-- The lane and the height of the car. -/
def car_position (ctx : GameContext) : Int × Int := (ctx.car_lane, ctx.car_y)

/-- A clock that reads 2000 at every call. -/
def clock_2000 : Nat → Nat := fun _ => 2000

/-- A Line Car context in a drift started at time 1000, with 3 points at
multiplier 2, the car in lane 2 over a segment of length 20 that ends at
height 125. -/
def drift_example : GameContext :=
  { zero_context with
    state := GameState.LINE_CAR
    speed_bpm := 78
    car_lane := 2
    car_y := 110
    fast_line := 46
    slow_line := 101
    is_drifting := true
    last_drift_time := 1000
    uber_points := 3
    drift_multiplier := 2
    score := 10
    track_positions := set2 zero_context.track_positions 2 0 124
    track_pieces := set2 zero_context.track_pieces 2 0 20 }

/-- The fields of Zero Hero the hit block counts in and marks. -/
def zero_hero_core (ctx : GameContext) :
    Int × Int × Int × (Fin 5 → Fin 10 → Int) × (Fin 5 → Bool) :=
  (ctx.streak, ctx.oflow, ctx.score, ctx.key_positions, ctx.strum_hit)

/-- Pass `(i, j)` of the loops of `update_zero_hero` runs the hit block: the
slot is live (line 624), the moved symbol is in the hit band (line 626) and
the lane is held (line 627). -/
def zero_hero_hits (i j : Nat) (s : Run) : Prop :=
  get2 s.ctx.key_positions i j > 0 ∧
  (get2 (zero_hero_advance i j s.ctx).key_positions i j ≥ PORTRAIT_HEIGHT - 6 ∧
    get2 (zero_hero_advance i j s.ctx).key_positions i j ≤ PORTRAIT_HEIGHT - 4) ∧
  get1 s.ctx.is_holding i = true

instance (i j : Nat) (s : Run) : Decidable (zero_hero_hits i j s) :=
  inferInstanceAs (Decidable (_ ∧ _))

/-- A threshold crossing: a hit that brings the streak to `MAX_STREAK_INT`. -/
def zero_hero_crossing (i j : Nat) (s : Run) : Prop :=
  zero_hero_hits i j s ∧ s.ctx.streak + 1 ≥ MAX_STREAK_INT

instance (i j : Nat) (s : Run) : Decidable (zero_hero_crossing i j s) :=
  inferInstanceAs (Decidable (_ ∧ _))

/-- Pass `(i, j)` of the loops of `update_zero_hero`, counting the threshold
crossings in the second component. -/
def zero_hero_slot_counted (tick : Nat → Nat) (i j : Nat) (p : Run × Nat) : Run × Nat :=
  (zero_hero_slot tick i j p.1, if zero_hero_crossing i j p.1 then p.2 + 1 else p.2)

/-- One pass of the outer loop, counting the threshold crossings. -/
def zero_hero_lane_counted (tick : Nat → Nat) (i : Nat) (p : Run × Nat) : Run × Nat :=
  for_loop 10 (fun j q => zero_hero_slot_counted tick i j q)
    (Run.map (fun ctx => { ctx with strum_hit := set1 ctx.strum_hit i false }) p.1, p.2)

/-- The number of threshold crossings in one update of Zero Hero that passes
the rate limit. -/
def zero_hero_crossings (ctx : GameContext) (tick : Nat → Nat) : Nat :=
  (for_loop 5 (fun i p => zero_hero_lane_counted tick i p) (stamped ctx tick, 0)).2

/-- The counters and the highlight of Zero Hero. -/
def zero_hero_counters (ctx : GameContext) : Int × Int × Int × (Fin 5 → Bool) :=
  (ctx.streak, ctx.oflow, ctx.score, ctx.strum_hit)

/-- The board, the streak and the score of Zero Hero are still those of
`ctx`. -/
def zero_hero_before_hit (ctx : GameContext) (s : Run) : Prop :=
  s.ctx.key_positions = ctx.key_positions ∧ s.ctx.streak = ctx.streak ∧
  s.ctx.score = ctx.score

/-- The only symbol of `ctx` was hit in lane `i`: the board is empty, the
streak went up by one or wrapped, the score went up by one and the lane is
highlighted. -/
def zero_hero_after_hit (ctx : GameContext) (i : Fin 5) (s : Run) : Prop :=
  (∀ a b, s.ctx.key_positions a b = 0) ∧
  s.ctx.streak = (if ctx.streak + 1 ≥ MAX_STREAK_INT then 0 else ctx.streak + 1) ∧
  s.ctx.score = ctx.score + 1 ∧ s.ctx.strum_hit i = true

/-- A `rand()` that returns 2 at every call. -/
def rand_two : Nat → Nat := fun _ => 2

/-- A Zero Hero context with lane 2 held and its only symbol, in slot 0, one
pixel above the hit band, at a beat on which a symbol enters. -/
def hit_example : GameContext :=
  { zero_context with
    state := GameState.ZERO_HERO
    key_positions := set2 zero_context.key_positions 2 0 121
    is_holding := set1 zero_context.is_holding 2 true }

/-- The same context one beat later: no symbol enters on this update. -/
def hit_example_off_beat : GameContext :=
  { hit_example with ai_beat_counter := 1 }

/-- The four emotion meters of Tectone Sim. -/
def emotions (ctx : GameContext) : Int × Int × Int × Int :=
  (ctx.anger, ctx.based, ctx.cuteness, ctx.sad)

/-- Each of the four emotion meters lies in [0,9]. -/
def emotions_bounded (ctx : GameContext) : Prop :=
  (0 ≤ ctx.anger ∧ ctx.anger ≤ 9) ∧ (0 ≤ ctx.based ∧ ctx.based ≤ 9) ∧
  (0 ≤ ctx.cuteness ∧ ctx.cuteness ≤ 9) ∧ (0 ≤ ctx.sad ∧ ctx.sad ≤ 9)

instance (ctx : GameContext) : Decidable (emotions_bounded ctx) :=
  inferInstanceAs (Decidable (_ ∧ _))

/-! ## The application entry (lines 1946-2031) -/

/-- The host calls of `nah2nah3_app` that acquire or release a resource, or
attach the view port to the GUI and detach it. -/
inductive HostCall where
  | malloc_context
  | free_context
  | record_open_gui
  | record_close_gui
  | view_port_alloc
  | view_port_free
  | gui_add_view_port
  | gui_remove_view_port
  | timer_alloc
  | timer_free
  | timer_start
  | timer_stop
  deriving DecidableEq, Repr

/-- The outcome of the five calls of `nah2nah3_app` that can fail: `malloc`,
`furi_record_open`, `view_port_alloc`, `furi_timer_alloc` and
`furi_timer_start`. -/
structure Host where
  malloc_ok : Bool
  gui_ok : Bool
  view_port_ok : Bool
  timer_ok : Bool
  timer_start_ok : Bool
  deriving DecidableEq, Repr

/-- The start-up (lines 1949-2000): the calls made, in order, and the value
returned when the start-up fails (`none` when the main loop is entered). -/
def app_startup (h : Host) : List HostCall × Option Int :=
  if ¬ h.malloc_ok then ([HostCall.malloc_context], some (-1))
  else if ¬ h.gui_ok then
    ([HostCall.malloc_context, HostCall.record_open_gui, HostCall.free_context], some (-1))
  else if ¬ h.view_port_ok then
    ([HostCall.malloc_context, HostCall.record_open_gui, HostCall.view_port_alloc,
      HostCall.record_close_gui, HostCall.free_context], some (-1))
  else if ¬ h.timer_ok then
    ([HostCall.malloc_context, HostCall.record_open_gui, HostCall.view_port_alloc,
      HostCall.gui_add_view_port, HostCall.timer_alloc,
      HostCall.view_port_free, HostCall.record_close_gui, HostCall.free_context], some (-1))
  else if ¬ h.timer_start_ok then
    ([HostCall.malloc_context, HostCall.record_open_gui, HostCall.view_port_alloc,
      HostCall.gui_add_view_port, HostCall.timer_alloc, HostCall.timer_start,
      HostCall.timer_free, HostCall.view_port_free, HostCall.record_close_gui,
      HostCall.free_context], some (-1))
  else
    ([HostCall.malloc_context, HostCall.record_open_gui, HostCall.view_port_alloc,
      HostCall.gui_add_view_port, HostCall.timer_alloc, HostCall.timer_start], none)

/-- The main loop (lines 2003-2012): `world k` is what the callbacks do to the
context during the `k`-th `furi_delay_ms(100)`, `tick k` the reading of the
clock in the `k`-th pass; the result is the context on which the loop test
saw `should_exit`, `none` when the passes allowed by `fuel` do not reach one. -/
def main_loop (world : Nat → GameContext → GameContext) (tick : Nat → Nat) :
    Nat → Nat → GameContext → Option GameContext
  | 0, _, _ => none
  | fuel + 1, k, ctx =>
    if ctx.should_exit then some ctx
    else main_loop world tick fuel (k + 1) (world k (main_loop_step ctx (furi_get_tick tick k)))

/-- The clean-up (lines 2014-2029): all four pointers are non-null here. -/
def app_cleanup : List HostCall :=
  [HostCall.timer_stop, HostCall.timer_free, HostCall.gui_remove_view_port,
   HostCall.view_port_free, HostCall.record_close_gui, HostCall.free_context]

/-- The function `nah2nah3_app` (lines 1946-2031): the value returned and the
calls made, `none` while the main loop is still running after `fuel` passes. -/
def nah2nah3_app (h : Host) (world : Nat → GameContext → GameContext) (tick : Nat → Nat)
    (t0 t1 vp : Nat) (fuel : Nat) : Option (Int × List HostCall) :=
  match (app_startup h).2 with
  | some r => some (r, (app_startup h).1)
  | none =>
    match main_loop world tick fuel 0 (initial_context t0 t1 vp) with
    | some _ => some (0, (app_startup h).1 ++ app_cleanup)
    | none => none

/-! ## Vocabulary of the statements on reachable states -/

/-- A host on which every call of the start-up succeeds. -/
def host_ok : Host :=
  { malloc_ok := true, gui_ok := true, view_port_ok := true, timer_ok := true,
    timer_start_ok := true }

/-- A host on which `furi_timer_alloc` fails. -/
def host_timer_alloc_fails : Host := { host_ok with timer_ok := false }

/-- A host on which `furi_timer_start` fails. -/
def host_timer_start_fails : Host := { host_ok with timer_start_ok := false }

/-- Callbacks that set `should_exit` during the first delay. -/
def world_exit : Nat → GameContext → GameContext :=
  fun _ ctx => { ctx with should_exit := true }

/-- The lane indices and the cursor of the menu are in range, and so is the
mode the cursor selects. -/
def lanes_in_range (ctx : GameContext) : Prop :=
  (0 ≤ ctx.mascot_lane ∧ ctx.mascot_lane ≤ 4) ∧ (0 ≤ ctx.car_lane ∧ ctx.car_lane ≤ 4) ∧
  (0 ≤ ctx.selected_row ∧ ctx.selected_row ≤ 2) ∧
  (0 ≤ ctx.selected_side ∧ ctx.selected_side ≤ 1) ∧
  (0 ≤ ctx.selected_game ∧ ctx.selected_game ≤ 5)

instance (ctx : GameContext) : Decidable (lanes_in_range ctx) :=
  inferInstanceAs (Decidable (_ ∧ _))

/-- The exit flag, the lane indices and the cursor. -/
def exit_and_lanes (ctx : GameContext) : Bool × Int × Int × Int × Int × Int :=
  (ctx.should_exit, ctx.mascot_lane, ctx.car_lane, ctx.selected_row, ctx.selected_side,
   ctx.selected_game)

/-- From `c` to `r` a raised exit flag stays raised and lane indices in range
stay in range. -/
def keeps_exit_and_lanes (c r : GameContext) : Prop :=
  (c.should_exit = true → r.should_exit = true) ∧ (lanes_in_range c → lanes_in_range r)

/-- The fields only `update_line_car`, among the update functions, writes. -/
def line_car_own (ctx : GameContext) :
    Int × Int × Int × Int × Bool × (Fin 5 → Fin 8 → Int) × (Fin 5 → Fin 8 → Int) :=
  (ctx.car_lane, ctx.car_angle, ctx.uber_points, ctx.drift_multiplier, ctx.is_drifting,
   ctx.track_positions, ctx.track_pieces)

/-- The contexts and statics reachable from the start of the application
(clock readings `t0` and `t1`, view port `vp`) by passes of the main loop and
invocations of the three callbacks, for any events, clocks and outcomes of
`rand()`. -/
inductive Reachable (t0 t1 vp : Nat) : GameContext × Statics → Prop where
  | start : Reachable t0 t1 vp (initial_context t0 t1 vp, initial_statics)
  | main_loop (p : GameContext × Statics) (now : Nat) :
      Reachable t0 t1 vp p → Reachable t0 t1 vp (main_loop_step p.1 now, p.2)
  | input (p : GameContext × Statics) (input : InputEvent) (tick rnd : Nat → Nat) :
      Reachable t0 t1 vp p → Reachable t0 t1 vp (input_callback p.1 input tick rnd, p.2)
  | timer (p : GameContext × Statics) (tick rnd : Nat → Nat) :
      Reachable t0 t1 vp p → Reachable t0 t1 vp (timer_callback p.1 p.2 tick rnd)
  | render (p : GameContext × Statics) (tick : Nat → Nat) :
      Reachable t0 t1 vp p → Reachable t0 t1 vp (render_callback p.1 tick, p.2)

/-! ## Vocabulary of the statements on the six games -/

/-- A `rand()` that returns 50 at every call. -/
def rand_fifty : Nat → Nat := fun _ => 50

/-- The ship of Space Flight: armor, health and view. -/
def ship (ctx : GameContext) : Int × Int × Int :=
  (ctx.ship_armor, ctx.ship_health, ctx.screen_type)

/-- The context of pass `i` of the object loop of `update_space_flight` after
the move and the growth of the object (lines 1177-1184). -/
def space_flight_grown (speed_modifier : Int) (i : Int) (ctx : GameContext) : GameContext :=
  space_flight_grow speed_modifier i (space_flight_move speed_modifier i ctx)

/-- The object of slot `i` is in the damage band and in front of the ship
(the tests of lines 1185 and 1187-1188 with the constants evaluated). -/
def space_flight_hits (ctx : GameContext) (i : Int) : Prop :=
  (21 < get2 ctx.objects i 2 ∧ get2 ctx.objects i 2 < 32) ∧
  (5 < get2 ctx.objects i 0 ∧ get2 ctx.objects i 0 < 59) ∧
  (49 < get2 ctx.objects i 1 ∧ get2 ctx.objects i 1 < 88)

instance (ctx : GameContext) (i : Int) : Decidable (space_flight_hits ctx i) :=
  inferInstanceAs (Decidable (_ ∧ _))

/-- A Space Flight context climbing (view 1, set by a press of Up) at speed
78, with armor 50 and health 100; the object of slot 0 has size 30 and is at
(20, 60). -/
def space_flight_example : GameContext :=
  { zero_context with
    state := GameState.SPACE_FLIGHT
    speed_bpm := 78
    screen_type := 1
    ship_armor := 50
    ship_health := 100
    objects := set2 (set2 (set2 zero_context.objects 0 0 20) 0 1 60) 0 2 30 }

/-- A clock that reads 22000 at every call. -/
def clock_22000 : Nat → Nat := fun _ => 22000

/-- A Flip IQ context in round 1, started at time 0 (the initial drop was done
at time 5), with an empty board. -/
def flip_iq_example : GameContext :=
  { zero_context with
    state := GameState.FLIP_IQ
    streak := 1
    game_start_time := 5
    round_start_time := 0
    active_lanes := 5
    car_lane := 2
    speed_bpm := 60 }

/-- The lane of the car and the difficulty with the time of its last check:
fields written by `update_line_car` and by the difficulty check of
`update_zero_hero` only, among the update functions. -/
def bystanders (ctx : GameContext) : Int × Int × Nat :=
  (ctx.car_lane, ctx.difficulty, ctx.last_difficulty_check)

/-- The run of `update_zero_hero` up to the difficulty check (lines 620-667):
stamp, loops over the symbols, spawn. -/
def zero_hero_before_check (ctx : GameContext) (tick rnd : Nat → Nat) : Run :=
  zero_hero_spawn rnd (zero_hero_lanes tick (stamped ctx tick))

/-- A clock that reads 200000 at every call. -/
def clock_200000 : Nat → Nat := fun _ => 200000

/-- A Zero Hero context at difficulty EASY, checked last at time 0, with an
empty board off the beat: the streak is 6 and six streaks sum to 12, an
average of 2. -/
def difficulty_example : GameContext :=
  { zero_context with
    state := GameState.ZERO_HERO
    streak := 6
    streak_sum := 12
    streak_count := 6
    ai_beat_counter := 1 }

/-- The value pass `(i, j)` of the loops of `update_zero_hero` leaves in its
slot (lines 624-655), `p` being the value before the pass and `held` telling
whether lane `i` is held. -/
def zero_hero_slot_value (p : Int) (held : Bool) : Int :=
  if p > 0 then
    if p + 1 ≥ PORTRAIT_HEIGHT - 6 ∧ p + 1 ≤ PORTRAIT_HEIGHT - 4 then
      if held then 0 else p + 1
    else if p + 1 > PORTRAIT_HEIGHT - 5 then 0
    else p + 1
  else p

/-- A Zero Hero context with no lane held, a symbol of lane 1 at 130, past
the hit band, and a symbol of lane 3 at 122, entering the band at 123, off the
beat, with a streak of 4. -/
def miss_example : GameContext :=
  { zero_context with
    state := GameState.ZERO_HERO
    streak := 4
    key_positions := set2 (set2 zero_context.key_positions 1 0 130) 3 0 122
    ai_beat_counter := 1 }

/-- The speed and the count of successful jumps of Flip Zip. -/
def ramp (ctx : GameContext) : Int × Int := (ctx.speed_bpm, ctx.successful_jumps)

/-- From `c` to `r` the count of successful jumps did not go down, the speed
changed only if the count did, and a speed of at most 120 went up to at most
120. -/
def speed_ramp (c r : GameContext) : Prop :=
  c.successful_jumps ≤ r.successful_jumps ∧
  (r.successful_jumps = c.successful_jumps → r.speed_bpm = c.speed_bpm) ∧
  (c.speed_bpm ≤ 120 → c.speed_bpm ≤ r.speed_bpm ∧ r.speed_bpm ≤ 120)

/-- The chat of Tectone Sim: the hype train with its cooldown, and the
comments. -/
def chat (ctx : GameContext) : (Fin 8 → Bool) × Nat × (Fin 8 → Int) × (Fin 8 → Int) :=
  (ctx.hype_train, ctx.hype_cooldown, ctx.comment_positions, ctx.comment_heights)

/-- From `c` to `r` the hype train and its cooldown are unchanged and every
comment slot is unchanged or cleared. -/
def chat_kept (c r : GameContext) : Prop :=
  r.hype_train = c.hype_train ∧ r.hype_cooldown = c.hype_cooldown ∧
  ∀ i : Fin 8,
    (r.comment_positions i = c.comment_positions i ∧ r.comment_heights i = c.comment_heights i) ∨
    (r.comment_positions i = 0 ∧ r.comment_heights i = 0)

/-- Two consecutive readings of the clock are at most 500 ms apart. -/
def slow_clock (tick : Nat → Nat) : Prop :=
  ∀ k, sub32 (furi_get_tick tick (k + 1)) (furi_get_tick tick k) ≤ 500

/-- A Tectone Sim context at time 0: no comment, no hype train, no key held,
the meters away from their bounds. -/
def tectone_example : GameContext :=
  { zero_context with
    state := GameState.TECTONE_SIM
    speed_bpm := 60
    anger := 5
    based := 5
    cuteness := 5
    sad := 5 }

/-- A clock that reads 600 up to the move of `update_tectone_sim` and 1700
from the reading of line 1134 on. -/
def clock_jump : Nat → Nat := fun k => if k < 5 then 600 else 1700

/-- A `rand()` that returns 3 at every call. -/
def rand_three : Nat → Nat := fun _ => 3

/-- The state reached from the start (clock 0, view port 1) by a pass of the
main loop at time 2000, which opens the menu, then short Down, short Right
and short Ok, which select mode 3, Flip IQ, then a press of Ok in Rotate. -/
def reached_example : GameContext × Statics :=
  (input_callback
    (input_callback
      (input_callback
        (input_callback (main_loop_step (initial_context 0 0 1) 2000) short_down clock_2000
          rand_zero)
        short_right clock_2000 rand_zero)
      short_ok clock_2000 rand_zero)
    press_ok clock_2000 rand_zero,
   initial_statics)

/-! ## Vocabulary of the statements on Space Flight, Line Car and the speed -/

/-- The direction the statement of the input sequences appends: Up = 0, else
Down = 4, else Left = 1, else Right = 3, else Ok = 2, else -1, the keys being
read in the slots of `is_holding` they drive (Up 0, Left 1, Ok 2, Right 3,
Down 4). -/
def appended_direction (up down left right ok : Bool) : Int :=
  if up then 0 else if down then 4 else if left then 1 else if right then 3
  else if ok then 2 else -1

/-- The rolling history of Space Flight, oldest entry first. -/
def history (ctx : GameContext) : List Int :=
  [ctx.recent_inputs 0, ctx.recent_inputs 1, ctx.recent_inputs 2, ctx.recent_inputs 3,
   ctx.recent_inputs 4]

/-- A Space Flight context whose history is Up, Up, Up, Up, Up with Ok held,
2000 ms after the last sequence. -/
def sequence_example : GameContext :=
  { zero_context with
    state := GameState.SPACE_FLIGHT
    recent_inputs := fun _ => 0
    is_holding := set1 zero_context.is_holding 2 true
    last_sequence_time := 0 }

/-- The track of Line Car: the positions of the segments. -/
def tracks (ctx : GameContext) : Fin 5 → Fin 8 → Int := ctx.track_positions

/-- The live track slots: lane and slot of each segment with a position above 0 (the test
of lines 773 and 826). -/
def live_slots (ctx : GameContext) : Finset (Fin 5 × Fin 8) :=
  Finset.univ.filter (fun p => 0 < ctx.track_positions p.1 p.2)

/-- The number of live track slots. -/
def live_count (ctx : GameContext) : Nat := (live_slots ctx).card

/-- The playing fields of the games that no input branch but Rotate writes. -/
def board (ctx : GameContext) :
    Int × Int × Int × Int × (Fin 5 → Fin 10 → Int) × (Fin 5 → Fin 8 → Int) ×
      (Fin 5 → Fin 8 → Int) × Int × Int × (Fin 8 → Fin 3 → Int) × (Fin 5 → Int) :=
  (ctx.streak, ctx.ball_count, ctx.active_lanes, ctx.ball_width, ctx.key_positions,
   ctx.key_columns, ctx.track_positions, ctx.ship_health, ctx.ship_armor, ctx.objects,
   ctx.recent_inputs)

/-- The start of the session. -/
def start_time (ctx : GameContext) : Nat := ctx.game_start_time

/-- The speed. -/
def pace (ctx : GameContext) : Int := ctx.speed_bpm

/-- The hold flags. -/
def holds (ctx : GameContext) : Fin 5 → Bool := ctx.is_holding

/-- The view of Space Flight. -/
def view (ctx : GameContext) : Int := ctx.screen_type

/-- The time of the last input event and the state. -/
def arrival (ctx : GameContext) : Nat × GameState := (ctx.last_input_time, ctx.state)

/-- Taps fed alone: the context after the first `n` of the events `tap 0`, `tap 1`, ...,
event `k` being handled by `input_callback` with the clock `tick k` and the outcomes
`rnd k` of `rand()`, and nothing else running in between. -/
def feed_taps (tap : Nat → InputEvent) (tick rnd : Nat → Nat → Nat) :
    Nat → GameContext → GameContext
  | 0, ctx => ctx
  | n + 1, ctx => input_callback (feed_taps tap tick rnd n ctx) (tap n) (tick n) (rnd n)

/-- Short Left and short Right in turn, starting with Left. -/
def left_right_taps (k : Nat) : InputEvent :=
  if k % 2 = 0 then ⟨InputKey.Left, InputType.Short⟩ else ⟨InputKey.Right, InputType.Short⟩

/-- The clocks of taps that arrive every 500 ms from time 1000 on. -/
def clocks_every_500 (k : Nat) : Nat → Nat := fun _ => 1000 + k * 500

/-- A Flip Zip context at speed 60 with the mascot in lane 2 and no input so far. -/
def flip_zip_tap_example : GameContext :=
  { zero_context with state := GameState.FLIP_ZIP, speed_bpm := 60, mascot_lane := 2 }

/-- The round of Flip IQ: the fields its update function works on besides the speed, the
player and the notification. -/
def flip_iq_board (ctx : GameContext) :
    Int × Int × Int × Int × Int × (Fin 5 → Fin 10 → Int) × (Fin 5 → Fin 8 → Int) × Nat :=
  (ctx.streak, ctx.score, ctx.ball_count, ctx.active_lanes, ctx.ball_width, ctx.key_positions,
   ctx.key_columns, ctx.game_start_time)

/-- A Flip IQ session that has not started: no round, the start time set, no ball to come
and every ball slot the game uses (`j < WORLD_OBJ_LIMIT`) empty. -/
def flip_iq_dormant (ctx : GameContext) : Prop :=
  ctx.streak = 0 ∧ ctx.game_start_time ≠ 0 ∧ ctx.ball_count = 0 ∧
  ∀ (i : Fin 5) (j : Fin 10), j.val < WORLD_OBJ_LIMIT → ctx.key_positions i j = 0

instance (ctx : GameContext) : Decidable (flip_iq_dormant ctx) :=
  inferInstanceAs (Decidable (_ ∧ _))

/-- The states of a Flip IQ session: the game and its pause. -/
def flip_iq_session (st : GameState) : Prop :=
  st = GameState.FLIP_IQ ∨ st = GameState.PAUSE

instance (st : GameState) : Decidable (flip_iq_session st) :=
  inferInstanceAs (Decidable (_ ∨ _))

/-- A context in Rotate with Flip IQ selected. -/
def flip_iq_rotate_example : GameContext :=
  { zero_context with
    state := GameState.ROTATE
    selected_game := GAME_MODE_FLIP_IQ
    speed_bpm := 120 }

/-- The contexts and statics reachable from the start of the application (clock readings
`t0` and `t1`, view port `vp`) when the tick counter does not advance within one invocation
of a callback: every reading made by the invocation returns the same `now`. -/
inductive Frozen (t0 t1 vp : Nat) : GameContext × Statics → Prop where
  | start : Frozen t0 t1 vp (initial_context t0 t1 vp, initial_statics)
  | main_loop (p : GameContext × Statics) (now : Nat) :
      Frozen t0 t1 vp p → Frozen t0 t1 vp (main_loop_step p.1 now, p.2)
  | input (p : GameContext × Statics) (input : InputEvent) (now : Nat) (rnd : Nat → Nat) :
      Frozen t0 t1 vp p → Frozen t0 t1 vp (input_callback p.1 input (fun _ => now) rnd, p.2)
  | timer (p : GameContext × Statics) (now : Nat) (rnd : Nat → Nat) :
      Frozen t0 t1 vp p → Frozen t0 t1 vp (timer_callback p.1 p.2 (fun _ => now) rnd)
  | render (p : GameContext × Statics) (now : Nat) :
      Frozen t0 t1 vp p → Frozen t0 t1 vp (render_callback p.1 (fun _ => now), p.2)

/-- The speed is a multiple of 10 between 0 and 120. -/
def speed_ok (ctx : GameContext) : Prop :=
  0 ≤ ctx.speed_bpm ∧ ctx.speed_bpm ≤ 120 ∧ ctx.speed_bpm % 10 = 0

instance (ctx : GameContext) : Decidable (speed_ok ctx) :=
  inferInstanceAs (Decidable (_ ∧ _))

/-- From `c` to `r` a speed that is a multiple of 10 between 0 and 120 stays one. -/
def paced (c r : GameContext) : Prop := speed_ok c → speed_ok r

/-- The divisor of the speed bar of `draw_flip_zip` (line 510):
`ctx->speed_bpm - MIN_SPEED_BPM + 1`. -/
def speed_bar_divisor (ctx : GameContext) : Int := ctx.speed_bpm - MIN_SPEED_BPM + 1

/-- The context and statics after the start at time 0, the end of Loading at time 3000, the
short events Right and Ok and a press of Ok at times 4000, 5000 and 6000, which lead to Flip
Zip, and three invocations of the timer at time 7000. -/
def frozen_example : GameContext × Statics :=
  timer_callback
    (timer_callback
      (timer_callback
        (input_callback
          (input_callback
            (input_callback (main_loop_step (initial_context 0 0 1) 3000) short_right
              (fun _ => 4000) rand_zero)
            short_ok (fun _ => 5000) rand_zero)
          press_ok (fun _ => 6000) rand_zero)
        initial_statics (fun _ => 7000) rand_zero).1
      initial_statics (fun _ => 7000) rand_zero).1
    initial_statics (fun _ => 7000) rand_zero

/-- The history of Space Flight as stored. -/
def trail (ctx : GameContext) : Fin 5 → Int := ctx.recent_inputs

/-- One pass of the main loop or one invocation of a callback, for any event, clock and
outcomes of `rand()`: from the context and statics `p` to those after it. -/
inductive Step : GameContext × Statics → GameContext × Statics → Prop where
  | main_loop (p : GameContext × Statics) (now : Nat) : Step p (main_loop_step p.1 now, p.2)
  | input (p : GameContext × Statics) (input : InputEvent) (tick rnd : Nat → Nat) :
      Step p (input_callback p.1 input tick rnd, p.2)
  | timer (p : GameContext × Statics) (tick rnd : Nat → Nat) :
      Step p (timer_callback p.1 p.2 tick rnd)
  | render (p : GameContext × Statics) (tick : Nat → Nat) :
      Step p (render_callback p.1 tick, p.2)

/-- The contexts and statics reached from `p` by steps that each end in a state of
`inside`. -/
inductive Session (inside : GameState → Prop) (p : GameContext × Statics) :
    GameContext × Statics → Prop where
  | start : Session inside p p
  | step (q r : GameContext × Statics) :
      Session inside p q → Step q r → inside r.1.state → Session inside p r

/-- The states of a run in which Space Flight is the only game entered. -/
def space_flight_only (st : GameState) : Prop :=
  st ≠ GameState.ZERO_HERO ∧ st ≠ GameState.FLIP_ZIP ∧ st ≠ GameState.LINE_CAR ∧
  st ≠ GameState.FLIP_IQ ∧ st ≠ GameState.TECTONE_SIM

instance (st : GameState) : Decidable (space_flight_only st) :=
  inferInstanceAs (Decidable (_ ∧ _))

/-- An object of Space Flight outside the damage band: its size is a spawn value in [5,14],
or 0, or a pickup value (-10, -5) with the pickup at y = 36. -/
def calm_object (o : Fin 3 → Int) : Prop :=
  (5 ≤ o 2 ∧ o 2 ≤ 14) ∨ o 2 = 0 ∨ ((o 2 = -10 ∨ o 2 = -5) ∧ o 1 = 36)

instance (o : Fin 3 → Int) : Decidable (calm_object o) :=
  inferInstanceAs (Decidable (_ ∨ _))

/-- Every object of the context is calm. -/
def calm (ctx : GameContext) : Prop := ∀ k : Fin 8, calm_object (ctx.objects k)

instance (ctx : GameContext) : Decidable (calm ctx) :=
  inferInstanceAs (Decidable (∀ _ : Fin 8, _))

/-- The states of a Space Flight session: the game and its pause. -/
def space_flight_session (st : GameState) : Prop :=
  st = GameState.SPACE_FLIGHT ∨ st = GameState.PAUSE

instance (st : GameState) : Decidable (space_flight_session st) :=
  inferInstanceAs (Decidable (_ ∨ _))

/-- The states of a Line Car session: the game and its pause. -/
def line_car_session (st : GameState) : Prop :=
  st = GameState.LINE_CAR ∨ st = GameState.PAUSE

instance (st : GameState) : Decidable (line_car_session st) :=
  inferInstanceAs (Decidable (_ ∨ _))

/-- A context in Rotate with Space Flight selected, at speed 120. -/
def space_flight_rotate_example : GameContext :=
  { zero_context with
    state := GameState.ROTATE
    selected_game := GAME_MODE_SPACE_FLIGHT
    speed_bpm := 120 }

/-- A clock that reads 999 at every call. -/
def clock_999 : Nat → Nat := fun _ => 999

/-- A Line Car context at speed 60 whose cadence window opened at time 0 and whose last
input came at time 800: a tap at time 999 is the first of the window, one tap in 1000 ms, a
cadence of 60. -/
def steady_line_car_example : GameContext :=
  { zero_context with
    state := GameState.LINE_CAR
    car_lane := 2
    speed_bpm := 60
    last_input_time := 800 }

/-- The speed after `k` speed steps of lines 699-700 and 737-738: `speed_bpm += 10`,
capped at 120, done `k` times. -/
def speed_after_steps : Nat → Int → Int
  | 0, speed => speed
  | k + 1, speed => speed_after_steps k (min (speed + 10) 120)

/-- From `c` to `r` the count of successful jumps did not go down and the speed took one
speed step for each multiple of 5 the count reached on the way: there are
`r.successful_jumps / 5 - c.successful_jumps / 5` of them (quotients rounded down). -/
def speed_stepped (c r : GameContext) : Prop :=
  c.successful_jumps ≤ r.successful_jumps ∧
  r.speed_bpm =
    speed_after_steps (r.successful_jumps / 5 - c.successful_jumps / 5).toNat c.speed_bpm

/-- A Flip Zip context at speed 60 after 4 successful jumps; the mascot is in lane 2 and
the obstacle of lane 1, slot 0 is at 120, two steps of the scroll from the bottom. -/
def flip_zip_dodge_example : GameContext :=
  { zero_context with
    state := GameState.FLIP_ZIP
    speed_bpm := 60
    mascot_lane := 2
    successful_jumps := 4
    obstacle_positions := set2 zero_context.obstacle_positions 1 0 120
    obstacles := set2 zero_context.obstacles 1 0 1 }

/-- The same context after 5 successful jumps. -/
def flip_zip_sixth_example : GameContext :=
  { flip_zip_dodge_example with successful_jumps := 5 }

/-- The run of `update_space_flight` after the rate test, the stamp and the loop over the
objects (lines 1168-1220), before the input sequences. -/
def space_flight_after_objects (ctx : GameContext) (tick rnd : Nat → Nat) : Run :=
  space_flight_objects tick rnd (Int.tdiv ctx.speed_bpm 78) (stamped ctx tick)

/-- The time of the last sequence and the view: the fields the redock and the input
sequences of Space Flight both write. -/
def dock (ctx : GameContext) : Nat × Int := (ctx.last_sequence_time, ctx.screen_type)

/-- A Space Flight context at speed 78 in level flight (view 0) with no armor and health
10; the object of slot 0 has size 30 and is at (20, 60), the other slots are empty. -/
def redock_example : GameContext :=
  { zero_context with
    state := GameState.SPACE_FLIGHT
    speed_bpm := 78
    ship_armor := 0
    ship_health := 10
    objects := set2 (set2 (set2 zero_context.objects 0 0 20) 0 1 60) 0 2 30 }

/-- The run of `update_space_flight` before pass `i` of the loop over the objects (lines
1175-1220): the rate test, the stamp and the passes over the slots below `i`. -/
def space_flight_before_slot (ctx : GameContext) (tick rnd : Nat → Nat) (i : Nat) : Run :=
  for_loop i (fun i s => space_flight_slot tick rnd (Int.tdiv ctx.speed_bpm 78) i s)
    (stamped ctx tick)

/-- A clock that reads 1668 at every call. -/
def clock_1668 : Nat → Nat := fun _ => 1668

/-- A Line Car context whose speed was nudged up to 16424, with 456 taps counted in the
cadence window opened at time 0 and the last input at time 1500. -/
def rounding_line_car_example : GameContext :=
  { zero_context with
    state := GameState.LINE_CAR
    car_lane := 2
    speed_bpm := 16424
    tap_count := 456
    last_input_time := 1500 }

/-! ## Lemmas on loops and set-up blocks -/

theorem loop_from_inv {σ : Type} (P : σ → Prop) (body : Nat → σ → σ)
    (h : ∀ i s, P s → P (body i s)) : ∀ n i s, P s → P (loop_from i n body s) := by
  intro n
  induction n with
  | zero => intro i s hs; exact hs
  | succ n ih => intro i s hs; exact ih (i + 1) (body i s) (h i s hs)

theorem for_loop_inv {σ : Type} (P : σ → Prop) (body : Nat → σ → σ)
    (h : ∀ i s, P s → P (body i s)) (n : Nat) (s : σ) (hs : P s) : P (for_loop n body s) :=
  loop_from_inv P body h n 0 s hs

theorem game_state_of_is_game (g : Int) : is_game_state (game_state_of g) := by
  unfold game_state_of is_game_state
  split_ifs <;> simp

theorem line_car_init_slot_state (rnd : Nat → Nat) (i j : Nat) (s : GameContext × Nat) :
    (line_car_init_slot rnd i j s).1.state = s.1.state := by
  unfold line_car_init_slot
  split_ifs <;> rfl

theorem init_line_car_state (ctx : GameContext) (rnd : Nat → Nat) :
    (init_line_car ctx rnd).state = ctx.state := by
  unfold init_line_car
  apply for_loop_inv (fun s : GameContext × Nat => s.1.state = ctx.state)
  · intro i s hs
    apply for_loop_inv (fun s : GameContext × Nat => s.1.state = ctx.state)
    · intro j s hs
      rw [line_car_init_slot_state]; exact hs
    · exact hs
  · rfl

theorem init_flip_iq_state (ctx : GameContext) : (init_flip_iq ctx).state = ctx.state := by
  unfold init_flip_iq
  apply for_loop_inv (fun s : GameContext => s.state = ctx.state)
  · intro i s hs
    apply for_loop_inv (fun s : GameContext => s.state = ctx.state)
    · intro j s hs; exact hs
    · exact hs
  · rfl

theorem init_tectone_sim_state (ctx : GameContext) (now : Nat) :
    (init_tectone_sim ctx now).state = ctx.state := by
  unfold init_tectone_sim
  apply for_loop_inv (fun s : GameContext => s.state = ctx.state)
  · intro i s hs; exact hs
  · rfl

theorem init_space_flight_state (ctx : GameContext) (rnd : Nat → Nat) :
    (init_space_flight ctx rnd).state = ctx.state := by
  unfold init_space_flight
  apply for_loop_inv (fun s : GameContext => s.state = ctx.state)
  · intro i s hs; exact hs
  · apply for_loop_inv (fun s : GameContext => s.state = ctx.state)
    · intro i s hs; exact hs
    · rfl

/-! ## The state after one input event -/

theorem input_bookkeeping_state (ctx : GameContext) (now : Nat) :
    (input_bookkeeping ctx now).state = ctx.state := by
  unfold input_bookkeeping
  split_ifs <;> rfl

theorem input_bookkeeping_selected_game (ctx : GameContext) (now : Nat) :
    (input_bookkeeping ctx now).selected_game = ctx.selected_game := by
  unfold input_bookkeeping
  split_ifs <;> rfl

theorem tap_cadence_state (ctx : GameContext) (now : Nat) :
    (tap_cadence ctx now).state = ctx.state := by
  unfold tap_cadence
  dsimp only
  split_ifs <;> rfl

theorem back_hold_release_state (ctx : GameContext) (now : Nat) :
    (back_hold_release ctx now).state = ctx.state := by
  show (toggle_if_held ctx now).state = ctx.state
  unfold toggle_if_held
  split_ifs <;> rfl

theorem title_back_state (ctx : GameContext) :
    (title_back ctx).state = ctx.state ∨ (title_back ctx).state = GameState.CREDITS := by
  unfold title_back
  split_ifs
  · right; rfl
  · left; rfl

theorem input_title_state (ctx : GameContext) (input : InputEvent) (now : Nat) :
    (input_title ctx input now).state = ctx.state ∨
    (input_title ctx input now).state = GameState.ROTATE ∨
    (input_title ctx input now).state = GameState.CREDITS := by
  unfold input_title
  split_ifs
  · left; rfl
  · left; rfl
  · left; rfl
  · left; rfl
  · right; left; rfl
  · rcases title_back_state ctx with h | h
    · left; exact h
    · right; right; exact h
  · left; rfl
  · left; exact back_hold_release_state ctx now
  · left; rfl

theorem rotate_init_game_state (ctx : GameContext) (now : Nat) (rnd : Nat → Nat) :
    (rotate_init_game ctx now rnd).state = ctx.state := by
  unfold rotate_init_game
  split_ifs
  · rw [init_line_car_state]
  · rw [init_flip_iq_state]
  · rw [init_tectone_sim_state]
  · rw [init_space_flight_state]
  · rfl

theorem input_rotate_state (ctx : GameContext) (input : InputEvent) (now : Nat) (rnd : Nat → Nat) :
    (input_rotate ctx input now rnd).state = ctx.state ∨
    (input_rotate ctx input now rnd).state = game_state_of ctx.selected_game := by
  unfold input_rotate
  split_ifs
  · right; rw [rotate_init_game_state]; rfl
  · left; rfl

theorem game_state_back_state (ctx : GameContext) (input : InputEvent) (now : Nat)
    (otherwise : GameContext) (h : otherwise.state = ctx.state) :
    (game_state_back ctx input now otherwise).state = ctx.state ∨
    (game_state_back ctx input now otherwise).state = GameState.PAUSE := by
  unfold game_state_back
  split_ifs
  · right; rfl
  · left; rfl
  · left; rfl
  · left; exact h

theorem zero_hero_keys_state (ctx : GameContext) (input : InputEvent) :
    (zero_hero_keys ctx input).state = ctx.state := by
  unfold zero_hero_keys
  dsimp only
  split_ifs <;> rfl

theorem flip_zip_keys_state (ctx : GameContext) (input : InputEvent) (now : Nat) :
    (flip_zip_keys ctx input now).state = ctx.state := by
  have h1 : ∀ c, (flip_zip_left input now c).state = c.state := by
    intro c; unfold flip_zip_left; split_ifs
    · rw [tap_cadence_state]
    · rfl
  have h2 : ∀ c, (flip_zip_right input now c).state = c.state := by
    intro c; unfold flip_zip_right; split_ifs
    · rw [tap_cadence_state]
    · rfl
  have h3 : ∀ c, (flip_zip_up input c).state = c.state := by
    intro c; unfold flip_zip_up; dsimp only; split_ifs <;> rfl
  have h4 : ∀ c, (flip_zip_down input c).state = c.state := by
    intro c; unfold flip_zip_down; split_ifs <;> rfl
  have h5 : ∀ c, (flip_zip_ok input now c).state = c.state := by
    intro c; unfold flip_zip_ok; split_ifs <;> rfl
  unfold flip_zip_keys
  rw [h5, h4, h3, h2, h1]

theorem line_car_after_lane_change_state (ctx : GameContext) (now now2 : Nat) (a b : Int) :
    (line_car_after_lane_change ctx now now2 a b).state = ctx.state := by
  unfold line_car_after_lane_change line_car_point_notification
  dsimp only
  split_ifs <;> rfl

theorem lane_key_hold_state (input : InputEvent) (ctx : GameContext) :
    (lane_key_hold input ctx).state = ctx.state := by
  unfold lane_key_hold
  dsimp only
  split_ifs <;> rfl

theorem line_car_keys_state (ctx : GameContext) (input : InputEvent) (now now2 : Nat) :
    (line_car_keys ctx input now now2).state = ctx.state := by
  have h1 : ∀ c, (line_car_left input now now2 c).state = c.state := by
    intro c; unfold line_car_left; dsimp only; split_ifs
    · rw [line_car_after_lane_change_state, tap_cadence_state]
    · rfl
  have h2 : ∀ c, (line_car_right input now now2 c).state = c.state := by
    intro c; unfold line_car_right; dsimp only; split_ifs
    · rw [line_car_after_lane_change_state, tap_cadence_state]
    · rfl
  have h3 : ∀ c, (line_car_up input c).state = c.state := by
    intro c; unfold line_car_up; split_ifs <;> rfl
  have h4 : ∀ c, (line_car_brake input c).state = c.state := by
    intro c; unfold line_car_brake; split_ifs <;> rfl
  unfold line_car_keys
  rw [h4, h3, h2, h1, lane_key_hold_state]

theorem flip_iq_keys_state (ctx : GameContext) (input : InputEvent) (now : Nat) :
    (flip_iq_keys ctx input now).state = ctx.state := by
  have h1 : ∀ c, (flip_iq_left input now c).state = c.state := by
    intro c; unfold flip_iq_left; split_ifs
    · rw [tap_cadence_state]
    · rfl
  have h2 : ∀ c, (flip_iq_right input now c).state = c.state := by
    intro c; unfold flip_iq_right; split_ifs
    · rw [tap_cadence_state]
    · rfl
  have h3 : ∀ c, (flip_iq_up input c).state = c.state := by
    intro c; unfold flip_iq_up; split_ifs <;> rfl
  have h4 : ∀ c, (flip_iq_down input c).state = c.state := by
    intro c; unfold flip_iq_down; split_ifs <;> rfl
  unfold flip_iq_keys
  rw [h4, h3, h2, h1, lane_key_hold_state]

theorem tectone_sim_keys_state (ctx : GameContext) (input : InputEvent) :
    (tectone_sim_keys ctx input).state = ctx.state := by
  unfold tectone_sim_keys
  split_ifs <;> rfl

theorem space_flight_keys_state (ctx : GameContext) (input : InputEvent) :
    (space_flight_keys ctx input).state = ctx.state := by
  unfold space_flight_keys
  split_ifs <;> rfl

theorem input_pause_state (ctx : GameContext) (input : InputEvent) (now : Nat) :
    (input_pause ctx input now).state = ctx.state ∨
    (input_pause ctx input now).state = game_state_of ctx.selected_game ∨
    (input_pause ctx input now).state = GameState.TITLE := by
  unfold input_pause
  split_ifs
  · right; left; rfl
  · unfold pause_back
    split_ifs
    · right; right; rfl
    · left; rfl
  · left; rfl
  · left; exact back_hold_release_state ctx now
  · left; rfl

theorem input_credits_state (ctx : GameContext) (input : InputEvent) :
    (input_credits ctx input).state = ctx.state := by
  unfold input_credits
  split_ifs <;> rfl

theorem game_branch_state (ctx r : GameContext) (hg : is_game_state ctx.state)
    (h : r.state = ctx.state ∨ r.state = GameState.PAUSE) :
    r.state = ctx.state ∨ listed_transition ctx r.state := by
  rcases h with h | h
  · left; exact h
  · right; right; right; right; left; exact ⟨hg, h⟩

theorem input_dispatch_state (ctx : GameContext) (input : InputEvent) (now now2 : Nat)
    (rnd : Nat → Nat) :
    (input_dispatch ctx input now now2 rnd).state = ctx.state ∨
    listed_transition ctx (input_dispatch ctx input now now2 rnd).state := by
  cases hs : ctx.state with
  | LOADING =>
    left; unfold input_dispatch; rw [hs]; exact hs
  | TITLE =>
    have e : input_dispatch ctx input now now2 rnd = input_title ctx input now := by
      unfold input_dispatch; rw [hs]
    rw [e]
    rcases input_title_state ctx input now with h | h | h
    · left; rw [h, hs]
    · right; left; exact ⟨hs, h⟩
    · right; right; left; exact ⟨hs, h⟩
  | ROTATE =>
    have e : input_dispatch ctx input now now2 rnd = input_rotate ctx input now rnd := by
      unfold input_dispatch; rw [hs]
    rw [e]
    rcases input_rotate_state ctx input now rnd with h | h
    · left; rw [h, hs]
    · right; right; right; left; exact ⟨hs, h⟩
  | ZERO_HERO =>
    have e : input_dispatch ctx input now now2 rnd = input_zero_hero ctx input now := by
      unfold input_dispatch; rw [hs]
    rw [e, ← hs]
    exact game_branch_state ctx _ (by simp [is_game_state, hs])
      (game_state_back_state ctx input now _ (zero_hero_keys_state ctx input))
  | FLIP_ZIP =>
    have e : input_dispatch ctx input now now2 rnd = input_flip_zip ctx input now := by
      unfold input_dispatch; rw [hs]
    rw [e, ← hs]
    exact game_branch_state ctx _ (by simp [is_game_state, hs])
      (game_state_back_state ctx input now _ (flip_zip_keys_state ctx input now))
  | LINE_CAR =>
    have e : input_dispatch ctx input now now2 rnd = input_line_car ctx input now now2 := by
      unfold input_dispatch; rw [hs]
    rw [e, ← hs]
    exact game_branch_state ctx _ (by simp [is_game_state, hs])
      (game_state_back_state ctx input now _ (line_car_keys_state ctx input now now2))
  | FLIP_IQ =>
    have e : input_dispatch ctx input now now2 rnd = input_flip_iq ctx input now := by
      unfold input_dispatch; rw [hs]
    rw [e, ← hs]
    exact game_branch_state ctx _ (by simp [is_game_state, hs])
      (game_state_back_state ctx input now _ (flip_iq_keys_state ctx input now))
  | TECTONE_SIM =>
    have e : input_dispatch ctx input now now2 rnd = input_tectone_sim ctx input now := by
      unfold input_dispatch; rw [hs]
    rw [e, ← hs]
    exact game_branch_state ctx _ (by simp [is_game_state, hs])
      (game_state_back_state ctx input now _ (tectone_sim_keys_state ctx input))
  | SPACE_FLIGHT =>
    have e : input_dispatch ctx input now now2 rnd = input_space_flight ctx input now := by
      unfold input_dispatch; rw [hs]
    rw [e, ← hs]
    exact game_branch_state ctx _ (by simp [is_game_state, hs])
      (game_state_back_state ctx input now _ (space_flight_keys_state ctx input))
  | CREDITS =>
    have e : input_dispatch ctx input now now2 rnd = input_credits ctx input := by
      unfold input_dispatch; rw [hs]
    left; rw [e, input_credits_state, hs]
  | PAUSE =>
    have e : input_dispatch ctx input now now2 rnd = input_pause ctx input now := by
      unfold input_dispatch; rw [hs]
    rw [e]
    rcases input_pause_state ctx input now with h | h | h
    · left; rw [h, hs]
    · right; right; right; right; right; left; exact ⟨hs, h⟩
    · right; right; right; right; right; right; exact ⟨hs, h⟩

theorem listed_transition_congr (c1 c2 : GameContext) (s : GameState)
    (hs : c1.state = c2.state) (hg : c1.selected_game = c2.selected_game)
    (h : listed_transition c1 s) : listed_transition c2 s := by
  unfold listed_transition at *
  rw [hs, hg] at h
  exact h

/-- The early return of the debounce (lines 1276-1278). -/
theorem input_callback_debounced (ctx : GameContext) (input : InputEvent) (tick rnd : Nat → Nat)
    (hk : input.key = InputKey.Back)
    (hd : sub32 (furi_get_tick tick 0) ctx.last_back_press_time < BACK_BUTTON_COOLDOWN) :
    input_callback ctx input tick rnd = input_bookkeeping ctx (furi_get_tick tick 0) := by
  have hb : (input_bookkeeping ctx (furi_get_tick tick 0)).last_back_press_time
      = ctx.last_back_press_time := by
    unfold input_bookkeeping; split_ifs <;> rfl
  unfold input_callback
  dsimp only
  rw [if_pos ⟨hk, by rw [hb]; exact hd⟩]

/-- The context handed to the dispatch: bookkeeping, then the record of a
short Back. -/
theorem input_callback_accepted (ctx : GameContext) (input : InputEvent) (tick rnd : Nat → Nat)
    (h : ¬ (input.key = InputKey.Back ∧
      sub32 (furi_get_tick tick 0) ctx.last_back_press_time < BACK_BUTTON_COOLDOWN)) :
    input_callback ctx input tick rnd =
      input_dispatch
        (record_short_back (input_bookkeeping ctx (furi_get_tick tick 0)) input
          (furi_get_tick tick 0))
        input (furi_get_tick tick 0) (furi_get_tick tick 1) rnd := by
  have hb : (input_bookkeeping ctx (furi_get_tick tick 0)).last_back_press_time
      = ctx.last_back_press_time := by
    unfold input_bookkeeping; split_ifs <;> rfl
  unfold input_callback
  dsimp only
  rw [if_neg (by rw [hb]; exact h)]

/-- What bookkeeping and the record of a short Back may change. -/
theorem prelude_frame (ctx : GameContext) (input : InputEvent) (now : Nat) :
    record_short_back (input_bookkeeping ctx now) input now =
      { ctx with
        last_input_time := now
        rapid_click_count :=
          (record_short_back (input_bookkeeping ctx now) input now).rapid_click_count
        tap_count := (record_short_back (input_bookkeeping ctx now) input now).tap_count
        tap_window_start :=
          (record_short_back (input_bookkeeping ctx now) input now).tap_window_start
        last_back_press_time :=
          (record_short_back (input_bookkeeping ctx now) input now).last_back_press_time } := by
  unfold record_short_back input_bookkeeping
  split_ifs <;> rfl

theorem prelude_last_back_press_time (ctx : GameContext) (input : InputEvent) (now : Nat) :
    (record_short_back (input_bookkeeping ctx now) input now).last_back_press_time =
      if input.key = InputKey.Back ∧ is_short input then now else ctx.last_back_press_time := by
  unfold record_short_back input_bookkeeping
  split_ifs <;> rfl

/-- C1. For every context and every input event (any key, any kind, any
tick, any random outcomes) `input_callback` either leaves `state` unchanged or
performs one of the six listed transitions (Title to Rotate, Title to Credits,
Rotate to the game state of `selected_game`, a game state to Pause, Pause to
the game state of `selected_game`, Pause to Title; the six are pairwise
exclusive).  In particular no input leaves Loading or Credits and no input
moves Title directly into a game state. -/
theorem input_callback_transition_table (ctx : GameContext) (input : InputEvent)
    (tick rnd : Nat → Nat) :
    ((input_callback ctx input tick rnd).state = ctx.state ∨
      listed_transition ctx (input_callback ctx input tick rnd).state) ∧
    (ctx.state = GameState.LOADING →
      (input_callback ctx input tick rnd).state = GameState.LOADING) ∧
    (ctx.state = GameState.CREDITS →
      (input_callback ctx input tick rnd).state = GameState.CREDITS) ∧
    (ctx.state = GameState.TITLE → ¬ is_game_state (input_callback ctx input tick rnd).state) := by
  have main : (input_callback ctx input tick rnd).state = ctx.state ∨
      listed_transition ctx (input_callback ctx input tick rnd).state := by
    by_cases h : input.key = InputKey.Back ∧
        sub32 (furi_get_tick tick 0) ctx.last_back_press_time < BACK_BUTTON_COOLDOWN
    · left
      rw [input_callback_debounced ctx input tick rnd h.1 h.2, input_bookkeeping_state]
    · rw [input_callback_accepted ctx input tick rnd h]
      generalize hc : record_short_back (input_bookkeeping ctx (furi_get_tick tick 0)) input
        (furi_get_tick tick 0) = c1
      have hs : c1.state = ctx.state := by
        rw [← hc, prelude_frame]
      have hg : c1.selected_game = ctx.selected_game := by
        rw [← hc, prelude_frame]
      rcases input_dispatch_state c1 input (furi_get_tick tick 0) (furi_get_tick tick 1) rnd
        with h1 | h1
      · left; rw [h1, hs]
      · right; exact listed_transition_congr c1 ctx _ hs hg h1
  refine ⟨main, ?_, ?_, ?_⟩
  · intro hl
    rcases main with h | h
    · rw [h, hl]
    · unfold listed_transition is_game_state at h
      rw [hl] at h
      simp at h
  · intro hl
    rcases main with h | h
    · rw [h, hl]
    · unfold listed_transition is_game_state at h
      rw [hl] at h
      simp at h
  · intro hl hg
    rcases main with h | h
    · rw [h, hl] at hg
      simp [is_game_state] at hg
    · unfold listed_transition is_game_state at h
      rw [hl] at h
      simp at h
      rcases h with h | h
      · rw [h] at hg; simp [is_game_state] at hg
      · rw [h] at hg; simp [is_game_state] at hg

/-- C8. For every state and every Back event of any kind that arrives while
`now - last_back_press_time < BACK_BUTTON_COOLDOWN`, `input_callback` changes
no field other than `last_input_time`, `rapid_click_count`, `tap_count` and
`tap_window_start`; in particular `state`, `start_back_count`,
`pause_back_count`, `back_hold_start`, `is_left_handed`, `should_exit` and
`last_back_press_time` are unchanged. -/
theorem back_debounce_changes_only_bookkeeping (ctx : GameContext) (input : InputEvent)
    (tick rnd : Nat → Nat) (hk : input.key = InputKey.Back)
    (hd : sub32 (furi_get_tick tick 0) ctx.last_back_press_time < BACK_BUTTON_COOLDOWN) :
    input_callback ctx input tick rnd =
      { ctx with
        last_input_time := (input_callback ctx input tick rnd).last_input_time
        rapid_click_count := (input_callback ctx input tick rnd).rapid_click_count
        tap_count := (input_callback ctx input tick rnd).tap_count
        tap_window_start := (input_callback ctx input tick rnd).tap_window_start } ∧
    (input_callback ctx input tick rnd).state = ctx.state ∧
    (input_callback ctx input tick rnd).start_back_count = ctx.start_back_count ∧
    (input_callback ctx input tick rnd).pause_back_count = ctx.pause_back_count ∧
    (input_callback ctx input tick rnd).back_hold_start = ctx.back_hold_start ∧
    (input_callback ctx input tick rnd).is_left_handed = ctx.is_left_handed ∧
    (input_callback ctx input tick rnd).should_exit = ctx.should_exit ∧
    (input_callback ctx input tick rnd).last_back_press_time = ctx.last_back_press_time := by
  rw [input_callback_debounced ctx input tick rnd hk hd]
  unfold input_bookkeeping
  split_ifs
  · exact ⟨rfl, rfl, rfl, rfl, rfl, rfl, rfl, rfl⟩
  · exact ⟨rfl, rfl, rfl, rfl, rfl, rfl, rfl, rfl⟩

/-- Witness of C8: a third short Back in Title, 200 ms after the last accepted
one, does not open Credits. -/
theorem back_debounce_changes_only_bookkeeping_witness :
    sub32 (furi_get_tick (fun _ => 1200) 0) debounce_example.last_back_press_time
      < BACK_BUTTON_COOLDOWN ∧
    (input_callback debounce_example ⟨InputKey.Back, InputType.Short⟩ (fun _ => 1200)
      (fun _ => 0)).state = GameState.TITLE ∧
    (input_callback debounce_example ⟨InputKey.Back, InputType.Short⟩ (fun _ => 1200)
      (fun _ => 0)).start_back_count = 2 :=
  ⟨by decide,
   (back_debounce_changes_only_bookkeeping debounce_example ⟨InputKey.Back, InputType.Short⟩
     (fun _ => 1200) (fun _ => 0) rfl (by decide)).2.1,
   (back_debounce_changes_only_bookkeeping debounce_example ⟨InputKey.Back, InputType.Short⟩
     (fun _ => 1200) (fun _ => 0) rfl (by decide)).2.2.1⟩

/-! ## Short Back presses in Pause and in Title -/

theorem input_dispatch_pause (ctx : GameContext) (input : InputEvent) (now now2 : Nat)
    (rnd : Nat → Nat) (h : ctx.state = GameState.PAUSE) :
    input_dispatch ctx input now now2 rnd = input_pause ctx input now := by
  unfold input_dispatch; rw [h]

theorem input_dispatch_title (ctx : GameContext) (input : InputEvent) (now now2 : Nat)
    (rnd : Nat → Nat) (h : ctx.state = GameState.TITLE) :
    input_dispatch ctx input now now2 rnd = input_title ctx input now := by
  unfold input_dispatch; rw [h]

theorem input_pause_short_back (ctx : GameContext) (now : Nat) :
    input_pause ctx short_back now = pause_back ctx := by
  unfold input_pause
  rw [if_neg (by decide), if_pos (by decide)]

theorem input_pause_short_ok (ctx : GameContext) (now : Nat) :
    input_pause ctx short_ok now = pause_resume ctx := by
  unfold input_pause
  rw [if_pos (by decide)]

theorem input_title_short_back (ctx : GameContext) (now : Nat) (hq : ctx.note_q_a = 0) :
    input_title ctx short_back now = title_back ctx := by
  unfold input_title
  rw [if_neg (by decide), if_neg (by decide), if_neg (fun h => absurd h.2.1 (by decide)),
    if_neg (fun h => absurd h.2.1 (by decide)), if_neg (by decide),
    if_pos ⟨by decide, by decide, hq⟩]

/-- An accepted short Back: the dispatch sees the context with the press
recorded. -/
theorem short_back_accepted (ctx : GameContext) (tick rnd : Nat → Nat)
    (hd : BACK_BUTTON_COOLDOWN ≤ sub32 (furi_get_tick tick 0) ctx.last_back_press_time) :
    ∃ c1 : GameContext,
      input_callback ctx short_back tick rnd =
        input_dispatch c1 short_back (furi_get_tick tick 0) (furi_get_tick tick 1) rnd ∧
      c1.last_back_press_time = furi_get_tick tick 0 ∧
      c1 = { ctx with
        last_input_time := furi_get_tick tick 0
        rapid_click_count := c1.rapid_click_count
        tap_count := c1.tap_count
        tap_window_start := c1.tap_window_start
        last_back_press_time := c1.last_back_press_time } := by
  refine ⟨record_short_back (input_bookkeeping ctx (furi_get_tick tick 0)) short_back
    (furi_get_tick tick 0), ?_, ?_, prelude_frame ctx short_back _⟩
  · exact input_callback_accepted ctx short_back tick rnd (fun h => absurd h.2 (not_lt.mpr hd))
  · rw [prelude_last_back_press_time, if_pos (by decide)]

/-- An accepted short Back in Pause: first press counted, second press back
to Title. -/
theorem pause_short_back_facts (ctx : GameContext) (tick rnd : Nat → Nat)
    (hs : ctx.state = GameState.PAUSE)
    (hd : BACK_BUTTON_COOLDOWN ≤ sub32 (furi_get_tick tick 0) ctx.last_back_press_time) :
    (input_callback ctx short_back tick rnd).last_back_press_time = furi_get_tick tick 0 ∧
    (inc8 ctx.pause_back_count < 2 →
      (input_callback ctx short_back tick rnd).state = GameState.PAUSE ∧
      (input_callback ctx short_back tick rnd).pause_back_count = inc8 ctx.pause_back_count) ∧
    (2 ≤ inc8 ctx.pause_back_count →
      (input_callback ctx short_back tick rnd).state = GameState.TITLE ∧
      (input_callback ctx short_back tick rnd).pause_back_count = 0) := by
  obtain ⟨c1, he, hl, hf⟩ := short_back_accepted ctx tick rnd hd
  have hs1 : c1.state = GameState.PAUSE := by rw [hf]; exact hs
  have hp1 : c1.pause_back_count = ctx.pause_back_count := by rw [hf]
  rw [he, input_dispatch_pause c1 _ _ _ _ hs1, input_pause_short_back]
  unfold pause_back
  rw [hp1]
  refine ⟨?_, ?_, ?_⟩
  · split_ifs
    · exact hl
    · exact hl
  · intro h
    rw [if_neg (not_le.mpr h)]
    exact ⟨hs1, rfl⟩
  · intro h
    rw [if_pos h]
    exact ⟨rfl, rfl⟩

/-- An accepted short Back in Title with no pending question: counted, and
the third one opens Credits. -/
theorem title_short_back_facts (ctx : GameContext) (tick rnd : Nat → Nat)
    (hs : ctx.state = GameState.TITLE) (hq : ctx.note_q_a = 0)
    (hd : BACK_BUTTON_COOLDOWN ≤ sub32 (furi_get_tick tick 0) ctx.last_back_press_time) :
    (input_callback ctx short_back tick rnd).last_back_press_time = furi_get_tick tick 0 ∧
    (input_callback ctx short_back tick rnd).note_q_a = 0 ∧
    (inc8 ctx.start_back_count < 3 →
      (input_callback ctx short_back tick rnd).state = GameState.TITLE ∧
      (input_callback ctx short_back tick rnd).start_back_count = inc8 ctx.start_back_count) ∧
    (3 ≤ inc8 ctx.start_back_count →
      (input_callback ctx short_back tick rnd).state = GameState.CREDITS ∧
      (input_callback ctx short_back tick rnd).start_back_count = 0 ∧
      (input_callback ctx short_back tick rnd).credits_y =
        SCREEN_HEIGHT + 10 * ((credits_lines.length : Int) - 1)) := by
  obtain ⟨c1, he, hl, hf⟩ := short_back_accepted ctx tick rnd hd
  have hs1 : c1.state = GameState.TITLE := by rw [hf]; exact hs
  have hq1 : c1.note_q_a = 0 := by rw [hf]; exact hq
  have hp1 : c1.start_back_count = ctx.start_back_count := by rw [hf]
  rw [he, input_dispatch_title c1 _ _ _ _ hs1, input_title_short_back c1 _ hq1]
  unfold title_back
  rw [hp1]
  refine ⟨?_, ?_, ?_, ?_⟩
  · split_ifs
    · exact hl
    · exact hl
  · split_ifs
    · exact hq1
    · exact hq1
  · intro h
    rw [if_neg (not_le.mpr h)]
    exact ⟨hs1, rfl⟩
  · intro h
    rw [if_pos h]
    exact ⟨rfl, rfl, rfl⟩

/-- C10. From Pause with `pause_back_count = 0`, a single short Back that
passes the debounce leaves the state Pause with `pause_back_count = 1`, a
second one sets the state to Title and resets `pause_back_count` to 0; a
short Ok in Pause resets `pause_back_count` to 0. -/
theorem pause_two_backs_to_title (ctx : GameContext) (t1 t2 rnd1 rnd2 : Nat → Nat)
    (hs : ctx.state = GameState.PAUSE) (hc : ctx.pause_back_count = 0)
    (h1 : BACK_BUTTON_COOLDOWN ≤ sub32 (furi_get_tick t1 0) ctx.last_back_press_time)
    (h2 : BACK_BUTTON_COOLDOWN ≤ sub32 (furi_get_tick t2 0) (furi_get_tick t1 0)) :
    (input_callback ctx short_back t1 rnd1).state = GameState.PAUSE ∧
    (input_callback ctx short_back t1 rnd1).pause_back_count = 1 ∧
    (input_callback (input_callback ctx short_back t1 rnd1) short_back t2 rnd2).state
      = GameState.TITLE ∧
    (input_callback (input_callback ctx short_back t1 rnd1) short_back t2 rnd2).pause_back_count
      = 0 ∧
    ∀ (c : GameContext) (t rnd : Nat → Nat), c.state = GameState.PAUSE →
      (input_callback c short_ok t rnd).pause_back_count = 0 := by
  obtain ⟨hl1, hlt1, -⟩ := pause_short_back_facts ctx t1 rnd1 hs h1
  rw [hc] at hlt1
  obtain ⟨hs1, hp1⟩ := hlt1 (by decide)
  have hp1 : (input_callback ctx short_back t1 rnd1).pause_back_count = 1 := hp1
  obtain ⟨-, -, hge2⟩ := pause_short_back_facts (input_callback ctx short_back t1 rnd1) t2 rnd2
    hs1 (by rw [hl1]; exact h2)
  rw [hp1] at hge2
  obtain ⟨hs2, hp2⟩ := hge2 (by decide)
  refine ⟨hs1, hp1, hs2, hp2, ?_⟩
  intro c t rnd hcs
  rw [input_callback_accepted c short_ok t rnd (fun h => absurd h.1 (by decide))]
  have hs1 : (record_short_back (input_bookkeeping c (furi_get_tick t 0)) short_ok
      (furi_get_tick t 0)).state = GameState.PAUSE := by
    rw [prelude_frame]; exact hcs
  rw [input_dispatch_pause _ _ _ _ _ hs1, input_pause_short_ok]
  rfl

/-- Witness of C10: two short Backs at ticks 1000 and 1600 on a paused session. -/
theorem pause_two_backs_to_title_witness :
    (input_callback (input_callback pause_example short_back (fun _ => 1000) (fun _ => 0))
      short_back (fun _ => 1600) (fun _ => 0)).state = GameState.TITLE :=
  (pause_two_backs_to_title pause_example (fun _ => 1000) (fun _ => 1600) (fun _ => 0)
    (fun _ => 0) rfl rfl (by decide) (by decide)).2.2.1

/-- C6. From Title with `start_back_count = 0` and `note_q_a = 0`, three
short Back events, each arriving at least `BACK_BUTTON_COOLDOWN` after the
previously accepted short Back and with no other input between them, set the
state to Credits with `credits_y = SCREEN_HEIGHT + 10 * (number of credits
lines - 1) = 174` and reset `start_back_count` to 0; after one or two such
events the state is still Title. -/
theorem title_three_backs_open_credits (ctx : GameContext)
    (t1 t2 t3 rnd1 rnd2 rnd3 : Nat → Nat)
    (hs : ctx.state = GameState.TITLE) (hc : ctx.start_back_count = 0) (hq : ctx.note_q_a = 0)
    (h1 : BACK_BUTTON_COOLDOWN ≤ sub32 (furi_get_tick t1 0) ctx.last_back_press_time)
    (h2 : BACK_BUTTON_COOLDOWN ≤ sub32 (furi_get_tick t2 0) (furi_get_tick t1 0))
    (h3 : BACK_BUTTON_COOLDOWN ≤ sub32 (furi_get_tick t3 0) (furi_get_tick t2 0)) :
    (input_callback ctx short_back t1 rnd1).state = GameState.TITLE ∧
    (input_callback (input_callback ctx short_back t1 rnd1) short_back t2 rnd2).state
      = GameState.TITLE ∧
    (input_callback (input_callback (input_callback ctx short_back t1 rnd1) short_back t2 rnd2)
      short_back t3 rnd3).state = GameState.CREDITS ∧
    (input_callback (input_callback (input_callback ctx short_back t1 rnd1) short_back t2 rnd2)
      short_back t3 rnd3).credits_y = 174 ∧
    (input_callback (input_callback (input_callback ctx short_back t1 rnd1) short_back t2 rnd2)
      short_back t3 rnd3).start_back_count = 0 ∧
    SCREEN_HEIGHT + 10 * ((credits_lines.length : Int) - 1) = 174 := by
  obtain ⟨hl1, hq1, hlt1, -⟩ := title_short_back_facts ctx t1 rnd1 hs hq h1
  rw [hc] at hlt1
  obtain ⟨hs1, hp1⟩ := hlt1 (by decide)
  have hp1 : (input_callback ctx short_back t1 rnd1).start_back_count = 1 := hp1
  obtain ⟨hl2, hq2, hlt2, -⟩ := title_short_back_facts (input_callback ctx short_back t1 rnd1)
    t2 rnd2 hs1 hq1 (by rw [hl1]; exact h2)
  rw [hp1] at hlt2
  obtain ⟨hs2, hp2⟩ := hlt2 (by decide)
  have hp2 : (input_callback (input_callback ctx short_back t1 rnd1) short_back t2
      rnd2).start_back_count = 2 := hp2
  obtain ⟨-, -, -, hge3⟩ := title_short_back_facts
    (input_callback (input_callback ctx short_back t1 rnd1) short_back t2 rnd2)
    t3 rnd3 hs2 hq2 (by rw [hl2]; exact h3)
  rw [hp2] at hge3
  obtain ⟨hs3, hp3, hy3⟩ := hge3 (by decide)
  have e : SCREEN_HEIGHT + 10 * ((credits_lines.length : Int) - 1) = 174 := by decide
  exact ⟨hs1, hs2, hs3, hy3.trans e, hp3, e⟩

/-- Witness of C6: short Backs at ticks 1000, 1500 and 2000 from Title. -/
theorem title_three_backs_open_credits_witness :
    (input_callback (input_callback (input_callback title_example short_back (fun _ => 1000)
      (fun _ => 0)) short_back (fun _ => 1500) (fun _ => 0)) short_back (fun _ => 2000)
      (fun _ => 0)).state = GameState.CREDITS :=
  (title_three_backs_open_credits title_example (fun _ => 1000) (fun _ => 1500) (fun _ => 2000)
    (fun _ => 0) (fun _ => 0) (fun _ => 0) rfl rfl rfl (by decide) (by decide) (by decide)).2.2.1

/-! ## Pause and resume -/

theorem game_state_back_short_back (ctx : GameContext) (now : Nat) (otherwise : GameContext) :
    game_state_back ctx short_back now otherwise =
      { ctx with state := GameState.PAUSE, pause_back_count := 0, back_hold_start := 0 } := by
  unfold game_state_back
  rw [if_pos (by decide)]

theorem input_dispatch_game_short_back (ctx : GameContext) (now now2 : Nat) (rnd : Nat → Nat)
    (hg : is_game_state ctx.state) :
    input_dispatch ctx short_back now now2 rnd =
      { ctx with state := GameState.PAUSE, pause_back_count := 0, back_hold_start := 0 } := by
  unfold is_game_state at hg
  unfold input_dispatch
  rcases hg with h | h | h | h | h | h <;> rw [h] <;> dsimp only
  · exact game_state_back_short_back ctx now _
  · exact game_state_back_short_back ctx now _
  · exact game_state_back_short_back ctx now _
  · exact game_state_back_short_back ctx now _
  · exact game_state_back_short_back ctx now _
  · exact game_state_back_short_back ctx now _

/-- C4. Pause round trip: for each of the six game states and every context
in that state whose `selected_game` is the mode of the state, a short Back
that passes the debounce moves to Pause and a following short Ok returns to
the same state with every field equal to its value before the pause, except
possibly the input bookkeeping (`last_input_time`, `rapid_click_count`,
`tap_count`, `tap_window_start`, `last_back_press_time`, `pause_back_count`,
`back_hold_start`). -/
theorem pause_round_trip (ctx : GameContext) (t1 t2 rnd1 rnd2 : Nat → Nat)
    (hg : is_game_state ctx.state) (hm : ctx.state = game_state_of ctx.selected_game)
    (hd : BACK_BUTTON_COOLDOWN ≤ sub32 (furi_get_tick t1 0) ctx.last_back_press_time) :
    (input_callback ctx short_back t1 rnd1).state = GameState.PAUSE ∧
    (input_callback (input_callback ctx short_back t1 rnd1) short_ok t2 rnd2).state = ctx.state ∧
    erase_input_bookkeeping
      (input_callback (input_callback ctx short_back t1 rnd1) short_ok t2 rnd2) =
      erase_input_bookkeeping ctx := by
  obtain ⟨c1, he, -, hf⟩ := short_back_accepted ctx t1 rnd1 hd
  have hg1 : is_game_state c1.state := by rw [hf]; exact hg
  have hr1 : input_callback ctx short_back t1 rnd1 =
      { c1 with state := GameState.PAUSE, pause_back_count := 0, back_hold_start := 0 } := by
    rw [he, input_dispatch_game_short_back c1 _ _ _ hg1]
  have e1 : erase_input_bookkeeping (input_callback ctx short_back t1 rnd1) =
      { erase_input_bookkeeping ctx with state := GameState.PAUSE } := by
    rw [hr1, hf]; rfl
  have hs1 : (input_callback ctx short_back t1 rnd1).state = GameState.PAUSE := by
    rw [hr1]
  generalize input_callback ctx short_back t1 rnd1 = r1 at e1 hs1 ⊢
  rw [input_callback_accepted r1 short_ok t2 rnd2 (fun h => absurd h.1 (by decide))]
  have hf2 := prelude_frame r1 short_ok (furi_get_tick t2 0)
  generalize record_short_back (input_bookkeeping r1 (furi_get_tick t2 0)) short_ok
    (furi_get_tick t2 0) = c2 at hf2 ⊢
  have hs2 : c2.state = GameState.PAUSE := by rw [hf2]; exact hs1
  rw [input_dispatch_pause c2 _ _ _ _ hs2, input_pause_short_ok]
  have e2 : erase_input_bookkeeping (pause_resume c2) =
      { erase_input_bookkeeping r1 with state := game_state_of r1.selected_game } := by
    rw [hf2]; rfl
  have hsel : r1.selected_game = ctx.selected_game := by
    have h := congrArg GameContext.selected_game e1
    exact h
  have e3 : erase_input_bookkeeping (pause_resume c2) = erase_input_bookkeeping ctx := by
    rw [e2, e1, hsel, ← hm]
    rfl
  have hs3 : (pause_resume c2).state = ctx.state := by
    have h := congrArg GameContext.state e3
    exact h
  exact ⟨hs1, hs3, e3⟩

/-- Witness of C4: a Zero Hero session paused at tick 1000 and resumed at
tick 5000 keeps its score. -/
theorem pause_round_trip_witness :
    (input_callback (input_callback zero_hero_example short_back (fun _ => 1000) (fun _ => 0))
      short_ok (fun _ => 5000) (fun _ => 0)).state = GameState.ZERO_HERO ∧
    (erase_input_bookkeeping
      (input_callback (input_callback zero_hero_example short_back (fun _ => 1000) (fun _ => 0))
        short_ok (fun _ => 5000) (fun _ => 0))).score = 42 :=
  ⟨(pause_round_trip zero_hero_example (fun _ => 1000) (fun _ => 5000) (fun _ => 0) (fun _ => 0)
      (Or.inl rfl) rfl (by decide)).2.1,
   congrArg GameContext.score
     (pause_round_trip zero_hero_example (fun _ => 1000) (fun _ => 5000) (fun _ => 0)
       (fun _ => 0) (Or.inl rfl) rfl (by decide)).2.2⟩

/-! ## From start-up to Space Flight -/

theorem loop_from_inv_idx {σ : Type} (P : Nat → σ → Prop) (body : Nat → σ → σ)
    (h : ∀ i s, P i s → P (i + 1) (body i s)) :
    ∀ n i s, P i s → P (i + n) (loop_from i n body s) := by
  intro n
  induction n with
  | zero => intro i s hs; exact hs
  | succ n ih =>
    intro i s hs
    have := ih (i + 1) (body i s) (h i s hs)
    rw [show i + (n + 1) = i + 1 + n by omega]
    exact this

theorem for_loop_inv_idx {σ : Type} (P : Nat → σ → Prop) (body : Nat → σ → σ)
    (h : ∀ i s, P i s → P (i + 1) (body i s)) (n : Nat) (s : σ) (hs : P 0 s) :
    P n (for_loop n body s) := by
  have := loop_from_inv_idx P body h n 0 s hs
  rw [Nat.zero_add] at this
  exact this

/-- The fields the Space Flight set-up leaves in place for the session. -/
theorem init_space_flight_facts (ctx : GameContext) (rnd : Nat → Nat) :
    (init_space_flight ctx rnd).ship_health = (rnd 0 : Int) % 191 + 9 ∧
    (init_space_flight ctx rnd).ship_armor = (rnd 1 : Int) % 81 + 19 ∧
    (init_space_flight ctx rnd).screen_type = 0 ∧
    (∀ i j, (init_space_flight ctx rnd).objects i j = 0) ∧
    (∀ i, (init_space_flight ctx rnd).recent_inputs i = -1) := by
  unfold init_space_flight
  dsimp only
  refine ⟨?_, ?_, ?_, ?_, ?_⟩
  · apply for_loop_inv (fun s : GameContext => s.ship_health = (rnd 0 : Int) % 191 + 9)
    · intro i s hs; exact hs
    · apply for_loop_inv (fun s : GameContext => s.ship_health = (rnd 0 : Int) % 191 + 9)
      · intro i s hs; exact hs
      · rfl
  · apply for_loop_inv (fun s : GameContext => s.ship_armor = (rnd 1 : Int) % 81 + 19)
    · intro i s hs; exact hs
    · apply for_loop_inv (fun s : GameContext => s.ship_armor = (rnd 1 : Int) % 81 + 19)
      · intro i s hs; exact hs
      · rfl
  · apply for_loop_inv (fun s : GameContext => s.screen_type = 0)
    · intro i s hs; exact hs
    · apply for_loop_inv (fun s : GameContext => s.screen_type = 0)
      · intro i s hs; exact hs
      · rfl
  · apply for_loop_inv (fun s : GameContext => ∀ i j, s.objects i j = 0)
    · intro i s hs; exact hs
    · have h := for_loop_inv_idx
        (fun k (s : GameContext) => ∀ (i : Fin 8) (j : Fin 3), i.val < k → s.objects i j = 0)
        (fun i ctx => { ctx with objects := set2 (set2 (set2 ctx.objects i 0 0) i 1 0) i 2 0 })
        (by
          intro k s hs i j hi
          show set2 (set2 (set2 s.objects k 0 0) k 1 0) k 2 0 i j = 0
          unfold set2
          by_cases hik : i.val = k
          · have hj := j.isLt
            split_ifs
            · rfl
            · rfl
            · rfl
            · exfalso; omega
          · have := hs i j (by omega)
            split_ifs
            · rfl
            · rfl
            · rfl
            · exact this)
        WORLD_OBJ_LIMIT
        { ctx with
          ship_health := (rnd 0 : Int) % 191 + 9
          ship_armor := (rnd 1 : Int) % 81 + 19
          screen_type := 0 }
        (by intro i j hi; exact absurd hi (Nat.not_lt_zero _))
      intro i j
      exact h i j i.isLt
  · have h := for_loop_inv_idx
      (fun k (s : GameContext) => ∀ i : Fin 5, i.val < k → s.recent_inputs i = -1)
      (fun i ctx => { ctx with recent_inputs := set1 ctx.recent_inputs i (-1) })
      (by
        intro k s hs i hi
        show set1 s.recent_inputs k (-1) i = -1
        unfold set1
        by_cases hik : i.val = k
        · rw [if_pos (by omega)]
        · have := hs i (by omega)
          split_ifs
          · rfl
          · exact this)
      5
      (for_loop WORLD_OBJ_LIMIT (fun i ctx =>
        { ctx with objects := set2 (set2 (set2 ctx.objects i 0 0) i 1 0) i 2 0 })
        { ctx with
          ship_health := (rnd 0 : Int) % 191 + 9
          ship_armor := (rnd 1 : Int) % 81 + 19
          screen_type := 0 })
      (by intro i hi; exact absurd hi (Nat.not_lt_zero _))
    intro i
    exact h i i.isLt

/-- An event of a key other than Back reaches the dispatch with only the
bookkeeping changed. -/
theorem non_back_accepted (ctx : GameContext) (input : InputEvent) (tick rnd : Nat → Nat)
    (hk : input.key ≠ InputKey.Back) :
    ∃ c1 : GameContext,
      input_callback ctx input tick rnd =
        input_dispatch c1 input (furi_get_tick tick 0) (furi_get_tick tick 1) rnd ∧
      c1 = { ctx with
        last_input_time := furi_get_tick tick 0
        rapid_click_count := c1.rapid_click_count
        tap_count := c1.tap_count
        tap_window_start := c1.tap_window_start } := by
  refine ⟨record_short_back (input_bookkeeping ctx (furi_get_tick tick 0)) input
    (furi_get_tick tick 0), ?_, ?_⟩
  · exact input_callback_accepted ctx input tick rnd (fun h => hk h.1)
  · unfold record_short_back input_bookkeeping
    rw [if_neg (fun h => hk h.1)]
    split_ifs <;> rfl

/-- A press event that reaches the Rotate branch enters the selected game. -/
theorem rotate_press (ctx : GameContext) (input : InputEvent) (tick rnd : Nat → Nat)
    (hs : ctx.state = GameState.ROTATE) (hp : input.type = InputType.Press)
    (hd : ¬ (input.key = InputKey.Back ∧
      sub32 (furi_get_tick tick 0) ctx.last_back_press_time < BACK_BUTTON_COOLDOWN)) :
    ∃ c1 : GameContext,
      input_callback ctx input tick rnd =
        rotate_init_game (rotate_enter c1 (furi_get_tick tick 0)) (furi_get_tick tick 0) rnd ∧
      c1.selected_game = ctx.selected_game := by
  refine ⟨record_short_back (input_bookkeeping ctx (furi_get_tick tick 0)) input
    (furi_get_tick tick 0), ?_, ?_⟩
  · rw [input_callback_accepted ctx input tick rnd hd]
    have hs1 : (record_short_back (input_bookkeeping ctx (furi_get_tick tick 0)) input
        (furi_get_tick tick 0)).state = GameState.ROTATE := by
      rw [prelude_frame]; exact hs
    unfold input_dispatch
    rw [hs1]
    dsimp only
    unfold input_rotate
    rw [if_pos (by unfold is_press; rw [hp]; rfl)]
  · rw [prelude_frame]

/-- Title, an event of a key other than Back: the Back counter, the pending
question and the debounce stamp are untouched, and the state stays Title
unless the event is a short Ok. -/
theorem input_title_non_back (ctx : GameContext) (input : InputEvent) (now : Nat)
    (hk : input.key ≠ InputKey.Back) :
    (input_title ctx input now).start_back_count = ctx.start_back_count ∧
    (input_title ctx input now).note_q_a = ctx.note_q_a ∧
    (input_title ctx input now).last_back_press_time = ctx.last_back_press_time ∧
    (¬ (is_short input ∧ input.key = InputKey.Ok) →
      (input_title ctx input now).state = ctx.state) := by
  unfold input_title
  split_ifs with h1 h2 h3 h4 h5 h6 h7 h8
  · exact ⟨rfl, rfl, rfl, fun _ => rfl⟩
  · exact ⟨rfl, rfl, rfl, fun _ => rfl⟩
  · exact ⟨rfl, rfl, rfl, fun _ => rfl⟩
  · exact ⟨rfl, rfl, rfl, fun _ => rfl⟩
  · exact ⟨rfl, rfl, rfl, fun hn => absurd h5 hn⟩
  · exact absurd h6.2.1 hk
  · exact absurd h7.2 hk
  · exact absurd h8.2.1 hk
  · exact ⟨rfl, rfl, rfl, fun _ => rfl⟩

theorem title_non_back_facts (ctx : GameContext) (input : InputEvent) (tick rnd : Nat → Nat)
    (hs : ctx.state = GameState.TITLE) (hk : input.key ≠ InputKey.Back) :
    (input_callback ctx input tick rnd).start_back_count = ctx.start_back_count ∧
    (input_callback ctx input tick rnd).note_q_a = ctx.note_q_a ∧
    (input_callback ctx input tick rnd).last_back_press_time = ctx.last_back_press_time ∧
    (¬ (is_short input ∧ input.key = InputKey.Ok) →
      (input_callback ctx input tick rnd).state = GameState.TITLE) := by
  obtain ⟨c1, he, hf⟩ := non_back_accepted ctx input tick rnd hk
  have hs1 : c1.state = GameState.TITLE := by rw [hf]; exact hs
  have hc1 : c1.start_back_count = ctx.start_back_count := by rw [hf]
  have hq1 : c1.note_q_a = ctx.note_q_a := by rw [hf]
  have hb1 : c1.last_back_press_time = ctx.last_back_press_time := by rw [hf]
  rw [he, input_dispatch_title c1 _ _ _ _ hs1]
  obtain ⟨a1, a2, a3, a4⟩ := input_title_non_back c1 input (furi_get_tick tick 0) hk
  exact ⟨a1.trans hc1, a2.trans hq1, a3.trans hb1, fun hn => (a4 hn).trans hs1⟩

/-- Counterexample to C7: from Title, a short Back at tick 1000, a short Left
at tick 1100, then short Backs at ticks 1600 and 2200: a non-Back event was
handled between the Back presses and the third Back press opens Credits. -/
theorem title_back_count_not_reset_by_left :
    (input_callback title_example short_back (fun _ => 1000) (fun _ => 0)).start_back_count = 1 ∧
    (input_callback (input_callback title_example short_back (fun _ => 1000) (fun _ => 0))
      short_left (fun _ => 1100) (fun _ => 0)).start_back_count = 1 ∧
    (input_callback
      (input_callback
        (input_callback (input_callback title_example short_back (fun _ => 1000) (fun _ => 0))
          short_left (fun _ => 1100) (fun _ => 0))
        short_back (fun _ => 1600) (fun _ => 0))
      short_back (fun _ => 2200) (fun _ => 0)).state = GameState.CREDITS := by
  decide

/-- C7, amended. In Title no event of a key other than Back changes
`start_back_count` (it is reset only when Credits opens), and unless it is a
short Ok such an event stays in Title; hence Credits is opened by the third
accepted short Back counted from `start_back_count = 0` also when an event of
another key is handled between the Back presses. -/
theorem title_back_count_survives_other_keys (ctx : GameContext) (other : InputEvent)
    (t1 t2 t3 t4 rnd1 rnd2 rnd3 rnd4 : Nat → Nat)
    (hs : ctx.state = GameState.TITLE) (hc : ctx.start_back_count = 0) (hq : ctx.note_q_a = 0)
    (hk : other.key ≠ InputKey.Back) (hok : ¬ (is_short other ∧ other.key = InputKey.Ok))
    (h1 : BACK_BUTTON_COOLDOWN ≤ sub32 (furi_get_tick t1 0) ctx.last_back_press_time)
    (h3 : BACK_BUTTON_COOLDOWN ≤ sub32 (furi_get_tick t3 0) (furi_get_tick t1 0))
    (h4 : BACK_BUTTON_COOLDOWN ≤ sub32 (furi_get_tick t4 0) (furi_get_tick t3 0)) :
    (∀ (c : GameContext) (e : InputEvent) (t rnd : Nat → Nat),
      c.state = GameState.TITLE → e.key ≠ InputKey.Back →
      (input_callback c e t rnd).start_back_count = c.start_back_count) ∧
    (input_callback (input_callback ctx short_back t1 rnd1) other t2 rnd2).state
      = GameState.TITLE ∧
    (input_callback (input_callback ctx short_back t1 rnd1) other t2 rnd2).start_back_count = 1 ∧
    (input_callback
      (input_callback (input_callback (input_callback ctx short_back t1 rnd1) other t2 rnd2)
        short_back t3 rnd3)
      short_back t4 rnd4).state = GameState.CREDITS := by
  refine ⟨fun c e t rnd hcs hke => (title_non_back_facts c e t rnd hcs hke).1, ?_⟩
  obtain ⟨hl1, hq1, hlt1, -⟩ := title_short_back_facts ctx t1 rnd1 hs hq h1
  rw [hc] at hlt1
  obtain ⟨hs1, hp1⟩ := hlt1 (by decide)
  have hp1 : (input_callback ctx short_back t1 rnd1).start_back_count = 1 := hp1
  generalize input_callback ctx short_back t1 rnd1 = r1 at hl1 hq1 hs1 hp1 ⊢
  obtain ⟨a1, a2, a3, a4⟩ := title_non_back_facts r1 other t2 rnd2 hs1 hk
  have hs2 := a4 hok
  have hp2 : (input_callback r1 other t2 rnd2).start_back_count = 1 := a1.trans hp1
  have hq2 : (input_callback r1 other t2 rnd2).note_q_a = 0 := a2.trans hq1
  have hl2 : (input_callback r1 other t2 rnd2).last_back_press_time = furi_get_tick t1 0 :=
    a3.trans hl1
  generalize input_callback r1 other t2 rnd2 = r2 at hs2 hp2 hq2 hl2 ⊢
  obtain ⟨hl3, hq3, hlt3, -⟩ := title_short_back_facts r2 t3 rnd3 hs2 hq2 (by rw [hl2]; exact h3)
  rw [hp2] at hlt3
  obtain ⟨hs3, hp3⟩ := hlt3 (by decide)
  have hp3 : (input_callback r2 short_back t3 rnd3).start_back_count = 2 := hp3
  generalize input_callback r2 short_back t3 rnd3 = r3 at hl3 hq3 hs3 hp3 ⊢
  obtain ⟨-, -, -, hge4⟩ := title_short_back_facts r3 t4 rnd4 hs3 hq3 (by rw [hl3]; exact h4)
  rw [hp3] at hge4
  exact ⟨hs2, hp2, (hge4 (by decide)).1⟩

/-- Witness of C7, amended: Back at 1000, Left at 1100, Back at 1600 and 2200. -/
theorem title_back_count_survives_other_keys_witness :
    (input_callback
      (input_callback
        (input_callback (input_callback title_example short_back (fun _ => 1000) (fun _ => 0))
          short_left (fun _ => 1100) (fun _ => 0))
        short_back (fun _ => 1600) (fun _ => 0))
      short_back (fun _ => 2200) (fun _ => 0)).state = GameState.CREDITS :=
  (title_back_count_survives_other_keys title_example short_left (fun _ => 1000)
    (fun _ => 1100) (fun _ => 1600) (fun _ => 2200) (fun _ => 0) (fun _ => 0) (fun _ => 0)
    (fun _ => 0) rfl rfl rfl (by decide) (by decide) (by decide) (by decide) (by decide)).2.2.2

/-! ## The hold gesture -/

/-- C9, the code at the failing input: a Back release at tick 2000 with no
recorded press (`back_hold_start = 0`) toggles `is_left_handed` in Zero Hero
and leaves `back_hold_start` as it was, while the same event leaves
`is_left_handed` unchanged in Title and in Pause. -/
theorem release_without_press_toggles_in_game :
    zero_hero_example.back_hold_start = 0 ∧
    zero_hero_example.is_left_handed = false ∧
    (input_callback zero_hero_example release_back (fun _ => 2000) (fun _ => 0)).is_left_handed
      = true ∧
    (input_callback title_example release_back (fun _ => 2000) (fun _ => 0)).is_left_handed
      = false ∧
    (input_callback pause_example release_back (fun _ => 2000) (fun _ => 0)).is_left_handed
      = false := by
  decide

/-! ## Entering a game from Rotate -/

/-- C2, the code at the failing input: two contexts in Rotate with the same
`selected_game` (Zero Hero) handle the same press of Ok at the same tick with
the same random outcomes; the contexts after the event differ in `score`,
`score_oflow`, `oflow`, `difficulty`, `speed_bpm`, `is_holding` and
`key_positions`, each still holding the value written before the transition. -/
theorem rotate_entry_keeps_stale_fields :
    (input_callback stale_rotate_example press_ok (fun _ => 5000) (fun _ => 0)).state
      = GameState.ZERO_HERO ∧
    (input_callback fresh_rotate_example press_ok (fun _ => 5000) (fun _ => 0)).state
      = GameState.ZERO_HERO ∧
    (input_callback stale_rotate_example press_ok (fun _ => 5000) (fun _ => 0)).score = 7 ∧
    (input_callback fresh_rotate_example press_ok (fun _ => 5000) (fun _ => 0)).score = 0 ∧
    (input_callback stale_rotate_example press_ok (fun _ => 5000) (fun _ => 0)).score_oflow = 1 ∧
    (input_callback fresh_rotate_example press_ok (fun _ => 5000) (fun _ => 0)).score_oflow = 0 ∧
    (input_callback stale_rotate_example press_ok (fun _ => 5000) (fun _ => 0)).oflow = 2 ∧
    (input_callback fresh_rotate_example press_ok (fun _ => 5000) (fun _ => 0)).oflow = 0 ∧
    (input_callback stale_rotate_example press_ok (fun _ => 5000) (fun _ => 0)).difficulty = 2 ∧
    (input_callback fresh_rotate_example press_ok (fun _ => 5000) (fun _ => 0)).difficulty = 0 ∧
    (input_callback stale_rotate_example press_ok (fun _ => 5000) (fun _ => 0)).speed_bpm = 120 ∧
    (input_callback fresh_rotate_example press_ok (fun _ => 5000) (fun _ => 0)).speed_bpm = 0 ∧
    (input_callback stale_rotate_example press_ok (fun _ => 5000) (fun _ => 0)).is_holding 2
      = true ∧
    (input_callback fresh_rotate_example press_ok (fun _ => 5000) (fun _ => 0)).is_holding 2
      = false ∧
    (input_callback stale_rotate_example press_ok (fun _ => 5000) (fun _ => 0)).key_positions 2 0
      = 50 ∧
    (input_callback fresh_rotate_example press_ok (fun _ => 5000) (fun _ => 0)).key_positions 2 0
      = 0 := by
  decide

/-! ## The renderer and the context -/

/-- Counterexample to C3: `render_callback` clears an expired notification in
Zero Hero, writes `rotate_angle` and `zoom_factor` during the Rotate
animation, and on the Flip IQ death screen doubles `score` and sets `state`
to Title. -/
theorem render_callback_writes_context :
    render_note_example.notification_text = "Whoa!" ∧
    (render_callback render_note_example (fun _ => 2000)).notification_text = "" ∧
    (render_callback render_note_example (fun _ => 2000)).notification_x = 0 ∧
    render_rotate_example.rotate_angle = 0 ∧
    render_rotate_example.zoom_factor = 0 ∧
    (render_callback render_rotate_example (fun _ => 3500)).rotate_angle = 45 ∧
    (render_callback render_rotate_example (fun _ => 3500)).zoom_factor = 2000 ∧
    render_death_example.state = GameState.FLIP_IQ ∧
    render_death_example.score = 21 ∧
    (render_callback render_death_example (fun _ => 3000)).state = GameState.TITLE ∧
    (render_callback render_death_example (fun _ => 3000)).score = 42 := by
  decide

theorem render_effect_of (ctx : GameContext) (g : Nat) (a z : Int) (nt : String) (nx sc : Int)
    (st : GameState)
    (h1 : g = ctx.game_start_time ∨
      (ctx.game_start_time = 0 ∧
        (ctx.state = GameState.LINE_CAR ∨ ctx.state = GameState.FLIP_IQ ∨
          ctx.state = GameState.SPACE_FLIGHT)))
    (h2 : (a = ctx.rotate_angle ∧ z = ctx.zoom_factor) ∨ ctx.state = GameState.ROTATE)
    (h3 : (nt = ctx.notification_text ∧ nx = ctx.notification_x) ∨
      (nt = "" ∧ nx = 0 ∧ ctx.note_q_a = 0))
    (h4 : (st = ctx.state ∧ sc = ctx.score) ∨
      (ctx.state = GameState.FLIP_IQ ∧ st = GameState.TITLE ∧ sc = ctx.score + ctx.score)) :
    render_effect ctx
      { ctx with
        game_start_time := g
        rotate_angle := a
        zoom_factor := z
        notification_text := nt
        notification_x := nx
        score := sc
        state := st } :=
  ⟨rfl, h1, h2, h3, h4⟩

theorem render_effect_refl (ctx : GameContext) : render_effect ctx ctx :=
  render_effect_of ctx ctx.game_start_time ctx.rotate_angle ctx.zoom_factor ctx.notification_text
    ctx.notification_x ctx.score ctx.state (Or.inl rfl) (Or.inl ⟨rfl, rfl⟩) (Or.inl ⟨rfl, rfl⟩)
    (Or.inl ⟨rfl, rfl⟩)

/-- `draw_notification` keeps the context or clears the notification. -/
theorem draw_notification_cases (ctx : GameContext) (now : Nat) :
    draw_notification ctx now = ctx ∨
    (draw_notification ctx now = { ctx with notification_text := "", notification_x := 0 } ∧
      ctx.note_q_a = 0) := by
  unfold draw_notification
  dsimp only
  split_ifs with h1 h2
  · left; rfl
  · right; exact ⟨rfl, h2.2⟩
  · left; rfl

/-- `draw_notification` after a start time `g` that is kept or lazily set. -/
theorem render_effect_notification (ctx : GameContext) (g now : Nat)
    (h1 : g = ctx.game_start_time ∨
      (ctx.game_start_time = 0 ∧
        (ctx.state = GameState.LINE_CAR ∨ ctx.state = GameState.FLIP_IQ ∨
          ctx.state = GameState.SPACE_FLIGHT))) :
    render_effect ctx (draw_notification { ctx with game_start_time := g } now) := by
  rcases draw_notification_cases { ctx with game_start_time := g } now with h | ⟨h, hq⟩
  · rw [h]
    exact render_effect_of ctx g ctx.rotate_angle ctx.zoom_factor ctx.notification_text
      ctx.notification_x ctx.score ctx.state h1 (Or.inl ⟨rfl, rfl⟩) (Or.inl ⟨rfl, rfl⟩)
      (Or.inl ⟨rfl, rfl⟩)
  · rw [h]
    exact render_effect_of ctx g ctx.rotate_angle ctx.zoom_factor "" 0 ctx.score ctx.state h1
      (Or.inl ⟨rfl, rfl⟩) (Or.inr ⟨rfl, rfl, hq⟩) (Or.inl ⟨rfl, rfl⟩)

/-- The title-or-game choice of Line Car and Space Flight after a start time
`g` that is kept or lazily set. -/
theorem render_effect_titled (ctx : GameContext) (g e now : Nat)
    (h1 : g = ctx.game_start_time ∨
      (ctx.game_start_time = 0 ∧
        (ctx.state = GameState.LINE_CAR ∨ ctx.state = GameState.FLIP_IQ ∨
          ctx.state = GameState.SPACE_FLIGHT))) :
    render_effect ctx
      (if e < 1300 then { ctx with game_start_time := g }
       else draw_notification { ctx with game_start_time := g } now) := by
  split_ifs
  · exact render_effect_of ctx g ctx.rotate_angle ctx.zoom_factor ctx.notification_text
      ctx.notification_x ctx.score ctx.state h1 (Or.inl ⟨rfl, rfl⟩) (Or.inl ⟨rfl, rfl⟩)
      (Or.inl ⟨rfl, rfl⟩)
  · exact render_effect_notification ctx g now h1

theorem render_line_car_effect (ctx : GameContext) (tick : Nat → Nat)
    (hs : ctx.state = GameState.LINE_CAR) : render_effect ctx (render_line_car ctx tick) := by
  unfold render_line_car lazy_start_time
  by_cases h0 : ctx.game_start_time = 0
  · rw [if_pos h0]
    exact render_effect_titled ctx _ _ _ (Or.inr ⟨h0, Or.inl hs⟩)
  · rw [if_neg h0]
    exact render_effect_titled ctx ctx.game_start_time _ _ (Or.inl rfl)

theorem render_space_flight_effect (ctx : GameContext) (tick : Nat → Nat)
    (hs : ctx.state = GameState.SPACE_FLIGHT) :
    render_effect ctx (render_space_flight ctx tick) := by
  unfold render_space_flight lazy_start_time
  by_cases h0 : ctx.game_start_time = 0
  · rw [if_pos h0]
    exact render_effect_titled ctx _ _ _ (Or.inr ⟨h0, Or.inr (Or.inr hs)⟩)
  · rw [if_neg h0]
    exact render_effect_titled ctx ctx.game_start_time _ _ (Or.inl rfl)

/-- The Flip IQ branch after a start time `g` that is kept or lazily set. -/
theorem render_effect_flip_iq (ctx : GameContext) (g : Nat) (p q d : Prop)
    [Decidable p] [Decidable q] [Decidable d] (hs : ctx.state = GameState.FLIP_IQ)
    (h1 : g = ctx.game_start_time ∨
      (ctx.game_start_time = 0 ∧
        (ctx.state = GameState.LINE_CAR ∨ ctx.state = GameState.FLIP_IQ ∨
          ctx.state = GameState.SPACE_FLIGHT))) :
    render_effect ctx
      (if p then { ctx with game_start_time := g }
       else if q then
         if d then
           { ctx with game_start_time := g, score := ctx.score + ctx.score,
                      state := GameState.TITLE }
         else { ctx with game_start_time := g }
       else { ctx with game_start_time := g }) := by
  have keep : render_effect ctx { ctx with game_start_time := g } :=
    render_effect_of ctx g ctx.rotate_angle ctx.zoom_factor ctx.notification_text
      ctx.notification_x ctx.score ctx.state h1 (Or.inl ⟨rfl, rfl⟩) (Or.inl ⟨rfl, rfl⟩)
      (Or.inl ⟨rfl, rfl⟩)
  split_ifs
  · exact keep
  · exact render_effect_of ctx g ctx.rotate_angle ctx.zoom_factor ctx.notification_text
      ctx.notification_x (ctx.score + ctx.score) GameState.TITLE h1 (Or.inl ⟨rfl, rfl⟩)
      (Or.inl ⟨rfl, rfl⟩) (Or.inr ⟨hs, rfl, rfl⟩)
  · exact keep
  · exact keep

theorem render_flip_iq_effect (ctx : GameContext) (tick : Nat → Nat)
    (hs : ctx.state = GameState.FLIP_IQ) : render_effect ctx (render_flip_iq ctx tick) := by
  unfold render_flip_iq lazy_start_time
  by_cases h0 : ctx.game_start_time = 0
  · rw [if_pos h0]
    exact render_effect_flip_iq ctx _ _ _ _ hs (Or.inr ⟨h0, Or.inr (Or.inl hs)⟩)
  · rw [if_neg h0]
    exact render_effect_flip_iq ctx ctx.game_start_time _ _ _ hs (Or.inl rfl)

theorem draw_rotate_screen_effect (ctx : GameContext) (now : Nat)
    (hs : ctx.state = GameState.ROTATE) : render_effect ctx (draw_rotate_screen ctx now) := by
  unfold draw_rotate_screen
  dsimp only
  split_ifs
  · exact render_effect_refl ctx
  · exact render_effect_of ctx ctx.game_start_time _ _ ctx.notification_text
      ctx.notification_x ctx.score ctx.state (Or.inl rfl) (Or.inr hs) (Or.inl ⟨rfl, rfl⟩)
      (Or.inl ⟨rfl, rfl⟩)
  · exact render_effect_refl ctx

/-- C3, amended. For every context and every clock, `render_callback` changes
no field other than `game_start_time`, `rotate_angle`, `zoom_factor`,
`notification_text`, `notification_x`, `score` and `state`:
`game_start_time` only by the lazy set-up when it is 0 (Line Car, Flip IQ,
Space Flight), `rotate_angle` and `zoom_factor` only in Rotate, the
notification only by being cleared, `score` and `state` only on the Flip IQ
death screen (score doubled, state set to Title).  In Loading, Title,
Credits and Pause the context after the call equals the context before it. -/
theorem render_callback_effect (ctx : GameContext) (tick : Nat → Nat) :
    render_effect ctx (render_callback ctx tick) ∧
    (ctx.state = GameState.LOADING ∨ ctx.state = GameState.TITLE ∨
      ctx.state = GameState.CREDITS ∨ ctx.state = GameState.PAUSE →
      render_callback ctx tick = ctx) := by
  unfold render_callback
  by_cases hv : ctx.view_port = 0
  · rw [if_pos hv]
    exact ⟨render_effect_refl ctx, fun _ => rfl⟩
  · rw [if_neg hv]
    cases hs : ctx.state with
    | LOADING => exact ⟨render_effect_refl ctx, fun _ => rfl⟩
    | TITLE => exact ⟨render_effect_refl ctx, fun _ => rfl⟩
    | CREDITS => exact ⟨render_effect_refl ctx, fun _ => rfl⟩
    | PAUSE => exact ⟨render_effect_refl ctx, fun _ => rfl⟩
    | ROTATE =>
      exact ⟨draw_rotate_screen_effect ctx _ hs, fun h => by simp at h⟩
    | ZERO_HERO =>
      exact ⟨render_effect_notification ctx ctx.game_start_time _ (Or.inl rfl),
        fun h => by simp at h⟩
    | FLIP_ZIP =>
      exact ⟨render_effect_notification ctx ctx.game_start_time _ (Or.inl rfl),
        fun h => by simp at h⟩
    | TECTONE_SIM =>
      exact ⟨render_effect_notification ctx ctx.game_start_time _ (Or.inl rfl),
        fun h => by simp at h⟩
    | LINE_CAR => exact ⟨render_line_car_effect ctx tick hs, fun h => by simp at h⟩
    | FLIP_IQ => exact ⟨render_flip_iq_effect ctx tick hs, fun h => by simp at h⟩
    | SPACE_FLIGHT => exact ⟨render_space_flight_effect ctx tick hs, fun h => by simp at h⟩

set_option maxRecDepth 100000

/-! ## The update functions keep the fields outside the simulation -/

@[simp] theorem run_map_ctx (f : GameContext → GameContext) (s : Run) :
    (Run.map f s).ctx = f s.ctx := rfl

@[simp] theorem run_read_ctx (s : Run) : s.read.ctx = s.ctx := rfl

@[simp] theorem run_drawn_ctx (s : Run) : s.drawn.ctx = s.ctx := rfl

@[simp] theorem steady_notify (tick : Nat → Nat) (text : String) (s : Run) :
    steady (Run.notify tick text s).ctx = steady s.ctx := rfl

@[simp] theorem steady_stamped (ctx : GameContext) (tick : Nat → Nat) :
    steady (stamped ctx tick).ctx = steady ctx := rfl

theorem for_loop_steady (body : Nat → Run → Run)
    (h : ∀ i s, steady (body i s).ctx = steady s.ctx) (n : Nat) (s : Run) :
    steady (for_loop n body s).ctx = steady s.ctx :=
  for_loop_inv (fun t : Run => steady t.ctx = steady s.ctx) body
    (fun i t ht => (h i t).trans ht) n s rfl

theorem for_loop_steady_ctx (body : Nat → GameContext → GameContext)
    (h : ∀ i c, steady (body i c) = steady c) (n : Nat) (c : GameContext) :
    steady (for_loop n body c) = steady c :=
  for_loop_inv (fun t : GameContext => steady t = steady c) body
    (fun i t ht => (h i t).trans ht) n c rfl

theorem break_loop_from_inv {σ : Type} (P : σ → Prop) (body : Nat → σ → σ × Bool)
    (h : ∀ i s, P s → P (body i s).1) : ∀ n i s, P s → P (break_loop_from i n body s) := by
  intro n
  induction n with
  | zero => intro i s hs; exact hs
  | succ n ih =>
    intro i s hs
    unfold break_loop_from
    split_ifs
    · exact h i s hs
    · exact ih (i + 1) _ (h i s hs)

theorem for_loop_break_inv {σ : Type} (P : σ → Prop) (body : Nat → σ → σ × Bool)
    (h : ∀ i s, P s → P (body i s).1) (n : Nat) (s : σ) (hs : P s) :
    P (for_loop_break n body s) :=
  break_loop_from_inv P body h n 0 s hs

theorem for_loop_break_steady (body : Nat → Run → Run × Bool)
    (h : ∀ i s, steady (body i s).1.ctx = steady s.ctx) (n : Nat) (s : Run) :
    steady (for_loop_break n body s).ctx = steady s.ctx :=
  for_loop_break_inv (fun t : Run => steady t.ctx = steady s.ctx) body
    (fun i t ht => (h i t).trans ht) n s rfl

theorem for_loop_break_steady_ctx (body : Nat → GameContext → GameContext × Bool)
    (h : ∀ i c, steady (body i c).1 = steady c) (n : Nat) (c : GameContext) :
    steady (for_loop_break n body c) = steady c :=
  for_loop_break_inv (fun t : GameContext => steady t = steady c) body
    (fun i t ht => (h i t).trans ht) n c rfl

/-! ### Zero Hero -/

@[simp] theorem steady_zero_hero_count_hit (i j : Int) (c : GameContext) :
    steady (zero_hero_count_hit i j c) = steady c := rfl

@[simp] theorem steady_zero_hero_wrap (c : GameContext) :
    steady (zero_hero_wrap c) = steady c := by
  unfold zero_hero_wrap; split_ifs <;> rfl

@[simp] theorem steady_zero_hero_milestone (tick : Nat → Nat) (s : Run) :
    steady (zero_hero_milestone tick s).ctx = steady s.ctx := by
  unfold zero_hero_milestone; split_ifs <;> rfl

@[simp] theorem steady_zero_hero_stats (c : GameContext) :
    steady (zero_hero_stats c) = steady c := rfl

@[simp] theorem steady_zero_hero_highest (c : GameContext) :
    steady (zero_hero_highest c) = steady c := by
  unfold zero_hero_highest; split_ifs <;> rfl

@[simp] theorem steady_zero_hero_hit (tick : Nat → Nat) (i j : Int) (s : Run) :
    steady (zero_hero_hit tick i j s).ctx = steady s.ctx := by
  unfold zero_hero_hit; simp

@[simp] theorem steady_zero_hero_miss (tick : Nat → Nat) (i j : Int) (s : Run) :
    steady (zero_hero_miss tick i j s).ctx = steady s.ctx := rfl

@[simp] theorem steady_zero_hero_advance (i j : Int) (c : GameContext) :
    steady (zero_hero_advance i j c) = steady c := rfl

@[simp] theorem steady_zero_hero_judge (tick : Nat → Nat) (i j : Int) (s : Run) :
    steady (zero_hero_judge tick i j s).ctx = steady s.ctx := by
  unfold zero_hero_judge; split_ifs <;> simp

@[simp] theorem steady_zero_hero_slot (tick : Nat → Nat) (i j : Nat) (s : Run) :
    steady (zero_hero_slot tick i j s).ctx = steady s.ctx := by
  unfold zero_hero_slot; split_ifs <;> simp

@[simp] theorem steady_zero_hero_lane (tick : Nat → Nat) (i : Nat) (s : Run) :
    steady (zero_hero_lane tick i s).ctx = steady s.ctx := by
  unfold zero_hero_lane
  rw [for_loop_steady _ (fun j t => steady_zero_hero_slot tick i j t)]
  rfl

@[simp] theorem steady_zero_hero_lanes (tick : Nat → Nat) (s : Run) :
    steady (zero_hero_lanes tick s).ctx = steady s.ctx := by
  unfold zero_hero_lanes
  exact for_loop_steady _ (fun i t => steady_zero_hero_lane tick i t) 5 s

@[simp] theorem steady_beat (c : GameContext) : steady (beat c) = steady c := rfl

@[simp] theorem steady_zero_hero_spawn (rnd : Nat → Nat) (s : Run) :
    steady (zero_hero_spawn rnd s).ctx = steady s.ctx := by
  unfold zero_hero_spawn zero_hero_spawn_lane
  split_ifs
  · rw [for_loop_break_steady _ (fun j t => by
      unfold zero_hero_spawn_slot; split_ifs <;> rfl)]
    rfl
  · rfl

@[simp] theorem steady_zero_hero_tier_up (c : GameContext) :
    steady (zero_hero_tier_up c) = steady c := by
  unfold zero_hero_tier_up; split_ifs <;> rfl

@[simp] theorem steady_zero_hero_check_stamp (tick : Nat → Nat) (s : Run) :
    steady (zero_hero_check_stamp tick s).ctx = steady s.ctx := rfl

@[simp] theorem steady_zero_hero_difficulty (tick rnd : Nat → Nat) (s : Run) :
    steady (zero_hero_difficulty tick rnd s).ctx = steady s.ctx := by
  unfold zero_hero_difficulty zero_hero_escalate zero_hero_raise
  split_ifs <;> simp

theorem steady_update_zero_hero (ctx : GameContext) (tick rnd : Nat → Nat) :
    steady (update_zero_hero ctx tick rnd) = steady ctx := by
  unfold update_zero_hero
  split_ifs
  · rfl
  · simp

/-! ### Flip Zip -/

@[simp] theorem steady_speed_step (c : GameContext) : steady (speed_step c) = steady c := by
  unfold speed_step; split_ifs <;> rfl

@[simp] theorem steady_flip_zip_every_fifth (c : GameContext) :
    steady (flip_zip_every_fifth c) = steady c := by
  unfold flip_zip_every_fifth; split_ifs <;> simp

@[simp] theorem steady_flip_zip_dodge (i : Int) (c : GameContext) :
    steady (flip_zip_dodge i c) = steady c := by
  unfold flip_zip_dodge; split_ifs
  · rw [steady_flip_zip_every_fifth]; rfl
  · rfl

@[simp] theorem steady_flip_zip_leave (i j : Int) (c : GameContext) :
    steady (flip_zip_leave i j c) = steady c := by
  unfold flip_zip_leave; rw [steady_flip_zip_dodge]; rfl

@[simp] theorem steady_flip_zip_advance (m i j : Int) (c : GameContext) :
    steady (flip_zip_advance m i j c) = steady c := rfl

@[simp] theorem steady_flip_zip_moved (i j : Int) (c : GameContext) :
    steady (flip_zip_moved i j c) = steady c := by
  unfold flip_zip_moved; split_ifs <;> simp

@[simp] theorem steady_flip_zip_slot (m : Int) (i j : Nat) (c : GameContext) :
    steady (flip_zip_slot m i j c) = steady c := by
  unfold flip_zip_slot; split_ifs <;> simp

@[simp] theorem steady_flip_zip_obstacles (m : Int) (c : GameContext) :
    steady (flip_zip_obstacles m c) = steady c := by
  unfold flip_zip_obstacles
  exact for_loop_steady_ctx _
    (fun i t => for_loop_steady_ctx _ (fun j u => steady_flip_zip_slot m i j u) 10 t) 5 c

@[simp] theorem steady_flip_zip_spawn (rnd : Nat → Nat) (s : Run) :
    steady (flip_zip_spawn rnd s).ctx = steady s.ctx := by
  unfold flip_zip_spawn flip_zip_spawn_lane
  split_ifs
  · rw [for_loop_break_steady _ (fun j t => by
      unfold flip_zip_spawn_slot; split_ifs <;> rfl)]
    rfl
  · rfl

@[simp] theorem steady_flip_zip_hold_top (c : GameContext) :
    steady (flip_zip_hold_top c) = steady c := rfl

@[simp] theorem steady_cap_mascot_y (c : GameContext) : steady (cap_mascot_y c) = steady c := by
  unfold cap_mascot_y; split_ifs <;> rfl

@[simp] theorem steady_flip_zip_touch_down (c : GameContext) :
    steady (flip_zip_touch_down c) = steady c := by
  unfold flip_zip_touch_down
  exact (steady_cap_mascot_y _)

@[simp] theorem steady_flip_zip_land (c : GameContext) :
    steady (flip_zip_land c) = steady c := by
  unfold flip_zip_land; simp

@[simp] theorem steady_flip_zip_arc_end (tick : Nat → Nat) (s : Run) :
    steady (flip_zip_arc_end tick s).ctx = steady s.ctx := by
  unfold flip_zip_arc_end; split_ifs <;> simp

@[simp] theorem steady_flip_zip_arc (tick : Nat → Nat) (s : Run) :
    steady (flip_zip_arc tick s).ctx = steady s.ctx := by
  unfold flip_zip_arc; split_ifs
  · rfl
  · rfl
  · simp

@[simp] theorem steady_flip_zip_drift_up (now : Nat) (c : GameContext) :
    steady (flip_zip_drift_up now c) = steady c := by
  unfold flip_zip_drift_up; rw [steady_cap_mascot_y]; rfl

@[simp] theorem steady_flip_zip_airborne (tick : Nat → Nat) (s : Run) :
    steady (flip_zip_airborne tick s).ctx = steady s.ctx := by
  unfold flip_zip_airborne; split_ifs <;> simp

@[simp] theorem steady_flip_zip_jump (tick : Nat → Nat) (s : Run) :
    steady (flip_zip_jump tick s).ctx = steady s.ctx := by
  unfold flip_zip_jump; split_ifs
  · rw [steady_flip_zip_airborne, steady_flip_zip_arc]; rfl
  · rfl

theorem steady_update_flip_zip (ctx : GameContext) (tick rnd : Nat → Nat) :
    steady (update_flip_zip ctx tick rnd) = steady ctx := by
  unfold update_flip_zip
  split_ifs
  · rfl
  · simp

/-! ### Line Car -/

@[simp] theorem steady_speed_nudge_up (c : GameContext) :
    steady (speed_nudge_up c) = steady c := rfl

@[simp] theorem steady_speed_nudge_down (c : GameContext) :
    steady (speed_nudge_down c) = steady c := rfl

@[simp] theorem steady_stamp_again (tick : Nat → Nat) (s : Run) :
    steady (stamp_again tick s).ctx = steady s.ctx := rfl

@[simp] theorem steady_line_car_speed_adjust (tick : Nat → Nat) (s : Run) :
    steady (line_car_speed_adjust tick s).ctx = steady s.ctx := by
  unfold line_car_speed_adjust; split_ifs <;> simp

@[simp] theorem steady_line_car_regenerate (rnd : Nat → Nat) (i j : Nat) (s : Run) :
    steady (line_car_regenerate rnd i j s).ctx = steady s.ctx := rfl

@[simp] theorem steady_line_car_advance (m i j : Int) (c : GameContext) :
    steady (line_car_advance m i j c) = steady c := rfl

@[simp] theorem steady_line_car_slot (rnd : Nat → Nat) (m : Int) (i j : Nat) (s : Run) :
    steady (line_car_slot rnd m i j s).ctx = steady s.ctx := by
  unfold line_car_slot line_car_scrolled; split_ifs <;> simp

@[simp] theorem steady_line_car_scroll (rnd : Nat → Nat) (m : Int) (s : Run) :
    steady (line_car_scroll rnd m s).ctx = steady s.ctx := by
  unfold line_car_scroll
  exact for_loop_steady _
    (fun i t => for_loop_steady _ (fun j u => steady_line_car_slot rnd m i j u) _ t) 5 s

@[simp] theorem steady_line_car_bank (c : GameContext) :
    steady (line_car_bank c) = steady c := by
  unfold line_car_bank; split_ifs <;> rfl

@[simp] theorem steady_line_car_reset_points (c : GameContext) :
    steady (line_car_reset_points c) = steady c := rfl

@[simp] theorem steady_line_car_drift_check (tick : Nat → Nat) (s : Run) :
    steady (line_car_drift_check tick s).ctx = steady s.ctx := by
  unfold line_car_drift_check line_car_drift_end; split_ifs <;> simp

@[simp] theorem steady_line_car_bottom (c : GameContext) :
    steady (line_car_bottom c) = steady c := by
  unfold line_car_bottom
  rw [for_loop_break_steady_ctx _ (fun i t => by
    unfold line_car_find_lane_step; split_ifs <;> rfl)]
  rfl

theorem steady_line_car_reposition_lane (rnd : Nat → Nat) (i : Nat) (s : Run) :
    steady (line_car_reposition_lane rnd i s).1.ctx = steady s.ctx := by
  unfold line_car_reposition_lane
  exact for_loop_break_steady _ (fun j t => by
    unfold line_car_reposition_slot; split_ifs <;> rfl) _ s

@[simp] theorem steady_line_car_off_track (tick rnd : Nat → Nat) (s : Run) :
    steady (line_car_off_track tick rnd s).ctx = steady s.ctx := by
  unfold line_car_off_track; split_ifs
  · rw [for_loop_break_steady _ (fun i t => steady_line_car_reposition_lane rnd i t)]
    rfl
  · rfl

@[simp] theorem steady_line_car_fallen (tick rnd : Nat → Nat) (s : Run) :
    steady (line_car_fallen tick rnd s).ctx = steady s.ctx := by
  unfold line_car_fallen; split_ifs <;> simp

@[simp] theorem steady_line_car_gravity (tick rnd : Nat → Nat) (m : Int) (s : Run) :
    steady (line_car_gravity tick rnd m s).ctx = steady s.ctx := by
  unfold line_car_gravity; split_ifs
  · rfl
  · rw [steady_line_car_fallen]; rfl

@[simp] theorem steady_line_car_drift_slowdown (c : GameContext) :
    steady (line_car_drift_slowdown c) = steady c := by
  unfold line_car_drift_slowdown; split_ifs <;> simp

@[simp] theorem steady_line_car_before_drift (ctx : GameContext) (tick rnd : Nat → Nat) :
    steady (line_car_before_drift ctx tick rnd).ctx = steady ctx := by
  unfold line_car_before_drift; simp

theorem steady_update_line_car (ctx : GameContext) (tick rnd : Nat → Nat) :
    steady (update_line_car ctx tick rnd) = steady ctx := by
  unfold update_line_car
  split_ifs
  · rfl
  · simp

/-! ### Flip IQ -/

@[simp] theorem steady_flip_iq_speed_adjust (tick : Nat → Nat) (s : Run) :
    steady (flip_iq_speed_adjust tick s).ctx = steady s.ctx := by
  unfold flip_iq_speed_adjust; split_ifs <;> simp

@[simp] theorem steady_flip_iq_first_ball (r0 r1 : Int) (c : GameContext) :
    steady (flip_iq_first_ball r0 r1 c) = steady c := rfl

@[simp] theorem steady_flip_iq_first_drop (tick rnd : Nat → Nat) (s : Run) :
    steady (flip_iq_first_drop tick rnd s).ctx = steady s.ctx := by
  unfold flip_iq_first_drop; split_ifs <;> rfl

@[simp] theorem steady_flip_iq_next_round (c : GameContext) :
    steady (flip_iq_next_round c) = steady c := by
  unfold flip_iq_next_round; split_ifs <;> rfl

@[simp] theorem steady_flip_iq_next_ball (r0 r1 : Int) (c : GameContext) :
    steady (flip_iq_next_ball r0 r1 c) = steady c := rfl

@[simp] theorem steady_flip_iq_round_end (tick rnd : Nat → Nat) (s : Run) :
    steady (flip_iq_round_end tick rnd s).ctx = steady s.ctx := by
  unfold flip_iq_round_end
  show steady (flip_iq_next_ball _ _ _) = _
  rw [steady_flip_iq_next_ball]
  show steady (flip_iq_next_round _) = _
  rw [steady_flip_iq_next_round]
  rfl

@[simp] theorem steady_flip_iq_round (tick rnd : Nat → Nat) (s : Run) :
    steady (flip_iq_round tick rnd s).ctx = steady s.ctx := by
  unfold flip_iq_round; split_ifs <;> simp

@[simp] theorem steady_flip_iq_climb (tick rnd : Nat → Nat) (i j : Int) (s : Run) :
    steady (flip_iq_climb tick rnd i j s).ctx = steady s.ctx := rfl

@[simp] theorem steady_flip_iq_stumble (tick rnd : Nat → Nat) (s : Run) :
    steady (flip_iq_stumble tick rnd s).ctx = steady s.ctx := rfl

@[simp] theorem steady_flip_iq_meet (tick rnd : Nat → Nat) (i j : Nat) (s : Run) :
    steady (flip_iq_meet tick rnd i j s).ctx = steady s.ctx := by
  unfold flip_iq_meet; split_ifs <;> simp

@[simp] theorem steady_flip_iq_leave (tick rnd : Nat → Nat) (i j : Nat) (s : Run) :
    steady (flip_iq_leave tick rnd i j s).ctx = steady s.ctx := by
  unfold flip_iq_leave; split_ifs
  · rw [steady_flip_iq_meet]; rfl
  · rfl

@[simp] theorem steady_flip_iq_break (rnd : Nat → Nat) (i j : Nat) (s : Run) :
    steady (flip_iq_break rnd i j s).ctx = steady s.ctx := by
  unfold flip_iq_break; split_ifs <;> rfl

@[simp] theorem steady_flip_iq_slot (tick rnd : Nat → Nat) (m : Int) (i j : Nat) (s : Run) :
    steady (flip_iq_slot tick rnd m i j s).ctx = steady s.ctx := by
  unfold flip_iq_slot; split_ifs
  · rw [steady_flip_iq_leave, steady_flip_iq_break]; rfl
  · rfl

@[simp] theorem steady_flip_iq_balls (tick rnd : Nat → Nat) (m : Int) (s : Run) :
    steady (flip_iq_balls tick rnd m s).ctx = steady s.ctx := by
  unfold flip_iq_balls
  exact for_loop_steady _
    (fun i t => for_loop_steady _ (fun j u => steady_flip_iq_slot tick rnd m i j u) _ t) 5 s

@[simp] theorem steady_flip_iq_spawn (rnd : Nat → Nat) (s : Run) :
    steady (flip_iq_spawn rnd s).ctx = steady s.ctx := by
  unfold flip_iq_spawn flip_iq_spawn_lane
  split_ifs
  · rw [for_loop_break_steady _ (fun j t => by
      unfold flip_iq_spawn_slot; split_ifs <;> rfl)]
    rfl
  · rfl

theorem steady_update_flip_iq (ctx : GameContext) (tick rnd : Nat → Nat) :
    steady (update_flip_iq ctx tick rnd) = steady ctx := by
  unfold update_flip_iq
  split_ifs
  · rfl
  · simp

/-! ### Tectone Sim -/

@[simp] theorem steady_emotion_stamp (tick : Nat → Nat) (s : Run) :
    steady (emotion_stamp tick s).ctx = steady s.ctx := rfl

@[simp] theorem steady_tectone_prop_effect (r0 r1 : Int) (c : GameContext) :
    steady (tectone_prop_effect r0 r1 c) = steady c := by
  unfold tectone_prop_effect; split_ifs <;> rfl

@[simp] theorem steady_tectone_prop (tick rnd : Nat → Nat) (s : Run) :
    steady (tectone_prop tick rnd s).ctx = steady s.ctx := by
  unfold tectone_prop
  show steady (tectone_prop_effect _ _ _) = _
  rw [steady_tectone_prop_effect]; rfl

@[simp] theorem steady_tectone_random_effect (r : Int) (c : GameContext) :
    steady (tectone_random_effect r c) = steady c := by
  unfold tectone_random_effect; split_ifs <;> rfl

@[simp] theorem steady_tectone_random (tick rnd : Nat → Nat) (s : Run) :
    steady (tectone_random tick rnd s).ctx = steady s.ctx := by
  unfold tectone_random; simp

@[simp] theorem steady_tectone_emotion_keys (tick rnd : Nat → Nat) (s : Run) :
    steady (tectone_emotion_keys tick rnd s).ctx = steady s.ctx := by
  unfold tectone_emotion_keys; split_ifs
  · rfl
  · rfl
  · rfl
  · simp
  · simp
  · rfl

@[simp] theorem steady_tectone_emotions (tick rnd : Nat → Nat) (s : Run) :
    steady (tectone_emotions tick rnd s).ctx = steady s.ctx := by
  unfold tectone_emotions; split_ifs <;> simp

@[simp] theorem steady_tectone_anger_bound (rnd : Nat → Nat) (s : Run) :
    steady (tectone_anger_bound rnd s).ctx = steady s.ctx := by
  unfold tectone_anger_bound; split_ifs <;> rfl

@[simp] theorem steady_tectone_based_bound (s : Run) :
    steady (tectone_based_bound s).ctx = steady s.ctx := by
  unfold tectone_based_bound; split_ifs <;> rfl

@[simp] theorem steady_tectone_cuteness_bound (rnd : Nat → Nat) (s : Run) :
    steady (tectone_cuteness_bound rnd s).ctx = steady s.ctx := by
  unfold tectone_cuteness_bound; split_ifs <;> rfl

@[simp] theorem steady_tectone_hide_chat (c : GameContext) :
    steady (tectone_hide_chat c) = steady c := by
  unfold tectone_hide_chat
  apply for_loop_steady_ctx
  intro i t
  rfl

@[simp] theorem steady_tectone_sad_sequence (idx : Int) (c : GameContext) :
    steady (tectone_sad_sequence idx c) = steady c := by
  unfold tectone_sad_sequence; split_ifs
  · rfl
  · rfl
  · rfl
  · rfl
  · simp

@[simp] theorem steady_tectone_sad_bound (rnd : Nat → Nat) (s : Run) :
    steady (tectone_sad_bound rnd s).ctx = steady s.ctx := by
  unfold tectone_sad_bound; split_ifs
  · rfl
  · show steady (tectone_sad_sequence _ _) = _
    rw [steady_tectone_sad_sequence]; rfl
  · rfl

@[simp] theorem steady_tectone_bounds (rnd : Nat → Nat) (s : Run) :
    steady (tectone_bounds rnd s).ctx = steady s.ctx := by
  unfold tectone_bounds; simp

@[simp] theorem steady_tectone_walk (r : Int) (c : GameContext) :
    steady (tectone_walk r c) = steady c := by
  unfold tectone_walk; dsimp only; split_ifs <;> rfl

@[simp] theorem steady_tectone_move (tick rnd : Nat → Nat) (s : Run) :
    steady (tectone_move tick rnd s).ctx = steady s.ctx := by
  unfold tectone_move tectone_step; split_ifs
  · show steady (tectone_walk _ _) = _
    rw [steady_tectone_walk]; rfl
  · rfl

@[simp] theorem steady_tectone_hype_check (tick rnd : Nat → Nat) (st : Statics) (s : Run) :
    steady (tectone_hype_check tick rnd st s).ctx = steady s.ctx := by
  unfold tectone_hype_check; split_ifs <;> rfl

@[simp] theorem steady_tectone_comment_loop (rnd : Nat → Nat) (m : Int) (s : Run) :
    steady (tectone_comment_loop rnd m s).ctx = steady s.ctx := by
  unfold tectone_comment_loop
  exact for_loop_break_steady _ (fun i t => by
    unfold tectone_comment_slot; split_ifs <;> rfl) _ s

@[simp] theorem steady_tectone_comments (tick rnd : Nat → Nat) (m : Int) (st : Statics)
    (s : Run) : steady (tectone_comments tick rnd m st s).1.ctx = steady s.ctx := by
  unfold tectone_comments tectone_comment_stream; split_ifs
  · simp
  · rfl

@[simp] theorem steady_tectone_after_bounds (ctx : GameContext) (tick rnd : Nat → Nat) :
    steady (tectone_after_bounds ctx tick rnd).ctx = steady ctx := by
  unfold tectone_after_bounds; simp

theorem steady_update_tectone_sim (ctx : GameContext) (st : Statics) (tick rnd : Nat → Nat) :
    steady (update_tectone_sim ctx st tick rnd).1 = steady ctx := by
  unfold update_tectone_sim
  split_ifs
  · rfl
  · simp

/-! ### Space Flight -/

@[simp] theorem steady_space_flight_move (m i : Int) (c : GameContext) :
    steady (space_flight_move m i c) = steady c := by
  unfold space_flight_move; dsimp only; split_ifs <;> rfl

@[simp] theorem steady_space_flight_grow (m i : Int) (c : GameContext) :
    steady (space_flight_grow m i c) = steady c := rfl

@[simp] theorem steady_space_flight_take (d : Int) (c : GameContext) :
    steady (space_flight_take d c) = steady c := by
  unfold space_flight_take; split_ifs <;> rfl

@[simp] theorem steady_space_flight_redock (tick rnd : Nat → Nat) (s : Run) :
    steady (space_flight_redock tick rnd s).ctx = steady s.ctx := by
  unfold space_flight_redock; split_ifs <;> rfl

@[simp] theorem steady_space_flight_hit (tick rnd : Nat → Nat) (i : Int) (s : Run) :
    steady (space_flight_hit tick rnd i s).ctx = steady s.ctx := by
  unfold space_flight_hit; split_ifs <;> simp

@[simp] theorem steady_space_flight_cull (i : Int) (c : GameContext) :
    steady (space_flight_cull i c) = steady c := by
  unfold space_flight_cull; split_ifs <;> rfl

@[simp] theorem steady_space_flight_object (tick rnd : Nat → Nat) (m i : Int) (s : Run) :
    steady (space_flight_object tick rnd m i s).ctx = steady s.ctx := by
  unfold space_flight_object; simp

@[simp] theorem steady_space_flight_place (r0 r1 i : Int) (c : GameContext) :
    steady (space_flight_place r0 r1 i c) = steady c := rfl

@[simp] theorem steady_space_flight_pickup_draw (rnd : Nat → Nat) (i : Int) (s : Run) :
    steady (space_flight_pickup_draw rnd i s).ctx = steady s.ctx := by
  unfold space_flight_pickup_draw; split_ifs <;> rfl

@[simp] theorem steady_space_flight_spawn (rnd : Nat → Nat) (i : Int) (s : Run) :
    steady (space_flight_spawn rnd i s).ctx = steady s.ctx := by
  unfold space_flight_spawn; simp

@[simp] theorem steady_space_flight_collect (i : Int) (c : GameContext) :
    steady (space_flight_collect i c) = steady c := by
  unfold space_flight_collect; dsimp only; split_ifs <;> rfl

@[simp] theorem steady_space_flight_pickup (i : Int) (c : GameContext) :
    steady (space_flight_pickup i c) = steady c := by
  unfold space_flight_pickup; split_ifs <;> simp

@[simp] theorem steady_space_flight_slot (tick rnd : Nat → Nat) (m : Int) (i : Nat) (s : Run) :
    steady (space_flight_slot tick rnd m i s).ctx = steady s.ctx := by
  unfold space_flight_slot; split_ifs <;> simp

@[simp] theorem steady_space_flight_objects (tick rnd : Nat → Nat) (m : Int) (s : Run) :
    steady (space_flight_objects tick rnd m s).ctx = steady s.ctx := by
  unfold space_flight_objects
  exact for_loop_steady _ (fun i t => steady_space_flight_slot tick rnd m i t) _ s

@[simp] theorem steady_space_flight_record (c : GameContext) :
    steady (space_flight_record c) = steady c := by
  have h : steady (for_loop 4 (fun i ctx =>
      { ctx with recent_inputs := set1 ctx.recent_inputs i (get1 ctx.recent_inputs (i + 1)) }) c)
      = steady c := by
    apply for_loop_steady_ctx
    intro i t
    rfl
  unfold space_flight_record; dsimp only; split_ifs <;> exact h

@[simp] theorem steady_space_flight_match (tick : Nat → Nat) (s : Run) :
    steady (space_flight_match tick s).ctx = steady s.ctx := by
  unfold space_flight_match space_flight_manoeuvre; split_ifs <;> rfl

@[simp] theorem steady_space_flight_sequences (tick : Nat → Nat) (s : Run) :
    steady (space_flight_sequences tick s).ctx = steady s.ctx := by
  unfold space_flight_sequences; split_ifs <;> simp

theorem steady_update_space_flight (ctx : GameContext) (tick rnd : Nat → Nat) :
    steady (update_space_flight ctx tick rnd) = steady ctx := by
  unfold update_space_flight
  split_ifs
  · rfl
  · simp

/-! ### The timer -/

theorem steady_timer_update (ctx : GameContext) (st : Statics) (tick rnd : Nat → Nat) :
    steady (timer_update ctx st tick rnd).1 = steady ctx := by
  unfold timer_update
  split
  · exact steady_update_zero_hero ctx tick rnd
  · exact steady_update_flip_zip ctx tick rnd
  · exact steady_update_line_car ctx tick rnd
  · exact steady_update_flip_iq ctx tick rnd
  · exact steady_update_tectone_sim ctx st tick rnd
  · exact steady_update_space_flight ctx tick rnd
  all_goals rfl

theorem timer_update_outside_game (ctx : GameContext) (st : Statics) (tick rnd : Nat → Nat)
    (h : ¬ is_game_state ctx.state) : timer_update ctx st tick rnd = (ctx, st) := by
  unfold timer_update
  unfold is_game_state at h
  split <;> first | rfl | (exfalso; apply h; simp [*])

theorem notification_decay_frame_counter (now : Nat) (ctx : GameContext) :
    (notification_decay now ctx).frame_counter = ctx.frame_counter := by
  unfold notification_decay notification_scroll; split_ifs <;> rfl

theorem timer_phase_frame_counter (ctx : GameContext) (st : Statics) (tick rnd : Nat → Nat) :
    (timer_phase ctx st tick rnd).1.frame_counter = ctx.frame_counter := by
  unfold timer_phase
  split_ifs
  · rfl
  · exact notification_decay_frame_counter _ ctx
  · exact congrArg Steady.frame_counter (steady_timer_update ctx st _ rnd)
  · rfl

theorem timer_tail_frame_counter (now : Nat) (p : GameContext × Statics) :
    (timer_credits now (timer_day_night now p.1, p.2)).1.frame_counter = p.1.frame_counter := by
  unfold timer_credits credits_over credits_scroll timer_day_night
  split_ifs <;> rfl

theorem timer_callback_frame_counter (ctx : GameContext) (st : Statics) (tick rnd : Nat → Nat) :
    (timer_callback ctx st tick rnd).1.frame_counter = (ctx.frame_counter + 1) % 3 := by
  unfold timer_callback
  rw [timer_tail_frame_counter (furi_get_tick tick 0) (timer_phase (advance_frame ctx) st tick rnd),
    timer_phase_frame_counter]
  rfl

/-! ## The rate limit of the update functions -/

theorem gate_threshold (fps : Int) (h : 22 ≤ fps) :
    toU32 (Int.tdiv 1000 fps) = 1000 / fps.toNat := by
  obtain ⟨n, rfl⟩ := Int.eq_ofNat_of_zero_le (by omega : 0 ≤ fps)
  have e : Int.tdiv 1000 (n : Int) = ((1000 / n : Nat) : Int) := rfl
  have hle : 1000 / n ≤ 1000 := Nat.div_le_self _ _
  unfold toU32
  rw [e, Int.toNat_ofNat]
  generalize 1000 / n = q at hle ⊢
  omega

theorem speed_fps_eq (ctx : GameContext) :
    speed_fps ctx = 22 + (if ctx.speed_bpm ≤ 0 then 0 else ctx.speed_bpm / 10) := by
  unfold speed_fps FPS_BASE
  split_ifs with h1 h2 h2
  · omega
  · rw [Int.tdiv_eq_ediv (by omega) (by decide)]
  · rfl
  · omega

theorem speed_fps_ge (ctx : GameContext) : 22 ≤ speed_fps ctx := by
  rw [speed_fps_eq]
  split_ifs <;> omega

theorem zero_hero_fps_eq (ctx : GameContext) : zero_hero_fps ctx = 22 + 5 * ctx.difficulty := by
  unfold zero_hero_fps FPS_BASE; ring

/-- C17. Each of the six update functions returns the context (and the
statics) unchanged when the unsigned 32-bit difference between the clock and
`last_ai_update` is below `1000 div fps`, where `fps` is `22 + 5 * difficulty`
for Zero Hero and `22 + speed_bpm / 10` (22 when `speed_bpm <= 0`) for the
other five; `fps` is at least 22 (for Zero Hero, with a difficulty that is
not negative), so the division is never by zero. -/
theorem updates_rate_limited (ctx : GameContext) (st : Statics) (tick rnd : Nat → Nat)
    (hd : 0 ≤ ctx.difficulty) :
    zero_hero_fps ctx = 22 + 5 * ctx.difficulty ∧
    speed_fps ctx = 22 + (if ctx.speed_bpm ≤ 0 then 0 else ctx.speed_bpm / 10) ∧
    22 ≤ zero_hero_fps ctx ∧ 22 ≤ speed_fps ctx ∧
    (sub32 (furi_get_tick tick 0) ctx.last_ai_update < 1000 / (zero_hero_fps ctx).toNat →
      update_zero_hero ctx tick rnd = ctx) ∧
    (sub32 (furi_get_tick tick 0) ctx.last_ai_update < 1000 / (speed_fps ctx).toNat →
      update_flip_zip ctx tick rnd = ctx ∧ update_line_car ctx tick rnd = ctx ∧
      update_flip_iq ctx tick rnd = ctx ∧ update_tectone_sim ctx st tick rnd = (ctx, st) ∧
      update_space_flight ctx tick rnd = ctx) := by
  have hz : 22 ≤ zero_hero_fps ctx := by rw [zero_hero_fps_eq]; omega
  refine ⟨zero_hero_fps_eq ctx, speed_fps_eq ctx, hz, speed_fps_ge ctx, ?_, ?_⟩
  · intro h
    have hr : rate_limited ctx (zero_hero_fps ctx) tick := by
      unfold rate_limited; rw [gate_threshold _ hz]; exact h
    unfold update_zero_hero; rw [if_pos hr]
  · intro h
    have hr : rate_limited ctx (speed_fps ctx) tick := by
      unfold rate_limited; rw [gate_threshold _ (speed_fps_ge ctx)]; exact h
    refine ⟨?_, ?_, ?_, ?_, ?_⟩
    · unfold update_flip_zip; rw [if_pos hr]
    · unfold update_line_car; rw [if_pos hr]
    · unfold update_flip_iq; rw [if_pos hr]
    · unfold update_tectone_sim; rw [if_pos hr]
    · unfold update_space_flight; rw [if_pos hr]

/-- Witness of C17: 20 ms after the last update, at speed 60. -/
theorem updates_rate_limited_witness :
    0 ≤ gate_example.difficulty ∧
    sub32 (furi_get_tick clock_1020 0) gate_example.last_ai_update <
      1000 / (zero_hero_fps gate_example).toNat ∧
    sub32 (furi_get_tick clock_1020 0) gate_example.last_ai_update <
      1000 / (speed_fps gate_example).toNat ∧
    update_zero_hero gate_example clock_1020 rand_zero = gate_example ∧
    update_tectone_sim gate_example initial_statics clock_1020 rand_zero =
      (gate_example, initial_statics) :=
  ⟨by decide, by decide, by decide,
   (updates_rate_limited gate_example initial_statics clock_1020 rand_zero
      (by decide)).2.2.2.2.1 (by decide),
   ((updates_rate_limited gate_example initial_statics clock_1020 rand_zero
      (by decide)).2.2.2.2.2 (by decide)).2.2.2.1⟩

/-! ## The phases of the timer -/

theorem timer_outside_game_frame (ctx : GameContext) (st : Statics) (now : Nat)
    (c : GameContext)
    (hc : c = { ctx with
      frame_counter := c.frame_counter
      notification_text := c.notification_text
      notification_x := c.notification_x }) :
    (timer_credits now (timer_day_night now c, st)).1 =
      { ctx with
        frame_counter := (timer_credits now (timer_day_night now c, st)).1.frame_counter
        notification_text := (timer_credits now (timer_day_night now c, st)).1.notification_text
        notification_x := (timer_credits now (timer_day_night now c, st)).1.notification_x
        is_day := (timer_credits now (timer_day_night now c, st)).1.is_day
        day_night_toggle_time :=
          (timer_credits now (timer_day_night now c, st)).1.day_night_toggle_time
        credits_y := (timer_credits now (timer_day_night now c, st)).1.credits_y
        should_exit := (timer_credits now (timer_day_night now c, st)).1.should_exit } := by
  generalize hr : (timer_credits now (timer_day_night now c, st)).1 = r
  have h1 : r = { c with
      is_day := r.is_day
      day_night_toggle_time := r.day_night_toggle_time
      credits_y := r.credits_y
      should_exit := r.should_exit } := by
    rw [← hr]
    unfold timer_credits credits_over credits_scroll timer_day_night
    split_ifs <;> rfl
  rw [h1, hc]

theorem notification_decay_frame (now : Nat) (ctx : GameContext) :
    notification_decay now ctx =
      { ctx with
        notification_text := (notification_decay now ctx).notification_text
        notification_x := (notification_decay now ctx).notification_x } := by
  unfold notification_decay notification_scroll
  split_ifs <;> rfl

theorem timer_phase_outside_game_frame (ctx : GameContext) (st : Statics) (tick rnd : Nat → Nat)
    (h : ¬ is_game_state ctx.state) :
    (timer_phase (advance_frame ctx) st tick rnd).1 =
      { ctx with
        frame_counter := (timer_phase (advance_frame ctx) st tick rnd).1.frame_counter
        notification_text := (timer_phase (advance_frame ctx) st tick rnd).1.notification_text
        notification_x := (timer_phase (advance_frame ctx) st tick rnd).1.notification_x } := by
  unfold timer_phase
  split_ifs
  · rfl
  · show notification_decay _ (advance_frame ctx) = _
    rw [notification_decay_frame]
    rfl
  · rw [timer_update_outside_game (advance_frame ctx) st _ rnd h]
    rfl
  · rfl

/-- C18. The function `timer_callback` sets `frame_counter` to
`(frame_counter + 1) mod 3`, which is below 3.  When the new counter is 0 no
phase action runs, when it is 1 the notification decay runs, when it is 2 the
update function of the current game state runs (none in Loading, Title,
Rotate, Pause and Credits); the day and night flag and the credits follow in
every phase.  In a state that is not a game the invocation changes no field
other than `frame_counter`, the notification text and position, the day and
night flag with its deadline, `credits_y` and `should_exit`. -/
theorem timer_callback_phases (ctx : GameContext) (st : Statics) (tick rnd : Nat → Nat) :
    (timer_callback ctx st tick rnd).1.frame_counter = (ctx.frame_counter + 1) % 3 ∧
    (timer_callback ctx st tick rnd).1.frame_counter < 3 ∧
    ((ctx.frame_counter + 1) % 3 = 0 →
      timer_callback ctx st tick rnd =
        timer_credits (furi_get_tick tick 0)
          (timer_day_night (furi_get_tick tick 0) (advance_frame ctx), st)) ∧
    ((ctx.frame_counter + 1) % 3 = 1 →
      timer_callback ctx st tick rnd =
        timer_credits (furi_get_tick tick 0)
          (timer_day_night (furi_get_tick tick 0)
            (notification_decay (furi_get_tick tick 0) (advance_frame ctx)), st)) ∧
    ((ctx.frame_counter + 1) % 3 = 2 →
      timer_callback ctx st tick rnd =
        timer_credits (furi_get_tick tick 0)
          (timer_day_night (furi_get_tick tick 0)
            (timer_update (advance_frame ctx) st (fun k => tick (k + 1)) rnd).1,
           (timer_update (advance_frame ctx) st (fun k => tick (k + 1)) rnd).2)) ∧
    (∀ (c : GameContext) (t : Nat → Nat),
      (c.state = GameState.ZERO_HERO → timer_update c st t rnd = (update_zero_hero c t rnd, st)) ∧
      (c.state = GameState.FLIP_ZIP → timer_update c st t rnd = (update_flip_zip c t rnd, st)) ∧
      (c.state = GameState.LINE_CAR → timer_update c st t rnd = (update_line_car c t rnd, st)) ∧
      (c.state = GameState.FLIP_IQ → timer_update c st t rnd = (update_flip_iq c t rnd, st)) ∧
      (c.state = GameState.TECTONE_SIM →
        timer_update c st t rnd = update_tectone_sim c st t rnd) ∧
      (c.state = GameState.SPACE_FLIGHT →
        timer_update c st t rnd = (update_space_flight c t rnd, st)) ∧
      (¬ is_game_state c.state → timer_update c st t rnd = (c, st))) ∧
    (¬ is_game_state ctx.state →
      (timer_callback ctx st tick rnd).1 =
        { ctx with
          frame_counter := (timer_callback ctx st tick rnd).1.frame_counter
          notification_text := (timer_callback ctx st tick rnd).1.notification_text
          notification_x := (timer_callback ctx st tick rnd).1.notification_x
          is_day := (timer_callback ctx st tick rnd).1.is_day
          day_night_toggle_time := (timer_callback ctx st tick rnd).1.day_night_toggle_time
          credits_y := (timer_callback ctx st tick rnd).1.credits_y
          should_exit := (timer_callback ctx st tick rnd).1.should_exit }) := by
  have hf := timer_callback_frame_counter ctx st tick rnd
  have hp : (advance_frame ctx).frame_counter = (ctx.frame_counter + 1) % 3 := rfl
  refine ⟨hf, ?_, ?_, ?_, ?_, ?_, ?_⟩
  · rw [hf]; exact Nat.mod_lt _ (by decide)
  · intro h
    unfold timer_callback timer_phase
    rw [if_pos (hp.trans h)]
  · intro h
    unfold timer_callback timer_phase
    rw [if_neg (by rw [hp, h]; decide), if_pos (hp.trans h)]
  · intro h
    unfold timer_callback timer_phase
    rw [if_neg (by rw [hp, h]; decide), if_neg (by rw [hp, h]; decide), if_pos (hp.trans h)]
  · intro c t
    refine ⟨?_, ?_, ?_, ?_, ?_, ?_, timer_update_outside_game c st t rnd⟩ <;>
      (intro h; unfold timer_update; rw [h])
  · intro h
    unfold timer_callback
    exact timer_outside_game_frame ctx _ _ _ (timer_phase_outside_game_frame ctx st tick rnd h)

/-! ## Notification decay -/

theorem timer_tail_notification (now : Nat) (p : GameContext × Statics) :
    (timer_credits now (timer_day_night now p.1, p.2)).1.notification_text =
      p.1.notification_text ∧
    (timer_credits now (timer_day_night now p.1, p.2)).1.notification_x = p.1.notification_x := by
  unfold timer_credits credits_over credits_scroll timer_day_night
  split_ifs <;> exact ⟨rfl, rfl⟩

theorem timer_callback_phase_one (ctx : GameContext) (st : Statics) (tick rnd : Nat → Nat)
    (hp : (ctx.frame_counter + 1) % 3 = 1) :
    (timer_callback ctx st tick rnd).1.notification_text =
      (notification_decay (furi_get_tick tick 0) (advance_frame ctx)).notification_text ∧
    (timer_callback ctx st tick rnd).1.notification_x =
      (notification_decay (furi_get_tick tick 0) (advance_frame ctx)).notification_x := by
  have e : timer_phase (advance_frame ctx) st tick rnd =
      (notification_decay (furi_get_tick tick 0) (advance_frame ctx), st) := by
    unfold timer_phase
    have hq : (advance_frame ctx).frame_counter = 1 := hp
    rw [if_neg (by rw [hq]; decide), if_pos hq]
  unfold timer_callback
  rw [e]
  exact timer_tail_notification _ (_, st)

theorem text_width_eq (ctx : GameContext) (hl : ctx.notification_text.length ≤ 31) :
    text_width ctx = 6 * (ctx.notification_text.length : Int) := by
  unfold text_width toInt32
  split_ifs <;> omega

theorem scroll_start_eq (ctx : GameContext) (elapsed : Nat)
    (hl : ctx.notification_text.length ≤ 31) (he : elapsed < 1500) :
    scroll_start ctx elapsed =
      (64 - 6 * (ctx.notification_text.length : Int)) / 2 -
        ((elapsed : Int) * (6 * (ctx.notification_text.length : Int))) / 1500 ∧
    ((elapsed : Int) * (6 * (ctx.notification_text.length : Int))) / 1500 ≤
      6 * (ctx.notification_text.length : Int) := by
  unfold scroll_start
  rw [text_width_eq ctx hl]
  generalize ctx.notification_text.length = len at hl ⊢
  have hb : Int.tdiv (PORTRAIT_WIDTH - 6 * (len : Int)) 2 = 32 - 3 * (len : Int) := by
    have : PORTRAIT_WIDTH - 6 * (len : Int) = 2 * (32 - 3 * (len : Int)) := by
      unfold PORTRAIT_WIDTH; ring
    rw [this, Int.mul_tdiv_cancel_left _ (by decide)]
  have hw : toU32 (6 * (len : Int)) = 6 * len := by unfold toU32; omega
  have hP : elapsed * (6 * len) ≤ 1499 * (6 * len) := Nat.mul_le_mul_right _ (by omega)
  have hc : (elapsed : Int) * (6 * (len : Int)) = ((elapsed * (6 * len) : Nat) : Int) := by
    push_cast; ring
  rw [hb, hw, hc]
  generalize elapsed * (6 * len) = P at hP ⊢
  have hm : P % 4294967296 = P := Nat.mod_eq_of_lt (by omega)
  rw [hm]
  unfold NOTIFICATION_MS toInt32 sub32 toU32
  constructor
  · split_ifs <;> omega
  · omega

/-- C19. On a phase-1 tick with a non-empty notification (of at most 31
characters, as the 32-byte buffer holds): with `note_q_a = 0`, once
`elapsed = now - last_notification_time` has reached 1500 the text is cleared
and `notification_x` is 0; before that the text stays and `notification_x`
becomes `(64 - w)/2 - (elapsed*w)/1500` with `w = 6 * length`, plus `w` when
that value is below `-w`, a result that is at least `-w`; with
`note_q_a != 0` the text and `notification_x` stay as they are. -/
theorem notification_decay_on_phase_one (ctx : GameContext) (st : Statics)
    (tick rnd : Nat → Nat) (w e : Int)
    (hp : (ctx.frame_counter + 1) % 3 = 1)
    (ht : ctx.notification_text ≠ "")
    (hl : ctx.notification_text.length ≤ 31)
    (hw : w = 6 * (ctx.notification_text.length : Int))
    (he : e = (sub32 (furi_get_tick tick 0) ctx.last_notification_time : Nat)) :
    (ctx.note_q_a = 0 → 1500 ≤ e →
      (timer_callback ctx st tick rnd).1.notification_text = "" ∧
      (timer_callback ctx st tick rnd).1.notification_x = 0) ∧
    (ctx.note_q_a = 0 → e < 1500 →
      (timer_callback ctx st tick rnd).1.notification_text = ctx.notification_text ∧
      (timer_callback ctx st tick rnd).1.notification_x =
        (if (64 - w) / 2 - (e * w) / 1500 < -w then (64 - w) / 2 - (e * w) / 1500 + w
         else (64 - w) / 2 - (e * w) / 1500) ∧
      -w ≤ (timer_callback ctx st tick rnd).1.notification_x) ∧
    (ctx.note_q_a ≠ 0 →
      (timer_callback ctx st tick rnd).1.notification_text = ctx.notification_text ∧
      (timer_callback ctx st tick rnd).1.notification_x = ctx.notification_x) := by
  obtain ⟨h1, h2⟩ := timer_callback_phase_one ctx st tick rnd hp
  rw [h1, h2]
  have ht2 : (advance_frame ctx).notification_text ≠ "" := ht
  refine ⟨?_, ?_, ?_⟩
  · intro hq hge
    have hq2 : (advance_frame ctx).note_q_a = 0 := hq
    have hn : ¬ sub32 (furi_get_tick tick 0) (advance_frame ctx).last_notification_time <
        NOTIFICATION_MS := by
      show ¬ sub32 (furi_get_tick tick 0) ctx.last_notification_time < 1500
      omega
    unfold notification_decay
    rw [if_pos ⟨ht2, hq2⟩, if_neg hn]
    exact ⟨rfl, rfl⟩
  · intro hq hlt
    have hq2 : (advance_frame ctx).note_q_a = 0 := hq
    have hlt2 : sub32 (furi_get_tick tick 0) ctx.last_notification_time < 1500 := by omega
    have hn : sub32 (furi_get_tick tick 0) (advance_frame ctx).last_notification_time <
        NOTIFICATION_MS := hlt2
    obtain ⟨hs, hb⟩ := scroll_start_eq (advance_frame ctx)
      (sub32 (furi_get_tick tick 0) ctx.last_notification_time) hl hlt2
    have hs2 : scroll_start (advance_frame ctx)
        (sub32 (furi_get_tick tick 0) (advance_frame ctx).last_notification_time) =
        (64 - w) / 2 - (e * w) / 1500 := by rw [hw, he]; exact hs
    have hb2 : (e * w) / 1500 ≤ w := by rw [hw, he]; exact hb
    have hwt : text_width (advance_frame ctx) = w := by rw [hw]; exact text_width_eq _ hl
    unfold notification_decay notification_scroll
    rw [if_pos ⟨ht2, hq2⟩, if_pos hn, hs2, hwt]
    generalize (e * w) / 1500 = q at hb2 ⊢
    have hw0 : 0 ≤ w := by omega
    split_ifs with hc
    · refine ⟨rfl, rfl, ?_⟩
      show -w ≤ (64 - w) / 2 - q + w
      omega
    · refine ⟨rfl, rfl, ?_⟩
      show -w ≤ (64 - w) / 2 - q
      omega
  · intro hq
    have hq2 : ¬ ((advance_frame ctx).notification_text ≠ "" ∧ (advance_frame ctx).note_q_a = 0) :=
      fun h => hq h.2
    unfold notification_decay
    rw [if_neg hq2]
    exact ⟨rfl, rfl⟩

/-- Witness of C19: the notification "Hi!" 20 ms after it was raised. -/
theorem notification_decay_on_phase_one_witness :
    (decay_example.frame_counter + 1) % 3 = 1 ∧ decay_example.notification_text ≠ "" ∧
    decay_example.note_q_a = 0 ∧
    (timer_callback decay_example initial_statics clock_1020 rand_zero).1.notification_x = 23 ∧
    -18 ≤ (timer_callback decay_example initial_statics clock_1020 rand_zero).1.notification_x :=
  ⟨by decide, by decide, by decide,
   ((notification_decay_on_phase_one decay_example initial_statics clock_1020 rand_zero 18 20
      (by decide) (by decide) (by decide) (by decide) (by decide)).2.1
        (by decide) (by decide)).2.1,
   ((notification_decay_on_phase_one decay_example initial_statics clock_1020 rand_zero 18 20
      (by decide) (by decide) (by decide) (by decide) (by decide)).2.1
        (by decide) (by decide)).2.2⟩

/-! ## The emotion meters of Tectone Sim -/

theorem clamp_emotion_bounds (x : Int) : 0 ≤ clamp_emotion x ∧ clamp_emotion x ≤ 9 := by
  unfold clamp_emotion; split_ifs <;> omega

theorem tectone_prop_effect_bounded (r0 r1 : Int) (c : GameContext) (h : emotions_bounded c) :
    emotions_bounded (tectone_prop_effect r0 r1 c) := by
  obtain ⟨ha, hb, hc, hs⟩ := h
  unfold tectone_prop_effect
  split_ifs
  · exact ⟨clamp_emotion_bounds _, hb, hc, hs⟩
  · exact ⟨ha, clamp_emotion_bounds _, hc, hs⟩
  · exact ⟨ha, hb, clamp_emotion_bounds _, hs⟩

theorem tectone_random_effect_bounded (r : Int) (c : GameContext) (h : emotions_bounded c) :
    emotions_bounded (tectone_random_effect r c) := by
  obtain ⟨ha, hb, hc, hs⟩ := h
  unfold tectone_random_effect
  split_ifs
  · refine ⟨?_, hb, hc, hs⟩
    show 0 ≤ c.anger + 1 ∧ c.anger + 1 ≤ 9
    omega
  · exact ⟨⟨by show 0 ≤ c.anger + 0; omega, by show c.anger + 0 ≤ 9; omega⟩, hb, hc, hs⟩
  · refine ⟨ha, ?_, hc, hs⟩
    show 0 ≤ c.based + 1 ∧ c.based + 1 ≤ 9
    omega
  · exact ⟨ha, ⟨by show 0 ≤ c.based + 0; omega, by show c.based + 0 ≤ 9; omega⟩, hc, hs⟩
  · refine ⟨ha, hb, ?_, hs⟩
    show 0 ≤ c.cuteness + 1 ∧ c.cuteness + 1 ≤ 9
    omega
  · exact ⟨ha, hb, ⟨by show 0 ≤ c.cuteness + 0; omega, by show c.cuteness + 0 ≤ 9; omega⟩, hs⟩
  · refine ⟨ha, hb, hc, ?_⟩
    show 0 ≤ c.sad + 1 ∧ c.sad + 1 ≤ 9
    omega
  · exact ⟨ha, hb, hc, ⟨by show 0 ≤ c.sad + 0; omega, by show c.sad + 0 ≤ 9; omega⟩⟩

theorem tectone_emotion_keys_bounded (tick rnd : Nat → Nat) (s : Run)
    (h : emotions_bounded s.ctx) : emotions_bounded (tectone_emotion_keys tick rnd s).ctx := by
  have h0 := h
  obtain ⟨ha, hb, hc, hs⟩ := h
  unfold tectone_emotion_keys
  split_ifs with h1 h2 h3 h4 h5
  · refine ⟨?_, hb, hc, hs⟩
    show 0 ≤ s.ctx.anger + 1 ∧ s.ctx.anger + 1 ≤ 9
    omega
  · refine ⟨ha, ?_, hc, hs⟩
    show 0 ≤ s.ctx.based + 1 ∧ s.ctx.based + 1 ≤ 9
    omega
  · refine ⟨ha, hb, ?_, hs⟩
    show 0 ≤ s.ctx.cuteness + 1 ∧ s.ctx.cuteness + 1 ≤ 9
    omega
  · exact tectone_prop_effect_bounded _ _ _ h0
  · exact tectone_random_effect_bounded (s.rand rnd) s.ctx h0
  · exact h0

theorem tectone_emotions_bounded (tick rnd : Nat → Nat) (s : Run)
    (h : emotions_bounded s.ctx) : emotions_bounded (tectone_emotions tick rnd s).ctx := by
  unfold tectone_emotions
  split_ifs
  · exact tectone_emotion_keys_bounded tick rnd s.read h
  · exact h

theorem tectone_sad_sequence_emotions (idx : Int) (c : GameContext) :
    emotions (tectone_sad_sequence idx c) = emotions c := by
  unfold tectone_sad_sequence tectone_hide_chat
  split_ifs
  · rfl
  · rfl
  · rfl
  · rfl
  · apply for_loop_inv (fun t : GameContext => emotions t = emotions c)
    · intro i t ht; exact ht
    · rfl

theorem tectone_bounds_bounded (rnd : Nat → Nat) (s : Run) (h : emotions_bounded s.ctx) :
    emotions_bounded (tectone_bounds rnd s).ctx := by
  obtain ⟨ha, hb, hc, hs⟩ := h
  unfold tectone_bounds
  have k5 : (1 : Int) ≤ 5 ∧ (5 : Int) ≤ 8 := by decide
  have k7 : (1 : Int) ≤ 7 ∧ (7 : Int) ≤ 8 := by decide
  have k3 : (0 : Int) ≤ 3 ∧ (3 : Int) ≤ 9 := by decide
  have k3' : (1 : Int) ≤ 3 ∧ (3 : Int) ≤ 8 := by decide
  have k4 : (0 : Int) ≤ 4 ∧ (4 : Int) ≤ 9 := by decide
  have h1 : (1 ≤ (tectone_anger_bound rnd s).ctx.anger ∧ (tectone_anger_bound rnd s).ctx.anger ≤ 8) ∧
      (tectone_anger_bound rnd s).ctx.based = s.ctx.based ∧
      (0 ≤ (tectone_anger_bound rnd s).ctx.cuteness ∧ (tectone_anger_bound rnd s).ctx.cuteness ≤ 9) ∧
      (tectone_anger_bound rnd s).ctx.sad = s.ctx.sad := by
    unfold tectone_anger_bound
    split_ifs with c1 c2 c3
    · exact ⟨k5, rfl, k3, rfl⟩
    · exact ⟨k5, rfl, k3, rfl⟩
    · exact ⟨k5, rfl, k3, rfl⟩
    · exact ⟨by omega, rfl, hc, rfl⟩
  generalize tectone_anger_bound rnd s = s1 at h1 ⊢
  obtain ⟨ha1, hb1, hc1, hs1⟩ := h1
  rw [← hb1] at hb
  rw [← hs1] at hs
  have h2 : (tectone_based_bound s1).ctx.anger = s1.ctx.anger ∧
      (1 ≤ (tectone_based_bound s1).ctx.based ∧ (tectone_based_bound s1).ctx.based ≤ 8) ∧
      (tectone_based_bound s1).ctx.cuteness = s1.ctx.cuteness ∧
      (0 ≤ (tectone_based_bound s1).ctx.sad ∧ (tectone_based_bound s1).ctx.sad ≤ 9) := by
    unfold tectone_based_bound
    split_ifs with c1 c2
    · exact ⟨rfl, k7, rfl, k4⟩
    · exact ⟨rfl, k7, rfl, k4⟩
    · exact ⟨rfl, by omega, rfl, hs⟩
  generalize tectone_based_bound s1 = s2 at h2 ⊢
  obtain ⟨ha2, hb2, hc2, hs2⟩ := h2
  rw [← ha2] at ha1
  rw [← hc2] at hc1
  have h3 : (tectone_cuteness_bound rnd s2).ctx.anger = s2.ctx.anger ∧
      (1 ≤ (tectone_cuteness_bound rnd s2).ctx.based ∧
        (tectone_cuteness_bound rnd s2).ctx.based ≤ 9) ∧
      (1 ≤ (tectone_cuteness_bound rnd s2).ctx.cuteness ∧
        (tectone_cuteness_bound rnd s2).ctx.cuteness ≤ 8) ∧
      (tectone_cuteness_bound rnd s2).ctx.sad = s2.ctx.sad := by
    unfold tectone_cuteness_bound
    split_ifs with c1 c2 c3
    · refine ⟨rfl, ?_, k3', rfl⟩
      show 1 ≤ s2.ctx.based + 1 ∧ s2.ctx.based + 1 ≤ 9
      omega
    · refine ⟨rfl, ?_, k3', rfl⟩
      show 1 ≤ s2.ctx.based + 1 ∧ s2.ctx.based + 1 ≤ 9
      omega
    · refine ⟨rfl, ?_, k3', rfl⟩
      show 1 ≤ s2.ctx.based + 1 ∧ s2.ctx.based + 1 ≤ 9
      omega
    · exact ⟨rfl, by omega, by omega, rfl⟩
  generalize tectone_cuteness_bound rnd s2 = s3 at h3 ⊢
  obtain ⟨ha3, hb3, hc3, hs3⟩ := h3
  rw [← ha3] at ha1
  rw [← hs3] at hs2
  have h4 : emotions_bounded (tectone_sad_bound rnd s3).ctx := by
    unfold tectone_sad_bound
    split_ifs with c1 c2
    · refine ⟨?_, ?_, ?_, k4⟩
      · show 0 ≤ s3.ctx.anger + 1 ∧ s3.ctx.anger + 1 ≤ 9
        omega
      · show 0 ≤ s3.ctx.based ∧ s3.ctx.based ≤ 9
        omega
      · show 0 ≤ s3.ctx.cuteness ∧ s3.ctx.cuteness ≤ 9
        omega
    · have e := tectone_sad_sequence_emotions (Int.tmod (s3.rand rnd) 5)
        { s3.ctx with anger := s3.ctx.anger + 1, sad := 4 }
      have e1 := congrArg (fun p : Int × Int × Int × Int => p.1) e
      have e2 := congrArg (fun p : Int × Int × Int × Int => p.2.1) e
      have e3 := congrArg (fun p : Int × Int × Int × Int => p.2.2.1) e
      have e4 := congrArg (fun p : Int × Int × Int × Int => p.2.2.2) e
      refine ⟨?_, ?_, ?_, ?_⟩
      · show 0 ≤ (tectone_sad_sequence _ _).anger ∧ (tectone_sad_sequence _ _).anger ≤ 9
        rw [show (tectone_sad_sequence (Int.tmod (s3.rand rnd) 5)
          { s3.ctx with anger := s3.ctx.anger + 1, sad := 4 }).anger = s3.ctx.anger + 1 from e1]
        omega
      · show 0 ≤ (tectone_sad_sequence _ _).based ∧ (tectone_sad_sequence _ _).based ≤ 9
        rw [show (tectone_sad_sequence (Int.tmod (s3.rand rnd) 5)
          { s3.ctx with anger := s3.ctx.anger + 1, sad := 4 }).based = s3.ctx.based from e2]
        omega
      · show 0 ≤ (tectone_sad_sequence _ _).cuteness ∧ (tectone_sad_sequence _ _).cuteness ≤ 9
        rw [show (tectone_sad_sequence (Int.tmod (s3.rand rnd) 5)
          { s3.ctx with anger := s3.ctx.anger + 1, sad := 4 }).cuteness = s3.ctx.cuteness from e3]
        omega
      · show 0 ≤ (tectone_sad_sequence _ _).sad ∧ (tectone_sad_sequence _ _).sad ≤ 9
        rw [show (tectone_sad_sequence (Int.tmod (s3.rand rnd) 5)
          { s3.ctx with anger := s3.ctx.anger + 1, sad := 4 }).sad = 4 from e4]
        exact k4
    · exact ⟨by omega, by omega, by omega, by omega⟩
  exact h4

theorem tectone_move_emotions (tick rnd : Nat → Nat) (s : Run) :
    emotions (tectone_move tick rnd s).ctx = emotions s.ctx := by
  unfold tectone_move tectone_step
  split_ifs
  · show emotions { tectone_walk _ _ with last_move_time := _ } = _
    unfold tectone_walk; dsimp only; split_ifs <;> rfl
  · rfl

theorem tectone_comment_slot_emotions (rnd : Nat → Nat) (m : Int) (i : Nat) (t : Run) :
    emotions (tectone_comment_slot rnd m i t).1.ctx = emotions t.ctx := by
  unfold tectone_comment_slot; split_ifs <;> rfl

theorem tectone_comments_emotions (tick rnd : Nat → Nat) (m : Int) (st : Statics) (s : Run) :
    emotions (tectone_comments tick rnd m st s).1.ctx = emotions s.ctx := by
  unfold tectone_comments tectone_comment_stream tectone_comment_loop
  split_ifs
  · have h := for_loop_break_inv
      (fun t : Run => emotions t.ctx = emotions s.ctx)
      (fun i t => tectone_comment_slot rnd m i t)
      (fun i t ht => (tectone_comment_slot_emotions rnd m i t).trans ht) WORLD_OBJ_LIMIT
      (tectone_hype_check tick rnd (count_side (Int.tmod (s.read.rand rnd) 2) st) s.read.drawn)
      (by unfold tectone_hype_check tectone_hype; split_ifs <;> rfl)
    exact h
  · rfl

theorem emotions_bounded_of_eq (c d : GameContext) (h : emotions c = emotions d)
    (hd : emotions_bounded d) : emotions_bounded c := by
  have e1 : c.anger = d.anger := congrArg (fun p : Int × Int × Int × Int => p.1) h
  have e2 : c.based = d.based := congrArg (fun p : Int × Int × Int × Int => p.2.1) h
  have e3 : c.cuteness = d.cuteness := congrArg (fun p : Int × Int × Int × Int => p.2.2.1) h
  have e4 : c.sad = d.sad := congrArg (fun p : Int × Int × Int × Int => p.2.2.2) h
  unfold emotions_bounded
  rw [e1, e2, e3, e4]
  exact hd

/-- C20. If anger, based, cuteness and sad are each in [0,9] before
`update_tectone_sim`, each of them is in [0,9] after it, whatever is held,
whatever the clock reads and whatever `rand()` returns. -/
theorem update_tectone_sim_emotions_bounded (ctx : GameContext) (st : Statics)
    (tick rnd : Nat → Nat) (h : emotions_bounded ctx) :
    emotions_bounded (update_tectone_sim ctx st tick rnd).1 := by
  unfold update_tectone_sim
  split_ifs
  · exact h
  · apply emotions_bounded_of_eq _ _ (tectone_comments_emotions _ _ _ _ _)
    apply emotions_bounded_of_eq _ _ (tectone_move_emotions _ _ _)
    unfold tectone_after_bounds
    apply tectone_bounds_bounded
    apply tectone_emotions_bounded
    exact h

/-- Witness of C20: the meters as the Rotate set-up leaves them, 5, 7, 3, 4. -/
theorem update_tectone_sim_emotions_bounded_witness :
    emotions (init_tectone_sim zero_context 0) = (5, 7, 3, 4) ∧
    emotions_bounded (init_tectone_sim zero_context 0) ∧
    emotions_bounded
      (update_tectone_sim (init_tectone_sim zero_context 0) initial_statics clock_1020
        rand_zero).1 :=
  ⟨by decide, by decide,
   update_tectone_sim_emotions_bounded (init_tectone_sim zero_context 0) initial_statics
     clock_1020 rand_zero (by decide)⟩

/-! ## The score has no overflow pair -/

/-- C13, the code at the failing input: one hit in Zero Hero from score 9998
and streak 9998. The streak wraps to 0 and `oflow` becomes 1, while the score
becomes 9999 and `score_oflow` stays 0. -/
theorem score_passes_threshold_without_wrap :
    (update_zero_hero score_example clock_1020 rand_zero).score = 9999 ∧
    (update_zero_hero score_example clock_1020 rand_zero).score_oflow = 0 ∧
    (update_zero_hero score_example clock_1020 rand_zero).streak = 0 ∧
    (update_zero_hero score_example clock_1020 rand_zero).oflow = 1 := by
  decide

/-! ## The Line Car set-up -/

theorem line_car_init_slot_scalars (rnd : Nat → Nat) (i j : Nat) (s : GameContext × Nat) :
    (line_car_init_slot rnd i j s).1.state = s.1.state ∧
    (line_car_init_slot rnd i j s).1.uber_points = s.1.uber_points ∧
    (line_car_init_slot rnd i j s).1.drift_multiplier = s.1.drift_multiplier ∧
    (line_car_init_slot rnd i j s).1.car_lane = s.1.car_lane ∧
    (line_car_init_slot rnd i j s).1.car_y = s.1.car_y ∧
    (line_car_init_slot rnd i j s).1.car_angle = s.1.car_angle := by
  unfold line_car_init_slot
  split_ifs <;> exact ⟨rfl, rfl, rfl, rfl, rfl, rfl⟩

theorem init_line_car_scalars (ctx : GameContext) (rnd : Nat → Nat) :
    (init_line_car ctx rnd).state = ctx.state ∧
    (init_line_car ctx rnd).uber_points = 0 ∧
    (init_line_car ctx rnd).drift_multiplier = 1 ∧
    (init_line_car ctx rnd).car_lane = 2 ∧
    (init_line_car ctx rnd).car_y = 121 ∧
    (init_line_car ctx rnd).car_angle = 0 := by
  unfold init_line_car
  apply for_loop_inv (fun s : GameContext × Nat =>
    s.1.state = ctx.state ∧ s.1.uber_points = 0 ∧ s.1.drift_multiplier = 1 ∧
    s.1.car_lane = 2 ∧ s.1.car_y = 121 ∧ s.1.car_angle = 0)
  · intro i s hs
    apply for_loop_inv (fun s : GameContext × Nat =>
      s.1.state = ctx.state ∧ s.1.uber_points = 0 ∧ s.1.drift_multiplier = 1 ∧
      s.1.car_lane = 2 ∧ s.1.car_y = 121 ∧ s.1.car_angle = 0)
    · intro j s hs
      obtain ⟨e1, e2, e3, e4, e5, e6⟩ := line_car_init_slot_scalars rnd i j s
      rw [e1, e2, e3, e4, e5, e6]
      exact hs
    · exact hs
  · exact ⟨rfl, rfl, rfl, rfl, rfl, rfl⟩

theorem line_car_init_slot_other (rnd : Nat → Nat) (i j : Nat) (s : GameContext × Nat)
    (a : Fin 5) (b : Fin 8) (h : ¬ (a.val = i ∧ b.val = j)) :
    (line_car_init_slot rnd i j s).1.track_positions a b = s.1.track_positions a b ∧
    (line_car_init_slot rnd i j s).1.track_pieces a b = s.1.track_pieces a b := by
  have h2 : ¬ ((a.val : Int) = (i : Int) ∧ (b.val : Int) = (j : Int)) := by
    intro hh; apply h; omega
  unfold line_car_init_slot
  split_ifs
  · constructor
    · show set2 (set2 s.1.track_positions i j 0) i j _ a b = _
      unfold set2; rw [if_neg h2, if_neg h2]
    · show set2 s.1.track_pieces i j _ a b = _
      unfold set2; rw [if_neg h2]
  · constructor
    · show set2 s.1.track_positions i j 0 a b = _
      unfold set2; rw [if_neg h2]
    · rfl

theorem line_car_init_slot_same (rnd : Nat → Nat) (i j : Nat) (s : GameContext × Nat)
    (a : Fin 5) (b : Fin 8) (h : a.val = i ∧ b.val = j) :
    (line_car_init_slot rnd i j s).1.track_positions a b = 0 ∨
    ∃ len r : Int, 9 ≤ len ∧ len ≤ 45 ∧ 0 ≤ r ∧ r < 128 - len ∧
      (line_car_init_slot rnd i j s).1.track_positions a b = 128 - len + r ∧
      (line_car_init_slot rnd i j s).1.track_pieces a b = len := by
  have h2 : (a.val : Int) = (i : Int) ∧ (b.val : Int) = (j : Int) := by omega
  unfold line_car_init_slot
  split_ifs
  · right
    have hlen : 9 ≤ (rnd s.2 : Int) % 37 + 9 ∧ (rnd s.2 : Int) % 37 + 9 ≤ 45 := by omega
    refine ⟨(rnd s.2 : Int) % 37 + 9,
      (rnd (s.2 + 2) : Int) % (PORTRAIT_HEIGHT - ((rnd s.2 : Int) % 37 + 9)),
      hlen.1, hlen.2, ?_, ?_, ?_, ?_⟩
    · exact Int.emod_nonneg _ (by unfold PORTRAIT_HEIGHT; omega)
    · exact Int.emod_lt_of_pos _ (by unfold PORTRAIT_HEIGHT; omega)
    · show set2 (set2 s.1.track_positions i j 0) i j _ a b = _
      unfold set2; rw [if_pos h2]; rfl
    · show set2 s.1.track_pieces i j _ a b = _
      unfold set2; rw [if_pos h2]
  · left
    show set2 s.1.track_positions i j 0 a b = _
    unfold set2; rw [if_pos h2]

theorem init_line_car_tracks (ctx : GameContext) (rnd : Nat → Nat) (a : Fin 5) (b : Fin 8) :
    (init_line_car ctx rnd).track_positions a b = 0 ∨
    ∃ len r : Int, 9 ≤ len ∧ len ≤ 45 ∧ 0 ≤ r ∧ r < 128 - len ∧
      (init_line_car ctx rnd).track_positions a b = 128 - len + r ∧
      (init_line_car ctx rnd).track_pieces a b = len := by
  have key := fun (s0 : GameContext × Nat) => for_loop_inv_idx
    (fun (i : Nat) (s : GameContext × Nat) => ∀ (a : Fin 5) (b : Fin 8), a.val < i →
      (s.1.track_positions a b = 0 ∨
        ∃ len r : Int, 9 ≤ len ∧ len ≤ 45 ∧ 0 ≤ r ∧ r < 128 - len ∧
          s.1.track_positions a b = 128 - len + r ∧ s.1.track_pieces a b = len))
    (fun i s => for_loop WORLD_OBJ_LIMIT (fun j s => line_car_init_slot rnd i j s) s)
    (fun i s hs => by
      have inner := for_loop_inv_idx
        (fun (j : Nat) (s : GameContext × Nat) => ∀ (a : Fin 5) (b : Fin 8),
          (a.val < i ∨ (a.val = i ∧ b.val < j)) →
          (s.1.track_positions a b = 0 ∨
            ∃ len r : Int, 9 ≤ len ∧ len ≤ 45 ∧ 0 ≤ r ∧ r < 128 - len ∧
              s.1.track_positions a b = 128 - len + r ∧ s.1.track_pieces a b = len))
        (fun j s => line_car_init_slot rnd i j s)
        (fun j s hs a b hab => by
          by_cases hc : a.val = i ∧ b.val = j
          · exact line_car_init_slot_same rnd i j s a b hc
          · obtain ⟨e1, e2⟩ := line_car_init_slot_other rnd i j s a b hc
            rw [e1, e2]
            apply hs a b
            omega)
        WORLD_OBJ_LIMIT s
        (fun a b hab => hs a b (by omega))
      intro a b hab
      apply inner a b
      have hb : b.val < WORLD_OBJ_LIMIT := b.isLt
      omega)
    5 s0 (fun a b hab => absurd hab (Nat.not_lt_zero _))
  unfold init_line_car
  exact key _ a b a.isLt

/-- Counterexample to C11: in Rotate with Line Car selected, a press of Back
20 ms after an accepted short Back is inside the 500 ms Back debounce and
leaves the context in Rotate. -/
theorem rotate_back_press_debounced :
    debounced_rotate_example.state = GameState.ROTATE ∧
    debounced_rotate_example.selected_game = GAME_MODE_LINE_CAR ∧
    is_press press_back = true ∧
    (input_callback debounced_rotate_example press_back clock_1020 rand_zero).state =
      GameState.ROTATE := by
  decide

/-- C11, amended. For every context in Rotate with `selected_game` Line Car,
a press event that is not a Back inside the 500 ms Back debounce yields state
Line Car with `uber_points = 0`, `drift_multiplier = 1`, `car_lane = 2`,
`car_y = 121`, `car_angle = 0`, and every slot of `track_positions` is either
0 or `128 - len + r` with `len` in [9,45] and `0 <= r < 128 - len`, where
`track_pieces` holds that `len`. -/
theorem rotate_press_enters_line_car (ctx : GameContext) (input : InputEvent)
    (tick rnd : Nat → Nat)
    (hs : ctx.state = GameState.ROTATE) (hg : ctx.selected_game = GAME_MODE_LINE_CAR)
    (hp : input.type = InputType.Press)
    (hd : ¬ (input.key = InputKey.Back ∧
      sub32 (furi_get_tick tick 0) ctx.last_back_press_time < BACK_BUTTON_COOLDOWN)) :
    (input_callback ctx input tick rnd).state = GameState.LINE_CAR ∧
    (input_callback ctx input tick rnd).uber_points = 0 ∧
    (input_callback ctx input tick rnd).drift_multiplier = 1 ∧
    (input_callback ctx input tick rnd).car_lane = 2 ∧
    (input_callback ctx input tick rnd).car_y = 121 ∧
    (input_callback ctx input tick rnd).car_angle = 0 ∧
    ∀ (i : Fin 5) (j : Fin 8),
      (input_callback ctx input tick rnd).track_positions i j = 0 ∨
      ∃ len r : Int, 9 ≤ len ∧ len ≤ 45 ∧ 0 ≤ r ∧ r < 128 - len ∧
        (input_callback ctx input tick rnd).track_positions i j = 128 - len + r ∧
        (input_callback ctx input tick rnd).track_pieces i j = len := by
  obtain ⟨c1, e, hsel⟩ := rotate_press ctx input tick rnd hs hp hd
  have hst : (rotate_enter c1 (furi_get_tick tick 0)).state = GameState.LINE_CAR := by
    show game_state_of c1.selected_game = GameState.LINE_CAR
    rw [hsel, hg]; decide
  have e2 : input_callback ctx input tick rnd =
      init_line_car (rotate_enter c1 (furi_get_tick tick 0)) rnd := by
    rw [e]; unfold rotate_init_game; rw [if_pos hst]
  rw [e2]
  obtain ⟨k1, k2, k3, k4, k5, k6⟩ :=
    init_line_car_scalars (rotate_enter c1 (furi_get_tick tick 0)) rnd
  exact ⟨k1.trans hst, k2, k3, k4, k5, k6, fun i j => init_line_car_tracks _ rnd i j⟩

/-- Witness of C11, amended: a press of Ok with 5 points left over. -/
theorem rotate_press_enters_line_car_witness :
    line_car_rotate_example.uber_points = 5 ∧
    (input_callback line_car_rotate_example press_ok clock_1020 rand_zero).state =
      GameState.LINE_CAR ∧
    (input_callback line_car_rotate_example press_ok clock_1020 rand_zero).uber_points = 0 :=
  ⟨by decide,
   (rotate_press_enters_line_car line_car_rotate_example press_ok clock_1020 rand_zero
      (by decide) (by decide) (by decide) (by decide)).1,
   (rotate_press_enters_line_car line_car_rotate_example press_ok clock_1020 rand_zero
      (by decide) (by decide) (by decide) (by decide)).2.1⟩

/-! ## The tap cadence -/

/-! ## Single precision: rounding keeps the order against representable bounds -/

theorem bit_length_from_spec (f : Nat) : ∀ n : Nat, n ≤ f →
    n < 2 ^ bit_length_from f n ∧ (0 < n → 2 ^ bit_length_from f n ≤ 2 * n) := by
  induction f with
  | zero =>
    intro n h
    have e : n = 0 := by omega
    subst e
    exact ⟨by decide, fun h0 => absurd h0 (by decide)⟩
  | succ f ih =>
    intro n h
    unfold bit_length_from
    by_cases h0 : n = 0
    · rw [if_pos h0, h0]
      exact ⟨by decide, fun hc => absurd hc (by decide)⟩
    · rw [if_neg h0]
      obtain ⟨i1, i2⟩ := ih (n / 2) (by omega)
      rw [pow_succ]
      constructor
      · omega
      · intro _
        by_cases h1 : n / 2 = 0
        · have e1 : n = 1 := by omega
          have e2 : bit_length_from f (n / 2) = 0 := by
            rw [h1]
            cases f <;> rfl
          rw [e2, e1]
          decide
        · have := i2 (by omega)
          omega

theorem bit_length_spec (n : Nat) (h : 0 < n) :
    n < 2 ^ bit_length n ∧ 2 ^ bit_length n ≤ 2 * n :=
  ⟨(bit_length_from_spec n n (le_refl n)).1, (bit_length_from_spec n n (le_refl n)).2 h⟩

/-- The significand and the scale chosen by `round_ratio`. -/
theorem round_ratio_bracket (p q : Nat) (hp : 0 < p) (hq : 0 < q) :
    ∃ e m : Nat, round_ratio p q = (m * 2 ^ e, 2 ^ (bit_length q + 24)) ∧
      2 ^ 23 * (q * 2 ^ e) ≤ p * 2 ^ (bit_length q + 24) ∧
      p * 2 ^ (bit_length q + 24) < 2 ^ 24 * (q * 2 ^ e) ∧
      p * 2 ^ (bit_length q + 24) / (q * 2 ^ e) ≤ m ∧
      m ≤ p * 2 ^ (bit_length q + 24) / (q * 2 ^ e) + 1 ∧
      (p * 2 ^ (bit_length q + 24) % (q * 2 ^ e) = 0 →
        m = p * 2 ^ (bit_length q + 24) / (q * 2 ^ e)) := by
  obtain ⟨a1, a2⟩ := bit_length_spec p hp
  obtain ⟨b1, b2⟩ := bit_length_spec q hq
  have hB : (2 : Nat) ^ (bit_length q + 24) = 2 ^ bit_length q * 2 ^ 24 := pow_add _ _ _
  generalize hA : (2 : Nat) ^ bit_length p = A at a1 a2
  generalize hBq : (2 : Nat) ^ bit_length q = Bq at b1 b2 hB
  have hq24 : (2 : Nat) ^ 24 = 2 * 2 ^ 23 := by norm_num
  have hq25 : (2 : Nat) ^ 23 = 8388608 := by norm_num
  refine ⟨bit_length p + (if p * 2 ^ (bit_length q + 24) < 2 ^ 24 * (q * 2 ^ bit_length p)
      then 0 else 1), _, rfl, ?_, ?_, ?_, ?_, ?_⟩
  · by_cases hc : p * 2 ^ (bit_length q + 24) < 2 ^ 24 * (q * 2 ^ bit_length p)
    · rw [if_pos hc, Nat.add_zero, hA, hB]
      have h1 : q * A ≤ Bq * (2 * p) := Nat.mul_le_mul (le_of_lt b1) a2
      calc 2 ^ 23 * (q * A) ≤ 2 ^ 23 * (Bq * (2 * p)) := Nat.mul_le_mul_left _ h1
        _ = p * (Bq * 2 ^ 24) := by rw [hq24]; ring
    · rw [if_neg hc, pow_succ (2 : Nat) (bit_length p), hA]
      rw [hA] at hc
      have := not_lt.1 hc
      calc 2 ^ 23 * (q * (A * 2)) = 2 ^ 24 * (q * A) := by rw [hq24]; ring
        _ ≤ _ := this
  · by_cases hc : p * 2 ^ (bit_length q + 24) < 2 ^ 24 * (q * 2 ^ bit_length p)
    · rw [if_pos hc, Nat.add_zero]
      exact hc
    · rw [if_neg hc, pow_succ (2 : Nat) (bit_length p), hA, hB]
      have h1 : p * Bq < A * (2 * q) :=
        lt_of_lt_of_le (Nat.mul_lt_mul_of_pos_right a1 (by omega))
          (Nat.mul_le_mul_left _ b2)
      calc p * (Bq * 2 ^ 24) = (p * Bq) * 2 ^ 24 := by ring
        _ < (A * (2 * q)) * 2 ^ 24 := Nat.mul_lt_mul_of_pos_right h1 (by norm_num)
        _ = 2 ^ 24 * (q * (A * 2)) := by ring
  · dsimp only
    split_ifs <;> omega
  · dsimp only
    split_ifs <;> omega
  · intro h0
    rw [h0]
    have hd : 0 < q * 2 ^ (bit_length p +
        (if p * 2 ^ (bit_length q + 24) < 2 ^ 24 * (q * 2 ^ bit_length p) then 0 else 1)) :=
      Nat.mul_pos hq (pow_pos (by decide) _)
    rw [if_neg]
    rintro (h | h)
    · omega
    · omega

/-- Rounding a positive fraction does not cross a bound `k / 2 ^ j` with `k ≤ 2 ^ 24`
lying above it. -/
theorem round_ratio_le (p q k j : Nat) (hp : 0 < p) (hq : 0 < q) (hk : k ≤ 2 ^ 24)
    (h : p * 2 ^ j ≤ k * q) :
    (round_ratio p q).1 * 2 ^ j ≤ k * (round_ratio p q).2 := by
  obtain ⟨e, m, hr, f1, f2, m1, m2, m3⟩ := round_ratio_bracket p q hp hq
  rw [hr]
  dsimp only
  generalize bit_length q + 24 = β at f1 f2 m1 m2 m3 ⊢
  have hdpos : 0 < q * 2 ^ e := Nat.mul_pos hq (pow_pos (by decide) _)
  have hdm := Nat.div_add_mod (p * 2 ^ β) (q * 2 ^ e)
  by_cases hcase : e + j ≤ β
  · obtain ⟨t, ht⟩ : ∃ t, β = e + j + t := ⟨β - (e + j), by omega⟩
    have hB : (2 : Nat) ^ β = 2 ^ e * 2 ^ j * 2 ^ t := by rw [ht, pow_add, pow_add]
    have hn : p * 2 ^ β ≤ (k * 2 ^ t) * (q * 2 ^ e) := by
      calc p * 2 ^ β = (p * 2 ^ j) * (2 ^ e * 2 ^ t) := by rw [hB]; ring
        _ ≤ (k * q) * (2 ^ e * 2 ^ t) := Nat.mul_le_mul_right _ h
        _ = (k * 2 ^ t) * (q * 2 ^ e) := by ring
    have hm : m ≤ k * 2 ^ t := by
      by_cases hr0 : p * 2 ^ β % (q * 2 ^ e) = 0
      · rw [m3 hr0]
        exact Nat.div_le_of_le_mul (by rw [Nat.mul_comm (q * 2 ^ e)]; exact hn)
      · have hlt : p * 2 ^ β / (q * 2 ^ e) < k * 2 ^ t := by
          by_contra hge
          have hge := not_lt.1 hge
          have := Nat.mul_le_mul_left (q * 2 ^ e) hge
          rw [Nat.mul_comm (k * 2 ^ t)] at hn
          omega
        omega
    calc m * 2 ^ e * 2 ^ j ≤ (k * 2 ^ t) * 2 ^ e * 2 ^ j :=
          Nat.mul_le_mul_right _ (Nat.mul_le_mul_right _ hm)
      _ = k * 2 ^ β := by rw [hB]; ring
  · obtain ⟨t, ht⟩ : ∃ t, e + j = β + 1 + t := ⟨e + j - (β + 1), by omega⟩
    have hAT : (2 : Nat) ^ e * 2 ^ j = 2 * 2 ^ β * 2 ^ t := by
      rw [← pow_add, ht, pow_add, pow_add]; ring
    have hqB : 0 < q * 2 ^ β := Nat.mul_pos hq (pow_pos (by decide) _)
    have h1 : 2 ^ 24 * 2 ^ t * (q * 2 ^ β) ≤ k * (q * 2 ^ β) := by
      calc 2 ^ 24 * 2 ^ t * (q * 2 ^ β) = 2 ^ 23 * (q * 2 ^ e) * 2 ^ j := by
            have : (2 : Nat) ^ 24 = 2 ^ 23 * 2 := by norm_num
            rw [this]
            calc 2 ^ 23 * 2 * 2 ^ t * (q * 2 ^ β) = 2 ^ 23 * q * (2 * 2 ^ β * 2 ^ t) := by ring
              _ = 2 ^ 23 * q * (2 ^ e * 2 ^ j) := by rw [hAT]
              _ = 2 ^ 23 * (q * 2 ^ e) * 2 ^ j := by ring
        _ ≤ (p * 2 ^ β) * 2 ^ j := Nat.mul_le_mul_right _ f1
        _ = (p * 2 ^ j) * 2 ^ β := by ring
        _ ≤ (k * q) * 2 ^ β := Nat.mul_le_mul_right _ h
        _ = k * (q * 2 ^ β) := by ring
    have h2 : 2 ^ 24 * 2 ^ t ≤ k := Nat.le_of_mul_le_mul_right h1 hqB
    have htpos : 0 < 2 ^ t := pow_pos (by decide) t
    have ht1 : 2 ^ t = 1 := by
      have : 2 ^ 24 * 2 ^ t ≤ 2 ^ 24 * 1 := by omega
      have := Nat.le_of_mul_le_mul_left this (by norm_num)
      omega
    have hk2 : k = 2 ^ 24 := by rw [ht1] at h2; omega
    rw [ht1, Nat.mul_one] at hAT
    -- the fraction is exactly 2 ^ 23 units
    have h3 : (p * 2 ^ β) * 2 ^ j ≤ (2 ^ 23 * (q * 2 ^ e)) * 2 ^ j := by
      calc (p * 2 ^ β) * 2 ^ j = (p * 2 ^ j) * 2 ^ β := by ring
        _ ≤ (k * q) * 2 ^ β := Nat.mul_le_mul_right _ h
        _ = 2 ^ 23 * q * (2 * 2 ^ β) := by
            rw [hk2]
            have : (2 : Nat) ^ 24 = 2 ^ 23 * 2 := by norm_num
            rw [this]; ring
        _ = 2 ^ 23 * q * (2 ^ e * 2 ^ j) := by rw [hAT]
        _ = (2 ^ 23 * (q * 2 ^ e)) * 2 ^ j := by ring
    have h4 : p * 2 ^ β ≤ 2 ^ 23 * (q * 2 ^ e) :=
      Nat.le_of_mul_le_mul_right h3 (pow_pos (by decide) j)
    have h5 : p * 2 ^ β = (q * 2 ^ e) * 2 ^ 23 := by rw [Nat.mul_comm (q * 2 ^ e)]; omega
    have hr0 : p * 2 ^ β % (q * 2 ^ e) = 0 := by rw [h5]; exact Nat.mul_mod_right _ _
    have hm : m = 2 ^ 23 := by
      rw [m3 hr0, h5]
      exact Nat.mul_div_cancel_left _ hdpos
    rw [hm, hk2]
    apply le_of_eq
    calc 2 ^ 23 * 2 ^ e * 2 ^ j = 2 ^ 23 * (2 ^ e * 2 ^ j) := by ring
      _ = 2 ^ 23 * (2 * 2 ^ β) := by rw [hAT]
      _ = 2 ^ 24 * 2 ^ β := by
          have : (2 : Nat) ^ 24 = 2 ^ 23 * 2 := by norm_num
          rw [this]; ring

/-- Rounding a positive fraction does not cross a bound `k / 2 ^ j` with `k ≤ 2 ^ 24`
lying below it. -/
theorem round_ratio_ge (p q k j : Nat) (hp : 0 < p) (hq : 0 < q) (hk : k ≤ 2 ^ 24)
    (h : k * q ≤ p * 2 ^ j) :
    k * (round_ratio p q).2 ≤ (round_ratio p q).1 * 2 ^ j := by
  obtain ⟨e, m, hr, f1, f2, m1, m2, m3⟩ := round_ratio_bracket p q hp hq
  rw [hr]
  dsimp only
  generalize bit_length q + 24 = β at f1 f2 m1 m2 m3 ⊢
  have hdpos : 0 < q * 2 ^ e := Nat.mul_pos hq (pow_pos (by decide) _)
  by_cases hcase : e + j ≤ β
  · obtain ⟨t, ht⟩ : ∃ t, β = e + j + t := ⟨β - (e + j), by omega⟩
    have hB : (2 : Nat) ^ β = 2 ^ e * 2 ^ j * 2 ^ t := by rw [ht, pow_add, pow_add]
    have hn : (k * 2 ^ t) * (q * 2 ^ e) ≤ p * 2 ^ β := by
      calc (k * 2 ^ t) * (q * 2 ^ e) = (k * q) * (2 ^ e * 2 ^ t) := by ring
        _ ≤ (p * 2 ^ j) * (2 ^ e * 2 ^ t) := Nat.mul_le_mul_right _ h
        _ = p * 2 ^ β := by rw [hB]; ring
    have hm : k * 2 ^ t ≤ m := le_trans ((Nat.le_div_iff_mul_le hdpos).2 hn) m1
    calc k * 2 ^ β = (k * 2 ^ t) * 2 ^ e * 2 ^ j := by rw [hB]; ring
      _ ≤ m * 2 ^ e * 2 ^ j := Nat.mul_le_mul_right _ (Nat.mul_le_mul_right _ hm)
  · obtain ⟨t, ht⟩ : ∃ t, e + j = β + 1 + t := ⟨e + j - (β + 1), by omega⟩
    have hAT : (2 : Nat) ^ e * 2 ^ j = 2 * 2 ^ β * 2 ^ t := by
      rw [← pow_add, ht, pow_add, pow_add]; ring
    have hm : 2 ^ 23 ≤ m := le_trans ((Nat.le_div_iff_mul_le hdpos).2 f1) m1
    have htpos : 1 ≤ 2 ^ t := Nat.one_le_two_pow
    calc k * 2 ^ β ≤ 2 ^ 24 * 2 ^ β := Nat.mul_le_mul_right _ hk
      _ = 2 ^ 23 * (2 * 2 ^ β * 1) := by
          have : (2 : Nat) ^ 24 = 2 ^ 23 * 2 := by norm_num
          rw [this]; ring
      _ ≤ m * (2 * 2 ^ β * 2 ^ t) :=
          Nat.mul_le_mul hm (Nat.mul_le_mul_left _ htpos)
      _ = m * 2 ^ e * 2 ^ j := by rw [← hAT]; ring

/-- The function `round_ratio` rounds to nearest, ties to even: the result is `m * u` for
the unit `u = 2 ^ e / 2 ^ (bit_length q + 24)` and a significand `m` between `2 ^ 23` and
`2 ^ 24` that differs from `(p / q) / u` by at most one half, and is even when the
difference is one half. -/
theorem round_ratio_nearest (p q : Nat) (hp : 0 < p) (hq : 0 < q) :
    ∃ e m : Nat, round_ratio p q = (m * 2 ^ e, 2 ^ (bit_length q + 24)) ∧
      2 ^ 23 ≤ m ∧ m ≤ 2 ^ 24 ∧
      2 * (m * (q * 2 ^ e)) ≤ 2 * (p * 2 ^ (bit_length q + 24)) + q * 2 ^ e ∧
      2 * (p * 2 ^ (bit_length q + 24)) ≤ 2 * (m * (q * 2 ^ e)) + q * 2 ^ e ∧
      (2 * (m * (q * 2 ^ e)) = 2 * (p * 2 ^ (bit_length q + 24)) + q * 2 ^ e ∨
        2 * (p * 2 ^ (bit_length q + 24)) = 2 * (m * (q * 2 ^ e)) + q * 2 ^ e → m % 2 = 0) := by
  -- the significand chosen by the definition
  have hdef : ∃ e2, round_ratio p q =
      ((if 2 * (p * 2 ^ (bit_length q + 24) % (q * 2 ^ e2)) > q * 2 ^ e2 ∨
          (2 * (p * 2 ^ (bit_length q + 24) % (q * 2 ^ e2)) = q * 2 ^ e2 ∧
            p * 2 ^ (bit_length q + 24) / (q * 2 ^ e2) % 2 = 1)
        then p * 2 ^ (bit_length q + 24) / (q * 2 ^ e2) + 1
        else p * 2 ^ (bit_length q + 24) / (q * 2 ^ e2)) * 2 ^ e2,
       2 ^ (bit_length q + 24)) ∧
      2 ^ 23 * (q * 2 ^ e2) ≤ p * 2 ^ (bit_length q + 24) ∧
      p * 2 ^ (bit_length q + 24) < 2 ^ 24 * (q * 2 ^ e2) := by
    refine ⟨bit_length p + (if p * 2 ^ (bit_length q + 24) < 2 ^ 24 * (q * 2 ^ bit_length p)
      then 0 else 1), rfl, ?_, ?_⟩
    · by_cases hc : p * 2 ^ (bit_length q + 24) < 2 ^ 24 * (q * 2 ^ bit_length p)
      · rw [if_pos hc, Nat.add_zero]
        obtain ⟨a1, a2⟩ := bit_length_spec p hp
        obtain ⟨b1, b2⟩ := bit_length_spec q hq
        have h1 : q * 2 ^ bit_length p ≤ 2 ^ bit_length q * (2 * p) :=
          Nat.mul_le_mul (le_of_lt b1) a2
        calc 2 ^ 23 * (q * 2 ^ bit_length p)
            ≤ 2 ^ 23 * (2 ^ bit_length q * (2 * p)) := Nat.mul_le_mul_left _ h1
          _ = p * 2 ^ (bit_length q + 24) := by rw [pow_add]; ring
      · rw [if_neg hc, pow_succ (2 : Nat) (bit_length p)]
        have := not_lt.1 hc
        calc 2 ^ 23 * (q * (2 ^ bit_length p * 2)) = 2 ^ 24 * (q * 2 ^ bit_length p) := by ring
          _ ≤ _ := this
    · by_cases hc : p * 2 ^ (bit_length q + 24) < 2 ^ 24 * (q * 2 ^ bit_length p)
      · rw [if_pos hc, Nat.add_zero]
        exact hc
      · rw [if_neg hc, pow_succ (2 : Nat) (bit_length p)]
        obtain ⟨a1, a2⟩ := bit_length_spec p hp
        obtain ⟨b1, b2⟩ := bit_length_spec q hq
        have h1 : p * 2 ^ bit_length q < 2 ^ bit_length p * (2 * q) :=
          lt_of_lt_of_le (Nat.mul_lt_mul_of_pos_right a1 (by omega))
            (Nat.mul_le_mul_left _ b2)
        calc p * 2 ^ (bit_length q + 24) = (p * 2 ^ bit_length q) * 2 ^ 24 := by
              rw [pow_add]; ring
          _ < (2 ^ bit_length p * (2 * q)) * 2 ^ 24 :=
              Nat.mul_lt_mul_of_pos_right h1 (by norm_num)
          _ = 2 ^ 24 * (q * (2 ^ bit_length p * 2)) := by ring
  obtain ⟨e, hr, f1, f2⟩ := hdef
  have hdpos : 0 < q * 2 ^ e := Nat.mul_pos hq (pow_pos (by decide) _)
  have hk1 : 2 ^ 23 ≤ p * 2 ^ (bit_length q + 24) / (q * 2 ^ e) :=
    (Nat.le_div_iff_mul_le hdpos).2 f1
  have hk2 : p * 2 ^ (bit_length q + 24) / (q * 2 ^ e) < 2 ^ 24 :=
    (Nat.div_lt_iff_lt_mul hdpos).2 f2
  have hdm := Nat.div_add_mod (p * 2 ^ (bit_length q + 24)) (q * 2 ^ e)
  have hrl := Nat.mod_lt (p * 2 ^ (bit_length q + 24)) hdpos
  refine ⟨e, _, hr, ?_⟩
  generalize p * 2 ^ (bit_length q + 24) = n at hk1 hk2 hdm hrl ⊢
  generalize q * 2 ^ e = d at hk1 hk2 hdm hrl hdpos ⊢
  generalize hk : n / d = k at hk1 hk2 hdm ⊢
  generalize hrr : n % d = r at hdm hrl ⊢
  have e1 : (k + 1) * d = d * k + d := by ring
  have e2 : k * d = d * k := Nat.mul_comm _ _
  by_cases hc : 2 * r > d ∨ (2 * r = d ∧ k % 2 = 1)
  · rw [if_pos hc, e1]
    refine ⟨by omega, by omega, by omega, by omega, ?_⟩
    rintro (h | h)
    · rcases hc with hc | hc
      · omega
      · omega
    · omega
  · rw [if_neg hc, e2]
    rw [not_or] at hc
    refine ⟨by omega, by omega, by omega, by omega, ?_⟩
    rintro (h | h)
    · omega
    · have : 2 * r = d := by omega
      have := hc.2
      omega

/-- Single-precision roundings: 1/3 is 11184811 / 2 ^ 25, one tenth is 13421773 / 2 ^ 27,
`2 ^ 24 + 1` is a tie and goes to the even `2 ^ 24`, `2 ^ 24 + 3` is a tie and goes to the
even `2 ^ 24 + 4`, and 27420000 / 1669 = 16429 - 1/1669 rounds to 16429. -/
theorem f32_round_examples :
    (f32_round 1 3).num * 2 ^ 25 = 11184811 * (f32_round 1 3).den ∧
    (f32_round 1 10).num * 2 ^ 27 = 13421773 * (f32_round 1 10).den ∧
    (f32_of_int 16777217).num = 16777216 * (f32_of_int 16777217).den ∧
    (f32_of_int 16777219).num = 16777220 * (f32_of_int 16777219).den ∧
    (f32_of_int (-16777219)).num = -16777220 * (f32_of_int (-16777219)).den ∧
    (f32_round 27420000 1669).num = 16429 * (f32_round 27420000 1669).den := by
  decide

theorem round_ratio_den_pos (p q : Nat) : 0 < (round_ratio p q).2 := by
  unfold round_ratio
  exact pow_pos (by decide) _

theorem f32_round_den_pos (num : Int) (den : Nat) : 0 < (f32_round num den).den := by
  unfold f32_round
  split_ifs
  · exact Nat.one_pos
  · exact round_ratio_den_pos num.natAbs den
  · exact round_ratio_den_pos num.natAbs den

theorem f32_round_zero (den : Nat) : f32_val (f32_round 0 den) = 0 := by
  unfold f32_round f32_val
  rw [if_pos rfl]
  simp

theorem f32_round_pos (p den : Nat) (hp : 0 < p) :
    f32_val (f32_round (p : Int) den) =
      ((round_ratio p den).1 : ℚ) / ((round_ratio p den).2 : ℚ) := by
  have h1 : ((p : Int)) ≠ 0 := by omega
  have h2 : (0 : Int) < (p : Int) := by omega
  unfold f32_round f32_val
  rw [if_neg h1, if_pos h2, Int.natAbs_ofNat]
  simp

theorem f32_round_neg_val (p den : Nat) (hp : 0 < p) :
    f32_val (f32_round (-(p : Int)) den) =
      -(((round_ratio p den).1 : ℚ) / ((round_ratio p den).2 : ℚ)) := by
  have h1 : (-(p : Int)) ≠ 0 := by omega
  have h2 : ¬ (0 : Int) < -(p : Int) := by omega
  unfold f32_round f32_val
  rw [if_neg h1, if_neg h2, Int.natAbs_neg, Int.natAbs_ofNat]
  simp [neg_div]

theorem f32_round_pos_le (p den k j : Nat) (hp : 0 < p) (hden : 0 < den) (hk : k ≤ 2 ^ 24)
    (h : (p : ℚ) / (den : ℚ) ≤ (k : ℚ) / 2 ^ j) :
    f32_val (f32_round (p : Int) den) ≤ (k : ℚ) / 2 ^ j := by
  have hd : (0 : ℚ) < (den : ℚ) := by exact_mod_cast hden
  have h2 : (0 : ℚ) < (2 : ℚ) ^ j := by positivity
  have hr : (0 : ℚ) < ((round_ratio p den).2 : ℚ) := by exact_mod_cast round_ratio_den_pos p den
  rw [div_le_div_iff₀ hd h2] at h
  have hn : p * 2 ^ j ≤ k * den := by exact_mod_cast h
  have := round_ratio_le p den k j hp hden hk hn
  rw [f32_round_pos p den hp, div_le_div_iff₀ hr h2]
  exact_mod_cast this

theorem f32_round_pos_ge (p den k j : Nat) (hp : 0 < p) (hden : 0 < den) (hk : k ≤ 2 ^ 24)
    (h : (k : ℚ) / 2 ^ j ≤ (p : ℚ) / (den : ℚ)) :
    (k : ℚ) / 2 ^ j ≤ f32_val (f32_round (p : Int) den) := by
  have hd : (0 : ℚ) < (den : ℚ) := by exact_mod_cast hden
  have h2 : (0 : ℚ) < (2 : ℚ) ^ j := by positivity
  have hr : (0 : ℚ) < ((round_ratio p den).2 : ℚ) := by exact_mod_cast round_ratio_den_pos p den
  rw [div_le_div_iff₀ h2 hd] at h
  have hn : k * den ≤ p * 2 ^ j := by exact_mod_cast h
  have := round_ratio_ge p den k j hp hden hk hn
  rw [f32_round_pos p den hp, div_le_div_iff₀ h2 hr]
  exact_mod_cast this

theorem f32_round_nonneg (p den : Nat) : 0 ≤ f32_val (f32_round (p : Int) den) := by
  by_cases hp : p = 0
  · subst hp
    have e : f32_val (f32_round ((0 : Nat) : Int) den) = 0 := by
      rw [Int.ofNat_zero]
      exact f32_round_zero den
    exact le_of_eq e.symm
  · rw [f32_round_pos p den (by omega)]
    exact div_nonneg (Nat.cast_nonneg _) (Nat.cast_nonneg _)

theorem f32_round_flip (num : Int) (den : Nat) :
    f32_val (f32_round (-num) den) = -f32_val (f32_round num den) := by
  rcases lt_trichotomy num 0 with h | h | h
  · obtain ⟨p, hp⟩ : ∃ p : Nat, num = -(p : Int) := ⟨num.natAbs, by omega⟩
    have hp0 : 0 < p := by omega
    rw [hp, neg_neg, f32_round_pos p den hp0, f32_round_neg_val p den hp0, neg_neg]
  · rw [h, neg_zero, f32_round_zero, neg_zero]
  · obtain ⟨p, hp⟩ : ∃ p : Nat, num = (p : Int) := ⟨num.natAbs, by omega⟩
    have hp0 : 0 < p := by omega
    rw [hp, f32_round_pos p den hp0, f32_round_neg_val p den hp0]

/-- Rounding to single precision does not cross a representable bound above the exact
value: a fraction `k / 2 ^ j` with `|k| ≤ 2 ^ 24`. -/
theorem f32_round_le (num : Int) (den : Nat) (k : Int) (j : Nat) (hden : 0 < den)
    (hk : |k| ≤ 2 ^ 24) (h : (num : ℚ) / (den : ℚ) ≤ (k : ℚ) / 2 ^ j) :
    f32_val (f32_round num den) ≤ (k : ℚ) / 2 ^ j := by
  have hd : (0 : ℚ) < (den : ℚ) := by exact_mod_cast hden
  have h2 : (0 : ℚ) < (2 : ℚ) ^ j := by positivity
  have hk' := abs_le.1 hk
  rcases lt_trichotomy num 0 with hn | hn | hn
  · obtain ⟨p, hp⟩ : ∃ p : Nat, num = -(p : Int) := ⟨num.natAbs, by omega⟩
    have hp0 : 0 < p := by omega
    rw [hp, f32_round_flip]
    by_cases hk0 : 0 ≤ k
    · have a1 := f32_round_nonneg p den
      have a2 : (0 : ℚ) ≤ (k : ℚ) / 2 ^ j := div_nonneg (by exact_mod_cast hk0) (le_of_lt h2)
      linarith
    · obtain ⟨K, hK⟩ : ∃ K : Nat, k = -(K : Int) := ⟨k.natAbs, by omega⟩
      have hK24 : K ≤ 2 ^ 24 := by
        have := hk'.1
        rw [hK] at this
        have e : ((2 : Int) ^ 24) = (((2 ^ 24 : Nat)) : Int) := by norm_num
        rw [e] at this
        omega
      rw [hp, hK] at h
      push_cast at h
      rw [neg_div, neg_div, neg_le_neg_iff] at h
      have := f32_round_pos_ge p den K j hp0 hden hK24 h
      rw [hK]
      push_cast
      rw [neg_div]
      linarith
  · rw [hn, f32_round_zero]
    rw [hn] at h
    simpa using h
  · obtain ⟨p, hp⟩ : ∃ p : Nat, num = (p : Int) := ⟨num.natAbs, by omega⟩
    have hp0 : 0 < p := by omega
    rw [hp] at h ⊢
    have hpos : (0 : ℚ) < ((p : Int) : ℚ) / (den : ℚ) := by
      apply div_pos _ hd
      exact_mod_cast hp0
    have hkq : (0 : ℚ) < (k : ℚ) := by
      have := lt_of_lt_of_le hpos h
      by_contra hc
      have hc := not_lt.1 hc
      have : (k : ℚ) / 2 ^ j ≤ 0 := div_nonpos_of_nonpos_of_nonneg hc (le_of_lt h2)
      linarith
    have hk0 : 0 < k := by exact_mod_cast hkq
    obtain ⟨K, hK⟩ : ∃ K : Nat, k = (K : Int) := ⟨k.natAbs, by omega⟩
    have hK24 : K ≤ 2 ^ 24 := by
      have := hk'.2
      rw [hK] at this
      have e : ((2 : Int) ^ 24) = (((2 ^ 24 : Nat)) : Int) := by norm_num
      rw [e] at this
      omega
    rw [hK] at h ⊢
    push_cast at h ⊢
    exact f32_round_pos_le p den K j hp0 hden hK24 h

/-- Rounding to single precision does not cross a representable bound below the exact
value. -/
theorem f32_round_ge (num : Int) (den : Nat) (k : Int) (j : Nat) (hden : 0 < den)
    (hk : |k| ≤ 2 ^ 24) (h : (k : ℚ) / 2 ^ j ≤ (num : ℚ) / (den : ℚ)) :
    (k : ℚ) / 2 ^ j ≤ f32_val (f32_round num den) := by
  have h1 : (((-num : Int)) : ℚ) / (den : ℚ) ≤ (((-k : Int)) : ℚ) / 2 ^ j := by
    push_cast
    rw [neg_div, neg_div]
    linarith
  have := f32_round_le (-num) den (-k) j hden (by rw [abs_neg]; exact hk) h1
  rw [f32_round_flip] at this
  push_cast at this
  rw [neg_div] at this
  linarith

/-- Integers up to `2 ^ 24` in size are converted exactly. -/
theorem f32_of_int_exact (k : Int) (hk : |k| ≤ 2 ^ 24) : f32_val (f32_of_int k) = (k : ℚ) := by
  unfold f32_of_int
  have a := f32_round_le k 1 k 0 Nat.one_pos hk (by simp)
  have b := f32_round_ge k 1 k 0 Nat.one_pos hk (by simp)
  simp only [pow_zero, div_one] at a b
  exact le_antisymm a b

theorem f32_of_int_le (k b : Int) (hb : |b| ≤ 2 ^ 24) (h : k ≤ b) :
    f32_val (f32_of_int k) ≤ (b : ℚ) := by
  have a := f32_round_le k 1 b 0 Nat.one_pos hb (by simpa using (by exact_mod_cast h))
  simpa using a

theorem f32_of_int_ge (k b : Int) (hb : |b| ≤ 2 ^ 24) (h : b ≤ k) :
    (b : ℚ) ≤ f32_val (f32_of_int k) := by
  have a := f32_round_ge k 1 b 0 Nat.one_pos hb (by simpa using (by exact_mod_cast h))
  simpa using a

theorem f32_of_int_den_pos (k : Int) : 0 < (f32_of_int k).den := f32_round_den_pos _ _

/-- The exact product behind `f32_mul`. -/
theorem f32_mul_exact (a b : Single) :
    (((a.num * b.num : Int)) : ℚ) / (((a.den * b.den : Nat)) : ℚ) = f32_val a * f32_val b := by
  unfold f32_val
  push_cast
  rw [div_mul_div_comm]

/-- The exact difference behind `f32_sub`. -/
theorem f32_sub_exact (a b : Single) (ha : 0 < a.den) (hb : 0 < b.den) :
    (((a.num * (b.den : Int) - b.num * (a.den : Int) : Int)) : ℚ) /
      (((a.den * b.den : Nat)) : ℚ) = f32_val a - f32_val b := by
  have h1 : (a.den : ℚ) ≠ 0 := by exact_mod_cast (Nat.pos_iff_ne_zero.1 ha)
  have h2 : (b.den : ℚ) ≠ 0 := by exact_mod_cast (Nat.pos_iff_ne_zero.1 hb)
  unfold f32_val
  push_cast
  field_simp
  ring

/-- The exact quotient behind `f32_div`, for a positive divisor. -/
theorem f32_div_exact (a b : Single) (hb : 0 < b.den) (hn : 0 < b.num) :
    (((a.num * (b.den : Int) * Int.sign b.num : Int)) : ℚ) /
      (((a.den * b.num.natAbs : Nat)) : ℚ) = f32_val a / f32_val b := by
  have h2 : (b.den : ℚ) ≠ 0 := by exact_mod_cast (Nat.pos_iff_ne_zero.1 hb)
  have h3 : (b.num : ℚ) ≠ 0 := by exact_mod_cast (ne_of_gt hn)
  have e1 : Int.sign b.num = 1 := Int.sign_eq_one_of_pos hn
  have e2 : ((b.num.natAbs : Nat) : ℚ) = (b.num : ℚ) := by
    rw [Nat.cast_natAbs, abs_of_pos hn]
  unfold f32_val
  rw [e1]
  push_cast
  rw [e2]
  by_cases h1 : (a.den : ℚ) = 0
  · rw [h1]; simp
  · field_simp

theorem f32_mul_den_pos (a b : Single) : 0 < (f32_mul a b).den := f32_round_den_pos _ _

theorem f32_div_den_pos (a b : Single) : 0 < (f32_div a b).den := f32_round_den_pos _ _

theorem f32_sub_den_pos (a b : Single) : 0 < (f32_sub a b).den := f32_round_den_pos _ _

theorem f32_mul_le (a b : Single) (ha : 0 < a.den) (hb : 0 < b.den) (k : Int) (j : Nat)
    (hk : |k| ≤ 2 ^ 24) (h : f32_val a * f32_val b ≤ (k : ℚ) / 2 ^ j) :
    f32_val (f32_mul a b) ≤ (k : ℚ) / 2 ^ j := by
  unfold f32_mul
  apply f32_round_le _ _ k j (Nat.mul_pos ha hb) hk
  rw [f32_mul_exact]
  exact h

theorem f32_mul_ge (a b : Single) (ha : 0 < a.den) (hb : 0 < b.den) (k : Int) (j : Nat)
    (hk : |k| ≤ 2 ^ 24) (h : (k : ℚ) / 2 ^ j ≤ f32_val a * f32_val b) :
    (k : ℚ) / 2 ^ j ≤ f32_val (f32_mul a b) := by
  unfold f32_mul
  apply f32_round_ge _ _ k j (Nat.mul_pos ha hb) hk
  rw [f32_mul_exact]
  exact h

theorem f32_sub_le (a b : Single) (ha : 0 < a.den) (hb : 0 < b.den) (k : Int) (j : Nat)
    (hk : |k| ≤ 2 ^ 24) (h : f32_val a - f32_val b ≤ (k : ℚ) / 2 ^ j) :
    f32_val (f32_sub a b) ≤ (k : ℚ) / 2 ^ j := by
  unfold f32_sub
  apply f32_round_le _ _ k j (Nat.mul_pos ha hb) hk
  rw [f32_sub_exact a b ha hb]
  exact h

theorem f32_sub_ge (a b : Single) (ha : 0 < a.den) (hb : 0 < b.den) (k : Int) (j : Nat)
    (hk : |k| ≤ 2 ^ 24) (h : (k : ℚ) / 2 ^ j ≤ f32_val a - f32_val b) :
    (k : ℚ) / 2 ^ j ≤ f32_val (f32_sub a b) := by
  unfold f32_sub
  apply f32_round_ge _ _ k j (Nat.mul_pos ha hb) hk
  rw [f32_sub_exact a b ha hb]
  exact h

theorem f32_div_le (a b : Single) (ha : 0 < a.den) (hb : 0 < b.den) (hn : 0 < b.num)
    (k : Int) (j : Nat) (hk : |k| ≤ 2 ^ 24) (h : f32_val a / f32_val b ≤ (k : ℚ) / 2 ^ j) :
    f32_val (f32_div a b) ≤ (k : ℚ) / 2 ^ j := by
  unfold f32_div
  apply f32_round_le _ _ k j (Nat.mul_pos ha (Int.natAbs_pos.2 (ne_of_gt hn))) hk
  rw [f32_div_exact a b hb hn]
  exact h

theorem f32_div_ge (a b : Single) (ha : 0 < a.den) (hb : 0 < b.den) (hn : 0 < b.num)
    (k : Int) (j : Nat) (hk : |k| ≤ 2 ^ 24) (h : (k : ℚ) / 2 ^ j ≤ f32_val a / f32_val b) :
    (k : ℚ) / 2 ^ j ≤ f32_val (f32_div a b) := by
  unfold f32_div
  apply f32_round_ge _ _ k j (Nat.mul_pos ha (Int.natAbs_pos.2 (ne_of_gt hn))) hk
  rw [f32_div_exact a b hb hn]
  exact h

theorem f32_num_pos (a : Single) (ha : 0 < a.den) (h : 0 < f32_val a) : 0 < a.num := by
  unfold f32_val at h
  have hd : (0 : ℚ) < (a.den : ℚ) := by exact_mod_cast ha
  have := (div_pos_iff_of_pos_right hd).1 h
  exact_mod_cast this

theorem fabsf_val (a : Single) : f32_val (fabsf a) = |f32_val a| := by
  unfold fabsf f32_val
  dsimp only
  rw [abs_div, Nat.abs_cast, Nat.cast_natAbs]
  push_cast
  rfl

theorem fabsf_den (a : Single) : (fabsf a).den = a.den := rfl

theorem f32_lt_iff (a b : Single) (ha : 0 < a.den) (hb : 0 < b.den) :
    f32_lt a b = true ↔ f32_val a < f32_val b := by
  have h1 : (0 : ℚ) < (a.den : ℚ) := by exact_mod_cast ha
  have h2 : (0 : ℚ) < (b.den : ℚ) := by exact_mod_cast hb
  unfold f32_lt f32_val
  rw [decide_eq_true_iff, div_lt_div_iff₀ h1 h2]
  constructor
  · intro h; exact_mod_cast h
  · intro h; exact_mod_cast h

/-- The cadence test in terms of the value of the rounded difference. -/
theorem tap_bpm_close_val (n : Int) (d : Nat) (s : Int) (hd : 0 < d) :
    tap_bpm_close n d s = true ↔
      |f32_val (f32_sub (f32_div (f32_mul (f32_of_int n) (f32_of_int 60000))
        (f32_of_int (d : Int))) (f32_of_int s))| < 5 := by
  unfold tap_bpm_close
  rw [Bool.and_eq_true, decide_eq_true_iff,
    f32_lt_iff _ _ (by rw [fabsf_den]; exact f32_sub_den_pos _ _) (f32_of_int_den_pos _),
    fabsf_val,
    f32_of_int_exact 5 (by norm_num)]
  constructor
  · rintro ⟨_, h⟩
    exact_mod_cast h
  · intro h
    exact ⟨hd, by exact_mod_cast h⟩

/-- The divisor of the cadence test is converted exactly. -/
theorem f32_of_window (d : Nat) (hd : 0 < d) (hd6 : d ≤ 60000) :
    f32_val (f32_of_int (d : Int)) = (d : ℚ) ∧ 0 < (f32_of_int (d : Int)).num := by
  have e : f32_val (f32_of_int (d : Int)) = ((d : Int) : ℚ) :=
    f32_of_int_exact _ (by rw [abs_of_nonneg (by omega)]; norm_num; omega)
  have e2 : f32_val (f32_of_int (d : Int)) = (d : ℚ) := by rw [e]; norm_cast
  refine ⟨e2, f32_num_pos _ (f32_of_int_den_pos _) ?_⟩
  rw [e2]
  exact_mod_cast hd

/-- A tap rate of at least `hb`, a bound of at most 279 lying 5 or more above the speed,
fails the cadence test. -/
theorem tap_bpm_far_above (n : Int) (d : Nat) (s hb : Int) (hd : 0 < d) (hd6 : d ≤ 60000)
    (h1 : |hb| ≤ 279) (h2 : hb * (d : Int) ≤ 60000 * n) (h3 : s + 5 ≤ hb) :
    tap_bpm_close n d s = false := by
  rw [← Bool.not_eq_true, tap_bpm_close_val n d s hd]
  obtain ⟨hD, hDn⟩ := f32_of_window d hd hd6
  have hdq : (0 : ℚ) < (d : ℚ) := by exact_mod_cast hd
  have hb' := abs_le.1 h1
  -- the tap count
  have hbd : -(279 * 60000) ≤ hb * (d : Int) ∧ hb * (d : Int) ≤ 279 * 60000 := by
    constructor <;> nlinarith
  obtain ⟨b, hb1, hb2, hN2⟩ : ∃ b : Int, |b| ≤ 2 ^ 24 ∧ b ≤ n ∧
      hb * (d : Int) ≤ 60000 * b := by
    rcases le_total n (2 ^ 24) with hc | hc
    · exact ⟨n, by rw [abs_le]; constructor <;> omega, le_refl _, h2⟩
    · exact ⟨2 ^ 24, by norm_num, hc, by omega⟩
  have hN : (b : ℚ) ≤ f32_val (f32_of_int n) := f32_of_int_ge n b hb1 hb2
  have hC : f32_val (f32_of_int 60000) = 60000 := by
    rw [f32_of_int_exact 60000 (by norm_num)]; norm_num
  -- the product
  have hkd : |hb * (d : Int)| ≤ 2 ^ 24 := by
    rw [abs_le]
    constructor <;> omega
  have hP := f32_mul_ge (f32_of_int n) (f32_of_int 60000) (f32_of_int_den_pos _)
    (f32_of_int_den_pos _) (hb * (d : Int)) 0 hkd (by
      rw [hC, pow_zero, div_one]
      have : ((hb * (d : Int) : Int) : ℚ) ≤ ((60000 * b : Int) : ℚ) := by
        exact_mod_cast hN2
      push_cast at this ⊢
      linarith)
  rw [pow_zero, div_one] at hP
  -- the quotient
  have hQ := f32_div_ge (f32_mul (f32_of_int n) (f32_of_int 60000)) (f32_of_int (d : Int))
    (f32_mul_den_pos _ _) (f32_of_int_den_pos _) hDn hb 0
    (by rw [abs_le]; constructor <;> omega) (by
      rw [hD, pow_zero, div_one, le_div_iff₀ hdq]
      push_cast at hP
      exact hP)
  rw [pow_zero, div_one] at hQ
  -- the speed
  have hS := f32_of_int_le s (hb - 5) (by rw [abs_le]; constructor <;> omega) (by omega)
  -- the difference
  have hX := f32_sub_ge _ (f32_of_int s) (f32_div_den_pos
    (f32_mul (f32_of_int n) (f32_of_int 60000)) (f32_of_int (d : Int)))
    (f32_of_int_den_pos _) 5 0 (by norm_num) (by
      rw [pow_zero, div_one]
      push_cast at hS ⊢
      linarith)
  rw [pow_zero, div_one] at hX
  intro hc
  have := (abs_lt.1 hc).2
  push_cast at hX
  linarith

/-- A tap rate of at most `lb`, a bound of size at most 279 lying 5 or more below the
speed, fails the cadence test. -/
theorem tap_bpm_far_below (n : Int) (d : Nat) (s lb : Int) (hd : 0 < d) (hd6 : d ≤ 60000)
    (h1 : |lb| ≤ 279) (h2 : 60000 * n ≤ lb * (d : Int)) (h3 : lb + 5 ≤ s) :
    tap_bpm_close n d s = false := by
  rw [← Bool.not_eq_true, tap_bpm_close_val n d s hd]
  obtain ⟨hD, hDn⟩ := f32_of_window d hd hd6
  have hdq : (0 : ℚ) < (d : ℚ) := by exact_mod_cast hd
  have hb' := abs_le.1 h1
  have hbd : -(279 * 60000) ≤ lb * (d : Int) ∧ lb * (d : Int) ≤ 279 * 60000 := by
    constructor <;> nlinarith
  obtain ⟨b, hb1, hb2, hN2⟩ : ∃ b : Int, |b| ≤ 2 ^ 24 ∧ n ≤ b ∧
      60000 * b ≤ lb * (d : Int) := by
    rcases le_total (-2 ^ 24) n with hc | hc
    · exact ⟨n, by rw [abs_le]; constructor <;> omega, le_refl _, h2⟩
    · exact ⟨-2 ^ 24, by norm_num, hc, by omega⟩
  have hN : f32_val (f32_of_int n) ≤ (b : ℚ) := f32_of_int_le n b hb1 hb2
  have hC : f32_val (f32_of_int 60000) = 60000 := by
    rw [f32_of_int_exact 60000 (by norm_num)]; norm_num
  have hkd : |lb * (d : Int)| ≤ 2 ^ 24 := by
    rw [abs_le]
    constructor <;> omega
  have hP := f32_mul_le (f32_of_int n) (f32_of_int 60000) (f32_of_int_den_pos _)
    (f32_of_int_den_pos _) (lb * (d : Int)) 0 hkd (by
      rw [hC, pow_zero, div_one]
      have : ((60000 * b : Int) : ℚ) ≤ ((lb * (d : Int) : Int) : ℚ) := by
        exact_mod_cast hN2
      push_cast at this ⊢
      linarith)
  rw [pow_zero, div_one] at hP
  have hQ := f32_div_le (f32_mul (f32_of_int n) (f32_of_int 60000)) (f32_of_int (d : Int))
    (f32_mul_den_pos _ _) (f32_of_int_den_pos _) hDn lb 0
    (by rw [abs_le]; constructor <;> omega) (by
      rw [hD, pow_zero, div_one, div_le_iff₀ hdq]
      push_cast at hP
      exact hP)
  rw [pow_zero, div_one] at hQ
  have hS := f32_of_int_ge s (lb + 5) (by rw [abs_le]; constructor <;> omega) (by omega)
  have hX := f32_sub_le _ (f32_of_int s) (f32_div_den_pos
    (f32_mul (f32_of_int n) (f32_of_int 60000)) (f32_of_int (d : Int)))
    (f32_of_int_den_pos _) (-5) 0 (by norm_num) (by
      rw [pow_zero, div_one]
      push_cast at hS ⊢
      linarith)
  rw [pow_zero, div_one] at hX
  intro hc
  have := (abs_lt.1 hc).1
  push_cast at hX
  linarith

/-- A tap rate strictly within 5 of a speed of size at most 250 passes the cadence test:
the rate is a fraction with a divisor of at most 60000, so it stays `2 ^ -16` inside the
bounds, and every rounding keeps it there. -/
theorem tap_bpm_near (n : Int) (d : Nat) (s : Int) (hd : 0 < d) (hd6 : d ≤ 60000)
    (hs : |s| ≤ 250) (h1 : (s - 5) * (d : Int) < 60000 * n)
    (h2 : 60000 * n < (s + 5) * (d : Int)) :
    tap_bpm_close n d s = true := by
  rw [tap_bpm_close_val n d s hd]
  obtain ⟨hD, hDn⟩ := f32_of_window d hd hd6
  have hdq : (0 : ℚ) < (d : ℚ) := by exact_mod_cast hd
  have hs' := abs_le.1 hs
  have hn1 : -255 < n := by nlinarith
  have hn2 : n < 255 := by nlinarith
  have hN : f32_val (f32_of_int n) = (n : ℚ) :=
    f32_of_int_exact n (by rw [abs_le]; constructor <;> omega)
  have hC : f32_val (f32_of_int 60000) = 60000 := by
    rw [f32_of_int_exact 60000 (by norm_num)]; norm_num
  have hk : |n * 60000| ≤ 2 ^ 24 := by rw [abs_le]; constructor <;> omega
  have hP1 := f32_mul_le (f32_of_int n) (f32_of_int 60000) (f32_of_int_den_pos _)
    (f32_of_int_den_pos _) (n * 60000) 0 hk (by rw [hN, hC]; push_cast; simp)
  have hP2 := f32_mul_ge (f32_of_int n) (f32_of_int 60000) (f32_of_int_den_pos _)
    (f32_of_int_den_pos _) (n * 60000) 0 hk (by rw [hN, hC]; push_cast; simp)
  rw [pow_zero, div_one] at hP1 hP2
  have hP : f32_val (f32_mul (f32_of_int n) (f32_of_int 60000)) = (n : ℚ) * 60000 := by
    have := le_antisymm hP1 hP2
    push_cast at this
    exact this
  -- the exact rate stays one part in 60000 inside the bounds
  have g1 : ((s : ℚ) - 5) * (d : ℚ) + 1 ≤ 60000 * (n : ℚ) := by
    have : (s - 5) * (d : Int) + 1 ≤ 60000 * n := by omega
    exact_mod_cast this
  have g2 : 60000 * (n : ℚ) + 1 ≤ ((s : ℚ) + 5) * (d : ℚ) := by
    have : 60000 * n + 1 ≤ (s + 5) * (d : Int) := by omega
    exact_mod_cast this
  have hd6q : (d : ℚ) ≤ 60000 := by exact_mod_cast hd6
  have hQ1 := f32_div_le (f32_mul (f32_of_int n) (f32_of_int 60000)) (f32_of_int (d : Int))
    (f32_mul_den_pos _ _) (f32_of_int_den_pos _) hDn ((s + 5) * 65536 - 1) 16
    (by rw [abs_le]; constructor <;> omega) (by
      rw [hD, hP, div_le_div_iff₀ hdq (by norm_num)]
      push_cast
      nlinarith)
  have hQ2 := f32_div_ge (f32_mul (f32_of_int n) (f32_of_int 60000)) (f32_of_int (d : Int))
    (f32_mul_den_pos _ _) (f32_of_int_den_pos _) hDn ((s - 5) * 65536 + 1) 16
    (by rw [abs_le]; constructor <;> omega) (by
      rw [hD, hP, div_le_div_iff₀ (by norm_num) hdq]
      push_cast
      nlinarith)
  have hS : f32_val (f32_of_int s) = (s : ℚ) :=
    f32_of_int_exact s (by rw [abs_le]; constructor <;> omega)
  have hX1 := f32_sub_le _ (f32_of_int s) (f32_div_den_pos
    (f32_mul (f32_of_int n) (f32_of_int 60000)) (f32_of_int (d : Int)))
    (f32_of_int_den_pos _) (5 * 65536 - 1) 16 (by norm_num) (by
      rw [hS]
      push_cast at hQ1 ⊢
      linarith)
  have hX2 := f32_sub_ge _ (f32_of_int s) (f32_div_den_pos
    (f32_mul (f32_of_int n) (f32_of_int 60000)) (f32_of_int (d : Int)))
    (f32_of_int_den_pos _) (-(5 * 65536 - 1)) 16 (by norm_num) (by
      rw [hS]
      push_cast at hQ2 ⊢
      linarith)
  rw [abs_lt]
  push_cast at hX1 hX2
  constructor
  · linarith
  · linarith

/-- For a window of at most 60000 ms and a speed of size at most 250 the single-precision
cadence test agrees with the exact comparison `|n * 60000 / d - s| < 5`. -/
theorem tap_bpm_close_iff (n : Int) (d : Nat) (s : Int) (hd : 0 < d) (hd6 : d ≤ 60000)
    (hs : |s| ≤ 250) :
    tap_bpm_close n d s = true ↔ |((n : ℚ) * 60000) / (d : ℚ) - (s : ℚ)| < 5 := by
  have hdq : (0 : ℚ) < (d : ℚ) := by exact_mod_cast hd
  have hs' := abs_le.1 hs
  have key : |((n : ℚ) * 60000) / (d : ℚ) - (s : ℚ)| < 5 ↔
      (s - 5) * (d : Int) < 60000 * n ∧ 60000 * n < (s + 5) * (d : Int) := by
    rw [abs_lt, lt_sub_iff_add_lt, sub_lt_iff_lt_add, lt_div_iff₀ hdq, div_lt_iff₀ hdq]
    constructor
    · rintro ⟨a, b⟩
      constructor
      · have : (((s - 5) * (d : Int) : Int) : ℚ) < ((60000 * n : Int) : ℚ) := by
          push_cast; linarith
        exact_mod_cast this
      · have : ((60000 * n : Int) : ℚ) < (((s + 5) * (d : Int) : Int) : ℚ) := by
          push_cast; linarith
        exact_mod_cast this
    · rintro ⟨a, b⟩
      have a' : (((s - 5) * (d : Int) : Int) : ℚ) < ((60000 * n : Int) : ℚ) := by
        exact_mod_cast a
      have b' : ((60000 * n : Int) : ℚ) < (((s + 5) * (d : Int) : Int) : ℚ) := by
        exact_mod_cast b
      push_cast at a' b'
      constructor <;> linarith
  rw [key]
  constructor
  · intro h
    by_contra hc
    rw [not_and_or, not_lt, not_lt] at hc
    rcases hc with hc | hc
    · have := tap_bpm_far_below n d s (s - 5) hd hd6
        (by rw [abs_le]; constructor <;> omega) hc (by omega)
      rw [this] at h
      exact Bool.false_ne_true h
    · have := tap_bpm_far_above n d s (s + 5) hd hd6
        (by rw [abs_le]; constructor <;> omega) hc (by omega)
      rw [this] at h
      exact Bool.false_ne_true h
  · rintro ⟨a, b⟩
    exact tap_bpm_near n d s hd hd6 hs a b

theorem tap_far_from_speed (n : Nat) (x : Nat) (s : Int) (hs : s ≤ 120) (hx : x ≤ 299 * n)
    (hx6 : x < 60000) :
    tap_bpm_close ((n : Int) + 1) (x + 1) s = false :=
  tap_bpm_far_above ((n : Int) + 1) (x + 1) s 200 (Nat.succ_pos _) (by omega)
    (by norm_num) (by push_cast; omega) (by omega)

/-- Above the range of the speed-up the two tests part: at speed 16424 with 457 taps in a
window of 1669 ms the exact rate is within 5 of the speed, the single-precision rate
16429 is not. -/
theorem tap_bpm_rounding_example :
    tap_bpm_close 457 1669 16424 = false ∧
    |(((457 : Int) : ℚ) * 60000) / ((1669 : Nat) : ℚ) - ((16424 : Int) : ℚ)| < 5 := by
  constructor
  · decide
  · norm_num [abs_lt]

/-- The three fields the cadence block works on. -/
theorem tap_cadence_fields (c : GameContext) (now : Nat) :
    (tap_cadence c now).tap_count =
      (if sub32 now c.tap_window_start ≥ 60000 then 1 else c.tap_count + 1) ∧
    (tap_cadence c now).tap_window_start =
      (if sub32 now c.tap_window_start ≥ 60000 then now else c.tap_window_start) ∧
    (tap_cadence c now).speed_bpm =
      (if tap_bpm_close (tap_cadence c now).tap_count
          (add32 (sub32 now (tap_cadence c now).tap_window_start) 1) c.speed_bpm
        then min (c.speed_bpm + 10) 120 else c.speed_bpm) := by
  unfold tap_cadence
  dsimp only
  by_cases h1 : sub32 now c.tap_window_start ≥ 60000
  · rw [if_pos h1, if_pos h1, if_pos h1]
    dsimp only
    by_cases h2 : tap_bpm_close 1 (add32 (sub32 now now) 1) c.speed_bpm = true
    · rw [if_pos h2]
      by_cases h3 : c.speed_bpm + 10 > 120
      · rw [if_pos h3]
        refine ⟨rfl, rfl, ?_⟩
        show (120 : Int) = if _ then _ else _
        rw [if_pos h2, min_eq_right (by omega)]
      · rw [if_neg h3]
        refine ⟨rfl, rfl, ?_⟩
        show c.speed_bpm + 10 = if _ then _ else _
        rw [if_pos h2, min_eq_left (by omega)]
    · rw [if_neg h2]
      refine ⟨rfl, rfl, ?_⟩
      show c.speed_bpm = if _ then _ else _
      rw [if_neg h2]
  · rw [if_neg h1, if_neg h1, if_neg h1]
    dsimp only
    by_cases h2 : tap_bpm_close (c.tap_count + 1)
        (add32 (sub32 now c.tap_window_start) 1) c.speed_bpm = true
    · rw [if_pos h2]
      by_cases h3 : c.speed_bpm + 10 > 120
      · rw [if_pos h3]
        refine ⟨rfl, rfl, ?_⟩
        show (120 : Int) = if _ then _ else _
        rw [if_pos h2, min_eq_right (by omega)]
      · rw [if_neg h3]
        refine ⟨rfl, rfl, ?_⟩
        show c.speed_bpm + 10 = if _ then _ else _
        rw [if_pos h2, min_eq_left (by omega)]
    · rw [if_neg h2]
      refine ⟨rfl, rfl, ?_⟩
      show c.speed_bpm = if _ then _ else _
      rw [if_neg h2]

theorem game_state_back_other (ctx : GameContext) (input : InputEvent) (now : Nat)
    (o : GameContext) (h : input.key ≠ InputKey.Back) : game_state_back ctx input now o = o := by
  unfold game_state_back
  rw [if_neg (fun hc => h hc.2), if_neg (fun hc => h hc.2), if_neg (fun hc => h hc.1)]

theorem flip_zip_left_other (input : InputEvent) (now : Nat) (c : GameContext)
    (h : input.key ≠ InputKey.Left) : flip_zip_left input now c = c := by
  unfold flip_zip_left; rw [if_neg (fun hc => h hc.2.1)]

theorem flip_zip_right_other (input : InputEvent) (now : Nat) (c : GameContext)
    (h : input.key ≠ InputKey.Right) : flip_zip_right input now c = c := by
  unfold flip_zip_right; rw [if_neg (fun hc => h hc.2.1)]

theorem flip_zip_up_other (input : InputEvent) (c : GameContext)
    (h : input.key ≠ InputKey.Up) : flip_zip_up input c = c := by
  unfold flip_zip_up; rw [if_neg (fun hc => h hc.2.1)]

theorem flip_zip_down_other (input : InputEvent) (c : GameContext)
    (h : input.key ≠ InputKey.Down) : flip_zip_down input c = c := by
  unfold flip_zip_down; rw [if_neg (fun hc => h hc.2.1)]

theorem flip_zip_ok_other (input : InputEvent) (now : Nat) (c : GameContext)
    (h : input.key ≠ InputKey.Ok) : flip_zip_ok input now c = c := by
  unfold flip_zip_ok; rw [if_neg (fun hc => h hc.2.1), if_neg (fun hc => h hc.2)]

theorem line_car_left_other (input : InputEvent) (now now2 : Nat) (c : GameContext)
    (h : input.key ≠ InputKey.Left) : line_car_left input now now2 c = c := by
  unfold line_car_left; rw [if_neg (fun hc => h hc.2.1)]

theorem line_car_right_other (input : InputEvent) (now now2 : Nat) (c : GameContext)
    (h : input.key ≠ InputKey.Right) : line_car_right input now now2 c = c := by
  unfold line_car_right; rw [if_neg (fun hc => h hc.2.1)]

theorem line_car_up_other (input : InputEvent) (c : GameContext)
    (h : input.key ≠ InputKey.Up) : line_car_up input c = c := by
  unfold line_car_up; rw [if_neg (fun hc => h hc.2), if_neg (fun hc => h hc.2)]

theorem line_car_brake_other (input : InputEvent) (c : GameContext)
    (h : input.key ≠ InputKey.Back) : line_car_brake input c = c := by
  unfold line_car_brake; rw [if_neg (fun hc => h hc.2)]

theorem flip_iq_left_other (input : InputEvent) (now : Nat) (c : GameContext)
    (h : input.key ≠ InputKey.Left) : flip_iq_left input now c = c := by
  unfold flip_iq_left; rw [if_neg (fun hc => h hc.2.1)]

theorem flip_iq_right_other (input : InputEvent) (now : Nat) (c : GameContext)
    (h : input.key ≠ InputKey.Right) : flip_iq_right input now c = c := by
  unfold flip_iq_right; rw [if_neg (fun hc => h hc.2.1)]

theorem flip_iq_up_other (input : InputEvent) (c : GameContext)
    (h : input.key ≠ InputKey.Up) : flip_iq_up input c = c := by
  unfold flip_iq_up; rw [if_neg (fun hc => h hc.2.1), if_neg (fun hc => h hc.2)]

theorem flip_iq_down_other (input : InputEvent) (c : GameContext)
    (h : input.key ≠ InputKey.Down) : flip_iq_down input c = c := by
  unfold flip_iq_down; rw [if_neg (fun hc => h hc.2.1)]

theorem lane_key_hold_fields (input : InputEvent) (c : GameContext) :
    lane_key_hold input c = { c with is_holding := (lane_key_hold input c).is_holding } := by
  unfold lane_key_hold; dsimp only; split_ifs <;> rfl

theorem line_car_after_lane_change_cadence (c : GameContext) (now now2 : Nat) (a t : Int) :
    (line_car_after_lane_change c now now2 a t).tap_count = c.tap_count ∧
    (line_car_after_lane_change c now now2 a t).tap_window_start = c.tap_window_start ∧
    (line_car_after_lane_change c now now2 a t).speed_bpm = c.speed_bpm := by
  unfold line_car_after_lane_change line_car_point_notification
  dsimp only
  split_ifs <;> exact ⟨rfl, rfl, rfl⟩

theorem lane_key_hold_keeps (input : InputEvent) (c : GameContext) :
    (lane_key_hold input c).tap_count = c.tap_count ∧
    (lane_key_hold input c).tap_window_start = c.tap_window_start ∧
    (lane_key_hold input c).speed_bpm = c.speed_bpm ∧
    (lane_key_hold input c).car_lane = c.car_lane ∧
    (lane_key_hold input c).active_lanes = c.active_lanes := by
  unfold lane_key_hold; dsimp only; split_ifs <;> exact ⟨rfl, rfl, rfl, rfl, rfl⟩

theorem line_car_keys_left (b : GameContext) (input : InputEvent) (now now2 : Nat)
    (hsh : is_short input = true) (hk : input.key = InputKey.Left) (hl : b.car_lane > 0) :
    line_car_keys b input now now2 =
      line_car_after_lane_change
        (tap_cadence { { (lane_key_hold input b) with
          prev_car_lane := (lane_key_hold input b).car_lane } with
          car_lane := (lane_key_hold input b).car_lane - 1 } now) now now2 (-8) (-15) := by
  unfold line_car_keys
  have e1 : line_car_left input now now2 (lane_key_hold input b) =
      line_car_after_lane_change
        (tap_cadence { { (lane_key_hold input b) with
          prev_car_lane := (lane_key_hold input b).car_lane } with
          car_lane := (lane_key_hold input b).car_lane - 1 } now) now now2 (-8) (-15) := by
    unfold line_car_left
    rw [if_pos ⟨hsh, hk, by rw [(lane_key_hold_keeps input b).2.2.2.1]; exact hl⟩]
  rw [e1, line_car_right_other _ _ _ _ (by rw [hk]; decide),
    line_car_up_other _ _ (by rw [hk]; decide), line_car_brake_other _ _ (by rw [hk]; decide)]

theorem line_car_keys_right (b : GameContext) (input : InputEvent) (now now2 : Nat)
    (hsh : is_short input = true) (hk : input.key = InputKey.Right) (hl : b.car_lane < 4) :
    line_car_keys b input now now2 =
      line_car_after_lane_change
        (tap_cadence { { (lane_key_hold input b) with
          prev_car_lane := (lane_key_hold input b).car_lane } with
          car_lane := (lane_key_hold input b).car_lane + 1 } now) now now2 8 15 := by
  unfold line_car_keys
  have e1 : line_car_right input now now2 (lane_key_hold input b) =
      line_car_after_lane_change
        (tap_cadence { { (lane_key_hold input b) with
          prev_car_lane := (lane_key_hold input b).car_lane } with
          car_lane := (lane_key_hold input b).car_lane + 1 } now) now now2 8 15 := by
    unfold line_car_right
    rw [if_pos ⟨hsh, hk, by rw [(lane_key_hold_keeps input b).2.2.2.1]; exact hl⟩]
  rw [line_car_left_other _ _ _ _ (by rw [hk]; decide), e1,
    line_car_up_other _ _ (by rw [hk]; decide), line_car_brake_other _ _ (by rw [hk]; decide)]

theorem flip_iq_keys_left (b : GameContext) (input : InputEvent) (now : Nat)
    (hsh : is_short input = true) (hk : input.key = InputKey.Left)
    (hl : b.car_lane > 0 ∧ b.car_lane - 1 < b.active_lanes) :
    flip_iq_keys b input now =
      tap_cadence { (lane_key_hold input b) with
        car_lane := (lane_key_hold input b).car_lane - 1 } now := by
  unfold flip_iq_keys
  have e1 : flip_iq_left input now (lane_key_hold input b) =
      tap_cadence { (lane_key_hold input b) with
        car_lane := (lane_key_hold input b).car_lane - 1 } now := by
    unfold flip_iq_left
    rw [if_pos ⟨hsh, hk, by
      rw [(lane_key_hold_keeps input b).2.2.2.1, (lane_key_hold_keeps input b).2.2.2.2]
      exact hl⟩]
  rw [e1, flip_iq_right_other _ _ _ (by rw [hk]; decide),
    flip_iq_up_other _ _ (by rw [hk]; decide), flip_iq_down_other _ _ (by rw [hk]; decide)]

theorem flip_iq_keys_right (b : GameContext) (input : InputEvent) (now : Nat)
    (hsh : is_short input = true) (hk : input.key = InputKey.Right)
    (hl : b.car_lane < 4 ∧ b.car_lane + 1 < b.active_lanes) :
    flip_iq_keys b input now =
      tap_cadence { (lane_key_hold input b) with
        car_lane := (lane_key_hold input b).car_lane + 1 } now := by
  unfold flip_iq_keys
  have e1 : flip_iq_right input now (lane_key_hold input b) =
      tap_cadence { (lane_key_hold input b) with
        car_lane := (lane_key_hold input b).car_lane + 1 } now := by
    unfold flip_iq_right
    rw [if_pos ⟨hsh, hk, by
      rw [(lane_key_hold_keeps input b).2.2.2.1, (lane_key_hold_keeps input b).2.2.2.2]
      exact hl⟩]
  rw [flip_iq_left_other _ _ _ (by rw [hk]; decide), e1,
    flip_iq_up_other _ _ (by rw [hk]; decide), flip_iq_down_other _ _ (by rw [hk]; decide)]

theorem flip_zip_keys_left (b : GameContext) (input : InputEvent) (now : Nat)
    (hsh : is_short input = true) (hk : input.key = InputKey.Left) (hl : b.mascot_lane > 0) :
    flip_zip_keys b input now = tap_cadence { b with mascot_lane := b.mascot_lane - 1 } now := by
  unfold flip_zip_keys
  have e1 : flip_zip_left input now b =
      tap_cadence { b with mascot_lane := b.mascot_lane - 1 } now := by
    unfold flip_zip_left; rw [if_pos ⟨hsh, hk, hl⟩]
  rw [e1, flip_zip_right_other _ _ _ (by rw [hk]; decide),
    flip_zip_up_other _ _ (by rw [hk]; decide), flip_zip_down_other _ _ (by rw [hk]; decide),
    flip_zip_ok_other _ _ _ (by rw [hk]; decide)]

theorem flip_zip_keys_right (b : GameContext) (input : InputEvent) (now : Nat)
    (hsh : is_short input = true) (hk : input.key = InputKey.Right) (hl : b.mascot_lane < 4) :
    flip_zip_keys b input now = tap_cadence { b with mascot_lane := b.mascot_lane + 1 } now := by
  unfold flip_zip_keys
  have e1 : flip_zip_right input now b =
      tap_cadence { b with mascot_lane := b.mascot_lane + 1 } now := by
    unfold flip_zip_right; rw [if_pos ⟨hsh, hk, hl⟩]
  rw [flip_zip_left_other _ _ _ (by rw [hk]; decide), e1,
    flip_zip_up_other _ _ (by rw [hk]; decide), flip_zip_down_other _ _ (by rw [hk]; decide),
    flip_zip_ok_other _ _ _ (by rw [hk]; decide)]

/-- An accepted lane change runs the cadence block once, on a context that
has the cadence fields of the context handed to the dispatch. -/
theorem lane_change_runs_tap_cadence (b : GameContext) (input : InputEvent) (now now2 : Nat)
    (rnd : Nat → Nat) (h : lane_change_tap b input) :
    ∃ c : GameContext,
      ((input_dispatch b input now now2 rnd).tap_count = (tap_cadence c now).tap_count ∧
       (input_dispatch b input now now2 rnd).tap_window_start =
         (tap_cadence c now).tap_window_start ∧
       (input_dispatch b input now now2 rnd).speed_bpm = (tap_cadence c now).speed_bpm) ∧
      c.tap_count = b.tap_count ∧ c.tap_window_start = b.tap_window_start ∧
      c.speed_bpm = b.speed_bpm := by
  obtain ⟨ht, hg⟩ := h
  have hsh : is_short input = true := by unfold is_short; rw [ht]; rfl
  obtain ⟨k1, k2, k3, _, _⟩ := lane_key_hold_keeps input b
  rcases hg with ⟨hs, hk | hk⟩ | ⟨hs, hk | hk⟩ | ⟨hs, hk | hk⟩
  · refine ⟨{ b with mascot_lane := b.mascot_lane - 1 }, ?_, rfl, rfl, rfl⟩
    have ed : input_dispatch b input now now2 rnd = input_flip_zip b input now := by
      unfold input_dispatch; rw [hs]
    rw [ed]; unfold input_flip_zip
    rw [game_state_back_other _ _ _ _ (by rw [hk.1]; decide),
      flip_zip_keys_left b input now hsh hk.1 hk.2]
    exact ⟨rfl, rfl, rfl⟩
  · refine ⟨{ b with mascot_lane := b.mascot_lane + 1 }, ?_, rfl, rfl, rfl⟩
    have ed : input_dispatch b input now now2 rnd = input_flip_zip b input now := by
      unfold input_dispatch; rw [hs]
    rw [ed]; unfold input_flip_zip
    rw [game_state_back_other _ _ _ _ (by rw [hk.1]; decide),
      flip_zip_keys_right b input now hsh hk.1 hk.2]
    exact ⟨rfl, rfl, rfl⟩
  · refine ⟨{ { (lane_key_hold input b) with
      prev_car_lane := (lane_key_hold input b).car_lane } with
      car_lane := (lane_key_hold input b).car_lane - 1 }, ?_, k1, k2, k3⟩
    have ed : input_dispatch b input now now2 rnd = input_line_car b input now now2 := by
      unfold input_dispatch; rw [hs]
    rw [ed]; unfold input_line_car
    rw [game_state_back_other _ _ _ _ (by rw [hk.1]; decide),
      line_car_keys_left b input now now2 hsh hk.1 hk.2]
    exact line_car_after_lane_change_cadence _ now now2 _ _
  · refine ⟨{ { (lane_key_hold input b) with
      prev_car_lane := (lane_key_hold input b).car_lane } with
      car_lane := (lane_key_hold input b).car_lane + 1 }, ?_, k1, k2, k3⟩
    have ed : input_dispatch b input now now2 rnd = input_line_car b input now now2 := by
      unfold input_dispatch; rw [hs]
    rw [ed]; unfold input_line_car
    rw [game_state_back_other _ _ _ _ (by rw [hk.1]; decide),
      line_car_keys_right b input now now2 hsh hk.1 hk.2]
    exact line_car_after_lane_change_cadence _ now now2 _ _
  · refine ⟨{ (lane_key_hold input b) with
      car_lane := (lane_key_hold input b).car_lane - 1 }, ?_, k1, k2, k3⟩
    have ed : input_dispatch b input now now2 rnd = input_flip_iq b input now := by
      unfold input_dispatch; rw [hs]
    rw [ed]; unfold input_flip_iq
    rw [game_state_back_other _ _ _ _ (by rw [hk.1]; decide),
      flip_iq_keys_left b input now hsh hk.1 hk.2]
    exact ⟨rfl, rfl, rfl⟩
  · refine ⟨{ (lane_key_hold input b) with
      car_lane := (lane_key_hold input b).car_lane + 1 }, ?_, k1, k2, k3⟩
    have ed : input_dispatch b input now now2 rnd = input_flip_iq b input now := by
      unfold input_dispatch; rw [hs]
    rw [ed]; unfold input_flip_iq
    rw [game_state_back_other _ _ _ _ (by rw [hk.1]; decide),
      flip_iq_keys_right b input now hsh hk.1 hk.2]
    exact ⟨rfl, rfl, rfl⟩

theorem input_bookkeeping_keeps (ctx : GameContext) (now : Nat) :
    (input_bookkeeping ctx now).state = ctx.state ∧
    (input_bookkeeping ctx now).mascot_lane = ctx.mascot_lane ∧
    (input_bookkeeping ctx now).car_lane = ctx.car_lane ∧
    (input_bookkeeping ctx now).active_lanes = ctx.active_lanes ∧
    (input_bookkeeping ctx now).speed_bpm = ctx.speed_bpm := by
  unfold input_bookkeeping; dsimp only; split_ifs <;> exact ⟨rfl, rfl, rfl, rfl, rfl⟩

theorem sub32_self (a : Nat) : sub32 a a = 0 := by
  unfold sub32; omega

theorem sub32_lt (a b : Nat) : sub32 a b < 4294967296 := by
  unfold sub32; omega

/-- Counterexample to C16: in Line Car at speed 125 an accepted short Left
whose cadence is 125 taps per minute sets the speed to 120, lower than
before. And at speed 16424 an accepted short Left that is tap 457 of a window
of 1669 ms has a cadence within 5 of the speed over the rationals, but the
single-precision quotient is 16429, the test fails and the speed stays
16424. -/
theorem tap_cadence_lowers_speed_above_cap :
    lane_change_tap fast_line_car_example short_left ∧
    fast_line_car_example.speed_bpm = 125 ∧
    (input_callback fast_line_car_example short_left clock_479 rand_zero).speed_bpm = 120 ∧
    lane_change_tap rounding_line_car_example short_left ∧
    rounding_line_car_example.speed_bpm = 16424 ∧
    (input_callback rounding_line_car_example short_left clock_1668 rand_zero).tap_count = 457 ∧
    sub32 (furi_get_tick clock_1668 0)
      (input_callback rounding_line_car_example short_left clock_1668
        rand_zero).tap_window_start + 1 = 1669 ∧
    |((457 : ℚ) * 60000) / 1669 - 16424| < 5 ∧
    (input_callback rounding_line_car_example short_left clock_1668 rand_zero).speed_bpm =
      16424 :=
  ⟨by decide, by decide, by decide, by decide, by decide, by decide, by decide,
   by norm_num [abs_lt], by decide⟩

/-- C16, amended. In Flip Zip, Line Car and Flip IQ, when a short Left or
Right is accepted as a lane change, with `n` the tap count after counting this
tap and `w` the start of the cadence window (both after the 60 s window
reset), `speed_bpm` becomes `min (speed_bpm + 10) 120` if the test
`fabsf(tap_bpm - (float)speed_bpm) < 5.0f` holds in single precision, with
`tap_bpm = (n * 60000.0f) / (float)(now - w + 1)`, and keeps its value
otherwise. For a speed between -250 and 250, which covers the range 0 to 120
the cap keeps the speed in, the test holds exactly when
`|n*60000/(now - w + 1) - speed_bpm| < 5` over the rationals. When
`speed_bpm` was at most 120 the result is not lower than it was. -/
theorem lane_change_tap_cadence (ctx : GameContext) (input : InputEvent) (tick rnd : Nat → Nat)
    (h : lane_change_tap ctx input) :
    (input_callback ctx input tick rnd).tap_count =
      (if sub32 (furi_get_tick tick 0)
          (input_bookkeeping ctx (furi_get_tick tick 0)).tap_window_start ≥ 60000 then 1
       else (input_bookkeeping ctx (furi_get_tick tick 0)).tap_count + 1) ∧
    (input_callback ctx input tick rnd).tap_window_start =
      (if sub32 (furi_get_tick tick 0)
          (input_bookkeeping ctx (furi_get_tick tick 0)).tap_window_start ≥ 60000 then
        furi_get_tick tick 0
       else (input_bookkeeping ctx (furi_get_tick tick 0)).tap_window_start) ∧
    (input_callback ctx input tick rnd).speed_bpm =
      (if tap_bpm_close (input_callback ctx input tick rnd).tap_count
          (sub32 (furi_get_tick tick 0)
            (input_callback ctx input tick rnd).tap_window_start + 1) ctx.speed_bpm
       then min (ctx.speed_bpm + 10) 120 else ctx.speed_bpm) ∧
    (-250 ≤ ctx.speed_bpm ∧ ctx.speed_bpm ≤ 250 →
      (input_callback ctx input tick rnd).speed_bpm =
        (if |(((input_callback ctx input tick rnd).tap_count : ℚ) * 60000) /
              ((sub32 (furi_get_tick tick 0)
                (input_callback ctx input tick rnd).tap_window_start + 1 : Nat) : ℚ) -
              (ctx.speed_bpm : ℚ)| < 5
         then min (ctx.speed_bpm + 10) 120 else ctx.speed_bpm)) ∧
    (ctx.speed_bpm ≤ 120 → ctx.speed_bpm ≤ (input_callback ctx input tick rnd).speed_bpm) := by
  have hk : input.key ≠ InputKey.Back := by
    obtain ⟨_, hg⟩ := h
    rcases hg with ⟨_, hk | hk⟩ | ⟨_, hk | hk⟩ | ⟨_, hk | hk⟩ <;> (rw [hk.1]; decide)
  have e0 : input_callback ctx input tick rnd =
      input_dispatch (input_bookkeeping ctx (furi_get_tick tick 0)) input (furi_get_tick tick 0)
        (furi_get_tick tick 1) rnd := by
    rw [input_callback_accepted ctx input tick rnd (fun hc => hk hc.1)]
    unfold record_short_back
    rw [if_neg (fun hc => hk hc.1)]
  obtain ⟨b1, b2, b3, b4, b5⟩ := input_bookkeeping_keeps ctx (furi_get_tick tick 0)
  have h' : lane_change_tap (input_bookkeeping ctx (furi_get_tick tick 0)) input := by
    unfold lane_change_tap at h ⊢
    rw [b1, b2, b3, b4]
    exact h
  obtain ⟨c, ⟨r1, r2, r3⟩, c1, c2, c3⟩ :=
    lane_change_runs_tap_cadence _ input (furi_get_tick tick 0) (furi_get_tick tick 1) rnd h'
  obtain ⟨t1, t2, t3⟩ := tap_cadence_fields c (furi_get_tick tick 0)
  rw [← e0] at r1 r2 r3
  rw [← r1, ← r2, ← r3, c3, b5] at t3
  rw [← r1, c1, c2] at t1
  rw [← r2, c2] at t2
  generalize input_callback ctx input tick rnd = r at t1 t2 t3 ⊢
  generalize input_bookkeeping ctx (furi_get_tick tick 0) = bk at t1 t2 ⊢
  have hd : sub32 (furi_get_tick tick 0) r.tap_window_start < 60000 := by
    rw [t2]
    split_ifs with hc
    · rw [sub32_self]; decide
    · omega
  have ha : add32 (sub32 (furi_get_tick tick 0) r.tap_window_start) 1 =
      sub32 (furi_get_tick tick 0) r.tap_window_start + 1 := by
    unfold add32; omega
  rw [ha] at t3
  refine ⟨t1, t2, t3, ?_, ?_⟩
  · intro hs
    have hiff := tap_bpm_close_iff r.tap_count
      (sub32 (furi_get_tick tick 0) r.tap_window_start + 1) ctx.speed_bpm (Nat.succ_pos _)
      (by omega) (abs_le.2 hs)
    rw [t3]
    by_cases hc : tap_bpm_close r.tap_count
        (sub32 (furi_get_tick tick 0) r.tap_window_start + 1) ctx.speed_bpm = true
    · rw [if_pos hc, if_pos (hiff.mp hc)]
    · rw [if_neg hc, if_neg (fun hq => hc (hiff.mpr hq))]
  · intro hle
    rw [t3]
    split_ifs
    · exact le_min (by omega) hle
    · exact le_refl _

/-- Witness of C16, amended: a short Left in Line Car at speed 60, the first tap of a
window opened 999 ms before, a cadence of one tap in 1000 ms: the speed becomes 70. -/
theorem lane_change_tap_cadence_witness :
    lane_change_tap steady_line_car_example short_left ∧
    steady_line_car_example.speed_bpm = 60 ∧
    (input_callback steady_line_car_example short_left clock_999 rand_zero).tap_count = 1 ∧
    sub32 (furi_get_tick clock_999 0)
      (input_callback steady_line_car_example short_left clock_999
        rand_zero).tap_window_start + 1 = 1000 ∧
    (input_callback steady_line_car_example short_left clock_999 rand_zero).speed_bpm = 70 ∧
    (input_callback steady_line_car_example short_left clock_999 rand_zero).speed_bpm =
      (if |(((input_callback steady_line_car_example short_left clock_999
              rand_zero).tap_count : ℚ) * 60000) /
            ((sub32 (furi_get_tick clock_999 0)
              (input_callback steady_line_car_example short_left clock_999
                rand_zero).tap_window_start + 1 : Nat) : ℚ) -
            (steady_line_car_example.speed_bpm : ℚ)| < 5
       then min (steady_line_car_example.speed_bpm + 10) 120
       else steady_line_car_example.speed_bpm) ∧
    steady_line_car_example.speed_bpm ≤
      (input_callback steady_line_car_example short_left clock_999 rand_zero).speed_bpm :=
  ⟨by decide, by decide, by decide, by decide, by decide,
   (lane_change_tap_cadence steady_line_car_example short_left clock_999 rand_zero
      (by decide)).2.2.2.1 ⟨by decide, by decide⟩,
   (lane_change_tap_cadence steady_line_car_example short_left clock_999 rand_zero
      (by decide)).2.2.2.2 (by decide)⟩

/-! ## The drift window of Line Car -/

theorem line_car_speed_adjust_drift (tick : Nat → Nat) (s : Run) :
    drift_state (line_car_speed_adjust tick s).ctx = drift_state s.ctx ∧
    car_position (line_car_speed_adjust tick s).ctx = car_position s.ctx := by
  unfold line_car_speed_adjust; split_ifs <;> exact ⟨rfl, rfl⟩

theorem line_car_slot_drift (rnd : Nat → Nat) (m : Int) (i j : Nat) (s : Run) :
    drift_state (line_car_slot rnd m i j s).ctx = drift_state s.ctx ∧
    car_position (line_car_slot rnd m i j s).ctx = car_position s.ctx := by
  unfold line_car_slot line_car_scrolled; split_ifs <;> exact ⟨rfl, rfl⟩

theorem line_car_scroll_drift (rnd : Nat → Nat) (m : Int) (s : Run) :
    drift_state (line_car_scroll rnd m s).ctx = drift_state s.ctx ∧
    car_position (line_car_scroll rnd m s).ctx = car_position s.ctx := by
  unfold line_car_scroll
  apply for_loop_inv (fun t : Run =>
    drift_state t.ctx = drift_state s.ctx ∧ car_position t.ctx = car_position s.ctx)
  · intro i t ht
    apply for_loop_inv (fun t : Run =>
      drift_state t.ctx = drift_state s.ctx ∧ car_position t.ctx = car_position s.ctx)
    · intro j u hu
      obtain ⟨e1, e2⟩ := line_car_slot_drift rnd m i j u
      exact ⟨e1.trans hu.1, e2.trans hu.2⟩
    · exact ht
  · exact ⟨rfl, rfl⟩

theorem line_car_before_drift_keeps (ctx : GameContext) (tick rnd : Nat → Nat) :
    drift_state (line_car_before_drift ctx tick rnd).ctx = drift_state ctx ∧
    car_position (line_car_before_drift ctx tick rnd).ctx = car_position ctx ∧
    (line_car_before_drift ctx tick rnd).ctx.last_drift_time = ctx.last_drift_time := by
  refine ⟨?_, ?_, congrArg Steady.last_drift_time (steady_line_car_before_drift ctx tick rnd)⟩
  · unfold line_car_before_drift
    rw [(line_car_scroll_drift _ _ _).1, (line_car_speed_adjust_drift _ _).1]; rfl
  · unfold line_car_before_drift
    rw [(line_car_scroll_drift _ _ _).2, (line_car_speed_adjust_drift _ _).2]; rfl

theorem line_car_reposition_lane_drift (rnd : Nat → Nat) (i : Nat) (s : Run) :
    drift_state (line_car_reposition_lane rnd i s).1.ctx = drift_state s.ctx := by
  unfold line_car_reposition_lane
  exact for_loop_break_inv (fun t : Run => drift_state t.ctx = drift_state s.ctx) _
    (fun j t ht => by
      have e : drift_state (line_car_reposition_slot rnd i j t).1.ctx = drift_state t.ctx := by
        unfold line_car_reposition_slot; split_ifs <;> rfl
      exact e.trans ht) _ s rfl

theorem line_car_bottom_drift (c : GameContext) :
    drift_state (line_car_bottom c) = drift_state c := by
  unfold line_car_bottom
  exact for_loop_break_inv (fun t : GameContext => drift_state t = drift_state c) _
    (fun i t ht => by
      have e : drift_state (line_car_find_lane_step i t).1 = drift_state t := by
        unfold line_car_find_lane_step; split_ifs <;> rfl
      exact e.trans ht) 5 _ rfl

theorem line_car_off_track_drift (tick rnd : Nat → Nat) (s : Run) :
    drift_state (line_car_off_track tick rnd s).ctx = drift_state s.ctx := by
  unfold line_car_off_track
  split_ifs
  · exact for_loop_break_inv (fun t : Run => drift_state t.ctx = drift_state s.ctx) _
      (fun i t ht => (line_car_reposition_lane_drift rnd i t).trans ht) 5 _ rfl
  · rfl

theorem line_car_gravity_drift (tick rnd : Nat → Nat) (m : Int) (s : Run) :
    drift_state (line_car_gravity tick rnd m s).ctx = drift_state s.ctx := by
  unfold line_car_gravity line_car_fallen
  split_ifs
  · rfl
  · rw [line_car_off_track_drift]
    exact line_car_bottom_drift _
  · rfl

theorem line_car_drift_slowdown_drift (c : GameContext) :
    drift_state (line_car_drift_slowdown c) = drift_state c := by
  unfold line_car_drift_slowdown; split_ifs <;> rfl

theorem update_line_car_drift (ctx : GameContext) (tick rnd : Nat → Nat)
    (hg : ¬ rate_limited ctx (speed_fps ctx) tick) :
    drift_state (update_line_car ctx tick rnd) =
      drift_state (line_car_drift_check tick (line_car_before_drift ctx tick rnd)).ctx := by
  unfold update_line_car
  rw [if_neg hg, line_car_drift_slowdown_drift, line_car_gravity_drift]

theorem drift_state_fields (c d : GameContext) (h : drift_state c = drift_state d) :
    c.score = d.score ∧ c.uber_points = d.uber_points ∧
    c.drift_multiplier = d.drift_multiplier ∧ c.is_drifting = d.is_drifting ∧
    c.car_angle = d.car_angle :=
  ⟨congrArg (fun p : Int × Int × Int × Bool × Int => p.1) h,
   congrArg (fun p : Int × Int × Int × Bool × Int => p.2.1) h,
   congrArg (fun p : Int × Int × Int × Bool × Int => p.2.2.1) h,
   congrArg (fun p : Int × Int × Int × Bool × Int => p.2.2.2.1) h,
   congrArg (fun p : Int × Int × Int × Bool × Int => p.2.2.2.2) h⟩

theorem line_car_bank_fields (c : GameContext) :
    (over_track c c.car_lane → (line_car_bank c).score = c.score + c.uber_points * c.drift_multiplier) ∧
    (¬ over_track c c.car_lane → (line_car_bank c).score = c.score) ∧
    (line_car_bank c).is_drifting = false ∧ (line_car_bank c).car_angle = 0 := by
  unfold line_car_bank
  split_ifs with h
  · exact ⟨fun _ => rfl, fun hn => absurd h hn, rfl, rfl⟩
  · exact ⟨fun hp => absurd hp h, fun _ => rfl, rfl, rfl⟩

theorem line_car_drift_end_ctx (tick : Nat → Nat) (s : Run) :
    (line_car_drift_end tick s).ctx =
      line_car_reset_points
        { (line_car_bank s.ctx) with
          notification_text := line_car_drift_text s.ctx
          last_notification_time := furi_get_tick tick s.ticks
          notification_x := notification_center (line_car_drift_text s.ctx) } := rfl

theorem line_car_drift_end_fields (tick : Nat → Nat) (s : Run) :
    (line_car_drift_end tick s).ctx.score = (line_car_bank s.ctx).score ∧
    (line_car_drift_end tick s).ctx.uber_points = 0 ∧
    (line_car_drift_end tick s).ctx.drift_multiplier = 1 ∧
    (line_car_drift_end tick s).ctx.is_drifting = (line_car_bank s.ctx).is_drifting ∧
    (line_car_drift_end tick s).ctx.car_angle = (line_car_bank s.ctx).car_angle := by
  rw [line_car_drift_end_ctx]
  generalize line_car_bank s.ctx = B
  generalize line_car_drift_text s.ctx = T
  exact ⟨rfl, rfl, rfl, rfl, rfl⟩

/-- C15. In `update_line_car` when not rate-limited and `is_drifting` holds:
if the reading of the clock made by the drift check is more than 693 ms past
`last_drift_time`, then the score grows by `uber_points * drift_multiplier`
when the car is over a live first segment of its lane (tested on the track
after this tick's scrolling, the car where it was) and is unchanged
otherwise, and in both cases `uber_points` is 0, `drift_multiplier` is 1,
`is_drifting` is false and `car_angle` is 0; if not, none of these five
fields changes. -/
theorem drift_window_scoring (ctx : GameContext) (tick rnd : Nat → Nat)
    (hg : ¬ rate_limited ctx (speed_fps ctx) tick) (hdr : ctx.is_drifting = true) :
    car_position (line_car_before_drift ctx tick rnd).ctx = car_position ctx ∧
    (sub32 ((line_car_before_drift ctx tick rnd).now tick) ctx.last_drift_time > 693 →
      (over_track (line_car_before_drift ctx tick rnd).ctx ctx.car_lane →
        (update_line_car ctx tick rnd).score =
          ctx.score + ctx.uber_points * ctx.drift_multiplier) ∧
      (¬ over_track (line_car_before_drift ctx tick rnd).ctx ctx.car_lane →
        (update_line_car ctx tick rnd).score = ctx.score) ∧
      (update_line_car ctx tick rnd).uber_points = 0 ∧
      (update_line_car ctx tick rnd).drift_multiplier = 1 ∧
      (update_line_car ctx tick rnd).is_drifting = false ∧
      (update_line_car ctx tick rnd).car_angle = 0) ∧
    (¬ sub32 ((line_car_before_drift ctx tick rnd).now tick) ctx.last_drift_time > 693 →
      (update_line_car ctx tick rnd).score = ctx.score ∧
      (update_line_car ctx tick rnd).uber_points = ctx.uber_points ∧
      (update_line_car ctx tick rnd).drift_multiplier = ctx.drift_multiplier ∧
      (update_line_car ctx tick rnd).is_drifting = true ∧
      (update_line_car ctx tick rnd).car_angle = ctx.car_angle) := by
  obtain ⟨hb, hp, hl⟩ := line_car_before_drift_keeps ctx tick rnd
  obtain ⟨f1, f2, f3, f4, f5⟩ := drift_state_fields _ _ hb
  have hlane : (line_car_before_drift ctx tick rnd).ctx.car_lane = ctx.car_lane :=
    congrArg (fun p : Int × Int => p.1) hp
  obtain ⟨u1, u2, u3, u4, u5⟩ := drift_state_fields _ _ (update_line_car_drift ctx tick rnd hg)
  rw [u1, u2, u3, u4, u5, ← hl, ← hlane, ← f1, ← f2, ← f3, ← f5]
  rw [hdr] at f4
  generalize line_car_before_drift ctx tick rnd = s at f4 hp ⊢
  refine ⟨hp, ?_, ?_⟩
  · intro hw
    unfold line_car_drift_check
    rw [if_pos f4, if_pos hw]
    obtain ⟨d1, d2, d3, d4, d5⟩ := line_car_drift_end_fields tick s.read
    obtain ⟨k1, k2, k3, k4⟩ := line_car_bank_fields s.ctx
    rw [d1, d2, d3, d4, d5]
    exact ⟨k1, k2, rfl, rfl, k3, k4⟩
  · intro hw
    unfold line_car_drift_check
    rw [if_pos f4, if_neg hw]
    exact ⟨rfl, rfl, rfl, f4, rfl⟩

/-- Witness of C15: a drift started 1000 ms before, over track, banks 3 * 2. -/
theorem drift_window_scoring_witness :
    ¬ rate_limited drift_example (speed_fps drift_example) clock_2000 ∧
    drift_example.is_drifting = true ∧
    (update_line_car drift_example clock_2000 rand_zero).score = 10 + 3 * 2 ∧
    (update_line_car drift_example clock_2000 rand_zero).uber_points = 0 :=
  ⟨by decide, by decide,
   ((drift_window_scoring drift_example clock_2000 rand_zero (by decide) (by decide)).2.1
      (by decide)).1 (by decide),
   ((drift_window_scoring drift_example clock_2000 rand_zero (by decide) (by decide)).2.1
      (by decide)).2.2.1⟩

/-! ## The streak of Zero Hero -/

theorem zero_hero_hit_core (tick : Nat → Nat) (i j : Int) (s : Run) :
    zero_hero_core (zero_hero_hit tick i j s).ctx =
      zero_hero_core (zero_hero_wrap (zero_hero_count_hit i j s.ctx)) := by
  unfold zero_hero_hit
  have h1 : ∀ c, zero_hero_core (zero_hero_highest c) = zero_hero_core c := by
    intro c; unfold zero_hero_highest; split_ifs <;> rfl
  have h2 : ∀ c, zero_hero_core (zero_hero_stats c) = zero_hero_core c := fun _ => rfl
  have h3 : ∀ t, zero_hero_core (zero_hero_milestone tick t).ctx = zero_hero_core t.ctx := by
    intro t; unfold zero_hero_milestone; split_ifs <;> rfl
  rw [run_map_ctx, h1, run_map_ctx, h2, h3]
  rfl

theorem zero_hero_core_fields (c d : GameContext) (h : zero_hero_core c = zero_hero_core d) :
    c.streak = d.streak ∧ c.oflow = d.oflow ∧ c.score = d.score ∧
    c.key_positions = d.key_positions ∧ c.strum_hit = d.strum_hit :=
  ⟨congrArg (fun p : Int × Int × Int × (Fin 5 → Fin 10 → Int) × (Fin 5 → Bool) => p.1) h,
   congrArg (fun p : Int × Int × Int × (Fin 5 → Fin 10 → Int) × (Fin 5 → Bool) => p.2.1) h,
   congrArg (fun p : Int × Int × Int × (Fin 5 → Fin 10 → Int) × (Fin 5 → Bool) => p.2.2.1) h,
   congrArg (fun p : Int × Int × Int × (Fin 5 → Fin 10 → Int) × (Fin 5 → Bool) => p.2.2.2.1) h,
   congrArg (fun p : Int × Int × Int × (Fin 5 → Fin 10 → Int) × (Fin 5 → Bool) => p.2.2.2.2) h⟩

/-- What the hit block leaves in the counters, the slot and the highlight. -/
theorem zero_hero_hit_fields (tick : Nat → Nat) (i j : Int) (s : Run) :
    (zero_hero_hit tick i j s).ctx.streak =
      (if s.ctx.streak + 1 ≥ MAX_STREAK_INT then 0 else s.ctx.streak + 1) ∧
    (zero_hero_hit tick i j s).ctx.oflow =
      (if s.ctx.streak + 1 ≥ MAX_STREAK_INT then s.ctx.oflow + 1 else s.ctx.oflow) ∧
    (zero_hero_hit tick i j s).ctx.score = s.ctx.score + 1 ∧
    (zero_hero_hit tick i j s).ctx.key_positions = set2 s.ctx.key_positions i j 0 ∧
    (zero_hero_hit tick i j s).ctx.strum_hit = set1 s.ctx.strum_hit i true := by
  obtain ⟨e1, e2, e3, e4, e5⟩ := zero_hero_core_fields _ _ (zero_hero_hit_core tick i j s)
  rw [e1, e2, e3, e4, e5]
  unfold zero_hero_wrap
  have hc : (zero_hero_count_hit i j s.ctx).streak = s.ctx.streak + 1 := rfl
  by_cases h : s.ctx.streak + 1 ≥ MAX_STREAK_INT
  · rw [if_pos (by rw [hc]; exact h), if_pos h, if_pos h]
    exact ⟨rfl, rfl, rfl, rfl, rfl⟩
  · rw [if_neg (by rw [hc]; exact h), if_neg h, if_neg h]
    exact ⟨rfl, rfl, rfl, rfl, rfl⟩

theorem zero_hero_miss_fields (tick : Nat → Nat) (i j : Int) (s : Run) :
    (zero_hero_miss tick i j s).ctx.streak = 0 ∧
    (zero_hero_miss tick i j s).ctx.oflow = s.ctx.oflow :=
  ⟨rfl, rfl⟩

/-- The streak and `oflow` after one pass of the inner loop. -/
theorem zero_hero_slot_streak (tick : Nat → Nat) (i j : Nat) (s : Run) :
    (zero_hero_crossing i j s → (zero_hero_slot tick i j s).ctx.oflow = s.ctx.oflow + 1) ∧
    (¬ zero_hero_crossing i j s → (zero_hero_slot tick i j s).ctx.oflow = s.ctx.oflow) ∧
    (0 ≤ s.ctx.streak ∧ s.ctx.streak ≤ 9998 →
      0 ≤ (zero_hero_slot tick i j s).ctx.streak ∧
      (zero_hero_slot tick i j s).ctx.streak ≤ 9998) := by
  unfold zero_hero_crossing zero_hero_hits
  unfold zero_hero_slot
  by_cases h1 : get2 s.ctx.key_positions i j > 0
  · rw [if_pos h1]
    unfold zero_hero_judge
    rw [run_map_ctx]
    by_cases h2 : get2 (zero_hero_advance i j s.ctx).key_positions i j ≥ PORTRAIT_HEIGHT - 6 ∧
        get2 (zero_hero_advance i j s.ctx).key_positions i j ≤ PORTRAIT_HEIGHT - 4
    · rw [if_pos h2]
      have hh : get1 (zero_hero_advance i j s.ctx).is_holding i = get1 s.ctx.is_holding i := rfl
      rw [hh]
      by_cases h3 : get1 s.ctx.is_holding i = true
      · rw [if_pos h3]
        obtain ⟨e1, e2, _, _, _⟩ :=
          zero_hero_hit_fields tick i j (Run.map (zero_hero_advance i j) s)
        have hs : (Run.map (zero_hero_advance i j) s).ctx.streak = s.ctx.streak := rfl
        have ho : (Run.map (zero_hero_advance i j) s).ctx.oflow = s.ctx.oflow := rfl
        rw [hs] at e1
        rw [hs, ho] at e2
        rw [e1, e2]
        unfold MAX_STREAK_INT
        refine ⟨fun hc => ?_, fun hc => ?_, fun hb => ?_⟩
        · rw [if_pos hc.2]
        · rw [if_neg (fun h4 => hc ⟨⟨h1, h2, h3⟩, h4⟩)]
        · split_ifs <;> omega
      · rw [if_neg h3]
        exact ⟨fun hc => absurd hc.1.2.2 h3, fun _ => rfl, fun hb => hb⟩
    · rw [if_neg h2]
      by_cases h5 : get2 (zero_hero_advance i j s.ctx).key_positions i j > PORTRAIT_HEIGHT - 5
      · rw [if_pos h5]
        refine ⟨fun hc => absurd hc.1.2.1 h2, fun _ => rfl, fun _ => ?_⟩
        rw [(zero_hero_miss_fields tick i j _).1]
        decide
      · rw [if_neg h5]
        exact ⟨fun hc => absurd hc.1.2.1 h2, fun _ => rfl, fun hb => hb⟩
  · rw [if_neg h1]
    exact ⟨fun hc => absurd hc.1.1 h1, fun _ => rfl, fun hb => hb⟩

theorem loop_from_counted {σ : Type} (body : Nat → σ → σ) (counted : Nat → σ × Nat → σ × Nat)
    (h : ∀ i p, (counted i p).1 = body i p.1) :
    ∀ n i p, (loop_from i n counted p).1 = loop_from i n body p.1 := by
  intro n
  induction n with
  | zero => intro i p; rfl
  | succ n ih =>
    intro i p
    show (loop_from (i + 1) n counted (counted i p)).1 = loop_from (i + 1) n body (body i p.1)
    rw [ih (i + 1) (counted i p), h i p]

theorem for_loop_counted {σ : Type} (body : Nat → σ → σ) (counted : Nat → σ × Nat → σ × Nat)
    (h : ∀ i p, (counted i p).1 = body i p.1) (n : Nat) (p : σ × Nat) :
    (for_loop n counted p).1 = for_loop n body p.1 :=
  loop_from_counted body counted h n 0 p

theorem zero_hero_lane_counted_run (tick : Nat → Nat) (i : Nat) (p : Run × Nat) :
    (zero_hero_lane_counted tick i p).1 = zero_hero_lane tick i p.1 := by
  unfold zero_hero_lane_counted zero_hero_lane
  exact for_loop_counted (fun j s => zero_hero_slot tick i j s)
    (fun j q => zero_hero_slot_counted tick i j q) (fun _ _ => rfl) 10 _

theorem zero_hero_lanes_counted_run (tick : Nat → Nat) (p : Run × Nat) :
    (for_loop 5 (fun i q => zero_hero_lane_counted tick i q) p).1 = zero_hero_lanes tick p.1 := by
  unfold zero_hero_lanes
  exact for_loop_counted (fun i s => zero_hero_lane tick i s)
    (fun i q => zero_hero_lane_counted tick i q) (zero_hero_lane_counted_run tick) 5 p

theorem zero_hero_slot_counted_oflow (tick : Nat → Nat) (i j : Nat) (p : Run × Nat) (o : Int)
    (h : p.1.ctx.oflow = o + p.2) :
    (zero_hero_slot_counted tick i j p).1.ctx.oflow = o + (zero_hero_slot_counted tick i j p).2 := by
  obtain ⟨h1, h2, _⟩ := zero_hero_slot_streak tick i j p.1
  unfold zero_hero_slot_counted
  by_cases hc : zero_hero_crossing i j p.1
  · rw [if_pos hc]
    show (zero_hero_slot tick i j p.1).ctx.oflow = o + ((p.2 + 1 : Nat) : Int)
    rw [h1 hc, h]; push_cast; ring
  · rw [if_neg hc]
    show (zero_hero_slot tick i j p.1).ctx.oflow = o + (p.2 : Int)
    rw [h2 hc, h]

theorem zero_hero_lanes_counted_oflow (tick : Nat → Nat) (p : Run × Nat) (o : Int)
    (h : p.1.ctx.oflow = o + p.2) :
    (for_loop 5 (fun i q => zero_hero_lane_counted tick i q) p).1.ctx.oflow =
      o + (for_loop 5 (fun i q => zero_hero_lane_counted tick i q) p).2 := by
  apply for_loop_inv (fun q : Run × Nat => q.1.ctx.oflow = o + q.2)
  · intro i q hq
    unfold zero_hero_lane_counted
    apply for_loop_inv (fun q : Run × Nat => q.1.ctx.oflow = o + q.2)
    · intro j r hr
      exact zero_hero_slot_counted_oflow tick i j r o hr
    · exact hq
  · exact h

theorem zero_hero_lanes_streak (tick : Nat → Nat) (s : Run)
    (h : 0 ≤ s.ctx.streak ∧ s.ctx.streak ≤ 9998) :
    0 ≤ (zero_hero_lanes tick s).ctx.streak ∧ (zero_hero_lanes tick s).ctx.streak ≤ 9998 := by
  unfold zero_hero_lanes
  apply for_loop_inv (fun t : Run => 0 ≤ t.ctx.streak ∧ t.ctx.streak ≤ 9998)
  · intro i t ht
    unfold zero_hero_lane
    apply for_loop_inv (fun t : Run => 0 ≤ t.ctx.streak ∧ t.ctx.streak ≤ 9998)
    · intro j u hu
      exact (zero_hero_slot_streak tick i j u).2.2 hu
    · exact ht
  · exact h

theorem zero_hero_spawn_counters (rnd : Nat → Nat) (s : Run) :
    zero_hero_counters (zero_hero_spawn rnd s).ctx = zero_hero_counters s.ctx := by
  unfold zero_hero_spawn zero_hero_spawn_lane
  split_ifs
  · exact for_loop_break_inv (fun t : Run => zero_hero_counters t.ctx = zero_hero_counters s.ctx)
      _ (fun j t ht => by
        have e : zero_hero_counters
            (zero_hero_spawn_slot (Int.tmod ((Run.map beat s).rand rnd) 5) j t).1.ctx =
            zero_hero_counters t.ctx := by
          unfold zero_hero_spawn_slot; split_ifs <;> rfl
        exact e.trans ht) 10 _ rfl
  · rfl

theorem zero_hero_difficulty_counters (tick rnd : Nat → Nat) (s : Run) :
    zero_hero_counters (zero_hero_difficulty tick rnd s).ctx = zero_hero_counters s.ctx ∧
    (zero_hero_difficulty tick rnd s).ctx.key_positions = s.ctx.key_positions := by
  have ht : ∀ c, zero_hero_counters (zero_hero_tier_up c) = zero_hero_counters c ∧
      (zero_hero_tier_up c).key_positions = c.key_positions := by
    intro c; unfold zero_hero_tier_up; split_ifs <;> exact ⟨rfl, rfl⟩
  have hr : ∀ t : Run, zero_hero_counters (zero_hero_raise tick rnd t).ctx =
      zero_hero_counters t.ctx ∧
      (zero_hero_raise tick rnd t).ctx.key_positions = t.ctx.key_positions :=
    fun t => ht t.ctx
  unfold zero_hero_difficulty zero_hero_escalate
  split_ifs
  · exact hr s.read
  · exact ⟨rfl, rfl⟩
  · exact ⟨rfl, rfl⟩

theorem zero_hero_counters_fields (c d : GameContext)
    (h : zero_hero_counters c = zero_hero_counters d) :
    c.streak = d.streak ∧ c.oflow = d.oflow ∧ c.score = d.score ∧ c.strum_hit = d.strum_hit :=
  ⟨congrArg (fun p : Int × Int × Int × (Fin 5 → Bool) => p.1) h,
   congrArg (fun p : Int × Int × Int × (Fin 5 → Bool) => p.2.1) h,
   congrArg (fun p : Int × Int × Int × (Fin 5 → Bool) => p.2.2.1) h,
   congrArg (fun p : Int × Int × Int × (Fin 5 → Bool) => p.2.2.2) h⟩

/-- After the rate limit, the counters and the highlight of `update_zero_hero`
are those the loops over the lanes leave. -/
theorem update_zero_hero_counters (ctx : GameContext) (tick rnd : Nat → Nat)
    (hg : ¬ rate_limited ctx (zero_hero_fps ctx) tick) :
    zero_hero_counters (update_zero_hero ctx tick rnd) =
      zero_hero_counters (zero_hero_lanes tick (stamped ctx tick)).ctx := by
  unfold update_zero_hero
  rw [if_neg hg, (zero_hero_difficulty_counters _ _ _).1, zero_hero_spawn_counters]

/-- C12. Every hit that brings the streak to `MAX_STREAK_INT` sets it to 0 and
adds exactly 1 to `oflow`, every other hit adds 1 to the streak and leaves
`oflow` as it is; with `0 <= streak <= 9998` before `update_zero_hero` the
same bounds hold after it, and `oflow` grows by exactly the number of
threshold crossings of that update (none when the update is rate-limited). -/
theorem streak_overflow_pair (ctx : GameContext) (tick rnd : Nat → Nat)
    (hs : 0 ≤ ctx.streak ∧ ctx.streak ≤ 9998) :
    (∀ (i j : Int) (s : Run),
      (s.ctx.streak + 1 ≥ MAX_STREAK_INT →
        (zero_hero_hit tick i j s).ctx.streak = 0 ∧
        (zero_hero_hit tick i j s).ctx.oflow = s.ctx.oflow + 1) ∧
      (s.ctx.streak + 1 < MAX_STREAK_INT →
        (zero_hero_hit tick i j s).ctx.streak = s.ctx.streak + 1 ∧
        (zero_hero_hit tick i j s).ctx.oflow = s.ctx.oflow)) ∧
    (0 ≤ (update_zero_hero ctx tick rnd).streak ∧
      (update_zero_hero ctx tick rnd).streak ≤ 9998) ∧
    (update_zero_hero ctx tick rnd).oflow =
      ctx.oflow +
        (if rate_limited ctx (zero_hero_fps ctx) tick then 0
         else (zero_hero_crossings ctx tick : Int)) := by
  refine ⟨?_, ?_, ?_⟩
  · intro i j s
    obtain ⟨e1, e2, _, _, _⟩ := zero_hero_hit_fields tick i j s
    rw [e1, e2]
    constructor
    · intro h; rw [if_pos h, if_pos h]; exact ⟨rfl, rfl⟩
    · intro h; rw [if_neg (not_le.mpr h), if_neg (not_le.mpr h)]; exact ⟨rfl, rfl⟩
  · by_cases hg : rate_limited ctx (zero_hero_fps ctx) tick
    · unfold update_zero_hero; rw [if_pos hg]; exact hs
    · rw [(zero_hero_counters_fields _ _ (update_zero_hero_counters ctx tick rnd hg)).1]
      exact zero_hero_lanes_streak tick (stamped ctx tick) hs
  · by_cases hg : rate_limited ctx (zero_hero_fps ctx) tick
    · rw [if_pos hg]; unfold update_zero_hero; rw [if_pos hg]; omega
    · rw [if_neg hg,
        (zero_hero_counters_fields _ _ (update_zero_hero_counters ctx tick rnd hg)).2.1]
      have h := zero_hero_lanes_counted_oflow tick (stamped ctx tick, 0) ctx.oflow
        (by show ctx.oflow = ctx.oflow + ((0 : Nat) : Int); simp)
      rw [zero_hero_lanes_counted_run] at h
      exact h

/-- Witness of C12: one hit from streak 9998 is one threshold crossing. -/
theorem streak_overflow_pair_witness :
    (0 ≤ score_example.streak ∧ score_example.streak ≤ 9998) ∧
    zero_hero_crossings score_example clock_1020 = 1 ∧
    (update_zero_hero score_example clock_1020 rand_zero).streak ≤ 9998 :=
  ⟨by decide, by decide,
   (streak_overflow_pair score_example clock_1020 rand_zero (by decide)).2.1.2⟩

/-! ## A hit in Zero Hero -/

theorem loop_from_inv_lt {σ : Type} (P : Nat → σ → Prop) (body : Nat → σ → σ) (m : Nat)
    (h : ∀ k s, k < m → P k s → P (k + 1) (body k s)) :
    ∀ n i s, i + n ≤ m → P i s → P (i + n) (loop_from i n body s) := by
  intro n
  induction n with
  | zero => intro i s _ hs; exact hs
  | succ n ih =>
    intro i s hm hs
    have := ih (i + 1) (body i s) (by omega) (h i s (by omega) hs)
    rw [show i + (n + 1) = i + 1 + n by omega]
    exact this

theorem for_loop_inv_lt {σ : Type} (P : Nat → σ → Prop) (body : Nat → σ → σ) (n : Nat)
    (h : ∀ k s, k < n → P k s → P (k + 1) (body k s)) (s : σ) (hs : P 0 s) :
    P n (for_loop n body s) := by
  have := loop_from_inv_lt P body n h n 0 s (by omega) hs
  rw [Nat.zero_add] at this
  exact this

theorem get2_fin {m n : Nat} (a : Fin m → Fin n → Int) (i : Fin m) (j : Fin n) :
    get2 a (i.val : Int) (j.val : Int) = a i j := by
  unfold get2
  have h : (0 ≤ (i.val : Int) ∧ (i.val : Int).toNat < m) ∧
      (0 ≤ (j.val : Int) ∧ (j.val : Int).toNat < n) := by
    have hi := i.isLt
    have hj := j.isLt
    omega
  rw [dif_pos h]
  congr 1

theorem get1_fin {n : Nat} (a : Fin n → Bool) (i : Fin n) : get1 a (i.val : Int) = a i := by
  unfold get1
  have h : 0 ≤ (i.val : Int) ∧ (i.val : Int).toNat < n := by
    have hi := i.isLt
    omega
  rw [dif_pos h]
  congr 1

/-- Reading a two-dimensional array that is 0 everywhere gives 0, in and out
of bounds. -/
theorem get2_zero {m n : Nat} (a : Fin m → Fin n → Int) (h : ∀ k l, a k l = 0) (i j : Int) :
    get2 a i j = 0 := by
  unfold get2
  split_ifs
  · exact h _ _
  · rfl

theorem zero_hero_slot_skip (tick : Nat → Nat) (a b : Nat) (t : Run)
    (h : ¬ get2 t.ctx.key_positions a b > 0) : zero_hero_slot tick a b t = t := by
  unfold zero_hero_slot; rw [if_neg h]

theorem zero_hero_slot_hit (tick : Nat → Nat) (a b : Nat) (t : Run)
    (h : zero_hero_hits a b t) :
    zero_hero_slot tick a b t = zero_hero_hit tick a b (Run.map (zero_hero_advance a b) t) := by
  obtain ⟨h1, h2, h3⟩ := h
  unfold zero_hero_slot
  rw [if_pos h1]
  unfold zero_hero_judge
  rw [run_map_ctx, if_pos h2]
  have hh : get1 (zero_hero_advance a b t.ctx).is_holding a = get1 t.ctx.is_holding a := rfl
  rw [hh, if_pos h3]

theorem zero_hero_hit_rest (tick : Nat → Nat) (i j : Int) (s : Run) :
    (zero_hero_hit tick i j s).rands = s.rands ∧
    (zero_hero_hit tick i j s).ctx.ai_beat_counter = s.ctx.ai_beat_counter := by
  have h1 : ∀ c, (zero_hero_highest c).ai_beat_counter = c.ai_beat_counter := by
    intro c; unfold zero_hero_highest; split_ifs <;> rfl
  have h2 : ∀ c, (zero_hero_wrap c).ai_beat_counter = c.ai_beat_counter := by
    intro c; unfold zero_hero_wrap; split_ifs <;> rfl
  have h3 : ∀ t : Run, (zero_hero_milestone tick t).rands = t.rands ∧
      (zero_hero_milestone tick t).ctx.ai_beat_counter = t.ctx.ai_beat_counter := by
    intro t; unfold zero_hero_milestone; split_ifs <;> exact ⟨rfl, rfl⟩
  unfold zero_hero_hit
  constructor
  · show (zero_hero_milestone tick _).rands = _
    rw [(h3 _).1]; rfl
  · rw [run_map_ctx, h1]
    show (zero_hero_milestone tick _).ctx.ai_beat_counter = _
    rw [(h3 _).2, run_map_ctx, h2]; rfl

theorem zero_hero_slot_rest (tick : Nat → Nat) (a b : Nat) (t : Run) :
    (zero_hero_slot tick a b t).rands = t.rands ∧
    (zero_hero_slot tick a b t).ctx.ai_beat_counter = t.ctx.ai_beat_counter := by
  unfold zero_hero_slot zero_hero_judge
  split_ifs
  · exact zero_hero_hit_rest tick a b (Run.map (zero_hero_advance a b) t)
  · exact ⟨rfl, rfl⟩
  · exact ⟨rfl, rfl⟩
  · exact ⟨rfl, rfl⟩
  · exact ⟨rfl, rfl⟩

theorem zero_hero_lanes_rest (tick : Nat → Nat) (s : Run) :
    (zero_hero_lanes tick s).rands = s.rands ∧
    (zero_hero_lanes tick s).ctx.ai_beat_counter = s.ctx.ai_beat_counter := by
  unfold zero_hero_lanes
  apply for_loop_inv (fun t : Run =>
    t.rands = s.rands ∧ t.ctx.ai_beat_counter = s.ctx.ai_beat_counter)
  · intro a t ht
    unfold zero_hero_lane
    apply for_loop_inv (fun t : Run =>
      t.rands = s.rands ∧ t.ctx.ai_beat_counter = s.ctx.ai_beat_counter)
    · intro b u hu
      obtain ⟨e1, e2⟩ := zero_hero_slot_rest tick a b u
      exact ⟨e1.trans hu.1, e2.trans hu.2⟩
    · exact ht
  · exact ⟨rfl, rfl⟩

theorem zero_hero_lane_skip (tick : Nat → Nat) (a : Nat) (s : Run) (ha : a < 5)
    (hz : ∀ b : Fin 10, s.ctx.key_positions ⟨a, ha⟩ b ≤ 0) :
    zero_hero_lane tick a s =
      Run.map (fun ctx => { ctx with strum_hit := set1 ctx.strum_hit a false }) s := by
  unfold zero_hero_lane
  apply for_loop_inv_lt
    (fun (_ : Nat) (t : Run) =>
      t = Run.map (fun ctx => { ctx with strum_hit := set1 ctx.strum_hit a false }) s)
  · intro b t hb ht
    rw [ht]
    apply zero_hero_slot_skip
    have e := get2_fin s.ctx.key_positions ⟨a, ha⟩ ⟨b, hb⟩
    have hzb := hz ⟨b, hb⟩
    show ¬ get2 s.ctx.key_positions (a : Int) (b : Int) > 0
    have e2 : get2 s.ctx.key_positions (a : Int) (b : Int) =
        s.ctx.key_positions ⟨a, ha⟩ ⟨b, hb⟩ := e
    rw [e2]; omega
  · rfl

theorem zero_hero_slot_holding (tick : Nat → Nat) (a b : Nat) (t : Run) :
    (zero_hero_slot tick a b t).ctx.is_holding = t.ctx.is_holding :=
  congrArg Steady.is_holding (steady_zero_hero_slot tick a b t)

/-- The pass of the inner loop that meets the symbol. -/
theorem zero_hero_slot_meets (ctx : GameContext) (tick : Nat → Nat) (i : Fin 5) (j : Fin 10)
    (t : Run)
    (hh : ctx.is_holding i = true)
    (hp : 121 ≤ ctx.key_positions i j ∧ ctx.key_positions i j ≤ 123)
    (ho : ∀ a b, ¬ (a = i ∧ b = j) → ctx.key_positions a b = 0)
    (hold : t.ctx.is_holding = ctx.is_holding) (hb : zero_hero_before_hit ctx t) :
    zero_hero_after_hit ctx i (zero_hero_slot tick i.val j.val t) ∧
    (∀ k : Fin 5, k ≠ i →
      (zero_hero_slot tick i.val j.val t).ctx.strum_hit k = t.ctx.strum_hit k) := by
  obtain ⟨hk, hs, hsc⟩ := hb
  have hadv : get2 (zero_hero_advance i.val j.val t.ctx).key_positions (i.val : Int) (j.val : Int) =
      ctx.key_positions i j + 1 := by
    rw [get2_fin]
    show set2 t.ctx.key_positions i.val j.val _ i j = _
    unfold set2
    rw [if_pos ⟨rfl, rfl⟩, get2_fin, hk]
  have hhit : zero_hero_hits i.val j.val t := by
    refine ⟨?_, ?_, ?_⟩
    · rw [get2_fin, hk]; omega
    · rw [hadv]; unfold PORTRAIT_HEIGHT; omega
    · rw [get1_fin, hold]; exact hh
  rw [zero_hero_slot_hit tick i.val j.val t hhit]
  obtain ⟨e1, _, e3, e4, e5⟩ :=
    zero_hero_hit_fields tick i.val j.val (Run.map (zero_hero_advance i.val j.val) t)
  have hs' : (Run.map (zero_hero_advance i.val j.val) t).ctx.streak = ctx.streak := hs
  have hsc' : (Run.map (zero_hero_advance i.val j.val) t).ctx.score = ctx.score := hsc
  refine ⟨⟨?_, ?_, ?_, ?_⟩, ?_⟩
  · intro a b
    rw [e4]
    show set2 (set2 t.ctx.key_positions i.val j.val _) i.val j.val 0 a b = 0
    unfold set2
    by_cases hc : (a.val : Int) = (i.val : Int) ∧ (b.val : Int) = (j.val : Int)
    · rw [if_pos hc]
    · rw [if_neg hc, if_neg hc, hk]
      apply ho
      intro hab
      apply hc
      rw [hab.1, hab.2]
      exact ⟨rfl, rfl⟩
  · rw [e1, hs']
  · rw [e3, hsc']
  · rw [e5]
    show set1 t.ctx.strum_hit i.val true i = true
    unfold set1
    rw [if_pos rfl]
  · intro k hki
    rw [e5]
    show set1 t.ctx.strum_hit i.val true k = t.ctx.strum_hit k
    unfold set1
    rw [if_neg (fun hc => hki (Fin.ext (by omega)))]

theorem zero_hero_slot_empty (tick : Nat → Nat) (a b : Nat) (t : Run)
    (h : ∀ k l, t.ctx.key_positions k l = 0) : zero_hero_slot tick a b t = t := by
  apply zero_hero_slot_skip
  rw [get2_zero _ h]
  decide

/-- The pass of the outer loop over the lane of the symbol. -/
theorem zero_hero_lane_meets (ctx : GameContext) (tick : Nat → Nat) (i : Fin 5) (j : Fin 10)
    (s : Run)
    (hh : ctx.is_holding i = true)
    (hp : 121 ≤ ctx.key_positions i j ∧ ctx.key_positions i j ≤ 123)
    (ho : ∀ a b, ¬ (a = i ∧ b = j) → ctx.key_positions a b = 0)
    (hold : s.ctx.is_holding = ctx.is_holding) (hb : zero_hero_before_hit ctx s) :
    (zero_hero_lane tick i.val s).ctx.is_holding = ctx.is_holding ∧
    zero_hero_after_hit ctx i (zero_hero_lane tick i.val s) ∧
    (∀ k : Fin 5, k ≠ i → (zero_hero_lane tick i.val s).ctx.strum_hit k = s.ctx.strum_hit k) := by
  have key := for_loop_inv_lt
    (fun (b : Nat) (t : Run) =>
      t.ctx.is_holding = ctx.is_holding ∧
      (∀ k : Fin 5, k ≠ i → t.ctx.strum_hit k = s.ctx.strum_hit k) ∧
      (b ≤ j.val → zero_hero_before_hit ctx t) ∧
      (j.val < b → zero_hero_after_hit ctx i t))
    (fun b t => zero_hero_slot tick i.val b t) 10
    (fun b t hb10 ht => by
      obtain ⟨q1, q2, q3, q4⟩ := ht
      rcases Nat.lt_trichotomy b j.val with hlt | heq | hgt
      · have hbef := q3 (by omega)
        have hskip : zero_hero_slot tick i.val b t = t := by
          apply zero_hero_slot_skip
          have e : get2 t.ctx.key_positions (i.val : Int) (b : Int) =
              t.ctx.key_positions i ⟨b, hb10⟩ := get2_fin t.ctx.key_positions i ⟨b, hb10⟩
          rw [e, hbef.1, ho i ⟨b, hb10⟩ (fun hc => by
            have := congrArg Fin.val hc.2
            simp at this
            omega)]
          decide
        beta_reduce
        rw [hskip]
        exact ⟨q1, q2, fun _ => hbef, fun hc => absurd hc (by omega)⟩
      · subst heq
        obtain ⟨m1, m2⟩ := zero_hero_slot_meets ctx tick i j t hh hp ho q1 (q3 (le_refl _))
        refine ⟨(zero_hero_slot_holding tick i.val j.val t).trans q1, ?_,
          fun hc => absurd hc (by omega), fun _ => m1⟩
        intro k hk
        exact (m2 k hk).trans (q2 k hk)
      · have haft := q4 hgt
        have hskip : zero_hero_slot tick i.val b t = t :=
          zero_hero_slot_empty tick i.val b t haft.1
        beta_reduce
        rw [hskip]
        exact ⟨q1, q2, fun hc => absurd hc (by omega), fun _ => haft⟩)
    (Run.map (fun ctx => { ctx with strum_hit := set1 ctx.strum_hit i.val false }) s)
    ⟨hold, fun k hk => by
        show set1 s.ctx.strum_hit i.val false k = s.ctx.strum_hit k
        unfold set1
        rw [if_neg (fun hc => hk (Fin.ext (by omega)))],
      fun _ => hb, fun hc => absurd hc (Nat.not_lt_zero _)⟩
  obtain ⟨r1, r2, _, r4⟩ := key
  exact ⟨r1, r4 j.isLt, r2⟩

/-- The loops over the lanes, when the only symbol is hit. -/
theorem zero_hero_lanes_meets (ctx : GameContext) (tick : Nat → Nat) (i : Fin 5) (j : Fin 10)
    (hh : ctx.is_holding i = true)
    (hp : 121 ≤ ctx.key_positions i j ∧ ctx.key_positions i j ≤ 123)
    (ho : ∀ a b, ¬ (a = i ∧ b = j) → ctx.key_positions a b = 0) :
    zero_hero_after_hit ctx i (zero_hero_lanes tick (stamped ctx tick)) ∧
    (∀ k : Fin 5, k ≠ i →
      (zero_hero_lanes tick (stamped ctx tick)).ctx.strum_hit k = false) := by
  have key := for_loop_inv_lt
    (fun (a : Nat) (s : Run) =>
      s.ctx.is_holding = ctx.is_holding ∧
      (∀ k : Fin 5, k.val < a → k ≠ i → s.ctx.strum_hit k = false) ∧
      (a ≤ i.val → zero_hero_before_hit ctx s) ∧
      (i.val < a → zero_hero_after_hit ctx i s))
    (fun a s => zero_hero_lane tick a s) 5
    (fun a s ha5 hs => by
      obtain ⟨p1, p2, p3, p4⟩ := hs
      have hstrum : ∀ (u : Run) (k : Fin 5),
          (∀ k : Fin 5, k.val < a → k ≠ i → u.ctx.strum_hit k = false) →
          k.val < a + 1 → k ≠ i →
          (Run.map (fun ctx => { ctx with strum_hit := set1 ctx.strum_hit a false }) u).ctx.strum_hit
            k = false := by
        intro u k hu hka hki
        show set1 u.ctx.strum_hit a false k = false
        unfold set1
        by_cases hc : (k.val : Int) = (a : Int)
        · rw [if_pos hc]
        · rw [if_neg hc]; exact hu k (by omega) hki
      rcases Nat.lt_trichotomy a i.val with hlt | heq | hgt
      · have hbef := p3 (by omega)
        have hskip := zero_hero_lane_skip tick a s ha5 (fun b => by
          rw [hbef.1, ho ⟨a, ha5⟩ b (fun hc => by
            have := congrArg Fin.val hc.1
            simp at this
            omega)])
        beta_reduce
        rw [hskip]
        exact ⟨p1, fun k hka hki => hstrum s k p2 hka hki, fun _ => hbef,
          fun hc => absurd hc (by omega)⟩
      · subst heq
        obtain ⟨m1, m2, m3⟩ := zero_hero_lane_meets ctx tick i j s hh hp ho p1 (p3 (le_refl _))
        refine ⟨m1, ?_, fun hc => absurd hc (by omega), fun _ => m2⟩
        intro k hka hki
        rw [m3 k hki]
        exact p2 k (by
          have : k.val ≠ i.val := fun hc => hki (Fin.ext hc)
          omega) hki
      · have haft := p4 hgt
        have hskip := zero_hero_lane_skip tick a s ha5 (fun b => by rw [haft.1])
        beta_reduce
        rw [hskip]
        refine ⟨p1, fun k hka hki => hstrum s k p2 hka hki, fun hc => absurd hc (by omega),
          fun _ => ⟨haft.1, haft.2.1, haft.2.2.1, ?_⟩⟩
        show set1 s.ctx.strum_hit a false i = true
        unfold set1
        rw [if_neg (by omega)]
        exact haft.2.2.2)
    (stamped ctx tick)
    ⟨rfl, fun k hk => absurd hk (Nat.not_lt_zero _), fun _ => ⟨rfl, rfl, rfl⟩,
      fun hc => absurd hc (Nat.not_lt_zero _)⟩
  obtain ⟨_, r2, _, r4⟩ := key
  exact ⟨r4 i.isLt, fun k hk => r2 k k.isLt hk⟩

theorem for_loop_break_first {σ : Type} (n : Nat) (body : Nat → σ → σ × Bool) (s : σ)
    (h : (body 0 s).2 = true) : for_loop_break (n + 1) body s = (body 0 s).1 := by
  show (if (body 0 s).2 = true then (body 0 s).1 else _) = _
  rw [if_pos h]

/-- The spawn step on an empty board: on every tenth beat the symbol enters
slot 0 of the drawn lane. -/
theorem zero_hero_spawn_on_empty (rnd : Nat → Nat) (s : Run)
    (hz : ∀ a b, s.ctx.key_positions a b = 0) :
    (zero_hero_spawn rnd s).ctx.key_positions =
      (if s.ctx.ai_beat_counter % 10 = 0 then
        set2 s.ctx.key_positions (Int.tmod (rnd s.rands) 5) 0 7
       else s.ctx.key_positions) := by
  unfold zero_hero_spawn
  by_cases hb : s.ctx.ai_beat_counter % 10 = 0
  · rw [if_pos hb, if_pos hb]
    unfold zero_hero_spawn_lane
    have hslot : zero_hero_spawn_slot (Int.tmod ((Run.map beat s).rand rnd) 5) 0
        (Run.map beat s).drawn =
        (Run.map (fun ctx =>
          { ctx with
            key_positions :=
              set2 ctx.key_positions (Int.tmod ((Run.map beat s).rand rnd) 5) ((0 : Nat) : Int) 7 })
          (Run.map beat s).drawn, true) := by
      unfold zero_hero_spawn_slot
      rw [if_pos (get2_zero (Run.map beat s).drawn.ctx.key_positions hz _ _)]
    have hloop : for_loop_break 10
        (fun j t => zero_hero_spawn_slot (Int.tmod ((Run.map beat s).rand rnd) 5) j t)
        (Run.map beat s).drawn =
        (zero_hero_spawn_slot (Int.tmod ((Run.map beat s).rand rnd) 5) 0
          (Run.map beat s).drawn).1 := by
      exact for_loop_break_first 9
        (fun j t => zero_hero_spawn_slot (Int.tmod ((Run.map beat s).rand rnd) 5) j t)
        (Run.map beat s).drawn (by beta_reduce; rw [hslot])
    rw [hloop, hslot]
    rfl
  · rw [if_neg hb, if_neg hb]
    rfl

/-- Counterexample to C14: lane 2 is held and its only symbol, in slot 0, is
at 121 on a beat on which a symbol enters. The update hits it, and the spawn
step of the same update, drawing lane 2, puts the new symbol in the slot,
which holds 7 after the update. -/
theorem zero_hero_hit_slot_refilled :
    ¬ rate_limited hit_example (zero_hero_fps hit_example) clock_1020 ∧
    hit_example.is_holding 2 = true ∧
    hit_example.key_positions 2 0 = 121 ∧
    (∀ a b, ¬ (a = 2 ∧ b = 0) → hit_example.key_positions a b = 0) ∧
    (update_zero_hero hit_example clock_1020 rand_two).key_positions 2 0 = 7 := by
  decide

/-- C14, amended. In `update_zero_hero` when not rate-limited, if lane `i`
is held and the only symbol on the board is in lane `i`, slot `j`, at a
position between 121 and 123, then after the update the streak is one more
(or 0 when that reaches 9999), the score is one more, `strum_hit[i]` is true
and `strum_hit[k]` is false for every other lane, and the slot of the symbol
holds 0, unless the spawn step of this update (`ai_beat_counter % 10 = 0`)
draws lane `i` and the slot is slot 0: then it holds the new symbol, at 7. -/
theorem update_zero_hero_hit (ctx : GameContext) (tick rnd : Nat → Nat) (i : Fin 5) (j : Fin 10)
    (hg : ¬ rate_limited ctx (zero_hero_fps ctx) tick)
    (hh : ctx.is_holding i = true)
    (hp : 121 ≤ ctx.key_positions i j ∧ ctx.key_positions i j ≤ 123)
    (ho : ∀ a b, ¬ (a = i ∧ b = j) → ctx.key_positions a b = 0) :
    (update_zero_hero ctx tick rnd).streak =
      (if ctx.streak + 1 ≥ MAX_STREAK_INT then 0 else ctx.streak + 1) ∧
    (update_zero_hero ctx tick rnd).score = ctx.score + 1 ∧
    (update_zero_hero ctx tick rnd).key_positions i j =
      (if ctx.ai_beat_counter % 10 = 0 ∧ Int.tmod (rnd 0) 5 = (i.val : Int) ∧ j.val = 0
       then 7 else 0) ∧
    (update_zero_hero ctx tick rnd).strum_hit i = true ∧
    (∀ k : Fin 5, k ≠ i → (update_zero_hero ctx tick rnd).strum_hit k = false) := by
  obtain ⟨⟨a1, a2, a3, a4⟩, hst⟩ := zero_hero_lanes_meets ctx tick i j hh hp ho
  obtain ⟨c1, _, c3, c4⟩ :=
    zero_hero_counters_fields _ _ (update_zero_hero_counters ctx tick rnd hg)
  obtain ⟨r1, r2⟩ := zero_hero_lanes_rest tick (stamped ctx tick)
  have hk : (update_zero_hero ctx tick rnd).key_positions =
      (zero_hero_spawn rnd (zero_hero_lanes tick (stamped ctx tick))).ctx.key_positions := by
    unfold update_zero_hero
    rw [if_neg hg, (zero_hero_difficulty_counters _ _ _).2]
  rw [c1, c3, c4, hk, zero_hero_spawn_on_empty rnd _ a1, r1, r2]
  have hr0 : (stamped ctx tick).rands = 0 := rfl
  have hb0 : (stamped ctx tick).ctx.ai_beat_counter = ctx.ai_beat_counter := rfl
  rw [hr0, hb0]
  refine ⟨a2, a3, ?_, a4, hst⟩
  by_cases hb : ctx.ai_beat_counter % 10 = 0
  · rw [if_pos hb]
    unfold set2
    have hz := a1 i j
    split_ifs with h1 h2 h2
    · rfl
    · exfalso; apply h2; refine ⟨hb, h1.1.symm, ?_⟩
      have := h1.2
      omega
    · exfalso; apply h1; refine ⟨h2.2.1.symm, ?_⟩
      rw [h2.2.2]; rfl
    · exact hz
  · rw [if_neg hb, if_neg (fun h => hb h.1)]
    exact a1 i j

/-- Witness of C14, amended: the hit one beat after a symbol entered. -/
theorem update_zero_hero_hit_witness :
    hit_example_off_beat.key_positions 2 0 = 121 ∧
    (update_zero_hero hit_example_off_beat clock_1020 rand_two).score = 1 ∧
    (update_zero_hero hit_example_off_beat clock_1020 rand_two).key_positions 2 0 = 0 ∧
    (update_zero_hero hit_example_off_beat clock_1020 rand_two).strum_hit 2 = true :=
  ⟨by decide,
   (update_zero_hero_hit hit_example_off_beat clock_1020 rand_two 2 0 (by decide) (by decide)
      (by decide) (by decide)).2.1,
   (update_zero_hero_hit hit_example_off_beat clock_1020 rand_two 2 0 (by decide) (by decide)
      (by decide) (by decide)).2.2.1,
   (update_zero_hero_hit hit_example_off_beat clock_1020 rand_two 2 0 (by decide) (by decide)
      (by decide) (by decide)).2.2.2.1⟩

/-! ## Frame lemmas for the lane of the car, the difficulty and the chat -/

@[simp] theorem bystanders_notify (tick : Nat → Nat) (text : String) (s : Run) :
    bystanders (Run.notify tick text s).ctx = bystanders s.ctx := rfl

@[simp] theorem bystanders_stamped (ctx : GameContext) (tick : Nat → Nat) :
    bystanders (stamped ctx tick).ctx = bystanders ctx := rfl

theorem for_loop_bystanders (body : Nat → Run → Run)
    (h : ∀ i s, bystanders (body i s).ctx = bystanders s.ctx) (n : Nat) (s : Run) :
    bystanders (for_loop n body s).ctx = bystanders s.ctx :=
  for_loop_inv (fun t : Run => bystanders t.ctx = bystanders s.ctx) body
    (fun i t ht => (h i t).trans ht) n s rfl

theorem for_loop_bystanders_ctx (body : Nat → GameContext → GameContext)
    (h : ∀ i c, bystanders (body i c) = bystanders c) (n : Nat) (c : GameContext) :
    bystanders (for_loop n body c) = bystanders c :=
  for_loop_inv (fun t : GameContext => bystanders t = bystanders c) body
    (fun i t ht => (h i t).trans ht) n c rfl

theorem for_loop_break_bystanders (body : Nat → Run → Run × Bool)
    (h : ∀ i s, bystanders (body i s).1.ctx = bystanders s.ctx) (n : Nat) (s : Run) :
    bystanders (for_loop_break n body s).ctx = bystanders s.ctx :=
  for_loop_break_inv (fun t : Run => bystanders t.ctx = bystanders s.ctx) body
    (fun i t ht => (h i t).trans ht) n s rfl

theorem for_loop_break_bystanders_ctx (body : Nat → GameContext → GameContext × Bool)
    (h : ∀ i c, bystanders (body i c).1 = bystanders c) (n : Nat) (c : GameContext) :
    bystanders (for_loop_break n body c) = bystanders c :=
  for_loop_break_inv (fun t : GameContext => bystanders t = bystanders c) body
    (fun i t ht => (h i t).trans ht) n c rfl

@[simp] theorem bystanders_zero_hero_count_hit (i j : Int) (c : GameContext) :
    bystanders (zero_hero_count_hit i j c) = bystanders c := rfl

@[simp] theorem bystanders_zero_hero_wrap (c : GameContext) :
    bystanders (zero_hero_wrap c) = bystanders c := by
  unfold zero_hero_wrap; split_ifs <;> rfl

@[simp] theorem bystanders_zero_hero_milestone (tick : Nat → Nat) (s : Run) :
    bystanders (zero_hero_milestone tick s).ctx = bystanders s.ctx := by
  unfold zero_hero_milestone; split_ifs <;> rfl

@[simp] theorem bystanders_zero_hero_stats (c : GameContext) :
    bystanders (zero_hero_stats c) = bystanders c := rfl

@[simp] theorem bystanders_zero_hero_highest (c : GameContext) :
    bystanders (zero_hero_highest c) = bystanders c := by
  unfold zero_hero_highest; split_ifs <;> rfl

@[simp] theorem bystanders_zero_hero_hit (tick : Nat → Nat) (i j : Int) (s : Run) :
    bystanders (zero_hero_hit tick i j s).ctx = bystanders s.ctx := by
  unfold zero_hero_hit; simp

@[simp] theorem bystanders_zero_hero_miss (tick : Nat → Nat) (i j : Int) (s : Run) :
    bystanders (zero_hero_miss tick i j s).ctx = bystanders s.ctx := rfl

@[simp] theorem bystanders_zero_hero_advance (i j : Int) (c : GameContext) :
    bystanders (zero_hero_advance i j c) = bystanders c := rfl

@[simp] theorem bystanders_zero_hero_judge (tick : Nat → Nat) (i j : Int) (s : Run) :
    bystanders (zero_hero_judge tick i j s).ctx = bystanders s.ctx := by
  unfold zero_hero_judge; split_ifs <;> simp

@[simp] theorem bystanders_zero_hero_slot (tick : Nat → Nat) (i j : Nat) (s : Run) :
    bystanders (zero_hero_slot tick i j s).ctx = bystanders s.ctx := by
  unfold zero_hero_slot; split_ifs <;> simp

@[simp] theorem bystanders_zero_hero_lane (tick : Nat → Nat) (i : Nat) (s : Run) :
    bystanders (zero_hero_lane tick i s).ctx = bystanders s.ctx := by
  unfold zero_hero_lane
  rw [for_loop_bystanders _ (fun j t => bystanders_zero_hero_slot tick i j t)]
  rfl

@[simp] theorem bystanders_zero_hero_lanes (tick : Nat → Nat) (s : Run) :
    bystanders (zero_hero_lanes tick s).ctx = bystanders s.ctx := by
  unfold zero_hero_lanes
  exact for_loop_bystanders _ (fun i t => bystanders_zero_hero_lane tick i t) 5 s

@[simp] theorem bystanders_beat (c : GameContext) : bystanders (beat c) = bystanders c := rfl

@[simp] theorem bystanders_zero_hero_spawn (rnd : Nat → Nat) (s : Run) :
    bystanders (zero_hero_spawn rnd s).ctx = bystanders s.ctx := by
  unfold zero_hero_spawn zero_hero_spawn_lane
  split_ifs
  · rw [for_loop_break_bystanders _ (fun j t => by
      unfold zero_hero_spawn_slot; split_ifs <;> rfl)]
    rfl
  · rfl

@[simp] theorem bystanders_speed_step (c : GameContext) : bystanders (speed_step c) = bystanders c := by
  unfold speed_step; split_ifs <;> rfl

@[simp] theorem bystanders_flip_zip_every_fifth (c : GameContext) :
    bystanders (flip_zip_every_fifth c) = bystanders c := by
  unfold flip_zip_every_fifth; split_ifs <;> simp

@[simp] theorem bystanders_flip_zip_dodge (i : Int) (c : GameContext) :
    bystanders (flip_zip_dodge i c) = bystanders c := by
  unfold flip_zip_dodge; split_ifs
  · rw [bystanders_flip_zip_every_fifth]; rfl
  · rfl

@[simp] theorem bystanders_flip_zip_leave (i j : Int) (c : GameContext) :
    bystanders (flip_zip_leave i j c) = bystanders c := by
  unfold flip_zip_leave; rw [bystanders_flip_zip_dodge]; rfl

@[simp] theorem bystanders_flip_zip_advance (m i j : Int) (c : GameContext) :
    bystanders (flip_zip_advance m i j c) = bystanders c := rfl

@[simp] theorem bystanders_flip_zip_moved (i j : Int) (c : GameContext) :
    bystanders (flip_zip_moved i j c) = bystanders c := by
  unfold flip_zip_moved; split_ifs <;> simp

@[simp] theorem bystanders_flip_zip_slot (m : Int) (i j : Nat) (c : GameContext) :
    bystanders (flip_zip_slot m i j c) = bystanders c := by
  unfold flip_zip_slot; split_ifs <;> simp

@[simp] theorem bystanders_flip_zip_obstacles (m : Int) (c : GameContext) :
    bystanders (flip_zip_obstacles m c) = bystanders c := by
  unfold flip_zip_obstacles
  exact for_loop_bystanders_ctx _
    (fun i t => for_loop_bystanders_ctx _ (fun j u => bystanders_flip_zip_slot m i j u) 10 t) 5 c

@[simp] theorem bystanders_flip_zip_spawn (rnd : Nat → Nat) (s : Run) :
    bystanders (flip_zip_spawn rnd s).ctx = bystanders s.ctx := by
  unfold flip_zip_spawn flip_zip_spawn_lane
  split_ifs
  · rw [for_loop_break_bystanders _ (fun j t => by
      unfold flip_zip_spawn_slot; split_ifs <;> rfl)]
    rfl
  · rfl

@[simp] theorem bystanders_flip_zip_hold_top (c : GameContext) :
    bystanders (flip_zip_hold_top c) = bystanders c := rfl

@[simp] theorem bystanders_cap_mascot_y (c : GameContext) : bystanders (cap_mascot_y c) = bystanders c := by
  unfold cap_mascot_y; split_ifs <;> rfl

@[simp] theorem bystanders_flip_zip_touch_down (c : GameContext) :
    bystanders (flip_zip_touch_down c) = bystanders c := by
  unfold flip_zip_touch_down
  exact (bystanders_cap_mascot_y _)

@[simp] theorem bystanders_flip_zip_land (c : GameContext) :
    bystanders (flip_zip_land c) = bystanders c := by
  unfold flip_zip_land; simp

@[simp] theorem bystanders_flip_zip_arc_end (tick : Nat → Nat) (s : Run) :
    bystanders (flip_zip_arc_end tick s).ctx = bystanders s.ctx := by
  unfold flip_zip_arc_end; split_ifs <;> simp

@[simp] theorem bystanders_flip_zip_arc (tick : Nat → Nat) (s : Run) :
    bystanders (flip_zip_arc tick s).ctx = bystanders s.ctx := by
  unfold flip_zip_arc; split_ifs
  · rfl
  · rfl
  · simp

@[simp] theorem bystanders_flip_zip_drift_up (now : Nat) (c : GameContext) :
    bystanders (flip_zip_drift_up now c) = bystanders c := by
  unfold flip_zip_drift_up; rw [bystanders_cap_mascot_y]; rfl

@[simp] theorem bystanders_flip_zip_airborne (tick : Nat → Nat) (s : Run) :
    bystanders (flip_zip_airborne tick s).ctx = bystanders s.ctx := by
  unfold flip_zip_airborne; split_ifs <;> simp

@[simp] theorem bystanders_flip_zip_jump (tick : Nat → Nat) (s : Run) :
    bystanders (flip_zip_jump tick s).ctx = bystanders s.ctx := by
  unfold flip_zip_jump; split_ifs
  · rw [bystanders_flip_zip_airborne, bystanders_flip_zip_arc]; rfl
  · rfl

theorem bystanders_update_flip_zip (ctx : GameContext) (tick rnd : Nat → Nat) :
    bystanders (update_flip_zip ctx tick rnd) = bystanders ctx := by
  unfold update_flip_zip
  split_ifs
  · rfl
  · simp

@[simp] theorem bystanders_speed_nudge_up (c : GameContext) :
    bystanders (speed_nudge_up c) = bystanders c := rfl

@[simp] theorem bystanders_speed_nudge_down (c : GameContext) :
    bystanders (speed_nudge_down c) = bystanders c := rfl

@[simp] theorem bystanders_stamp_again (tick : Nat → Nat) (s : Run) :
    bystanders (stamp_again tick s).ctx = bystanders s.ctx := rfl

@[simp] theorem bystanders_flip_iq_speed_adjust (tick : Nat → Nat) (s : Run) :
    bystanders (flip_iq_speed_adjust tick s).ctx = bystanders s.ctx := by
  unfold flip_iq_speed_adjust; split_ifs <;> simp

@[simp] theorem bystanders_flip_iq_first_ball (r0 r1 : Int) (c : GameContext) :
    bystanders (flip_iq_first_ball r0 r1 c) = bystanders c := rfl

@[simp] theorem bystanders_flip_iq_first_drop (tick rnd : Nat → Nat) (s : Run) :
    bystanders (flip_iq_first_drop tick rnd s).ctx = bystanders s.ctx := by
  unfold flip_iq_first_drop; split_ifs <;> rfl

@[simp] theorem bystanders_flip_iq_next_round (c : GameContext) :
    bystanders (flip_iq_next_round c) = bystanders c := by
  unfold flip_iq_next_round; split_ifs <;> rfl

@[simp] theorem bystanders_flip_iq_next_ball (r0 r1 : Int) (c : GameContext) :
    bystanders (flip_iq_next_ball r0 r1 c) = bystanders c := rfl

@[simp] theorem bystanders_flip_iq_round_end (tick rnd : Nat → Nat) (s : Run) :
    bystanders (flip_iq_round_end tick rnd s).ctx = bystanders s.ctx := by
  unfold flip_iq_round_end
  show bystanders (flip_iq_next_ball _ _ _) = _
  rw [bystanders_flip_iq_next_ball]
  show bystanders (flip_iq_next_round _) = _
  rw [bystanders_flip_iq_next_round]
  rfl

@[simp] theorem bystanders_flip_iq_round (tick rnd : Nat → Nat) (s : Run) :
    bystanders (flip_iq_round tick rnd s).ctx = bystanders s.ctx := by
  unfold flip_iq_round; split_ifs <;> simp

@[simp] theorem bystanders_flip_iq_climb (tick rnd : Nat → Nat) (i j : Int) (s : Run) :
    bystanders (flip_iq_climb tick rnd i j s).ctx = bystanders s.ctx := rfl

@[simp] theorem bystanders_flip_iq_stumble (tick rnd : Nat → Nat) (s : Run) :
    bystanders (flip_iq_stumble tick rnd s).ctx = bystanders s.ctx := rfl

@[simp] theorem bystanders_flip_iq_meet (tick rnd : Nat → Nat) (i j : Nat) (s : Run) :
    bystanders (flip_iq_meet tick rnd i j s).ctx = bystanders s.ctx := by
  unfold flip_iq_meet; split_ifs <;> simp

@[simp] theorem bystanders_flip_iq_leave (tick rnd : Nat → Nat) (i j : Nat) (s : Run) :
    bystanders (flip_iq_leave tick rnd i j s).ctx = bystanders s.ctx := by
  unfold flip_iq_leave; split_ifs
  · rw [bystanders_flip_iq_meet]; rfl
  · rfl

@[simp] theorem bystanders_flip_iq_break (rnd : Nat → Nat) (i j : Nat) (s : Run) :
    bystanders (flip_iq_break rnd i j s).ctx = bystanders s.ctx := by
  unfold flip_iq_break; split_ifs <;> rfl

@[simp] theorem bystanders_flip_iq_slot (tick rnd : Nat → Nat) (m : Int) (i j : Nat) (s : Run) :
    bystanders (flip_iq_slot tick rnd m i j s).ctx = bystanders s.ctx := by
  unfold flip_iq_slot; split_ifs
  · rw [bystanders_flip_iq_leave, bystanders_flip_iq_break]; rfl
  · rfl

@[simp] theorem bystanders_flip_iq_balls (tick rnd : Nat → Nat) (m : Int) (s : Run) :
    bystanders (flip_iq_balls tick rnd m s).ctx = bystanders s.ctx := by
  unfold flip_iq_balls
  exact for_loop_bystanders _
    (fun i t => for_loop_bystanders _ (fun j u => bystanders_flip_iq_slot tick rnd m i j u) _ t) 5 s

@[simp] theorem bystanders_flip_iq_spawn (rnd : Nat → Nat) (s : Run) :
    bystanders (flip_iq_spawn rnd s).ctx = bystanders s.ctx := by
  unfold flip_iq_spawn flip_iq_spawn_lane
  split_ifs
  · rw [for_loop_break_bystanders _ (fun j t => by
      unfold flip_iq_spawn_slot; split_ifs <;> rfl)]
    rfl
  · rfl

theorem bystanders_update_flip_iq (ctx : GameContext) (tick rnd : Nat → Nat) :
    bystanders (update_flip_iq ctx tick rnd) = bystanders ctx := by
  unfold update_flip_iq
  split_ifs
  · rfl
  · simp

@[simp] theorem bystanders_emotion_stamp (tick : Nat → Nat) (s : Run) :
    bystanders (emotion_stamp tick s).ctx = bystanders s.ctx := rfl

@[simp] theorem bystanders_tectone_prop_effect (r0 r1 : Int) (c : GameContext) :
    bystanders (tectone_prop_effect r0 r1 c) = bystanders c := by
  unfold tectone_prop_effect; split_ifs <;> rfl

@[simp] theorem bystanders_tectone_prop (tick rnd : Nat → Nat) (s : Run) :
    bystanders (tectone_prop tick rnd s).ctx = bystanders s.ctx := by
  unfold tectone_prop
  show bystanders (tectone_prop_effect _ _ _) = _
  rw [bystanders_tectone_prop_effect]; rfl

@[simp] theorem bystanders_tectone_random_effect (r : Int) (c : GameContext) :
    bystanders (tectone_random_effect r c) = bystanders c := by
  unfold tectone_random_effect; split_ifs <;> rfl

@[simp] theorem bystanders_tectone_random (tick rnd : Nat → Nat) (s : Run) :
    bystanders (tectone_random tick rnd s).ctx = bystanders s.ctx := by
  unfold tectone_random; simp

@[simp] theorem bystanders_tectone_emotion_keys (tick rnd : Nat → Nat) (s : Run) :
    bystanders (tectone_emotion_keys tick rnd s).ctx = bystanders s.ctx := by
  unfold tectone_emotion_keys; split_ifs
  · rfl
  · rfl
  · rfl
  · simp
  · simp
  · rfl

@[simp] theorem bystanders_tectone_emotions (tick rnd : Nat → Nat) (s : Run) :
    bystanders (tectone_emotions tick rnd s).ctx = bystanders s.ctx := by
  unfold tectone_emotions; split_ifs <;> simp

@[simp] theorem bystanders_tectone_anger_bound (rnd : Nat → Nat) (s : Run) :
    bystanders (tectone_anger_bound rnd s).ctx = bystanders s.ctx := by
  unfold tectone_anger_bound; split_ifs <;> rfl

@[simp] theorem bystanders_tectone_based_bound (s : Run) :
    bystanders (tectone_based_bound s).ctx = bystanders s.ctx := by
  unfold tectone_based_bound; split_ifs <;> rfl

@[simp] theorem bystanders_tectone_cuteness_bound (rnd : Nat → Nat) (s : Run) :
    bystanders (tectone_cuteness_bound rnd s).ctx = bystanders s.ctx := by
  unfold tectone_cuteness_bound; split_ifs <;> rfl

@[simp] theorem bystanders_tectone_hide_chat (c : GameContext) :
    bystanders (tectone_hide_chat c) = bystanders c := by
  unfold tectone_hide_chat
  apply for_loop_bystanders_ctx
  intro i t
  rfl

@[simp] theorem bystanders_tectone_sad_sequence (idx : Int) (c : GameContext) :
    bystanders (tectone_sad_sequence idx c) = bystanders c := by
  unfold tectone_sad_sequence; split_ifs
  · rfl
  · rfl
  · rfl
  · rfl
  · simp

@[simp] theorem bystanders_tectone_sad_bound (rnd : Nat → Nat) (s : Run) :
    bystanders (tectone_sad_bound rnd s).ctx = bystanders s.ctx := by
  unfold tectone_sad_bound; split_ifs
  · rfl
  · show bystanders (tectone_sad_sequence _ _) = _
    rw [bystanders_tectone_sad_sequence]; rfl
  · rfl

@[simp] theorem bystanders_tectone_bounds (rnd : Nat → Nat) (s : Run) :
    bystanders (tectone_bounds rnd s).ctx = bystanders s.ctx := by
  unfold tectone_bounds; simp

@[simp] theorem bystanders_tectone_walk (r : Int) (c : GameContext) :
    bystanders (tectone_walk r c) = bystanders c := by
  unfold tectone_walk; dsimp only; split_ifs <;> rfl

@[simp] theorem bystanders_tectone_move (tick rnd : Nat → Nat) (s : Run) :
    bystanders (tectone_move tick rnd s).ctx = bystanders s.ctx := by
  unfold tectone_move tectone_step; split_ifs
  · show bystanders (tectone_walk _ _) = _
    rw [bystanders_tectone_walk]; rfl
  · rfl

@[simp] theorem bystanders_tectone_hype_check (tick rnd : Nat → Nat) (st : Statics) (s : Run) :
    bystanders (tectone_hype_check tick rnd st s).ctx = bystanders s.ctx := by
  unfold tectone_hype_check; split_ifs <;> rfl

@[simp] theorem bystanders_tectone_comment_loop (rnd : Nat → Nat) (m : Int) (s : Run) :
    bystanders (tectone_comment_loop rnd m s).ctx = bystanders s.ctx := by
  unfold tectone_comment_loop
  exact for_loop_break_bystanders _ (fun i t => by
    unfold tectone_comment_slot; split_ifs <;> rfl) _ s

@[simp] theorem bystanders_tectone_comments (tick rnd : Nat → Nat) (m : Int) (st : Statics)
    (s : Run) : bystanders (tectone_comments tick rnd m st s).1.ctx = bystanders s.ctx := by
  unfold tectone_comments tectone_comment_stream; split_ifs
  · simp
  · rfl

@[simp] theorem bystanders_tectone_after_bounds (ctx : GameContext) (tick rnd : Nat → Nat) :
    bystanders (tectone_after_bounds ctx tick rnd).ctx = bystanders ctx := by
  unfold tectone_after_bounds; simp

theorem bystanders_update_tectone_sim (ctx : GameContext) (st : Statics) (tick rnd : Nat → Nat) :
    bystanders (update_tectone_sim ctx st tick rnd).1 = bystanders ctx := by
  unfold update_tectone_sim
  split_ifs
  · rfl
  · simp

@[simp] theorem bystanders_space_flight_move (m i : Int) (c : GameContext) :
    bystanders (space_flight_move m i c) = bystanders c := by
  unfold space_flight_move; dsimp only; split_ifs <;> rfl

@[simp] theorem bystanders_space_flight_grow (m i : Int) (c : GameContext) :
    bystanders (space_flight_grow m i c) = bystanders c := rfl

@[simp] theorem bystanders_space_flight_take (d : Int) (c : GameContext) :
    bystanders (space_flight_take d c) = bystanders c := by
  unfold space_flight_take; split_ifs <;> rfl

@[simp] theorem bystanders_space_flight_redock (tick rnd : Nat → Nat) (s : Run) :
    bystanders (space_flight_redock tick rnd s).ctx = bystanders s.ctx := by
  unfold space_flight_redock; split_ifs <;> rfl

@[simp] theorem bystanders_space_flight_hit (tick rnd : Nat → Nat) (i : Int) (s : Run) :
    bystanders (space_flight_hit tick rnd i s).ctx = bystanders s.ctx := by
  unfold space_flight_hit; split_ifs <;> simp

@[simp] theorem bystanders_space_flight_cull (i : Int) (c : GameContext) :
    bystanders (space_flight_cull i c) = bystanders c := by
  unfold space_flight_cull; split_ifs <;> rfl

@[simp] theorem bystanders_space_flight_object (tick rnd : Nat → Nat) (m i : Int) (s : Run) :
    bystanders (space_flight_object tick rnd m i s).ctx = bystanders s.ctx := by
  unfold space_flight_object; simp

@[simp] theorem bystanders_space_flight_place (r0 r1 i : Int) (c : GameContext) :
    bystanders (space_flight_place r0 r1 i c) = bystanders c := rfl

@[simp] theorem bystanders_space_flight_pickup_draw (rnd : Nat → Nat) (i : Int) (s : Run) :
    bystanders (space_flight_pickup_draw rnd i s).ctx = bystanders s.ctx := by
  unfold space_flight_pickup_draw; split_ifs <;> rfl

@[simp] theorem bystanders_space_flight_spawn (rnd : Nat → Nat) (i : Int) (s : Run) :
    bystanders (space_flight_spawn rnd i s).ctx = bystanders s.ctx := by
  unfold space_flight_spawn; simp

@[simp] theorem bystanders_space_flight_collect (i : Int) (c : GameContext) :
    bystanders (space_flight_collect i c) = bystanders c := by
  unfold space_flight_collect; dsimp only; split_ifs <;> rfl

@[simp] theorem bystanders_space_flight_pickup (i : Int) (c : GameContext) :
    bystanders (space_flight_pickup i c) = bystanders c := by
  unfold space_flight_pickup; split_ifs <;> simp

@[simp] theorem bystanders_space_flight_slot (tick rnd : Nat → Nat) (m : Int) (i : Nat) (s : Run) :
    bystanders (space_flight_slot tick rnd m i s).ctx = bystanders s.ctx := by
  unfold space_flight_slot; split_ifs <;> simp

@[simp] theorem bystanders_space_flight_objects (tick rnd : Nat → Nat) (m : Int) (s : Run) :
    bystanders (space_flight_objects tick rnd m s).ctx = bystanders s.ctx := by
  unfold space_flight_objects
  exact for_loop_bystanders _ (fun i t => bystanders_space_flight_slot tick rnd m i t) _ s

@[simp] theorem bystanders_space_flight_record (c : GameContext) :
    bystanders (space_flight_record c) = bystanders c := by
  have h : bystanders (for_loop 4 (fun i ctx =>
      { ctx with recent_inputs := set1 ctx.recent_inputs i (get1 ctx.recent_inputs (i + 1)) }) c)
      = bystanders c := by
    apply for_loop_bystanders_ctx
    intro i t
    rfl
  unfold space_flight_record; dsimp only; split_ifs <;> exact h

@[simp] theorem bystanders_space_flight_match (tick : Nat → Nat) (s : Run) :
    bystanders (space_flight_match tick s).ctx = bystanders s.ctx := by
  unfold space_flight_match space_flight_manoeuvre; split_ifs <;> rfl

@[simp] theorem bystanders_space_flight_sequences (tick : Nat → Nat) (s : Run) :
    bystanders (space_flight_sequences tick s).ctx = bystanders s.ctx := by
  unfold space_flight_sequences; split_ifs <;> simp

theorem bystanders_update_space_flight (ctx : GameContext) (tick rnd : Nat → Nat) :
    bystanders (update_space_flight ctx tick rnd) = bystanders ctx := by
  unfold update_space_flight
  split_ifs
  · rfl
  · simp

@[simp] theorem chat_emotion_stamp (tick : Nat → Nat) (s : Run) :
    chat (emotion_stamp tick s).ctx = chat s.ctx := rfl

@[simp] theorem chat_tectone_prop_effect (r0 r1 : Int) (c : GameContext) :
    chat (tectone_prop_effect r0 r1 c) = chat c := by
  unfold tectone_prop_effect; split_ifs <;> rfl

@[simp] theorem chat_tectone_prop (tick rnd : Nat → Nat) (s : Run) :
    chat (tectone_prop tick rnd s).ctx = chat s.ctx := by
  unfold tectone_prop
  show chat (tectone_prop_effect _ _ _) = _
  rw [chat_tectone_prop_effect]; rfl

@[simp] theorem chat_tectone_random_effect (r : Int) (c : GameContext) :
    chat (tectone_random_effect r c) = chat c := by
  unfold tectone_random_effect; split_ifs <;> rfl

@[simp] theorem chat_tectone_random (tick rnd : Nat → Nat) (s : Run) :
    chat (tectone_random tick rnd s).ctx = chat s.ctx := by
  unfold tectone_random; simp

@[simp] theorem chat_tectone_emotion_keys (tick rnd : Nat → Nat) (s : Run) :
    chat (tectone_emotion_keys tick rnd s).ctx = chat s.ctx := by
  unfold tectone_emotion_keys; split_ifs
  · rfl
  · rfl
  · rfl
  · simp
  · simp
  · rfl

@[simp] theorem chat_tectone_emotions (tick rnd : Nat → Nat) (s : Run) :
    chat (tectone_emotions tick rnd s).ctx = chat s.ctx := by
  unfold tectone_emotions; split_ifs <;> simp

@[simp] theorem chat_tectone_anger_bound (rnd : Nat → Nat) (s : Run) :
    chat (tectone_anger_bound rnd s).ctx = chat s.ctx := by
  unfold tectone_anger_bound; split_ifs <;> rfl

@[simp] theorem chat_tectone_based_bound (s : Run) :
    chat (tectone_based_bound s).ctx = chat s.ctx := by
  unfold tectone_based_bound; split_ifs <;> rfl

@[simp] theorem chat_tectone_cuteness_bound (rnd : Nat → Nat) (s : Run) :
    chat (tectone_cuteness_bound rnd s).ctx = chat s.ctx := by
  unfold tectone_cuteness_bound; split_ifs <;> rfl

@[simp] theorem chat_tectone_walk (r : Int) (c : GameContext) :
    chat (tectone_walk r c) = chat c := by
  unfold tectone_walk; dsimp only; split_ifs <;> rfl

@[simp] theorem chat_tectone_move (tick rnd : Nat → Nat) (s : Run) :
    chat (tectone_move tick rnd s).ctx = chat s.ctx := by
  unfold tectone_move tectone_step; split_ifs
  · show chat (tectone_walk _ _) = _
    rw [chat_tectone_walk]; rfl
  · rfl

@[simp] theorem bystanders_line_car_speed_adjust (tick : Nat → Nat) (s : Run) :
    bystanders (line_car_speed_adjust tick s).ctx = bystanders s.ctx := by
  unfold line_car_speed_adjust; split_ifs <;> simp

@[simp] theorem bystanders_line_car_regenerate (rnd : Nat → Nat) (i j : Nat) (s : Run) :
    bystanders (line_car_regenerate rnd i j s).ctx = bystanders s.ctx := rfl

@[simp] theorem bystanders_line_car_advance (m i j : Int) (c : GameContext) :
    bystanders (line_car_advance m i j c) = bystanders c := rfl

@[simp] theorem bystanders_line_car_slot (rnd : Nat → Nat) (m : Int) (i j : Nat) (s : Run) :
    bystanders (line_car_slot rnd m i j s).ctx = bystanders s.ctx := by
  unfold line_car_slot line_car_scrolled; split_ifs <;> simp

@[simp] theorem bystanders_line_car_scroll (rnd : Nat → Nat) (m : Int) (s : Run) :
    bystanders (line_car_scroll rnd m s).ctx = bystanders s.ctx := by
  unfold line_car_scroll
  exact for_loop_bystanders _
    (fun i t => for_loop_bystanders _ (fun j u => bystanders_line_car_slot rnd m i j u) _ t) 5 s

@[simp] theorem bystanders_line_car_bank (c : GameContext) :
    bystanders (line_car_bank c) = bystanders c := by
  unfold line_car_bank; split_ifs <;> rfl

@[simp] theorem bystanders_line_car_reset_points (c : GameContext) :
    bystanders (line_car_reset_points c) = bystanders c := rfl

@[simp] theorem bystanders_line_car_drift_check (tick : Nat → Nat) (s : Run) :
    bystanders (line_car_drift_check tick s).ctx = bystanders s.ctx := by
  unfold line_car_drift_check line_car_drift_end; split_ifs <;> simp

@[simp] theorem bystanders_line_car_drift_slowdown (c : GameContext) :
    bystanders (line_car_drift_slowdown c) = bystanders c := by
  unfold line_car_drift_slowdown; split_ifs <;> simp

@[simp] theorem bystanders_line_car_before_drift (ctx : GameContext) (tick rnd : Nat → Nat) :
    bystanders (line_car_before_drift ctx tick rnd).ctx = bystanders ctx := by
  unfold line_car_before_drift; simp

/-! ## Line Car: regeneration of a track segment -/

theorem get2_set2_same {m n : Nat} (a : Fin m → Fin n → Int) (i j : Int) (v : Int)
    (hi : 0 ≤ i ∧ i.toNat < m) (hj : 0 ≤ j ∧ j.toNat < n) : get2 (set2 a i j v) i j = v := by
  unfold get2 set2
  rw [dif_pos ⟨hi, hj⟩]
  have h1 : ((i.toNat : Nat) : Int) = i := Int.toNat_of_nonneg hi.1
  have h2 : ((j.toNat : Nat) : Int) = j := Int.toNat_of_nonneg hj.1
  simp [h1, h2]

theorem next_lane_range (i turn straight : Int) (h0 : 0 ≤ i) (h4 : i ≤ 4) :
    0 ≤ next_lane i turn straight ∧ next_lane i turn straight ≤ 4 ∧
    |next_lane i turn straight - i| ≤ 1 := by
  unfold next_lane
  dsimp only
  rw [abs_le]
  split_ifs <;> omega

theorem segment_length_range (r : Nat) :
    9 ≤ Int.tmod (r : Int) 37 + 9 ∧ Int.tmod (r : Int) 37 + 9 ≤ 45 := by
  have h : Int.tmod (r : Int) 37 = (r : Int) % 37 :=
    Int.tmod_eq_emod (Int.ofNat_nonneg r) (by decide)
  rw [h]
  omega

theorem line_car_lay_pieces (i j next length : Int) (ctx : GameContext)
    (hi : 0 ≤ i ∧ i.toNat < 5) (hj : 0 ≤ j ∧ j.toNat < 8) (hn : 0 ≤ next ∧ next.toNat < 5) :
    get2 (line_car_lay i j next length ctx).track_pieces i j = length ∧
    get2 (line_car_lay i j next length ctx).track_pieces next j = length ∧
    get2 (line_car_lay i j next length ctx).track_positions next j = -length - length ∧
    (next ≠ i → get2 (line_car_lay i j next length ctx).track_positions i j = -length) := by
  have h1 : ((i.toNat : Nat) : Int) = i := Int.toNat_of_nonneg hi.1
  have h2 : ((j.toNat : Nat) : Int) = j := Int.toNat_of_nonneg hj.1
  have h3 : ((next.toNat : Nat) : Int) = next := Int.toNat_of_nonneg hn.1
  unfold line_car_lay
  dsimp only
  refine ⟨?_, ?_, ?_, ?_⟩
  · unfold get2 set2
    rw [dif_pos ⟨hi, hj⟩]
    simp [h1, h2]
  · unfold get2 set2
    rw [dif_pos ⟨hn, hj⟩]
    simp [h3, h2]
  · unfold get2 set2
    rw [dif_pos ⟨hn, hj⟩, dif_pos ⟨hi, hj⟩]
    simp [h1, h2, h3]
  · intro hne
    unfold get2 set2
    rw [dif_pos ⟨hi, hj⟩]
    have hne2 : ¬ i = next := fun h => hne h.symm
    simp [h1, h2, hne2]

/-- C27. Whenever `update_line_car` regenerates segment `j` of lane `i` (lines
776-786, `i < 5` and `j < WORLD_OBJ_LIMIT` as in the loops of lines 771-772),
for all outcomes of `rand()`, the new length is in [9,45] and the
continuation lane is in [0,4] and at most one lane away from `i`, so the
writes of lines 785-786 are in bounds: after the block both slots carry the
new length, and the continuation starts one length above the segment. -/
theorem line_car_regenerate_in_bounds (rnd : Nat → Nat) (i j : Nat) (s : Run)
    (hi : i < 5) (hj : j < WORLD_OBJ_LIMIT) :
    ∃ length next : Int,
      (line_car_regenerate rnd i j s).ctx = line_car_lay i j next length s.ctx ∧
      length = Int.tmod (rnd s.rands) 37 + 9 ∧
      next = next_lane i (Int.tmod (rnd (s.rands + 1)) 2) (Int.tmod (rnd (s.rands + 2)) 2) ∧
      9 ≤ length ∧ length ≤ 45 ∧
      0 ≤ next ∧ next ≤ 4 ∧ |next - i| ≤ 1 ∧
      get2 (line_car_regenerate rnd i j s).ctx.track_pieces i j = length ∧
      get2 (line_car_regenerate rnd i j s).ctx.track_pieces next j = length ∧
      get2 (line_car_regenerate rnd i j s).ctx.track_positions next j = -length - length ∧
      (next ≠ i → get2 (line_car_regenerate rnd i j s).ctx.track_positions i j = -length) := by
  have hr := next_lane_range (i : Int) (Int.tmod (rnd (s.rands + 1)) 2)
    (Int.tmod (rnd (s.rands + 2)) 2) (by omega) (by omega)
  have hl := segment_length_range (rnd s.rands)
  have hj8 : j < 8 := hj
  have hp := line_car_lay_pieces (i : Int) (j : Int)
    (next_lane i (Int.tmod (rnd (s.rands + 1)) 2) (Int.tmod (rnd (s.rands + 2)) 2))
    (Int.tmod (rnd s.rands) 37 + 9) s.ctx (by omega) (by omega) (by omega)
  exact ⟨_, _, rfl, rfl, rfl, hl.1, hl.2, hr.1, hr.2.1, hr.2.2, hp.1, hp.2.1, hp.2.2.1, hp.2.2.2⟩

/-- Witness of C27: segment 0 of lane 4 of the initial context, `rand()`
returning 0 throughout. -/
theorem line_car_regenerate_in_bounds_witness :
    (4 < 5 ∧ 0 < WORLD_OBJ_LIMIT) ∧
    ∃ length next : Int,
      (line_car_regenerate rand_zero 4 0 (stamped zero_context clock_479)).ctx =
        line_car_lay (4 : Nat) (0 : Nat) next length (stamped zero_context clock_479).ctx ∧
      length = Int.tmod (rand_zero (stamped zero_context clock_479).rands) 37 + 9 ∧
      next = next_lane (4 : Nat)
        (Int.tmod (rand_zero ((stamped zero_context clock_479).rands + 1)) 2)
        (Int.tmod (rand_zero ((stamped zero_context clock_479).rands + 2)) 2) ∧
      9 ≤ length ∧ length ≤ 45 ∧
      0 ≤ next ∧ next ≤ 4 ∧ |next - (4 : Nat)| ≤ 1 ∧
      get2 (line_car_regenerate rand_zero 4 0
        (stamped zero_context clock_479)).ctx.track_pieces (4 : Nat) (0 : Nat) = length ∧
      get2 (line_car_regenerate rand_zero 4 0
        (stamped zero_context clock_479)).ctx.track_pieces next (0 : Nat) = length ∧
      get2 (line_car_regenerate rand_zero 4 0
        (stamped zero_context clock_479)).ctx.track_positions next (0 : Nat) = -length - length ∧
      (next ≠ (4 : Nat) → get2 (line_car_regenerate rand_zero 4 0
        (stamped zero_context clock_479)).ctx.track_positions (4 : Nat) (0 : Nat) = -length) :=
  ⟨by decide, line_car_regenerate_in_bounds rand_zero 4 0 (stamped zero_context clock_479)
    (by decide) (by decide)⟩

/-! ## Space Flight: the damage band -/

theorem ship_space_flight_move (m i : Int) (ctx : GameContext) :
    ship (space_flight_move m i ctx) = ship ctx := by
  unfold space_flight_move
  dsimp only
  split_ifs <;> rfl

theorem ship_space_flight_grown (m i : Int) (ctx : GameContext) :
    ship (space_flight_grown m i ctx) = ship ctx := by
  unfold space_flight_grown space_flight_grow
  exact ship_space_flight_move m i ctx

theorem ship_space_flight_cull (i : Int) (ctx : GameContext) :
    ship (space_flight_cull i ctx) = ship ctx := by
  unfold space_flight_cull
  split_ifs <;> rfl

theorem ship_fields {c r : GameContext} (h : ship r = ship c) :
    r.ship_armor = c.ship_armor ∧ r.ship_health = c.ship_health ∧
    r.screen_type = c.screen_type :=
  ⟨congrArg (fun p : Int × Int × Int => p.1) h, congrArg (fun p : Int × Int × Int => p.2.1) h,
   congrArg (fun p : Int × Int × Int => p.2.2) h⟩

theorem space_flight_hits_iff (ctx : GameContext) (i : Int) :
    space_flight_hits ctx i ↔
      ((get2 ctx.objects i 2 > PORTRAIT_WIDTH / 3 ∧ get2 ctx.objects i 2 < PORTRAIT_WIDTH / 2) ∧
        in_hit_box ctx i) := by
  unfold space_flight_hits in_hit_box PORTRAIT_WIDTH
  constructor
  · rintro ⟨⟨a, b⟩, ⟨c, d⟩, e, f⟩
    exact ⟨⟨by omega, by omega⟩, by omega, by omega, by omega, by omega⟩
  · rintro ⟨⟨a, b⟩, c, d, e, f⟩
    exact ⟨⟨by omega, by omega⟩, ⟨by omega, by omega⟩, by omega, by omega⟩

theorem space_flight_hit_outside (tick rnd : Nat → Nat) (i : Int) (s : Run)
    (h : ¬ space_flight_hits s.ctx i) : space_flight_hit tick rnd i s = s := by
  rw [space_flight_hits_iff] at h
  unfold space_flight_hit
  by_cases hb : get2 s.ctx.objects i 2 > PORTRAIT_WIDTH / 3 ∧
      get2 s.ctx.objects i 2 < PORTRAIT_WIDTH / 2
  · rw [if_pos hb, if_neg (fun hx => h ⟨hb, hx⟩)]
  · rw [if_neg hb]

theorem space_flight_hit_inside (tick rnd : Nat → Nat) (i : Int) (s : Run)
    (h : space_flight_hits s.ctx i) :
    space_flight_hit tick rnd i s =
      space_flight_redock tick rnd (Run.map (space_flight_take (space_flight_damage s.ctx i)) s) := by
  rw [space_flight_hits_iff] at h
  unfold space_flight_hit
  rw [if_pos h.1, if_pos h.2]

theorem space_flight_damage_eq (ctx : GameContext) (i : Int) :
    space_flight_damage ctx i =
      (if ctx.screen_type ≠ 0 then Int.tdiv (get2 ctx.objects i 2) 2 else get2 ctx.objects i 2) *
        (if |get2 ctx.objects i 0 - 32| < 5 then 2 else 1) := by
  unfold space_flight_damage PORTRAIT_WIDTH
  have h : (get2 ctx.objects i 0 - 64 / 2).natAbs < 5 ↔ |get2 ctx.objects i 0 - 32| < 5 := by
    rw [abs_lt]
    omega
  simp only [h]

theorem ship_space_flight_step (tick rnd : Nat → Nat) (damage : Int) (s : Run) :
    ship (space_flight_redock tick rnd (Run.map (space_flight_take damage) s)).ctx =
      if s.ctx.ship_armor > 0 then
        if s.ctx.ship_health ≤ 0 then
          (Int.tmod (rnd (s.rands + 1)) 81 + 19, Int.tmod (rnd s.rands) 191 + 9, 8)
        else (s.ctx.ship_armor - damage, s.ctx.ship_health, s.ctx.screen_type)
      else if s.ctx.ship_health - damage ≤ 0 then
        (Int.tmod (rnd (s.rands + 1)) 81 + 19, Int.tmod (rnd s.rands) 191 + 9, 8)
      else (s.ctx.ship_armor, s.ctx.ship_health - damage, s.ctx.screen_type) := by
  unfold space_flight_redock space_flight_take Run.map
  dsimp only
  by_cases ha : s.ctx.ship_armor > 0
  · rw [if_pos ha, if_pos ha]
    by_cases hh : s.ctx.ship_health ≤ 0
    · rw [if_pos hh, if_pos hh]; rfl
    · rw [if_neg hh, if_neg hh]; rfl
  · rw [if_neg ha, if_neg ha]
    by_cases hh : s.ctx.ship_health - damage ≤ 0
    · rw [if_pos hh, if_pos hh]; rfl
    · rw [if_neg hh, if_neg hh]; rfl

theorem space_flight_object_ctx (tick rnd : Nat → Nat) (m i : Int) (s : Run) :
    space_flight_object tick rnd m i s =
      Run.map (space_flight_cull i)
        (space_flight_hit tick rnd i (Run.map (space_flight_grown m i) s)) := rfl

/-- Counterexample to C30 as stated: the ship climbs (view 1, neither 3 nor
4) with armor 50; the object of slot 0, after the move at (20, 59) with size
30, is in the band and in the box and is not centred. `update_space_flight`
takes 15, half the size, from the armor, where the statement has the full
size 30 taken. -/
theorem space_flight_damage_halved_when_climbing :
    space_flight_example.screen_type = 1 ∧ space_flight_example.ship_armor = 50 ∧
    get2 (space_flight_grown 1 0 space_flight_example).objects 0 0 = 20 ∧
    get2 (space_flight_grown 1 0 space_flight_example).objects 0 1 = 59 ∧
    get2 (space_flight_grown 1 0 space_flight_example).objects 0 2 = 30 ∧
    Int.tdiv space_flight_example.speed_bpm 78 = 1 ∧
    (update_space_flight space_flight_example clock_1020 rand_fifty).ship_armor = 35 ∧
    (update_space_flight space_flight_example clock_1020 rand_fifty).ship_health = 100 := by
  decide

/-- C30, amended. In pass `i` of the object loop of `update_space_flight`
on a live object (lines 1177-1201), with the size and the position taken
after the move and the growth: an object outside the band (21, 32) or the
box (5 < x < 59, 49 < y < 88) leaves armor, health and view as they were; for
an object inside both, the damage is the size, halved (integer division)
exactly when `screen_type` is not 0, whatever the view, then doubled when
|x - 32| < 5, and it is taken from the armor if the armor is positive and
otherwise from the health; when the health is then not positive the ship
redocks (armor and health redrawn, view 8). -/
theorem space_flight_object_damage (tick rnd : Nat → Nat) (m i : Int) (s : Run) :
    (¬ space_flight_hits (space_flight_grown m i s.ctx) i →
      ship (space_flight_object tick rnd m i s).ctx = ship s.ctx) ∧
    (space_flight_hits (space_flight_grown m i s.ctx) i →
      ∀ damage : Int,
        damage =
          (if s.ctx.screen_type ≠ 0 then Int.tdiv (get2 (space_flight_grown m i s.ctx).objects i 2) 2
            else get2 (space_flight_grown m i s.ctx).objects i 2) *
          (if |get2 (space_flight_grown m i s.ctx).objects i 0 - 32| < 5 then 2 else 1) →
        ship (space_flight_object tick rnd m i s).ctx =
          if s.ctx.ship_armor > 0 then
            if s.ctx.ship_health ≤ 0 then
              (Int.tmod (rnd (s.rands + 1)) 81 + 19, Int.tmod (rnd s.rands) 191 + 9, 8)
            else (s.ctx.ship_armor - damage, s.ctx.ship_health, s.ctx.screen_type)
          else if s.ctx.ship_health - damage ≤ 0 then
            (Int.tmod (rnd (s.rands + 1)) 81 + 19, Int.tmod (rnd s.rands) 191 + 9, 8)
          else (s.ctx.ship_armor, s.ctx.ship_health - damage, s.ctx.screen_type)) := by
  have hg := ship_fields (ship_space_flight_grown m i s.ctx)
  constructor
  · intro h
    rw [space_flight_object_ctx, space_flight_hit_outside tick rnd i _ h]
    exact (ship_space_flight_cull i _).trans (ship_space_flight_grown m i s.ctx)
  · intro h damage hd
    rw [space_flight_object_ctx, space_flight_hit_inside tick rnd i _ h]
    refine (ship_space_flight_cull i _).trans ?_
    rw [ship_space_flight_step]
    have e : space_flight_damage (Run.map (space_flight_grown m i) s).ctx i = damage := by
      rw [space_flight_damage_eq, hd]
      show _ = (if s.ctx.screen_type ≠ 0 then _ else _) * _
      rw [← hg.2.2]
      rfl
    rw [e]
    show (if (space_flight_grown m i s.ctx).ship_armor > 0 then
        if (space_flight_grown m i s.ctx).ship_health ≤ 0 then _ else
          ((space_flight_grown m i s.ctx).ship_armor - damage,
           (space_flight_grown m i s.ctx).ship_health,
           (space_flight_grown m i s.ctx).screen_type)
      else if (space_flight_grown m i s.ctx).ship_health - damage ≤ 0 then _ else
          ((space_flight_grown m i s.ctx).ship_armor,
           (space_flight_grown m i s.ctx).ship_health - damage,
           (space_flight_grown m i s.ctx).screen_type)) = _
    rw [hg.1, hg.2.1, hg.2.2]
    rfl

/-! ## Flip IQ: the length of a round -/

/-- Counterexample to C28 as stated: in round 1, 22 whole seconds after
`round_start_time`, far from the 30 + 30 * 1 = 60 seconds of the statement,
`update_flip_iq` ends the round: the score gets the bonus of 10, the streak
goes to 2, `round_start_time` is restarted and the ball is drawn again (one
of the 8 balls enters on the same update). -/
theorem flip_iq_round_ends_after_22_seconds :
    flip_iq_example.streak = 1 ∧ flip_iq_example.score = 0 ∧
    sub32 (furi_get_tick clock_22000 0) flip_iq_example.round_start_time / 1000 = 22 ∧
    (update_flip_iq flip_iq_example clock_22000 rand_zero).score = 10 ∧
    (update_flip_iq flip_iq_example clock_22000 rand_zero).streak = 2 ∧
    (update_flip_iq flip_iq_example clock_22000 rand_zero).round_start_time = 22000 ∧
    (update_flip_iq flip_iq_example clock_22000 rand_zero).ball_width = 10 ∧
    (update_flip_iq flip_iq_example clock_22000 rand_zero).ball_count = 7 ∧
    get2 (update_flip_iq flip_iq_example clock_22000 rand_zero).key_positions 2 0 = 26 := by
  decide

theorem flip_iq_round_over_iff (now : Nat) (ctx : GameContext) (h1 : 1 ≤ ctx.streak)
    (h2 : 30 * ctx.streak < 4294967296) :
    flip_iq_round_over now ctx ↔
      (30 * ctx.streak - 8 ≤ ((sub32 now ctx.round_start_time / 1000 : Nat) : Int) ∧
        get2 ctx.key_positions 2 0 = 0) := by
  unfold flip_iq_round_over
  have e : sub32 (toU32 (30 + (ctx.streak - 1) * 30)) 9 = (30 * ctx.streak - 9).toNat := by
    unfold sub32 toU32
    omega
  rw [e]
  constructor
  · rintro ⟨a, b⟩
    exact ⟨by omega, b⟩
  · rintro ⟨a, b⟩
    exact ⟨by omega, b⟩

theorem flip_iq_round_never_over (now : Nat) (ctx : GameContext) (h : ctx.streak = 0) :
    ¬ flip_iq_round_over now ctx := by
  unfold flip_iq_round_over
  rw [h]
  have e : sub32 (toU32 (30 + ((0 : Int) - 1) * 30)) 9 = 4294967287 := by decide
  rw [e]
  have b : sub32 now ctx.round_start_time < 4294967296 := by
    unfold sub32
    omega
  rintro ⟨a, _⟩
  omega

theorem flip_iq_round_end_fields (tick rnd : Nat → Nat) (s : Run) :
    (flip_iq_round_end tick rnd s).ctx.score = s.ctx.score + 10 ∧
    (flip_iq_round_end tick rnd s).ctx.streak =
      (if s.ctx.streak + 1 > 99 then 1 else s.ctx.streak + 1) ∧
    (flip_iq_round_end tick rnd s).ctx.round_start_time = furi_get_tick tick (s.ticks + 1) ∧
    (flip_iq_round_end tick rnd s).ctx.ball_width =
      draw_ball_width (rnd s.rands) (if s.ctx.streak + 1 > 99 then 1 else s.ctx.streak + 1) ∧
    (flip_iq_round_end tick rnd s).ctx.ball_count =
      cap_ball_count (Int.tdiv
        (draw_ball_width (rnd s.rands) (if s.ctx.streak + 1 > 99 then 1 else s.ctx.streak + 1) *
          6 * (100 - Int.tmod (rnd (s.rands + 1)) 21)) 100) := by
  unfold flip_iq_round_end flip_iq_next_ball flip_iq_next_round Run.notify Run.map
  dsimp only
  split_ifs <;> exact ⟨rfl, rfl, rfl, rfl, rfl⟩

/-- C28, amended. In `update_flip_iq` (lines 891-907), with `elapsed` the
whole seconds between `round_start_time` and the reading of line 891: in a
round `streak >= 1` the round-end block runs exactly when
`elapsed >= 30 * streak - 8` (the test is `elapsed > round_time - 9` with
`round_time = 30 * streak`) and `key_positions[2][0] == 0`; with `streak = 0`
it never runs (the unsigned `round_time - 9` wraps). When it runs it adds the
bonus of 10, increments the streak (back to 1 after 99), restarts
`round_start_time` and draws `ball_width` and `ball_count` again; otherwise
the block leaves the context as it was. -/
theorem flip_iq_round_length (tick rnd : Nat → Nat) (s : Run) :
    (1 ≤ s.ctx.streak → 30 * s.ctx.streak < 4294967296 →
      (flip_iq_round_over (s.now tick) s.ctx ↔
        (30 * s.ctx.streak - 8 ≤
            ((sub32 (furi_get_tick tick s.ticks) s.ctx.round_start_time / 1000 : Nat) : Int) ∧
          get2 s.ctx.key_positions 2 0 = 0))) ∧
    (s.ctx.streak = 0 → ¬ flip_iq_round_over (s.now tick) s.ctx) ∧
    (¬ flip_iq_round_over (s.now tick) s.ctx → flip_iq_round tick rnd s = s.read) ∧
    (flip_iq_round_over (s.now tick) s.ctx →
      flip_iq_round tick rnd s = flip_iq_round_end tick rnd s.read ∧
      (flip_iq_round tick rnd s).ctx.score = s.ctx.score + 10 ∧
      (flip_iq_round tick rnd s).ctx.streak =
        (if s.ctx.streak + 1 > 99 then 1 else s.ctx.streak + 1) ∧
      (flip_iq_round tick rnd s).ctx.round_start_time = furi_get_tick tick (s.ticks + 2) ∧
      (flip_iq_round tick rnd s).ctx.ball_width =
        draw_ball_width (rnd s.rands) (if s.ctx.streak + 1 > 99 then 1 else s.ctx.streak + 1) ∧
      (flip_iq_round tick rnd s).ctx.ball_count =
        cap_ball_count (Int.tdiv
          (draw_ball_width (rnd s.rands)
              (if s.ctx.streak + 1 > 99 then 1 else s.ctx.streak + 1) *
            6 * (100 - Int.tmod (rnd (s.rands + 1)) 21)) 100)) := by
  refine ⟨fun h1 h2 => flip_iq_round_over_iff _ _ h1 h2, fun h => flip_iq_round_never_over _ _ h,
    ?_, ?_⟩
  · intro h
    unfold flip_iq_round
    rw [if_neg h]
  · intro h
    have e : flip_iq_round tick rnd s = flip_iq_round_end tick rnd s.read := by
      unfold flip_iq_round
      rw [if_pos h]
    rw [e]
    exact ⟨rfl, flip_iq_round_end_fields tick rnd s.read⟩

/-! ## Zero Hero: the difficulty check -/

/-- Counterexample to C25 as stated: more than COOLDOWN_MS after the last
check, with streak 6 and average 12 div 6 = 2, the streak is below 5 times
the average (10) and `update_zero_hero` raises the difficulty from EASY to
MEDIUM: the test of line 670 is `streak >= avg_streak * 3`. -/
theorem difficulty_raised_at_three_times_average :
    difficulty_example.streak = 6 ∧ avg_streak difficulty_example = 2 ∧
    difficulty_example.streak < 5 * avg_streak difficulty_example ∧
    difficulty_example.difficulty = DIFFICULTY_EASY ∧
    (update_zero_hero difficulty_example clock_200000 rand_zero).streak = 6 ∧
    (update_zero_hero difficulty_example clock_200000 rand_zero).difficulty =
      DIFFICULTY_MEDIUM ∧
    (update_zero_hero difficulty_example clock_200000 rand_zero).last_difficulty_check =
      200000 := by
  decide

theorem bystanders_fields {c r : GameContext} (h : bystanders r = bystanders c) :
    r.car_lane = c.car_lane ∧ r.difficulty = c.difficulty ∧
    r.last_difficulty_check = c.last_difficulty_check :=
  ⟨congrArg (fun p : Int × Int × Nat => p.1) h, congrArg (fun p : Int × Int × Nat => p.2.1) h,
   congrArg (fun p : Int × Int × Nat => p.2.2) h⟩

theorem bystanders_zero_hero_before_check (ctx : GameContext) (tick rnd : Nat → Nat) :
    bystanders (zero_hero_before_check ctx tick rnd).ctx = bystanders ctx := by
  unfold zero_hero_before_check
  simp

theorem zero_hero_raise_difficulty (tick rnd : Nat → Nat) (s : Run) :
    (zero_hero_raise tick rnd s).ctx.difficulty =
      (if s.ctx.difficulty < DIFFICULTY_HARD then s.ctx.difficulty + 1 else s.ctx.difficulty) := by
  unfold zero_hero_raise zero_hero_check_stamp zero_hero_tier_up Run.notify Run.map Run.drawn
  dsimp only
  split_ifs <;> rfl

theorem zero_hero_difficulty_value (tick rnd : Nat → Nat) (s : Run) :
    (zero_hero_difficulty tick rnd s).ctx.difficulty =
      if (sub32 (s.now tick) s.ctx.last_difficulty_check > COOLDOWN_MS ∧ s.ctx.streak > 5) ∧
          s.ctx.streak ≥ avg_streak s.ctx * 3 ∧ s.ctx.difficulty < DIFFICULTY_HARD then
        s.ctx.difficulty + 1
      else s.ctx.difficulty := by
  unfold zero_hero_difficulty zero_hero_escalate
  by_cases h1 : sub32 (s.now tick) s.ctx.last_difficulty_check > COOLDOWN_MS ∧ s.ctx.streak > 5
  · rw [if_pos h1]
    by_cases h2 : s.ctx.streak ≥ avg_streak s.ctx * 3
    · have h2r : s.read.ctx.streak ≥ avg_streak s.read.ctx * 3 := h2
      rw [if_pos h2r, zero_hero_raise_difficulty]
      by_cases h3 : s.ctx.difficulty < DIFFICULTY_HARD
      · have h3r : s.read.ctx.difficulty < DIFFICULTY_HARD := h3
        rw [if_pos h3r, if_pos ⟨h1, h2, h3⟩]
        rfl
      · have h3r : ¬ s.read.ctx.difficulty < DIFFICULTY_HARD := h3
        rw [if_neg h3r, if_neg (fun h => h3 h.2.2)]
        rfl
    · have h2r : ¬ s.read.ctx.streak ≥ avg_streak s.read.ctx * 3 := h2
      rw [if_neg h2r, if_neg (fun h => h2 h.2.1)]
      rfl
  · rw [if_neg h1, if_neg (fun h => h1 h.1)]
    rfl

/-- C25, amended. With `streak` and `avg_streak` (`streak_sum` div
`streak_count`, 0 when `streak_count` is not positive) taken when the
difficulty check of lines 668-678 is reached, `update_zero_hero` raises the
difficulty by one tier exactly when the update is not rate-limited, the
reading of the clock by the test of line 668 is more than COOLDOWN_MS
(180000 ms) after `last_difficulty_check`, the streak is above 5 and at least
3 times the average, and the difficulty is below HARD; on every other update
the difficulty is unchanged. -/
theorem zero_hero_difficulty_rule (ctx : GameContext) (tick rnd : Nat → Nat) :
    (update_zero_hero ctx tick rnd).difficulty =
      if ¬ rate_limited ctx (zero_hero_fps ctx) tick ∧
          sub32 ((zero_hero_before_check ctx tick rnd).now tick) ctx.last_difficulty_check >
            180000 ∧
          (zero_hero_before_check ctx tick rnd).ctx.streak > 5 ∧
          (zero_hero_before_check ctx tick rnd).ctx.streak ≥
            avg_streak (zero_hero_before_check ctx tick rnd).ctx * 3 ∧
          ctx.difficulty < DIFFICULTY_HARD then
        ctx.difficulty + 1
      else ctx.difficulty := by
  have hb := bystanders_fields (bystanders_zero_hero_before_check ctx tick rnd)
  unfold update_zero_hero
  by_cases hr : rate_limited ctx (zero_hero_fps ctx) tick
  · rw [if_pos hr, if_neg (fun h => h.1 hr)]
  · rw [if_neg hr]
    have e := zero_hero_difficulty_value tick rnd (zero_hero_before_check ctx tick rnd)
    rw [hb.2.1, hb.2.2] at e
    unfold zero_hero_before_check at e ⊢
    rw [e]
    have k : COOLDOWN_MS = 180000 := rfl
    rw [k]
    by_cases hc : (sub32 ((zero_hero_spawn rnd (zero_hero_lanes tick (stamped ctx tick))).now tick)
          ctx.last_difficulty_check > 180000 ∧
        (zero_hero_spawn rnd (zero_hero_lanes tick (stamped ctx tick))).ctx.streak > 5) ∧
        (zero_hero_spawn rnd (zero_hero_lanes tick (stamped ctx tick))).ctx.streak ≥
          avg_streak (zero_hero_spawn rnd (zero_hero_lanes tick (stamped ctx tick))).ctx * 3 ∧
        ctx.difficulty < DIFFICULTY_HARD
    · rw [if_pos hc, if_pos ⟨hr, hc.1.1, hc.1.2, hc.2.1, hc.2.2⟩]
    · rw [if_neg hc, if_neg (fun h => hc ⟨⟨h.2.1, h.2.2.1⟩, h.2.2.2.1, h.2.2.2.2⟩)]

/-! ## Zero Hero: a symbol past the hit band -/

theorem get2_nat_fin {m n : Nat} (a : Fin m → Fin n → Int) (i j : Nat) (hi : i < m) (hj : j < n) :
    get2 a (i : Int) (j : Int) = a ⟨i, hi⟩ ⟨j, hj⟩ :=
  get2_fin a ⟨i, hi⟩ ⟨j, hj⟩

theorem set2_at {m n : Nat} (a : Fin m → Fin n → Int) (i : Fin m) (j : Fin n) (v : Int) :
    set2 a (i.val : Int) (j.val : Int) v i j = v := by
  unfold set2
  simp

theorem set2_off {m n : Nat} (a : Fin m → Fin n → Int) (x y : Nat) (i : Fin m) (j : Fin n)
    (v : Int) (h : ¬ (x = i.val ∧ y = j.val)) :
    set2 a (x : Int) (y : Int) v i j = a i j := by
  unfold set2
  have h2 : ¬ ((i.val : Int) = (x : Int) ∧ (j.val : Int) = (y : Int)) := by
    rintro ⟨e1, e2⟩
    exact h ⟨by omega, by omega⟩
  rw [if_neg h2]

/-- A pass of the loops of `update_zero_hero` writes no slot but its own. -/
theorem zero_hero_slot_other (tick : Nat → Nat) (a b : Nat) (i : Fin 5) (j : Fin 10) (t : Run)
    (h : ¬ (a = i.val ∧ b = j.val)) :
    (zero_hero_slot tick a b t).ctx.key_positions i j = t.ctx.key_positions i j := by
  have hadv : (zero_hero_advance a b t.ctx).key_positions i j = t.ctx.key_positions i j :=
    set2_off _ a b i j _ h
  unfold zero_hero_slot zero_hero_judge
  split_ifs
  · rw [(zero_hero_hit_fields tick a b _).2.2.2.1, set2_off _ a b i j _ h]
    exact hadv
  · exact hadv
  · show set2 (zero_hero_advance a b t.ctx).key_positions a b 0 i j = _
    rw [set2_off _ a b i j _ h]
    exact hadv
  · exact hadv
  · rfl

/-- The value a pass leaves in its own slot. -/
theorem zero_hero_slot_own (tick : Nat → Nat) (i : Fin 5) (j : Fin 10) (t : Run) :
    (zero_hero_slot tick i.val j.val t).ctx.key_positions i j =
      zero_hero_slot_value (t.ctx.key_positions i j) (t.ctx.is_holding i) := by
  have hadv : get2 (zero_hero_advance i.val j.val t.ctx).key_positions (i.val : Int) (j.val : Int) =
      t.ctx.key_positions i j + 1 := by
    rw [get2_fin]
    show set2 t.ctx.key_positions i.val j.val _ i j = _
    rw [set2_at, get2_fin]
  have hh : get1 (zero_hero_advance i.val j.val t.ctx).is_holding (i.val : Int) =
      t.ctx.is_holding i := get1_fin t.ctx.is_holding i
  unfold zero_hero_slot zero_hero_judge zero_hero_slot_value
  rw [get2_fin, run_map_ctx, hadv, hh]
  by_cases h1 : t.ctx.key_positions i j > 0
  · rw [if_pos h1, if_pos h1]
    by_cases h2 : t.ctx.key_positions i j + 1 ≥ PORTRAIT_HEIGHT - 6 ∧
        t.ctx.key_positions i j + 1 ≤ PORTRAIT_HEIGHT - 4
    · rw [if_pos h2, if_pos h2]
      by_cases h3 : t.ctx.is_holding i = true
      · rw [if_pos h3, if_pos h3, (zero_hero_hit_fields tick i.val j.val _).2.2.2.1, set2_at]
      · rw [if_neg h3, if_neg h3]
        show set2 t.ctx.key_positions i.val j.val _ i j = _
        rw [set2_at, get2_fin]
    · rw [if_neg h2, if_neg h2]
      by_cases h4 : t.ctx.key_positions i j + 1 > PORTRAIT_HEIGHT - 5
      · rw [if_pos h4, if_pos h4]
        show set2 (zero_hero_advance i.val j.val t.ctx).key_positions i.val j.val 0 i j = _
        rw [set2_at]
      · rw [if_neg h4, if_neg h4]
        show set2 t.ctx.key_positions i.val j.val _ i j = _
        rw [set2_at, get2_fin]
  · rw [if_neg h1, if_neg h1]

/-- The inner loop of a lane other than `i` leaves slot `(i, j)` as it is. -/
theorem zero_hero_lane_other (tick : Nat → Nat) (a : Nat) (i : Fin 5) (j : Fin 10) (s : Run)
    (h : a ≠ i.val) :
    (zero_hero_lane tick a s).ctx.key_positions i j = s.ctx.key_positions i j ∧
    (zero_hero_lane tick a s).ctx.is_holding = s.ctx.is_holding := by
  unfold zero_hero_lane
  apply for_loop_inv (fun t : Run =>
    t.ctx.key_positions i j = s.ctx.key_positions i j ∧ t.ctx.is_holding = s.ctx.is_holding)
  · intro b t ht
    exact ⟨(zero_hero_slot_other tick a b i j t (fun e => h e.1)).trans ht.1,
      (zero_hero_slot_holding tick a b t).trans ht.2⟩
  · exact ⟨rfl, rfl⟩

/-- The inner loop of lane `i` leaves in slot `(i, j)` the value of pass
`(i, j)`. -/
theorem zero_hero_lane_own (tick : Nat → Nat) (i : Fin 5) (j : Fin 10) (s : Run) :
    (zero_hero_lane tick i.val s).ctx.key_positions i j =
      zero_hero_slot_value (s.ctx.key_positions i j) (s.ctx.is_holding i) ∧
    (zero_hero_lane tick i.val s).ctx.is_holding = s.ctx.is_holding := by
  unfold zero_hero_lane
  have key := for_loop_inv_lt
    (fun (b : Nat) (t : Run) =>
      t.ctx.is_holding = s.ctx.is_holding ∧
      (b ≤ j.val → t.ctx.key_positions i j = s.ctx.key_positions i j) ∧
      (j.val < b → t.ctx.key_positions i j =
        zero_hero_slot_value (s.ctx.key_positions i j) (s.ctx.is_holding i)))
    (fun b t => zero_hero_slot tick i.val b t) 10
    (fun b t _ ht => by
      obtain ⟨h1, h2, h3⟩ := ht
      refine ⟨(zero_hero_slot_holding tick i.val b t).trans h1, ?_, ?_⟩
      · intro hb
        rw [zero_hero_slot_other tick i.val b i j t (fun e => by omega)]
        exact h2 (by omega)
      · intro hb
        by_cases e : b = j.val
        · rw [e, zero_hero_slot_own, h2 (by omega), h1]
        · rw [zero_hero_slot_other tick i.val b i j t (fun e2 => e e2.2)]
          exact h3 (by omega))
    (Run.map (fun ctx => { ctx with strum_hit := set1 ctx.strum_hit i.val false }) s)
    ⟨rfl, fun _ => rfl, fun h => absurd h (Nat.not_lt_zero _)⟩
  exact ⟨key.2.2 j.isLt, key.1⟩

/-- After the loops of `update_zero_hero` slot `(i, j)` holds the value of
pass `(i, j)`. -/
theorem zero_hero_lanes_slot (tick : Nat → Nat) (i : Fin 5) (j : Fin 10) (s : Run) :
    (zero_hero_lanes tick s).ctx.key_positions i j =
      zero_hero_slot_value (s.ctx.key_positions i j) (s.ctx.is_holding i) := by
  unfold zero_hero_lanes
  have key := for_loop_inv_lt
    (fun (a : Nat) (t : Run) =>
      t.ctx.is_holding = s.ctx.is_holding ∧
      (a ≤ i.val → t.ctx.key_positions i j = s.ctx.key_positions i j) ∧
      (i.val < a → t.ctx.key_positions i j =
        zero_hero_slot_value (s.ctx.key_positions i j) (s.ctx.is_holding i)))
    (fun a t => zero_hero_lane tick a t) 5
    (fun a t _ ht => by
      obtain ⟨h1, h2, h3⟩ := ht
      by_cases e : a = i.val
      · obtain ⟨o1, o2⟩ := zero_hero_lane_own tick i j t
        rw [e]
        refine ⟨o2.trans h1, fun hb => absurd hb (by omega), fun _ => ?_⟩
        rw [o1, h2 (by omega), h1]
      · obtain ⟨o1, o2⟩ := zero_hero_lane_other tick a i j t e
        refine ⟨o2.trans h1, fun hb => ?_, fun hb => ?_⟩
        · rw [o1]; exact h2 (by omega)
        · rw [o1]; exact h3 (by omega))
    s ⟨rfl, fun _ => rfl, fun h => absurd h (Nat.not_lt_zero _)⟩
  exact key.2.2 i.isLt

/-- The spawn step writes 7 into a slot that holds 0 and nothing else. -/
theorem zero_hero_spawn_slots (rnd : Nat → Nat) (s : Run) (i : Fin 5) (j : Fin 10) :
    (zero_hero_spawn rnd s).ctx.key_positions i j = s.ctx.key_positions i j ∨
    (s.ctx.key_positions i j = 0 ∧ s.ctx.ai_beat_counter % 10 = 0 ∧
      (zero_hero_spawn rnd s).ctx.key_positions i j = 7) := by
  unfold zero_hero_spawn
  by_cases hb : s.ctx.ai_beat_counter % 10 = 0
  · rw [if_pos hb]
    unfold zero_hero_spawn_lane
    apply for_loop_break_inv (fun t : Run =>
      t.ctx.key_positions i j = s.ctx.key_positions i j ∨
      (s.ctx.key_positions i j = 0 ∧ s.ctx.ai_beat_counter % 10 = 0 ∧
        t.ctx.key_positions i j = 7))
    · intro b t ht
      beta_reduce
      by_cases h0 : get2 t.ctx.key_positions (Int.tmod ((Run.map beat s).rand rnd) 5) b = 0
      · have e : (zero_hero_spawn_slot (Int.tmod ((Run.map beat s).rand rnd) 5) b
            t).1.ctx.key_positions i j =
            if (i.val : Int) = Int.tmod ((Run.map beat s).rand rnd) 5 ∧ (j.val : Int) = (b : Int)
            then 7 else t.ctx.key_positions i j := by
          unfold zero_hero_spawn_slot
          rw [if_pos h0]
          rfl
        rw [e]
        by_cases hw : (i.val : Int) = Int.tmod ((Run.map beat s).rand rnd) 5 ∧
            (j.val : Int) = (b : Int)
        · rw [if_pos hw]
          rcases ht with ht | ht
          · right
            refine ⟨?_, hb, rfl⟩
            rw [← ht]
            rw [← hw.1, ← hw.2, get2_fin] at h0
            exact h0
          · right
            exact ⟨ht.1, hb, rfl⟩
        · rw [if_neg hw]
          exact ht
      · have e : (zero_hero_spawn_slot (Int.tmod ((Run.map beat s).rand rnd) 5) b
            t).1.ctx.key_positions i j = t.ctx.key_positions i j := by
          unfold zero_hero_spawn_slot
          rw [if_neg h0]
        rw [e]
        exact ht
    · left; rfl
  · rw [if_neg hb]
    left; rfl

/-- A pass on a symbol that steps past the hit band runs the miss block. -/
theorem zero_hero_slot_miss (tick : Nat → Nat) (i : Fin 5) (j : Fin 10) (t : Run)
    (h1 : t.ctx.key_positions i j > 0) (h2 : t.ctx.key_positions i j + 1 > 124) :
    zero_hero_slot tick i.val j.val t =
      zero_hero_miss tick i.val j.val (Run.map (zero_hero_advance i.val j.val) t) := by
  have hadv : get2 (zero_hero_advance i.val j.val t.ctx).key_positions (i.val : Int) (j.val : Int) =
      t.ctx.key_positions i j + 1 := by
    rw [get2_fin]
    show set2 t.ctx.key_positions i.val j.val _ i j = _
    rw [set2_at, get2_fin]
  unfold zero_hero_slot zero_hero_judge
  rw [get2_fin, if_pos h1, run_map_ctx, hadv]
  have k : PORTRAIT_HEIGHT = 128 := rfl
  rw [if_neg (by rw [k]; omega), if_pos (by rw [k]; omega)]

/-- A pass on a symbol that steps into the hit band of a lane not held only
moves the symbol. -/
theorem zero_hero_slot_unheld (tick : Nat → Nat) (i : Fin 5) (j : Fin 10) (t : Run)
    (h2 : 122 ≤ t.ctx.key_positions i j + 1 ∧ t.ctx.key_positions i j + 1 ≤ 124)
    (h3 : t.ctx.is_holding i = false) :
    zero_hero_slot tick i.val j.val t = Run.map (zero_hero_advance i.val j.val) t := by
  have hadv : get2 (zero_hero_advance i.val j.val t.ctx).key_positions (i.val : Int) (j.val : Int) =
      t.ctx.key_positions i j + 1 := by
    rw [get2_fin]
    show set2 t.ctx.key_positions i.val j.val _ i j = _
    rw [set2_at, get2_fin]
  have hh : get1 (zero_hero_advance i.val j.val t.ctx).is_holding (i.val : Int) =
      t.ctx.is_holding i := get1_fin t.ctx.is_holding i
  unfold zero_hero_slot zero_hero_judge
  rw [get2_fin, if_pos (by omega), run_map_ctx, hadv, hh]
  have k : PORTRAIT_HEIGHT = 128 := rfl
  rw [if_pos (by rw [k]; omega), h3]
  rfl

theorem update_zero_hero_board (ctx : GameContext) (tick rnd : Nat → Nat)
    (hg : ¬ rate_limited ctx (zero_hero_fps ctx) tick) :
    (update_zero_hero ctx tick rnd).key_positions =
      (zero_hero_spawn rnd (zero_hero_lanes tick (stamped ctx tick))).ctx.key_positions := by
  unfold update_zero_hero
  rw [if_neg hg, (zero_hero_difficulty_counters _ _ _).2]

/-- C24. In `update_zero_hero` when not rate-limited, for the symbol of slot
`(i, j)`: if its position after the step of line 625 is past the hit band
(greater than 124), pass `(i, j)` of the loops runs the miss block (lines
650-654): the slot is set to 0, the streak is reset to 0 and "! Miss !" is
raised; the slot holds 0 after the loops (and after the update, unless the
spawn step of the same update puts a new symbol, at 7, in it). If the
position after the step is inside the band [122,124] while lane `i` is not
held, the pass only moves the symbol, neither removing it nor running the
miss block, and after the update the slot holds the moved symbol. -/
theorem zero_hero_miss_rule (ctx : GameContext) (tick rnd : Nat → Nat) (i : Fin 5) (j : Fin 10)
    (hg : ¬ rate_limited ctx (zero_hero_fps ctx) tick) :
    (ctx.key_positions i j > 0 → ctx.key_positions i j + 1 > 124 →
      (∀ t : Run, t.ctx.key_positions i j = ctx.key_positions i j →
        zero_hero_slot tick i.val j.val t =
          zero_hero_miss tick i.val j.val (Run.map (zero_hero_advance i.val j.val) t) ∧
        (zero_hero_slot tick i.val j.val t).ctx.key_positions i j = 0 ∧
        (zero_hero_slot tick i.val j.val t).ctx.streak = 0 ∧
        (zero_hero_slot tick i.val j.val t).ctx.notification_text = "! Miss !") ∧
      (zero_hero_lanes tick (stamped ctx tick)).ctx.key_positions i j = 0 ∧
      ((update_zero_hero ctx tick rnd).key_positions i j = 0 ∨
        (ctx.ai_beat_counter % 10 = 0 ∧ (update_zero_hero ctx tick rnd).key_positions i j = 7))) ∧
    (122 ≤ ctx.key_positions i j + 1 ∧ ctx.key_positions i j + 1 ≤ 124 →
      ctx.is_holding i = false →
      (∀ t : Run, t.ctx.key_positions i j = ctx.key_positions i j →
        t.ctx.is_holding = ctx.is_holding →
        zero_hero_slot tick i.val j.val t = Run.map (zero_hero_advance i.val j.val) t ∧
        (zero_hero_slot tick i.val j.val t).ctx.key_positions i j = ctx.key_positions i j + 1 ∧
        (zero_hero_slot tick i.val j.val t).ctx.streak = t.ctx.streak ∧
        (zero_hero_slot tick i.val j.val t).ctx.notification_text = t.ctx.notification_text) ∧
      (update_zero_hero ctx tick rnd).key_positions i j = ctx.key_positions i j + 1) := by
  have hl := zero_hero_lanes_slot tick i j (stamped ctx tick)
  have hs := zero_hero_spawn_slots rnd (zero_hero_lanes tick (stamped ctx tick)) i j
  have hbeat := (zero_hero_lanes_rest tick (stamped ctx tick)).2
  have hkp : (stamped ctx tick).ctx.key_positions i j = ctx.key_positions i j := rfl
  have hho : (stamped ctx tick).ctx.is_holding i = ctx.is_holding i := rfl
  have hb0 : (stamped ctx tick).ctx.ai_beat_counter = ctx.ai_beat_counter := rfl
  have k : PORTRAIT_HEIGHT = 128 := rfl
  rw [hkp, hho] at hl
  rw [hbeat, hb0, ← update_zero_hero_board ctx tick rnd hg] at hs
  constructor
  · intro h1 h2
    have hv : zero_hero_slot_value (ctx.key_positions i j) (ctx.is_holding i) = 0 := by
      unfold zero_hero_slot_value
      rw [if_pos h1, if_neg (by rw [k]; omega), if_pos (by rw [k]; omega)]
    rw [hv] at hl
    refine ⟨fun t ht => ?_, hl, ?_⟩
    · have e := zero_hero_slot_miss tick i j t (by rw [ht]; exact h1) (by rw [ht]; exact h2)
      rw [e]
      refine ⟨rfl, ?_, rfl, rfl⟩
      show set2 (zero_hero_advance i.val j.val t.ctx).key_positions i.val j.val 0 i j = 0
      rw [set2_at]
    · rcases hs with hs | hs
      · left; rw [hs]; exact hl
      · right; exact ⟨hs.2.1, hs.2.2⟩
  · intro h2 h3
    have hv : zero_hero_slot_value (ctx.key_positions i j) (ctx.is_holding i) =
        ctx.key_positions i j + 1 := by
      unfold zero_hero_slot_value
      rw [if_pos (by omega), if_pos (by rw [k]; omega), h3]
      rfl
    rw [hv] at hl
    refine ⟨fun t ht hh => ?_, ?_⟩
    · have e := zero_hero_slot_unheld tick i j t (by rw [ht]; exact h2) (by rw [hh]; exact h3)
      rw [e]
      refine ⟨rfl, ?_, rfl, rfl⟩
      show set2 t.ctx.key_positions i.val j.val _ i j = _
      rw [set2_at, get2_fin, ht]
    · rcases hs with hs | hs
      · rw [hs]; exact hl
      · exfalso
        have := hs.1
        omega

/-- Witness of C24: no lane is held, the symbol of lane 1 is at 130 and the
symbol of lane 3 is at 122. -/
theorem zero_hero_miss_rule_witness :
    ¬ rate_limited miss_example (zero_hero_fps miss_example) clock_1020 ∧
    (update_zero_hero miss_example clock_1020 rand_zero).key_positions 1 0 = 0 ∧
    (update_zero_hero miss_example clock_1020 rand_zero).streak = 0 ∧
    (update_zero_hero miss_example clock_1020 rand_zero).key_positions 3 0 = 123 ∧
    (update_zero_hero miss_example clock_1020 rand_zero).key_positions 3 0 =
      miss_example.key_positions 3 0 + 1 :=
  ⟨by decide, by decide, by decide, by decide,
   ((zero_hero_miss_rule miss_example clock_1020 rand_zero 3 0 (by decide)).2
      (by decide) (by decide)).2⟩

/-! ## Flip Zip: the speed ramp -/

theorem speed_ramp_refl (c : GameContext) : speed_ramp c c :=
  ⟨le_refl _, fun _ => rfl, fun h => ⟨le_refl _, h⟩⟩

theorem speed_ramp_trans {a b c : GameContext} (h1 : speed_ramp a b) (h2 : speed_ramp b c) :
    speed_ramp a c := by
  obtain ⟨a1, a2, a3⟩ := h1
  obtain ⟨b1, b2, b3⟩ := h2
  refine ⟨le_trans a1 b1, fun h => ?_, fun h => ?_⟩
  · have e1 : b.successful_jumps = a.successful_jumps := by omega
    have e2 : c.successful_jumps = b.successful_jumps := by omega
    rw [b2 e2, a2 e1]
  · obtain ⟨x1, x2⟩ := a3 h
    obtain ⟨y1, y2⟩ := b3 x2
    exact ⟨le_trans x1 y1, y2⟩

theorem speed_ramp_of_ramp {c r : GameContext} (h : ramp r = ramp c) : speed_ramp c r := by
  have e1 : r.speed_bpm = c.speed_bpm := congrArg Prod.fst h
  have e2 : r.successful_jumps = c.successful_jumps := congrArg Prod.snd h
  exact ⟨by rw [e2], fun _ => e1, fun h => by rw [e1]; exact ⟨le_refl _, h⟩⟩

/-- The step of lines 698-701 and 736-739 on the count just incremented. -/
theorem flip_zip_every_fifth_fields (c : GameContext) :
    (flip_zip_every_fifth c).successful_jumps = c.successful_jumps ∧
    (flip_zip_every_fifth c).speed_bpm =
      (if Int.tmod c.successful_jumps 5 = 0 then min (c.speed_bpm + 10) 120 else c.speed_bpm) := by
  unfold flip_zip_every_fifth speed_step
  by_cases h : Int.tmod c.successful_jumps 5 = 0
  · rw [if_pos h, if_pos h]
    by_cases h2 : c.speed_bpm + 10 > 120
    · rw [if_pos h2]
      exact ⟨rfl, by show (120 : Int) = _; omega⟩
    · rw [if_neg h2]
      exact ⟨rfl, by show c.speed_bpm + 10 = _; omega⟩
  · rw [if_neg h, if_neg h]
    exact ⟨rfl, rfl⟩

theorem flip_zip_dodge_fields (i : Int) (c : GameContext)
    (h : i = c.mascot_lane - 1 ∨ i = c.mascot_lane + 1) :
    (flip_zip_dodge i c).successful_jumps = c.successful_jumps + 1 ∧
    (flip_zip_dodge i c).speed_bpm =
      (if Int.tmod (c.successful_jumps + 1) 5 = 0 then min (c.speed_bpm + 10) 120
        else c.speed_bpm) := by
  unfold flip_zip_dodge
  rw [if_pos h]
  exact flip_zip_every_fifth_fields { c with successful_jumps := c.successful_jumps + 1 }

theorem flip_zip_touch_down_ramp (c : GameContext) :
    (flip_zip_touch_down c).successful_jumps = c.successful_jumps + 1 ∧
    (flip_zip_touch_down c).speed_bpm = c.speed_bpm := by
  unfold flip_zip_touch_down cap_mascot_y
  dsimp only
  split_ifs <;> exact ⟨rfl, rfl⟩

theorem flip_zip_land_fields (c : GameContext) :
    (flip_zip_land c).successful_jumps = c.successful_jumps + 1 ∧
    (flip_zip_land c).speed_bpm =
      (if Int.tmod (c.successful_jumps + 1) 5 = 0 then min (c.speed_bpm + 10) 120
        else c.speed_bpm) := by
  unfold flip_zip_land
  obtain ⟨e1, e2⟩ := flip_zip_every_fifth_fields (flip_zip_touch_down c)
  obtain ⟨t1, t2⟩ := flip_zip_touch_down_ramp c
  rw [e1, e2, t1, t2]
  exact ⟨rfl, rfl⟩

theorem speed_ramp_of_fields {c r : GameContext}
    (h1 : r.successful_jumps = c.successful_jumps + 1)
    (h2 : r.speed_bpm =
      (if Int.tmod (c.successful_jumps + 1) 5 = 0 then min (c.speed_bpm + 10) 120
        else c.speed_bpm)) : speed_ramp c r := by
  refine ⟨by omega, fun h => by omega, fun h => ?_⟩
  rw [h2]
  split_ifs
  · omega
  · omega

theorem speed_ramp_dodge (i : Int) (c : GameContext) : speed_ramp c (flip_zip_dodge i c) := by
  by_cases h : i = c.mascot_lane - 1 ∨ i = c.mascot_lane + 1
  · obtain ⟨e1, e2⟩ := flip_zip_dodge_fields i c h
    exact speed_ramp_of_fields e1 e2
  · unfold flip_zip_dodge
    rw [if_neg h]
    exact speed_ramp_refl c

theorem speed_ramp_land (c : GameContext) : speed_ramp c (flip_zip_land c) := by
  obtain ⟨e1, e2⟩ := flip_zip_land_fields c
  exact speed_ramp_of_fields e1 e2

theorem speed_ramp_slot (m : Int) (i j : Nat) (c : GameContext) :
    speed_ramp c (flip_zip_slot m i j c) := by
  unfold flip_zip_slot flip_zip_moved flip_zip_leave
  split_ifs
  · exact speed_ramp_trans (speed_ramp_of_ramp rfl) (speed_ramp_dodge _ _)
  · exact speed_ramp_of_ramp rfl
  · exact speed_ramp_refl c

theorem speed_ramp_obstacles (m : Int) (c : GameContext) :
    speed_ramp c (flip_zip_obstacles m c) := by
  unfold flip_zip_obstacles
  apply for_loop_inv (fun t : GameContext => speed_ramp c t)
  · intro i t ht
    apply for_loop_inv (fun u : GameContext => speed_ramp c u)
    · intro j u hu
      exact speed_ramp_trans hu (speed_ramp_slot m i j u)
    · exact ht
  · exact speed_ramp_refl c

theorem ramp_flip_zip_spawn (rnd : Nat → Nat) (s : Run) :
    ramp (flip_zip_spawn rnd s).ctx = ramp s.ctx := by
  unfold flip_zip_spawn flip_zip_spawn_lane
  split_ifs
  · apply for_loop_break_inv (fun t : Run => ramp t.ctx = ramp s.ctx)
    · intro j t ht
      have e : ramp (flip_zip_spawn_slot (Int.tmod ((Run.map beat s).rand rnd) 5)
          (Int.tmod ((Run.map beat s).drawn.rand rnd) 3 + 1) j t).1.ctx = ramp t.ctx := by
        unfold flip_zip_spawn_slot; split_ifs <;> rfl
      exact e.trans ht
    · rfl
  · rfl

theorem speed_ramp_jump (tick : Nat → Nat) (s : Run) :
    speed_ramp s.ctx (flip_zip_jump tick s).ctx := by
  have hd : ∀ now c, ramp (flip_zip_drift_up now c) = ramp c := by
    intro now c
    unfold flip_zip_drift_up cap_mascot_y
    split_ifs <;> rfl
  have ha : ∀ t : Run, ramp (flip_zip_airborne tick t).ctx = ramp t.ctx := by
    intro t
    unfold flip_zip_airborne
    split_ifs
    · exact hd _ _
    · rfl
  have he : ∀ t : Run, speed_ramp t.ctx (flip_zip_arc_end tick t).ctx := by
    intro t
    unfold flip_zip_arc_end
    split_ifs
    · exact speed_ramp_of_ramp rfl
    · exact speed_ramp_land t.ctx
    · exact speed_ramp_land t.ctx
  have hc : ∀ t : Run, speed_ramp t.ctx (flip_zip_arc tick t).ctx := by
    intro t
    unfold flip_zip_arc
    split_ifs
    · exact speed_ramp_of_ramp rfl
    · exact speed_ramp_of_ramp rfl
    · exact he t
  unfold flip_zip_jump
  split_ifs
  · have h1 : speed_ramp s.ctx
        (Run.map (fun ctx => { ctx with jump_progress := ctx.jump_progress + 100 }) s).ctx :=
      speed_ramp_of_ramp rfl
    have h2 := hc (Run.map (fun ctx => { ctx with jump_progress := ctx.jump_progress + 100 }) s)
    have h3 := ha (flip_zip_arc tick
      (Run.map (fun ctx => { ctx with jump_progress := ctx.jump_progress + 100 }) s))
    exact speed_ramp_trans (speed_ramp_trans h1 h2) (speed_ramp_of_ramp h3)
  · exact speed_ramp_refl _

theorem speed_ramp_update_flip_zip (ctx : GameContext) (tick rnd : Nat → Nat) :
    speed_ramp ctx (update_flip_zip ctx tick rnd) := by
  unfold update_flip_zip
  split_ifs
  · exact speed_ramp_refl ctx
  · have h0 : speed_ramp ctx (stamped ctx tick).ctx := speed_ramp_of_ramp rfl
    have h1 : speed_ramp (stamped ctx tick).ctx
        (Run.map (flip_zip_obstacles (1 + Int.tdiv ctx.speed_bpm 60)) (stamped ctx tick)).ctx :=
      speed_ramp_obstacles _ _
    have h2 := ramp_flip_zip_spawn rnd
      (Run.map (flip_zip_obstacles (1 + Int.tdiv ctx.speed_bpm 60)) (stamped ctx tick))
    have h3 := speed_ramp_jump tick (flip_zip_spawn rnd
      (Run.map (flip_zip_obstacles (1 + Int.tdiv ctx.speed_bpm 60)) (stamped ctx tick)))
    exact speed_ramp_trans (speed_ramp_trans (speed_ramp_trans h0 h1) (speed_ramp_of_ramp h2)) h3

theorem speed_after_steps_add (a b : Nat) (s : Int) :
    speed_after_steps (a + b) s = speed_after_steps b (speed_after_steps a s) := by
  induction a generalizing s with
  | zero => rw [Nat.zero_add]; rfl
  | succ a ih =>
    rw [Nat.add_right_comm]
    show speed_after_steps (a + b) _ = speed_after_steps b (speed_after_steps a _)
    exact ih _

theorem speed_stepped_refl (c : GameContext) : speed_stepped c c :=
  ⟨le_refl _, by rw [sub_self]; rfl⟩

theorem speed_stepped_trans {a b c : GameContext} (h1 : speed_stepped a b)
    (h2 : speed_stepped b c) : speed_stepped a c := by
  obtain ⟨a1, a2⟩ := h1
  obtain ⟨b1, b2⟩ := h2
  refine ⟨le_trans a1 b1, ?_⟩
  have e : (c.successful_jumps / 5 - a.successful_jumps / 5).toNat =
      (b.successful_jumps / 5 - a.successful_jumps / 5).toNat +
        (c.successful_jumps / 5 - b.successful_jumps / 5).toNat := by omega
  rw [b2, a2, e, speed_after_steps_add]

theorem speed_stepped_of_ramp {c r : GameContext} (h : ramp r = ramp c) : speed_stepped c r := by
  have e1 : r.speed_bpm = c.speed_bpm := congrArg Prod.fst h
  have e2 : r.successful_jumps = c.successful_jumps := congrArg Prod.snd h
  exact ⟨by rw [e2], by rw [e1, e2, sub_self]; rfl⟩

theorem tmod_five (x : Int) : Int.tmod x 5 = 0 ↔ x % 5 = 0 := by
  rw [← Int.dvd_iff_tmod_eq_zero, Int.dvd_iff_emod_eq_zero]

theorem speed_stepped_of_fields {c r : GameContext}
    (h1 : r.successful_jumps = c.successful_jumps + 1)
    (h2 : r.speed_bpm =
      (if Int.tmod (c.successful_jumps + 1) 5 = 0 then min (c.speed_bpm + 10) 120
        else c.speed_bpm)) : speed_stepped c r := by
  refine ⟨by omega, ?_⟩
  rw [h2, h1]
  by_cases h : Int.tmod (c.successful_jumps + 1) 5 = 0
  · rw [if_pos h]
    have h5 := (tmod_five _).1 h
    have e : ((c.successful_jumps + 1) / 5 - c.successful_jumps / 5).toNat = 1 := by omega
    rw [e]
    rfl
  · rw [if_neg h]
    have h5 : ¬ (c.successful_jumps + 1) % 5 = 0 := fun hc => h ((tmod_five _).2 hc)
    have e : ((c.successful_jumps + 1) / 5 - c.successful_jumps / 5).toNat = 0 := by omega
    rw [e]
    rfl

theorem speed_stepped_dodge (i : Int) (c : GameContext) :
    speed_stepped c (flip_zip_dodge i c) := by
  by_cases h : i = c.mascot_lane - 1 ∨ i = c.mascot_lane + 1
  · obtain ⟨e1, e2⟩ := flip_zip_dodge_fields i c h
    exact speed_stepped_of_fields e1 e2
  · unfold flip_zip_dodge
    rw [if_neg h]
    exact speed_stepped_refl c

theorem speed_stepped_land (c : GameContext) : speed_stepped c (flip_zip_land c) := by
  obtain ⟨e1, e2⟩ := flip_zip_land_fields c
  exact speed_stepped_of_fields e1 e2

theorem speed_stepped_slot (m : Int) (i j : Nat) (c : GameContext) :
    speed_stepped c (flip_zip_slot m i j c) := by
  unfold flip_zip_slot flip_zip_moved flip_zip_leave
  split_ifs
  · exact speed_stepped_trans (speed_stepped_of_ramp rfl) (speed_stepped_dodge _ _)
  · exact speed_stepped_of_ramp rfl
  · exact speed_stepped_refl c

theorem speed_stepped_obstacles (m : Int) (c : GameContext) :
    speed_stepped c (flip_zip_obstacles m c) := by
  unfold flip_zip_obstacles
  apply for_loop_inv (fun t : GameContext => speed_stepped c t)
  · intro i t ht
    apply for_loop_inv (fun u : GameContext => speed_stepped c u)
    · intro j u hu
      exact speed_stepped_trans hu (speed_stepped_slot m i j u)
    · exact ht
  · exact speed_stepped_refl c

theorem speed_stepped_jump (tick : Nat → Nat) (s : Run) :
    speed_stepped s.ctx (flip_zip_jump tick s).ctx := by
  have hd : ∀ now c, ramp (flip_zip_drift_up now c) = ramp c := by
    intro now c
    unfold flip_zip_drift_up cap_mascot_y
    split_ifs <;> rfl
  have ha : ∀ t : Run, ramp (flip_zip_airborne tick t).ctx = ramp t.ctx := by
    intro t
    unfold flip_zip_airborne
    split_ifs
    · exact hd _ _
    · rfl
  have he : ∀ t : Run, speed_stepped t.ctx (flip_zip_arc_end tick t).ctx := by
    intro t
    unfold flip_zip_arc_end
    split_ifs
    · exact speed_stepped_of_ramp rfl
    · exact speed_stepped_land t.ctx
    · exact speed_stepped_land t.ctx
  have hc : ∀ t : Run, speed_stepped t.ctx (flip_zip_arc tick t).ctx := by
    intro t
    unfold flip_zip_arc
    split_ifs
    · exact speed_stepped_of_ramp rfl
    · exact speed_stepped_of_ramp rfl
    · exact he t
  unfold flip_zip_jump
  split_ifs
  · have h1 : speed_stepped s.ctx
        (Run.map (fun ctx => { ctx with jump_progress := ctx.jump_progress + 100 }) s).ctx :=
      speed_stepped_of_ramp rfl
    have h2 := hc (Run.map (fun ctx => { ctx with jump_progress := ctx.jump_progress + 100 }) s)
    have h3 := ha (flip_zip_arc tick
      (Run.map (fun ctx => { ctx with jump_progress := ctx.jump_progress + 100 }) s))
    exact speed_stepped_trans (speed_stepped_trans h1 h2) (speed_stepped_of_ramp h3)
  · exact speed_stepped_refl _

theorem speed_stepped_update_flip_zip (ctx : GameContext) (tick rnd : Nat → Nat) :
    speed_stepped ctx (update_flip_zip ctx tick rnd) := by
  unfold update_flip_zip
  split_ifs
  · exact speed_stepped_refl ctx
  · have h0 : speed_stepped ctx (stamped ctx tick).ctx := speed_stepped_of_ramp rfl
    have h1 : speed_stepped (stamped ctx tick).ctx
        (Run.map (flip_zip_obstacles (1 + Int.tdiv ctx.speed_bpm 60)) (stamped ctx tick)).ctx :=
      speed_stepped_obstacles _ _
    have h2 := ramp_flip_zip_spawn rnd
      (Run.map (flip_zip_obstacles (1 + Int.tdiv ctx.speed_bpm 60)) (stamped ctx tick))
    have h3 := speed_stepped_jump tick (flip_zip_spawn rnd
      (Run.map (flip_zip_obstacles (1 + Int.tdiv ctx.speed_bpm 60)) (stamped ctx tick)))
    exact speed_stepped_trans
      (speed_stepped_trans (speed_stepped_trans h0 h1) (speed_stepped_of_ramp h2)) h3

/-- One more successful jump over the whole update: the speed steps exactly when the new
count is a multiple of 5. -/
theorem speed_stepped_once {c r : GameContext} (h : speed_stepped c r)
    (h1 : r.successful_jumps = c.successful_jumps + 1) :
    r.speed_bpm =
      (if Int.tmod r.successful_jumps 5 = 0 then min (c.speed_bpm + 10) 120
        else c.speed_bpm) := by
  obtain ⟨_, h2⟩ := h
  rw [h2, h1]
  by_cases h : Int.tmod (c.successful_jumps + 1) 5 = 0
  · rw [if_pos h]
    have h5 := (tmod_five _).1 h
    have e : ((c.successful_jumps + 1) / 5 - c.successful_jumps / 5).toNat = 1 := by omega
    rw [e]
    rfl
  · rw [if_neg h]
    have h5 : ¬ (c.successful_jumps + 1) % 5 = 0 := fun hc => h ((tmod_five _).2 hc)
    have e : ((c.successful_jumps + 1) / 5 - c.successful_jumps / 5).toNat = 0 := by omega
    rw [e]
    rfl

/-- C26. In `update_flip_zip`, each of the two events that increment
`successful_jumps` (an obstacle leaving the bottom in a lane next to the
mascot, lines 696-701, and the landing of a jump, lines 729-739) sets
`speed_bpm` to min(speed_bpm + 10, 120) when the new count is a multiple of 5
and leaves it alone otherwise; an obstacle leaving in another lane changes
neither. Over the whole update the count does not go down and the speed after
it is the speed before it with the step `min (speed + 10) 120` taken once for
each multiple of 5 the count reached, `successful_jumps / 5` after minus before
of them: an update that raises the count by one steps the speed exactly when
the new count is a multiple of 5, an update that leaves the count as it was
leaves the speed as it was, and a speed of at most 120 before the update is not
smaller and at most 120 after it. -/
theorem flip_zip_speed_ramp (ctx : GameContext) (tick rnd : Nat → Nat) :
    (∀ (i : Int) (c : GameContext), i = c.mascot_lane - 1 ∨ i = c.mascot_lane + 1 →
      (flip_zip_dodge i c).successful_jumps = c.successful_jumps + 1 ∧
      (flip_zip_dodge i c).speed_bpm =
        (if Int.tmod (c.successful_jumps + 1) 5 = 0 then min (c.speed_bpm + 10) 120
          else c.speed_bpm)) ∧
    (∀ (i : Int) (c : GameContext), ¬ (i = c.mascot_lane - 1 ∨ i = c.mascot_lane + 1) →
      flip_zip_dodge i c = c) ∧
    (∀ c : GameContext,
      (flip_zip_land c).successful_jumps = c.successful_jumps + 1 ∧
      (flip_zip_land c).speed_bpm =
        (if Int.tmod (c.successful_jumps + 1) 5 = 0 then min (c.speed_bpm + 10) 120
          else c.speed_bpm)) ∧
    ctx.successful_jumps ≤ (update_flip_zip ctx tick rnd).successful_jumps ∧
    (update_flip_zip ctx tick rnd).speed_bpm =
      speed_after_steps
        ((update_flip_zip ctx tick rnd).successful_jumps / 5 -
          ctx.successful_jumps / 5).toNat ctx.speed_bpm ∧
    ((update_flip_zip ctx tick rnd).successful_jumps = ctx.successful_jumps + 1 →
      (update_flip_zip ctx tick rnd).speed_bpm =
        (if Int.tmod (update_flip_zip ctx tick rnd).successful_jumps 5 = 0 then
          min (ctx.speed_bpm + 10) 120
         else ctx.speed_bpm)) ∧
    ((update_flip_zip ctx tick rnd).successful_jumps = ctx.successful_jumps →
      (update_flip_zip ctx tick rnd).speed_bpm = ctx.speed_bpm) ∧
    (ctx.speed_bpm ≤ 120 →
      ctx.speed_bpm ≤ (update_flip_zip ctx tick rnd).speed_bpm ∧
      (update_flip_zip ctx tick rnd).speed_bpm ≤ 120) := by
  obtain ⟨h1, h2, h3⟩ := speed_ramp_update_flip_zip ctx tick rnd
  have hs := speed_stepped_update_flip_zip ctx tick rnd
  refine ⟨fun i c h => flip_zip_dodge_fields i c h, fun i c h => ?_,
    fun c => flip_zip_land_fields c, h1, hs.2, fun h => speed_stepped_once hs h, h2, h3⟩
  unfold flip_zip_dodge
  rw [if_neg h]

/-- Witness of C26: at speed 60 an obstacle leaves next to the mascot. As the fifth
successful jump it raises the speed to 70; as the sixth it leaves the speed at 60. -/
theorem flip_zip_speed_ramp_witness :
    flip_zip_dodge_example.successful_jumps = 4 ∧
    flip_zip_dodge_example.speed_bpm = 60 ∧
    (update_flip_zip flip_zip_dodge_example clock_1020 rand_zero).successful_jumps = 5 ∧
    (update_flip_zip flip_zip_dodge_example clock_1020 rand_zero).speed_bpm = 70 ∧
    (update_flip_zip flip_zip_dodge_example clock_1020 rand_zero).speed_bpm =
      (if Int.tmod
          (update_flip_zip flip_zip_dodge_example clock_1020 rand_zero).successful_jumps 5 = 0
        then min (flip_zip_dodge_example.speed_bpm + 10) 120
        else flip_zip_dodge_example.speed_bpm) ∧
    flip_zip_sixth_example.successful_jumps = 5 ∧
    flip_zip_sixth_example.speed_bpm = 60 ∧
    (update_flip_zip flip_zip_sixth_example clock_1020 rand_zero).successful_jumps = 6 ∧
    (update_flip_zip flip_zip_sixth_example clock_1020 rand_zero).speed_bpm = 60 ∧
    (update_flip_zip flip_zip_sixth_example clock_1020 rand_zero).speed_bpm =
      (if Int.tmod
          (update_flip_zip flip_zip_sixth_example clock_1020 rand_zero).successful_jumps 5 = 0
        then min (flip_zip_sixth_example.speed_bpm + 10) 120
        else flip_zip_sixth_example.speed_bpm) :=
  ⟨by decide, by decide, by decide, by decide,
   (flip_zip_speed_ramp flip_zip_dodge_example clock_1020 rand_zero).2.2.2.2.2.1 (by decide),
   by decide, by decide, by decide, by decide,
   (flip_zip_speed_ramp flip_zip_sixth_example clock_1020 rand_zero).2.2.2.2.2.1 (by decide)⟩

/-! ## The application entry: start-up failures and exit -/

/-- The main loop ends only on a context whose `should_exit` is set. -/
theorem main_loop_exit (world : Nat → GameContext → GameContext) (tick : Nat → Nat) :
    ∀ (fuel k : Nat) (ctx r : GameContext),
      main_loop world tick fuel k ctx = some r → r.should_exit = true := by
  intro fuel
  induction fuel with
  | zero =>
    intro k ctx r h
    unfold main_loop at h
    exact absurd h (by simp)
  | succ n ih =>
    intro k ctx r h
    unfold main_loop at h
    by_cases hx : ctx.should_exit = true
    · rw [if_pos hx] at h
      have e : ctx = r := Option.some.inj h
      rw [← e]
      exact hx
    · rw [if_neg hx] at h
      exact ih _ _ _ h

theorem app_startup_failure (h : Host)
    (hf : ¬ (h.malloc_ok = true ∧ h.gui_ok = true ∧ h.view_port_ok = true ∧ h.timer_ok = true ∧
      h.timer_start_ok = true)) :
    (app_startup h).2 = some (-1) := by
  obtain ⟨a, b, c, d, e⟩ := h
  cases a <;> cases b <;> cases c <;> cases d <;> cases e <;>
    first
    | rfl
    | exact absurd ⟨rfl, rfl, rfl, rfl, rfl⟩ hf

theorem app_startup_ok (h : Host)
    (hs : h.malloc_ok = true ∧ h.gui_ok = true ∧ h.view_port_ok = true ∧ h.timer_ok = true ∧
      h.timer_start_ok = true) :
    app_startup h =
      ([HostCall.malloc_context, HostCall.record_open_gui, HostCall.view_port_alloc,
        HostCall.gui_add_view_port, HostCall.timer_alloc, HostCall.timer_start], none) := by
  obtain ⟨h1, h2, h3, h4, h5⟩ := hs
  unfold app_startup
  rw [h1, h2, h3, h4, h5]
  rfl

/-- C22, the divergence. `nah2nah3_app` returns -1 on every failure of the
start-up and returns 0 only after the main loop saw `should_exit`, with the
full clean-up; but when `furi_timer_alloc` or `furi_timer_start` fails, the
view port, already added to the GUI by line 1977, is freed without
`gui_remove_view_port` (lines 1988 and 1995), which the clean-up of the
normal exit calls before `view_port_free` (line 2019). -/
theorem app_failure_keeps_view_port_attached (world : Nat → GameContext → GameContext)
    (tick : Nat → Nat) (t0 t1 vp fuel : Nat) :
    (∀ h : Host,
      ¬ (h.malloc_ok = true ∧ h.gui_ok = true ∧ h.view_port_ok = true ∧ h.timer_ok = true ∧
        h.timer_start_ok = true) →
      nah2nah3_app h world tick t0 t1 vp fuel = some (-1, (app_startup h).1)) ∧
    (∀ (h : Host) (calls : List HostCall),
      nah2nah3_app h world tick t0 t1 vp fuel = some (0, calls) →
      (h.malloc_ok = true ∧ h.gui_ok = true ∧ h.view_port_ok = true ∧ h.timer_ok = true ∧
        h.timer_start_ok = true) ∧
      (∃ ctx, main_loop world tick fuel 0 (initial_context t0 t1 vp) = some ctx ∧
        ctx.should_exit = true) ∧
      calls =
        [HostCall.malloc_context, HostCall.record_open_gui, HostCall.view_port_alloc,
         HostCall.gui_add_view_port, HostCall.timer_alloc, HostCall.timer_start,
         HostCall.timer_stop, HostCall.timer_free, HostCall.gui_remove_view_port,
         HostCall.view_port_free, HostCall.record_close_gui, HostCall.free_context]) ∧
    nah2nah3_app host_timer_alloc_fails world tick t0 t1 vp fuel =
      some (-1,
        [HostCall.malloc_context, HostCall.record_open_gui, HostCall.view_port_alloc,
         HostCall.gui_add_view_port, HostCall.timer_alloc,
         HostCall.view_port_free, HostCall.record_close_gui, HostCall.free_context]) ∧
    nah2nah3_app host_timer_start_fails world tick t0 t1 vp fuel =
      some (-1,
        [HostCall.malloc_context, HostCall.record_open_gui, HostCall.view_port_alloc,
         HostCall.gui_add_view_port, HostCall.timer_alloc, HostCall.timer_start,
         HostCall.timer_free, HostCall.view_port_free, HostCall.record_close_gui,
         HostCall.free_context]) ∧
    nah2nah3_app host_ok world_exit tick t0 t1 vp 2 =
      some (0,
        [HostCall.malloc_context, HostCall.record_open_gui, HostCall.view_port_alloc,
         HostCall.gui_add_view_port, HostCall.timer_alloc, HostCall.timer_start,
         HostCall.timer_stop, HostCall.timer_free, HostCall.gui_remove_view_port,
         HostCall.view_port_free, HostCall.record_close_gui, HostCall.free_context]) := by
  refine ⟨fun h hf => ?_, fun h calls hr => ?_, rfl, rfl, ?_⟩
  · unfold nah2nah3_app
    rw [app_startup_failure h hf]
  · by_cases hs : h.malloc_ok = true ∧ h.gui_ok = true ∧ h.view_port_ok = true ∧
        h.timer_ok = true ∧ h.timer_start_ok = true
    · refine ⟨hs, ?_⟩
      unfold nah2nah3_app at hr
      rw [app_startup_ok h hs] at hr
      dsimp only at hr
      cases hm : main_loop world tick fuel 0 (initial_context t0 t1 vp) with
      | none =>
        rw [hm] at hr
        exact absurd hr (by simp)
      | some ctx =>
        rw [hm] at hr
        refine ⟨⟨ctx, rfl, main_loop_exit world tick fuel 0 _ ctx hm⟩, ?_⟩
        have e := Option.some.inj hr
        exact (congrArg Prod.snd e).symm
    · exfalso
      unfold nah2nah3_app at hr
      rw [app_startup_failure h hs] at hr
      have e := Option.some.inj hr
      have e1 : ((-1 : Int)) = 0 := congrArg Prod.fst e
      exact absurd e1 (by decide)
  · unfold nah2nah3_app
    rw [app_startup_ok host_ok ⟨rfl, rfl, rfl, rfl, rfl⟩]
    dsimp only
    have hm : main_loop world_exit tick 2 0 (initial_context t0 t1 vp) =
        some (world_exit 0 (main_loop_step (initial_context t0 t1 vp) (furi_get_tick tick 0))) := by
      unfold main_loop
      have h0 : (initial_context t0 t1 vp).should_exit = false := rfl
      rw [h0]
      simp only [Bool.false_eq_true, if_false]
      unfold main_loop
      have h1 : (world_exit 0
          (main_loop_step (initial_context t0 t1 vp) (furi_get_tick tick 0))).should_exit = true :=
        rfl
      rw [h1]
      simp
    rw [hm]
    rfl

/-! ## Tectone Sim: the comment stream -/

theorem chat_kept_refl (c : GameContext) : chat_kept c c :=
  ⟨rfl, rfl, fun _ => Or.inl ⟨rfl, rfl⟩⟩

theorem chat_kept_trans {a b c : GameContext} (h1 : chat_kept a b) (h2 : chat_kept b c) :
    chat_kept a c := by
  obtain ⟨a1, a2, a3⟩ := h1
  obtain ⟨b1, b2, b3⟩ := h2
  refine ⟨b1.trans a1, b2.trans a2, fun i => ?_⟩
  rcases b3 i with hb | hb
  · rcases a3 i with ha | ha
    · exact Or.inl ⟨hb.1.trans ha.1, hb.2.trans ha.2⟩
    · exact Or.inr ⟨hb.1.trans ha.1, hb.2.trans ha.2⟩
  · exact Or.inr hb

theorem chat_kept_of_chat {c r : GameContext} (h : chat r = chat c) : chat_kept c r := by
  have e1 : r.hype_train = c.hype_train :=
    congrArg (fun p : (Fin 8 → Bool) × Nat × (Fin 8 → Int) × (Fin 8 → Int) => p.1) h
  have e2 : r.hype_cooldown = c.hype_cooldown :=
    congrArg (fun p : (Fin 8 → Bool) × Nat × (Fin 8 → Int) × (Fin 8 → Int) => p.2.1) h
  have e3 : r.comment_positions = c.comment_positions :=
    congrArg (fun p : (Fin 8 → Bool) × Nat × (Fin 8 → Int) × (Fin 8 → Int) => p.2.2.1) h
  have e4 : r.comment_heights = c.comment_heights :=
    congrArg (fun p : (Fin 8 → Bool) × Nat × (Fin 8 → Int) × (Fin 8 → Int) => p.2.2.2) h
  exact ⟨e1, e2, fun i => Or.inl ⟨by rw [e3], by rw [e4]⟩⟩

theorem chat_kept_hide_chat (c : GameContext) : chat_kept c (tectone_hide_chat c) := by
  unfold tectone_hide_chat
  apply for_loop_inv (fun t : GameContext => chat_kept c t)
  · intro i t ht
    refine chat_kept_trans ht ⟨rfl, rfl, fun k => ?_⟩
    show (set1 t.comment_positions i 0 k = _ ∧ set1 t.comment_heights i 0 k = _) ∨
      (set1 t.comment_positions i 0 k = 0 ∧ set1 t.comment_heights i 0 k = 0)
    unfold set1
    by_cases hk : ((k.val : Nat) : Int) = (i : Int)
    · rw [if_pos hk, if_pos hk]
      exact Or.inr ⟨rfl, rfl⟩
    · rw [if_neg hk, if_neg hk]
      exact Or.inl ⟨rfl, rfl⟩
  · exact chat_kept_refl c

theorem chat_kept_sad_sequence (idx : Int) (c : GameContext) :
    chat_kept c (tectone_sad_sequence idx c) := by
  unfold tectone_sad_sequence
  split_ifs
  · exact chat_kept_refl c
  · exact chat_kept_of_chat rfl
  · exact chat_kept_of_chat rfl
  · exact chat_kept_of_chat rfl
  · exact chat_kept_hide_chat c

theorem chat_kept_sad_bound (rnd : Nat → Nat) (s : Run) :
    chat_kept s.ctx (tectone_sad_bound rnd s).ctx := by
  unfold tectone_sad_bound
  split_ifs
  · exact chat_kept_of_chat rfl
  · have h := chat_kept_sad_sequence (Int.tmod (s.rand rnd) 5)
      { s.ctx with anger := s.ctx.anger + 1, sad := 4 }
    exact chat_kept_trans (chat_kept_of_chat rfl) h
  · exact chat_kept_refl _

theorem chat_kept_after_bounds (ctx : GameContext) (tick rnd : Nat → Nat) :
    chat_kept ctx (tectone_after_bounds ctx tick rnd).ctx := by
  unfold tectone_after_bounds tectone_bounds
  have h0 : chat_kept ctx (stamped ctx tick).ctx := chat_kept_of_chat rfl
  have h1 := chat_tectone_emotions tick rnd (stamped ctx tick)
  have h2 := chat_tectone_anger_bound rnd (tectone_emotions tick rnd (stamped ctx tick))
  have h3 := chat_tectone_based_bound
    (tectone_anger_bound rnd (tectone_emotions tick rnd (stamped ctx tick)))
  have h4 := chat_tectone_cuteness_bound rnd (tectone_based_bound
    (tectone_anger_bound rnd (tectone_emotions tick rnd (stamped ctx tick))))
  have h5 := chat_kept_sad_bound rnd (tectone_cuteness_bound rnd (tectone_based_bound
    (tectone_anger_bound rnd (tectone_emotions tick rnd (stamped ctx tick)))))
  exact chat_kept_trans
    (chat_kept_trans h0 (chat_kept_of_chat (h4.trans (h3.trans (h2.trans h1))))) h5

/-- Under a slow clock the test of line 1134 fails after the move of lines
1121-1129: a move stamps `last_move_time`, and without a move at most 500 ms
had passed at the reading of line 1123. -/
theorem tectone_comments_skipped (tick rnd : Nat → Nat) (m : Int) (st : Statics) (s : Run)
    (hc : slow_clock tick) :
    tectone_comments tick rnd m st (tectone_move tick rnd s) =
      ((tectone_move tick rnd s).read, st) := by
  have hcool : base_move_cooldown s.ctx ≤ 500 := by
    unfold base_move_cooldown
    split_ifs <;> omega
  have key : ¬ sub32 ((tectone_move tick rnd s).now tick)
      (tectone_move tick rnd s).ctx.last_move_time > 1000 := by
    unfold tectone_move
    by_cases hm : sub32 (s.now tick) s.ctx.last_move_time > base_move_cooldown s.ctx
    · rw [if_pos hm]
      have h := hc (s.ticks + 1)
      show ¬ sub32 (furi_get_tick tick (s.ticks + 1 + 1)) (furi_get_tick tick (s.ticks + 1)) > 1000
      omega
    · rw [if_neg hm]
      have h := hc s.ticks
      have hm2 : sub32 (furi_get_tick tick s.ticks) s.ctx.last_move_time ≤ 500 := by
        have : sub32 (s.now tick) s.ctx.last_move_time ≤ base_move_cooldown s.ctx := by omega
        exact le_trans this hcool
      show ¬ sub32 (furi_get_tick tick (s.ticks + 1)) s.ctx.last_move_time > 1000
      have b0 : furi_get_tick tick s.ticks < 4294967296 := Nat.mod_lt _ (by decide)
      have b1 : furi_get_tick tick (s.ticks + 1) < 4294967296 := Nat.mod_lt _ (by decide)
      generalize furi_get_tick tick s.ticks = r1 at h hm2 b0
      generalize furi_get_tick tick (s.ticks + 1) = r3 at h b1 ⊢
      generalize s.ctx.last_move_time = l at hm2 ⊢
      unfold sub32 at h hm2 ⊢
      omega
  unfold tectone_comments
  rw [if_neg (fun h => key h.1)]

/-- C29, the divergence. Whenever two consecutive readings of the clock are
at most 500 ms apart (in particular for a single tick value read throughout
the call), for every context, statics and outcomes of `rand()`, one call of
`update_tectone_sim` never enters the comment block of lines 1135-1162: the
hype train and its cooldown are what they were, the statics are what they
were, and every comment slot is what it was or was cleared by the sad
sequence, so no comment enters an empty slot. -/
theorem tectone_comment_stream_dead (ctx : GameContext) (st : Statics) (tick rnd : Nat → Nat)
    (hc : slow_clock tick) :
    (update_tectone_sim ctx st tick rnd).2 = st ∧
    (update_tectone_sim ctx st tick rnd).1.hype_train = ctx.hype_train ∧
    (update_tectone_sim ctx st tick rnd).1.hype_cooldown = ctx.hype_cooldown ∧
    (∀ i : Fin 8,
      ((update_tectone_sim ctx st tick rnd).1.comment_positions i = ctx.comment_positions i ∧
        (update_tectone_sim ctx st tick rnd).1.comment_heights i = ctx.comment_heights i) ∨
      ((update_tectone_sim ctx st tick rnd).1.comment_positions i = 0 ∧
        (update_tectone_sim ctx st tick rnd).1.comment_heights i = 0)) ∧
    (∀ i : Fin 8, ctx.comment_positions i ≤ 0 →
      (update_tectone_sim ctx st tick rnd).1.comment_positions i ≠ 47) := by
  have main : (update_tectone_sim ctx st tick rnd).2 = st ∧
      chat_kept ctx (update_tectone_sim ctx st tick rnd).1 := by
    unfold update_tectone_sim
    by_cases hr : rate_limited ctx (speed_fps ctx) tick
    · rw [if_pos hr]
      exact ⟨rfl, chat_kept_refl ctx⟩
    · rw [if_neg hr, tectone_comments_skipped tick rnd _ st _ hc]
      refine ⟨rfl, ?_⟩
      have h1 := chat_kept_after_bounds ctx tick rnd
      have h2 := chat_tectone_move tick rnd (tectone_after_bounds ctx tick rnd)
      exact chat_kept_trans h1 (chat_kept_of_chat h2)
  obtain ⟨m1, m2, m3, m4⟩ := main
  refine ⟨m1, m2, m3, m4, fun i hi => ?_⟩
  rcases m4 i with h | h
  · rw [h.1]; omega
  · rw [h.1]; decide

/-- Witness of C29: the clock reads 1020 throughout the call. -/
theorem tectone_comment_stream_dead_witness :
    slow_clock clock_1020 ∧
    (update_tectone_sim tectone_example initial_statics clock_1020 rand_three).2 =
      initial_statics ∧
    (update_tectone_sim tectone_example initial_statics clock_1020 rand_three).1.hype_train =
      tectone_example.hype_train ∧
    (update_tectone_sim tectone_example initial_statics clock_1020 rand_three).1.hype_cooldown =
      tectone_example.hype_cooldown ∧
    (∀ i : Fin 8,
      ((update_tectone_sim tectone_example initial_statics clock_1020
            rand_three).1.comment_positions i = tectone_example.comment_positions i ∧
        (update_tectone_sim tectone_example initial_statics clock_1020
            rand_three).1.comment_heights i = tectone_example.comment_heights i) ∨
      ((update_tectone_sim tectone_example initial_statics clock_1020
            rand_three).1.comment_positions i = 0 ∧
        (update_tectone_sim tectone_example initial_statics clock_1020
            rand_three).1.comment_heights i = 0)) ∧
    (∀ i : Fin 8, tectone_example.comment_positions i ≤ 0 →
      (update_tectone_sim tectone_example initial_statics clock_1020
          rand_three).1.comment_positions i ≠ 47) :=
  ⟨fun _ => (by decide : sub32 (1020 % 4294967296) (1020 % 4294967296) ≤ 500),
   tectone_comment_stream_dead tectone_example initial_statics clock_1020 rand_three
     (fun _ => (by decide : sub32 (1020 % 4294967296) (1020 % 4294967296) ≤ 500))⟩

/-- The comment block is entered only when the clock advances inside the
call: with a reading of 600 up to the move and of 1700 from the test of line
1134 on, a comment enters slot 0 and the hype train starts. -/
theorem tectone_comment_stream_needs_clock_jump :
    tectone_example.hype_cooldown = 0 ∧
    (update_tectone_sim tectone_example initial_statics clock_jump rand_three).1.comment_positions
      0 = 47 ∧
    (update_tectone_sim tectone_example initial_statics clock_jump rand_three).1.comment_heights
      0 = 10 ∧
    (update_tectone_sim tectone_example initial_statics clock_jump rand_three).1.hype_train
      0 = true ∧
    (update_tectone_sim tectone_example initial_statics clock_jump rand_three).1.hype_cooldown =
      1700 + 15000 := by
  decide

/-! ## The exit flag and the lane indices under the input callback -/

theorem keeps_refl (c : GameContext) : keeps_exit_and_lanes c c := ⟨id, id⟩

theorem keeps_trans {a b c : GameContext} (h1 : keeps_exit_and_lanes a b)
    (h2 : keeps_exit_and_lanes b c) : keeps_exit_and_lanes a c :=
  ⟨fun h => h2.1 (h1.1 h), fun h => h2.2 (h1.2 h)⟩

theorem exit_and_lanes_fields {c r : GameContext} (h : exit_and_lanes r = exit_and_lanes c) :
    r.should_exit = c.should_exit ∧ r.mascot_lane = c.mascot_lane ∧ r.car_lane = c.car_lane ∧
    r.selected_row = c.selected_row ∧ r.selected_side = c.selected_side ∧
    r.selected_game = c.selected_game :=
  ⟨congrArg (fun p : Bool × Int × Int × Int × Int × Int => p.1) h,
   congrArg (fun p : Bool × Int × Int × Int × Int × Int => p.2.1) h,
   congrArg (fun p : Bool × Int × Int × Int × Int × Int => p.2.2.1) h,
   congrArg (fun p : Bool × Int × Int × Int × Int × Int => p.2.2.2.1) h,
   congrArg (fun p : Bool × Int × Int × Int × Int × Int => p.2.2.2.2.1) h,
   congrArg (fun p : Bool × Int × Int × Int × Int × Int => p.2.2.2.2.2) h⟩

theorem keeps_of_fields {c r : GameContext} (h0 : r.should_exit = c.should_exit)
    (h1 : r.mascot_lane = c.mascot_lane) (h2 : r.car_lane = c.car_lane)
    (h3 : r.selected_row = c.selected_row) (h4 : r.selected_side = c.selected_side)
    (h5 : r.selected_game = c.selected_game) : keeps_exit_and_lanes c r := by
  unfold keeps_exit_and_lanes lanes_in_range
  rw [h0, h1, h2, h3, h4, h5]
  exact ⟨id, id⟩

theorem keeps_of_eq {c r : GameContext} (h : exit_and_lanes r = exit_and_lanes c) :
    keeps_exit_and_lanes c r := by
  obtain ⟨h0, h1, h2, h3, h4, h5⟩ := exit_and_lanes_fields h
  exact keeps_of_fields h0 h1 h2 h3 h4 h5

theorem exit_and_lanes_input_bookkeeping (ctx : GameContext) (now : Nat) :
    exit_and_lanes (input_bookkeeping ctx now) = exit_and_lanes ctx := by
  unfold input_bookkeeping
  dsimp only
  split_ifs <;> rfl

theorem exit_and_lanes_tap_cadence (ctx : GameContext) (now : Nat) :
    exit_and_lanes (tap_cadence ctx now) = exit_and_lanes ctx := by
  unfold tap_cadence
  dsimp only
  split_ifs <;> rfl

theorem exit_and_lanes_record_short_back (ctx : GameContext) (input : InputEvent) (now : Nat) :
    exit_and_lanes (record_short_back ctx input now) = exit_and_lanes ctx := by
  unfold record_short_back
  split_ifs <;> rfl

theorem exit_and_lanes_back_hold_release (ctx : GameContext) (now : Nat) :
    exit_and_lanes (back_hold_release ctx now) = exit_and_lanes ctx := by
  unfold back_hold_release toggle_if_held
  split_ifs <;> rfl

theorem exit_and_lanes_title_back (ctx : GameContext) :
    exit_and_lanes (title_back ctx) = exit_and_lanes ctx := by
  unfold title_back open_credits
  split_ifs <;> rfl

theorem keeps_input_title (ctx : GameContext) (input : InputEvent) (now : Nat) :
    keeps_exit_and_lanes ctx (input_title ctx input now) := by
  unfold input_title
  split_ifs with h1 h2 h3 h4 h5 h6 h7 h8
  · exact ⟨id, fun h => ⟨h.1, h.2.1, h.2.2.1,
      (⟨le_refl _, (by decide : (0 : Int) ≤ 1)⟩ : (0 : Int) ≤ 0 ∧ (0 : Int) ≤ 1), h.2.2.2.2⟩⟩
  · exact ⟨id, fun h => ⟨h.1, h.2.1, h.2.2.1,
      (⟨(by decide : (0 : Int) ≤ 1), le_refl _⟩ : (0 : Int) ≤ 1 ∧ (1 : Int) ≤ 1), h.2.2.2.2⟩⟩
  · refine ⟨id, fun h => ⟨h.1, h.2.1, ?_, h.2.2.2.1, h.2.2.2.2⟩⟩
    have a := h.2.2.1
    have b := h3.2.2
    show 0 ≤ ctx.selected_row - 1 ∧ ctx.selected_row - 1 ≤ 2
    omega
  · refine ⟨id, fun h => ⟨h.1, h.2.1, ?_, h.2.2.2.1, h.2.2.2.2⟩⟩
    have a := h.2.2.1
    have b := h4.2.2
    show 0 ≤ ctx.selected_row + 1 ∧ ctx.selected_row + 1 ≤ 2
    omega
  · refine ⟨id, fun h => ⟨h.1, h.2.1, h.2.2.1, h.2.2.2.1, ?_⟩⟩
    have a := h.2.2.1
    have b := h.2.2.2.1
    show 0 ≤ ctx.selected_row * 2 + ctx.selected_side ∧
      ctx.selected_row * 2 + ctx.selected_side ≤ 5
    omega
  · exact keeps_of_eq (exit_and_lanes_title_back ctx)
  · exact keeps_of_eq rfl
  · exact keeps_of_eq (exit_and_lanes_back_hold_release ctx now)
  · exact keeps_refl ctx

theorem keeps_of_lanes {c r : GameContext} (h0 : r.should_exit = c.should_exit)
    (h3 : r.selected_row = c.selected_row) (h4 : r.selected_side = c.selected_side)
    (h5 : r.selected_game = c.selected_game)
    (hm : 0 ≤ c.mascot_lane ∧ c.mascot_lane ≤ 4 → 0 ≤ r.mascot_lane ∧ r.mascot_lane ≤ 4)
    (hc : 0 ≤ c.car_lane ∧ c.car_lane ≤ 4 → 0 ≤ r.car_lane ∧ r.car_lane ≤ 4) :
    keeps_exit_and_lanes c r := by
  unfold keeps_exit_and_lanes lanes_in_range
  rw [h0, h3, h4, h5]
  exact ⟨id, fun h => ⟨hm h.1, hc h.2.1, h.2.2⟩⟩

theorem keeps_init_line_car (ctx : GameContext) (rnd : Nat → Nat) :
    keeps_exit_and_lanes ctx (init_line_car ctx rnd) := by
  have key : exit_and_lanes (init_line_car ctx rnd) =
      (ctx.should_exit, ctx.mascot_lane, 2, ctx.selected_row, ctx.selected_side,
       ctx.selected_game) := by
    unfold init_line_car
    apply for_loop_inv (fun s : GameContext × Nat => exit_and_lanes s.1 =
      (ctx.should_exit, ctx.mascot_lane, 2, ctx.selected_row, ctx.selected_side,
       ctx.selected_game))
    · intro i s hs
      apply for_loop_inv (fun s : GameContext × Nat => exit_and_lanes s.1 =
        (ctx.should_exit, ctx.mascot_lane, 2, ctx.selected_row, ctx.selected_side,
         ctx.selected_game))
      · intro j t ht
        have e : exit_and_lanes (line_car_init_slot rnd i j t).1 = exit_and_lanes t.1 := by
          unfold line_car_init_slot
          dsimp only
          split_ifs <;> rfl
        exact e.trans ht
      · exact hs
    · rfl
  have f0 : (init_line_car ctx rnd).should_exit = ctx.should_exit :=
    congrArg (fun p : Bool × Int × Int × Int × Int × Int => p.1) key
  have f1 : (init_line_car ctx rnd).mascot_lane = ctx.mascot_lane :=
    congrArg (fun p : Bool × Int × Int × Int × Int × Int => p.2.1) key
  have f2 : (init_line_car ctx rnd).car_lane = 2 :=
    congrArg (fun p : Bool × Int × Int × Int × Int × Int => p.2.2.1) key
  have f3 : (init_line_car ctx rnd).selected_row = ctx.selected_row :=
    congrArg (fun p : Bool × Int × Int × Int × Int × Int => p.2.2.2.1) key
  have f4 : (init_line_car ctx rnd).selected_side = ctx.selected_side :=
    congrArg (fun p : Bool × Int × Int × Int × Int × Int => p.2.2.2.2.1) key
  have f5 : (init_line_car ctx rnd).selected_game = ctx.selected_game :=
    congrArg (fun p : Bool × Int × Int × Int × Int × Int => p.2.2.2.2.2) key
  exact keeps_of_lanes f0 f3 f4 f5 (fun h => by rw [f1]; exact h)
    (fun _ => by rw [f2]; decide)

theorem keeps_init_flip_iq (ctx : GameContext) : keeps_exit_and_lanes ctx (init_flip_iq ctx) := by
  have key : exit_and_lanes (init_flip_iq ctx) =
      (ctx.should_exit, ctx.mascot_lane, 2, ctx.selected_row, ctx.selected_side,
       ctx.selected_game) := by
    unfold init_flip_iq
    apply for_loop_inv (fun s : GameContext => exit_and_lanes s =
      (ctx.should_exit, ctx.mascot_lane, 2, ctx.selected_row, ctx.selected_side,
       ctx.selected_game))
    · intro i s hs
      apply for_loop_inv (fun s : GameContext => exit_and_lanes s =
        (ctx.should_exit, ctx.mascot_lane, 2, ctx.selected_row, ctx.selected_side,
         ctx.selected_game))
      · intro j t ht
        exact ht
      · exact hs
    · rfl
  have f0 : (init_flip_iq ctx).should_exit = ctx.should_exit :=
    congrArg (fun p : Bool × Int × Int × Int × Int × Int => p.1) key
  have f1 : (init_flip_iq ctx).mascot_lane = ctx.mascot_lane :=
    congrArg (fun p : Bool × Int × Int × Int × Int × Int => p.2.1) key
  have f2 : (init_flip_iq ctx).car_lane = 2 :=
    congrArg (fun p : Bool × Int × Int × Int × Int × Int => p.2.2.1) key
  have f3 : (init_flip_iq ctx).selected_row = ctx.selected_row :=
    congrArg (fun p : Bool × Int × Int × Int × Int × Int => p.2.2.2.1) key
  have f4 : (init_flip_iq ctx).selected_side = ctx.selected_side :=
    congrArg (fun p : Bool × Int × Int × Int × Int × Int => p.2.2.2.2.1) key
  have f5 : (init_flip_iq ctx).selected_game = ctx.selected_game :=
    congrArg (fun p : Bool × Int × Int × Int × Int × Int => p.2.2.2.2.2) key
  exact keeps_of_lanes f0 f3 f4 f5 (fun h => by rw [f1]; exact h)
    (fun _ => by rw [f2]; decide)

theorem exit_and_lanes_init_tectone_sim (ctx : GameContext) (now : Nat) :
    exit_and_lanes (init_tectone_sim ctx now) = exit_and_lanes ctx := by
  unfold init_tectone_sim
  apply for_loop_inv (fun s : GameContext => exit_and_lanes s = exit_and_lanes ctx)
  · intro i s hs; exact hs
  · rfl

theorem exit_and_lanes_init_space_flight (ctx : GameContext) (rnd : Nat → Nat) :
    exit_and_lanes (init_space_flight ctx rnd) = exit_and_lanes ctx := by
  unfold init_space_flight
  apply for_loop_inv (fun s : GameContext => exit_and_lanes s = exit_and_lanes ctx)
  · intro i s hs; exact hs
  · apply for_loop_inv (fun s : GameContext => exit_and_lanes s = exit_and_lanes ctx)
    · intro i s hs; exact hs
    · rfl

theorem keeps_input_rotate (ctx : GameContext) (input : InputEvent) (now : Nat)
    (rnd : Nat → Nat) : keeps_exit_and_lanes ctx (input_rotate ctx input now rnd) := by
  unfold input_rotate
  split_ifs
  · have h0 : keeps_exit_and_lanes ctx (rotate_enter ctx now) := keeps_of_eq rfl
    refine keeps_trans h0 ?_
    unfold rotate_init_game
    split_ifs
    · exact keeps_init_line_car _ rnd
    · exact keeps_init_flip_iq _
    · exact keeps_of_eq (exit_and_lanes_init_tectone_sim _ now)
    · exact keeps_of_eq (exit_and_lanes_init_space_flight _ rnd)
    · exact keeps_refl _
  · exact keeps_refl ctx

theorem keeps_game_state_back (ctx : GameContext) (input : InputEvent) (now : Nat)
    (o : GameContext) (h : keeps_exit_and_lanes ctx o) :
    keeps_exit_and_lanes ctx (game_state_back ctx input now o) := by
  unfold game_state_back
  split_ifs
  · exact keeps_of_eq rfl
  · exact keeps_of_eq rfl
  · exact keeps_of_eq rfl
  · exact h

theorem exit_and_lanes_zero_hero_keys (ctx : GameContext) (input : InputEvent) :
    exit_and_lanes (zero_hero_keys ctx input) = exit_and_lanes ctx := by
  unfold zero_hero_keys
  dsimp only
  split_ifs <;> rfl

theorem keeps_flip_zip_keys (ctx : GameContext) (input : InputEvent) (now : Nat) :
    keeps_exit_and_lanes ctx (flip_zip_keys ctx input now) := by
  have hl : ∀ c, keeps_exit_and_lanes c (flip_zip_left input now c) := by
    intro c
    unfold flip_zip_left
    split_ifs with h
    · obtain ⟨t0, t1, t2, t3, t4, t5⟩ := exit_and_lanes_fields
        (exit_and_lanes_tap_cadence { c with mascot_lane := c.mascot_lane - 1 } now)
      refine keeps_of_lanes t0 t3 t4 t5 (fun hm => ?_) (fun hc => by rw [t2]; exact hc)
      rw [t1]
      have := h.2.2
      show 0 ≤ c.mascot_lane - 1 ∧ c.mascot_lane - 1 ≤ 4
      omega
    · exact keeps_refl c
  have hr : ∀ c, keeps_exit_and_lanes c (flip_zip_right input now c) := by
    intro c
    unfold flip_zip_right
    split_ifs with h
    · obtain ⟨t0, t1, t2, t3, t4, t5⟩ := exit_and_lanes_fields
        (exit_and_lanes_tap_cadence { c with mascot_lane := c.mascot_lane + 1 } now)
      refine keeps_of_lanes t0 t3 t4 t5 (fun hm => ?_) (fun hc => by rw [t2]; exact hc)
      rw [t1]
      have := h.2.2
      show 0 ≤ c.mascot_lane + 1 ∧ c.mascot_lane + 1 ≤ 4
      omega
    · exact keeps_refl c
  have hu : ∀ c, exit_and_lanes (flip_zip_up input c) = exit_and_lanes c := by
    intro c; unfold flip_zip_up; dsimp only; split_ifs <;> rfl
  have hd : ∀ c, exit_and_lanes (flip_zip_down input c) = exit_and_lanes c := by
    intro c; unfold flip_zip_down; split_ifs <;> rfl
  have ho : ∀ c, exit_and_lanes (flip_zip_ok input now c) = exit_and_lanes c := by
    intro c; unfold flip_zip_ok; split_ifs <;> rfl
  unfold flip_zip_keys
  exact keeps_trans (keeps_trans (keeps_trans (keeps_trans (hl ctx) (hr _))
    (keeps_of_eq (hu _))) (keeps_of_eq (hd _))) (keeps_of_eq (ho _))

theorem exit_and_lanes_lane_key_hold (input : InputEvent) (ctx : GameContext) :
    exit_and_lanes (lane_key_hold input ctx) = exit_and_lanes ctx := by
  unfold lane_key_hold
  dsimp only
  split_ifs <;> rfl

theorem exit_and_lanes_line_car_after_lane_change (ctx : GameContext) (now now2 : Nat)
    (d t : Int) :
    exit_and_lanes (line_car_after_lane_change ctx now now2 d t) = exit_and_lanes ctx := by
  unfold line_car_after_lane_change line_car_point_notification
  dsimp only
  split_ifs <;> rfl

theorem keeps_line_car_keys (ctx : GameContext) (input : InputEvent) (now now2 : Nat) :
    keeps_exit_and_lanes ctx (line_car_keys ctx input now now2) := by
  have hl : ∀ c, keeps_exit_and_lanes c (line_car_left input now now2 c) := by
    intro c
    unfold line_car_left
    dsimp only
    split_ifs with h
    · obtain ⟨a0, a1, a2, a3, a4, a5⟩ := exit_and_lanes_fields
        (exit_and_lanes_line_car_after_lane_change
          (tap_cadence { c with prev_car_lane := c.car_lane, car_lane := c.car_lane - 1 } now)
          now now2 (-8) (-15))
      obtain ⟨t0, t1, t2, t3, t4, t5⟩ := exit_and_lanes_fields
        (exit_and_lanes_tap_cadence
          { c with prev_car_lane := c.car_lane, car_lane := c.car_lane - 1 } now)
      refine keeps_of_lanes (a0.trans t0) (a3.trans t3) (a4.trans t4) (a5.trans t5)
        (fun hm => by rw [a1, t1]; exact hm) (fun hc => ?_)
      rw [a2, t2]
      have := h.2.2
      show 0 ≤ c.car_lane - 1 ∧ c.car_lane - 1 ≤ 4
      omega
    · exact keeps_refl c
  have hr : ∀ c, keeps_exit_and_lanes c (line_car_right input now now2 c) := by
    intro c
    unfold line_car_right
    dsimp only
    split_ifs with h
    · obtain ⟨a0, a1, a2, a3, a4, a5⟩ := exit_and_lanes_fields
        (exit_and_lanes_line_car_after_lane_change
          (tap_cadence { c with prev_car_lane := c.car_lane, car_lane := c.car_lane + 1 } now)
          now now2 8 15)
      obtain ⟨t0, t1, t2, t3, t4, t5⟩ := exit_and_lanes_fields
        (exit_and_lanes_tap_cadence
          { c with prev_car_lane := c.car_lane, car_lane := c.car_lane + 1 } now)
      refine keeps_of_lanes (a0.trans t0) (a3.trans t3) (a4.trans t4) (a5.trans t5)
        (fun hm => by rw [a1, t1]; exact hm) (fun hc => ?_)
      rw [a2, t2]
      have := h.2.2
      show 0 ≤ c.car_lane + 1 ∧ c.car_lane + 1 ≤ 4
      omega
    · exact keeps_refl c
  have hu : ∀ c, exit_and_lanes (line_car_up input c) = exit_and_lanes c := by
    intro c; unfold line_car_up; split_ifs <;> rfl
  have hb : ∀ c, exit_and_lanes (line_car_brake input c) = exit_and_lanes c := by
    intro c; unfold line_car_brake; split_ifs <;> rfl
  unfold line_car_keys
  exact keeps_trans (keeps_trans (keeps_trans (keeps_trans
    (keeps_of_eq (exit_and_lanes_lane_key_hold input ctx)) (hl _)) (hr _))
    (keeps_of_eq (hu _))) (keeps_of_eq (hb _))

theorem keeps_flip_iq_keys (ctx : GameContext) (input : InputEvent) (now : Nat) :
    keeps_exit_and_lanes ctx (flip_iq_keys ctx input now) := by
  have hl : ∀ c, keeps_exit_and_lanes c (flip_iq_left input now c) := by
    intro c
    unfold flip_iq_left
    split_ifs with h
    · obtain ⟨t0, t1, t2, t3, t4, t5⟩ := exit_and_lanes_fields
        (exit_and_lanes_tap_cadence { c with car_lane := c.car_lane - 1 } now)
      refine keeps_of_lanes t0 t3 t4 t5 (fun hm => by rw [t1]; exact hm) (fun hc => ?_)
      rw [t2]
      have := h.2.2.1
      show 0 ≤ c.car_lane - 1 ∧ c.car_lane - 1 ≤ 4
      omega
    · exact keeps_refl c
  have hr : ∀ c, keeps_exit_and_lanes c (flip_iq_right input now c) := by
    intro c
    unfold flip_iq_right
    split_ifs with h
    · obtain ⟨t0, t1, t2, t3, t4, t5⟩ := exit_and_lanes_fields
        (exit_and_lanes_tap_cadence { c with car_lane := c.car_lane + 1 } now)
      refine keeps_of_lanes t0 t3 t4 t5 (fun hm => by rw [t1]; exact hm) (fun hc => ?_)
      rw [t2]
      have := h.2.2.1
      show 0 ≤ c.car_lane + 1 ∧ c.car_lane + 1 ≤ 4
      omega
    · exact keeps_refl c
  have hu : ∀ c, exit_and_lanes (flip_iq_up input c) = exit_and_lanes c := by
    intro c; unfold flip_iq_up; split_ifs <;> rfl
  have hd : ∀ c, exit_and_lanes (flip_iq_down input c) = exit_and_lanes c := by
    intro c; unfold flip_iq_down; split_ifs <;> rfl
  unfold flip_iq_keys
  exact keeps_trans (keeps_trans (keeps_trans (keeps_trans
    (keeps_of_eq (exit_and_lanes_lane_key_hold input ctx)) (hl _)) (hr _))
    (keeps_of_eq (hu _))) (keeps_of_eq (hd _))

theorem exit_and_lanes_tectone_sim_keys (ctx : GameContext) (input : InputEvent) :
    exit_and_lanes (tectone_sim_keys ctx input) = exit_and_lanes ctx := by
  unfold tectone_sim_keys
  split_ifs <;> rfl

theorem exit_and_lanes_space_flight_keys (ctx : GameContext) (input : InputEvent) :
    exit_and_lanes (space_flight_keys ctx input) = exit_and_lanes ctx := by
  unfold space_flight_keys
  split_ifs <;> rfl

theorem exit_and_lanes_input_pause (ctx : GameContext) (input : InputEvent) (now : Nat) :
    exit_and_lanes (input_pause ctx input now) = exit_and_lanes ctx := by
  unfold input_pause pause_resume pause_back
  split_ifs
  · rfl
  · rfl
  · rfl
  · rfl
  · exact exit_and_lanes_back_hold_release ctx now
  · rfl

theorem keeps_input_credits (ctx : GameContext) (input : InputEvent) :
    keeps_exit_and_lanes ctx (input_credits ctx input) := by
  unfold input_credits
  split_ifs
  · exact ⟨fun _ => rfl, id⟩
  · exact keeps_refl ctx

theorem keeps_input_dispatch (ctx : GameContext) (input : InputEvent) (now now2 : Nat)
    (rnd : Nat → Nat) : keeps_exit_and_lanes ctx (input_dispatch ctx input now now2 rnd) := by
  unfold input_dispatch
  cases ctx.state with
  | LOADING => exact keeps_refl ctx
  | TITLE => exact keeps_input_title ctx input now
  | ROTATE => exact keeps_input_rotate ctx input now rnd
  | ZERO_HERO =>
    exact keeps_game_state_back ctx input now _ (keeps_of_eq (exit_and_lanes_zero_hero_keys ctx input))
  | FLIP_ZIP => exact keeps_game_state_back ctx input now _ (keeps_flip_zip_keys ctx input now)
  | LINE_CAR =>
    exact keeps_game_state_back ctx input now _ (keeps_line_car_keys ctx input now now2)
  | FLIP_IQ => exact keeps_game_state_back ctx input now _ (keeps_flip_iq_keys ctx input now)
  | TECTONE_SIM =>
    exact keeps_game_state_back ctx input now _
      (keeps_of_eq (exit_and_lanes_tectone_sim_keys ctx input))
  | SPACE_FLIGHT =>
    exact keeps_game_state_back ctx input now _
      (keeps_of_eq (exit_and_lanes_space_flight_keys ctx input))
  | PAUSE => exact keeps_of_eq (exit_and_lanes_input_pause ctx input now)
  | CREDITS => exact keeps_input_credits ctx input

theorem keeps_input_callback (ctx : GameContext) (input : InputEvent) (tick rnd : Nat → Nat) :
    keeps_exit_and_lanes ctx (input_callback ctx input tick rnd) := by
  have h1 : keeps_exit_and_lanes ctx (input_bookkeeping ctx (furi_get_tick tick 0)) :=
    keeps_of_eq (exit_and_lanes_input_bookkeeping ctx _)
  unfold input_callback
  dsimp only
  split_ifs
  · exact h1
  · have h2 : keeps_exit_and_lanes (input_bookkeeping ctx (furi_get_tick tick 0))
        (record_short_back (input_bookkeeping ctx (furi_get_tick tick 0)) input
          (furi_get_tick tick 0)) :=
      keeps_of_eq (exit_and_lanes_record_short_back _ input _)
    exact keeps_trans (keeps_trans h1 h2) (keeps_input_dispatch _ input _ _ rnd)

/-! ## The exit flag and the lane indices under the timer -/

theorem break_loop_from_inv_lt {σ : Type} (P : σ → Prop) (body : Nat → σ → σ × Bool) (m : Nat)
    (h : ∀ i s, i < m → P s → P (body i s).1) :
    ∀ n i s, i + n ≤ m → P s → P (break_loop_from i n body s) := by
  intro n
  induction n with
  | zero => intro i s _ hs; exact hs
  | succ n ih =>
    intro i s hm hs
    unfold break_loop_from
    split_ifs
    · exact h i s (by omega) hs
    · exact ih (i + 1) _ (by omega) (h i s (by omega) hs)

theorem for_loop_break_inv_lt {σ : Type} (P : σ → Prop) (body : Nat → σ → σ × Bool) (n : Nat)
    (h : ∀ i s, i < n → P s → P (body i s).1) (s : σ) (hs : P s) :
    P (for_loop_break n body s) :=
  break_loop_from_inv_lt P body n h n 0 s (by omega) hs

theorem keeps_of_steady {c r : GameContext} (h : steady r = steady c)
    (hc : 0 ≤ c.car_lane ∧ c.car_lane ≤ 4 → 0 ≤ r.car_lane ∧ r.car_lane ≤ 4) :
    keeps_exit_and_lanes c r := by
  have h0 : r.should_exit = c.should_exit := congrArg Steady.should_exit h
  have h1 : r.mascot_lane = c.mascot_lane := congrArg Steady.mascot_lane h
  have h3 : r.selected_row = c.selected_row := congrArg Steady.selected_row h
  have h4 : r.selected_side = c.selected_side := congrArg Steady.selected_side h
  have h5 : r.selected_game = c.selected_game := congrArg Steady.selected_game h
  exact keeps_of_lanes h0 h3 h4 h5 (fun hm => by rw [h1]; exact hm) hc

theorem zero_hero_difficulty_car_lane (tick rnd : Nat → Nat) (s : Run) :
    (zero_hero_difficulty tick rnd s).ctx.car_lane = s.ctx.car_lane := by
  have ht : ∀ c, (zero_hero_tier_up c).car_lane = c.car_lane := by
    intro c; unfold zero_hero_tier_up; split_ifs <;> rfl
  have hr : ∀ t : Run, (zero_hero_raise tick rnd t).ctx.car_lane = t.ctx.car_lane :=
    fun t => ht t.ctx
  unfold zero_hero_difficulty zero_hero_escalate
  split_ifs
  · exact hr s.read
  · rfl
  · rfl

theorem update_zero_hero_car_lane (ctx : GameContext) (tick rnd : Nat → Nat) :
    (update_zero_hero ctx tick rnd).car_lane = ctx.car_lane := by
  unfold update_zero_hero
  split_ifs
  · rfl
  · rw [zero_hero_difficulty_car_lane]
    have h : bystanders (zero_hero_spawn rnd (zero_hero_lanes tick (stamped ctx tick))).ctx =
        bystanders ctx := by simp
    exact congrArg (fun p : Int × Int × Nat => p.1) h

/-- The car of Line Car stays in a lane: the two loops that reassign
`car_lane` (lines 811-816 and 823-832) run over the five lanes. -/
theorem line_car_gravity_car_lane (tick rnd : Nat → Nat) (m : Int) (s : Run)
    (h : 0 ≤ s.ctx.car_lane ∧ s.ctx.car_lane ≤ 4) :
    0 ≤ (line_car_gravity tick rnd m s).ctx.car_lane ∧
    (line_car_gravity tick rnd m s).ctx.car_lane ≤ 4 := by
  have hb : ∀ c : GameContext, 0 ≤ c.car_lane ∧ c.car_lane ≤ 4 →
      0 ≤ (line_car_bottom c).car_lane ∧ (line_car_bottom c).car_lane ≤ 4 := by
    intro c hc
    unfold line_car_bottom
    apply for_loop_break_inv_lt (fun t : GameContext => 0 ≤ t.car_lane ∧ t.car_lane ≤ 4)
    · intro i t hi ht
      unfold line_car_find_lane_step
      split_ifs
      · show 0 ≤ (i : Int) ∧ (i : Int) ≤ 4
        omega
      · exact ht
    · exact hc
  have ho : ∀ t : Run, 0 ≤ t.ctx.car_lane ∧ t.ctx.car_lane ≤ 4 →
      0 ≤ (line_car_off_track tick rnd t).ctx.car_lane ∧
      (line_car_off_track tick rnd t).ctx.car_lane ≤ 4 := by
    intro t ht
    unfold line_car_off_track
    split_ifs
    · apply for_loop_break_inv_lt (fun u : Run => 0 ≤ u.ctx.car_lane ∧ u.ctx.car_lane ≤ 4)
      · intro i u hi hu
        unfold line_car_reposition_lane
        apply for_loop_break_inv (fun v : Run => 0 ≤ v.ctx.car_lane ∧ v.ctx.car_lane ≤ 4)
        · intro j v hv
          unfold line_car_reposition_slot
          split_ifs
          · show 0 ≤ (i : Int) ∧ (i : Int) ≤ 4
            omega
          · exact hv
        · exact hu
      · exact ht
    · exact ht
  unfold line_car_gravity line_car_fallen
  split_ifs
  · exact h
  · exact ho _ (hb _ h)
  · exact h

theorem update_line_car_car_lane (ctx : GameContext) (tick rnd : Nat → Nat)
    (h : 0 ≤ ctx.car_lane ∧ ctx.car_lane ≤ 4) :
    0 ≤ (update_line_car ctx tick rnd).car_lane ∧ (update_line_car ctx tick rnd).car_lane ≤ 4 := by
  unfold update_line_car
  split_ifs
  · exact h
  · have h1 : bystanders (line_car_drift_check tick (line_car_before_drift ctx tick rnd)).ctx =
        bystanders ctx := by simp
    have e1 : (line_car_drift_check tick (line_car_before_drift ctx tick rnd)).ctx.car_lane =
        ctx.car_lane := congrArg (fun p : Int × Int × Nat => p.1) h1
    have h2 := line_car_gravity_car_lane tick rnd (Int.tdiv ctx.speed_bpm 78)
      (line_car_drift_check tick (line_car_before_drift ctx tick rnd)) (by rw [e1]; exact h)
    have h3 := bystanders_line_car_drift_slowdown
      (line_car_gravity tick rnd (Int.tdiv ctx.speed_bpm 78)
        (line_car_drift_check tick (line_car_before_drift ctx tick rnd))).ctx
    have e3 : (line_car_drift_slowdown
        (line_car_gravity tick rnd (Int.tdiv ctx.speed_bpm 78)
          (line_car_drift_check tick (line_car_before_drift ctx tick rnd))).ctx).car_lane =
        (line_car_gravity tick rnd (Int.tdiv ctx.speed_bpm 78)
          (line_car_drift_check tick (line_car_before_drift ctx tick rnd))).ctx.car_lane :=
      congrArg (fun p : Int × Int × Nat => p.1) h3
    rw [e3]
    exact h2

theorem keeps_timer_update (ctx : GameContext) (st : Statics) (tick rnd : Nat → Nat) :
    keeps_exit_and_lanes ctx (timer_update ctx st tick rnd).1 := by
  apply keeps_of_steady (steady_timer_update ctx st tick rnd)
  intro hc
  unfold timer_update
  split
  · rw [update_zero_hero_car_lane]; exact hc
  · have e : (update_flip_zip ctx tick rnd).car_lane = ctx.car_lane :=
      congrArg (fun p : Int × Int × Nat => p.1) (bystanders_update_flip_zip ctx tick rnd)
    show 0 ≤ (update_flip_zip ctx tick rnd).car_lane ∧ (update_flip_zip ctx tick rnd).car_lane ≤ 4
    rw [e]; exact hc
  · exact update_line_car_car_lane ctx tick rnd hc
  · have e : (update_flip_iq ctx tick rnd).car_lane = ctx.car_lane :=
      congrArg (fun p : Int × Int × Nat => p.1) (bystanders_update_flip_iq ctx tick rnd)
    show 0 ≤ (update_flip_iq ctx tick rnd).car_lane ∧ (update_flip_iq ctx tick rnd).car_lane ≤ 4
    rw [e]; exact hc
  · have e : (update_tectone_sim ctx st tick rnd).1.car_lane = ctx.car_lane :=
      congrArg (fun p : Int × Int × Nat => p.1) (bystanders_update_tectone_sim ctx st tick rnd)
    rw [e]; exact hc
  · have e : (update_space_flight ctx tick rnd).car_lane = ctx.car_lane :=
      congrArg (fun p : Int × Int × Nat => p.1) (bystanders_update_space_flight ctx tick rnd)
    show 0 ≤ (update_space_flight ctx tick rnd).car_lane ∧
      (update_space_flight ctx tick rnd).car_lane ≤ 4
    rw [e]; exact hc
  all_goals exact hc

theorem exit_and_lanes_notification_decay (now : Nat) (ctx : GameContext) :
    exit_and_lanes (notification_decay now ctx) = exit_and_lanes ctx := by
  unfold notification_decay notification_scroll
  split_ifs <;> rfl

theorem keeps_timer_phase (ctx : GameContext) (st : Statics) (tick rnd : Nat → Nat) :
    keeps_exit_and_lanes ctx (timer_phase ctx st tick rnd).1 := by
  unfold timer_phase
  split_ifs
  · exact keeps_refl ctx
  · exact keeps_of_eq (exit_and_lanes_notification_decay _ ctx)
  · exact keeps_timer_update ctx st _ rnd
  · exact keeps_refl ctx

theorem keeps_timer_tail (now : Nat) (p : GameContext × Statics) :
    keeps_exit_and_lanes p.1 (timer_credits now (timer_day_night now p.1, p.2)).1 := by
  have h1 : exit_and_lanes (timer_day_night now p.1) = exit_and_lanes p.1 := by
    unfold timer_day_night
    split_ifs <;> rfl
  refine keeps_trans (keeps_of_eq h1) ?_
  unfold timer_credits credits_over credits_scroll
  dsimp only
  split_ifs
  · exact ⟨fun _ => rfl, id⟩
  · exact keeps_of_eq rfl
  · exact ⟨fun _ => rfl, id⟩
  · exact keeps_refl _
  · exact keeps_refl _

theorem keeps_timer_callback (ctx : GameContext) (st : Statics) (tick rnd : Nat → Nat) :
    keeps_exit_and_lanes ctx (timer_callback ctx st tick rnd).1 := by
  have h0 : keeps_exit_and_lanes ctx (advance_frame ctx) := keeps_of_eq rfl
  have h1 := keeps_timer_phase (advance_frame ctx) st tick rnd
  have h2 := keeps_timer_tail (furi_get_tick tick 0) (timer_phase (advance_frame ctx) st tick rnd)
  exact keeps_trans (keeps_trans h0 h1) h2

/-! ## The exit flag and the lane indices under the renderer and the main loop -/

theorem exit_and_lanes_draw_notification (ctx : GameContext) (now : Nat) :
    exit_and_lanes (draw_notification ctx now) = exit_and_lanes ctx := by
  unfold draw_notification
  dsimp only
  split_ifs <;> rfl

theorem exit_and_lanes_render_callback (ctx : GameContext) (tick : Nat → Nat) :
    exit_and_lanes (render_callback ctx tick) = exit_and_lanes ctx := by
  have hr : exit_and_lanes (draw_rotate_screen ctx (furi_get_tick tick 0)) =
      exit_and_lanes ctx := by
    unfold draw_rotate_screen
    dsimp only
    split_ifs <;> rfl
  have hl : exit_and_lanes (render_line_car ctx tick) = exit_and_lanes ctx := by
    unfold render_line_car lazy_start_time
    dsimp only
    split_ifs
    · rfl
    · exact exit_and_lanes_draw_notification _ _
    · rfl
    · exact exit_and_lanes_draw_notification _ _
  have hs : exit_and_lanes (render_space_flight ctx tick) = exit_and_lanes ctx := by
    unfold render_space_flight lazy_start_time
    dsimp only
    split_ifs
    · rfl
    · exact exit_and_lanes_draw_notification _ _
    · rfl
    · exact exit_and_lanes_draw_notification _ _
  have hq : exit_and_lanes (render_flip_iq ctx tick) = exit_and_lanes ctx := by
    unfold render_flip_iq lazy_start_time
    dsimp only
    split_ifs <;> rfl
  unfold render_callback
  split_ifs
  · rfl
  · cases hst : ctx.state with
    | LOADING => rfl
    | TITLE => rfl
    | ROTATE => exact hr
    | CREDITS => rfl
    | PAUSE => rfl
    | ZERO_HERO => exact exit_and_lanes_draw_notification _ _
    | FLIP_ZIP => exact exit_and_lanes_draw_notification _ _
    | LINE_CAR => exact hl
    | FLIP_IQ => exact hq
    | TECTONE_SIM => exact exit_and_lanes_draw_notification _ _
    | SPACE_FLIGHT => exact hs

theorem keeps_main_loop_step (ctx : GameContext) (now : Nat) :
    keeps_exit_and_lanes ctx (main_loop_step ctx now) := by
  unfold main_loop_step
  split_ifs
  · exact ⟨id, fun h => ⟨h.1, h.2.1,
      (⟨le_refl _, (by decide : (0 : Int) ≤ 2)⟩ : (0 : Int) ≤ 0 ∧ (0 : Int) ≤ 2),
      (⟨le_refl _, (by decide : (0 : Int) ≤ 1)⟩ : (0 : Int) ≤ 0 ∧ (0 : Int) ≤ 1), h.2.2.2.2⟩⟩
  · exact keeps_refl ctx

/-! ## The exit flag -/

theorem credits_over_fields (c : GameContext) :
    (credits_over c).state = c.state ∧ (credits_over c).credits_y = c.credits_y ∧
    (c.credits_y < -10 → (credits_over c).should_exit = true) ∧
    (¬ c.credits_y < -10 → (credits_over c).should_exit = c.should_exit) := by
  unfold credits_over
  by_cases h : c.credits_y < -10
  · rw [if_pos h]
    exact ⟨rfl, rfl, fun _ => rfl, fun hn => absurd h hn⟩
  · rw [if_neg h]
    exact ⟨rfl, rfl, fun hn => absurd hn h, fun _ => rfl⟩

theorem timer_credits_fields (now : Nat) (d : GameContext) (st : Statics)
    (hd : d.state = GameState.CREDITS) :
    (timer_credits now (d, st)).1.state = GameState.CREDITS ∧
    (timer_credits now (d, st)).1.credits_y =
      (if sub32 now st.last_credits_update ≥ 85 then d.credits_y - 1 else d.credits_y) ∧
    ((timer_credits now (d, st)).1.credits_y < -10 →
      (timer_credits now (d, st)).1.should_exit = true) ∧
    (¬ (timer_credits now (d, st)).1.credits_y < -10 →
      (timer_credits now (d, st)).1.should_exit = d.should_exit) := by
  have e : (timer_credits now (d, st)).1 = credits_over (credits_scroll now (d, st)).1 := by
    unfold timer_credits
    rw [if_pos hd]
  rw [e]
  obtain ⟨o1, o2, o3, o4⟩ := credits_over_fields (credits_scroll now (d, st)).1
  rw [o1, o2]
  by_cases h85 : sub32 now st.last_credits_update ≥ 85
  · have s1 : (credits_scroll now (d, st)).1 = { d with credits_y := d.credits_y - 1 } := by
      unfold credits_scroll
      rw [if_pos h85]
    rw [if_pos h85]
    rw [s1] at o3 o4 ⊢
    exact ⟨hd, rfl, o3, o4⟩
  · have s1 : (credits_scroll now (d, st)).1 = d := by
      unfold credits_scroll
      rw [if_neg h85]
    rw [if_neg h85]
    rw [s1] at o3 o4 ⊢
    exact ⟨hd, rfl, o3, o4⟩

theorem timer_day_night_credits (now : Nat) (c : GameContext) :
    (timer_day_night now c).state = c.state ∧ (timer_day_night now c).credits_y = c.credits_y ∧
    (timer_day_night now c).should_exit = c.should_exit := by
  unfold timer_day_night
  split_ifs <;> exact ⟨rfl, rfl, rfl⟩

theorem timer_phase_credits (ctx : GameContext) (st : Statics) (tick rnd : Nat → Nat)
    (hs : ctx.state = GameState.CREDITS) :
    (timer_phase (advance_frame ctx) st tick rnd).1.state = GameState.CREDITS ∧
    (timer_phase (advance_frame ctx) st tick rnd).1.credits_y = ctx.credits_y ∧
    (timer_phase (advance_frame ctx) st tick rnd).1.should_exit = ctx.should_exit ∧
    (timer_phase (advance_frame ctx) st tick rnd).2 = st := by
  have hn : ¬ is_game_state (advance_frame ctx).state := by
    show ¬ is_game_state ctx.state
    rw [hs]
    unfold is_game_state
    decide
  have hu := timer_update_outside_game (advance_frame ctx) st (fun k => tick (k + 1)) rnd hn
  unfold timer_phase
  split_ifs
  · exact ⟨hs, rfl, rfl, rfl⟩
  · have e := exit_and_lanes_fields
      (exit_and_lanes_notification_decay (furi_get_tick tick 0) (advance_frame ctx))
    have f := notification_decay_frame (furi_get_tick tick 0) (advance_frame ctx)
    refine ⟨?_, ?_, e.1, rfl⟩
    · show (notification_decay (furi_get_tick tick 0) (advance_frame ctx)).state = _
      rw [f]; exact hs
    · show (notification_decay (furi_get_tick tick 0) (advance_frame ctx)).credits_y = _
      rw [f]; rfl
  · rw [hu]
    exact ⟨hs, rfl, rfl, rfl⟩
  · exact ⟨hs, rfl, rfl, rfl⟩

theorem credits_short_back (ctx : GameContext) (input : InputEvent) (tick rnd : Nat → Nat)
    (hs : ctx.state = GameState.CREDITS) (hk : input.key = InputKey.Back)
    (ht : input.type = InputType.Short)
    (hd : ¬ sub32 (furi_get_tick tick 0) ctx.last_back_press_time < BACK_BUTTON_COOLDOWN) :
    (input_callback ctx input tick rnd).should_exit = true ∧
    (input_callback ctx input tick rnd).state = GameState.CREDITS := by
  rw [input_callback_accepted ctx input tick rnd (fun h => hd h.2)]
  have hb : (record_short_back (input_bookkeeping ctx (furi_get_tick tick 0)) input
      (furi_get_tick tick 0)).state = GameState.CREDITS := by
    have e : ∀ c, (record_short_back c input (furi_get_tick tick 0)).state = c.state := by
      intro c; unfold record_short_back; split_ifs <;> rfl
    rw [e, input_bookkeeping_state]
    exact hs
  generalize record_short_back (input_bookkeeping ctx (furi_get_tick tick 0)) input
    (furi_get_tick tick 0) = b at hb ⊢
  have ed : input_dispatch b input (furi_get_tick tick 0) (furi_get_tick tick 1) rnd =
      input_credits b input := by
    unfold input_dispatch
    rw [hb]
  rw [ed]
  have hsh : is_short input = true := by
    unfold is_short
    rw [ht]
    rfl
  unfold input_credits
  rw [if_pos ⟨hsh, hk⟩]
  exact ⟨rfl, hb⟩

/-- C23. In Credits a short Back that passes the debounce sets `should_exit`
and leaves the state Credits; a timer tick in Credits leaves the state
Credits, scrolls `credits_y` by one when 85 ms have passed since the last
scroll, and sets `should_exit` when `credits_y` is then below -10 (otherwise
it leaves the flag as it was); and no callback turns a set `should_exit` off:
not the input callback, the timer callback, the render callback, any of the
six update functions, nor the body of the main loop. -/
theorem exit_flag_rule :
    (∀ (ctx : GameContext) (input : InputEvent) (tick rnd : Nat → Nat),
      ctx.state = GameState.CREDITS → input.key = InputKey.Back →
      input.type = InputType.Short →
      ¬ sub32 (furi_get_tick tick 0) ctx.last_back_press_time < BACK_BUTTON_COOLDOWN →
      (input_callback ctx input tick rnd).should_exit = true ∧
      (input_callback ctx input tick rnd).state = GameState.CREDITS) ∧
    (∀ (ctx : GameContext) (st : Statics) (tick rnd : Nat → Nat),
      ctx.state = GameState.CREDITS →
      (timer_callback ctx st tick rnd).1.state = GameState.CREDITS ∧
      (timer_callback ctx st tick rnd).1.credits_y =
        (if sub32 (furi_get_tick tick 0) st.last_credits_update ≥ 85 then ctx.credits_y - 1
          else ctx.credits_y) ∧
      ((timer_callback ctx st tick rnd).1.credits_y < -10 →
        (timer_callback ctx st tick rnd).1.should_exit = true) ∧
      (¬ (timer_callback ctx st tick rnd).1.credits_y < -10 →
        (timer_callback ctx st tick rnd).1.should_exit = ctx.should_exit)) ∧
    (∀ (ctx : GameContext) (input : InputEvent) (tick rnd : Nat → Nat),
      ctx.should_exit = true → (input_callback ctx input tick rnd).should_exit = true) ∧
    (∀ (ctx : GameContext) (st : Statics) (tick rnd : Nat → Nat),
      ctx.should_exit = true → (timer_callback ctx st tick rnd).1.should_exit = true) ∧
    (∀ (ctx : GameContext) (tick : Nat → Nat),
      (render_callback ctx tick).should_exit = ctx.should_exit) ∧
    (∀ (ctx : GameContext) (st : Statics) (tick rnd : Nat → Nat),
      (update_zero_hero ctx tick rnd).should_exit = ctx.should_exit ∧
      (update_flip_zip ctx tick rnd).should_exit = ctx.should_exit ∧
      (update_line_car ctx tick rnd).should_exit = ctx.should_exit ∧
      (update_flip_iq ctx tick rnd).should_exit = ctx.should_exit ∧
      (update_tectone_sim ctx st tick rnd).1.should_exit = ctx.should_exit ∧
      (update_space_flight ctx tick rnd).should_exit = ctx.should_exit) ∧
    (∀ (ctx : GameContext) (now : Nat),
      (main_loop_step ctx now).should_exit = ctx.should_exit) := by
  refine ⟨credits_short_back, ?_, fun ctx input tick rnd h => ?_, fun ctx st tick rnd h => ?_,
    fun ctx tick => ?_, fun ctx st tick rnd => ?_, fun ctx now => ?_⟩
  · intro ctx st tick rnd hs
    obtain ⟨p1, p2, p3, p4⟩ := timer_phase_credits ctx st tick rnd hs
    obtain ⟨d1, d2, d3⟩ := timer_day_night_credits (furi_get_tick tick 0)
      (timer_phase (advance_frame ctx) st tick rnd).1
    have t := timer_credits_fields (furi_get_tick tick 0)
      (timer_day_night (furi_get_tick tick 0) (timer_phase (advance_frame ctx) st tick rnd).1)
      (timer_phase (advance_frame ctx) st tick rnd).2 (by rw [d1]; exact p1)
    rw [d2, d3, p2, p3, p4] at t
    unfold timer_callback
    rw [p4]
    exact t
  · exact (keeps_input_callback ctx input tick rnd).1 h
  · exact (keeps_timer_callback ctx st tick rnd).1 h
  · exact (exit_and_lanes_fields (exit_and_lanes_render_callback ctx tick)).1
  · exact ⟨congrArg Steady.should_exit (steady_update_zero_hero ctx tick rnd),
      congrArg Steady.should_exit (steady_update_flip_zip ctx tick rnd),
      congrArg Steady.should_exit (steady_update_line_car ctx tick rnd),
      congrArg Steady.should_exit (steady_update_flip_iq ctx tick rnd),
      congrArg Steady.should_exit (steady_update_tectone_sim ctx st tick rnd),
      congrArg Steady.should_exit (steady_update_space_flight ctx tick rnd)⟩
  · unfold main_loop_step
    split_ifs <;> rfl

/-! ## The lane indices of the reachable states -/

theorem reachable_lanes (t0 t1 vp : Nat) (p : GameContext × Statics)
    (h : Reachable t0 t1 vp p) : lanes_in_range p.1 := by
  induction h with
  | start =>
    exact (⟨(by decide : (0 : Int) ≤ 2 ∧ (2 : Int) ≤ 4), (by decide : (0 : Int) ≤ 0 ∧ (0 : Int) ≤ 4),
      (by decide : (0 : Int) ≤ 0 ∧ (0 : Int) ≤ 2), (by decide : (0 : Int) ≤ 0 ∧ (0 : Int) ≤ 1),
      (by decide : (0 : Int) ≤ 0 ∧ (0 : Int) ≤ 5)⟩ : lanes_in_range (initial_context t0 t1 vp))
  | main_loop p now _ ih => exact (keeps_main_loop_step p.1 now).2 ih
  | input p input tick rnd _ ih => exact (keeps_input_callback p.1 input tick rnd).2 ih
  | timer p tick rnd _ ih => exact (keeps_timer_callback p.1 p.2 tick rnd).2 ih
  | render p tick _ ih =>
    exact (keeps_of_eq (exit_and_lanes_render_callback p.1 tick)).2 ih

/-- C21. In every state reachable from the initial context by passes of the
main loop and invocations of the input, timer and render callbacks, for all
events, clock readings and outcomes of `rand()`, the lane indices are in
range, 0 <= mascot_lane <= 4 and 0 <= car_lane <= 4, and so is the cursor of
the menu, 0 <= selected_row <= 2 and 0 <= selected_side <= 1, so that the mode
2 * selected_row + selected_side it selects, and the mode `selected_game`
last selected, are among the six modes 0..5. -/
theorem lanes_stay_in_range (t0 t1 vp : Nat) (p : GameContext × Statics)
    (h : Reachable t0 t1 vp p) :
    (0 ≤ p.1.mascot_lane ∧ p.1.mascot_lane ≤ 4) ∧
    (0 ≤ p.1.car_lane ∧ p.1.car_lane ≤ 4) ∧
    (0 ≤ p.1.selected_row ∧ p.1.selected_row ≤ 2) ∧
    (0 ≤ p.1.selected_side ∧ p.1.selected_side ≤ 1) ∧
    (0 ≤ 2 * p.1.selected_row + p.1.selected_side ∧
      2 * p.1.selected_row + p.1.selected_side ≤ 5) ∧
    (0 ≤ p.1.selected_game ∧ p.1.selected_game ≤ 5) := by
  obtain ⟨h1, h2, h3, h4, h5⟩ := reachable_lanes t0 t1 vp p h
  exact ⟨h1, h2, h3, h4, ⟨by omega, by omega⟩, h5⟩

theorem reached_example_reachable : Reachable 0 0 1 reached_example :=
  Reachable.input (_, initial_statics) press_ok clock_2000 rand_zero
    (Reachable.input (_, initial_statics) short_ok clock_2000 rand_zero
      (Reachable.input (_, initial_statics) short_right clock_2000 rand_zero
        (Reachable.input (_, initial_statics) short_down clock_2000 rand_zero
          (Reachable.main_loop (initial_context 0 0 1, initial_statics) 2000 Reachable.start))))

/-- Witness of C21: the state reached through the menu into Flip IQ, with the
cursor on row 1, side 1, mode 3 selected and the player in lane 2. -/
theorem lanes_stay_in_range_witness :
    Reachable 0 0 1 reached_example ∧
    reached_example.1.state = GameState.FLIP_IQ ∧
    reached_example.1.selected_game = 3 ∧ reached_example.1.car_lane = 2 ∧
    ((0 ≤ reached_example.1.mascot_lane ∧ reached_example.1.mascot_lane ≤ 4) ∧
    (0 ≤ reached_example.1.car_lane ∧ reached_example.1.car_lane ≤ 4) ∧
    (0 ≤ reached_example.1.selected_row ∧ reached_example.1.selected_row ≤ 2) ∧
    (0 ≤ reached_example.1.selected_side ∧ reached_example.1.selected_side ≤ 1) ∧
    (0 ≤ 2 * reached_example.1.selected_row + reached_example.1.selected_side ∧
      2 * reached_example.1.selected_row + reached_example.1.selected_side ≤ 5) ∧
    (0 ≤ reached_example.1.selected_game ∧ reached_example.1.selected_game ≤ 5)) :=
  ⟨reached_example_reachable, by decide, by decide, by decide,
   lanes_stay_in_range 0 0 1 reached_example reached_example_reachable⟩

/-! ## Space Flight: the input sequences -/

theorem get1_at {n : Nat} (a : Fin n → Int) (k : Nat) (hk : k < n) :
    get1 a (k : Int) = a ⟨k, hk⟩ := by
  unfold get1
  have h : 0 ≤ (k : Int) ∧ (k : Int).toNat < n := by omega
  rw [dif_pos h]
  congr 1

theorem get1_bool_at {n : Nat} (a : Fin n → Bool) (k : Nat) (hk : k < n) :
    get1 a (k : Int) = a ⟨k, hk⟩ := by
  unfold get1
  have h : 0 ≤ (k : Int) ∧ (k : Int).toNat < n := by omega
  rw [dif_pos h]
  congr 1

theorem held_direction_eq (ctx : GameContext) :
    held_direction ctx =
      appended_direction (ctx.is_holding 0) (ctx.is_holding 4) (ctx.is_holding 1)
        (ctx.is_holding 3) (ctx.is_holding 2) := by
  have h0 : get1 ctx.is_holding 0 = ctx.is_holding 0 := get1_bool_at ctx.is_holding 0 (by decide)
  have h1 : get1 ctx.is_holding 1 = ctx.is_holding 1 := get1_bool_at ctx.is_holding 1 (by decide)
  have h2 : get1 ctx.is_holding 2 = ctx.is_holding 2 := get1_bool_at ctx.is_holding 2 (by decide)
  have h3 : get1 ctx.is_holding 3 = ctx.is_holding 3 := get1_bool_at ctx.is_holding 3 (by decide)
  have h4 : get1 ctx.is_holding 4 = ctx.is_holding 4 := get1_bool_at ctx.is_holding 4 (by decide)
  unfold held_direction appended_direction
  rw [h0, h1, h2, h3, h4]

/-- The history after lines 1224-1230: shifted left by one, the held
direction appended. -/
theorem space_flight_record_history (ctx : GameContext) :
    (space_flight_record ctx).recent_inputs 0 = ctx.recent_inputs 1 ∧
    (space_flight_record ctx).recent_inputs 1 = ctx.recent_inputs 2 ∧
    (space_flight_record ctx).recent_inputs 2 = ctx.recent_inputs 3 ∧
    (space_flight_record ctx).recent_inputs 3 = ctx.recent_inputs 4 ∧
    (space_flight_record ctx).recent_inputs 4 = held_direction ctx := by
  have e : (for_loop 4 (fun i c =>
      { c with recent_inputs := set1 c.recent_inputs i (get1 c.recent_inputs (i + 1)) })
      ctx).recent_inputs =
      fun k => if k.val < 4 then get1 ctx.recent_inputs ((k.val : Int) + 1)
        else ctx.recent_inputs k := by
    funext k
    fin_cases k <;> rfl
  have f : (for_loop 4 (fun i c =>
      { c with recent_inputs := set1 c.recent_inputs i (get1 c.recent_inputs (i + 1)) })
      ctx).is_holding = ctx.is_holding := rfl
  unfold space_flight_record
  generalize for_loop 4 (fun i c =>
      { c with recent_inputs := set1 c.recent_inputs i (get1 c.recent_inputs (i + 1)) })
      ctx = d at e f
  dsimp only
  have hd : held_direction { d with recent_inputs := set1 d.recent_inputs 4 (-1) } =
      held_direction ctx := by
    unfold held_direction
    show (if get1 d.is_holding 0 = true then _ else _) = _
    rw [f]
  rw [hd]
  have g1 : get1 ctx.recent_inputs 1 = ctx.recent_inputs 1 := get1_at ctx.recent_inputs 1 (by decide)
  have g2 : get1 ctx.recent_inputs 2 = ctx.recent_inputs 2 := get1_at ctx.recent_inputs 2 (by decide)
  have g3 : get1 ctx.recent_inputs 3 = ctx.recent_inputs 3 := get1_at ctx.recent_inputs 3 (by decide)
  have g4 : get1 ctx.recent_inputs 4 = ctx.recent_inputs 4 := get1_at ctx.recent_inputs 4 (by decide)
  have v0 : d.recent_inputs 0 = ctx.recent_inputs 1 := by rw [e]; exact g1
  have v1 : d.recent_inputs 1 = ctx.recent_inputs 2 := by rw [e]; exact g2
  have v2 : d.recent_inputs 2 = ctx.recent_inputs 3 := by rw [e]; exact g3
  have v3 : d.recent_inputs 3 = ctx.recent_inputs 4 := by rw [e]; exact g4
  by_cases hm : held_direction ctx = -1
  · rw [if_pos hm, hm]
    exact ⟨v0, v1, v2, v3, rfl⟩
  · rw [if_neg hm]
    exact ⟨v0, v1, v2, v3, rfl⟩

theorem history_is_iff (ctx : GameContext) (a b c d e : Int) :
    history_is ctx a b c d e ↔ history ctx = [a, b, c, d, e] := by
  have g0 : get1 ctx.recent_inputs 0 = ctx.recent_inputs 0 := get1_at ctx.recent_inputs 0 (by decide)
  have g1 : get1 ctx.recent_inputs 1 = ctx.recent_inputs 1 := get1_at ctx.recent_inputs 1 (by decide)
  have g2 : get1 ctx.recent_inputs 2 = ctx.recent_inputs 2 := get1_at ctx.recent_inputs 2 (by decide)
  have g3 : get1 ctx.recent_inputs 3 = ctx.recent_inputs 3 := get1_at ctx.recent_inputs 3 (by decide)
  have g4 : get1 ctx.recent_inputs 4 = ctx.recent_inputs 4 := get1_at ctx.recent_inputs 4 (by decide)
  unfold history_is history
  rw [g0, g1, g2, g3, g4]
  simp

theorem space_flight_record_rest (ctx : GameContext) :
    (space_flight_record ctx).screen_type = ctx.screen_type ∧
    (space_flight_record ctx).last_sequence_time = ctx.last_sequence_time := by
  unfold space_flight_record
  dsimp only
  split_ifs <;> exact ⟨rfl, rfl⟩

/-- The four sequences (lines 1232-1256) on a run whose history is set. -/
theorem space_flight_match_fields (tick : Nat → Nat) (s : Run) :
    (space_flight_match tick s).ctx.recent_inputs = s.ctx.recent_inputs ∧
    (history s.ctx = [0, 0, 0, 0, 2] ∨ history s.ctx = [0, 4, 4, 4, 2] →
      (space_flight_match tick s).ctx.screen_type = 5 ∧
      (space_flight_match tick s).ctx.last_sequence_time = furi_get_tick tick s.ticks) ∧
    (history s.ctx = [1, 1, 1, 1, 1] ∨ history s.ctx = [3, 3, 3, 3, 3] →
      (space_flight_match tick s).ctx.screen_type = 6 ∧
      (space_flight_match tick s).ctx.last_sequence_time = furi_get_tick tick s.ticks) ∧
    (history s.ctx ≠ [0, 0, 0, 0, 2] → history s.ctx ≠ [0, 4, 4, 4, 2] →
      history s.ctx ≠ [1, 1, 1, 1, 1] → history s.ctx ≠ [3, 3, 3, 3, 3] →
      space_flight_match tick s = s) := by
  unfold space_flight_match
  by_cases k1 : history_is s.ctx 0 0 0 0 2
  · have h1 := (history_is_iff s.ctx 0 0 0 0 2).1 k1
    rw [if_pos k1]
    refine ⟨rfl, fun _ => ⟨rfl, rfl⟩, fun h => ?_, fun n => absurd h1 n⟩
    rw [h1] at h
    exact absurd h (by decide)
  · have h1 : history s.ctx ≠ [0, 0, 0, 0, 2] := fun h => k1 ((history_is_iff s.ctx 0 0 0 0 2).2 h)
    rw [if_neg k1]
    by_cases k2 : history_is s.ctx 0 4 4 4 2
    · have h2 := (history_is_iff s.ctx 0 4 4 4 2).1 k2
      rw [if_pos k2]
      refine ⟨rfl, fun _ => ⟨rfl, rfl⟩, fun h => ?_, fun _ n => absurd h2 n⟩
      rw [h2] at h
      exact absurd h (by decide)
    · have h2 : history s.ctx ≠ [0, 4, 4, 4, 2] :=
        fun h => k2 ((history_is_iff s.ctx 0 4 4 4 2).2 h)
      rw [if_neg k2]
      by_cases k3 : history_is s.ctx 1 1 1 1 1
      · have h3 := (history_is_iff s.ctx 1 1 1 1 1).1 k3
        rw [if_pos k3]
        exact ⟨rfl, fun h => absurd h (by rw [h3]; decide), fun _ => ⟨rfl, rfl⟩,
          fun _ _ n => absurd h3 n⟩
      · have h3 : history s.ctx ≠ [1, 1, 1, 1, 1] :=
          fun h => k3 ((history_is_iff s.ctx 1 1 1 1 1).2 h)
        rw [if_neg k3]
        by_cases k4 : history_is s.ctx 3 3 3 3 3
        · have h4 := (history_is_iff s.ctx 3 3 3 3 3).1 k4
          rw [if_pos k4]
          exact ⟨rfl, fun h => absurd h (by rw [h4]; decide), fun _ => ⟨rfl, rfl⟩,
            fun _ _ _ n => absurd h4 n⟩
        · have h4 : history s.ctx ≠ [3, 3, 3, 3, 3] :=
            fun h => k4 ((history_is_iff s.ctx 3 3 3 3 3).2 h)
          rw [if_neg k4]
          exact ⟨rfl, fun h => absurd h (not_or.mpr ⟨h1, h2⟩),
            fun h => absurd h (not_or.mpr ⟨h3, h4⟩), fun _ _ _ _ => rfl⟩

/-- The sequence Up, Up, Up, Up, Ok, evaluated through the whole update: the
view becomes 5 and the time of the sequence is the reading of the clock. -/
theorem space_flight_loop_example :
    history (update_space_flight sequence_example clock_2000 rand_fifty) = [0, 0, 0, 0, 2] ∧
    (update_space_flight sequence_example clock_2000 rand_fifty).screen_type = 5 ∧
    (update_space_flight sequence_example clock_2000 rand_fifty).last_sequence_time = 2000 := by
  decide

/-! ## The spawn steps of Zero Hero and Flip Zip -/

theorem break_loop_from_none {σ : Type} (body : Nat → σ → σ × Bool) (s : σ) :
    ∀ n i, (∀ k, i ≤ k → k < i + n → body k s = (s, false)) →
      break_loop_from i n body s = s := by
  intro n
  induction n with
  | zero => intro i _; rfl
  | succ n ih =>
    intro i h
    unfold break_loop_from
    rw [h i (le_refl _) (by omega)]
    exact ih (i + 1) (fun k h1 h2 => h k (by omega) (by omega))

theorem break_loop_from_at {σ : Type} (body : Nat → σ → σ × Bool) (s : σ) :
    ∀ d n i, d < n → (∀ k, i ≤ k → k < i + d → body k s = (s, false)) →
      (body (i + d) s).2 = true → break_loop_from i n body s = (body (i + d) s).1 := by
  intro d
  induction d with
  | zero =>
    intro n i hd _ hat
    cases n with
    | zero => exact absurd hd (Nat.lt_irrefl 0)
    | succ n =>
      unfold break_loop_from
      rw [Nat.add_zero] at hat
      rw [if_pos hat]
      rfl
  | succ d ih =>
    intro n i hd hb hat
    cases n with
    | zero => exact absurd hd (Nat.not_lt_zero _)
    | succ n =>
      unfold break_loop_from
      rw [hb i (le_refl _) (by omega)]
      have e : i + (d + 1) = i + 1 + d := by omega
      rw [e] at hat ⊢
      exact ih n (i + 1) (by omega) (fun k h1 h2 => hb k (by omega) (by omega)) hat

/-- A loop with `break` whose body does nothing and goes on in every pass
leaves the state as it is. -/
theorem for_loop_break_none {σ : Type} (n : Nat) (body : Nat → σ → σ × Bool) (s : σ)
    (h : ∀ k, k < n → body k s = (s, false)) : for_loop_break n body s = s :=
  break_loop_from_none body s n 0 (fun k _ hk => h k (by omega))

/-- A loop with `break` whose body does nothing before pass `j` and breaks in
pass `j` ends with the state of that pass. -/
theorem for_loop_break_at {σ : Type} (n : Nat) (body : Nat → σ → σ × Bool) (s : σ) (j : Nat)
    (hj : j < n) (hb : ∀ k, k < j → body k s = (s, false)) (hat : (body j s).2 = true) :
    for_loop_break n body s = (body j s).1 := by
  have h := break_loop_from_at body s j n 0 hj (fun k _ hk => hb k (by omega))
    (by rw [Nat.zero_add]; exact hat)
  rw [Nat.zero_add] at h
  exact h

/-- C33. The spawn step of `update_zero_hero` (lines 659-667) and of
`update_flip_zip` (lines 707-717), on any run: off the beat, and on the beat
when all 10 slots of the lane `rand() % 5` hold a position other than 0, the
step writes nothing, the context being the one the test's `ai_beat_counter++`
alone leaves; on the beat with `j` the lowest index whose position in that
lane is 0, the step writes that slot only, setting its position to 7 (and, in
Flip Zip, its type to `rand() % 3 + 1`), and nothing else. -/
theorem spawn_skips_when_full (rnd : Nat → Nat) (s : Run) :
    (s.ctx.ai_beat_counter % 10 ≠ 0 → (zero_hero_spawn rnd s).ctx = beat s.ctx) ∧
    (s.ctx.ai_beat_counter % 10 = 0 →
      (∀ k : Nat, k < 10 → get2 s.ctx.key_positions (Int.tmod (rnd s.rands) 5) k ≠ 0) →
      (zero_hero_spawn rnd s).ctx = beat s.ctx) ∧
    (s.ctx.ai_beat_counter % 10 = 0 →
      ∀ j : Nat, j < 10 → get2 s.ctx.key_positions (Int.tmod (rnd s.rands) 5) j = 0 →
      (∀ k : Nat, k < j → get2 s.ctx.key_positions (Int.tmod (rnd s.rands) 5) k ≠ 0) →
      (zero_hero_spawn rnd s).ctx =
        { beat s.ctx with
          key_positions := set2 s.ctx.key_positions (Int.tmod (rnd s.rands) 5) j 7 }) ∧
    (0 ≤ Int.tmod (rnd s.rands) 5 ∧ Int.tmod (rnd s.rands) 5 ≤ 4) ∧
    (s.ctx.ai_beat_counter % 15 ≠ 0 → (flip_zip_spawn rnd s).ctx = beat s.ctx) ∧
    (s.ctx.ai_beat_counter % 15 = 0 →
      (∀ k : Nat, k < 10 → get2 s.ctx.obstacle_positions (Int.tmod (rnd s.rands) 5) k ≠ 0) →
      (flip_zip_spawn rnd s).ctx = beat s.ctx) ∧
    (s.ctx.ai_beat_counter % 15 = 0 →
      ∀ j : Nat, j < 10 → get2 s.ctx.obstacle_positions (Int.tmod (rnd s.rands) 5) j = 0 →
      (∀ k : Nat, k < j → get2 s.ctx.obstacle_positions (Int.tmod (rnd s.rands) 5) k ≠ 0) →
      (flip_zip_spawn rnd s).ctx =
        { beat s.ctx with
          obstacle_positions := set2 s.ctx.obstacle_positions (Int.tmod (rnd s.rands) 5) j 7
          obstacles := set2 s.ctx.obstacles (Int.tmod (rnd s.rands) 5) j
            (Int.tmod (rnd (s.rands + 1)) 3 + 1) }) := by
  have hlane : 0 ≤ Int.tmod (rnd s.rands) 5 ∧ Int.tmod (rnd s.rands) 5 ≤ 4 := by
    have h : Int.tmod (rnd s.rands : Int) 5 = (rnd s.rands : Int) % 5 :=
      Int.tmod_eq_emod (Int.ofNat_nonneg _) (by decide)
    rw [h]
    omega
  have ez : ∀ k : Nat, get2 (Run.map beat s).drawn.ctx.key_positions
      (Int.tmod ((Run.map beat s).rand rnd) 5) k =
      get2 s.ctx.key_positions (Int.tmod (rnd s.rands) 5) k := fun _ => rfl
  have ef : ∀ k : Nat, get2 (Run.map beat s).drawn.drawn.ctx.obstacle_positions
      (Int.tmod ((Run.map beat s).rand rnd) 5) k =
      get2 s.ctx.obstacle_positions (Int.tmod (rnd s.rands) 5) k := fun _ => rfl
  refine ⟨fun hb => ?_, fun hb hfull => ?_, fun hb j hj h0 hlow => ?_, hlane,
    fun hb => ?_, fun hb hfull => ?_, fun hb j hj h0 hlow => ?_⟩
  · unfold zero_hero_spawn
    rw [if_neg hb]
    rfl
  · unfold zero_hero_spawn zero_hero_spawn_lane
    rw [if_pos hb, for_loop_break_none]
    · rfl
    · intro k hk
      unfold zero_hero_spawn_slot
      rw [if_neg (by rw [ez]; exact hfull k hk)]
  · unfold zero_hero_spawn zero_hero_spawn_lane
    rw [if_pos hb, for_loop_break_at 10 _ _ j hj]
    · unfold zero_hero_spawn_slot
      rw [if_pos (by rw [ez]; exact h0)]
      rfl
    · intro k hk
      unfold zero_hero_spawn_slot
      rw [if_neg (by rw [ez]; exact hlow k hk)]
    · unfold zero_hero_spawn_slot
      rw [if_pos (by rw [ez]; exact h0)]
  · unfold flip_zip_spawn
    rw [if_neg hb]
    rfl
  · unfold flip_zip_spawn flip_zip_spawn_lane
    rw [if_pos hb, for_loop_break_none]
    · rfl
    · intro k hk
      unfold flip_zip_spawn_slot
      rw [if_neg (by rw [ef]; exact hfull k hk)]
  · unfold flip_zip_spawn flip_zip_spawn_lane
    rw [if_pos hb, for_loop_break_at 10 _ _ j hj]
    · unfold flip_zip_spawn_slot
      rw [if_pos (by rw [ef]; exact h0)]
      rfl
    · intro k hk
      unfold flip_zip_spawn_slot
      rw [if_neg (by rw [ef]; exact hlow k hk)]
    · unfold flip_zip_spawn_slot
      rw [if_pos (by rw [ef]; exact h0)]

/-! ## Remainders of `rand()` -/

theorem tmod_range (r : Nat) (m : Int) (hm : 0 < m) :
    0 ≤ Int.tmod (r : Int) m ∧ Int.tmod (r : Int) m < m := by
  have h : Int.tmod (r : Int) m = (r : Int) % m :=
    Int.tmod_eq_emod (Int.ofNat_nonneg r) (le_of_lt hm)
  rw [h]
  exact ⟨Int.emod_nonneg _ (ne_of_gt hm), Int.emod_lt_of_pos _ hm⟩

/-! ## The fields of the board -/

theorem board_fields {c r : GameContext} (h : board r = board c) :
    r.streak = c.streak ∧ r.ball_count = c.ball_count ∧ r.active_lanes = c.active_lanes ∧
    r.ball_width = c.ball_width ∧ r.key_positions = c.key_positions ∧
    r.key_columns = c.key_columns ∧ r.track_positions = c.track_positions ∧
    r.ship_health = c.ship_health ∧ r.ship_armor = c.ship_armor ∧ r.objects = c.objects ∧
    r.recent_inputs = c.recent_inputs := by
  unfold board at h
  simp only [Prod.mk.injEq] at h
  exact h

/-! ## The entry into a game -/

/-- An event that takes the application out of Rotate is a press that ran the set-up of the
selected game on the context after bookkeeping. -/
theorem rotate_entry (ctx : GameContext) (input : InputEvent) (tick rnd : Nat → Nat)
    (hs : ctx.state = GameState.ROTATE)
    (he : (input_callback ctx input tick rnd).state ≠ GameState.ROTATE) :
    input_callback ctx input tick rnd =
      rotate_init_game
        (rotate_enter (record_short_back (input_bookkeeping ctx (furi_get_tick tick 0)) input
          (furi_get_tick tick 0)) (furi_get_tick tick 0)) (furi_get_tick tick 0) rnd := by
  have hs1 : (record_short_back (input_bookkeeping ctx (furi_get_tick tick 0)) input
      (furi_get_tick tick 0)).state = GameState.ROTATE := by
    rw [prelude_frame]; exact hs
  by_cases hd : input.key = InputKey.Back ∧
      sub32 (furi_get_tick tick 0) ctx.last_back_press_time < BACK_BUTTON_COOLDOWN
  · exfalso
    apply he
    rw [input_callback_debounced ctx input tick rnd hd.1 hd.2, input_bookkeeping_state]
    exact hs
  · have e := input_callback_accepted ctx input tick rnd hd
    have e2 : input_dispatch
        (record_short_back (input_bookkeeping ctx (furi_get_tick tick 0)) input
          (furi_get_tick tick 0)) input (furi_get_tick tick 0) (furi_get_tick tick 1) rnd =
        input_rotate (record_short_back (input_bookkeeping ctx (furi_get_tick tick 0)) input
          (furi_get_tick tick 0)) input (furi_get_tick tick 0) rnd := by
      unfold input_dispatch
      rw [hs1]
    rw [e, e2] at he ⊢
    unfold input_rotate at he ⊢
    by_cases hp : is_press input = true
    · rw [if_pos hp]
    · rw [if_neg hp] at he
      exact absurd hs1 he

/-! ## Frame lemmas for the board, the speed, the hold flags, the view and the track -/

@[simp] theorem tracks_notify (tick : Nat → Nat) (text : String) (s : Run) :
    tracks (Run.notify tick text s).ctx = tracks s.ctx := rfl

@[simp] theorem tracks_stamped (ctx : GameContext) (tick : Nat → Nat) :
    tracks (stamped ctx tick).ctx = tracks ctx := rfl

theorem for_loop_tracks (body : Nat → Run → Run)
    (h : ∀ i s, tracks (body i s).ctx = tracks s.ctx) (n : Nat) (s : Run) :
    tracks (for_loop n body s).ctx = tracks s.ctx :=
  for_loop_inv (fun t : Run => tracks t.ctx = tracks s.ctx) body
    (fun i t ht => (h i t).trans ht) n s rfl

theorem for_loop_tracks_ctx (body : Nat → GameContext → GameContext)
    (h : ∀ i c, tracks (body i c) = tracks c) (n : Nat) (c : GameContext) :
    tracks (for_loop n body c) = tracks c :=
  for_loop_inv (fun t : GameContext => tracks t = tracks c) body
    (fun i t ht => (h i t).trans ht) n c rfl

theorem for_loop_break_tracks (body : Nat → Run → Run × Bool)
    (h : ∀ i s, tracks (body i s).1.ctx = tracks s.ctx) (n : Nat) (s : Run) :
    tracks (for_loop_break n body s).ctx = tracks s.ctx :=
  for_loop_break_inv (fun t : Run => tracks t.ctx = tracks s.ctx) body
    (fun i t ht => (h i t).trans ht) n s rfl

theorem for_loop_break_tracks_ctx (body : Nat → GameContext → GameContext × Bool)
    (h : ∀ i c, tracks (body i c).1 = tracks c) (n : Nat) (c : GameContext) :
    tracks (for_loop_break n body c) = tracks c :=
  for_loop_break_inv (fun t : GameContext => tracks t = tracks c) body
    (fun i t ht => (h i t).trans ht) n c rfl

@[simp] theorem tracks_speed_nudge_up (c : GameContext) :
    tracks (speed_nudge_up c) = tracks c := rfl

@[simp] theorem tracks_speed_nudge_down (c : GameContext) :
    tracks (speed_nudge_down c) = tracks c := rfl

@[simp] theorem tracks_stamp_again (tick : Nat → Nat) (s : Run) :
    tracks (stamp_again tick s).ctx = tracks s.ctx := rfl

@[simp] theorem tracks_line_car_speed_adjust (tick : Nat → Nat) (s : Run) :
    tracks (line_car_speed_adjust tick s).ctx = tracks s.ctx := by
  unfold line_car_speed_adjust; split_ifs <;> simp

@[simp] theorem tracks_line_car_bank (c : GameContext) :
    tracks (line_car_bank c) = tracks c := by
  unfold line_car_bank; split_ifs <;> rfl

@[simp] theorem tracks_line_car_reset_points (c : GameContext) :
    tracks (line_car_reset_points c) = tracks c := rfl

@[simp] theorem tracks_line_car_drift_check (tick : Nat → Nat) (s : Run) :
    tracks (line_car_drift_check tick s).ctx = tracks s.ctx := by
  unfold line_car_drift_check line_car_drift_end; split_ifs <;> simp

@[simp] theorem tracks_line_car_bottom (c : GameContext) :
    tracks (line_car_bottom c) = tracks c := by
  unfold line_car_bottom
  rw [for_loop_break_tracks_ctx _ (fun i t => by
    unfold line_car_find_lane_step; split_ifs <;> rfl)]
  rfl

theorem tracks_line_car_reposition_lane (rnd : Nat → Nat) (i : Nat) (s : Run) :
    tracks (line_car_reposition_lane rnd i s).1.ctx = tracks s.ctx := by
  unfold line_car_reposition_lane
  exact for_loop_break_tracks _ (fun j t => by
    unfold line_car_reposition_slot; split_ifs <;> rfl) _ s

@[simp] theorem tracks_line_car_off_track (tick rnd : Nat → Nat) (s : Run) :
    tracks (line_car_off_track tick rnd s).ctx = tracks s.ctx := by
  unfold line_car_off_track; split_ifs
  · rw [for_loop_break_tracks _ (fun i t => tracks_line_car_reposition_lane rnd i t)]
    rfl
  · rfl

@[simp] theorem tracks_line_car_fallen (tick rnd : Nat → Nat) (s : Run) :
    tracks (line_car_fallen tick rnd s).ctx = tracks s.ctx := by
  unfold line_car_fallen; split_ifs <;> simp

@[simp] theorem tracks_line_car_gravity (tick rnd : Nat → Nat) (m : Int) (s : Run) :
    tracks (line_car_gravity tick rnd m s).ctx = tracks s.ctx := by
  unfold line_car_gravity; split_ifs
  · rfl
  · rw [tracks_line_car_fallen]; rfl

@[simp] theorem tracks_line_car_drift_slowdown (c : GameContext) :
    tracks (line_car_drift_slowdown c) = tracks c := by
  unfold line_car_drift_slowdown; split_ifs <;> simp

theorem board_input_bookkeeping (ctx : GameContext) (now : Nat) :
    board (input_bookkeeping ctx now) = board ctx := by
  unfold input_bookkeeping
  dsimp only
  split_ifs <;> rfl

theorem board_record_short_back (ctx : GameContext) (input : InputEvent) (now : Nat) :
    board (record_short_back ctx input now) = board ctx := by
  unfold record_short_back
  split_ifs <;> rfl

theorem board_tap_cadence (ctx : GameContext) (now : Nat) :
    board (tap_cadence ctx now) = board ctx := by
  unfold tap_cadence
  dsimp only
  split_ifs <;> rfl

theorem board_back_hold_release (ctx : GameContext) (now : Nat) :
    board (back_hold_release ctx now) = board ctx := by
  unfold back_hold_release toggle_if_held
  split_ifs <;> rfl

theorem board_game_state_back (ctx : GameContext) (input : InputEvent) (now : Nat)
    (other : GameContext) (h : board other = board ctx) :
    board (game_state_back ctx input now other) = board ctx := by
  unfold game_state_back
  split_ifs
  · rfl
  · rfl
  · rfl
  · exact h

theorem board_lane_key_hold (input : InputEvent) (ctx : GameContext) :
    board (lane_key_hold input ctx) = board ctx := by
  unfold lane_key_hold
  dsimp only
  split_ifs <;> rfl

theorem board_line_car_after_lane_change (ctx : GameContext) (now now2 : Nat) (a b : Int) :
    board (line_car_after_lane_change ctx now now2 a b) = board ctx := by
  unfold line_car_after_lane_change line_car_point_notification
  dsimp only
  split_ifs <;> rfl

theorem board_line_car_left (input : InputEvent) (now now2 : Nat) (ctx : GameContext) :
    board (line_car_left input now now2 ctx) = board ctx := by
  unfold line_car_left
  dsimp only
  split_ifs
  · rw [board_line_car_after_lane_change, board_tap_cadence]
    rfl
  · rfl

theorem board_line_car_right (input : InputEvent) (now now2 : Nat) (ctx : GameContext) :
    board (line_car_right input now now2 ctx) = board ctx := by
  unfold line_car_right
  dsimp only
  split_ifs
  · rw [board_line_car_after_lane_change, board_tap_cadence]
    rfl
  · rfl

theorem board_line_car_up (input : InputEvent) (ctx : GameContext) :
    board (line_car_up input ctx) = board ctx := by
  unfold line_car_up
  split_ifs <;> rfl

theorem board_line_car_brake (input : InputEvent) (ctx : GameContext) :
    board (line_car_brake input ctx) = board ctx := by
  unfold line_car_brake
  split_ifs <;> rfl

theorem board_line_car_keys (ctx : GameContext) (input : InputEvent) (now now2 : Nat) :
    board (line_car_keys ctx input now now2) = board ctx := by
  unfold line_car_keys
  rw [board_line_car_brake, board_line_car_up, board_line_car_right, board_line_car_left,
    board_lane_key_hold]

theorem board_input_line_car (ctx : GameContext) (input : InputEvent) (now now2 : Nat) :
    board (input_line_car ctx input now now2) = board ctx :=
  board_game_state_back ctx input now _ (board_line_car_keys ctx input now now2)

theorem board_flip_iq_left (input : InputEvent) (now : Nat) (ctx : GameContext) :
    board (flip_iq_left input now ctx) = board ctx := by
  unfold flip_iq_left
  split_ifs
  · rw [board_tap_cadence]
    rfl
  · rfl

theorem board_flip_iq_right (input : InputEvent) (now : Nat) (ctx : GameContext) :
    board (flip_iq_right input now ctx) = board ctx := by
  unfold flip_iq_right
  split_ifs
  · rw [board_tap_cadence]
    rfl
  · rfl

theorem board_flip_iq_up (input : InputEvent) (ctx : GameContext) :
    board (flip_iq_up input ctx) = board ctx := by
  unfold flip_iq_up
  split_ifs <;> rfl

theorem board_flip_iq_down (input : InputEvent) (ctx : GameContext) :
    board (flip_iq_down input ctx) = board ctx := by
  unfold flip_iq_down
  split_ifs <;> rfl

theorem board_flip_iq_keys (ctx : GameContext) (input : InputEvent) (now : Nat) :
    board (flip_iq_keys ctx input now) = board ctx := by
  unfold flip_iq_keys
  rw [board_flip_iq_down, board_flip_iq_up, board_flip_iq_right, board_flip_iq_left,
    board_lane_key_hold]

theorem board_input_flip_iq (ctx : GameContext) (input : InputEvent) (now : Nat) :
    board (input_flip_iq ctx input now) = board ctx :=
  board_game_state_back ctx input now _ (board_flip_iq_keys ctx input now)

theorem board_space_flight_keys (ctx : GameContext) (input : InputEvent) :
    board (space_flight_keys ctx input) = board ctx := by
  unfold space_flight_keys
  split_ifs <;> rfl

theorem board_input_space_flight (ctx : GameContext) (input : InputEvent) (now : Nat) :
    board (input_space_flight ctx input now) = board ctx :=
  board_game_state_back ctx input now _ (board_space_flight_keys ctx input)

theorem board_input_pause (ctx : GameContext) (input : InputEvent) (now : Nat) :
    board (input_pause ctx input now) = board ctx := by
  unfold input_pause pause_resume pause_back
  split_ifs <;> first | rfl | exact board_back_hold_release ctx now

theorem board_input_callback_of (ctx : GameContext) (input : InputEvent) (tick rnd : Nat → Nat)
    (h : ∀ c : GameContext, c.state = ctx.state →
      board (input_dispatch c input (furi_get_tick tick 0) (furi_get_tick tick 1) rnd) = board c) :
    board (input_callback ctx input tick rnd) = board ctx := by
  have hs : (record_short_back (input_bookkeeping ctx (furi_get_tick tick 0)) input
      (furi_get_tick tick 0)).state = ctx.state := by
    rw [prelude_frame]
  unfold input_callback
  dsimp only
  split_ifs
  · exact board_input_bookkeeping ctx _
  · rw [h _ hs, board_record_short_back, board_input_bookkeeping]

theorem board_main_loop_step (ctx : GameContext) (now : Nat) :
    board (main_loop_step ctx now) = board ctx := by
  unfold main_loop_step
  split_ifs <;> rfl

theorem board_draw_notification (ctx : GameContext) (now : Nat) :
    board (draw_notification ctx now) = board ctx := by
  unfold draw_notification
  dsimp only
  split_ifs <;> rfl

theorem board_render_callback (ctx : GameContext) (tick : Nat → Nat) :
    board (render_callback ctx tick) = board ctx := by
  have hr : board (draw_rotate_screen ctx (furi_get_tick tick 0)) = board ctx := by
    unfold draw_rotate_screen
    dsimp only
    split_ifs <;> rfl
  have hl : board (render_line_car ctx tick) = board ctx := by
    unfold render_line_car lazy_start_time
    dsimp only
    split_ifs
    · rfl
    · exact board_draw_notification _ _
    · rfl
    · exact board_draw_notification _ _
  have hs : board (render_space_flight ctx tick) = board ctx := by
    unfold render_space_flight lazy_start_time
    dsimp only
    split_ifs
    · rfl
    · exact board_draw_notification _ _
    · rfl
    · exact board_draw_notification _ _
  have hq : board (render_flip_iq ctx tick) = board ctx := by
    unfold render_flip_iq lazy_start_time
    dsimp only
    split_ifs <;> rfl
  unfold render_callback
  split_ifs
  · rfl
  · cases hst : ctx.state with
    | LOADING => rfl
    | TITLE => rfl
    | ROTATE => exact hr
    | CREDITS => rfl
    | PAUSE => rfl
    | ZERO_HERO => exact board_draw_notification _ _
    | FLIP_ZIP => exact board_draw_notification _ _
    | LINE_CAR => exact hl
    | FLIP_IQ => exact hq
    | TECTONE_SIM => exact board_draw_notification _ _
    | SPACE_FLIGHT => exact hs

theorem board_notification_decay (now : Nat) (ctx : GameContext) :
    board (notification_decay now ctx) = board ctx := by
  unfold notification_decay notification_scroll
  split_ifs <;> rfl

theorem board_timer_tail (now : Nat) (p : GameContext × Statics) :
    board (timer_credits now (timer_day_night now p.1, p.2)).1 = board p.1 := by
  have h1 : board (timer_day_night now p.1) = board p.1 := by
    unfold timer_day_night
    split_ifs <;> rfl
  rw [← h1]
  unfold timer_credits credits_over credits_scroll
  dsimp only
  split_ifs <;> rfl

theorem board_timer_callback (ctx : GameContext) (st : Statics) (tick rnd : Nat → Nat) :
    board (timer_callback ctx st tick rnd).1 = board ctx ∨
    board (timer_callback ctx st tick rnd).1 =
      board (timer_update (advance_frame ctx) st (fun k => tick (k + 1)) rnd).1 := by
  have h2 := board_timer_tail (furi_get_tick tick 0) (timer_phase (advance_frame ctx) st tick rnd)
  have h3 : board (timer_callback ctx st tick rnd).1 =
      board (timer_phase (advance_frame ctx) st tick rnd).1 := h2
  rw [h3]
  unfold timer_phase
  split_ifs
  · exact Or.inl rfl
  · exact Or.inl (board_notification_decay _ _)
  · exact Or.inr rfl
  · exact Or.inl rfl

theorem start_time_input_bookkeeping (ctx : GameContext) (now : Nat) :
    start_time (input_bookkeeping ctx now) = start_time ctx := by
  unfold input_bookkeeping
  dsimp only
  split_ifs <;> rfl

theorem start_time_record_short_back (ctx : GameContext) (input : InputEvent) (now : Nat) :
    start_time (record_short_back ctx input now) = start_time ctx := by
  unfold record_short_back
  split_ifs <;> rfl

theorem start_time_tap_cadence (ctx : GameContext) (now : Nat) :
    start_time (tap_cadence ctx now) = start_time ctx := by
  unfold tap_cadence
  dsimp only
  split_ifs <;> rfl

theorem start_time_back_hold_release (ctx : GameContext) (now : Nat) :
    start_time (back_hold_release ctx now) = start_time ctx := by
  unfold back_hold_release toggle_if_held
  split_ifs <;> rfl

theorem start_time_game_state_back (ctx : GameContext) (input : InputEvent) (now : Nat)
    (other : GameContext) (h : start_time other = start_time ctx) :
    start_time (game_state_back ctx input now other) = start_time ctx := by
  unfold game_state_back
  split_ifs
  · rfl
  · rfl
  · rfl
  · exact h

theorem start_time_lane_key_hold (input : InputEvent) (ctx : GameContext) :
    start_time (lane_key_hold input ctx) = start_time ctx := by
  unfold lane_key_hold
  dsimp only
  split_ifs <;> rfl

theorem start_time_flip_iq_left (input : InputEvent) (now : Nat) (ctx : GameContext) :
    start_time (flip_iq_left input now ctx) = start_time ctx := by
  unfold flip_iq_left
  split_ifs
  · rw [start_time_tap_cadence]
    rfl
  · rfl

theorem start_time_flip_iq_right (input : InputEvent) (now : Nat) (ctx : GameContext) :
    start_time (flip_iq_right input now ctx) = start_time ctx := by
  unfold flip_iq_right
  split_ifs
  · rw [start_time_tap_cadence]
    rfl
  · rfl

theorem start_time_flip_iq_up (input : InputEvent) (ctx : GameContext) :
    start_time (flip_iq_up input ctx) = start_time ctx := by
  unfold flip_iq_up
  split_ifs <;> rfl

theorem start_time_flip_iq_down (input : InputEvent) (ctx : GameContext) :
    start_time (flip_iq_down input ctx) = start_time ctx := by
  unfold flip_iq_down
  split_ifs <;> rfl

theorem start_time_flip_iq_keys (ctx : GameContext) (input : InputEvent) (now : Nat) :
    start_time (flip_iq_keys ctx input now) = start_time ctx := by
  unfold flip_iq_keys
  rw [start_time_flip_iq_down, start_time_flip_iq_up, start_time_flip_iq_right, start_time_flip_iq_left,
    start_time_lane_key_hold]

theorem start_time_input_flip_iq (ctx : GameContext) (input : InputEvent) (now : Nat) :
    start_time (input_flip_iq ctx input now) = start_time ctx :=
  start_time_game_state_back ctx input now _ (start_time_flip_iq_keys ctx input now)

theorem start_time_input_pause (ctx : GameContext) (input : InputEvent) (now : Nat) :
    start_time (input_pause ctx input now) = start_time ctx := by
  unfold input_pause pause_resume pause_back
  split_ifs <;> first | rfl | exact start_time_back_hold_release ctx now

theorem start_time_input_callback_of (ctx : GameContext) (input : InputEvent) (tick rnd : Nat → Nat)
    (h : ∀ c : GameContext, c.state = ctx.state →
      start_time (input_dispatch c input (furi_get_tick tick 0) (furi_get_tick tick 1) rnd) = start_time c) :
    start_time (input_callback ctx input tick rnd) = start_time ctx := by
  have hs : (record_short_back (input_bookkeeping ctx (furi_get_tick tick 0)) input
      (furi_get_tick tick 0)).state = ctx.state := by
    rw [prelude_frame]
  unfold input_callback
  dsimp only
  split_ifs
  · exact start_time_input_bookkeeping ctx _
  · rw [h _ hs, start_time_record_short_back, start_time_input_bookkeeping]

theorem start_time_main_loop_step (ctx : GameContext) (now : Nat) :
    start_time (main_loop_step ctx now) = start_time ctx := by
  unfold main_loop_step
  split_ifs <;> rfl

theorem start_time_notification_decay (now : Nat) (ctx : GameContext) :
    start_time (notification_decay now ctx) = start_time ctx := by
  unfold notification_decay notification_scroll
  split_ifs <;> rfl

theorem start_time_timer_tail (now : Nat) (p : GameContext × Statics) :
    start_time (timer_credits now (timer_day_night now p.1, p.2)).1 = start_time p.1 := by
  have h1 : start_time (timer_day_night now p.1) = start_time p.1 := by
    unfold timer_day_night
    split_ifs <;> rfl
  rw [← h1]
  unfold timer_credits credits_over credits_scroll
  dsimp only
  split_ifs <;> rfl

theorem start_time_timer_callback (ctx : GameContext) (st : Statics) (tick rnd : Nat → Nat) :
    start_time (timer_callback ctx st tick rnd).1 = start_time ctx ∨
    start_time (timer_callback ctx st tick rnd).1 =
      start_time (timer_update (advance_frame ctx) st (fun k => tick (k + 1)) rnd).1 := by
  have h2 := start_time_timer_tail (furi_get_tick tick 0) (timer_phase (advance_frame ctx) st tick rnd)
  have h3 : start_time (timer_callback ctx st tick rnd).1 =
      start_time (timer_phase (advance_frame ctx) st tick rnd).1 := h2
  rw [h3]
  unfold timer_phase
  split_ifs
  · exact Or.inl rfl
  · exact Or.inl (start_time_notification_decay _ _)
  · exact Or.inr rfl
  · exact Or.inl rfl

theorem pace_input_bookkeeping (ctx : GameContext) (now : Nat) :
    pace (input_bookkeeping ctx now) = pace ctx := by
  unfold input_bookkeeping
  dsimp only
  split_ifs <;> rfl

theorem pace_record_short_back (ctx : GameContext) (input : InputEvent) (now : Nat) :
    pace (record_short_back ctx input now) = pace ctx := by
  unfold record_short_back
  split_ifs <;> rfl

theorem pace_back_hold_release (ctx : GameContext) (now : Nat) :
    pace (back_hold_release ctx now) = pace ctx := by
  unfold back_hold_release toggle_if_held
  split_ifs <;> rfl

theorem pace_title_back (ctx : GameContext) : pace (title_back ctx) = pace ctx := by
  unfold title_back open_credits
  split_ifs <;> rfl

theorem pace_input_title (ctx : GameContext) (input : InputEvent) (now : Nat) :
    pace (input_title ctx input now) = pace ctx := by
  unfold input_title title_confirm
  split_ifs <;> first | rfl | exact pace_title_back ctx | exact pace_back_hold_release ctx now

theorem pace_init_line_car (ctx : GameContext) (rnd : Nat → Nat) :
    pace (init_line_car ctx rnd) = pace ctx := by
  unfold init_line_car
  dsimp only
  apply for_loop_inv (fun s : GameContext × Nat => pace s.1 = pace ctx)
  · intro i s hs
    apply for_loop_inv (fun s : GameContext × Nat => pace s.1 = pace ctx)
    · intro j u hu
      rw [← hu]
      unfold line_car_init_slot
      dsimp only
      split_ifs <;> rfl
    · exact hs
  · rfl

theorem pace_init_flip_iq (ctx : GameContext) : pace (init_flip_iq ctx) = pace ctx := by
  unfold init_flip_iq
  dsimp only
  apply for_loop_inv (fun s : GameContext => pace s = pace ctx)
  · intro i s hs
    apply for_loop_inv (fun s : GameContext => pace s = pace ctx)
    · intro j u hu
      rw [← hu]
      rfl
    · exact hs
  · rfl

theorem pace_init_tectone_sim (ctx : GameContext) (now : Nat) :
    pace (init_tectone_sim ctx now) = pace ctx := by
  unfold init_tectone_sim
  dsimp only
  apply for_loop_inv (fun s : GameContext => pace s = pace ctx)
  · intro i s hs
    rw [← hs]
    rfl
  · rfl

theorem pace_init_space_flight (ctx : GameContext) (rnd : Nat → Nat) :
    pace (init_space_flight ctx rnd) = pace ctx := by
  unfold init_space_flight
  dsimp only
  apply for_loop_inv (fun s : GameContext => pace s = pace ctx)
  · intro i s hs
    rw [← hs]
    rfl
  · apply for_loop_inv (fun s : GameContext => pace s = pace ctx)
    · intro i s hs
      rw [← hs]
      rfl
    · rfl

theorem pace_input_rotate (ctx : GameContext) (input : InputEvent) (now : Nat)
    (rnd : Nat → Nat) : pace (input_rotate ctx input now rnd) = pace ctx := by
  have h : pace (rotate_enter ctx now) = pace ctx := rfl
  unfold input_rotate rotate_init_game
  split_ifs
  · rw [pace_init_line_car, h]
  · rw [pace_init_flip_iq, h]
  · rw [pace_init_tectone_sim, h]
  · rw [pace_init_space_flight, h]
  · exact h
  · rfl

theorem pace_game_state_back (ctx : GameContext) (input : InputEvent) (now : Nat)
    (other : GameContext) (h : pace other = pace ctx) :
    pace (game_state_back ctx input now other) = pace ctx := by
  unfold game_state_back
  split_ifs
  · rfl
  · rfl
  · rfl
  · exact h

theorem pace_zero_hero_keys (ctx : GameContext) (input : InputEvent) :
    pace (zero_hero_keys ctx input) = pace ctx := by
  unfold zero_hero_keys
  dsimp only
  split_ifs <;> rfl

theorem pace_input_zero_hero (ctx : GameContext) (input : InputEvent) (now : Nat) :
    pace (input_zero_hero ctx input now) = pace ctx :=
  pace_game_state_back ctx input now _ (pace_zero_hero_keys ctx input)

theorem pace_flip_zip_up (input : InputEvent) (ctx : GameContext) :
    pace (flip_zip_up input ctx) = pace ctx := by
  unfold flip_zip_up
  dsimp only
  split_ifs <;> rfl

theorem pace_flip_zip_down (input : InputEvent) (ctx : GameContext) :
    pace (flip_zip_down input ctx) = pace ctx := by
  unfold flip_zip_down
  split_ifs <;> rfl

theorem pace_flip_zip_ok (input : InputEvent) (now : Nat) (ctx : GameContext) :
    pace (flip_zip_ok input now ctx) = pace ctx := by
  unfold flip_zip_ok
  split_ifs <;> rfl

theorem pace_lane_key_hold (input : InputEvent) (ctx : GameContext) :
    pace (lane_key_hold input ctx) = pace ctx := by
  unfold lane_key_hold
  dsimp only
  split_ifs <;> rfl

theorem pace_line_car_after_lane_change (ctx : GameContext) (now now2 : Nat) (a b : Int) :
    pace (line_car_after_lane_change ctx now now2 a b) = pace ctx := by
  unfold line_car_after_lane_change line_car_point_notification
  dsimp only
  split_ifs <;> rfl

theorem pace_line_car_up (input : InputEvent) (ctx : GameContext) :
    pace (line_car_up input ctx) = pace ctx := by
  unfold line_car_up
  split_ifs <;> rfl

theorem pace_flip_iq_up (input : InputEvent) (ctx : GameContext) :
    pace (flip_iq_up input ctx) = pace ctx := by
  unfold flip_iq_up
  split_ifs <;> rfl

theorem pace_flip_iq_down (input : InputEvent) (ctx : GameContext) :
    pace (flip_iq_down input ctx) = pace ctx := by
  unfold flip_iq_down
  split_ifs <;> rfl

theorem pace_tectone_sim_keys (ctx : GameContext) (input : InputEvent) :
    pace (tectone_sim_keys ctx input) = pace ctx := by
  unfold tectone_sim_keys
  split_ifs <;> rfl

theorem pace_input_tectone_sim (ctx : GameContext) (input : InputEvent) (now : Nat) :
    pace (input_tectone_sim ctx input now) = pace ctx :=
  pace_game_state_back ctx input now _ (pace_tectone_sim_keys ctx input)

theorem pace_space_flight_keys (ctx : GameContext) (input : InputEvent) :
    pace (space_flight_keys ctx input) = pace ctx := by
  unfold space_flight_keys
  split_ifs <;> rfl

theorem pace_input_space_flight (ctx : GameContext) (input : InputEvent) (now : Nat) :
    pace (input_space_flight ctx input now) = pace ctx :=
  pace_game_state_back ctx input now _ (pace_space_flight_keys ctx input)

theorem pace_input_pause (ctx : GameContext) (input : InputEvent) (now : Nat) :
    pace (input_pause ctx input now) = pace ctx := by
  unfold input_pause pause_resume pause_back
  split_ifs <;> first | rfl | exact pace_back_hold_release ctx now

theorem pace_input_credits (ctx : GameContext) (input : InputEvent) :
    pace (input_credits ctx input) = pace ctx := by
  unfold input_credits
  split_ifs <;> rfl

theorem pace_input_callback_of (ctx : GameContext) (input : InputEvent) (tick rnd : Nat → Nat)
    (h : ∀ c : GameContext, c.state = ctx.state →
      pace (input_dispatch c input (furi_get_tick tick 0) (furi_get_tick tick 1) rnd) = pace c) :
    pace (input_callback ctx input tick rnd) = pace ctx := by
  have hs : (record_short_back (input_bookkeeping ctx (furi_get_tick tick 0)) input
      (furi_get_tick tick 0)).state = ctx.state := by
    rw [prelude_frame]
  unfold input_callback
  dsimp only
  split_ifs
  · exact pace_input_bookkeeping ctx _
  · rw [h _ hs, pace_record_short_back, pace_input_bookkeeping]

theorem pace_main_loop_step (ctx : GameContext) (now : Nat) :
    pace (main_loop_step ctx now) = pace ctx := by
  unfold main_loop_step
  split_ifs <;> rfl

theorem pace_draw_notification (ctx : GameContext) (now : Nat) :
    pace (draw_notification ctx now) = pace ctx := by
  unfold draw_notification
  dsimp only
  split_ifs <;> rfl

theorem pace_render_callback (ctx : GameContext) (tick : Nat → Nat) :
    pace (render_callback ctx tick) = pace ctx := by
  have hr : pace (draw_rotate_screen ctx (furi_get_tick tick 0)) = pace ctx := by
    unfold draw_rotate_screen
    dsimp only
    split_ifs <;> rfl
  have hl : pace (render_line_car ctx tick) = pace ctx := by
    unfold render_line_car lazy_start_time
    dsimp only
    split_ifs
    · rfl
    · exact pace_draw_notification _ _
    · rfl
    · exact pace_draw_notification _ _
  have hs : pace (render_space_flight ctx tick) = pace ctx := by
    unfold render_space_flight lazy_start_time
    dsimp only
    split_ifs
    · rfl
    · exact pace_draw_notification _ _
    · rfl
    · exact pace_draw_notification _ _
  have hq : pace (render_flip_iq ctx tick) = pace ctx := by
    unfold render_flip_iq lazy_start_time
    dsimp only
    split_ifs <;> rfl
  unfold render_callback
  split_ifs
  · rfl
  · cases hst : ctx.state with
    | LOADING => rfl
    | TITLE => rfl
    | ROTATE => exact hr
    | CREDITS => rfl
    | PAUSE => rfl
    | ZERO_HERO => exact pace_draw_notification _ _
    | FLIP_ZIP => exact pace_draw_notification _ _
    | LINE_CAR => exact hl
    | FLIP_IQ => exact hq
    | TECTONE_SIM => exact pace_draw_notification _ _
    | SPACE_FLIGHT => exact hs

theorem pace_notification_decay (now : Nat) (ctx : GameContext) :
    pace (notification_decay now ctx) = pace ctx := by
  unfold notification_decay notification_scroll
  split_ifs <;> rfl

theorem pace_timer_tail (now : Nat) (p : GameContext × Statics) :
    pace (timer_credits now (timer_day_night now p.1, p.2)).1 = pace p.1 := by
  have h1 : pace (timer_day_night now p.1) = pace p.1 := by
    unfold timer_day_night
    split_ifs <;> rfl
  rw [← h1]
  unfold timer_credits credits_over credits_scroll
  dsimp only
  split_ifs <;> rfl

theorem pace_timer_callback (ctx : GameContext) (st : Statics) (tick rnd : Nat → Nat) :
    pace (timer_callback ctx st tick rnd).1 = pace ctx ∨
    pace (timer_callback ctx st tick rnd).1 =
      pace (timer_update (advance_frame ctx) st (fun k => tick (k + 1)) rnd).1 := by
  have h2 := pace_timer_tail (furi_get_tick tick 0) (timer_phase (advance_frame ctx) st tick rnd)
  have h3 : pace (timer_callback ctx st tick rnd).1 =
      pace (timer_phase (advance_frame ctx) st tick rnd).1 := h2
  rw [h3]
  unfold timer_phase
  split_ifs
  · exact Or.inl rfl
  · exact Or.inl (pace_notification_decay _ _)
  · exact Or.inr rfl
  · exact Or.inl rfl

theorem holds_input_bookkeeping (ctx : GameContext) (now : Nat) :
    holds (input_bookkeeping ctx now) = holds ctx := by
  unfold input_bookkeeping
  dsimp only
  split_ifs <;> rfl

theorem holds_record_short_back (ctx : GameContext) (input : InputEvent) (now : Nat) :
    holds (record_short_back ctx input now) = holds ctx := by
  unfold record_short_back
  split_ifs <;> rfl

theorem holds_back_hold_release (ctx : GameContext) (now : Nat) :
    holds (back_hold_release ctx now) = holds ctx := by
  unfold back_hold_release toggle_if_held
  split_ifs <;> rfl

theorem holds_title_back (ctx : GameContext) : holds (title_back ctx) = holds ctx := by
  unfold title_back open_credits
  split_ifs <;> rfl

theorem holds_input_title (ctx : GameContext) (input : InputEvent) (now : Nat) :
    holds (input_title ctx input now) = holds ctx := by
  unfold input_title title_confirm
  split_ifs <;> first | rfl | exact holds_title_back ctx | exact holds_back_hold_release ctx now

theorem holds_init_line_car (ctx : GameContext) (rnd : Nat → Nat) :
    holds (init_line_car ctx rnd) = holds ctx := by
  unfold init_line_car
  dsimp only
  apply for_loop_inv (fun s : GameContext × Nat => holds s.1 = holds ctx)
  · intro i s hs
    apply for_loop_inv (fun s : GameContext × Nat => holds s.1 = holds ctx)
    · intro j u hu
      rw [← hu]
      unfold line_car_init_slot
      dsimp only
      split_ifs <;> rfl
    · exact hs
  · rfl

theorem holds_init_flip_iq (ctx : GameContext) : holds (init_flip_iq ctx) = holds ctx := by
  unfold init_flip_iq
  dsimp only
  apply for_loop_inv (fun s : GameContext => holds s = holds ctx)
  · intro i s hs
    apply for_loop_inv (fun s : GameContext => holds s = holds ctx)
    · intro j u hu
      rw [← hu]
      rfl
    · exact hs
  · rfl

theorem holds_init_tectone_sim (ctx : GameContext) (now : Nat) :
    holds (init_tectone_sim ctx now) = holds ctx := by
  unfold init_tectone_sim
  dsimp only
  apply for_loop_inv (fun s : GameContext => holds s = holds ctx)
  · intro i s hs
    rw [← hs]
    rfl
  · rfl

theorem holds_init_space_flight (ctx : GameContext) (rnd : Nat → Nat) :
    holds (init_space_flight ctx rnd) = holds ctx := by
  unfold init_space_flight
  dsimp only
  apply for_loop_inv (fun s : GameContext => holds s = holds ctx)
  · intro i s hs
    rw [← hs]
    rfl
  · apply for_loop_inv (fun s : GameContext => holds s = holds ctx)
    · intro i s hs
      rw [← hs]
      rfl
    · rfl

theorem holds_input_rotate (ctx : GameContext) (input : InputEvent) (now : Nat)
    (rnd : Nat → Nat) : holds (input_rotate ctx input now rnd) = holds ctx := by
  have h : holds (rotate_enter ctx now) = holds ctx := rfl
  unfold input_rotate rotate_init_game
  split_ifs
  · rw [holds_init_line_car, h]
  · rw [holds_init_flip_iq, h]
  · rw [holds_init_tectone_sim, h]
  · rw [holds_init_space_flight, h]
  · exact h
  · rfl

theorem holds_game_state_back (ctx : GameContext) (input : InputEvent) (now : Nat)
    (other : GameContext) (h : holds other = holds ctx) :
    holds (game_state_back ctx input now other) = holds ctx := by
  unfold game_state_back
  split_ifs
  · rfl
  · rfl
  · rfl
  · exact h

theorem holds_space_flight_keys (ctx : GameContext) (input : InputEvent) :
    holds (space_flight_keys ctx input) = holds ctx := by
  unfold space_flight_keys
  split_ifs <;> rfl

theorem holds_input_space_flight (ctx : GameContext) (input : InputEvent) (now : Nat) :
    holds (input_space_flight ctx input now) = holds ctx :=
  holds_game_state_back ctx input now _ (holds_space_flight_keys ctx input)

theorem holds_input_pause (ctx : GameContext) (input : InputEvent) (now : Nat) :
    holds (input_pause ctx input now) = holds ctx := by
  unfold input_pause pause_resume pause_back
  split_ifs <;> first | rfl | exact holds_back_hold_release ctx now

theorem holds_input_credits (ctx : GameContext) (input : InputEvent) :
    holds (input_credits ctx input) = holds ctx := by
  unfold input_credits
  split_ifs <;> rfl

theorem holds_input_callback_of (ctx : GameContext) (input : InputEvent) (tick rnd : Nat → Nat)
    (h : ∀ c : GameContext, c.state = ctx.state →
      holds (input_dispatch c input (furi_get_tick tick 0) (furi_get_tick tick 1) rnd) = holds c) :
    holds (input_callback ctx input tick rnd) = holds ctx := by
  have hs : (record_short_back (input_bookkeeping ctx (furi_get_tick tick 0)) input
      (furi_get_tick tick 0)).state = ctx.state := by
    rw [prelude_frame]
  unfold input_callback
  dsimp only
  split_ifs
  · exact holds_input_bookkeeping ctx _
  · rw [h _ hs, holds_record_short_back, holds_input_bookkeeping]

theorem holds_main_loop_step (ctx : GameContext) (now : Nat) :
    holds (main_loop_step ctx now) = holds ctx := by
  unfold main_loop_step
  split_ifs <;> rfl

theorem holds_draw_notification (ctx : GameContext) (now : Nat) :
    holds (draw_notification ctx now) = holds ctx := by
  unfold draw_notification
  dsimp only
  split_ifs <;> rfl

theorem holds_render_callback (ctx : GameContext) (tick : Nat → Nat) :
    holds (render_callback ctx tick) = holds ctx := by
  have hr : holds (draw_rotate_screen ctx (furi_get_tick tick 0)) = holds ctx := by
    unfold draw_rotate_screen
    dsimp only
    split_ifs <;> rfl
  have hl : holds (render_line_car ctx tick) = holds ctx := by
    unfold render_line_car lazy_start_time
    dsimp only
    split_ifs
    · rfl
    · exact holds_draw_notification _ _
    · rfl
    · exact holds_draw_notification _ _
  have hs : holds (render_space_flight ctx tick) = holds ctx := by
    unfold render_space_flight lazy_start_time
    dsimp only
    split_ifs
    · rfl
    · exact holds_draw_notification _ _
    · rfl
    · exact holds_draw_notification _ _
  have hq : holds (render_flip_iq ctx tick) = holds ctx := by
    unfold render_flip_iq lazy_start_time
    dsimp only
    split_ifs <;> rfl
  unfold render_callback
  split_ifs
  · rfl
  · cases hst : ctx.state with
    | LOADING => rfl
    | TITLE => rfl
    | ROTATE => exact hr
    | CREDITS => rfl
    | PAUSE => rfl
    | ZERO_HERO => exact holds_draw_notification _ _
    | FLIP_ZIP => exact holds_draw_notification _ _
    | LINE_CAR => exact hl
    | FLIP_IQ => exact hq
    | TECTONE_SIM => exact holds_draw_notification _ _
    | SPACE_FLIGHT => exact hs

theorem holds_notification_decay (now : Nat) (ctx : GameContext) :
    holds (notification_decay now ctx) = holds ctx := by
  unfold notification_decay notification_scroll
  split_ifs <;> rfl

theorem holds_timer_tail (now : Nat) (p : GameContext × Statics) :
    holds (timer_credits now (timer_day_night now p.1, p.2)).1 = holds p.1 := by
  have h1 : holds (timer_day_night now p.1) = holds p.1 := by
    unfold timer_day_night
    split_ifs <;> rfl
  rw [← h1]
  unfold timer_credits credits_over credits_scroll
  dsimp only
  split_ifs <;> rfl

theorem holds_timer_callback (ctx : GameContext) (st : Statics) (tick rnd : Nat → Nat) :
    holds (timer_callback ctx st tick rnd).1 = holds ctx ∨
    holds (timer_callback ctx st tick rnd).1 =
      holds (timer_update (advance_frame ctx) st (fun k => tick (k + 1)) rnd).1 := by
  have h2 := holds_timer_tail (furi_get_tick tick 0) (timer_phase (advance_frame ctx) st tick rnd)
  have h3 : holds (timer_callback ctx st tick rnd).1 =
      holds (timer_phase (advance_frame ctx) st tick rnd).1 := h2
  rw [h3]
  unfold timer_phase
  split_ifs
  · exact Or.inl rfl
  · exact Or.inl (holds_notification_decay _ _)
  · exact Or.inr rfl
  · exact Or.inl rfl

theorem view_input_bookkeeping (ctx : GameContext) (now : Nat) :
    view (input_bookkeeping ctx now) = view ctx := by
  unfold input_bookkeeping
  dsimp only
  split_ifs <;> rfl

theorem view_record_short_back (ctx : GameContext) (input : InputEvent) (now : Nat) :
    view (record_short_back ctx input now) = view ctx := by
  unfold record_short_back
  split_ifs <;> rfl

theorem view_back_hold_release (ctx : GameContext) (now : Nat) :
    view (back_hold_release ctx now) = view ctx := by
  unfold back_hold_release toggle_if_held
  split_ifs <;> rfl

theorem view_title_back (ctx : GameContext) : view (title_back ctx) = view ctx := by
  unfold title_back open_credits
  split_ifs <;> rfl

theorem view_input_title (ctx : GameContext) (input : InputEvent) (now : Nat) :
    view (input_title ctx input now) = view ctx := by
  unfold input_title title_confirm
  split_ifs <;> first | rfl | exact view_title_back ctx | exact view_back_hold_release ctx now

theorem view_init_line_car (ctx : GameContext) (rnd : Nat → Nat) :
    view (init_line_car ctx rnd) = view ctx := by
  unfold init_line_car
  dsimp only
  apply for_loop_inv (fun s : GameContext × Nat => view s.1 = view ctx)
  · intro i s hs
    apply for_loop_inv (fun s : GameContext × Nat => view s.1 = view ctx)
    · intro j u hu
      rw [← hu]
      unfold line_car_init_slot
      dsimp only
      split_ifs <;> rfl
    · exact hs
  · rfl

theorem view_init_flip_iq (ctx : GameContext) : view (init_flip_iq ctx) = view ctx := by
  unfold init_flip_iq
  dsimp only
  apply for_loop_inv (fun s : GameContext => view s = view ctx)
  · intro i s hs
    apply for_loop_inv (fun s : GameContext => view s = view ctx)
    · intro j u hu
      rw [← hu]
      rfl
    · exact hs
  · rfl

theorem view_init_tectone_sim (ctx : GameContext) (now : Nat) :
    view (init_tectone_sim ctx now) = view ctx := by
  unfold init_tectone_sim
  dsimp only
  apply for_loop_inv (fun s : GameContext => view s = view ctx)
  · intro i s hs
    rw [← hs]
    rfl
  · rfl

theorem view_input_pause (ctx : GameContext) (input : InputEvent) (now : Nat) :
    view (input_pause ctx input now) = view ctx := by
  unfold input_pause pause_resume pause_back
  split_ifs <;> first | rfl | exact view_back_hold_release ctx now

theorem view_input_credits (ctx : GameContext) (input : InputEvent) :
    view (input_credits ctx input) = view ctx := by
  unfold input_credits
  split_ifs <;> rfl

theorem view_main_loop_step (ctx : GameContext) (now : Nat) :
    view (main_loop_step ctx now) = view ctx := by
  unfold main_loop_step
  split_ifs <;> rfl

theorem view_draw_notification (ctx : GameContext) (now : Nat) :
    view (draw_notification ctx now) = view ctx := by
  unfold draw_notification
  dsimp only
  split_ifs <;> rfl

theorem view_render_callback (ctx : GameContext) (tick : Nat → Nat) :
    view (render_callback ctx tick) = view ctx := by
  have hr : view (draw_rotate_screen ctx (furi_get_tick tick 0)) = view ctx := by
    unfold draw_rotate_screen
    dsimp only
    split_ifs <;> rfl
  have hl : view (render_line_car ctx tick) = view ctx := by
    unfold render_line_car lazy_start_time
    dsimp only
    split_ifs
    · rfl
    · exact view_draw_notification _ _
    · rfl
    · exact view_draw_notification _ _
  have hs : view (render_space_flight ctx tick) = view ctx := by
    unfold render_space_flight lazy_start_time
    dsimp only
    split_ifs
    · rfl
    · exact view_draw_notification _ _
    · rfl
    · exact view_draw_notification _ _
  have hq : view (render_flip_iq ctx tick) = view ctx := by
    unfold render_flip_iq lazy_start_time
    dsimp only
    split_ifs <;> rfl
  unfold render_callback
  split_ifs
  · rfl
  · cases hst : ctx.state with
    | LOADING => rfl
    | TITLE => rfl
    | ROTATE => exact hr
    | CREDITS => rfl
    | PAUSE => rfl
    | ZERO_HERO => exact view_draw_notification _ _
    | FLIP_ZIP => exact view_draw_notification _ _
    | LINE_CAR => exact hl
    | FLIP_IQ => exact hq
    | TECTONE_SIM => exact view_draw_notification _ _
    | SPACE_FLIGHT => exact hs

theorem view_notification_decay (now : Nat) (ctx : GameContext) :
    view (notification_decay now ctx) = view ctx := by
  unfold notification_decay notification_scroll
  split_ifs <;> rfl

theorem view_timer_tail (now : Nat) (p : GameContext × Statics) :
    view (timer_credits now (timer_day_night now p.1, p.2)).1 = view p.1 := by
  have h1 : view (timer_day_night now p.1) = view p.1 := by
    unfold timer_day_night
    split_ifs <;> rfl
  rw [← h1]
  unfold timer_credits credits_over credits_scroll
  dsimp only
  split_ifs <;> rfl

theorem view_timer_callback (ctx : GameContext) (st : Statics) (tick rnd : Nat → Nat) :
    view (timer_callback ctx st tick rnd).1 = view ctx ∨
    view (timer_callback ctx st tick rnd).1 =
      view (timer_update (advance_frame ctx) st (fun k => tick (k + 1)) rnd).1 := by
  have h2 := view_timer_tail (furi_get_tick tick 0) (timer_phase (advance_frame ctx) st tick rnd)
  have h3 : view (timer_callback ctx st tick rnd).1 =
      view (timer_phase (advance_frame ctx) st tick rnd).1 := h2
  rw [h3]
  unfold timer_phase
  split_ifs
  · exact Or.inl rfl
  · exact Or.inl (view_notification_decay _ _)
  · exact Or.inr rfl
  · exact Or.inl rfl

theorem arrival_tap_cadence (ctx : GameContext) (now : Nat) :
    arrival (tap_cadence ctx now) = arrival ctx := by
  unfold tap_cadence
  dsimp only
  split_ifs <;> rfl

theorem arrival_flip_zip_left (input : InputEvent) (now : Nat) (ctx : GameContext) :
    arrival (flip_zip_left input now ctx) = arrival ctx := by
  unfold flip_zip_left
  split_ifs
  · rw [arrival_tap_cadence]
    rfl
  · rfl

theorem arrival_flip_zip_right (input : InputEvent) (now : Nat) (ctx : GameContext) :
    arrival (flip_zip_right input now ctx) = arrival ctx := by
  unfold flip_zip_right
  split_ifs
  · rw [arrival_tap_cadence]
    rfl
  · rfl

theorem arrival_flip_zip_up (input : InputEvent) (ctx : GameContext) :
    arrival (flip_zip_up input ctx) = arrival ctx := by
  unfold flip_zip_up
  dsimp only
  split_ifs <;> rfl

theorem arrival_flip_zip_down (input : InputEvent) (ctx : GameContext) :
    arrival (flip_zip_down input ctx) = arrival ctx := by
  unfold flip_zip_down
  split_ifs <;> rfl

theorem arrival_flip_zip_ok (input : InputEvent) (now : Nat) (ctx : GameContext) :
    arrival (flip_zip_ok input now ctx) = arrival ctx := by
  unfold flip_zip_ok
  split_ifs <;> rfl

theorem arrival_flip_zip_keys (ctx : GameContext) (input : InputEvent) (now : Nat) :
    arrival (flip_zip_keys ctx input now) = arrival ctx := by
  unfold flip_zip_keys
  rw [arrival_flip_zip_ok, arrival_flip_zip_down, arrival_flip_zip_up, arrival_flip_zip_right,
    arrival_flip_zip_left]

theorem arrival_lane_key_hold (input : InputEvent) (ctx : GameContext) :
    arrival (lane_key_hold input ctx) = arrival ctx := by
  unfold lane_key_hold
  dsimp only
  split_ifs <;> rfl

theorem arrival_line_car_after_lane_change (ctx : GameContext) (now now2 : Nat) (a b : Int) :
    arrival (line_car_after_lane_change ctx now now2 a b) = arrival ctx := by
  unfold line_car_after_lane_change line_car_point_notification
  dsimp only
  split_ifs <;> rfl

theorem arrival_line_car_left (input : InputEvent) (now now2 : Nat) (ctx : GameContext) :
    arrival (line_car_left input now now2 ctx) = arrival ctx := by
  unfold line_car_left
  dsimp only
  split_ifs
  · rw [arrival_line_car_after_lane_change, arrival_tap_cadence]
    rfl
  · rfl

theorem arrival_line_car_right (input : InputEvent) (now now2 : Nat) (ctx : GameContext) :
    arrival (line_car_right input now now2 ctx) = arrival ctx := by
  unfold line_car_right
  dsimp only
  split_ifs
  · rw [arrival_line_car_after_lane_change, arrival_tap_cadence]
    rfl
  · rfl

theorem arrival_line_car_up (input : InputEvent) (ctx : GameContext) :
    arrival (line_car_up input ctx) = arrival ctx := by
  unfold line_car_up
  split_ifs <;> rfl

theorem arrival_line_car_brake (input : InputEvent) (ctx : GameContext) :
    arrival (line_car_brake input ctx) = arrival ctx := by
  unfold line_car_brake
  split_ifs <;> rfl

theorem arrival_line_car_keys (ctx : GameContext) (input : InputEvent) (now now2 : Nat) :
    arrival (line_car_keys ctx input now now2) = arrival ctx := by
  unfold line_car_keys
  rw [arrival_line_car_brake, arrival_line_car_up, arrival_line_car_right, arrival_line_car_left,
    arrival_lane_key_hold]

theorem arrival_flip_iq_left (input : InputEvent) (now : Nat) (ctx : GameContext) :
    arrival (flip_iq_left input now ctx) = arrival ctx := by
  unfold flip_iq_left
  split_ifs
  · rw [arrival_tap_cadence]
    rfl
  · rfl

theorem arrival_flip_iq_right (input : InputEvent) (now : Nat) (ctx : GameContext) :
    arrival (flip_iq_right input now ctx) = arrival ctx := by
  unfold flip_iq_right
  split_ifs
  · rw [arrival_tap_cadence]
    rfl
  · rfl

theorem arrival_flip_iq_up (input : InputEvent) (ctx : GameContext) :
    arrival (flip_iq_up input ctx) = arrival ctx := by
  unfold flip_iq_up
  split_ifs <;> rfl

theorem arrival_flip_iq_down (input : InputEvent) (ctx : GameContext) :
    arrival (flip_iq_down input ctx) = arrival ctx := by
  unfold flip_iq_down
  split_ifs <;> rfl

theorem arrival_flip_iq_keys (ctx : GameContext) (input : InputEvent) (now : Nat) :
    arrival (flip_iq_keys ctx input now) = arrival ctx := by
  unfold flip_iq_keys
  rw [arrival_flip_iq_down, arrival_flip_iq_up, arrival_flip_iq_right, arrival_flip_iq_left,
    arrival_lane_key_hold]

@[simp] theorem pace_notify (tick : Nat → Nat) (text : String) (s : Run) :
    pace (Run.notify tick text s).ctx = pace s.ctx := rfl

@[simp] theorem pace_stamped (ctx : GameContext) (tick : Nat → Nat) :
    pace (stamped ctx tick).ctx = pace ctx := rfl

theorem for_loop_pace (body : Nat → Run → Run)
    (h : ∀ i s, pace (body i s).ctx = pace s.ctx) (n : Nat) (s : Run) :
    pace (for_loop n body s).ctx = pace s.ctx :=
  for_loop_inv (fun t : Run => pace t.ctx = pace s.ctx) body
    (fun i t ht => (h i t).trans ht) n s rfl

theorem for_loop_pace_ctx (body : Nat → GameContext → GameContext)
    (h : ∀ i c, pace (body i c) = pace c) (n : Nat) (c : GameContext) :
    pace (for_loop n body c) = pace c :=
  for_loop_inv (fun t : GameContext => pace t = pace c) body
    (fun i t ht => (h i t).trans ht) n c rfl

theorem for_loop_break_pace (body : Nat → Run → Run × Bool)
    (h : ∀ i s, pace (body i s).1.ctx = pace s.ctx) (n : Nat) (s : Run) :
    pace (for_loop_break n body s).ctx = pace s.ctx :=
  for_loop_break_inv (fun t : Run => pace t.ctx = pace s.ctx) body
    (fun i t ht => (h i t).trans ht) n s rfl

theorem for_loop_break_pace_ctx (body : Nat → GameContext → GameContext × Bool)
    (h : ∀ i c, pace (body i c).1 = pace c) (n : Nat) (c : GameContext) :
    pace (for_loop_break n body c) = pace c :=
  for_loop_break_inv (fun t : GameContext => pace t = pace c) body
    (fun i t ht => (h i t).trans ht) n c rfl

@[simp] theorem pace_zero_hero_count_hit (i j : Int) (c : GameContext) :
    pace (zero_hero_count_hit i j c) = pace c := rfl

@[simp] theorem pace_zero_hero_wrap (c : GameContext) :
    pace (zero_hero_wrap c) = pace c := by
  unfold zero_hero_wrap; split_ifs <;> rfl

@[simp] theorem pace_zero_hero_milestone (tick : Nat → Nat) (s : Run) :
    pace (zero_hero_milestone tick s).ctx = pace s.ctx := by
  unfold zero_hero_milestone; split_ifs <;> rfl

@[simp] theorem pace_zero_hero_stats (c : GameContext) :
    pace (zero_hero_stats c) = pace c := rfl

@[simp] theorem pace_zero_hero_highest (c : GameContext) :
    pace (zero_hero_highest c) = pace c := by
  unfold zero_hero_highest; split_ifs <;> rfl

@[simp] theorem pace_zero_hero_hit (tick : Nat → Nat) (i j : Int) (s : Run) :
    pace (zero_hero_hit tick i j s).ctx = pace s.ctx := by
  unfold zero_hero_hit; simp

@[simp] theorem pace_zero_hero_miss (tick : Nat → Nat) (i j : Int) (s : Run) :
    pace (zero_hero_miss tick i j s).ctx = pace s.ctx := rfl

@[simp] theorem pace_zero_hero_advance (i j : Int) (c : GameContext) :
    pace (zero_hero_advance i j c) = pace c := rfl

@[simp] theorem pace_zero_hero_judge (tick : Nat → Nat) (i j : Int) (s : Run) :
    pace (zero_hero_judge tick i j s).ctx = pace s.ctx := by
  unfold zero_hero_judge; split_ifs <;> simp

@[simp] theorem pace_zero_hero_slot (tick : Nat → Nat) (i j : Nat) (s : Run) :
    pace (zero_hero_slot tick i j s).ctx = pace s.ctx := by
  unfold zero_hero_slot; split_ifs <;> simp

@[simp] theorem pace_zero_hero_lane (tick : Nat → Nat) (i : Nat) (s : Run) :
    pace (zero_hero_lane tick i s).ctx = pace s.ctx := by
  unfold zero_hero_lane
  rw [for_loop_pace _ (fun j t => pace_zero_hero_slot tick i j t)]
  rfl

@[simp] theorem pace_zero_hero_lanes (tick : Nat → Nat) (s : Run) :
    pace (zero_hero_lanes tick s).ctx = pace s.ctx := by
  unfold zero_hero_lanes
  exact for_loop_pace _ (fun i t => pace_zero_hero_lane tick i t) 5 s

@[simp] theorem pace_beat (c : GameContext) : pace (beat c) = pace c := rfl

@[simp] theorem pace_zero_hero_spawn (rnd : Nat → Nat) (s : Run) :
    pace (zero_hero_spawn rnd s).ctx = pace s.ctx := by
  unfold zero_hero_spawn zero_hero_spawn_lane
  split_ifs
  · rw [for_loop_break_pace _ (fun j t => by
      unfold zero_hero_spawn_slot; split_ifs <;> rfl)]
    rfl
  · rfl

@[simp] theorem pace_zero_hero_tier_up (c : GameContext) :
    pace (zero_hero_tier_up c) = pace c := by
  unfold zero_hero_tier_up; split_ifs <;> rfl

@[simp] theorem pace_zero_hero_check_stamp (tick : Nat → Nat) (s : Run) :
    pace (zero_hero_check_stamp tick s).ctx = pace s.ctx := rfl

@[simp] theorem pace_zero_hero_difficulty (tick rnd : Nat → Nat) (s : Run) :
    pace (zero_hero_difficulty tick rnd s).ctx = pace s.ctx := by
  unfold zero_hero_difficulty zero_hero_escalate zero_hero_raise
  split_ifs <;> simp

theorem pace_update_zero_hero (ctx : GameContext) (tick rnd : Nat → Nat) :
    pace (update_zero_hero ctx tick rnd) = pace ctx := by
  unfold update_zero_hero
  split_ifs
  · rfl
  · simp

@[simp] theorem pace_flip_zip_advance (m i j : Int) (c : GameContext) :
    pace (flip_zip_advance m i j c) = pace c := rfl

@[simp] theorem pace_flip_zip_spawn (rnd : Nat → Nat) (s : Run) :
    pace (flip_zip_spawn rnd s).ctx = pace s.ctx := by
  unfold flip_zip_spawn flip_zip_spawn_lane
  split_ifs
  · rw [for_loop_break_pace _ (fun j t => by
      unfold flip_zip_spawn_slot; split_ifs <;> rfl)]
    rfl
  · rfl

@[simp] theorem pace_flip_zip_hold_top (c : GameContext) :
    pace (flip_zip_hold_top c) = pace c := rfl

@[simp] theorem pace_cap_mascot_y (c : GameContext) : pace (cap_mascot_y c) = pace c := by
  unfold cap_mascot_y; split_ifs <;> rfl

@[simp] theorem pace_flip_zip_touch_down (c : GameContext) :
    pace (flip_zip_touch_down c) = pace c := by
  unfold flip_zip_touch_down
  exact (pace_cap_mascot_y _)

@[simp] theorem pace_flip_zip_drift_up (now : Nat) (c : GameContext) :
    pace (flip_zip_drift_up now c) = pace c := by
  unfold flip_zip_drift_up; rw [pace_cap_mascot_y]; rfl

@[simp] theorem pace_flip_zip_airborne (tick : Nat → Nat) (s : Run) :
    pace (flip_zip_airborne tick s).ctx = pace s.ctx := by
  unfold flip_zip_airborne; split_ifs <;> simp

@[simp] theorem pace_stamp_again (tick : Nat → Nat) (s : Run) :
    pace (stamp_again tick s).ctx = pace s.ctx := rfl

@[simp] theorem pace_line_car_regenerate (rnd : Nat → Nat) (i j : Nat) (s : Run) :
    pace (line_car_regenerate rnd i j s).ctx = pace s.ctx := rfl

@[simp] theorem pace_line_car_advance (m i j : Int) (c : GameContext) :
    pace (line_car_advance m i j c) = pace c := rfl

@[simp] theorem pace_line_car_slot (rnd : Nat → Nat) (m : Int) (i j : Nat) (s : Run) :
    pace (line_car_slot rnd m i j s).ctx = pace s.ctx := by
  unfold line_car_slot line_car_scrolled; split_ifs <;> simp

@[simp] theorem pace_line_car_scroll (rnd : Nat → Nat) (m : Int) (s : Run) :
    pace (line_car_scroll rnd m s).ctx = pace s.ctx := by
  unfold line_car_scroll
  exact for_loop_pace _
    (fun i t => for_loop_pace _ (fun j u => pace_line_car_slot rnd m i j u) _ t) 5 s

@[simp] theorem pace_line_car_bank (c : GameContext) :
    pace (line_car_bank c) = pace c := by
  unfold line_car_bank; split_ifs <;> rfl

@[simp] theorem pace_line_car_reset_points (c : GameContext) :
    pace (line_car_reset_points c) = pace c := rfl

@[simp] theorem pace_line_car_drift_check (tick : Nat → Nat) (s : Run) :
    pace (line_car_drift_check tick s).ctx = pace s.ctx := by
  unfold line_car_drift_check line_car_drift_end; split_ifs <;> simp

@[simp] theorem pace_line_car_bottom (c : GameContext) :
    pace (line_car_bottom c) = pace c := by
  unfold line_car_bottom
  rw [for_loop_break_pace_ctx _ (fun i t => by
    unfold line_car_find_lane_step; split_ifs <;> rfl)]
  rfl

theorem pace_line_car_reposition_lane (rnd : Nat → Nat) (i : Nat) (s : Run) :
    pace (line_car_reposition_lane rnd i s).1.ctx = pace s.ctx := by
  unfold line_car_reposition_lane
  exact for_loop_break_pace _ (fun j t => by
    unfold line_car_reposition_slot; split_ifs <;> rfl) _ s

@[simp] theorem pace_line_car_off_track (tick rnd : Nat → Nat) (s : Run) :
    pace (line_car_off_track tick rnd s).ctx = pace s.ctx := by
  unfold line_car_off_track; split_ifs
  · rw [for_loop_break_pace _ (fun i t => pace_line_car_reposition_lane rnd i t)]
    rfl
  · rfl

@[simp] theorem pace_line_car_fallen (tick rnd : Nat → Nat) (s : Run) :
    pace (line_car_fallen tick rnd s).ctx = pace s.ctx := by
  unfold line_car_fallen; split_ifs <;> simp

@[simp] theorem pace_line_car_gravity (tick rnd : Nat → Nat) (m : Int) (s : Run) :
    pace (line_car_gravity tick rnd m s).ctx = pace s.ctx := by
  unfold line_car_gravity; split_ifs
  · rfl
  · rw [pace_line_car_fallen]; rfl

@[simp] theorem pace_flip_iq_first_ball (r0 r1 : Int) (c : GameContext) :
    pace (flip_iq_first_ball r0 r1 c) = pace c := rfl

@[simp] theorem pace_flip_iq_first_drop (tick rnd : Nat → Nat) (s : Run) :
    pace (flip_iq_first_drop tick rnd s).ctx = pace s.ctx := by
  unfold flip_iq_first_drop; split_ifs <;> rfl

@[simp] theorem pace_flip_iq_next_round (c : GameContext) :
    pace (flip_iq_next_round c) = pace c := by
  unfold flip_iq_next_round; split_ifs <;> rfl

@[simp] theorem pace_flip_iq_next_ball (r0 r1 : Int) (c : GameContext) :
    pace (flip_iq_next_ball r0 r1 c) = pace c := rfl

@[simp] theorem pace_flip_iq_round_end (tick rnd : Nat → Nat) (s : Run) :
    pace (flip_iq_round_end tick rnd s).ctx = pace s.ctx := by
  unfold flip_iq_round_end
  show pace (flip_iq_next_ball _ _ _) = _
  rw [pace_flip_iq_next_ball]
  show pace (flip_iq_next_round _) = _
  rw [pace_flip_iq_next_round]
  rfl

@[simp] theorem pace_flip_iq_round (tick rnd : Nat → Nat) (s : Run) :
    pace (flip_iq_round tick rnd s).ctx = pace s.ctx := by
  unfold flip_iq_round; split_ifs <;> simp

@[simp] theorem pace_flip_iq_climb (tick rnd : Nat → Nat) (i j : Int) (s : Run) :
    pace (flip_iq_climb tick rnd i j s).ctx = pace s.ctx := rfl

@[simp] theorem pace_flip_iq_stumble (tick rnd : Nat → Nat) (s : Run) :
    pace (flip_iq_stumble tick rnd s).ctx = pace s.ctx := rfl

@[simp] theorem pace_flip_iq_meet (tick rnd : Nat → Nat) (i j : Nat) (s : Run) :
    pace (flip_iq_meet tick rnd i j s).ctx = pace s.ctx := by
  unfold flip_iq_meet; split_ifs <;> simp

@[simp] theorem pace_flip_iq_leave (tick rnd : Nat → Nat) (i j : Nat) (s : Run) :
    pace (flip_iq_leave tick rnd i j s).ctx = pace s.ctx := by
  unfold flip_iq_leave; split_ifs
  · rw [pace_flip_iq_meet]; rfl
  · rfl

@[simp] theorem pace_flip_iq_break (rnd : Nat → Nat) (i j : Nat) (s : Run) :
    pace (flip_iq_break rnd i j s).ctx = pace s.ctx := by
  unfold flip_iq_break; split_ifs <;> rfl

@[simp] theorem pace_flip_iq_slot (tick rnd : Nat → Nat) (m : Int) (i j : Nat) (s : Run) :
    pace (flip_iq_slot tick rnd m i j s).ctx = pace s.ctx := by
  unfold flip_iq_slot; split_ifs
  · rw [pace_flip_iq_leave, pace_flip_iq_break]; rfl
  · rfl

@[simp] theorem pace_flip_iq_balls (tick rnd : Nat → Nat) (m : Int) (s : Run) :
    pace (flip_iq_balls tick rnd m s).ctx = pace s.ctx := by
  unfold flip_iq_balls
  exact for_loop_pace _
    (fun i t => for_loop_pace _ (fun j u => pace_flip_iq_slot tick rnd m i j u) _ t) 5 s

@[simp] theorem pace_flip_iq_spawn (rnd : Nat → Nat) (s : Run) :
    pace (flip_iq_spawn rnd s).ctx = pace s.ctx := by
  unfold flip_iq_spawn flip_iq_spawn_lane
  split_ifs
  · rw [for_loop_break_pace _ (fun j t => by
      unfold flip_iq_spawn_slot; split_ifs <;> rfl)]
    rfl
  · rfl

@[simp] theorem pace_emotion_stamp (tick : Nat → Nat) (s : Run) :
    pace (emotion_stamp tick s).ctx = pace s.ctx := rfl

@[simp] theorem pace_tectone_prop_effect (r0 r1 : Int) (c : GameContext) :
    pace (tectone_prop_effect r0 r1 c) = pace c := by
  unfold tectone_prop_effect; split_ifs <;> rfl

@[simp] theorem pace_tectone_prop (tick rnd : Nat → Nat) (s : Run) :
    pace (tectone_prop tick rnd s).ctx = pace s.ctx := by
  unfold tectone_prop
  show pace (tectone_prop_effect _ _ _) = _
  rw [pace_tectone_prop_effect]; rfl

@[simp] theorem pace_tectone_random_effect (r : Int) (c : GameContext) :
    pace (tectone_random_effect r c) = pace c := by
  unfold tectone_random_effect; split_ifs <;> rfl

@[simp] theorem pace_tectone_random (tick rnd : Nat → Nat) (s : Run) :
    pace (tectone_random tick rnd s).ctx = pace s.ctx := by
  unfold tectone_random; simp

@[simp] theorem pace_tectone_emotion_keys (tick rnd : Nat → Nat) (s : Run) :
    pace (tectone_emotion_keys tick rnd s).ctx = pace s.ctx := by
  unfold tectone_emotion_keys; split_ifs
  · rfl
  · rfl
  · rfl
  · simp
  · simp
  · rfl

@[simp] theorem pace_tectone_emotions (tick rnd : Nat → Nat) (s : Run) :
    pace (tectone_emotions tick rnd s).ctx = pace s.ctx := by
  unfold tectone_emotions; split_ifs <;> simp

@[simp] theorem pace_tectone_anger_bound (rnd : Nat → Nat) (s : Run) :
    pace (tectone_anger_bound rnd s).ctx = pace s.ctx := by
  unfold tectone_anger_bound; split_ifs <;> rfl

@[simp] theorem pace_tectone_based_bound (s : Run) :
    pace (tectone_based_bound s).ctx = pace s.ctx := by
  unfold tectone_based_bound; split_ifs <;> rfl

@[simp] theorem pace_tectone_cuteness_bound (rnd : Nat → Nat) (s : Run) :
    pace (tectone_cuteness_bound rnd s).ctx = pace s.ctx := by
  unfold tectone_cuteness_bound; split_ifs <;> rfl

@[simp] theorem pace_tectone_hide_chat (c : GameContext) :
    pace (tectone_hide_chat c) = pace c := by
  unfold tectone_hide_chat
  apply for_loop_pace_ctx
  intro i t
  rfl

@[simp] theorem pace_tectone_sad_sequence (idx : Int) (c : GameContext) :
    pace (tectone_sad_sequence idx c) = pace c := by
  unfold tectone_sad_sequence; split_ifs
  · rfl
  · rfl
  · rfl
  · rfl
  · simp

@[simp] theorem pace_tectone_sad_bound (rnd : Nat → Nat) (s : Run) :
    pace (tectone_sad_bound rnd s).ctx = pace s.ctx := by
  unfold tectone_sad_bound; split_ifs
  · rfl
  · show pace (tectone_sad_sequence _ _) = _
    rw [pace_tectone_sad_sequence]; rfl
  · rfl

@[simp] theorem pace_tectone_bounds (rnd : Nat → Nat) (s : Run) :
    pace (tectone_bounds rnd s).ctx = pace s.ctx := by
  unfold tectone_bounds; simp

@[simp] theorem pace_tectone_walk (r : Int) (c : GameContext) :
    pace (tectone_walk r c) = pace c := by
  unfold tectone_walk; dsimp only; split_ifs <;> rfl

@[simp] theorem pace_tectone_move (tick rnd : Nat → Nat) (s : Run) :
    pace (tectone_move tick rnd s).ctx = pace s.ctx := by
  unfold tectone_move tectone_step; split_ifs
  · show pace (tectone_walk _ _) = _
    rw [pace_tectone_walk]; rfl
  · rfl

@[simp] theorem pace_tectone_hype_check (tick rnd : Nat → Nat) (st : Statics) (s : Run) :
    pace (tectone_hype_check tick rnd st s).ctx = pace s.ctx := by
  unfold tectone_hype_check; split_ifs <;> rfl

@[simp] theorem pace_tectone_comment_loop (rnd : Nat → Nat) (m : Int) (s : Run) :
    pace (tectone_comment_loop rnd m s).ctx = pace s.ctx := by
  unfold tectone_comment_loop
  exact for_loop_break_pace _ (fun i t => by
    unfold tectone_comment_slot; split_ifs <;> rfl) _ s

@[simp] theorem pace_tectone_comments (tick rnd : Nat → Nat) (m : Int) (st : Statics)
    (s : Run) : pace (tectone_comments tick rnd m st s).1.ctx = pace s.ctx := by
  unfold tectone_comments tectone_comment_stream; split_ifs
  · simp
  · rfl

@[simp] theorem pace_tectone_after_bounds (ctx : GameContext) (tick rnd : Nat → Nat) :
    pace (tectone_after_bounds ctx tick rnd).ctx = pace ctx := by
  unfold tectone_after_bounds; simp

theorem pace_update_tectone_sim (ctx : GameContext) (st : Statics) (tick rnd : Nat → Nat) :
    pace (update_tectone_sim ctx st tick rnd).1 = pace ctx := by
  unfold update_tectone_sim
  split_ifs
  · rfl
  · simp

@[simp] theorem pace_space_flight_move (m i : Int) (c : GameContext) :
    pace (space_flight_move m i c) = pace c := by
  unfold space_flight_move; dsimp only; split_ifs <;> rfl

@[simp] theorem pace_space_flight_grow (m i : Int) (c : GameContext) :
    pace (space_flight_grow m i c) = pace c := rfl

@[simp] theorem pace_space_flight_take (d : Int) (c : GameContext) :
    pace (space_flight_take d c) = pace c := by
  unfold space_flight_take; split_ifs <;> rfl

@[simp] theorem pace_space_flight_redock (tick rnd : Nat → Nat) (s : Run) :
    pace (space_flight_redock tick rnd s).ctx = pace s.ctx := by
  unfold space_flight_redock; split_ifs <;> rfl

@[simp] theorem pace_space_flight_hit (tick rnd : Nat → Nat) (i : Int) (s : Run) :
    pace (space_flight_hit tick rnd i s).ctx = pace s.ctx := by
  unfold space_flight_hit; split_ifs <;> simp

@[simp] theorem pace_space_flight_cull (i : Int) (c : GameContext) :
    pace (space_flight_cull i c) = pace c := by
  unfold space_flight_cull; split_ifs <;> rfl

@[simp] theorem pace_space_flight_object (tick rnd : Nat → Nat) (m i : Int) (s : Run) :
    pace (space_flight_object tick rnd m i s).ctx = pace s.ctx := by
  unfold space_flight_object; simp

@[simp] theorem pace_space_flight_place (r0 r1 i : Int) (c : GameContext) :
    pace (space_flight_place r0 r1 i c) = pace c := rfl

@[simp] theorem pace_space_flight_pickup_draw (rnd : Nat → Nat) (i : Int) (s : Run) :
    pace (space_flight_pickup_draw rnd i s).ctx = pace s.ctx := by
  unfold space_flight_pickup_draw; split_ifs <;> rfl

@[simp] theorem pace_space_flight_spawn (rnd : Nat → Nat) (i : Int) (s : Run) :
    pace (space_flight_spawn rnd i s).ctx = pace s.ctx := by
  unfold space_flight_spawn; simp

@[simp] theorem pace_space_flight_collect (i : Int) (c : GameContext) :
    pace (space_flight_collect i c) = pace c := by
  unfold space_flight_collect; dsimp only; split_ifs <;> rfl

@[simp] theorem pace_space_flight_pickup (i : Int) (c : GameContext) :
    pace (space_flight_pickup i c) = pace c := by
  unfold space_flight_pickup; split_ifs <;> simp

@[simp] theorem pace_space_flight_slot (tick rnd : Nat → Nat) (m : Int) (i : Nat) (s : Run) :
    pace (space_flight_slot tick rnd m i s).ctx = pace s.ctx := by
  unfold space_flight_slot; split_ifs <;> simp

@[simp] theorem pace_space_flight_objects (tick rnd : Nat → Nat) (m : Int) (s : Run) :
    pace (space_flight_objects tick rnd m s).ctx = pace s.ctx := by
  unfold space_flight_objects
  exact for_loop_pace _ (fun i t => pace_space_flight_slot tick rnd m i t) _ s

@[simp] theorem pace_space_flight_record (c : GameContext) :
    pace (space_flight_record c) = pace c := by
  have h : pace (for_loop 4 (fun i ctx =>
      { ctx with recent_inputs := set1 ctx.recent_inputs i (get1 ctx.recent_inputs (i + 1)) }) c)
      = pace c := by
    apply for_loop_pace_ctx
    intro i t
    rfl
  unfold space_flight_record; dsimp only; split_ifs <;> exact h

@[simp] theorem pace_space_flight_match (tick : Nat → Nat) (s : Run) :
    pace (space_flight_match tick s).ctx = pace s.ctx := by
  unfold space_flight_match space_flight_manoeuvre; split_ifs <;> rfl

@[simp] theorem pace_space_flight_sequences (tick : Nat → Nat) (s : Run) :
    pace (space_flight_sequences tick s).ctx = pace s.ctx := by
  unfold space_flight_sequences; split_ifs <;> simp

theorem pace_update_space_flight (ctx : GameContext) (tick rnd : Nat → Nat) :
    pace (update_space_flight ctx tick rnd) = pace ctx := by
  unfold update_space_flight
  split_ifs
  · rfl
  · simp

@[simp] theorem trail_notify (tick : Nat → Nat) (text : String) (s : Run) :
    trail (Run.notify tick text s).ctx = trail s.ctx := rfl

@[simp] theorem trail_stamped (ctx : GameContext) (tick : Nat → Nat) :
    trail (stamped ctx tick).ctx = trail ctx := rfl

theorem for_loop_trail (body : Nat → Run → Run)
    (h : ∀ i s, trail (body i s).ctx = trail s.ctx) (n : Nat) (s : Run) :
    trail (for_loop n body s).ctx = trail s.ctx :=
  for_loop_inv (fun t : Run => trail t.ctx = trail s.ctx) body
    (fun i t ht => (h i t).trans ht) n s rfl

theorem for_loop_trail_ctx (body : Nat → GameContext → GameContext)
    (h : ∀ i c, trail (body i c) = trail c) (n : Nat) (c : GameContext) :
    trail (for_loop n body c) = trail c :=
  for_loop_inv (fun t : GameContext => trail t = trail c) body
    (fun i t ht => (h i t).trans ht) n c rfl

theorem for_loop_break_trail (body : Nat → Run → Run × Bool)
    (h : ∀ i s, trail (body i s).1.ctx = trail s.ctx) (n : Nat) (s : Run) :
    trail (for_loop_break n body s).ctx = trail s.ctx :=
  for_loop_break_inv (fun t : Run => trail t.ctx = trail s.ctx) body
    (fun i t ht => (h i t).trans ht) n s rfl

theorem for_loop_break_trail_ctx (body : Nat → GameContext → GameContext × Bool)
    (h : ∀ i c, trail (body i c).1 = trail c) (n : Nat) (c : GameContext) :
    trail (for_loop_break n body c) = trail c :=
  for_loop_break_inv (fun t : GameContext => trail t = trail c) body
    (fun i t ht => (h i t).trans ht) n c rfl

@[simp] theorem trail_space_flight_move (m i : Int) (c : GameContext) :
    trail (space_flight_move m i c) = trail c := by
  unfold space_flight_move; dsimp only; split_ifs <;> rfl

@[simp] theorem trail_space_flight_grow (m i : Int) (c : GameContext) :
    trail (space_flight_grow m i c) = trail c := rfl

@[simp] theorem trail_space_flight_take (d : Int) (c : GameContext) :
    trail (space_flight_take d c) = trail c := by
  unfold space_flight_take; split_ifs <;> rfl

@[simp] theorem trail_space_flight_redock (tick rnd : Nat → Nat) (s : Run) :
    trail (space_flight_redock tick rnd s).ctx = trail s.ctx := by
  unfold space_flight_redock; split_ifs <;> rfl

@[simp] theorem trail_space_flight_hit (tick rnd : Nat → Nat) (i : Int) (s : Run) :
    trail (space_flight_hit tick rnd i s).ctx = trail s.ctx := by
  unfold space_flight_hit; split_ifs <;> simp

@[simp] theorem trail_space_flight_cull (i : Int) (c : GameContext) :
    trail (space_flight_cull i c) = trail c := by
  unfold space_flight_cull; split_ifs <;> rfl

@[simp] theorem trail_space_flight_object (tick rnd : Nat → Nat) (m i : Int) (s : Run) :
    trail (space_flight_object tick rnd m i s).ctx = trail s.ctx := by
  unfold space_flight_object; simp

@[simp] theorem trail_space_flight_place (r0 r1 i : Int) (c : GameContext) :
    trail (space_flight_place r0 r1 i c) = trail c := rfl

@[simp] theorem trail_space_flight_pickup_draw (rnd : Nat → Nat) (i : Int) (s : Run) :
    trail (space_flight_pickup_draw rnd i s).ctx = trail s.ctx := by
  unfold space_flight_pickup_draw; split_ifs <;> rfl

@[simp] theorem trail_space_flight_spawn (rnd : Nat → Nat) (i : Int) (s : Run) :
    trail (space_flight_spawn rnd i s).ctx = trail s.ctx := by
  unfold space_flight_spawn; simp

@[simp] theorem trail_space_flight_collect (i : Int) (c : GameContext) :
    trail (space_flight_collect i c) = trail c := by
  unfold space_flight_collect; dsimp only; split_ifs <;> rfl

@[simp] theorem trail_space_flight_pickup (i : Int) (c : GameContext) :
    trail (space_flight_pickup i c) = trail c := by
  unfold space_flight_pickup; split_ifs <;> simp

@[simp] theorem trail_space_flight_slot (tick rnd : Nat → Nat) (m : Int) (i : Nat) (s : Run) :
    trail (space_flight_slot tick rnd m i s).ctx = trail s.ctx := by
  unfold space_flight_slot; split_ifs <;> simp

@[simp] theorem trail_space_flight_objects (tick rnd : Nat → Nat) (m : Int) (s : Run) :
    trail (space_flight_objects tick rnd m s).ctx = trail s.ctx := by
  unfold space_flight_objects
  exact for_loop_trail _ (fun i t => trail_space_flight_slot tick rnd m i t) _ s

@[simp] theorem trail_space_flight_match (tick : Nat → Nat) (s : Run) :
    trail (space_flight_match tick s).ctx = trail s.ctx := by
  unfold space_flight_match space_flight_manoeuvre; split_ifs <;> rfl

/-! ## Space Flight: the redock -/

theorem space_flight_redock_fields (tick rnd : Nat → Nat) (s : Run)
    (h : s.ctx.ship_health ≤ 0) :
    (9 ≤ (space_flight_redock tick rnd s).ctx.ship_health ∧
      (space_flight_redock tick rnd s).ctx.ship_health ≤ 199) ∧
    (19 ≤ (space_flight_redock tick rnd s).ctx.ship_armor ∧
      (space_flight_redock tick rnd s).ctx.ship_armor ≤ 99) ∧
    (space_flight_redock tick rnd s).ctx.screen_type = 8 ∧
    (space_flight_redock tick rnd s).ctx.last_sequence_time = furi_get_tick tick s.ticks := by
  have h1 := tmod_range (rnd s.rands) 191 (by decide)
  have h2 := tmod_range (rnd (s.rands + 1)) 81 (by decide)
  unfold space_flight_redock
  rw [if_pos h]
  refine ⟨?_, ?_, rfl, rfl⟩
  · show 9 ≤ Int.tmod (rnd s.rands) 191 + 9 ∧ Int.tmod (rnd s.rands) 191 + 9 ≤ 199
    omega
  · show 19 ≤ Int.tmod (rnd (s.rands + 1)) 81 + 19 ∧ Int.tmod (rnd (s.rands + 1)) 81 + 19 ≤ 99
    omega

theorem space_flight_hit_health (tick rnd : Nat → Nat) (i : Int) (s : Run)
    (h : 1 ≤ s.ctx.ship_health) : 1 ≤ (space_flight_hit tick rnd i s).ctx.ship_health := by
  by_cases hh : space_flight_hits s.ctx i
  · rw [space_flight_hit_inside tick rnd i s hh]
    have e := congrArg (fun p : Int × Int × Int => p.2.1)
      (ship_space_flight_step tick rnd (space_flight_damage s.ctx i) s)
    have e2 : (space_flight_redock tick rnd
        (Run.map (space_flight_take (space_flight_damage s.ctx i)) s)).ctx.ship_health =
        (if s.ctx.ship_armor > 0 then
          if s.ctx.ship_health ≤ 0 then
            (Int.tmod (rnd (s.rands + 1)) 81 + 19, Int.tmod (rnd s.rands) 191 + 9, (8 : Int))
          else (s.ctx.ship_armor - space_flight_damage s.ctx i, s.ctx.ship_health,
            s.ctx.screen_type)
        else if s.ctx.ship_health - space_flight_damage s.ctx i ≤ 0 then
          (Int.tmod (rnd (s.rands + 1)) 81 + 19, Int.tmod (rnd s.rands) 191 + 9, 8)
        else (s.ctx.ship_armor, s.ctx.ship_health - space_flight_damage s.ctx i,
          s.ctx.screen_type)).2.1 := e
    rw [e2]
    have h1 := tmod_range (rnd s.rands) 191 (by decide)
    split_ifs
    · show 1 ≤ Int.tmod (rnd s.rands) 191 + 9
      omega
    · exact h
    · show 1 ≤ Int.tmod (rnd s.rands) 191 + 9
      omega
    · show 1 ≤ s.ctx.ship_health - space_flight_damage s.ctx i
      omega
  · rw [space_flight_hit_outside tick rnd i s hh]
    exact h

theorem space_flight_slot_health (tick rnd : Nat → Nat) (m : Int) (i : Nat) (s : Run)
    (h : 1 ≤ s.ctx.ship_health) : 1 ≤ (space_flight_slot tick rnd m i s).ctx.ship_health := by
  unfold space_flight_slot
  split_ifs
  · rw [space_flight_object_ctx]
    have c := ship_fields (ship_space_flight_cull i
      (space_flight_hit tick rnd i (Run.map (space_flight_grown m i) s)).ctx)
    have g := ship_fields (ship_space_flight_grown m i s.ctx)
    show 1 ≤ (space_flight_cull i _).ship_health
    rw [c.2.1]
    exact space_flight_hit_health tick rnd i _ (by rw [run_map_ctx, g.2.1]; exact h)
  · have e : ship (space_flight_spawn rnd i s.drawn).ctx = ship s.ctx := by
      unfold space_flight_spawn space_flight_pickup_draw space_flight_place
      dsimp only
      split_ifs <;> rfl
    rw [(ship_fields e).2.1]
    exact h
  · show 1 ≤ (space_flight_pickup i s.ctx).ship_health
    unfold space_flight_pickup space_flight_collect
    dsimp only
    split_ifs
    · show 1 ≤ s.ctx.ship_health + 10
      omega
    · exact h
    · exact h
    · exact h
    · exact h

theorem update_space_flight_health (ctx : GameContext) (tick rnd : Nat → Nat)
    (h : 1 ≤ ctx.ship_health) : 1 ≤ (update_space_flight ctx tick rnd).ship_health := by
  unfold update_space_flight
  split_ifs
  · exact h
  · have h1 : 1 ≤ (space_flight_objects tick rnd (Int.tdiv ctx.speed_bpm 78)
        (stamped ctx tick)).ctx.ship_health := by
      unfold space_flight_objects
      apply for_loop_inv (fun t : Run => 1 ≤ t.ctx.ship_health)
      · intro i t ht
        exact space_flight_slot_health tick rnd _ i t ht
      · exact h
    have h2 : ∀ t : Run, (space_flight_sequences tick t).ctx.ship_health = t.ctx.ship_health := by
      intro t
      have hr : (space_flight_record t.ctx).ship_health = t.ctx.ship_health := by
        unfold space_flight_record
        dsimp only
        split_ifs <;> rfl
      have hm : ∀ u : Run, (space_flight_match tick u).ctx.ship_health = u.ctx.ship_health := by
        intro u
        unfold space_flight_match
        split_ifs <;> rfl
      unfold space_flight_sequences
      split_ifs
      · rw [hm]
        exact hr
      · rfl
    rw [h2]
    exact h1

theorem dock_fields {c r : GameContext} (h : dock r = dock c) :
    r.last_sequence_time = c.last_sequence_time ∧ r.screen_type = c.screen_type :=
  ⟨congrArg Prod.fst h, congrArg Prod.snd h⟩

theorem dock_space_flight_grown (m i : Int) (ctx : GameContext) :
    dock (space_flight_grown m i ctx) = dock ctx := by
  unfold space_flight_grown space_flight_grow space_flight_move
  dsimp only
  split_ifs <;> rfl

theorem dock_space_flight_cull (i : Int) (ctx : GameContext) :
    dock (space_flight_cull i ctx) = dock ctx := by
  unfold space_flight_cull
  split_ifs <;> rfl

theorem dock_space_flight_take (damage : Int) (ctx : GameContext) :
    dock (space_flight_take damage ctx) = dock ctx := by
  unfold space_flight_take
  split_ifs <;> rfl

/-- The redock either does nothing or reads the clock once, stamps the time of the last
sequence with it and sets the view to 8. -/
theorem space_flight_redock_dock (tick rnd : Nat → Nat) (s : Run) :
    ((space_flight_redock tick rnd s).ticks = s.ticks ∧
      dock (space_flight_redock tick rnd s).ctx = dock s.ctx) ∨
    ((space_flight_redock tick rnd s).ticks = s.ticks + 1 ∧
      dock (space_flight_redock tick rnd s).ctx = (furi_get_tick tick s.ticks, 8)) := by
  unfold space_flight_redock
  split_ifs
  · exact Or.inr ⟨rfl, rfl⟩
  · exact Or.inl ⟨rfl, rfl⟩

theorem space_flight_hit_dock (tick rnd : Nat → Nat) (i : Int) (s : Run) :
    ((space_flight_hit tick rnd i s).ticks = s.ticks ∧
      dock (space_flight_hit tick rnd i s).ctx = dock s.ctx) ∨
    ((space_flight_hit tick rnd i s).ticks = s.ticks + 1 ∧
      dock (space_flight_hit tick rnd i s).ctx = (furi_get_tick tick s.ticks, 8)) := by
  by_cases hh : space_flight_hits s.ctx i
  · rw [space_flight_hit_inside tick rnd i s hh]
    rcases space_flight_redock_dock tick rnd
      (Run.map (space_flight_take (space_flight_damage s.ctx i)) s) with ⟨a, b⟩ | ⟨a, b⟩
    · left
      refine ⟨a, b.trans ?_⟩
      exact dock_space_flight_take _ _
    · right
      exact ⟨a, b⟩
  · rw [space_flight_hit_outside tick rnd i s hh]
    exact Or.inl ⟨rfl, rfl⟩

/-- One pass of the object loop: the clock is read only by a redock. -/
theorem space_flight_slot_dock (tick rnd : Nat → Nat) (m : Int) (i : Nat) (s : Run) :
    ((space_flight_slot tick rnd m i s).ticks = s.ticks ∧
      dock (space_flight_slot tick rnd m i s).ctx = dock s.ctx) ∨
    ((space_flight_slot tick rnd m i s).ticks = s.ticks + 1 ∧
      dock (space_flight_slot tick rnd m i s).ctx = (furi_get_tick tick s.ticks, 8)) := by
  unfold space_flight_slot
  split_ifs
  · rw [space_flight_object_ctx]
    have g : dock (Run.map (space_flight_grown m i) s).ctx = dock s.ctx :=
      dock_space_flight_grown m i s.ctx
    have t : (Run.map (space_flight_grown m i) s).ticks = s.ticks := rfl
    rcases space_flight_hit_dock tick rnd i (Run.map (space_flight_grown m i) s)
      with ⟨a, b⟩ | ⟨a, b⟩
    · left
      refine ⟨a.trans t, ?_⟩
      show dock (space_flight_cull i _) = _
      rw [dock_space_flight_cull, b, g]
    · right
      refine ⟨a.trans (by rw [t]), ?_⟩
      show dock (space_flight_cull i _) = _
      rw [dock_space_flight_cull, b, t]
  · left
    constructor
    · unfold space_flight_spawn space_flight_pickup_draw
      split_ifs <;> rfl
    · unfold space_flight_spawn space_flight_pickup_draw space_flight_place
      dsimp only
      split_ifs <;> rfl
  · left
    refine ⟨rfl, ?_⟩
    show dock (space_flight_pickup i s.ctx) = dock s.ctx
    unfold space_flight_pickup space_flight_collect
    dsimp only
    split_ifs <;> rfl

/-- After the object loop of `update_space_flight` either no redock ran, two readings of
the clock were made and the time of the last sequence and the view are as before the update,
or the last redock made the latest reading, which is the time of the last sequence, and the
view is 8. -/
theorem space_flight_after_objects_dock (ctx : GameContext) (tick rnd : Nat → Nat) :
    ((space_flight_after_objects ctx tick rnd).ticks = 2 ∧
      dock (space_flight_after_objects ctx tick rnd).ctx = dock ctx) ∨
    (2 < (space_flight_after_objects ctx tick rnd).ticks ∧
      dock (space_flight_after_objects ctx tick rnd).ctx =
        (furi_get_tick tick ((space_flight_after_objects ctx tick rnd).ticks - 1), 8)) := by
  unfold space_flight_after_objects space_flight_objects
  apply for_loop_inv (fun t : Run =>
    (t.ticks = 2 ∧ dock t.ctx = dock ctx) ∨
    (2 < t.ticks ∧ dock t.ctx = (furi_get_tick tick (t.ticks - 1), 8)))
  · intro i t ht
    rcases space_flight_slot_dock tick rnd (Int.tdiv ctx.speed_bpm 78) i t with ⟨a, b⟩ | ⟨a, b⟩
    · rcases ht with ⟨c, d⟩ | ⟨c, d⟩
      · exact Or.inl ⟨a.trans c, b.trans d⟩
      · right
        rw [a]
        exact ⟨c, b.trans d⟩
    · right
      rw [a, b]
      have : 2 ≤ t.ticks := by
        rcases ht with ⟨c, _⟩ | ⟨c, _⟩ <;> omega
      exact ⟨by omega, by rw [Nat.add_sub_cancel]⟩
  · exact Or.inl ⟨rfl, rfl⟩

/-- The object loop leaves the history and the hold flags alone. -/
theorem space_flight_after_objects_inputs (ctx : GameContext) (tick rnd : Nat → Nat) :
    (space_flight_after_objects ctx tick rnd).ctx.recent_inputs = ctx.recent_inputs ∧
    (space_flight_after_objects ctx tick rnd).ctx.is_holding = ctx.is_holding := by
  unfold space_flight_after_objects
  constructor
  · exact trail_space_flight_objects tick rnd _ (stamped ctx tick)
  · exact congrArg Steady.is_holding (steady_space_flight_objects tick rnd _ (stamped ctx tick))

theorem update_space_flight_run (ctx : GameContext) (tick rnd : Nat → Nat)
    (h : ¬ rate_limited ctx (speed_fps ctx) tick) :
    update_space_flight ctx tick rnd =
      (space_flight_sequences tick (space_flight_after_objects ctx tick rnd)).ctx := by
  unfold update_space_flight space_flight_after_objects
  rw [if_neg h]

/-- The sequences step on a run: within the cooldown nothing changes; past it the history
is the old one shifted with the held direction appended, and the view and the time of the
last sequence follow the four patterns. -/
theorem space_flight_sequences_fields (tick : Nat → Nat) (s : Run) :
    (¬ sub32 (furi_get_tick tick s.ticks) s.ctx.last_sequence_time > 1963 →
      (space_flight_sequences tick s).ctx = s.ctx) ∧
    (sub32 (furi_get_tick tick s.ticks) s.ctx.last_sequence_time > 1963 →
      history (space_flight_sequences tick s).ctx =
        [s.ctx.recent_inputs 1, s.ctx.recent_inputs 2, s.ctx.recent_inputs 3,
         s.ctx.recent_inputs 4,
         appended_direction (s.ctx.is_holding 0) (s.ctx.is_holding 4) (s.ctx.is_holding 1)
           (s.ctx.is_holding 3) (s.ctx.is_holding 2)] ∧
      (history (space_flight_sequences tick s).ctx = [0, 0, 0, 0, 2] ∨
        history (space_flight_sequences tick s).ctx = [0, 4, 4, 4, 2] →
        (space_flight_sequences tick s).ctx.screen_type = 5 ∧
        (space_flight_sequences tick s).ctx.last_sequence_time =
          furi_get_tick tick (s.ticks + 1)) ∧
      (history (space_flight_sequences tick s).ctx = [1, 1, 1, 1, 1] ∨
        history (space_flight_sequences tick s).ctx = [3, 3, 3, 3, 3] →
        (space_flight_sequences tick s).ctx.screen_type = 6 ∧
        (space_flight_sequences tick s).ctx.last_sequence_time =
          furi_get_tick tick (s.ticks + 1)) ∧
      (history (space_flight_sequences tick s).ctx ≠ [0, 0, 0, 0, 2] →
        history (space_flight_sequences tick s).ctx ≠ [0, 4, 4, 4, 2] →
        history (space_flight_sequences tick s).ctx ≠ [1, 1, 1, 1, 1] →
        history (space_flight_sequences tick s).ctx ≠ [3, 3, 3, 3, 3] →
        (space_flight_sequences tick s).ctx.screen_type = s.ctx.screen_type ∧
        (space_flight_sequences tick s).ctx.last_sequence_time = s.ctx.last_sequence_time)) := by
  constructor
  · intro h
    have h0 : ¬ sub32 (s.now tick) s.ctx.last_sequence_time > 1963 := h
    unfold space_flight_sequences
    rw [if_neg h0]
    rfl
  · intro h
    have h0 : sub32 (s.now tick) s.ctx.last_sequence_time > 1963 := h
    have e : space_flight_sequences tick s =
        space_flight_match tick (Run.map space_flight_record s.read) := by
      unfold space_flight_sequences
      rw [if_pos h0]
    obtain ⟨m1, m2, m3, m4⟩ := space_flight_match_fields tick (Run.map space_flight_record s.read)
    obtain ⟨r0, r1, r2, r3, r4⟩ := space_flight_record_history s.ctx
    obtain ⟨q1, q2⟩ := space_flight_record_rest s.ctx
    have hh : history (space_flight_sequences tick s).ctx =
        history (Run.map space_flight_record s.read).ctx := by
      unfold history
      rw [e, m1]
    have hv : history (Run.map space_flight_record s.read).ctx =
        [s.ctx.recent_inputs 1, s.ctx.recent_inputs 2, s.ctx.recent_inputs 3,
         s.ctx.recent_inputs 4,
         appended_direction (s.ctx.is_holding 0) (s.ctx.is_holding 4) (s.ctx.is_holding 1)
           (s.ctx.is_holding 3) (s.ctx.is_holding 2)] := by
      show history (space_flight_record s.ctx) = _
      unfold history
      rw [r0, r1, r2, r3, r4, held_direction_eq]
    rw [hh]
    refine ⟨hv, ?_, ?_, ?_⟩
    · intro hp
      rw [e]
      exact m2 hp
    · intro hp
      rw [e]
      exact m3 hp
    · intro n1 n2 n3 n4
      rw [e, m4 n1 n2 n3 n4]
      exact ⟨q1, q2⟩

theorem space_flight_hit_objects (tick rnd : Nat → Nat) (i : Int) (s : Run) :
    (space_flight_hit tick rnd i s).ctx.objects = s.ctx.objects := by
  unfold space_flight_hit space_flight_redock space_flight_take Run.map
  dsimp only
  split_ifs <;> rfl

theorem space_flight_grown_others (m : Int) (i : Nat) (ctx : GameContext) (j : Fin 8)
    (hj : j.val ≠ i) : (space_flight_grown m i ctx).objects j = ctx.objects j := by
  funext l
  unfold space_flight_grown space_flight_grow space_flight_move
  dsimp only
  split_ifs <;> simp [set2] <;> omega

theorem space_flight_cull_others (i : Nat) (ctx : GameContext) (j : Fin 8)
    (hj : j.val ≠ i) : (space_flight_cull i ctx).objects j = ctx.objects j := by
  funext l
  unfold space_flight_cull
  split_ifs
  · simp [set2]
    omega
  · rfl

theorem space_flight_spawn_others (rnd : Nat → Nat) (i : Nat) (s : Run) (j : Fin 8)
    (hj : j.val ≠ i) : (space_flight_spawn rnd i s).ctx.objects j = s.ctx.objects j := by
  funext l
  unfold space_flight_spawn space_flight_pickup_draw space_flight_place
  dsimp only
  split_ifs <;> simp [set2, Run.map, Run.drawn] <;> omega

theorem space_flight_pickup_others (i : Nat) (ctx : GameContext) (j : Fin 8)
    (hj : j.val ≠ i) : (space_flight_pickup i ctx).objects j = ctx.objects j := by
  funext l
  unfold space_flight_pickup space_flight_collect
  dsimp only
  split_ifs <;> simp [set2] <;> omega

/-- A pass of the object loop over slot `i` writes no other row of `objects`. -/
theorem space_flight_slot_others (tick rnd : Nat → Nat) (m : Int) (i : Nat) (s : Run)
    (j : Fin 8) (hj : j.val ≠ i) :
    (space_flight_slot tick rnd m i s).ctx.objects j = s.ctx.objects j := by
  unfold space_flight_slot
  split_ifs
  · rw [space_flight_object_ctx]
    show (space_flight_cull i _).objects j = _
    rw [space_flight_cull_others i _ j hj, space_flight_hit_objects]
    exact space_flight_grown_others m i s.ctx j hj
  · exact space_flight_spawn_others rnd i s.drawn j hj
  · exact space_flight_pickup_others i s.ctx j hj

/-- A pass over a slot of size 0: the ship, the time of the last sequence and the view are
as before and the clock is not read. -/
theorem space_flight_slot_empty (tick rnd : Nat → Nat) (m : Int) (i : Nat) (s : Run)
    (h : get2 s.ctx.objects (i : Int) 2 = 0) :
    (space_flight_slot tick rnd m i s).ticks = s.ticks ∧
    ship (space_flight_slot tick rnd m i s).ctx = ship s.ctx ∧
    dock (space_flight_slot tick rnd m i s).ctx = dock s.ctx := by
  unfold space_flight_slot
  rw [if_neg (by omega)]
  split_ifs
  · refine ⟨?_, ?_, ?_⟩
    · unfold space_flight_spawn space_flight_pickup_draw
      split_ifs <;> rfl
    · unfold space_flight_spawn space_flight_pickup_draw space_flight_place
      dsimp only
      split_ifs <;> rfl
    · unfold space_flight_spawn space_flight_pickup_draw space_flight_place
      dsimp only
      split_ifs <;> rfl
  · have e : space_flight_pickup i s.drawn.ctx = s.drawn.ctx := by
      unfold space_flight_pickup
      have h2 : get2 s.drawn.ctx.objects (i : Int) 2 = 0 := h
      rw [if_neg (by omega)]
    show (Run.map (space_flight_pickup i) s.drawn).ticks = _ ∧
      ship (space_flight_pickup i s.drawn.ctx) = _ ∧ dock (space_flight_pickup i s.drawn.ctx) = _
    rw [e]
    exact ⟨rfl, rfl, rfl⟩

/-- The row of slot `i` after the move and the growth depends on that row and on the view
only. -/
theorem space_flight_grown_row (m : Int) (i : Nat) (hi : i < 8) (c d : GameContext)
    (h1 : c.objects ⟨i, hi⟩ = d.objects ⟨i, hi⟩) (h2 : c.screen_type = d.screen_type) :
    (space_flight_grown m i c).objects ⟨i, hi⟩ = (space_flight_grown m i d).objects ⟨i, hi⟩ := by
  have g : ∀ (a : Fin 8 → Fin 3 → Int) (l : Nat) (hl : l < 3),
      get2 a (i : Int) (l : Int) = a ⟨i, hi⟩ ⟨l, hl⟩ := fun a l hl => get2_nat_fin a i l hi hl
  funext l
  unfold space_flight_grown space_flight_grow space_flight_move
  dsimp only
  rw [h2]
  have k0 := fun a => g a 0 (by decide)
  have k1 := fun a => g a 1 (by decide)
  have k2 := fun a => g a 2 (by decide)
  simp only [Nat.cast_zero, Nat.cast_one, Nat.cast_ofNat] at k0 k1 k2
  split_ifs <;> simp only [k0, k1, k2] <;> simp [set2, h1]

theorem space_flight_take_health (damage : Int) (c : GameContext) :
    (space_flight_take damage c).ship_health =
      (if c.ship_armor > 0 then c.ship_health else c.ship_health - damage) := by
  unfold space_flight_take
  split_ifs <;> rfl

theorem space_flight_hits_row (i : Nat) (hi : i < 8) (c d : GameContext)
    (h : c.objects ⟨i, hi⟩ = d.objects ⟨i, hi⟩) :
    space_flight_hits c i ↔ space_flight_hits d i := by
  have g : ∀ (a : Fin 8 → Fin 3 → Int) (l : Nat) (hl : l < 3),
      get2 a (i : Int) (l : Int) = a ⟨i, hi⟩ ⟨l, hl⟩ := fun a l hl => get2_nat_fin a i l hi hl
  have k0 := fun a => g a 0 (by decide)
  have k1 := fun a => g a 1 (by decide)
  have k2 := fun a => g a 2 (by decide)
  simp only [Nat.cast_zero, Nat.cast_one, Nat.cast_ofNat] at k0 k1 k2
  unfold space_flight_hits
  rw [k0, k1, k2, k0, k1, k2, h]

theorem space_flight_damage_row (i : Nat) (hi : i < 8) (c d : GameContext)
    (h : c.objects ⟨i, hi⟩ = d.objects ⟨i, hi⟩) (h2 : c.screen_type = d.screen_type) :
    space_flight_damage c i = space_flight_damage d i := by
  have g : ∀ (a : Fin 8 → Fin 3 → Int) (l : Nat) (hl : l < 3),
      get2 a (i : Int) (l : Int) = a ⟨i, hi⟩ ⟨l, hl⟩ := fun a l hl => get2_nat_fin a i l hi hl
  have k0 := fun a => g a 0 (by decide)
  have k2 := fun a => g a 2 (by decide)
  simp only [Nat.cast_zero, Nat.cast_ofNat] at k0 k2
  unfold space_flight_damage
  rw [k0, k2, k0, k2, h, h2]

/-- The pass over a live object that is hit and whose damage uses the health up: the
redock reads the clock, redraws health and armor, sets the view to 8 and stamps the time
of the last sequence. -/
theorem space_flight_slot_redocks (tick rnd : Nat → Nat) (m : Int) (i : Nat) (s : Run)
    (hp : get2 s.ctx.objects (i : Int) 2 > 0)
    (hh : space_flight_hits (space_flight_grown m i s.ctx) i)
    (hd : (space_flight_take (space_flight_damage (space_flight_grown m i s.ctx) i)
      s.ctx).ship_health ≤ 0) :
    (space_flight_slot tick rnd m i s).ticks = s.ticks + 1 ∧
    (9 ≤ (space_flight_slot tick rnd m i s).ctx.ship_health ∧
      (space_flight_slot tick rnd m i s).ctx.ship_health ≤ 199) ∧
    (19 ≤ (space_flight_slot tick rnd m i s).ctx.ship_armor ∧
      (space_flight_slot tick rnd m i s).ctx.ship_armor ≤ 99) ∧
    dock (space_flight_slot tick rnd m i s).ctx = (furi_get_tick tick s.ticks, 8) := by
  have e : space_flight_slot tick rnd m i s =
      Run.map (space_flight_cull i)
        (space_flight_redock tick rnd
          (Run.map (space_flight_take
            (space_flight_damage (Run.map (space_flight_grown m i) s).ctx i))
            (Run.map (space_flight_grown m i) s))) := by
    unfold space_flight_slot
    rw [if_pos hp, space_flight_object_ctx, space_flight_hit_inside tick rnd i _ hh]
  have g := ship_fields (ship_space_flight_grown m i s.ctx)
  have hd2 : (Run.map (space_flight_take
      (space_flight_damage (Run.map (space_flight_grown m i) s).ctx i))
      (Run.map (space_flight_grown m i) s)).ctx.ship_health ≤ 0 := by
    show (space_flight_take (space_flight_damage (space_flight_grown m i s.ctx) i)
      (space_flight_grown m i s.ctx)).ship_health ≤ 0
    rw [space_flight_take_health, g.1, g.2.1]
    rw [space_flight_take_health] at hd
    exact hd
  obtain ⟨r1, r2, r3, r4⟩ := space_flight_redock_fields tick rnd _ hd2
  have rt : (space_flight_redock tick rnd
      (Run.map (space_flight_take
        (space_flight_damage (Run.map (space_flight_grown m i) s).ctx i))
        (Run.map (space_flight_grown m i) s))).ticks = s.ticks + 1 := by
    unfold space_flight_redock
    rw [if_pos hd2]
    rfl
  rw [e]
  generalize space_flight_redock tick rnd
      (Run.map (space_flight_take
        (space_flight_damage (Run.map (space_flight_grown m i) s).ctx i))
        (Run.map (space_flight_grown m i) s)) = u at r1 r2 r3 r4 rt
  have c := ship_fields (ship_space_flight_cull i u.ctx)
  have cd := dock_fields (dock_space_flight_cull i u.ctx)
  refine ⟨rt, ?_, ?_, ?_⟩
  · show 9 ≤ (space_flight_cull i u.ctx).ship_health ∧ (space_flight_cull i u.ctx).ship_health ≤ 199
    rw [c.2.1]
    exact r1
  · show 19 ≤ (space_flight_cull i u.ctx).ship_armor ∧ (space_flight_cull i u.ctx).ship_armor ≤ 99
    rw [c.1]
    exact r2
  · show dock (space_flight_cull i u.ctx) = _
    rw [dock_space_flight_cull]
    unfold dock
    rw [r3, r4]
    rfl

theorem space_flight_sequences_ship (tick : Nat → Nat) (t : Run) :
    (space_flight_sequences tick t).ctx.ship_health = t.ctx.ship_health ∧
    (space_flight_sequences tick t).ctx.ship_armor = t.ctx.ship_armor := by
  have hr : (space_flight_record t.ctx).ship_health = t.ctx.ship_health ∧
      (space_flight_record t.ctx).ship_armor = t.ctx.ship_armor := by
    unfold space_flight_record
    dsimp only
    split_ifs <;> exact ⟨rfl, rfl⟩
  have hm : ∀ u : Run, (space_flight_match tick u).ctx.ship_health = u.ctx.ship_health ∧
      (space_flight_match tick u).ctx.ship_armor = u.ctx.ship_armor := by
    intro u
    unfold space_flight_match
    split_ifs <;> exact ⟨rfl, rfl⟩
  unfold space_flight_sequences
  split_ifs
  · rw [(hm _).1, (hm _).2]
    exact hr
  · exact ⟨rfl, rfl⟩

/-- The object loop of `update_space_flight` when slot `i` holds the only object, it is
hit, and the damage uses the health up: three readings of the clock were made, the third
by the redock. -/
theorem space_flight_after_objects_redocked (ctx : GameContext) (tick rnd : Nat → Nat)
    (i : Nat) (hi : i < 8)
    (hl : ∀ k : Fin 8, k.val ≠ i → ctx.objects k 2 = 0)
    (hp : 0 < ctx.objects ⟨i, hi⟩ 2)
    (hh : space_flight_hits (space_flight_grown (Int.tdiv ctx.speed_bpm 78) i ctx) i)
    (hd : (space_flight_take
      (space_flight_damage (space_flight_grown (Int.tdiv ctx.speed_bpm 78) i ctx) i)
      ctx).ship_health ≤ 0) :
    (space_flight_after_objects ctx tick rnd).ticks = 3 ∧
    (9 ≤ (space_flight_after_objects ctx tick rnd).ctx.ship_health ∧
      (space_flight_after_objects ctx tick rnd).ctx.ship_health ≤ 199) ∧
    (19 ≤ (space_flight_after_objects ctx tick rnd).ctx.ship_armor ∧
      (space_flight_after_objects ctx tick rnd).ctx.ship_armor ≤ 99) ∧
    dock (space_flight_after_objects ctx tick rnd).ctx = (furi_get_tick tick 2, 8) := by
  have key := for_loop_inv_lt (fun (k : Nat) (t : Run) =>
      (∀ j : Fin 8, k ≤ j.val → j.val ≠ i → t.ctx.objects j 2 = 0) ∧
      (k ≤ i → t.ticks = 2 ∧ ship t.ctx = ship ctx ∧
        t.ctx.objects ⟨i, hi⟩ = ctx.objects ⟨i, hi⟩) ∧
      (i < k → t.ticks = 3 ∧
        (9 ≤ t.ctx.ship_health ∧ t.ctx.ship_health ≤ 199) ∧
        (19 ≤ t.ctx.ship_armor ∧ t.ctx.ship_armor ≤ 99) ∧
        dock t.ctx = (furi_get_tick tick 2, 8)))
      (fun i s => space_flight_slot tick rnd (Int.tdiv ctx.speed_bpm 78) i s) 8 (by
      intro k t hk ⟨p1, p2, p3⟩
      have q1 : ∀ j : Fin 8, k + 1 ≤ j.val → j.val ≠ i →
          (space_flight_slot tick rnd (Int.tdiv ctx.speed_bpm 78) k t).ctx.objects j 2 = 0 := by
        intro j hj hji
        rw [space_flight_slot_others tick rnd _ k t j (by omega)]
        exact p1 j (by omega) hji
      by_cases hki : k = i
      · subst hki
        obtain ⟨t1, t2, t3⟩ := p2 (le_refl _)
        have ts := ship_fields t2
        have row := space_flight_grown_row (Int.tdiv ctx.speed_bpm 78) k hi t.ctx ctx t3 ts.2.2
        have hp2 : get2 t.ctx.objects (k : Int) 2 > 0 := by
          have := get2_nat_fin t.ctx.objects k 2 hi (by decide)
          simp only [Nat.cast_ofNat] at this
          rw [this, t3]
          exact hp
        have hh2 : space_flight_hits (space_flight_grown (Int.tdiv ctx.speed_bpm 78) k t.ctx) k :=
          (space_flight_hits_row k hi _ _ row).2 hh
        have gs1 := ship_fields (ship_space_flight_grown (Int.tdiv ctx.speed_bpm 78) k t.ctx)
        have gs2 := ship_fields (ship_space_flight_grown (Int.tdiv ctx.speed_bpm 78) k ctx)
        have hdm := space_flight_damage_row k hi _ _ row
          (by rw [gs1.2.2, gs2.2.2, ts.2.2])
        have hd2 : (space_flight_take
            (space_flight_damage (space_flight_grown (Int.tdiv ctx.speed_bpm 78) k t.ctx) k)
            t.ctx).ship_health ≤ 0 := by
          rw [space_flight_take_health, hdm, ts.1, ts.2.1]
          rw [space_flight_take_health] at hd
          exact hd
        obtain ⟨r1, r2, r3, r4⟩ := space_flight_slot_redocks tick rnd _ k t hp2 hh2 hd2
        refine ⟨q1, fun hc => absurd hc (by omega), fun _ => ⟨?_, r2, r3, ?_⟩⟩
        · rw [r1, t1]
        · rw [r4, t1]
      · have hz : get2 t.ctx.objects (k : Int) 2 = 0 := by
          have := get2_nat_fin t.ctx.objects k 2 hk (by decide)
          simp only [Nat.cast_ofNat] at this
          rw [this]
          exact p1 ⟨k, hk⟩ (le_refl _) hki
        obtain ⟨e1, e2, e3⟩ := space_flight_slot_empty tick rnd (Int.tdiv ctx.speed_bpm 78) k t hz
        have es := ship_fields e2
        refine ⟨q1, fun hc => ?_, fun hc => ?_⟩
        · obtain ⟨t1, t2, t3⟩ := p2 (by omega)
          refine ⟨e1.trans t1, e2.trans t2, ?_⟩
          rw [space_flight_slot_others tick rnd _ k t ⟨i, hi⟩ (fun hx => hki hx.symm)]
          exact t3
        · obtain ⟨t1, t2, t3, t4⟩ := p3 (by omega)
          refine ⟨e1.trans t1, ?_, ?_, e3.trans t4⟩
          · rw [es.2.1]; exact t2
          · rw [es.1]; exact t3)
      (stamped ctx tick)
      ⟨fun j _ hji => hl j hji, fun _ => ⟨rfl, rfl, rfl⟩, fun hc => absurd hc (by omega)⟩
  exact key.2.2 hi

/-- The update of Space Flight under the same conditions. -/
theorem update_space_flight_redocks (ctx : GameContext) (tick rnd : Nat → Nat)
    (i : Nat) (hi : i < 8)
    (h0 : ¬ rate_limited ctx (speed_fps ctx) tick)
    (hl : ∀ k : Fin 8, k.val ≠ i → ctx.objects k 2 = 0)
    (hp : 0 < ctx.objects ⟨i, hi⟩ 2)
    (hh : space_flight_hits (space_flight_grown (Int.tdiv ctx.speed_bpm 78) i ctx) i)
    (hd : (space_flight_take
      (space_flight_damage (space_flight_grown (Int.tdiv ctx.speed_bpm 78) i ctx) i)
      ctx).ship_health ≤ 0) :
    (9 ≤ (update_space_flight ctx tick rnd).ship_health ∧
      (update_space_flight ctx tick rnd).ship_health ≤ 199) ∧
    (19 ≤ (update_space_flight ctx tick rnd).ship_armor ∧
      (update_space_flight ctx tick rnd).ship_armor ≤ 99) ∧
    (¬ sub32 (furi_get_tick tick 3) (furi_get_tick tick 2) > 1963 →
      (update_space_flight ctx tick rnd).screen_type = 8 ∧
      (update_space_flight ctx tick rnd).last_sequence_time = furi_get_tick tick 2) := by
  obtain ⟨a1, a2, a3, a4⟩ := space_flight_after_objects_redocked ctx tick rnd i hi hl hp hh hd
  obtain ⟨s1, s2⟩ := space_flight_sequences_ship tick (space_flight_after_objects ctx tick rnd)
  have ad := dock_fields (show dock (space_flight_after_objects ctx tick rnd).ctx =
    dock ({ ctx with last_sequence_time := furi_get_tick tick 2, screen_type := 8 } :
      GameContext) from a4)
  rw [update_space_flight_run ctx tick rnd h0, s1, s2]
  refine ⟨a2, a3, fun hc => ?_⟩
  have hq : ¬ sub32 (furi_get_tick tick (space_flight_after_objects ctx tick rnd).ticks)
      (space_flight_after_objects ctx tick rnd).ctx.last_sequence_time > 1963 := by
    rw [a1, ad.1]
    exact hc
  rw [(space_flight_sequences_fields tick _).1 hq]
  exact ⟨ad.2, ad.1⟩

theorem loop_from_succ {σ : Type} (body : Nat → σ → σ) :
    ∀ (n i : Nat) (s : σ), loop_from i (n + 1) body s = body (i + n) (loop_from i n body s) := by
  intro n
  induction n with
  | zero => intro i s; rfl
  | succ n ih =>
    intro i s
    show loop_from (i + 1) (n + 1) body (body i s) = _
    rw [ih (i + 1) (body i s)]
    have e : i + 1 + n = i + (n + 1) := by omega
    rw [e]
    rfl

theorem for_loop_succ {σ : Type} (body : Nat → σ → σ) (n : Nat) (s : σ) :
    for_loop (n + 1) body s = body n (for_loop n body s) := by
  unfold for_loop
  rw [loop_from_succ body n 0 s, Nat.zero_add]

/-- The passes of the object loop in turn, and the run after the last one. -/
theorem space_flight_before_slot_step (ctx : GameContext) (tick rnd : Nat → Nat) (i : Nat) :
    space_flight_before_slot ctx tick rnd 0 = stamped ctx tick ∧
    space_flight_before_slot ctx tick rnd (i + 1) =
      space_flight_slot tick rnd (Int.tdiv ctx.speed_bpm 78) i
        (space_flight_before_slot ctx tick rnd i) ∧
    space_flight_before_slot ctx tick rnd WORLD_OBJ_LIMIT =
      space_flight_after_objects ctx tick rnd := by
  refine ⟨rfl, ?_, rfl⟩
  unfold space_flight_before_slot
  exact for_loop_succ _ i _

/-- Whenever a pass of the object loop of `update_space_flight` hits and leaves the health
at 0 or less, the pass ends redocked. -/
theorem space_flight_pass_redocks (ctx : GameContext) (tick rnd : Nat → Nat) (i : Nat)
    (hp : get2 (space_flight_before_slot ctx tick rnd i).ctx.objects (i : Int) 2 > 0)
    (hh : space_flight_hits (space_flight_grown (Int.tdiv ctx.speed_bpm 78) i
      (space_flight_before_slot ctx tick rnd i).ctx) i)
    (hd : (space_flight_take (space_flight_damage (space_flight_grown
      (Int.tdiv ctx.speed_bpm 78) i (space_flight_before_slot ctx tick rnd i).ctx) i)
      (space_flight_before_slot ctx tick rnd i).ctx).ship_health ≤ 0) :
    (space_flight_before_slot ctx tick rnd (i + 1)).ticks =
      (space_flight_before_slot ctx tick rnd i).ticks + 1 ∧
    (9 ≤ (space_flight_before_slot ctx tick rnd (i + 1)).ctx.ship_health ∧
      (space_flight_before_slot ctx tick rnd (i + 1)).ctx.ship_health ≤ 199) ∧
    (19 ≤ (space_flight_before_slot ctx tick rnd (i + 1)).ctx.ship_armor ∧
      (space_flight_before_slot ctx tick rnd (i + 1)).ctx.ship_armor ≤ 99) ∧
    (space_flight_before_slot ctx tick rnd (i + 1)).ctx.screen_type = 8 ∧
    (space_flight_before_slot ctx tick rnd (i + 1)).ctx.last_sequence_time =
      furi_get_tick tick (space_flight_before_slot ctx tick rnd i).ticks := by
  rw [(space_flight_before_slot_step ctx tick rnd i).2.1]
  obtain ⟨r1, r2, r3, r4⟩ := space_flight_slot_redocks tick rnd _ i _ hp hh hd
  have d := dock_fields (show dock (space_flight_slot tick rnd (Int.tdiv ctx.speed_bpm 78) i
      (space_flight_before_slot ctx tick rnd i)).ctx =
    dock ({ ctx with
      last_sequence_time := furi_get_tick tick (space_flight_before_slot ctx tick rnd i).ticks,
      screen_type := 8 } : GameContext) from r4)
  exact ⟨r1, r2, r3, d.2, d.1⟩

/-- C31. Space Flight redock. The hit block of `update_space_flight` (lines 1185-1200)
applies the damage and then runs the redock test at once; when the ship's health is at most
0 at that test, the health is redrawn into [9,199], the armor into [19,99], `screen_type`
becomes 8 and `last_sequence_time` the tick read there, and otherwise the test changes
nothing. Inside the update, which runs the passes of the object loop in turn from the
stamped context and then the sequences step: whenever the object of pass `i` is live, is in
the damage band and in front of the ship after its move and growth, and the damage leaves
the health at 0 or less, the pass ends with the health in [9,199], the armor in [19,99],
`screen_type` 8 and `last_sequence_time` the reading of the clock made in that pass. Over
the whole update: when it is not rate-limited and slot `i` holds the only object, with the
same three conditions on the context before the update, `update_space_flight` returns with
the health in [9,199] and the armor in [19,99]; the redock makes the third reading of the
clock of the call, and unless the sequences step that follows reads a clock more than
1963 ms later, `screen_type` is 8 and `last_sequence_time` is that third reading after the
update. And a ship with health at least 1 before `update_space_flight` has health at least
1 after it. -/
theorem space_flight_redock_rule (tick rnd : Nat → Nat) :
    (∀ (i : Int) (s : Run), space_flight_hits s.ctx i →
      space_flight_hit tick rnd i s = space_flight_redock tick rnd
        (Run.map (space_flight_take (space_flight_damage s.ctx i)) s)) ∧
    (∀ s : Run, s.ctx.ship_health ≤ 0 →
      (9 ≤ (space_flight_redock tick rnd s).ctx.ship_health ∧
        (space_flight_redock tick rnd s).ctx.ship_health ≤ 199) ∧
      (19 ≤ (space_flight_redock tick rnd s).ctx.ship_armor ∧
        (space_flight_redock tick rnd s).ctx.ship_armor ≤ 99) ∧
      (space_flight_redock tick rnd s).ctx.screen_type = 8 ∧
      (space_flight_redock tick rnd s).ctx.last_sequence_time = furi_get_tick tick s.ticks) ∧
    (∀ s : Run, 0 < s.ctx.ship_health → space_flight_redock tick rnd s = s) ∧
    (∀ (ctx : GameContext) (i : Nat),
      space_flight_before_slot ctx tick rnd 0 = stamped ctx tick ∧
      space_flight_before_slot ctx tick rnd (i + 1) =
        space_flight_slot tick rnd (Int.tdiv ctx.speed_bpm 78) i
          (space_flight_before_slot ctx tick rnd i) ∧
      (¬ rate_limited ctx (speed_fps ctx) tick →
        update_space_flight ctx tick rnd =
          (space_flight_sequences tick
            (space_flight_before_slot ctx tick rnd WORLD_OBJ_LIMIT)).ctx)) ∧
    (∀ (ctx : GameContext) (i : Nat),
      get2 (space_flight_before_slot ctx tick rnd i).ctx.objects (i : Int) 2 > 0 →
      space_flight_hits (space_flight_grown (Int.tdiv ctx.speed_bpm 78) i
        (space_flight_before_slot ctx tick rnd i).ctx) i →
      (space_flight_take (space_flight_damage (space_flight_grown
        (Int.tdiv ctx.speed_bpm 78) i (space_flight_before_slot ctx tick rnd i).ctx) i)
        (space_flight_before_slot ctx tick rnd i).ctx).ship_health ≤ 0 →
      (space_flight_before_slot ctx tick rnd (i + 1)).ticks =
        (space_flight_before_slot ctx tick rnd i).ticks + 1 ∧
      (9 ≤ (space_flight_before_slot ctx tick rnd (i + 1)).ctx.ship_health ∧
        (space_flight_before_slot ctx tick rnd (i + 1)).ctx.ship_health ≤ 199) ∧
      (19 ≤ (space_flight_before_slot ctx tick rnd (i + 1)).ctx.ship_armor ∧
        (space_flight_before_slot ctx tick rnd (i + 1)).ctx.ship_armor ≤ 99) ∧
      (space_flight_before_slot ctx tick rnd (i + 1)).ctx.screen_type = 8 ∧
      (space_flight_before_slot ctx tick rnd (i + 1)).ctx.last_sequence_time =
        furi_get_tick tick (space_flight_before_slot ctx tick rnd i).ticks) ∧
    (∀ (ctx : GameContext) (i : Nat) (hi : i < 8),
      ¬ rate_limited ctx (speed_fps ctx) tick →
      (∀ k : Fin 8, k.val ≠ i → ctx.objects k 2 = 0) →
      0 < ctx.objects ⟨i, hi⟩ 2 →
      space_flight_hits (space_flight_grown (Int.tdiv ctx.speed_bpm 78) i ctx) i →
      (space_flight_take
        (space_flight_damage (space_flight_grown (Int.tdiv ctx.speed_bpm 78) i ctx) i)
        ctx).ship_health ≤ 0 →
      (9 ≤ (update_space_flight ctx tick rnd).ship_health ∧
        (update_space_flight ctx tick rnd).ship_health ≤ 199) ∧
      (19 ≤ (update_space_flight ctx tick rnd).ship_armor ∧
        (update_space_flight ctx tick rnd).ship_armor ≤ 99) ∧
      (¬ sub32 (furi_get_tick tick 3) (furi_get_tick tick 2) > 1963 →
        (update_space_flight ctx tick rnd).screen_type = 8 ∧
        (update_space_flight ctx tick rnd).last_sequence_time = furi_get_tick tick 2)) ∧
    (∀ ctx : GameContext, 1 ≤ ctx.ship_health →
      1 ≤ (update_space_flight ctx tick rnd).ship_health) := by
  refine ⟨fun i s h => space_flight_hit_inside tick rnd i s h,
    fun s h => space_flight_redock_fields tick rnd s h, ?_, ?_,
    fun ctx i hp hh hd => space_flight_pass_redocks ctx tick rnd i hp hh hd,
    fun ctx i hi h0 hl hp hh hd => update_space_flight_redocks ctx tick rnd i hi h0 hl hp hh hd,
    fun ctx h => update_space_flight_health ctx tick rnd h⟩
  · intro s h
    unfold space_flight_redock
    rw [if_neg (not_le.2 h)]
  · intro ctx i
    obtain ⟨a, b, c⟩ := space_flight_before_slot_step ctx tick rnd i
    refine ⟨a, b, fun h => ?_⟩
    rw [c]
    exact update_space_flight_run ctx tick rnd h

/-- Witness of C31: with no armor and health 10, the object of slot 0, of size 30 at
(20, 61) after its move, takes 30 from the health; `update_space_flight` returns with
health 59, armor 69, view 8 and the time of the last sequence at 1020, the reading of the
clock. -/
theorem space_flight_redock_rule_witness :
    redock_example.ship_armor = 0 ∧ redock_example.ship_health = 10 ∧
    (space_flight_take (space_flight_damage
      (space_flight_grown (Int.tdiv redock_example.speed_bpm 78) (0 : Nat) redock_example)
      (0 : Nat)) redock_example).ship_health = -20 ∧
    (update_space_flight redock_example clock_1020 rand_fifty).ship_health = 59 ∧
    (update_space_flight redock_example clock_1020 rand_fifty).ship_armor = 69 ∧
    furi_get_tick clock_1020 2 = 1020 ∧
    ((9 ≤ (update_space_flight redock_example clock_1020 rand_fifty).ship_health ∧
        (update_space_flight redock_example clock_1020 rand_fifty).ship_health ≤ 199) ∧
      (19 ≤ (update_space_flight redock_example clock_1020 rand_fifty).ship_armor ∧
        (update_space_flight redock_example clock_1020 rand_fifty).ship_armor ≤ 99) ∧
      (¬ sub32 (furi_get_tick clock_1020 3) (furi_get_tick clock_1020 2) > 1963 →
        (update_space_flight redock_example clock_1020 rand_fifty).screen_type = 8 ∧
        (update_space_flight redock_example clock_1020 rand_fifty).last_sequence_time =
          furi_get_tick clock_1020 2)) ∧
    (update_space_flight redock_example clock_1020 rand_fifty).screen_type = 8 ∧
    (update_space_flight redock_example clock_1020 rand_fifty).last_sequence_time =
      furi_get_tick clock_1020 2 :=
  ⟨by decide, by decide, by decide, by decide, by decide, by decide,
   (space_flight_redock_rule clock_1020 rand_fifty).2.2.2.2.2.1 redock_example 0
     (by decide) (by decide) (by decide) (by decide) (by decide) (by decide),
   ((space_flight_redock_rule clock_1020 rand_fifty).2.2.2.2.2.1 redock_example 0
     (by decide) (by decide) (by decide) (by decide) (by decide) (by decide)).2.2 (by decide)⟩

/-- C32. Space Flight input sequences. A rate-limited `update_space_flight` returns the
context as it is. Otherwise the loop over the objects leaves the history and the hold
flags alone, and after it `last_sequence_time` and `screen_type` are as before the update
unless a redock of this update made the latest reading of the clock, which is then
`last_sequence_time`, with `screen_type` 8. The sequences step (lines 1223-1257) reads the
clock next: when no more than 1963 ms have elapsed since `last_sequence_time` the update
ends there and the history is not touched; when more have elapsed, the history is shifted
left by one and the held direction is appended (Up = 0, else Down = 4, else Left = 1, else
Right = 3, else Ok = 2, else -1); if the new history is [0,0,0,0,2] or [0,4,4,4,2]
`screen_type` becomes 5, if it is [1,1,1,1,1] or [3,3,3,3,3] it becomes 6, and in those
four cases `last_sequence_time` is set to the next reading of the clock; for every other
history the step changes neither field. -/
theorem space_flight_sequence_step (ctx : GameContext) (tick rnd : Nat → Nat) :
    (rate_limited ctx (speed_fps ctx) tick → update_space_flight ctx tick rnd = ctx) ∧
    (¬ rate_limited ctx (speed_fps ctx) tick →
      (space_flight_after_objects ctx tick rnd).ctx.recent_inputs = ctx.recent_inputs ∧
      (space_flight_after_objects ctx tick rnd).ctx.is_holding = ctx.is_holding ∧
      (((space_flight_after_objects ctx tick rnd).ticks = 2 ∧
          (space_flight_after_objects ctx tick rnd).ctx.last_sequence_time =
            ctx.last_sequence_time ∧
          (space_flight_after_objects ctx tick rnd).ctx.screen_type = ctx.screen_type) ∨
        (2 < (space_flight_after_objects ctx tick rnd).ticks ∧
          (space_flight_after_objects ctx tick rnd).ctx.last_sequence_time =
            furi_get_tick tick ((space_flight_after_objects ctx tick rnd).ticks - 1) ∧
          (space_flight_after_objects ctx tick rnd).ctx.screen_type = 8)) ∧
      (¬ sub32 (furi_get_tick tick (space_flight_after_objects ctx tick rnd).ticks)
          (space_flight_after_objects ctx tick rnd).ctx.last_sequence_time > 1963 →
        update_space_flight ctx tick rnd = (space_flight_after_objects ctx tick rnd).ctx ∧
        (update_space_flight ctx tick rnd).recent_inputs = ctx.recent_inputs) ∧
      (sub32 (furi_get_tick tick (space_flight_after_objects ctx tick rnd).ticks)
          (space_flight_after_objects ctx tick rnd).ctx.last_sequence_time > 1963 →
        history (update_space_flight ctx tick rnd) =
          [ctx.recent_inputs 1, ctx.recent_inputs 2, ctx.recent_inputs 3, ctx.recent_inputs 4,
           appended_direction (ctx.is_holding 0) (ctx.is_holding 4) (ctx.is_holding 1)
             (ctx.is_holding 3) (ctx.is_holding 2)] ∧
        (history (update_space_flight ctx tick rnd) = [0, 0, 0, 0, 2] ∨
          history (update_space_flight ctx tick rnd) = [0, 4, 4, 4, 2] →
          (update_space_flight ctx tick rnd).screen_type = 5 ∧
          (update_space_flight ctx tick rnd).last_sequence_time =
            furi_get_tick tick ((space_flight_after_objects ctx tick rnd).ticks + 1)) ∧
        (history (update_space_flight ctx tick rnd) = [1, 1, 1, 1, 1] ∨
          history (update_space_flight ctx tick rnd) = [3, 3, 3, 3, 3] →
          (update_space_flight ctx tick rnd).screen_type = 6 ∧
          (update_space_flight ctx tick rnd).last_sequence_time =
            furi_get_tick tick ((space_flight_after_objects ctx tick rnd).ticks + 1)) ∧
        (history (update_space_flight ctx tick rnd) ≠ [0, 0, 0, 0, 2] →
          history (update_space_flight ctx tick rnd) ≠ [0, 4, 4, 4, 2] →
          history (update_space_flight ctx tick rnd) ≠ [1, 1, 1, 1, 1] →
          history (update_space_flight ctx tick rnd) ≠ [3, 3, 3, 3, 3] →
          (update_space_flight ctx tick rnd).screen_type =
            (space_flight_after_objects ctx tick rnd).ctx.screen_type ∧
          (update_space_flight ctx tick rnd).last_sequence_time =
            (space_flight_after_objects ctx tick rnd).ctx.last_sequence_time))) := by
  constructor
  · intro h
    unfold update_space_flight
    rw [if_pos h]
  · intro h
    obtain ⟨i1, i2⟩ := space_flight_after_objects_inputs ctx tick rnd
    obtain ⟨f1, f2⟩ := space_flight_sequences_fields tick (space_flight_after_objects ctx tick rnd)
    rw [update_space_flight_run ctx tick rnd h]
    refine ⟨i1, i2, ?_, ?_, ?_⟩
    · rcases space_flight_after_objects_dock ctx tick rnd with ⟨a, b⟩ | ⟨a, b⟩
      · exact Or.inl ⟨a, (dock_fields b).1, (dock_fields b).2⟩
      · right
        have b2 := dock_fields (show dock (space_flight_after_objects ctx tick rnd).ctx =
          dock ({ ctx with
            last_sequence_time :=
              furi_get_tick tick ((space_flight_after_objects ctx tick rnd).ticks - 1),
            screen_type := 8 } : GameContext) from b)
        exact ⟨a, b2.1, b2.2⟩
    · intro hc
      rw [f1 hc]
      exact ⟨rfl, i1⟩
    · intro hc
      have := f2 hc
      rw [i1, i2] at this
      exact this

/-- Witness of C32: the history Up, Up, Up, Up, Up with Ok held, 2000 ms after the last
sequence. The update shifts it to Up, Up, Up, Up, Ok, sets the view to 5 and the time of
the sequence to 2000, the reading of the clock. -/
theorem space_flight_sequence_step_witness :
    history sequence_example = [0, 0, 0, 0, 0] ∧
    sequence_example.is_holding 2 = true ∧
    ¬ rate_limited sequence_example (speed_fps sequence_example) clock_2000 ∧
    sub32 (furi_get_tick clock_2000 (space_flight_after_objects sequence_example clock_2000
      rand_fifty).ticks)
      (space_flight_after_objects sequence_example clock_2000
        rand_fifty).ctx.last_sequence_time = 2000 ∧
    history (update_space_flight sequence_example clock_2000 rand_fifty) = [0, 0, 0, 0, 2] ∧
    furi_get_tick clock_2000 ((space_flight_after_objects sequence_example clock_2000
      rand_fifty).ticks + 1) = 2000 ∧
    (update_space_flight sequence_example clock_2000 rand_fifty).screen_type = 5 ∧
    (update_space_flight sequence_example clock_2000 rand_fifty).last_sequence_time =
      furi_get_tick clock_2000 ((space_flight_after_objects sequence_example clock_2000
        rand_fifty).ticks + 1) :=
  ⟨by decide, by decide, by decide, by decide, by decide, by decide,
   (((space_flight_sequence_step sequence_example clock_2000 rand_fifty).2
      (by decide)).2.2.2.2 (by decide)).2.1 (Or.inl (by decide))⟩

/-! ## Line Car: the track segments -/

theorem line_car_lay_positions (i j : Nat) (next length : Int) (ctx : GameContext)
    (hi : i < 5) (hj : j < 8) (k : Fin 5) (l : Fin 8) :
    (line_car_lay i j next length ctx).track_positions k l =
      if (k.val : Int) = next ∧ (l.val : Int) = (j : Int) then -length - length
      else if (k.val : Int) = (i : Int) ∧ (l.val : Int) = (j : Int) then -length
      else ctx.track_positions k l := by
  have e : get2 (set2 (set2 ctx.track_positions (i : Int) (j : Int) 0) (i : Int) (j : Int)
      (-length)) (i : Int) (j : Int) = -length :=
    get2_set2_same _ _ _ _ (by omega) (by omega)
  unfold line_car_lay
  dsimp only
  rw [e]
  unfold set2
  split_ifs <;> rfl

theorem line_car_slot_dead (rnd : Nat → Nat) (m : Int) (i j : Nat) (hi : i < 5) (hj : j < 8)
    (k : Fin 5) (l : Fin 8) (s : Run) (h : s.ctx.track_positions k l ≤ 0) :
    (line_car_slot rnd m i j s).ctx.track_positions k l ≤ 0 := by
  have hlen := tmod_range (rnd s.rands) 37 (by decide)
  unfold line_car_slot
  split_ifs with hp
  · have hne : ¬ (i = k.val ∧ j = l.val) := by
      rintro ⟨e1, e2⟩
      have e : get2 s.ctx.track_positions (i : Int) (j : Int) = s.ctx.track_positions k l := by
        rw [get2_nat_fin _ i j hi hj]
        congr 1
        · exact Fin.ext e1
        · exact Fin.ext e2
      omega
    have ha : (Run.map (line_car_advance m i j) s).ctx.track_positions k l =
        s.ctx.track_positions k l := set2_off _ i j k l _ hne
    unfold line_car_scrolled
    split_ifs
    · show (line_car_lay i j _ _ (Run.map (line_car_advance m i j) s).ctx).track_positions k l ≤ 0
      rw [line_car_lay_positions i j _ _ _ hi hj k l]
      have hr : (Run.map (line_car_advance m i j) s).rands = s.rands := rfl
      rw [hr]
      split_ifs
      · omega
      · omega
      · rw [ha]; exact h
    · rw [ha]; exact h
  · exact h

theorem line_car_scroll_dead (rnd : Nat → Nat) (m : Int) (k : Fin 5) (l : Fin 8) (s : Run)
    (h : s.ctx.track_positions k l ≤ 0) :
    (line_car_scroll rnd m s).ctx.track_positions k l ≤ 0 := by
  unfold line_car_scroll
  apply for_loop_inv_lt (fun _ (t : Run) => t.ctx.track_positions k l ≤ 0)
  · intro i t hi ht
    apply for_loop_inv_lt (fun _ (t : Run) => t.ctx.track_positions k l ≤ 0)
    · intro j u hj hu
      exact line_car_slot_dead rnd m i j hi hj k l u hu
    · exact ht
  · exact h

theorem update_line_car_tracks (ctx : GameContext) (tick rnd : Nat → Nat) :
    (update_line_car ctx tick rnd).track_positions = ctx.track_positions ∨
    (update_line_car ctx tick rnd).track_positions =
      (line_car_scroll rnd (Int.tdiv ctx.speed_bpm 78)
        (line_car_speed_adjust tick (stamped ctx tick))).ctx.track_positions := by
  unfold update_line_car
  split_ifs
  · exact Or.inl rfl
  · right
    have e : ∀ c : GameContext, c.track_positions = tracks c := fun _ => rfl
    rw [e, e, tracks_line_car_drift_slowdown, tracks_line_car_gravity,
      tracks_line_car_drift_check]
    rfl

theorem update_line_car_dead (ctx : GameContext) (tick rnd : Nat → Nat) (k : Fin 5) (l : Fin 8)
    (h : ctx.track_positions k l ≤ 0) :
    (update_line_car ctx tick rnd).track_positions k l ≤ 0 := by
  rcases update_line_car_tracks ctx tick rnd with e | e
  · rw [e]; exact h
  · rw [e]
    apply line_car_scroll_dead
    have e2 : (line_car_speed_adjust tick (stamped ctx tick)).ctx.track_positions =
        ctx.track_positions := by
      have e : ∀ c : GameContext, c.track_positions = tracks c := fun _ => rfl
      rw [e, e, tracks_line_car_speed_adjust, tracks_stamped]
    rw [e2]
    exact h

theorem live_count_mono (c r : GameContext)
    (h : ∀ k l, c.track_positions k l ≤ 0 → r.track_positions k l ≤ 0) :
    live_count r ≤ live_count c := by
  unfold live_count live_slots
  apply Finset.card_le_card
  intro p hp
  rw [Finset.mem_filter] at hp ⊢
  refine ⟨hp.1, ?_⟩
  by_contra hn
  have := h p.1 p.2 (not_lt.1 hn)
  omega

theorem line_car_session_dead (p q : GameContext × Statics)
    (hs : line_car_session p.1.state) (h : Session line_car_session p q) :
    line_car_session q.1.state ∧
    ∀ k l, p.1.track_positions k l ≤ 0 → q.1.track_positions k l ≤ 0 := by
  induction h with
  | start => exact ⟨hs, fun _ _ h => h⟩
  | step q r _ hstep hin ih =>
    obtain ⟨i1, i2⟩ := ih
    refine ⟨hin, ?_⟩
    have frame : ∀ x : GameContext, board x = board q.1 →
        ∀ k l, p.1.track_positions k l ≤ 0 → x.track_positions k l ≤ 0 := by
      intro x hb k l hk
      rw [(board_fields hb).2.2.2.2.2.2.1]
      exact i2 k l hk
    cases hstep with
    | main_loop now => exact frame _ (board_main_loop_step q.1 now)
    | input input tick rnd =>
      apply frame
      apply board_input_callback_of
      intro c hc
      rw [← hc] at i1
      unfold input_dispatch
      rcases i1 with e | e
      · rw [e]; exact board_input_line_car c input _ _
      · rw [e]; exact board_input_pause c input _
    | timer tick rnd =>
      rcases board_timer_callback q.1 q.2 tick rnd with e | e
      · exact frame _ e
      · intro k l hk
        rw [(board_fields e).2.2.2.2.2.2.1]
        have hst : (advance_frame q.1).state = q.1.state := rfl
        unfold timer_update
        rcases i1 with u | u
        · rw [hst, u]
          exact update_line_car_dead (advance_frame q.1) _ rnd k l (i2 k l hk)
        · rw [hst, u]
          exact i2 k l hk
    | render tick => exact frame _ (board_render_callback q.1 tick)

/-- C37. Line Car track segments do not come back. `update_line_car` leaves at 0 or below
every track slot whose position is 0 or below. In its scroll loop (lanes `i < 5`, slots
`j < 8`) a slot that is not live is left alone; a live slot that scrolls past
`PORTRAIT_HEIGHT` is regenerated: with the new length in [9,45], the continuation slot gets
position -2 * length and the slot itself, unless it is its own continuation, -length. So
the number of live slots does not grow under `update_line_car`, nor over any steps of a
session that stays in Line Car or its pause. -/
theorem line_car_segments_do_not_come_back (tick rnd : Nat → Nat) :
    (∀ (ctx : GameContext) (k : Fin 5) (l : Fin 8), ctx.track_positions k l ≤ 0 →
      (update_line_car ctx tick rnd).track_positions k l ≤ 0) ∧
    (∀ (m : Int) (i j : Nat) (s : Run), ¬ get2 s.ctx.track_positions i j > 0 →
      line_car_slot rnd m i j s = s) ∧
    (∀ (m : Int) (i j : Nat) (s : Run), i < 5 → j < 8 →
      get2 s.ctx.track_positions i j > 0 →
      get2 s.ctx.track_positions i j + m > PORTRAIT_HEIGHT →
      line_car_slot rnd m i j s =
        line_car_regenerate rnd i j (Run.map (line_car_advance m i j) s)) ∧
    (∀ (i j : Nat) (s : Run), i < 5 → j < 8 →
      (9 ≤ Int.tmod (rnd s.rands) 37 + 9 ∧ Int.tmod (rnd s.rands) 37 + 9 ≤ 45) ∧
      ∀ (k : Fin 5) (l : Fin 8),
        (line_car_regenerate rnd i j s).ctx.track_positions k l =
          if (k.val : Int) = next_lane i (Int.tmod (rnd (s.rands + 1)) 2)
              (Int.tmod (rnd (s.rands + 2)) 2) ∧ (l.val : Int) = (j : Int) then
            -2 * (Int.tmod (rnd s.rands) 37 + 9)
          else if (k.val : Int) = (i : Int) ∧ (l.val : Int) = (j : Int) then
            -(Int.tmod (rnd s.rands) 37 + 9)
          else s.ctx.track_positions k l) ∧
    (∀ ctx : GameContext, live_count (update_line_car ctx tick rnd) ≤ live_count ctx) ∧
    (∀ p q : GameContext × Statics, line_car_session p.1.state →
      Session line_car_session p q → live_count q.1 ≤ live_count p.1) := by
  refine ⟨fun ctx k l h => update_line_car_dead ctx tick rnd k l h, ?_, ?_, ?_, ?_, ?_⟩
  · intro m i j s h
    unfold line_car_slot
    rw [if_neg h]
  · intro m i j s hi hj hp hm
    have e : get2 (Run.map (line_car_advance m i j) s).ctx.track_positions (i : Int) (j : Int) =
        get2 s.ctx.track_positions (i : Int) (j : Int) + m :=
      get2_set2_same _ _ _ _ (by omega) (by omega)
    unfold line_car_slot line_car_scrolled
    rw [if_pos hp, if_pos (by rw [e]; exact hm)]
  · intro i j s hi hj
    have hr := tmod_range (rnd s.rands) 37 (by decide)
    refine ⟨by omega, fun k l => ?_⟩
    show (line_car_lay i j _ _ s.ctx).track_positions k l = _
    rw [line_car_lay_positions i j _ _ _ hi hj k l]
    split_ifs
    · omega
    · rfl
    · rfl
  · intro ctx
    exact live_count_mono ctx _ (fun k l h => update_line_car_dead ctx tick rnd k l h)
  · intro p q hs hq
    exact live_count_mono p.1 q.1 (line_car_session_dead p q hs hq).2

/-! ## Space Flight: the hold flags and the view -/

theorem space_flight_slot_view (tick rnd : Nat → Nat) (m : Int) (i : Nat) (s : Run) :
    (space_flight_slot tick rnd m i s).ctx.screen_type = s.ctx.screen_type ∨
    (space_flight_slot tick rnd m i s).ctx.screen_type = 8 := by
  unfold space_flight_slot
  split_ifs
  · rw [space_flight_object_ctx]
    have c := ship_fields (ship_space_flight_cull i
      (space_flight_hit tick rnd i (Run.map (space_flight_grown m i) s)).ctx)
    have g := ship_fields (ship_space_flight_grown m i s.ctx)
    show (space_flight_cull i _).screen_type = _ ∨ (space_flight_cull i _).screen_type = 8
    rw [c.2.2]
    by_cases hh : space_flight_hits (Run.map (space_flight_grown m i) s).ctx i
    · rw [space_flight_hit_inside tick rnd i _ hh]
      have e := congrArg (fun p : Int × Int × Int => p.2.2)
        (ship_space_flight_step tick rnd
          (space_flight_damage (Run.map (space_flight_grown m i) s).ctx i)
          (Run.map (space_flight_grown m i) s))
      have e2 : (space_flight_redock tick rnd
          (Run.map (space_flight_take
            (space_flight_damage (Run.map (space_flight_grown m i) s).ctx i))
            (Run.map (space_flight_grown m i) s))).ctx.screen_type = _ := e
      rw [e2]
      have g2 : (Run.map (space_flight_grown m i) s).ctx.screen_type = s.ctx.screen_type := g.2.2
      rw [g2]
      split_ifs
      · exact Or.inr rfl
      · exact Or.inl rfl
      · exact Or.inr rfl
      · exact Or.inl rfl
    · rw [space_flight_hit_outside tick rnd i _ hh]
      exact Or.inl g.2.2
  · have e : ship (space_flight_spawn rnd i s.drawn).ctx = ship s.ctx := by
      unfold space_flight_spawn space_flight_pickup_draw space_flight_place
      dsimp only
      split_ifs <;> rfl
    exact Or.inl (ship_fields e).2.2
  · left
    show (space_flight_pickup i s.ctx).screen_type = s.ctx.screen_type
    unfold space_flight_pickup space_flight_collect
    dsimp only
    split_ifs <;> rfl

theorem space_flight_objects_view (tick rnd : Nat → Nat) (m : Int) (s : Run)
    (h : s.ctx.screen_type ≠ 5 ∧ s.ctx.screen_type ≠ 6) :
    (space_flight_objects tick rnd m s).ctx.screen_type ≠ 5 ∧
    (space_flight_objects tick rnd m s).ctx.screen_type ≠ 6 := by
  unfold space_flight_objects
  apply for_loop_inv (fun t : Run => t.ctx.screen_type ≠ 5 ∧ t.ctx.screen_type ≠ 6)
  · intro i t ht
    rcases space_flight_slot_view tick rnd m i t with e | e
    · rw [e]; exact ht
    · rw [e]; exact ⟨by decide, by decide⟩
  · exact h

/-- With no key held the sequences step appends -1 and matches no pattern. -/
theorem space_flight_sequences_idle (tick : Nat → Nat) (s : Run)
    (h : ∀ k, s.ctx.is_holding k = false) :
    (space_flight_sequences tick s).ctx.screen_type = s.ctx.screen_type ∧
    ((space_flight_sequences tick s).ctx.recent_inputs = s.ctx.recent_inputs ∨
      history (space_flight_sequences tick s).ctx =
        [s.ctx.recent_inputs 1, s.ctx.recent_inputs 2, s.ctx.recent_inputs 3,
         s.ctx.recent_inputs 4, -1]) := by
  have hd : held_direction s.ctx = -1 := by
    rw [held_direction_eq, h 0, h 1, h 2, h 3, h 4]
    rfl
  obtain ⟨r0, r1, r2, r3, r4⟩ := space_flight_record_history s.ctx
  rw [hd] at r4
  have hh : history (space_flight_record s.ctx) =
      [s.ctx.recent_inputs 1, s.ctx.recent_inputs 2, s.ctx.recent_inputs 3,
       s.ctx.recent_inputs 4, -1] := by
    unfold history
    rw [r0, r1, r2, r3, r4]
  have hm : space_flight_match tick (Run.map space_flight_record s.read) =
      Run.map space_flight_record s.read := by
    apply (space_flight_match_fields tick (Run.map space_flight_record s.read)).2.2.2
    all_goals
      intro hx
      have hy : history (space_flight_record s.ctx) = _ := hx
      rw [hh] at hy
      have h5 : ((-1 : Int)) = _ := congrArg (fun l : List Int => l.getD 4 0) hy
      revert h5
      decide
  unfold space_flight_sequences
  split_ifs
  · rw [hm]
    exact ⟨(space_flight_record_rest s.ctx).1, Or.inr hh⟩
  · exact ⟨rfl, Or.inl rfl⟩

theorem update_space_flight_idle (ctx : GameContext) (tick rnd : Nat → Nat)
    (h : ∀ k, ctx.is_holding k = false)
    (hv : ctx.screen_type ≠ 5 ∧ ctx.screen_type ≠ 6) :
    ((update_space_flight ctx tick rnd).screen_type ≠ 5 ∧
      (update_space_flight ctx tick rnd).screen_type ≠ 6) ∧
    ((update_space_flight ctx tick rnd).recent_inputs = ctx.recent_inputs ∨
      history (update_space_flight ctx tick rnd) =
        [ctx.recent_inputs 1, ctx.recent_inputs 2, ctx.recent_inputs 3,
         ctx.recent_inputs 4, -1]) := by
  unfold update_space_flight
  split_ifs
  · exact ⟨hv, Or.inl rfl⟩
  · have hs : steady (space_flight_objects tick rnd (Int.tdiv ctx.speed_bpm 78)
        (stamped ctx tick)).ctx = steady ctx := by
      rw [steady_space_flight_objects, steady_stamped]
    have hh : (space_flight_objects tick rnd (Int.tdiv ctx.speed_bpm 78)
        (stamped ctx tick)).ctx.is_holding = ctx.is_holding := congrArg Steady.is_holding hs
    have ht : trail (space_flight_objects tick rnd (Int.tdiv ctx.speed_bpm 78)
        (stamped ctx tick)).ctx = trail ctx := by
      rw [trail_space_flight_objects, trail_stamped]
    have ht2 : (space_flight_objects tick rnd (Int.tdiv ctx.speed_bpm 78)
        (stamped ctx tick)).ctx.recent_inputs = ctx.recent_inputs := ht
    have hv2 := space_flight_objects_view tick rnd (Int.tdiv ctx.speed_bpm 78)
      (stamped ctx tick) hv
    obtain ⟨k1, k2⟩ := space_flight_sequences_idle tick
      (space_flight_objects tick rnd (Int.tdiv ctx.speed_bpm 78) (stamped ctx tick))
      (fun k => by rw [hh]; exact h k)
    rw [ht2] at k2
    rw [k1]
    exact ⟨hv2, k2⟩

theorem holds_input_dispatch (c : GameContext) (input : InputEvent) (now now2 : Nat)
    (rnd : Nat → Nat) (h : space_flight_only c.state) :
    holds (input_dispatch c input now now2 rnd) = holds c := by
  obtain ⟨h1, h2, h3, h4, h5⟩ := h
  unfold input_dispatch
  cases hst : c.state with
  | LOADING => rfl
  | TITLE => exact holds_input_title c input now
  | ROTATE => exact holds_input_rotate c input now rnd
  | ZERO_HERO => exact absurd hst h1
  | FLIP_ZIP => exact absurd hst h2
  | LINE_CAR => exact absurd hst h3
  | FLIP_IQ => exact absurd hst h4
  | TECTONE_SIM => exact absurd hst h5
  | SPACE_FLIGHT => exact holds_input_space_flight c input now
  | PAUSE => exact holds_input_pause c input now
  | CREDITS => exact holds_input_credits c input

theorem holds_input_callback (ctx : GameContext) (input : InputEvent) (tick rnd : Nat → Nat)
    (h : space_flight_only ctx.state) :
    (input_callback ctx input tick rnd).is_holding = ctx.is_holding :=
  holds_input_callback_of ctx input tick rnd
    (fun c hc => holds_input_dispatch c input _ _ rnd (by rw [hc]; exact h))

theorem view_input_rotate_ok (c : GameContext) (input : InputEvent) (now : Nat)
    (rnd : Nat → Nat) (hv : c.screen_type ≠ 5 ∧ c.screen_type ≠ 6) :
    (input_rotate c input now rnd).screen_type ≠ 5 ∧
    (input_rotate c input now rnd).screen_type ≠ 6 := by
  have h : view (rotate_enter c now) = view c := rfl
  have e : ∀ x : GameContext, x.screen_type = view x := fun _ => rfl
  unfold input_rotate rotate_init_game
  split_ifs
  · rw [e, view_init_line_car, h]; exact hv
  · rw [e, view_init_flip_iq, h]; exact hv
  · rw [e, view_init_tectone_sim, h]; exact hv
  · rw [(init_space_flight_facts _ rnd).2.2.1]
    exact ⟨by decide, by decide⟩
  · exact hv
  · exact hv

theorem view_space_flight_keys_ok (c : GameContext) (input : InputEvent)
    (hv : c.screen_type ≠ 5 ∧ c.screen_type ≠ 6) :
    (space_flight_keys c input).screen_type ≠ 5 ∧
    (space_flight_keys c input).screen_type ≠ 6 := by
  unfold space_flight_keys
  split_ifs <;> first | exact hv | exact ⟨by simp, by simp⟩

theorem view_input_dispatch_ok (c : GameContext) (input : InputEvent) (now now2 : Nat)
    (rnd : Nat → Nat) (h : space_flight_only c.state)
    (hv : c.screen_type ≠ 5 ∧ c.screen_type ≠ 6) :
    (input_dispatch c input now now2 rnd).screen_type ≠ 5 ∧
    (input_dispatch c input now now2 rnd).screen_type ≠ 6 := by
  obtain ⟨h1, h2, h3, h4, h5⟩ := h
  have e : ∀ x : GameContext, x.screen_type = view x := fun _ => rfl
  unfold input_dispatch
  cases hst : c.state with
  | LOADING => exact hv
  | TITLE =>
    show (input_title c input now).screen_type ≠ 5 ∧ (input_title c input now).screen_type ≠ 6
    rw [e, view_input_title]; exact hv
  | ROTATE => exact view_input_rotate_ok c input now rnd hv
  | ZERO_HERO => exact absurd hst h1
  | FLIP_ZIP => exact absurd hst h2
  | LINE_CAR => exact absurd hst h3
  | FLIP_IQ => exact absurd hst h4
  | TECTONE_SIM => exact absurd hst h5
  | SPACE_FLIGHT =>
    show (input_space_flight c input now).screen_type ≠ 5 ∧
      (input_space_flight c input now).screen_type ≠ 6
    unfold input_space_flight game_state_back
    split_ifs
    · exact hv
    · exact hv
    · exact hv
    · exact view_space_flight_keys_ok c input hv
  | PAUSE =>
    show (input_pause c input now).screen_type ≠ 5 ∧ (input_pause c input now).screen_type ≠ 6
    rw [e, view_input_pause]; exact hv
  | CREDITS =>
    show (input_credits c input).screen_type ≠ 5 ∧ (input_credits c input).screen_type ≠ 6
    rw [e, view_input_credits]; exact hv

theorem view_input_callback_ok (ctx : GameContext) (input : InputEvent) (tick rnd : Nat → Nat)
    (h : space_flight_only ctx.state) (hv : ctx.screen_type ≠ 5 ∧ ctx.screen_type ≠ 6) :
    (input_callback ctx input tick rnd).screen_type ≠ 5 ∧
    (input_callback ctx input tick rnd).screen_type ≠ 6 := by
  have e : ∀ x : GameContext, x.screen_type = view x := fun _ => rfl
  have hs : (record_short_back (input_bookkeeping ctx (furi_get_tick tick 0)) input
      (furi_get_tick tick 0)).state = ctx.state := by
    rw [prelude_frame]
  have hp : (record_short_back (input_bookkeeping ctx (furi_get_tick tick 0)) input
      (furi_get_tick tick 0)).screen_type = ctx.screen_type := by
    rw [e, view_record_short_back, view_input_bookkeeping]
    rfl
  unfold input_callback
  dsimp only
  split_ifs
  · rw [e, view_input_bookkeeping]; exact hv
  · exact view_input_dispatch_ok _ input _ _ rnd (by rw [hs]; exact h) (by rw [hp]; exact hv)

theorem space_flight_only_timer (ctx : GameContext) (st : Statics) (tick rnd : Nat → Nat)
    (h : space_flight_only ctx.state) (hh : ∀ k, ctx.is_holding k = false)
    (hv : ctx.screen_type ≠ 5 ∧ ctx.screen_type ≠ 6) :
    (∀ k, (timer_callback ctx st tick rnd).1.is_holding k = false) ∧
    (timer_callback ctx st tick rnd).1.screen_type ≠ 5 ∧
    (timer_callback ctx st tick rnd).1.screen_type ≠ 6 := by
  have hu : (timer_update (advance_frame ctx) st (fun k => tick (k + 1)) rnd).1.is_holding =
      ctx.is_holding := congrArg Steady.is_holding (steady_timer_update (advance_frame ctx) st _ rnd)
  have hold : (timer_callback ctx st tick rnd).1.is_holding = ctx.is_holding := by
    rcases holds_timer_callback ctx st tick rnd with e | e
    · exact e
    · exact e.trans hu
  refine ⟨fun k => by rw [hold]; exact hh k, ?_⟩
  have e : ∀ x : GameContext, x.screen_type = view x := fun _ => rfl
  rcases view_timer_callback ctx st tick rnd with k | k
  · rw [e, k]; exact hv
  · rw [e, k]
    obtain ⟨h1, h2, h3, h4, h5⟩ := h
    have hs : (advance_frame ctx).state = ctx.state := rfl
    unfold timer_update
    cases hst : ctx.state with
    | SPACE_FLIGHT =>
      rw [hs, hst]
      exact (update_space_flight_idle (advance_frame ctx) _ rnd hh hv).1
    | ZERO_HERO => exact absurd hst h1
    | FLIP_ZIP => exact absurd hst h2
    | LINE_CAR => exact absurd hst h3
    | FLIP_IQ => exact absurd hst h4
    | TECTONE_SIM => exact absurd hst h5
    | LOADING => rw [hs, hst]; exact hv
    | TITLE => rw [hs, hst]; exact hv
    | ROTATE => rw [hs, hst]; exact hv
    | PAUSE => rw [hs, hst]; exact hv
    | CREDITS => rw [hs, hst]; exact hv

theorem space_flight_only_session (t0 t1 vp : Nat) (q : GameContext × Statics)
    (h : Session space_flight_only (initial_context t0 t1 vp, initial_statics) q) :
    space_flight_only q.1.state ∧ (∀ k, q.1.is_holding k = false) ∧
    q.1.screen_type ≠ 5 ∧ q.1.screen_type ≠ 6 := by
  induction h with
  | start =>
    have hs : (initial_context t0 t1 vp).state = GameState.LOADING := rfl
    have hv : (initial_context t0 t1 vp).screen_type = 0 := rfl
    refine ⟨⟨?_, ?_, ?_, ?_, ?_⟩, fun _ => rfl, ?_, ?_⟩
    · show (initial_context t0 t1 vp).state ≠ _
      rw [hs]; decide
    · show (initial_context t0 t1 vp).state ≠ _
      rw [hs]; decide
    · show (initial_context t0 t1 vp).state ≠ _
      rw [hs]; decide
    · show (initial_context t0 t1 vp).state ≠ _
      rw [hs]; decide
    · show (initial_context t0 t1 vp).state ≠ _
      rw [hs]; decide
    · show (initial_context t0 t1 vp).screen_type ≠ _
      rw [hv]; decide
    · show (initial_context t0 t1 vp).screen_type ≠ _
      rw [hv]; decide
  | step q r _ hstep hin ih =>
    obtain ⟨i1, i2, i3⟩ := ih
    refine ⟨hin, ?_⟩
    cases hstep with
    | main_loop now =>
      have e1 : (main_loop_step q.1 now).is_holding = q.1.is_holding :=
        holds_main_loop_step q.1 now
      have e2 : (main_loop_step q.1 now).screen_type = q.1.screen_type :=
        view_main_loop_step q.1 now
      refine ⟨fun k => ?_, ?_⟩
      · show (main_loop_step q.1 now).is_holding k = false
        rw [e1]; exact i2 k
      · show (main_loop_step q.1 now).screen_type ≠ 5 ∧ (main_loop_step q.1 now).screen_type ≠ 6
        rw [e2]; exact i3
    | input input tick rnd =>
      refine ⟨fun k => ?_, view_input_callback_ok q.1 input tick rnd i1 i3⟩
      show (input_callback q.1 input tick rnd).is_holding k = false
      rw [holds_input_callback q.1 input tick rnd i1]; exact i2 k
    | timer tick rnd => exact space_flight_only_timer q.1 q.2 tick rnd i1 i2 i3
    | render tick =>
      have e1 : (render_callback q.1 tick).is_holding = q.1.is_holding :=
        holds_render_callback q.1 tick
      have e2 : (render_callback q.1 tick).screen_type = q.1.screen_type :=
        view_render_callback q.1 tick
      refine ⟨fun k => ?_, ?_⟩
      · show (render_callback q.1 tick).is_holding k = false
        rw [e1]; exact i2 k
      · show (render_callback q.1 tick).screen_type ≠ 5 ∧ (render_callback q.1 tick).screen_type ≠ 6
        rw [e2]; exact i3

/-- C39. Space Flight never records holds. In state Space Flight `input_callback` leaves
`is_holding` as it is for every event, clock and outcome of `rand()`. So in every run from
the start of the application whose steps (passes of the main loop, invocations of the three
callbacks) never end in another game, every hold flag is false and `screen_type` is neither
5 nor 6; and there a call of `update_space_flight` either leaves the history as it is or
shifts it left by one and appends -1, and leaves `screen_type` different from 5 and 6. -/
theorem space_flight_never_records_holds (t0 t1 vp : Nat) :
    (∀ (ctx : GameContext) (input : InputEvent) (tick rnd : Nat → Nat),
      ctx.state = GameState.SPACE_FLIGHT →
      (input_callback ctx input tick rnd).is_holding = ctx.is_holding) ∧
    (∀ q : GameContext × Statics,
      Session space_flight_only (initial_context t0 t1 vp, initial_statics) q →
      (∀ k, q.1.is_holding k = false) ∧ q.1.screen_type ≠ 5 ∧ q.1.screen_type ≠ 6 ∧
      ∀ tick rnd : Nat → Nat,
        ((update_space_flight q.1 tick rnd).recent_inputs = q.1.recent_inputs ∨
          history (update_space_flight q.1 tick rnd) =
            [q.1.recent_inputs 1, q.1.recent_inputs 2, q.1.recent_inputs 3,
             q.1.recent_inputs 4, -1]) ∧
        (update_space_flight q.1 tick rnd).screen_type ≠ 5 ∧
        (update_space_flight q.1 tick rnd).screen_type ≠ 6) := by
  refine ⟨fun ctx input tick rnd hs => ?_, fun q hq => ?_⟩
  · apply holds_input_callback ctx input tick rnd
    rw [hs]
    refine ⟨?_, ?_, ?_, ?_, ?_⟩ <;> decide
  · obtain ⟨_, i2, i3⟩ := space_flight_only_session t0 t1 vp q hq
    refine ⟨i2, i3.1, i3.2, fun tick rnd => ?_⟩
    obtain ⟨k1, k2⟩ := update_space_flight_idle q.1 tick rnd i2 i3
    exact ⟨k2, k1⟩

/-! ## Space Flight: objects outside the damage band -/

theorem space_flight_move_rows (m : Int) (i : Nat) (ctx : GameContext) (k : Fin 8) :
    (space_flight_move m i ctx).objects k 2 = ctx.objects k 2 ∧
    (k.val ≠ i → (space_flight_move m i ctx).objects k 1 = ctx.objects k 1) := by
  unfold space_flight_move
  dsimp only
  split_ifs <;> simp [set2] <;> omega

/-- At a speed in [0,120] the growth step `speed_modifier / 2` is 0. -/
theorem growth_step_zero (speed : Int) (h0 : 0 ≤ speed) (h1 : speed ≤ 120) :
    Int.tdiv (Int.tdiv speed 78) 2 = 0 := by
  have e : Int.tdiv speed 78 = speed / 78 := Int.tdiv_eq_ediv h0 (by decide)
  have e2 : Int.tdiv (speed / 78) 2 = speed / 78 / 2 :=
    Int.tdiv_eq_ediv (by omega) (by decide)
  rw [e, e2]
  omega

theorem space_flight_grown_rows (m : Int) (hm : Int.tdiv m 2 = 0) (i : Nat) (ctx : GameContext)
    (k : Fin 8) :
    (space_flight_grown m i ctx).objects k 2 = ctx.objects k 2 ∧
    (k.val ≠ i → (space_flight_grown m i ctx).objects k 1 = ctx.objects k 1) := by
  obtain ⟨a, b⟩ := space_flight_move_rows m i ctx k
  have hi : ∀ hk : k.val = i, get2 (space_flight_move m i ctx).objects (i : Int) 2 =
      (space_flight_move m i ctx).objects k 2 := by
    intro hk
    subst hk
    exact get2_fin _ k 2
  unfold space_flight_grown space_flight_grow
  rw [hm]
  constructor
  · by_cases hk : k.val = i
    · rw [hi hk, ← a]
      simp [set2]
    · rw [← a]
      simp [set2]
      omega
  · intro hk
    rw [← b hk]
    simp [set2]

theorem calm_object_live (o : Fin 3 → Int) (h : calm_object o) (hp : o 2 > 0) :
    5 ≤ o 2 ∧ o 2 ≤ 14 := by
  unfold calm_object at h
  omega

theorem calm_object_same (o p : Fin 3 → Int) (h : calm_object o) (e2 : p 2 = o 2)
    (e1 : o 2 ≤ 0 → p 1 = o 1) : calm_object p := by
  unfold calm_object at h ⊢
  rw [e2]
  by_cases hp : o 2 ≤ 0
  · rw [e1 hp]
    exact h
  · left
    omega

theorem calm_space_flight_grown (m : Int) (hm : Int.tdiv m 2 = 0) (i : Nat) (ctx : GameContext)
    (h : calm ctx) (hp : get2 ctx.objects (i : Int) 2 > 0) :
    calm (space_flight_grown m i ctx) := by
  intro k
  obtain ⟨a, b⟩ := space_flight_grown_rows m hm i ctx k
  apply calm_object_same _ _ (h k) a
  intro hz
  apply b
  intro hk
  subst hk
  have e : get2 ctx.objects (k.val : Int) 2 = ctx.objects k 2 := get2_fin _ k 2
  omega

theorem calm_space_flight_cull (i : Nat) (ctx : GameContext) (h : calm ctx) :
    calm (space_flight_cull i ctx) := by
  unfold space_flight_cull
  split_ifs
  · intro k
    have hk := h k
    unfold calm_object at hk ⊢
    by_cases e : k.val = i
    · right; left
      simp [set2, e]
    · have e2 : ({ ctx with objects := set2 ctx.objects (i : Int) 2 0 } : GameContext).objects k =
          ctx.objects k := by
        funext l
        simp [set2]
        omega
      rw [e2]
      exact hk
  · exact h

theorem space_flight_no_hit (ctx : GameContext) (i : Nat) (hi : i < 8) (h : calm ctx) :
    ¬ space_flight_hits ctx i := by
  have hk := h ⟨i, hi⟩
  have e : get2 ctx.objects (i : Int) 2 = ctx.objects ⟨i, hi⟩ 2 := get2_fin _ ⟨i, hi⟩ 2
  unfold space_flight_hits
  rw [e]
  unfold calm_object at hk
  omega

theorem calm_space_flight_spawn (rnd : Nat → Nat) (i : Nat) (s : Run) (h : calm s.ctx) :
    calm (space_flight_spawn rnd i s).ctx ∧
    ship (space_flight_spawn rnd i s).ctx = ship s.ctx := by
  have hr := tmod_range (rnd (s.rands + 1)) 10 (by decide)
  have e : s.drawn.rand rnd = rnd (s.rands + 1) := rfl
  constructor
  · intro k
    have hk := h k
    by_cases ek : k.val = i
    · unfold space_flight_spawn space_flight_pickup_draw space_flight_place calm_object
      dsimp only
      rw [e]
      split_ifs <;> simp [set2, ek, Run.map, Run.drawn] <;> omega
    · have e2 : (space_flight_spawn rnd i s).ctx.objects k = s.ctx.objects k := by
        funext l
        unfold space_flight_spawn space_flight_pickup_draw space_flight_place
        dsimp only
        split_ifs <;> simp [set2, Run.map, Run.drawn] <;> omega
      rw [e2]
      exact hk
  · unfold space_flight_spawn space_flight_pickup_draw space_flight_place
    dsimp only
    split_ifs <;> rfl

theorem space_flight_pickup_calm (i : Nat) (hi : i < 8) (ctx : GameContext) (h : calm ctx) :
    space_flight_pickup i ctx = ctx := by
  have hk := h ⟨i, hi⟩
  have e2 : get2 ctx.objects (i : Int) 2 = ctx.objects ⟨i, hi⟩ 2 := get2_fin _ ⟨i, hi⟩ 2
  have e1 : get2 ctx.objects (i : Int) 1 = ctx.objects ⟨i, hi⟩ 1 := get2_fin _ ⟨i, hi⟩ 1
  unfold space_flight_pickup
  split_ifs with h1 h2
  · exfalso
    unfold in_hit_box at h2
    unfold calm_object at hk
    omega
  · rfl
  · rfl

/-- One pass of the object loop on calm objects: they stay calm and the ship is as before. -/
theorem space_flight_slot_calm (tick rnd : Nat → Nat) (m : Int) (hm : Int.tdiv m 2 = 0) (i : Nat)
    (hi : i < 8) (s : Run) (h : calm s.ctx) :
    calm (space_flight_slot tick rnd m i s).ctx ∧
    ship (space_flight_slot tick rnd m i s).ctx = ship s.ctx := by
  unfold space_flight_slot
  split_ifs with hp hr
  · rw [space_flight_object_ctx]
    have hg : calm (Run.map (space_flight_grown m i) s).ctx :=
      calm_space_flight_grown m hm i s.ctx h hp
    rw [space_flight_hit_outside tick rnd i _ (space_flight_no_hit _ i hi hg)]
    constructor
    · exact calm_space_flight_cull i _ hg
    · show ship (space_flight_cull i (space_flight_grown m i s.ctx)) = ship s.ctx
      rw [ship_space_flight_cull, ship_space_flight_grown]
  · exact calm_space_flight_spawn rnd i s.drawn h
  · show calm (space_flight_pickup i s.ctx) ∧ ship (space_flight_pickup i s.ctx) = ship s.ctx
    rw [space_flight_pickup_calm i hi s.ctx h]
    exact ⟨h, rfl⟩

theorem update_space_flight_calm (ctx : GameContext) (tick rnd : Nat → Nat)
    (h0 : 0 ≤ ctx.speed_bpm) (h1 : ctx.speed_bpm ≤ 120) (h : calm ctx) :
    calm (update_space_flight ctx tick rnd) ∧
    (update_space_flight ctx tick rnd).ship_health = ctx.ship_health ∧
    (update_space_flight ctx tick rnd).ship_armor = ctx.ship_armor := by
  have hm := growth_step_zero ctx.speed_bpm h0 h1
  unfold update_space_flight
  split_ifs
  · exact ⟨h, rfl, rfl⟩
  · have k : calm (space_flight_objects tick rnd (Int.tdiv ctx.speed_bpm 78)
        (stamped ctx tick)).ctx ∧
        ship (space_flight_objects tick rnd (Int.tdiv ctx.speed_bpm 78)
          (stamped ctx tick)).ctx = ship ctx := by
      unfold space_flight_objects
      apply for_loop_inv_lt (fun _ (t : Run) => calm t.ctx ∧ ship t.ctx = ship ctx)
      · intro i t hi ht
        obtain ⟨c, e⟩ := space_flight_slot_calm tick rnd _ hm i hi t ht.1
        exact ⟨c, e.trans ht.2⟩
      · exact ⟨h, rfl⟩
    have q : ∀ t : Run, (space_flight_sequences tick t).ctx.objects = t.ctx.objects ∧
        (space_flight_sequences tick t).ctx.ship_health = t.ctx.ship_health ∧
        (space_flight_sequences tick t).ctx.ship_armor = t.ctx.ship_armor := by
      intro t
      have hr : (space_flight_record t.ctx).objects = t.ctx.objects ∧
          (space_flight_record t.ctx).ship_health = t.ctx.ship_health ∧
          (space_flight_record t.ctx).ship_armor = t.ctx.ship_armor := by
        unfold space_flight_record
        dsimp only
        split_ifs <;> exact ⟨rfl, rfl, rfl⟩
      have hq : ∀ u : Run, (space_flight_match tick u).ctx.objects = u.ctx.objects ∧
          (space_flight_match tick u).ctx.ship_health = u.ctx.ship_health ∧
          (space_flight_match tick u).ctx.ship_armor = u.ctx.ship_armor := by
        intro u
        unfold space_flight_match
        split_ifs <;> exact ⟨rfl, rfl, rfl⟩
      unfold space_flight_sequences
      split_ifs
      · obtain ⟨a1, a2, a3⟩ := hq (Run.map space_flight_record t.read)
        rw [a1, a2, a3]
        exact hr
      · exact ⟨rfl, rfl, rfl⟩
    obtain ⟨q1, q2, q3⟩ := q (space_flight_objects tick rnd (Int.tdiv ctx.speed_bpm 78)
      (stamped ctx tick))
    have f := ship_fields k.2
    refine ⟨?_, ?_, ?_⟩
    · intro x
      rw [q1]
      exact k.1 x
    · rw [q2]; exact f.2.1
    · rw [q3]; exact f.1

theorem space_flight_session_input (ctx : GameContext) (input : InputEvent)
    (tick rnd : Nat → Nat) (h : space_flight_session ctx.state) :
    board (input_callback ctx input tick rnd) = board ctx ∧
    pace (input_callback ctx input tick rnd) = pace ctx := by
  constructor
  · apply board_input_callback_of
    intro c hc
    rw [← hc] at h
    unfold input_dispatch
    rcases h with e | e
    · rw [e]; exact board_input_space_flight c input _
    · rw [e]; exact board_input_pause c input _
  · apply pace_input_callback_of
    intro c hc
    rw [← hc] at h
    unfold input_dispatch
    rcases h with e | e
    · rw [e]; exact pace_input_space_flight c input _
    · rw [e]; exact pace_input_pause c input _

theorem space_flight_session_timer (ctx : GameContext) (st : Statics) (tick rnd : Nat → Nat)
    (h : space_flight_session ctx.state) (h0 : 0 ≤ ctx.speed_bpm) (h1 : ctx.speed_bpm ≤ 120)
    (hc : calm ctx) :
    (timer_callback ctx st tick rnd).1.speed_bpm = ctx.speed_bpm ∧
    calm (timer_callback ctx st tick rnd).1 ∧
    (timer_callback ctx st tick rnd).1.ship_health = ctx.ship_health ∧
    (timer_callback ctx st tick rnd).1.ship_armor = ctx.ship_armor := by
  have hu : timer_update (advance_frame ctx) st (fun k => tick (k + 1)) rnd =
      (advance_frame ctx, st) ∨
      timer_update (advance_frame ctx) st (fun k => tick (k + 1)) rnd =
        (update_space_flight (advance_frame ctx) (fun k => tick (k + 1)) rnd, st) := by
    have hs : (advance_frame ctx).state = ctx.state := rfl
    unfold timer_update
    rcases h with e | e
    · right; rw [hs, e]
    · left; rw [hs, e]
  have hp : (timer_callback ctx st tick rnd).1.speed_bpm = ctx.speed_bpm := by
    rcases pace_timer_callback ctx st tick rnd with e | e
    · exact e
    · refine e.trans ?_
      rcases hu with u | u
      · rw [u]; rfl
      · rw [u]; exact pace_update_space_flight (advance_frame ctx) _ rnd
  refine ⟨hp, ?_⟩
  rcases board_timer_callback ctx st tick rnd with e | e
  · obtain ⟨_, _, _, _, _, _, _, b1, b2, b3, _⟩ := board_fields e
    refine ⟨fun k => ?_, b1, b2⟩
    rw [b3]; exact hc k
  · obtain ⟨_, _, _, _, _, _, _, b1, b2, b3, _⟩ := board_fields e
    rcases hu with u | u
    · rw [u] at b1 b2 b3
      refine ⟨fun k => ?_, b1, b2⟩
      rw [b3]; exact hc k
    · rw [u] at b1 b2 b3
      obtain ⟨c1, c2, c3⟩ := update_space_flight_calm (advance_frame ctx)
        (fun k => tick (k + 1)) rnd h0 h1 hc
      refine ⟨fun k => ?_, b1.trans c2, b2.trans c3⟩
      rw [b3]; exact c1 k

theorem space_flight_session_calm (e : GameContext) (st : Statics) (q : GameContext × Statics)
    (hs : space_flight_session e.state) (h0 : 0 ≤ e.speed_bpm) (h1 : e.speed_bpm ≤ 120)
    (hc : calm e) (h : Session space_flight_session (e, st) q) :
    space_flight_session q.1.state ∧ q.1.speed_bpm = e.speed_bpm ∧ calm q.1 ∧
    q.1.ship_health = e.ship_health ∧ q.1.ship_armor = e.ship_armor := by
  induction h with
  | start => exact ⟨hs, rfl, hc, rfl, rfl⟩
  | step q r _ hstep hin ih =>
    obtain ⟨i1, i2, i3, i4, i5⟩ := ih
    refine ⟨hin, ?_⟩
    have frame : ∀ x : GameContext, board x = board q.1 → pace x = pace q.1 →
        x.speed_bpm = e.speed_bpm ∧ calm x ∧ x.ship_health = e.ship_health ∧
        x.ship_armor = e.ship_armor := by
      intro x hb hp
      obtain ⟨_, _, _, _, _, _, _, b1, b2, b3, _⟩ := board_fields hb
      refine ⟨hp.trans i2, fun k => ?_, b1.trans i4, b2.trans i5⟩
      rw [b3]; exact i3 k
    cases hstep with
    | main_loop now => exact frame _ (board_main_loop_step q.1 now) (pace_main_loop_step q.1 now)
    | input input tick rnd =>
      obtain ⟨a, b⟩ := space_flight_session_input q.1 input tick rnd i1
      exact frame _ a b
    | timer tick rnd =>
      obtain ⟨a, b, c, d⟩ := space_flight_session_timer q.1 q.2 tick rnd i1
        (by rw [i2]; exact h0) (by rw [i2]; exact h1) i3
      exact ⟨a.trans i2, b, c.trans i4, d.trans i5⟩
    | render tick => exact frame _ (board_render_callback q.1 tick) (pace_render_callback q.1 tick)

theorem rotate_entry_space_flight (ctx : GameContext) (input : InputEvent)
    (tick rnd : Nat → Nat) (hs : ctx.state = GameState.ROTATE)
    (he : (input_callback ctx input tick rnd).state = GameState.SPACE_FLIGHT) :
    ∃ c : GameContext, input_callback ctx input tick rnd = init_space_flight c rnd := by
  have e := rotate_entry ctx input tick rnd hs (by rw [he]; decide)
  rw [e] at he ⊢
  rw [rotate_init_game_state] at he
  refine ⟨rotate_enter (record_short_back (input_bookkeeping ctx (furi_get_tick tick 0)) input
    (furi_get_tick tick 0)) (furi_get_tick tick 0), ?_⟩
  unfold rotate_init_game
  rw [he]
  rfl

/-- C36. Space Flight objects never reach the damage band. Take the context `input_callback`
leaves when an event in Rotate enters Space Flight, with its speed in [0,120]. In every
context reached from it by steps that stay in Space Flight or its pause (passes of the main
loop, invocations of the three callbacks, any events, clocks and outcomes of `rand()`), the
speed is the one of the entry and the growth step `speed_modifier / 2` is 0; every object has
a size in [5,14], or 0, or a pickup size (-10, -5) with the pickup at y = 36; no pass of the
pickup block changes the context; and `ship_health` and `ship_armor` are those of the
entry. -/
theorem space_flight_objects_stay_calm (ctx : GameContext) (input : InputEvent)
    (tick rnd : Nat → Nat) (st : Statics) (q : GameContext × Statics)
    (hs : ctx.state = GameState.ROTATE)
    (he : (input_callback ctx input tick rnd).state = GameState.SPACE_FLIGHT)
    (h0 : 0 ≤ (input_callback ctx input tick rnd).speed_bpm)
    (h1 : (input_callback ctx input tick rnd).speed_bpm ≤ 120)
    (hq : Session space_flight_session (input_callback ctx input tick rnd, st) q) :
    q.1.speed_bpm = (input_callback ctx input tick rnd).speed_bpm ∧
    Int.tdiv (Int.tdiv q.1.speed_bpm 78) 2 = 0 ∧
    calm q.1 ∧
    (∀ i : Nat, i < 8 → space_flight_pickup i q.1 = q.1) ∧
    q.1.ship_health = (input_callback ctx input tick rnd).ship_health ∧
    q.1.ship_armor = (input_callback ctx input tick rnd).ship_armor := by
  have hc : calm (input_callback ctx input tick rnd) := by
    obtain ⟨c, e⟩ := rotate_entry_space_flight ctx input tick rnd hs he
    rw [e]
    intro k
    have z := (init_space_flight_facts c rnd).2.2.2.1 k 2
    unfold calm_object
    rw [z]
    exact Or.inr (Or.inl rfl)
  obtain ⟨_, i2, i3, i4, i5⟩ := space_flight_session_calm _ st q (Or.inl he) h0 h1 hc hq
  refine ⟨i2, growth_step_zero _ (by rw [i2]; exact h0) (by rw [i2]; exact h1), i3,
    fun i hi => space_flight_pickup_calm i hi q.1 i3, i4, i5⟩

/-- The entry from Rotate followed by three invocations of the timer, the third of which
runs `update_space_flight`. -/
theorem space_flight_objects_stay_calm_witness :
    (input_callback space_flight_rotate_example press_ok clock_2000 rand_fifty).state =
      GameState.SPACE_FLIGHT ∧
    (timer_callback (timer_callback (timer_callback
      (input_callback space_flight_rotate_example press_ok clock_2000 rand_fifty)
      initial_statics clock_2000 rand_zero).1 initial_statics clock_2000 rand_zero).1
      initial_statics clock_2000 rand_zero).1.frame_counter = 0 ∧
    calm (timer_callback (timer_callback (timer_callback
      (input_callback space_flight_rotate_example press_ok clock_2000 rand_fifty)
      initial_statics clock_2000 rand_zero).1 initial_statics clock_2000 rand_zero).1
      initial_statics clock_2000 rand_zero).1 :=
  ⟨by decide, by decide,
   (space_flight_objects_stay_calm space_flight_rotate_example press_ok clock_2000 rand_fifty
    initial_statics _ (by decide) (by decide) (by decide) (by decide)
    (Session.step _ _ (Session.step _ _ (Session.step _ _ Session.start
      (Step.timer _ clock_2000 rand_zero) (by decide))
      (Step.timer _ clock_2000 rand_zero) (by decide))
      (Step.timer _ clock_2000 rand_zero) (by decide))).2.2.1⟩

/-! ## The cadence of isolated taps -/

theorem lane_change_arrival (b : GameContext) (input : InputEvent) (now now2 : Nat)
    (rnd : Nat → Nat) (h : lane_change_tap b input) :
    arrival (input_dispatch b input now now2 rnd) = arrival b := by
  obtain ⟨_, hg⟩ := h
  have hk : input.key ≠ InputKey.Back := by
    rcases hg with ⟨_, hk | hk⟩ | ⟨_, hk | hk⟩ | ⟨_, hk | hk⟩ <;> (rw [hk.1]; decide)
  unfold input_dispatch
  rcases hg with ⟨hs, _⟩ | ⟨hs, _⟩ | ⟨hs, _⟩
  · rw [hs]
    show arrival (input_flip_zip b input now) = arrival b
    unfold input_flip_zip
    rw [game_state_back_other _ _ _ _ hk, arrival_flip_zip_keys]
  · rw [hs]
    show arrival (input_line_car b input now now2) = arrival b
    unfold input_line_car
    rw [game_state_back_other _ _ _ _ hk, arrival_line_car_keys]
  · rw [hs]
    show arrival (input_flip_iq b input now) = arrival b
    unfold input_flip_iq
    rw [game_state_back_other _ _ _ _ hk, arrival_flip_iq_keys]

/-- One lane-change tap: the cadence fields, the speed, the time of the event and the state
after `input_callback`, in terms of the context after bookkeeping. -/
theorem lane_change_step (ctx : GameContext) (input : InputEvent) (tick rnd : Nat → Nat)
    (h : lane_change_tap ctx input) :
    (input_callback ctx input tick rnd).tap_count =
      (if sub32 (furi_get_tick tick 0)
          (input_bookkeeping ctx (furi_get_tick tick 0)).tap_window_start ≥ 60000 then 1
       else (input_bookkeeping ctx (furi_get_tick tick 0)).tap_count + 1) ∧
    (input_callback ctx input tick rnd).tap_window_start =
      (if sub32 (furi_get_tick tick 0)
          (input_bookkeeping ctx (furi_get_tick tick 0)).tap_window_start ≥ 60000 then
        furi_get_tick tick 0
       else (input_bookkeeping ctx (furi_get_tick tick 0)).tap_window_start) ∧
    (input_callback ctx input tick rnd).speed_bpm =
      (if tap_bpm_close (input_callback ctx input tick rnd).tap_count
          (add32 (sub32 (furi_get_tick tick 0)
            (input_callback ctx input tick rnd).tap_window_start) 1) ctx.speed_bpm
       then min (ctx.speed_bpm + 10) 120 else ctx.speed_bpm) ∧
    (input_callback ctx input tick rnd).last_input_time = furi_get_tick tick 0 ∧
    (input_callback ctx input tick rnd).state = ctx.state := by
  have hk : input.key ≠ InputKey.Back := by
    obtain ⟨_, hg⟩ := h
    rcases hg with ⟨_, hk | hk⟩ | ⟨_, hk | hk⟩ | ⟨_, hk | hk⟩ <;> (rw [hk.1]; decide)
  have e0 : input_callback ctx input tick rnd =
      input_dispatch (input_bookkeeping ctx (furi_get_tick tick 0)) input (furi_get_tick tick 0)
        (furi_get_tick tick 1) rnd := by
    rw [input_callback_accepted ctx input tick rnd (fun hc => hk hc.1)]
    unfold record_short_back
    rw [if_neg (fun hc => hk hc.1)]
  obtain ⟨b1, b2, b3, b4, b5⟩ := input_bookkeeping_keeps ctx (furi_get_tick tick 0)
  have h2 : lane_change_tap (input_bookkeeping ctx (furi_get_tick tick 0)) input := by
    unfold lane_change_tap at h ⊢
    rw [b1, b2, b3, b4]
    exact h
  obtain ⟨c, ⟨r1, r2, r3⟩, c1, c2, c3⟩ :=
    lane_change_runs_tap_cadence _ input (furi_get_tick tick 0) (furi_get_tick tick 1) rnd h2
  obtain ⟨t1, t2, t3⟩ := tap_cadence_fields c (furi_get_tick tick 0)
  have ha := lane_change_arrival _ input (furi_get_tick tick 0) (furi_get_tick tick 1) rnd h2
  rw [← e0] at r1 r2 r3 ha
  rw [← r1, ← r2, ← r3, c3, b5] at t3
  rw [← r1, c1, c2] at t1
  rw [← r2, c2] at t2
  have hl : (input_bookkeeping ctx (furi_get_tick tick 0)).last_input_time =
      furi_get_tick tick 0 := by
    unfold input_bookkeeping
    rfl
  have a1 : (input_callback ctx input tick rnd).last_input_time =
      (input_bookkeeping ctx (furi_get_tick tick 0)).last_input_time :=
    congrArg (fun p : Nat × GameState => p.1) ha
  have a2 : (input_callback ctx input tick rnd).state =
      (input_bookkeeping ctx (furi_get_tick tick 0)).state :=
    congrArg (fun p : Nat × GameState => p.2) ha
  exact ⟨t1, t2, t3, a1.trans hl, a2.trans b1⟩

/-- An isolated lane-change tap at a speed of at most 120. -/
theorem isolated_tap (ctx : GameContext) (input : InputEvent) (tick rnd : Nat → Nat)
    (h : lane_change_tap ctx input)
    (hi : TAP_DRM_MS ≤ sub32 (furi_get_tick tick 0) ctx.last_input_time)
    (hs : ctx.speed_bpm ≤ 120) :
    (input_callback ctx input tick rnd).tap_count = 1 ∧
    (input_callback ctx input tick rnd).tap_window_start = furi_get_tick tick 0 ∧
    (input_callback ctx input tick rnd).speed_bpm = ctx.speed_bpm := by
  obtain ⟨t1, t2, t3, _, _⟩ := lane_change_step ctx input tick rnd h
  have hb : (input_bookkeeping ctx (furi_get_tick tick 0)).tap_count = 0 ∧
      (input_bookkeeping ctx (furi_get_tick tick 0)).tap_window_start = furi_get_tick tick 0 := by
    unfold input_bookkeeping
    dsimp only
    rw [if_neg (not_lt.2 hi)]
    exact ⟨rfl, rfl⟩
  rw [hb.2, sub32_self, if_neg (by decide)] at t1 t2
  rw [hb.1] at t1
  have t1b : (input_callback ctx input tick rnd).tap_count = 1 := t1
  rw [t1b, t2, sub32_self] at t3
  have hc : tap_bpm_close 1 (add32 0 1) ctx.speed_bpm = false :=
    tap_far_from_speed 0 0 ctx.speed_bpm hs (le_refl _) (by decide)
  rw [hc] at t3
  exact ⟨t1b, t2, t3⟩

theorem sub32_next (a d w : Nat) :
    sub32 ((a + d) % 4294967296) w = (sub32 (a % 4294967296) w + d % 4294967296) % 4294967296 := by
  unfold sub32
  omega

/-- The cadence fields after a lane-change tap that follows another one `e` ms later by the
clock, `n * e` ms after the window start. -/
theorem cadence_after_tap (ctx : GameContext) (input : InputEvent) (tick rnd : Nat → Nat)
    (h : lane_change_tap ctx input) (hs : ctx.speed_bpm ≤ 120) (n e : Nat)
    (he : sub32 (furi_get_tick tick 0) ctx.last_input_time = e)
    (hc : ctx.tap_count = (n : Int) + 1)
    (hw : e < 300 → sub32 (furi_get_tick tick 0) ctx.tap_window_start = (n + 1) * e) :
    (input_callback ctx input tick rnd).speed_bpm = ctx.speed_bpm ∧
    (input_callback ctx input tick rnd).last_input_time = furi_get_tick tick 0 ∧
    ∃ m : Nat, (input_callback ctx input tick rnd).tap_count = (m : Int) + 1 ∧
      sub32 (furi_get_tick tick 0) (input_callback ctx input tick rnd).tap_window_start = m * e ∧
      m * e < 60000 := by
  by_cases h300 : TAP_DRM_MS ≤ sub32 (furi_get_tick tick 0) ctx.last_input_time
  · obtain ⟨t1, t2, t3⟩ := isolated_tap ctx input tick rnd h h300 hs
    obtain ⟨_, _, _, t4, _⟩ := lane_change_step ctx input tick rnd h
    refine ⟨t3, t4, 0, ?_, ?_, ?_⟩
    · rw [t1]; rfl
    · rw [t2, sub32_self, Nat.zero_mul]
    · rw [Nat.zero_mul]; decide
  · obtain ⟨t1, t2, t3, t4, _⟩ := lane_change_step ctx input tick rnd h
    have hb : (input_bookkeeping ctx (furi_get_tick tick 0)).tap_count = ctx.tap_count ∧
        (input_bookkeeping ctx (furi_get_tick tick 0)).tap_window_start =
          ctx.tap_window_start := by
      unfold input_bookkeeping
      dsimp only
      rw [if_pos (not_le.1 h300)]
      exact ⟨rfl, rfl⟩
    have he3 : e < 300 := by
      rw [he] at h300
      unfold TAP_DRM_MS at h300
      omega
    have hw := hw he3
    rw [hb.2, hw] at t1 t2
    rw [hb.1, hc] at t1
    refine ⟨?_, t4, ?_⟩
    · by_cases h6 : (n + 1) * e ≥ 60000
      · rw [if_pos h6] at t1 t2
        rw [t1, t2, sub32_self] at t3
        have hf : tap_bpm_close 1 (add32 0 1) ctx.speed_bpm = false :=
          tap_far_from_speed 0 0 ctx.speed_bpm hs (le_refl _) (by decide)
        rw [hf] at t3
        exact t3
      · rw [if_neg h6] at t1 t2
        rw [t1, t2, hw] at t3
        have ha : add32 ((n + 1) * e) 1 = (n + 1) * e + 1 := by
          unfold add32
          omega
        have hx : (n + 1) * e ≤ 299 * (n + 1) := by
          rw [Nat.mul_comm 299]
          exact Nat.mul_le_mul_left _ (by omega)
        have hf := tap_far_from_speed (n + 1) ((n + 1) * e) ctx.speed_bpm hs hx (by omega)
        rw [ha] at t3
        have hcast : ((n : Int) + 1 + 1) = (((n + 1 : Nat) : Int) + 1) := by push_cast; ring
        rw [hcast, hf] at t3
        exact t3
    · by_cases h6 : (n + 1) * e ≥ 60000
      · rw [if_pos h6] at t1 t2
        refine ⟨0, ?_, ?_, ?_⟩
        · rw [t1]; rfl
        · rw [t2, sub32_self, Nat.zero_mul]
        · rw [Nat.zero_mul]; decide
      · rw [if_neg h6] at t1 t2
        refine ⟨n + 1, ?_, ?_, ?_⟩
        · rw [t1]; push_cast; ring
        · rw [t2, hw]
        · omega

theorem feed_taps_invariant (ctx : GameContext) (tap : Nat → InputEvent)
    (tick rnd : Nat → Nat → Nat) (t0 d : Nat)
    (hs : ctx.speed_bpm ≤ 120)
    (h0 : TAP_DRM_MS ≤ sub32 (furi_get_tick (tick 0) 0) ctx.last_input_time)
    (ht : ∀ k, tick k 0 = t0 + k * d) (N : Nat)
    (hl : ∀ k, k < N → lane_change_tap (feed_taps tap tick rnd k ctx) (tap k)) (k : Nat)
    (hk : k < N) :
    (feed_taps tap tick rnd (k + 1) ctx).speed_bpm = ctx.speed_bpm ∧
    (feed_taps tap tick rnd (k + 1) ctx).last_input_time = furi_get_tick (tick k) 0 ∧
    ∃ n : Nat, (feed_taps tap tick rnd (k + 1) ctx).tap_count = (n : Int) + 1 ∧
      sub32 (furi_get_tick (tick k) 0) (feed_taps tap tick rnd (k + 1) ctx).tap_window_start =
        n * (d % 4294967296) ∧
      n * (d % 4294967296) < 60000 := by
  induction k with
  | zero =>
    have hl0 : lane_change_tap ctx (tap 0) := hl 0 hk
    obtain ⟨t1, t2, t3⟩ := isolated_tap ctx (tap 0) (tick 0) (rnd 0) hl0 h0 hs
    obtain ⟨_, _, _, t4, _⟩ := lane_change_step ctx (tap 0) (tick 0) (rnd 0) hl0
    refine ⟨t3, t4, 0, ?_, ?_, ?_⟩
    · show (input_callback ctx (tap 0) (tick 0) (rnd 0)).tap_count = _
      rw [t1]; rfl
    · show sub32 _ (input_callback ctx (tap 0) (tick 0) (rnd 0)).tap_window_start = _
      rw [t2, sub32_self, Nat.zero_mul]
    · rw [Nat.zero_mul]; decide
  | succ k ih =>
    obtain ⟨i1, i2, n, i3, i4, i5⟩ := ih (by omega)
    have hr : furi_get_tick (tick (k + 1)) 0 = (t0 + k * d + d) % 4294967296 := by
      unfold furi_get_tick
      rw [ht (k + 1)]
      congr 1
      ring
    have hr0 : furi_get_tick (tick k) 0 = (t0 + k * d) % 4294967296 := by
      unfold furi_get_tick
      rw [ht k]
    have he : sub32 (furi_get_tick (tick (k + 1)) 0)
        (feed_taps tap tick rnd (k + 1) ctx).last_input_time = d % 4294967296 := by
      rw [i2, hr, hr0]
      unfold sub32
      omega
    have hw : d % 4294967296 < 300 → sub32 (furi_get_tick (tick (k + 1)) 0)
        (feed_taps tap tick rnd (k + 1) ctx).tap_window_start = (n + 1) * (d % 4294967296) := by
      intro hd
      rw [hr, sub32_next, ← hr0, i4]
      have : (n + 1) * (d % 4294967296) = n * (d % 4294967296) + d % 4294967296 := by ring
      rw [this]
      omega
    obtain ⟨c1, c2, c3⟩ := cadence_after_tap (feed_taps tap tick rnd (k + 1) ctx) (tap (k + 1))
      (tick (k + 1)) (rnd (k + 1)) (hl (k + 1) hk) (by rw [i1]; exact hs) n (d % 4294967296)
      he i3 hw
    exact ⟨c1.trans i1, c2, c3⟩

/-- C38. An isolated tap never triggers the cadence speed-up. In Flip Zip, Line Car and
Flip IQ, when a short Left or Right accepted as a lane change arrives at least `TAP_DRM_MS`
(300 ms by the tick counter) after the previous input event and `speed_bpm` is at most 120,
`input_callback` leaves `tap_count` at 1 and `tap_window_start` at the time of the event, so
that the tap rate `tap_count * 60000 / (now - tap_window_start + 1)` is 60000, and leaves
`speed_bpm` as it was. Hence `N` lane-change taps fed alone, the first one isolated and tap `k`
arriving at time `t0 + k * d`, never change `speed_bpm`, whatever the interval `d` (300 ms or
more in particular) and the number `N`. -/
theorem isolated_tap_keeps_speed (ctx : GameContext) (tap : Nat → InputEvent)
    (tick rnd : Nat → Nat → Nat) (t0 d : Nat)
    (hs : ctx.speed_bpm ≤ 120)
    (h0 : TAP_DRM_MS ≤ sub32 (furi_get_tick (tick 0) 0) ctx.last_input_time)
    (ht : ∀ k, tick k 0 = t0 + k * d) (N : Nat)
    (hl : ∀ k, k < N → lane_change_tap (feed_taps tap tick rnd k ctx) (tap k)) :
    (∀ (c : GameContext) (input : InputEvent) (clock rand : Nat → Nat),
      lane_change_tap c input →
      TAP_DRM_MS ≤ sub32 (furi_get_tick clock 0) c.last_input_time →
      c.speed_bpm ≤ 120 →
      (input_callback c input clock rand).tap_count = 1 ∧
      (input_callback c input clock rand).tap_window_start = furi_get_tick clock 0 ∧
      (((input_callback c input clock rand).tap_count : ℚ) * 60000) /
        ((add32 (sub32 (furi_get_tick clock 0)
          (input_callback c input clock rand).tap_window_start) 1 : Nat) : ℚ) = 60000 ∧
      (input_callback c input clock rand).speed_bpm = c.speed_bpm) ∧
    (∀ n, n ≤ N → (feed_taps tap tick rnd n ctx).speed_bpm = ctx.speed_bpm) := by
  constructor
  · intro c input clock rand hc hi hsp
    obtain ⟨t1, t2, t3⟩ := isolated_tap c input clock rand hc hi hsp
    refine ⟨t1, t2, ?_, t3⟩
    rw [t1, t2, sub32_self]
    have e : add32 0 1 = 1 := by decide
    rw [e]
    norm_num
  · intro n hn
    cases n with
    | zero => rfl
    | succ k => exact (feed_taps_invariant ctx tap tick rnd t0 d hs h0 ht N hl k (by omega)).1

/-- Four taps, Left and Right in turn, 500 ms apart in Flip Zip at speed 60: each is accepted
as a lane change and the speed is 60 after them. -/
theorem isolated_tap_keeps_speed_witness :
    flip_zip_tap_example.speed_bpm = 60 ∧
    (∀ k, k < 4 → lane_change_tap
      (feed_taps left_right_taps clocks_every_500 (fun _ => rand_zero) k flip_zip_tap_example)
      (left_right_taps k)) ∧
    (feed_taps left_right_taps clocks_every_500 (fun _ => rand_zero) 4
      flip_zip_tap_example).speed_bpm = 60 :=
  ⟨by decide, by decide,
   (isolated_tap_keeps_speed flip_zip_tap_example left_right_taps clocks_every_500
      (fun _ => rand_zero) 1000 500 (by decide) (by decide) (fun _ => rfl) 4
      (by decide)).2 4 (le_refl 4)⟩

/-! ## Flip IQ: the session that does not start -/

theorem flip_iq_board_speed_adjust (tick : Nat → Nat) (s : Run) :
    flip_iq_board (flip_iq_speed_adjust tick s).ctx = flip_iq_board s.ctx := by
  unfold flip_iq_speed_adjust
  split_ifs <;> rfl

theorem flip_iq_slot_empty (tick rnd : Nat → Nat) (m : Int) (i j : Nat) (hi : i < 5)
    (hj : j < 8) (s : Run)
    (h : ∀ (a : Fin 5) (b : Fin 10), b.val < WORLD_OBJ_LIMIT → s.ctx.key_positions a b = 0) :
    flip_iq_slot tick rnd m i j s = s := by
  have e : get2 s.ctx.key_positions (i : Int) (j : Int) = 0 := by
    rw [get2_nat_fin _ i j hi (by omega)]
    exact h _ _ hj
  unfold flip_iq_slot
  rw [e, if_neg (by decide)]

theorem flip_iq_balls_empty (tick rnd : Nat → Nat) (m : Int) (s : Run)
    (h : ∀ (a : Fin 5) (b : Fin 10), b.val < WORLD_OBJ_LIMIT → s.ctx.key_positions a b = 0) :
    flip_iq_balls tick rnd m s = s := by
  unfold flip_iq_balls
  apply for_loop_inv_lt (fun _ (t : Run) => t = s)
  · intro i t hi ht
    apply for_loop_inv_lt (fun _ (u : Run) => u = s)
    · intro j u hj hu
      rw [hu]
      exact flip_iq_slot_empty tick rnd m i j hi hj s h
    · exact ht
  · rfl

/-- On a dormant context `update_flip_iq` leaves the round as it is. -/
theorem update_flip_iq_dormant (ctx : GameContext) (tick rnd : Nat → Nat)
    (h : flip_iq_dormant ctx) :
    flip_iq_board (update_flip_iq ctx tick rnd) = flip_iq_board ctx := by
  obtain ⟨h1, h2, h3, h4⟩ := h
  unfold update_flip_iq
  split_ifs
  · rfl
  · have a := flip_iq_board_speed_adjust tick (stamped ctx tick)
    have a0 : flip_iq_board (stamped ctx tick).ctx = flip_iq_board ctx := rfl
    rw [a0] at a
    generalize flip_iq_speed_adjust tick (stamped ctx tick) = s1 at a
    have f : ∀ x : GameContext, flip_iq_board x = flip_iq_board ctx →
        x.streak = 0 ∧ x.game_start_time ≠ 0 ∧ x.ball_count = 0 ∧
        ∀ (i : Fin 5) (j : Fin 10), j.val < WORLD_OBJ_LIMIT → x.key_positions i j = 0 := by
      intro x hx
      unfold flip_iq_board at hx
      simp only [Prod.mk.injEq] at hx
      obtain ⟨x1, _, x3, _, _, x6, _, x8⟩ := hx
      refine ⟨x1.trans h1, by rw [x8]; exact h2, x3.trans h3, fun i j hj => ?_⟩
      rw [x6]; exact h4 i j hj
    obtain ⟨f1, f2, f3, f4⟩ := f s1.ctx a
    have e2 : flip_iq_first_drop tick rnd s1 = s1 := by
      unfold flip_iq_first_drop
      rw [if_neg f2]
    have e3 : flip_iq_round tick rnd s1 = s1.read := by
      unfold flip_iq_round
      rw [if_neg (flip_iq_round_never_over _ _ f1)]
    have e4 : flip_iq_balls tick rnd (Int.tdiv ctx.speed_bpm 78) s1.read = s1.read :=
      flip_iq_balls_empty tick rnd _ s1.read f4
    have e5 : flip_iq_spawn rnd s1.read = Run.map beat s1.read := by
      unfold flip_iq_spawn
      rw [if_neg (fun hc => absurd hc.2 (by rw [show s1.read.ctx.ball_count = 0 from f3]; decide))]
    rw [e2, e3, e4, e5]
    exact a

/-- The Flip IQ set-up empties the ball slots `j < WORLD_OBJ_LIMIT` of every lane and leaves
the round number, the start time and the ball count as they are. -/
theorem init_flip_iq_facts (ctx : GameContext) :
    (init_flip_iq ctx).streak = ctx.streak ∧
    (init_flip_iq ctx).game_start_time = ctx.game_start_time ∧
    (init_flip_iq ctx).ball_count = ctx.ball_count ∧
    ∀ (i : Fin 5) (j : Fin 10), j.val < WORLD_OBJ_LIMIT → (init_flip_iq ctx).key_positions i j = 0 := by
  unfold init_flip_iq
  dsimp only
  refine ⟨?_, ?_, ?_, ?_⟩
  · apply for_loop_inv (fun s : GameContext => s.streak = ctx.streak)
    · intro i s hs
      apply for_loop_inv (fun s : GameContext => s.streak = ctx.streak)
      · intro j u hu; exact hu
      · exact hs
    · rfl
  · apply for_loop_inv (fun s : GameContext => s.game_start_time = ctx.game_start_time)
    · intro i s hs
      apply for_loop_inv (fun s : GameContext => s.game_start_time = ctx.game_start_time)
      · intro j u hu; exact hu
      · exact hs
    · rfl
  · apply for_loop_inv (fun s : GameContext => s.ball_count = ctx.ball_count)
    · intro i s hs
      apply for_loop_inv (fun s : GameContext => s.ball_count = ctx.ball_count)
      · intro j u hu; exact hu
      · exact hs
    · rfl
  · have h := for_loop_inv_idx
      (fun k (s : GameContext) => ∀ (i : Fin 5) (j : Fin 10), i.val < k →
        j.val < WORLD_OBJ_LIMIT → s.key_positions i j = 0)
      (fun i ctx => for_loop WORLD_OBJ_LIMIT (fun j ctx =>
        { ctx with
          key_columns := set2 ctx.key_columns i j 0
          key_positions := set2 ctx.key_positions i j 0 }) ctx)
      (by
        intro k s hs
        have h2 := for_loop_inv_idx
          (fun m (u : GameContext) => ∀ (i : Fin 5) (j : Fin 10),
            (i.val < k ∧ j.val < WORLD_OBJ_LIMIT) ∨ (i.val = k ∧ j.val < m) →
            u.key_positions i j = 0)
          (fun j ctx =>
            { ctx with
              key_columns := set2 ctx.key_columns k j 0
              key_positions := set2 ctx.key_positions k j 0 })
          (by
            intro m u hu i j hij
            show set2 u.key_positions k m 0 i j = 0
            unfold set2
            split_ifs with hc
            · rfl
            · apply hu i j
              rcases hij with hij | hij
              · exact Or.inl hij
              · right
                refine ⟨hij.1, ?_⟩
                have : ¬ (i.val = k ∧ j.val = m) := fun hx => hc ⟨by omega, by omega⟩
                omega)
          WORLD_OBJ_LIMIT s
          (by
            intro i j hij
            rcases hij with hij | hij
            · exact hs i j hij.1 hij.2
            · exact absurd hij.2 (Nat.not_lt_zero _))
        intro i j hi hj
        apply h2 i j
        by_cases hik : i.val = k
        · exact Or.inr ⟨hik, hj⟩
        · exact Or.inl ⟨by omega, hj⟩)
      5 { ctx with car_lane := 2, car_y := PORTRAIT_HEIGHT - 10 }
      (by intro i j hi; exact absurd hi (Nat.not_lt_zero _))
    intro i j hj
    exact h i j i.isLt hj

theorem rotate_entry_flip_iq (ctx : GameContext) (input : InputEvent)
    (tick rnd : Nat → Nat) (hs : ctx.state = GameState.ROTATE)
    (he : (input_callback ctx input tick rnd).state = GameState.FLIP_IQ) :
    (input_callback ctx input tick rnd).streak = 0 ∧
    (input_callback ctx input tick rnd).game_start_time = furi_get_tick tick 0 ∧
    (input_callback ctx input tick rnd).ball_count = ctx.ball_count ∧
    ∀ (i : Fin 5) (j : Fin 10), j.val < WORLD_OBJ_LIMIT →
      (input_callback ctx input tick rnd).key_positions i j = 0 := by
  have e := rotate_entry ctx input tick rnd hs (by rw [he]; decide)
  rw [e] at he ⊢
  rw [rotate_init_game_state] at he
  have e2 : rotate_init_game
      (rotate_enter (record_short_back (input_bookkeeping ctx (furi_get_tick tick 0)) input
        (furi_get_tick tick 0)) (furi_get_tick tick 0)) (furi_get_tick tick 0) rnd =
      init_flip_iq (rotate_enter (record_short_back (input_bookkeeping ctx (furi_get_tick tick 0))
        input (furi_get_tick tick 0)) (furi_get_tick tick 0)) := by
    unfold rotate_init_game
    rw [he]
    rfl
  rw [e2]
  obtain ⟨f1, f2, f3, f4⟩ := init_flip_iq_facts
    (rotate_enter (record_short_back (input_bookkeeping ctx (furi_get_tick tick 0))
      input (furi_get_tick tick 0)) (furi_get_tick tick 0))
  refine ⟨f1, f2, ?_, f4⟩
  rw [f3]
  show (record_short_back (input_bookkeeping ctx (furi_get_tick tick 0)) input
    (furi_get_tick tick 0)).ball_count = ctx.ball_count
  rw [prelude_frame]

theorem flip_iq_session_start_time (ctx : GameContext) (tick : Nat → Nat)
    (h : flip_iq_session ctx.state) (h0 : ctx.game_start_time ≠ 0) :
    (render_callback ctx tick).game_start_time = ctx.game_start_time := by
  unfold render_callback
  split_ifs
  · rfl
  · rcases h with e | e
    · rw [e]
      show (render_flip_iq ctx tick).game_start_time = ctx.game_start_time
      unfold render_flip_iq lazy_start_time
      rw [if_neg h0]
      dsimp only
      split_ifs <;> rfl
    · rw [e]

theorem flip_iq_session_dormant (e : GameContext) (st : Statics) (q : GameContext × Statics)
    (hs : flip_iq_session e.state) (hd : flip_iq_dormant e)
    (h : Session flip_iq_session (e, st) q) :
    flip_iq_session q.1.state ∧ flip_iq_dormant q.1 := by
  induction h with
  | start => exact ⟨hs, hd⟩
  | step q r _ hstep hin ih =>
    obtain ⟨i1, i2⟩ := ih
    refine ⟨hin, ?_⟩
    have frame : ∀ x : GameContext, board x = board q.1 →
        x.game_start_time = q.1.game_start_time → flip_iq_dormant x := by
      intro x hb hg
      obtain ⟨b1, b2, _, _, b5, _⟩ := board_fields hb
      obtain ⟨d1, d2, d3, d4⟩ := i2
      refine ⟨b1.trans d1, by rw [hg]; exact d2, b2.trans d3, fun i j hj => ?_⟩
      rw [b5]; exact d4 i j hj
    cases hstep with
    | main_loop now =>
      exact frame _ (board_main_loop_step q.1 now) (start_time_main_loop_step q.1 now)
    | input input tick rnd =>
      apply frame
      · apply board_input_callback_of
        intro c hc
        rw [← hc] at i1
        unfold input_dispatch
        rcases i1 with u | u
        · rw [u]; exact board_input_flip_iq c input _
        · rw [u]; exact board_input_pause c input _
      · apply start_time_input_callback_of
        intro c hc
        rw [← hc] at i1
        unfold input_dispatch
        rcases i1 with u | u
        · rw [u]; exact start_time_input_flip_iq c input _
        · rw [u]; exact start_time_input_pause c input _
    | timer tick rnd =>
      have hu : timer_update (advance_frame q.1) q.2 (fun k => tick (k + 1)) rnd =
          (advance_frame q.1, q.2) ∨
          timer_update (advance_frame q.1) q.2 (fun k => tick (k + 1)) rnd =
            (update_flip_iq (advance_frame q.1) (fun k => tick (k + 1)) rnd, q.2) := by
        have hst : (advance_frame q.1).state = q.1.state := rfl
        unfold timer_update
        rcases i1 with u | u
        · right; rw [hst, u]
        · left; rw [hst, u]
      have hf : ∀ x : GameContext, flip_iq_board x = flip_iq_board q.1 → flip_iq_dormant x := by
        intro x hx
        unfold flip_iq_board at hx
        simp only [Prod.mk.injEq] at hx
        obtain ⟨x1, _, x3, _, _, x6, _, x8⟩ := hx
        obtain ⟨d1, d2, d3, d4⟩ := i2
        refine ⟨x1.trans d1, by rw [x8]; exact d2, x3.trans d3, fun i j hj => ?_⟩
        rw [x6]; exact d4 i j hj
      have hup : flip_iq_dormant
          (timer_update (advance_frame q.1) q.2 (fun k => tick (k + 1)) rnd).1 := by
        rcases hu with u | u
        · rw [u]; exact hf _ rfl
        · rw [u]
          exact hf _ (update_flip_iq_dormant (advance_frame q.1) _ rnd (hf _ rfl))
      have fr2 : ∀ x y : GameContext, flip_iq_dormant y → board x = board y →
          start_time x = start_time y → flip_iq_dormant x := by
        intro x y hy hb hg
        obtain ⟨b1, b2, _, _, b5, _⟩ := board_fields hb
        obtain ⟨d1, d2, d3, d4⟩ := hy
        have hg2 : x.game_start_time = y.game_start_time := hg
        refine ⟨b1.trans d1, by rw [hg2]; exact d2, b2.trans d3, fun i j hj => ?_⟩
        rw [b5]; exact d4 i j hj
      rcases board_timer_callback q.1 q.2 tick rnd with b | b
      · rcases start_time_timer_callback q.1 q.2 tick rnd with g | g
        · exact fr2 _ _ i2 b g
        · -- the board is that of before, the start time that of the update
          have hg : (timer_callback q.1 q.2 tick rnd).1.game_start_time ≠ 0 := by
            have g2 : (timer_callback q.1 q.2 tick rnd).1.game_start_time =
                (timer_update (advance_frame q.1) q.2 (fun k => tick (k + 1)) rnd).1.game_start_time :=
              g
            rw [g2]; exact hup.2.1
          obtain ⟨b1, b2, _, _, b5, _⟩ := board_fields b
          obtain ⟨d1, d2, d3, d4⟩ := i2
          refine ⟨b1.trans d1, hg, b2.trans d3, fun i j hj => ?_⟩
          rw [b5]; exact d4 i j hj
      · rcases start_time_timer_callback q.1 q.2 tick rnd with g | g
        · have hg : (timer_callback q.1 q.2 tick rnd).1.game_start_time ≠ 0 := by
            have g2 : (timer_callback q.1 q.2 tick rnd).1.game_start_time =
                q.1.game_start_time := g
            rw [g2]; exact i2.2.1
          obtain ⟨b1, b2, _, _, b5, _⟩ := board_fields b
          obtain ⟨d1, d2, d3, d4⟩ := hup
          refine ⟨b1.trans d1, hg, b2.trans d3, fun i j hj => ?_⟩
          rw [b5]; exact d4 i j hj
        · exact fr2 _ _ hup b g
    | render tick =>
      exact frame _ (board_render_callback q.1 tick)
        (flip_iq_session_start_time q.1 tick i1 i2.2.1)

/-- C35. Flip IQ never starts after a normal entry. Take the context `input_callback` leaves
when an event in Rotate enters Flip IQ at a non-zero reading of the tick counter, with
`ball_count = 0`: there `streak = 0`, `game_start_time` is that reading and every ball slot
`j < WORLD_OBJ_LIMIT` is empty. In every context `q` reached from it by steps that stay in
Flip IQ or its pause (passes of the main loop, invocations of the three callbacks, any events,
clocks and outcomes of `rand()`), the same holds, the initial drop is skipped, the threshold
`round_time - 9` of the round-end test is 2^32 - 9 in unsigned 32-bit arithmetic and the test
fails at every reading of the clock, and `update_flip_iq` leaves `streak`, `score`,
`ball_count`, `active_lanes`, `ball_width`, `key_positions` and `key_columns` as they are. -/
theorem flip_iq_never_starts (ctx : GameContext) (input : InputEvent)
    (tick rnd : Nat → Nat) (st : Statics) (q : GameContext × Statics)
    (hs : ctx.state = GameState.ROTATE)
    (he : (input_callback ctx input tick rnd).state = GameState.FLIP_IQ)
    (ht : furi_get_tick tick 0 ≠ 0)
    (hb : (input_callback ctx input tick rnd).ball_count = 0)
    (hq : Session flip_iq_session (input_callback ctx input tick rnd, st) q) :
    ((input_callback ctx input tick rnd).streak = 0 ∧
      (input_callback ctx input tick rnd).game_start_time = furi_get_tick tick 0 ∧
      ∀ (i : Fin 5) (j : Fin 10), j.val < WORLD_OBJ_LIMIT →
        (input_callback ctx input tick rnd).key_positions i j = 0) ∧
    flip_iq_dormant q.1 ∧
    (∀ (clock rand : Nat → Nat) (s : Run), s.ctx = q.1 →
      flip_iq_first_drop clock rand s = s) ∧
    sub32 (toU32 (30 + (q.1.streak - 1) * 30)) 9 = 4294967287 ∧
    (∀ now : Nat, ¬ flip_iq_round_over now q.1) ∧
    ∀ clock rand : Nat → Nat,
      (update_flip_iq q.1 clock rand).streak = q.1.streak ∧
      (update_flip_iq q.1 clock rand).score = q.1.score ∧
      (update_flip_iq q.1 clock rand).ball_count = q.1.ball_count ∧
      (update_flip_iq q.1 clock rand).active_lanes = q.1.active_lanes ∧
      (update_flip_iq q.1 clock rand).ball_width = q.1.ball_width ∧
      (update_flip_iq q.1 clock rand).key_positions = q.1.key_positions ∧
      (update_flip_iq q.1 clock rand).key_columns = q.1.key_columns := by
  obtain ⟨e1, e2, _, e4⟩ := rotate_entry_flip_iq ctx input tick rnd hs he
  have hd : flip_iq_dormant (input_callback ctx input tick rnd) :=
    ⟨e1, by rw [e2]; exact ht, hb, e4⟩
  obtain ⟨_, d⟩ := flip_iq_session_dormant _ st q (Or.inl he) hd hq
  refine ⟨⟨e1, e2, e4⟩, d, ?_, ?_, fun now => flip_iq_round_never_over now q.1 d.1, ?_⟩
  · intro clock rand s hsq
    unfold flip_iq_first_drop
    rw [if_neg (by rw [hsq]; exact d.2.1)]
  · rw [d.1]
    decide
  · intro clock rand
    have h := update_flip_iq_dormant q.1 clock rand d
    unfold flip_iq_board at h
    simp only [Prod.mk.injEq] at h
    obtain ⟨x1, x2, x3, x4, x5, x6, x7, _⟩ := h
    exact ⟨x1, x2, x3, x4, x5, x6, x7⟩

/-- The entry from Rotate at tick 2000 followed by three invocations of the timer, the third
of which runs `update_flip_iq`: the session is dormant. -/
theorem flip_iq_never_starts_witness :
    (input_callback flip_iq_rotate_example press_ok clock_2000 rand_fifty).state =
      GameState.FLIP_IQ ∧
    flip_iq_dormant (timer_callback (timer_callback (timer_callback
      (input_callback flip_iq_rotate_example press_ok clock_2000 rand_fifty)
      initial_statics clock_22000 rand_zero).1 initial_statics clock_22000 rand_zero).1
      initial_statics clock_22000 rand_zero).1 :=
  ⟨by decide,
   (flip_iq_never_starts flip_iq_rotate_example press_ok clock_2000 rand_fifty
    initial_statics _ (by decide) (by decide) (by decide) (by decide)
    (Session.step _ _ (Session.step _ _ (Session.step _ _ Session.start
      (Step.timer _ clock_22000 rand_zero) (by decide))
      (Step.timer _ clock_22000 rand_zero) (by decide))
      (Step.timer _ clock_22000 rand_zero) (by decide))).2.1⟩

/-! ## The speed under a clock frozen within each callback -/

theorem paced_refl (c : GameContext) : paced c c := fun h => h

theorem paced_trans {a b c : GameContext} (h1 : paced a b) (h2 : paced b c) : paced a c :=
  fun h => h2 (h1 h)

theorem paced_of_pace {c r : GameContext} (h : pace r = pace c) : paced c r := by
  intro hc
  have e : r.speed_bpm = c.speed_bpm := h
  unfold speed_ok at hc ⊢
  rw [e]
  exact hc

theorem paced_of_step {c r : GameContext} (p : Prop) [Decidable p]
    (h : r.speed_bpm = if p then min (c.speed_bpm + 10) 120 else c.speed_bpm) : paced c r := by
  intro hc
  unfold speed_ok at hc ⊢
  rw [h]
  split_ifs
  · omega
  · exact hc

/-! ### Input -/

theorem paced_tap_cadence (c : GameContext) (now : Nat) : paced c (tap_cadence c now) :=
  paced_of_step _ (tap_cadence_fields c now).2.2

theorem paced_tap_cadence_from (c d : GameContext) (now : Nat) (h : pace d = pace c) :
    paced c (tap_cadence d now) :=
  paced_trans (paced_of_pace h) (paced_tap_cadence d now)

theorem paced_flip_zip_keys (ctx : GameContext) (input : InputEvent) (now : Nat) :
    paced ctx (flip_zip_keys ctx input now) := by
  have hl : paced ctx (flip_zip_left input now ctx) := by
    unfold flip_zip_left
    split_ifs
    · exact paced_tap_cadence_from _ _ now (by rfl)
    · exact paced_refl ctx
  have hr : ∀ c, paced c (flip_zip_right input now c) := by
    intro c
    unfold flip_zip_right
    split_ifs
    · exact paced_tap_cadence_from _ _ now (by rfl)
    · exact paced_refl c
  unfold flip_zip_keys
  refine paced_trans (paced_trans hl (hr _)) (paced_of_pace ?_)
  rw [pace_flip_zip_ok, pace_flip_zip_down, pace_flip_zip_up]

theorem paced_line_car_lanes (ctx : GameContext) (input : InputEvent) (now now2 : Nat) :
    paced ctx (line_car_up input (line_car_right input now now2
      (line_car_left input now now2 (lane_key_hold input ctx)))) := by
  have ha : ∀ (x : GameContext) (a b : Int), speed_ok x →
      speed_ok (line_car_after_lane_change x now now2 a b) :=
    fun x a b hx => paced_of_pace (pace_line_car_after_lane_change x now now2 a b) hx
  have hl : ∀ c, paced c (line_car_left input now now2 c) := by
    intro c
    unfold line_car_left
    dsimp only
    split_ifs
    · intro hok
      exact ha _ _ _ (paced_tap_cadence_from c _ now (by rfl) hok)
    · exact paced_refl c
  have hr : ∀ c, paced c (line_car_right input now now2 c) := by
    intro c
    unfold line_car_right
    dsimp only
    split_ifs
    · intro hok
      exact ha _ _ _ (paced_tap_cadence_from c _ now (by rfl) hok)
    · exact paced_refl c
  exact paced_trans (paced_trans (paced_trans (paced_of_pace (pace_lane_key_hold input ctx))
    (hl _)) (hr _)) (paced_of_pace (pace_line_car_up input _))

theorem paced_flip_iq_keys (ctx : GameContext) (input : InputEvent) (now : Nat) :
    paced ctx (flip_iq_keys ctx input now) := by
  have hl : ∀ c, paced c (flip_iq_left input now c) := by
    intro c
    unfold flip_iq_left
    split_ifs
    · exact paced_tap_cadence_from _ _ now (by rfl)
    · exact paced_refl c
  have hr : ∀ c, paced c (flip_iq_right input now c) := by
    intro c
    unfold flip_iq_right
    split_ifs
    · exact paced_tap_cadence_from _ _ now (by rfl)
    · exact paced_refl c
  unfold flip_iq_keys
  refine paced_trans (paced_trans (paced_trans (paced_of_pace (pace_lane_key_hold input ctx))
    (hl _)) (hr _)) (paced_of_pace ?_)
  rw [pace_flip_iq_down, pace_flip_iq_up]

theorem paced_game_state_back (ctx : GameContext) (input : InputEvent) (now : Nat)
    (other : GameContext) (h : paced ctx other) :
    paced ctx (game_state_back ctx input now other) := by
  unfold game_state_back
  split_ifs
  · exact paced_of_pace (by rfl)
  · exact paced_of_pace (by rfl)
  · exact paced_of_pace (by rfl)
  · exact h

/-- The brake of Line Car (lines 1530-1532) is never reached with a short Back: the branch is
the Back handling over the other four statements. -/
theorem line_car_brake_dead (ctx : GameContext) (input : InputEvent) (now now2 : Nat) :
    input_line_car ctx input now now2 =
      game_state_back ctx input now
        (line_car_up input (line_car_right input now now2
          (line_car_left input now now2 (lane_key_hold input ctx)))) := by
  unfold input_line_car line_car_keys
  by_cases hb : is_short input ∧ input.key = InputKey.Back
  · unfold game_state_back
    rw [if_pos hb, if_pos hb]
  · unfold line_car_brake
    rw [if_neg hb]

theorem paced_input_dispatch (c : GameContext) (input : InputEvent) (now now2 : Nat)
    (rnd : Nat → Nat) : paced c (input_dispatch c input now now2 rnd) := by
  unfold input_dispatch
  cases hst : c.state with
  | LOADING => exact paced_refl c
  | TITLE => exact paced_of_pace (pace_input_title c input now)
  | ROTATE => exact paced_of_pace (pace_input_rotate c input now rnd)
  | ZERO_HERO => exact paced_of_pace (pace_input_zero_hero c input now)
  | FLIP_ZIP => exact paced_game_state_back c input now _ (paced_flip_zip_keys c input now)
  | LINE_CAR =>
    show paced c (input_line_car c input now now2)
    rw [line_car_brake_dead]
    exact paced_game_state_back c input now _ (paced_line_car_lanes c input now now2)
  | FLIP_IQ => exact paced_game_state_back c input now _ (paced_flip_iq_keys c input now)
  | TECTONE_SIM => exact paced_of_pace (pace_input_tectone_sim c input now)
  | SPACE_FLIGHT => exact paced_of_pace (pace_input_space_flight c input now)
  | PAUSE => exact paced_of_pace (pace_input_pause c input now)
  | CREDITS => exact paced_of_pace (pace_input_credits c input)

theorem paced_input_callback (ctx : GameContext) (input : InputEvent) (tick rnd : Nat → Nat) :
    paced ctx (input_callback ctx input tick rnd) := by
  unfold input_callback
  dsimp only
  split_ifs
  · exact paced_of_pace (pace_input_bookkeeping ctx _)
  · refine paced_trans (paced_of_pace ?_) (paced_input_dispatch _ input _ _ rnd)
    rw [pace_record_short_back, pace_input_bookkeeping]

/-! ### Flip Zip -/

theorem paced_dodge (i : Int) (c : GameContext) : paced c (flip_zip_dodge i c) := by
  by_cases h : i = c.mascot_lane - 1 ∨ i = c.mascot_lane + 1
  · exact paced_of_step _ (flip_zip_dodge_fields i c h).2
  · unfold flip_zip_dodge
    rw [if_neg h]
    exact paced_refl c

theorem paced_land (c : GameContext) : paced c (flip_zip_land c) :=
  paced_of_step _ (flip_zip_land_fields c).2

theorem paced_slot (m : Int) (i j : Nat) (c : GameContext) :
    paced c (flip_zip_slot m i j c) := by
  unfold flip_zip_slot flip_zip_moved flip_zip_leave
  split_ifs
  · exact paced_trans (paced_of_pace (by rfl)) (paced_dodge _ _)
  · exact paced_of_pace (by rfl)
  · exact paced_refl c

theorem paced_obstacles (m : Int) (c : GameContext) : paced c (flip_zip_obstacles m c) := by
  unfold flip_zip_obstacles
  apply for_loop_inv (fun t : GameContext => paced c t)
  · intro i t ht
    apply for_loop_inv (fun u : GameContext => paced c u)
    · intro j u hu
      exact paced_trans hu (paced_slot m i j u)
    · exact ht
  · exact paced_refl c

theorem paced_jump (tick : Nat → Nat) (s : Run) : paced s.ctx (flip_zip_jump tick s).ctx := by
  have he : ∀ t : Run, paced t.ctx (flip_zip_arc_end tick t).ctx := by
    intro t
    unfold flip_zip_arc_end
    split_ifs
    · exact paced_of_pace (by rfl)
    · exact paced_land t.ctx
    · exact paced_land t.ctx
  have hc : ∀ t : Run, paced t.ctx (flip_zip_arc tick t).ctx := by
    intro t
    unfold flip_zip_arc
    split_ifs
    · exact paced_of_pace (by rfl)
    · exact paced_of_pace (by rfl)
    · exact he t
  unfold flip_zip_jump
  split_ifs
  · have h1 : paced s.ctx
        (Run.map (fun ctx => { ctx with jump_progress := ctx.jump_progress + 100 }) s).ctx :=
      paced_of_pace (by rfl)
    have h2 := hc (Run.map (fun ctx => { ctx with jump_progress := ctx.jump_progress + 100 }) s)
    have h3 := pace_flip_zip_airborne tick (flip_zip_arc tick
      (Run.map (fun ctx => { ctx with jump_progress := ctx.jump_progress + 100 }) s))
    exact paced_trans (paced_trans h1 h2) (paced_of_pace h3)
  · exact paced_refl _

theorem paced_update_flip_zip (ctx : GameContext) (tick rnd : Nat → Nat) :
    paced ctx (update_flip_zip ctx tick rnd) := by
  unfold update_flip_zip
  split_ifs
  · exact paced_refl ctx
  · have h0 : paced ctx (stamped ctx tick).ctx := paced_of_pace (by rfl)
    have h1 : paced (stamped ctx tick).ctx
        (Run.map (flip_zip_obstacles (1 + Int.tdiv ctx.speed_bpm 60)) (stamped ctx tick)).ctx :=
      paced_obstacles _ _
    have h2 := pace_flip_zip_spawn rnd
      (Run.map (flip_zip_obstacles (1 + Int.tdiv ctx.speed_bpm 60)) (stamped ctx tick))
    have h3 := paced_jump tick (flip_zip_spawn rnd
      (Run.map (flip_zip_obstacles (1 + Int.tdiv ctx.speed_bpm 60)) (stamped ctx tick)))
    exact paced_trans (paced_trans (paced_trans h0 h1) (paced_of_pace h2)) h3

/-! ### Line Car and Flip IQ -/

/-- With the clock frozen, the speed adjustment of `update_line_car` (lines 759-769) runs
neither nudge. -/
theorem line_car_speed_adjust_frozen (ctx : GameContext) (tick : Nat → Nat) (now : Nat)
    (hc : ∀ k, tick k = now) :
    line_car_speed_adjust tick (stamped ctx tick) = (stamped ctx tick).read ∨
    line_car_speed_adjust tick (stamped ctx tick) = stamped ctx tick := by
  have e : sub32 ((stamped ctx tick).now tick) (stamped ctx tick).ctx.last_ai_update = 0 := by
    show sub32 (furi_get_tick tick 2) (furi_get_tick tick 1) = 0
    unfold furi_get_tick
    rw [hc 2, hc 1]
    exact sub32_self _
  unfold line_car_speed_adjust
  rw [e, if_neg (show ¬ (0 : Nat) > 150 by decide), if_neg (show ¬ (0 : Nat) > 199 by decide)]
  split_ifs
  · exact Or.inl rfl
  · exact Or.inl rfl
  · exact Or.inr rfl

/-- With the clock frozen, the speed adjustment of `update_flip_iq` (lines 870-874) runs
neither nudge. -/
theorem flip_iq_speed_adjust_frozen (ctx : GameContext) (tick : Nat → Nat) (now : Nat)
    (hc : ∀ k, tick k = now) :
    flip_iq_speed_adjust tick (stamped ctx tick) = (stamped ctx tick).read ∨
    flip_iq_speed_adjust tick (stamped ctx tick) = stamped ctx tick := by
  have e : sub32 ((stamped ctx tick).now tick) (stamped ctx tick).ctx.last_ai_update = 0 := by
    show sub32 (furi_get_tick tick 2) (furi_get_tick tick 1) = 0
    unfold furi_get_tick
    rw [hc 2, hc 1]
    exact sub32_self _
  unfold flip_iq_speed_adjust
  rw [e, if_neg (show ¬ (0 : Nat) > 150 by decide), if_neg (show ¬ (0 : Nat) > 199 by decide)]
  split_ifs
  · exact Or.inl rfl
  · exact Or.inl rfl
  · exact Or.inr rfl

/-- At a speed of at most 6600 the drift slowdown (line 838) subtracts 0. -/
theorem line_car_drift_slowdown_pace (c : GameContext) (h : c.speed_bpm ≤ 6600) :
    (line_car_drift_slowdown c).speed_bpm = c.speed_bpm := by
  have e : (speed_nudge_down c).speed_bpm = c.speed_bpm := by
    show c.speed_bpm - (if c.speed_bpm > 6600 then 1 else 0) = c.speed_bpm
    rw [if_neg (by omega)]
    omega
  unfold line_car_drift_slowdown
  split_ifs
  · exact e
  · rfl

theorem paced_update_line_car (ctx : GameContext) (tick rnd : Nat → Nat) (now : Nat)
    (hc : ∀ k, tick k = now) : paced ctx (update_line_car ctx tick rnd) := by
  unfold update_line_car
  split_ifs
  · exact paced_refl ctx
  · have e1 : pace (line_car_speed_adjust tick (stamped ctx tick)).ctx = pace ctx := by
      rcases line_car_speed_adjust_frozen ctx tick now hc with e | e
      · rw [e]; rfl
      · rw [e]; rfl
    have e2 : pace (line_car_gravity tick rnd (Int.tdiv ctx.speed_bpm 78)
        (line_car_drift_check tick (line_car_before_drift ctx tick rnd))).ctx = pace ctx := by
      unfold line_car_before_drift
      rw [pace_line_car_gravity, pace_line_car_drift_check, pace_line_car_scroll, e1]
    intro hok
    have hok2 : speed_ok (line_car_gravity tick rnd (Int.tdiv ctx.speed_bpm 78)
        (line_car_drift_check tick (line_car_before_drift ctx tick rnd))).ctx :=
      paced_of_pace e2 hok
    have h66 : (line_car_gravity tick rnd (Int.tdiv ctx.speed_bpm 78)
        (line_car_drift_check tick (line_car_before_drift ctx tick rnd))).ctx.speed_bpm ≤ 6600 :=
      le_trans hok2.2.1 (by decide)
    exact paced_of_pace (line_car_drift_slowdown_pace _ h66) hok2

theorem paced_update_flip_iq (ctx : GameContext) (tick rnd : Nat → Nat) (now : Nat)
    (hc : ∀ k, tick k = now) : paced ctx (update_flip_iq ctx tick rnd) := by
  unfold update_flip_iq
  split_ifs
  · exact paced_refl ctx
  · apply paced_of_pace
    have e1 : pace (flip_iq_speed_adjust tick (stamped ctx tick)).ctx = pace ctx := by
      rcases flip_iq_speed_adjust_frozen ctx tick now hc with e | e
      · rw [e]; rfl
      · rw [e]; rfl
    rw [pace_flip_iq_spawn, pace_flip_iq_balls, pace_flip_iq_round, pace_flip_iq_first_drop, e1]

/-! ### The timer and the reachable contexts -/

theorem paced_timer_update (ctx : GameContext) (st : Statics) (tick rnd : Nat → Nat) (now : Nat)
    (hc : ∀ k, tick k = now) : paced ctx (timer_update ctx st tick rnd).1 := by
  unfold timer_update
  cases hst : ctx.state with
  | ZERO_HERO => exact paced_of_pace (pace_update_zero_hero ctx tick rnd)
  | FLIP_ZIP => exact paced_update_flip_zip ctx tick rnd
  | LINE_CAR => exact paced_update_line_car ctx tick rnd now hc
  | FLIP_IQ => exact paced_update_flip_iq ctx tick rnd now hc
  | TECTONE_SIM => exact paced_of_pace (pace_update_tectone_sim ctx st tick rnd)
  | SPACE_FLIGHT => exact paced_of_pace (pace_update_space_flight ctx tick rnd)
  | LOADING => exact paced_refl ctx
  | TITLE => exact paced_refl ctx
  | ROTATE => exact paced_refl ctx
  | CREDITS => exact paced_refl ctx
  | PAUSE => exact paced_refl ctx

theorem paced_timer_callback (ctx : GameContext) (st : Statics) (now : Nat) (rnd : Nat → Nat) :
    paced ctx (timer_callback ctx st (fun _ => now) rnd).1 := by
  rcases pace_timer_callback ctx st (fun _ => now) rnd with e | e
  · exact paced_of_pace e
  · have h1 : paced ctx (advance_frame ctx) := paced_of_pace (by rfl)
    have h2 := paced_timer_update (advance_frame ctx) st (fun _ => now) rnd now (fun _ => rfl)
    exact paced_trans (paced_trans h1 h2) (paced_of_pace e)

theorem frozen_speed_ok (t0 t1 vp : Nat) (p : GameContext × Statics) (h : Frozen t0 t1 vp p) :
    speed_ok p.1 := by
  induction h with
  | start =>
    show speed_ok (initial_context t0 t1 vp)
    have e : (initial_context t0 t1 vp).speed_bpm = 0 := rfl
    unfold speed_ok
    rw [e]
    decide
  | main_loop p now _ ih => exact paced_of_pace (pace_main_loop_step p.1 now) ih
  | input p input now rnd _ ih => exact paced_input_callback p.1 input _ rnd ih
  | timer p now rnd _ ih => exact paced_timer_callback p.1 p.2 now rnd ih
  | render p now _ ih => exact paced_of_pace (pace_render_callback p.1 _) ih

/-- C34. When the tick counter does not advance within one invocation of a callback, in every
context reachable from the initial one (passes of the main loop, invocations of the three
callbacks, any events, clock values and outcomes of `rand()`) `speed_bpm` is a multiple of 10
with `0 <= speed_bpm <= 120`, so the divisor `speed_bpm - MIN_SPEED_BPM + 1` of the speed bar
of `draw_flip_zip` is not zero. On the way: with such a clock the speed adjustments of
`update_line_car` and `update_flip_iq` run neither of their nudges (they read the clock once
or not at all and write nothing), the drift slowdown of `update_line_car` subtracts 0 in a
reachable context, and the brake of Line Car is never reached, its branch being the Back
handling over the other statements. -/
theorem speed_stays_multiple_of_ten (t0 t1 vp : Nat) (p : GameContext × Statics)
    (h : Frozen t0 t1 vp p) :
    (0 ≤ p.1.speed_bpm ∧ p.1.speed_bpm ≤ 120 ∧ p.1.speed_bpm % 10 = 0) ∧
    speed_bar_divisor p.1 ≠ 0 ∧
    (∀ now : Nat,
      (line_car_speed_adjust (fun _ => now) (stamped p.1 (fun _ => now)) =
          (stamped p.1 (fun _ => now)).read ∨
        line_car_speed_adjust (fun _ => now) (stamped p.1 (fun _ => now)) =
          stamped p.1 (fun _ => now)) ∧
      (flip_iq_speed_adjust (fun _ => now) (stamped p.1 (fun _ => now)) =
          (stamped p.1 (fun _ => now)).read ∨
        flip_iq_speed_adjust (fun _ => now) (stamped p.1 (fun _ => now)) =
          stamped p.1 (fun _ => now))) ∧
    (line_car_drift_slowdown p.1).speed_bpm = p.1.speed_bpm ∧
    (∀ (input : InputEvent) (now now2 : Nat),
      input_line_car p.1 input now now2 =
        game_state_back p.1 input now
          (line_car_up input (line_car_right input now now2
            (line_car_left input now now2 (lane_key_hold input p.1))))) := by
  have hok := frozen_speed_ok t0 t1 vp p h
  refine ⟨hok, ?_, fun now => ⟨line_car_speed_adjust_frozen p.1 _ now (fun _ => rfl),
    flip_iq_speed_adjust_frozen p.1 _ now (fun _ => rfl)⟩,
    line_car_drift_slowdown_pace p.1 (by have := hok.2.1; omega),
    fun input now now2 => line_car_brake_dead p.1 input now now2⟩
  unfold speed_bar_divisor MIN_SPEED_BPM
  obtain ⟨_, _, h3⟩ := hok
  omega

/-- A context reached in Flip Zip with the clock frozen within each callback: the divisor of
the speed bar is not zero. -/
theorem speed_stays_multiple_of_ten_witness :
    frozen_example.1.state = GameState.FLIP_ZIP ∧ speed_bar_divisor frozen_example.1 ≠ 0 :=
  ⟨by decide,
   (speed_stays_multiple_of_ten 0 0 1 frozen_example
    (Frozen.timer _ 7000 rand_zero (Frozen.timer _ 7000 rand_zero (Frozen.timer _ 7000 rand_zero
      (Frozen.input _ press_ok 6000 rand_zero (Frozen.input _ short_ok 5000 rand_zero
        (Frozen.input _ short_right 4000 rand_zero
          (Frozen.main_loop _ 3000 Frozen.start)))))))).2.1⟩

end Nah2Nah3
